import Mathlib

/-!
# StcsChan

A shallow embedding of the STC-S channel of the AST library (file stcschan.c):
the word reader (GetNextWord, ContextFragment), the decoder state machine (Read)
and the property serialiser (AddItem, WriteProps), followed by theorems about them.

Conventions of the embedding.

* A C string pointer is an `Option String`; `none` is the NULL pointer.
* A `double` is a rational number, and `none` stands for the flag value AST__BAD.
* The inherited status is a value of `Status`.  Every AST library call is a no-op
  once the status is not `ok`, exactly as in the library.
* Library functions that live outside stcschan.c (number and date parsing, the
  geometry of a Frame, simplification of Regions) are fields of `Env`.
-/

namespace StcsChan

/-! ## Module macros -/

def NULL_ID : Nat := 1
def TIME_INTERVAL_ID : Nat := 2
def START_TIME_ID : Nat := 3
def STOP_TIME_ID : Nat := 4
def POSITION_INTERVAL_ID : Nat := 5
def ALL_SKY_ID : Nat := 6
def CIRCLE_ID : Nat := 7
def ELLIPSE_ID : Nat := 8
def BOX_ID : Nat := 9
def POLYGON_ID : Nat := 10
def CONVEX_ID : Nat := 11
def POSITION_ID : Nat := 12
def TIME_ID : Nat := 13
def SPECTRAL_INTERVAL_ID : Nat := 14
def SPECTRAL_ID : Nat := 15
def REDSHIFT_INTERVAL_ID : Nat := 16
def REDSHIFT_ID : Nat := 17
def VELOCITY_INTERVAL_ID : Nat := 18

/-- The number of words kept for the extract quoted in messages. -/
def NEWORD : Nat := 10

/-! ## The word reader -/

/-- The C library function isspace, in the C locale. -/
def isspace (c : Char) : Bool :=
  c = ' ' || c = '\t' || c = '\n' || c = '\r' || c = Char.ofNat 11 || c = Char.ofNat 12

/-- The struct WordContext.  The field `e` holds the text that starts at the pointer
`con->e` (the character at that address included); `line` is the current line. -/
structure WordContext where
  line : Option String
  e : Option (List Char)
  done : Bool
  words : List (Option String)
  next : Nat
deriving DecidableEq, Repr

/-- GetNextWord called with a NULL channel: initialise the context. -/
def initContext : WordContext :=
  { line := none, e := none, done := false, words := List.replicate NEWORD none, next := 0 }

/-- Step over white space: `while( *result && isspace( *result ) ) result++`. -/
def skipSpace (cs : List Char) : List Char := cs.dropWhile isspace

/-- Store a word in the cyclic list and advance `next`, wrapping at NEWORD. -/
def WordContext.store (con : WordContext) (w : String) : WordContext :=
  { con with words := con.words.set con.next (some w),
             next := if con.next + 1 = NEWORD then 0 else con.next + 1 }

/-- GetNextWord with a channel.  The first argument is the list of lines that the
channel source (astGetNextText) has still to deliver; the result is the word (NULL is
`none`), the lines left in the source, and the updated context.

Two places of the C code read memory they do not own, and the embedding fixes a
reading for them: after the source is exhausted `con->e` keeps pointing into the freed
line, which is taken to keep its old text; and for a new line without any word the scan
`con->e = result + 1` starts behind the terminator, which is taken to find a null
character there (so the word is the empty string and `con->e` becomes NULL). -/
def GetNextWord (this : List String) (con : WordContext) :
    Option String × List String × WordContext :=
  let result0 : Option (List Char) := con.e.map skipSpace
  let exhausted : Bool := match result0 with
    | none => true
    | some cs => cs.isEmpty
  let fetched : Option (List Char) × List String × WordContext :=
    if exhausted then
      match this with
      | [] => (none, [], { con with line := none })
      | l :: rest => (some (skipSpace l.data), rest, { con with line := some l })
    else (result0, this, con)
  match fetched with
  | (some (c :: cs), src, con1) =>
      let w := String.mk (c :: cs.takeWhile (fun x => !isspace x))
      let e1 : Option (List Char) := match cs.dropWhile (fun x => !isspace x) with
        | [] => none
        | _ :: t => some (' ' :: t)
      (some w, src, { con1 with e := e1 }.store w)
  | (some [], src, con1) => (some "", src, { con1 with e := none }.store "")
  | (none, src, con1) => (if con1.done then none else some "", src, con1)

/-- ContextFragment: the words of the cyclic list, oldest first, separated by single
spaces, the last trailing space removed. -/
def ContextFragment (con : WordContext) : String :=
  let order := (List.range NEWORD).map (fun i => (con.next + i) % NEWORD)
  let buf := order.foldl (fun (acc : List Char) j =>
    match con.words.getD j none with
    | some w => acc ++ w.data ++ [' ']
    | none => acc) []
  String.mk buf.dropLast

/-! ## KeyMaps of text properties -/

/-- A KeyMap holding string values (the properties of one sub-phrase). -/
structure KeyMap where
  entries : List (String × String)
deriving DecidableEq, Repr

/-- The empty KeyMap made by astKeyMap. -/
def KeyMap.empty : KeyMap := ⟨[]⟩

/-- The library call astMapHasKey. -/
def KeyMap.hasKey (km : KeyMap) (key : String) : Bool := km.entries.any (fun p => p.1 = key)

/-- The library call astMapGet0C. -/
def KeyMap.get (km : KeyMap) (key : String) : Option String :=
  (km.entries.find? (fun p => p.1 = key)).map Prod.snd

/-- The library call astMapPut0C: replace the value of an existing key, otherwise add. -/
def KeyMap.put (km : KeyMap) (key value : String) : KeyMap :=
  if km.hasKey key then ⟨km.entries.map (fun p => if p.1 = key then (key, value) else p)⟩
  else ⟨km.entries ++ [(key, value)]⟩

/-- The library call astMapRemove. -/
def KeyMap.remove (km : KeyMap) (key : String) : KeyMap :=
  ⟨km.entries.filter (fun p => p.1 ≠ key)⟩

/-- The library call astMapSize. -/
def KeyMap.size (km : KeyMap) : Nat := km.entries.length

/-! ## Frames and Regions (the data the geometry library is asked to build) -/

/-- Time scales of a TimeFrame.  `BADTS` is the value 0 that `ts` is initialised to. -/
inductive TimeScale
| BADTS | TAI | UTC | TT | TDB | TCG | TCB | LMST
deriving DecidableEq, Repr

/-- Values of the System attribute used by the channel.  `unset` is the value 0 that
`sys` is initialised to. -/
inductive System
| unset | UNKNOWN | ICRS | FK5 | FK4 | ECLIPTIC | GALACTIC | SUPERGALACTIC
| FREQ | WAVELEN | ENERGY | VOPTICAL | VRADIO | VREL | REDSHIFT
deriving DecidableEq, Repr

/-- Standards of rest of a SpecFrame. -/
inductive StdOfRest
| BADSOR | GESOR | BYSOR | HLSOR | TPSOR | LKSOR | LDSOR | GLSOR
deriving DecidableEq, Repr

/-- The class of a Frame. -/
inductive FrameClass
| Frame | SkyFrame | TimeFrame | SpecFrame
deriving DecidableEq, Repr

/-- The attributes of a Frame that the channel sets.  An attribute that has not been
set is `none` and keeps the default of its class (for the TimeScale of a TimeFrame
that default is TAI). -/
structure AstFrame where
  cls : FrameClass
  naxes : Nat
  domain : Option String := none
  system : Option System := none
  timeScale : Option TimeScale := none
  stdOfRest : Option StdOfRest := none
  units : List (Option String) := []
  activeUnit : Bool := false
  epoch : Option ℚ := none
  timeOrigin : Option ℚ := none
deriving DecidableEq, Repr

/-- The constructor call astTimeFrame with no options. -/
def astTimeFrame : AstFrame := { cls := .TimeFrame, naxes := 1 }
/-- The constructor call astSkyFrame with no options. -/
def astSkyFrame : AstFrame := { cls := .SkyFrame, naxes := 2 }
/-- The constructor call astFrame with no options. -/
def astFrame (naxes : Nat) : AstFrame := { cls := .Frame, naxes := naxes }
/-- The constructor call astSpecFrame; the optional argument is the Domain option. -/
def astSpecFrame (domain : Option String) : AstFrame :=
  { cls := .SpecFrame, naxes := 1, domain := domain }

/-- The uncertainty Box made by `astBox( frm, 0, centre, corner )` in SetUnc. -/
structure UncBox where
  centre : List ℚ
  corner : List ℚ
deriving DecidableEq, Repr

/-- The shape of a Region, as given to its constructor. -/
inductive Shape
| interval (lo hi : Option ℚ)
| box (form : Nat) (p1 p2 : List ℚ)
| nullRegion (negated : Bool)
| circle (centre : List ℚ) (radius : ℚ)
| ellipse (centre : List ℚ) (radii : List ℚ) (pa : ℚ)
| polygon (npnt : Nat) (points : List ℚ)
| pointList (pos : List ℚ)
deriving DecidableEq, Repr

/-- A Region: a shape in a Frame with a fill factor and an uncertainty, or the Prism of
two Regions. -/
inductive Region
| basic (frm : AstFrame) (shape : Shape) (fill : Option ℚ) (unc : Option UncBox)
| prism (a b : Region)
deriving DecidableEq, Repr

/-- The library call astSetFillFactor. -/
def Region.setFillFactor : Region → ℚ → Region
  | .basic f sh _ u, v => .basic f sh (some v) u
  | r, _ => r

/-- The library call astSetUnc. -/
def Region.setUnc : Region → UncBox → Region
  | .basic f sh fl _, u => .basic f sh fl (some u)
  | r, _ => r

/-- The library functions and constants that stcschan.c uses and does not define. -/
structure Env where
  /-- The memory module function astChr2Double on a non-null string; `none` is AST__BAD. -/
  chr2Double : String → Option ℚ
  /-- The method astUnformat of a TimeFrame on axis 0; `none` when no character is read. -/
  unformat : AstFrame → String → Option ℚ
  /-- The conversion of an epoch to the TDB time scale (astConvert and astTran1). -/
  toTDB : AstFrame → ℚ → ℚ
  /-- The constant AST__DD2R (degrees to radians). -/
  DD2R : ℚ
  /-- The constant AST__DPI. -/
  DPI : ℚ
  /-- The constant AST__DPIBY2. -/
  DPIBY2 : ℚ
  /-- The method astOffset2: the bearing at the end point, and the end point. -/
  offset2 : AstFrame → List ℚ → ℚ → ℚ → ℚ × List ℚ
  /-- The method astIntersect. -/
  intersect : AstFrame → List ℚ → List ℚ → List ℚ → List ℚ → List ℚ
  /-- The method astDistance. -/
  distance : AstFrame → List ℚ → List ℚ → ℚ
  /-- The method astOffset. -/
  offset : AstFrame → List ℚ → List ℚ → ℚ → List ℚ
  /-- The method astAxDistance; `none` is AST__BAD. -/
  axDistance : AstFrame → Nat → ℚ → ℚ → Option ℚ
  /-- The method astRegBaseBox: lower and upper bounds. -/
  regBaseBox : Region → List ℚ × List ℚ
  /-- The method astSimplify on a Region. -/
  simplify : Region → Region

/-! ## The state of Read -/

/-- The inherited status.  `badin`, `attin` and `inter` are the error codes given to
astError; `fault` records that the C code used a null pointer (a word, a KeyMap, a
Frame or a text buffer that does not exist) or wrote in front of a buffer, after which
its behaviour is undefined; `hang` records that an inner loop of the C code would not
stop. -/
inductive Status
| ok | badin | attin | inter | fault | hang
deriving DecidableEq, Repr

/-- A warning handed to astAddWarning: the level, the format and its arguments. -/
structure Warning where
  level : Nat
  text : String
  args : List String
deriving DecidableEq, Repr

/-- The enumeration look_for_type. -/
inductive LookFor
| ALLSKY | BOX | CIRCLE | CONVEX | ELLIPSE | ERROR | FILL_FACTOR | FLAVOUR | FRAME
| LIMITS | PIX_SIZE | POLYGON | POSITION | POSITION_INTERVAL | POSITION_LABEL
| REDSHIFT_IDENTIFIER | RED_SPEC_LABEL | RED_SPEC_VALUE | REFPOS | RESOLUTION | SIZE
| SPACE_IDENTIFIER | SPECTRAL_IDENTIFIER | START | STOP | TIME | TIME_IDENTIFIER
| TIME_LABEL | TIME_SCALE | TYPE_DOPPLER | UNIT | VELOCITY_IDENTIFIER | VELOCITY_VALUE
deriving DecidableEq, Repr

/-- Which of the four sub-phrase KeyMaps the pointer `props` refers to. -/
inductive PropsSel
| time | space | spec | red
deriving DecidableEq, Repr

/-- The local variables of Read, with the lines left in the channel source (`source`),
the warnings issued so far and a flag telling that the main loop was left by its
`break`. -/
structure State where
  source : List String
  con : WordContext
  word : Option String
  status : Status := .ok
  warnings : List Warning := []
  look_for : LookFor := .TIME_IDENTIFIER
  new_word : Bool := true
  broke : Bool := false
  time_props : KeyMap := KeyMap.empty
  space_props : KeyMap := KeyMap.empty
  spec_props : KeyMap := KeyMap.empty
  red_props : KeyMap := KeyMap.empty
  props : Option PropsSel := none
  prop : Option (List Char) := none
  nc : Nat := 0
  timeid : Nat := NULL_ID
  spaceid : Nat := NULL_ID
  velid : Nat := NULL_ID
  specid : Nat := NULL_ID
  redid : Nat := NULL_ID
  timefrm : Option AstFrame := none
  spacefrm : Option AstFrame := none
  specfrm : Option AstFrame := none
  redfrm : Option AstFrame := none
  time_enc : Option Region := none
  time_co : Option Region := none
  space_enc : Option Region := none
  space_co : Option Region := none
  spec_enc : Option Region := none
  spec_co : Option Region := none
  red_enc : Option Region := none
  red_co : Option Region := none
  epoch : Option ℚ := none
  fill : Option ℚ := none
  start : Option ℚ := none
  stop : Option ℚ := none
  time : Option ℚ := none
  time_origin : Option ℚ := none
  value : Option ℚ := none
  lolim : Option ℚ := none
  hilim : Option ℚ := none
  scale : ℚ := 1
  err : Option (List ℚ) := none
  pos : Option (List ℚ) := none
  centre : List ℚ := []
  bsize : List ℚ := []
  slolim : List ℚ := []
  shilim : List ℚ := []
  radius : ℚ := 0
  radius2 : ℚ := 0
  pa : ℚ := 0
  vertices : List ℚ := []
  nvert : Nat := 0
  naxes : Nat := 0
  is_skyframe : Bool := false
  isvel : Bool := false
  sys : System := .unset
  ts : TimeScale := .BADTS
  sor : StdOfRest := .BADSOR
  frame : Option String := none
  unit : Option String := none
  subphrase : Option String := none
  use_co : Bool := false
  use_enc : Bool := false

/-- The test astOK. -/
def State.astOK (s : State) : Bool := decide (s.status = .ok)

/-- The call `word = GetNextWord( this, &con, status )`; GetNextWord returns NULL
without touching the context when the status is bad. -/
def State.nextWord (s : State) : State :=
  { s with
    word := if s.status = .ok then (GetNextWord s.source s.con).1 else none,
    source := if s.status = .ok then (GetNextWord s.source s.con).2.1 else s.source,
    con := if s.status = .ok then (GetNextWord s.source s.con).2.2 else s.con }

/-- The call astError with the given error code (the first error sets the status). -/
def State.raise (s : State) (code : Status) : State :=
  { s with status := if s.status = .ok then code else s.status }

/-- Record that a null pointer was used. -/
def State.crash (s : State) : State := s.raise .fault

/-- The call astAddWarning: the warning is added when the status is good. -/
def State.warn (s : State) (level : Nat) (text : String) (args : List String) : State :=
  { s with warnings :=
      if s.status = .ok then s.warnings ++ [⟨level, text, args⟩] else s.warnings }

/-- The call `astChr2Double( word )`, which gives AST__BAD for a NULL string and when
the status is bad. -/
def State.chr2Double (env : Env) (s : State) : Option ℚ :=
  if s.status = .ok then s.word.bind env.chr2Double else none

/-- The text of the current word as printed by the format `%s`. -/
def State.wordText (s : State) : String := s.word.getD "(null)"

/-- The extract of the document quoted in messages. -/
def State.fragment (s : State) : String := ContextFragment s.con

/-- The KeyMap that `props` points to. -/
def State.curProps (s : State) : Option KeyMap :=
  s.props.map (fun sel => match sel with
    | .time => s.time_props
    | .space => s.space_props
    | .spec => s.spec_props
    | .red => s.red_props)

/-- The value stored by astMapPut0C in the KeyMap `km` when it is the KeyMap selected
by `props`, the status is good and the value is not NULL. -/
def putIf (s : State) (sel : PropsSel) (km : KeyMap) (key : String) (value : Option String) :
    KeyMap :=
  match value with
  | some v => if s.status = .ok ∧ s.props = some sel then km.put key v else km
  | none => km

/-- The call `astMapPut0C( props, key, value, NULL )`.  It needs a KeyMap and a string:
a NULL `props` or a NULL value is a fault. -/
def State.mapPut (s : State) (key : String) (value : Option String) : State :=
  { s with
    time_props := putIf s .time s.time_props key value,
    space_props := putIf s .space s.space_props key value,
    spec_props := putIf s .spec s.spec_props key value,
    red_props := putIf s .red s.red_props key value,
    status := if s.status = .ok ∧ (s.props = none ∨ value = none) then .fault else s.status }

/-- The call `prop = astAppendString( prop, &nc, str )`: the text is written at offset
`nc`; nothing happens for a NULL string or a bad status, and `nc` restarts at 0 for a
NULL buffer. -/
def State.append (s : State) (str : Option String) : State :=
  { s with
    prop := match str with
      | some t =>
        if s.status = .ok then
          some ((s.prop.getD []).take (if s.prop = none then 0 else s.nc) ++ t.data)
        else s.prop
      | none => s.prop,
    nc := match str with
      | some t =>
        if s.status = .ok then (if s.prop = none then 0 else s.nc) + t.data.length
        else (if s.prop = none then 0 else s.nc)
      | none => if s.prop = none then 0 else s.nc }

/-- The statement `prop[ nc - 1 ] = 0`, which the C code executes whatever the status is.
With a NULL buffer it writes through a null pointer, and with `nc` equal to 0 it writes
in front of the buffer: both are recorded as a fault, which replaces any other status. -/
def State.chop (s : State) : State :=
  if s.prop = none ∨ s.nc = 0 then { s with status := .fault }
  else { s with prop := s.prop.map (fun b => b.take (s.nc - 1)) }

/-- The call `astMapPut0C( props, key, prop, NULL )`. -/
def State.mapPutProp (s : State) (key : String) : State :=
  s.mapPut key (s.prop.map String.mk)

/-- The number of characters the word reader can still deliver, used to bound the
inner loops. -/
def State.inputSize (s : State) : Nat :=
  (s.con.e.getD []).length + (s.source.map (fun l => l.length + 1)).sum

/-- One pass of the loops that read one number per axis:
`x[ iaxis ] = astChr2Double( word ); if( x[ iaxis ] == AST__BAD && astOK ) astError(..);
append the word and a space to prop; word = GetNextWord(..)`.
The values read are returned in order; a value that is AST__BAD is not recorded
(the status is then bad and the array is never used). -/
def axisLoop (env : Env) : Nat → State → State × List ℚ
  | 0, s => (s, [])
  | n + 1, s =>
    let v := s.chr2Double env
    let s1 := if v = none then s.raise .badin else s
    let s2 := ((s1.append s1.word).append (some " ")).nextWord
    let r := axisLoop env n s2
    (r.1, (match v with | some x => [x] | none => []) ++ r.2)

/-- The loop `while( astChr2Double( word ) != AST__BAD ) { append the word and a space to
prop; count; word = GetNextWord(..) }`; the count of passes is returned.  The first
argument bounds the number of passes; when it is used up the C loop would not stop. -/
def numberRun (env : Env) : Nat → State → State × Nat
  | 0, s => (if (s.chr2Double env).isSome then s.raise .hang else s, 0)
  | fuel + 1, s =>
    if (s.chr2Double env).isSome then
      let s1 := ((s.append s.word).append (some " ")).nextWord
      let r := numberRun env fuel s1
      (r.1, r.2 + 1)
    else (s, 0)

/-- The Region constructors give NULL when the status is bad. -/
def mkRegion (ok : Bool) (frm : AstFrame) (sh : Shape) : Option Region :=
  if ok then some (.basic frm sh none none) else none

/-- SinglePointList: a PointList holding one position. -/
def SinglePointList (ok : Bool) (frm : AstFrame) (pos : List ℚ) : Option Region :=
  mkRegion ok frm (.pointList (pos.take frm.naxes))

/-- SetUnc: make a Box centred on a representative position of the Region, with the
scaled error values as half-widths, and store it as the uncertainty of both Regions.
Entries of the error array that were never assigned read as 0. -/
def SetUnc (env : Env) (ok : Bool) (reg1 reg2 : Option Region) (frm : AstFrame)
    (is_skyframe : Bool) (scale : ℚ) (error : Option (List ℚ)) (nax : Nat) :
    Option Region × Option Region :=
  match ok, error, (reg1 <|> reg2) with
  | true, some err, some r =>
    let bnd := env.regBaseBox r
    let dist := env.distance frm bnd.1 bnd.2
    let spos1 := env.offset frm bnd.1 bnd.2 (dist / 2)
    let err1 : List (Option ℚ) := (List.range nax).map (fun i => some (err.getD i 0 * scale))
    let err2 : List (Option ℚ) :=
      if is_skyframe then
        let spos2 := (env.offset2 frm spos1 env.DPIBY2 ((err1.getD 0 none).getD 0)).2
        err1.set 0 ((env.axDistance frm 1 (spos1.getD 0 0) (spos2.getD 0 0)).map (fun x => |x|))
      else err1
    let corner : List ℚ := (List.range nax).map
      (fun i => ((err2.getD i none).getD 0) + spos1.getD i 0)
    let unc : UncBox := ⟨spos1, corner⟩
    (reg1.map (fun x => x.setUnc unc), reg2.map (fun x => x.setUnc unc))
  | _, _, _ => (reg1, reg2)

/-- BoxCorners: the four corners of an STC Box as the vertex array of astPolygon
(first the four values of axis 1, then those of axis 2).  The result is NULL when the
Frame does not have two axes (the caller then sees the error that is reported). -/
def BoxCorners (env : Env) (frm : AstFrame) (centre bsize : List ℚ) : Option (List ℚ) :=
  if frm.naxes ≠ 2 then none
  else
    let b0 := bsize.getD 0 0
    let b1 := bsize.getD 1 0
    let rv := env.offset2 frm centre env.DPIBY2 (b0 / 2)
    let rv2 := (env.offset2 frm rv.2 (rv.1 + env.DPIBY2) (b1 / 2)).2
    let lv := env.offset2 frm centre (-env.DPIBY2) (b0 / 2)
    let lv2 := (env.offset2 frm lv.2 (lv.1 + env.DPIBY2) (b1 / 2)).2
    let th := env.offset2 frm centre 0 (b1 / 2)
    let th2 := (env.offset2 frm th.2 (th.1 + env.DPIBY2) (b0 / 2)).2
    let bh := env.offset2 frm centre env.DPI (b1 / 2)
    let bh2 := (env.offset2 frm bh.2 (bh.1 + env.DPIBY2) (b0 / 2)).2
    let tlc := env.intersect frm lv.2 lv2 th.2 th2
    let trc := env.intersect frm rv.2 rv2 th.2 th2
    let blc := env.intersect frm lv.2 lv2 bh.2 bh2
    let brc := env.intersect frm rv.2 rv2 bh.2 bh2
    let x := fun (p : List ℚ) => p.getD 0 0
    let y := fun (p : List ℚ) => p.getD 1 0
    if frm.cls = .SkyFrame then
      some [x tlc, x trc, x brc, x blc, y tlc, y trc, y brc, y blc]
    else
      some [x blc, x brc, x trc, x tlc, y blc, y brc, y trc, y tlc]

/-- Multiply the first `n` entries of an array by a factor. -/
def scaleFirst (n : Nat) (k : ℚ) (xs : List ℚ) : List ℚ :=
  (xs.take n).map (fun x => x * k) ++ xs.drop n

/-- The Regions and flags that the finalisation of a sub-phrase produces. -/
structure SubRegions where
  enc : Option Region
  co : Option Region
  use_enc : Bool
  use_co : Bool
  fill : Option ℚ

/-- The statement `if( enc && fill != AST__BAD ) { astSetFillFactor( enc, fill ); fill =
AST__BAD; }`: the Region and the fill factor after it. -/
def applyFill (enc : Option Region) (fill : Option ℚ) : Option Region × Option ℚ :=
  match enc, fill with
  | some r, some f => (some (r.setFillFactor f), none)
  | e, fl => (e, fl)

/-- The time Frame completed with the epoch (converted to TDB) and the time origin. -/
def timeFrameFinal (env : Env) (s : State) (tf0 : AstFrame) : AstFrame :=
  match s.epoch with
  | some ep =>
    { tf0 with epoch := some (if s.ts ≠ .TDB then env.toTDB tf0 ep else ep),
               timeOrigin := some ep }
  | none => tf0

/-- A time value made relative to the time origin (the epoch found first). -/
def relTime (s : State) (x : Option ℚ) : Option ℚ :=
  match s.epoch with
  | some t0 => x.map (fun v => v - t0)
  | none => x

/-- The Regions of the time sub-phrase, built in the finished TimeFrame `tf` from the
relative start, stop and time values. -/
def timeRegions (env : Env) (s : State) (tf : AstFrame) : SubRegions :=
  let start := relTime s s.start
  let stop := relTime s s.stop
  let time := relTime s s.time
  let enc : Option Region :=
    if start ≠ none ∨ stop ≠ none then mkRegion s.astOK tf (.interval start stop)
    else match time with
      | some t => SinglePointList s.astOK tf [t]
      | none => s.time_enc
  let co : Option Region := match time with
    | some t => SinglePointList s.astOK tf [t]
    | none => s.time_co
  let filled := applyFill enc s.fill
  let u := SetUnc env s.astOK filled.1 co tf false s.scale s.err 1
  { enc := u.1, co := u.2,
    use_enc := if start ≠ none ∨ stop ≠ none then true else s.use_enc,
    use_co := if time ≠ none then true else s.use_co,
    fill := filled.2 }

/-- The finalisation of the time sub-phrase, done on entry to the SPACE_IDENTIFIER
state: epoch and time origin, the time Regions, fill factor and uncertainty.  Without a
TimeFrame only the epoch is treated, and converting it needs the TimeFrame (a fault). -/
def finishTime (env : Env) (s : State) : State :=
  match s.timefrm with
  | none =>
    { s with time_origin := s.epoch,
             status := if s.epoch ≠ none ∧ s.ts ≠ .TDB ∧ s.status = .ok then .fault
                       else s.status }
  | some tf0 =>
    let r := timeRegions env s (timeFrameFinal env s tf0)
    { s with time_origin := s.epoch,
             epoch := s.epoch.map (fun ep => if s.ts ≠ .TDB then env.toTDB tf0 ep else ep),
             start := relTime s s.start, stop := relTime s s.stop, time := relTime s s.time,
             time_enc := r.enc, time_co := r.co, use_enc := r.use_enc, use_co := r.use_co,
             fill := r.fill, timefrm := none }

/-- The values that the choice of the space enclosure changes. -/
structure SpaceFinal where
  use_enc : Bool
  slolim : List ℚ
  shilim : List ℚ
  centre : List ℚ
  bsize : List ℚ
  radius : ℚ
  pa : ℚ
  vertices : List ℚ
  pos : Option (List ℚ)
  space_enc : Option Region
  status : Status

/-- The enclosure Region of the space sub-phrase, chosen by the sub-phrase identifier;
the supplied axis values are scaled into the units of the Frame. -/
def spaceEnclosure (env : Env) (s : State) (frm : AstFrame) : SpaceFinal :=
  let b : SpaceFinal :=
    { use_enc := s.use_enc, slolim := s.slolim, shilim := s.shilim, centre := s.centre,
      bsize := s.bsize, radius := s.radius, pa := s.pa, vertices := s.vertices, pos := s.pos,
      space_enc := s.space_enc, status := s.status }
  if s.spaceid = POSITION_INTERVAL_ID then
    let lo := scaleFirst s.naxes s.scale s.slolim
    let hi := scaleFirst s.naxes s.scale s.shilim
    { b with use_enc := true, slolim := lo, shilim := hi,
             space_enc := mkRegion s.astOK frm (.box 1 lo hi) }
  else if s.spaceid = ALL_SKY_ID then
    { b with use_enc := true, space_enc := mkRegion s.astOK frm (.nullRegion true) }
  else if s.spaceid = CIRCLE_ID then
    let c := scaleFirst s.naxes s.scale s.centre
    let r := s.radius * s.scale
    { b with use_enc := true, centre := c, radius := r,
             space_enc := mkRegion s.astOK frm (.circle c r) }
  else if s.spaceid = ELLIPSE_ID then
    let c := scaleFirst s.naxes s.scale s.centre
    let radii := [s.radius * s.scale, s.radius2 * s.scale]
    let pa := (if s.is_skyframe then s.pa else 90 - s.pa) * env.DD2R
    { b with use_enc := true, centre := c, shilim := radii, pa := pa,
             space_enc := mkRegion s.astOK frm (.ellipse c radii pa) }
  else if s.spaceid = BOX_ID then
    let c := scaleFirst s.naxes s.scale s.centre
    let bs := scaleFirst s.naxes s.scale s.bsize
    match BoxCorners env frm c bs with
    | some v =>
      { b with use_enc := true, centre := c, bsize := bs, vertices := [],
               space_enc := mkRegion s.astOK frm (.polygon 4 v) }
    | none =>
      { b with use_enc := true, centre := c, bsize := bs, vertices := [], space_enc := none,
               status := if s.status = .ok then .badin else s.status }
  else if s.spaceid = POLYGON_ID then
    let v := scaleFirst (s.nvert * s.naxes) s.scale s.vertices
    { b with use_enc := true, vertices := [],
             space_enc := mkRegion s.astOK frm (.polygon s.nvert v) }
  else if s.spaceid = POSITION_ID then
    let p := scaleFirst s.naxes s.scale (s.pos.getD [])
    { b with pos := s.pos.map (fun _ => p), space_enc := SinglePointList s.astOK frm p }
  else b

/-- The finalisation of the space sub-phrase, done on entry to the VELOCITY_IDENTIFIER
state. -/
def finishSpace (env : Env) (s : State) : State :=
  match s.spacefrm with
  | none => s
  | some f0 =>
    let frm : AstFrame := match s.epoch with
      | some ep => { f0 with epoch := some ep }
      | none => f0
    let e := spaceEnclosure env s frm
    let ok : Bool := decide (e.status = .ok)
    let pos := e.pos.map (scaleFirst s.naxes s.scale)
    let co : Option Region := match pos with
      | some p => SinglePointList ok frm p
      | none => s.space_co
    let filled := applyFill e.space_enc s.fill
    let u := SetUnc env ok filled.1 co frm s.is_skyframe s.scale s.err s.naxes
    { s with use_enc := e.use_enc, slolim := e.slolim, shilim := e.shilim, centre := e.centre,
             bsize := e.bsize, radius := e.radius, pa := e.pa, vertices := e.vertices,
             status := e.status, pos := pos, use_co := if pos = none then false else s.use_co,
             space_enc := u.1, space_co := u.2, fill := filled.2, spacefrm := none }

/-- The Regions of a spectral or redshift sub-phrase, from its SpecFrame, its
identifier and the two identifiers of its kind. -/
def specRegions (env : Env) (s : State) (f0 : AstFrame) (id intervalId pointId : Nat)
    (enc0 co0 : Option Region) : SubRegions :=
  let f1 : AstFrame := match s.epoch with
    | some ep => { f0 with epoch := some ep }
    | none => f0
  let frm : AstFrame := if s.sor ≠ .BADSOR then { f1 with stdOfRest := some s.sor } else f1
  let enc : Option Region :=
    if id = intervalId then mkRegion s.astOK frm (.interval s.lolim s.hilim)
    else if id = pointId then SinglePointList s.astOK frm s.value.toList
    else enc0
  let co : Option Region := match s.value with
    | some v => SinglePointList s.astOK frm [v]
    | none => co0
  let filled := applyFill enc s.fill
  let u := SetUnc env s.astOK filled.1 co frm false s.scale s.err 1
  { enc := u.1, co := u.2,
    use_enc := if id = intervalId then true else s.use_enc,
    use_co := if s.value = none then false else s.use_co,
    fill := filled.2 }

/-- The finalisation of the spectral sub-phrase, done on entry to the
REDSHIFT_IDENTIFIER state. -/
def finishSpec (env : Env) (s : State) : State :=
  match s.specfrm with
  | none => s
  | some f0 =>
    let r := specRegions env s f0 s.specid SPECTRAL_INTERVAL_ID SPECTRAL_ID s.spec_enc s.spec_co
    { s with spec_enc := r.enc, spec_co := r.co, use_enc := r.use_enc, use_co := r.use_co,
             fill := r.fill, specfrm := none }

/-- The finalisation of the redshift sub-phrase, done after the main loop. -/
def finishRed (env : Env) (s : State) : State :=
  match s.redfrm with
  | none => s
  | some f0 =>
    let r := specRegions env s f0 s.redid REDSHIFT_INTERVAL_ID REDSHIFT_ID s.red_enc s.red_co
    { s with red_enc := r.enc, red_co := r.co, use_enc := r.use_enc, use_co := r.use_co,
             fill := r.fill, redfrm := none }

/-! ## The states of the main loop of Read

Each function below is the body of one branch of the `if( look_for == ... )` chain.
Its last argument is the current word, which the loop condition guarantees to exist. -/

/-- The branch for TIME_IDENTIFIER.  The assignment `timeid = TIME_ID` of the source
stands inside a comment that starts on the line before it, so it is not executed. -/
def stepTimeIdentifier (s : State) (w : String) : State :=
  let s := { s with look_for := .FILL_FACTOR }
  let s :=
    if w = "TimeInterval" then { s with timeid := TIME_INTERVAL_ID }
    else if w = "StartTime" then { s with timeid := START_TIME_ID }
    else if w = "StopTime" then { s with timeid := STOP_TIME_ID }
    else if w = "Time" then { s with look_for := .TIME_SCALE }
    else { s with look_for := .SPACE_IDENTIFIER, new_word := false }
  if s.timeid ≠ NULL_ID then
    ({ s with timefrm := some astTimeFrame, subphrase := some "time",
              props := some .time }).mapPut "ID" (some w)
  else s

/-- The branch for SPACE_IDENTIFIER. -/
def stepSpaceIdentifier (env : Env) (s : State) (w : String) : State :=
  let s := finishTime env s
  let s := { s with err := none, timeid := NULL_ID, look_for := .FILL_FACTOR }
  let s :=
    if w = "PositionInterval" then { s with spaceid := POSITION_INTERVAL_ID }
    else if w = "AllSky" then { s with spaceid := ALL_SKY_ID }
    else if w = "Circle" then { s with spaceid := CIRCLE_ID }
    else if w = "Ellipse" then { s with spaceid := ELLIPSE_ID }
    else if w = "Box" then { s with spaceid := BOX_ID }
    else if w = "Polygon" then { s with spaceid := POLYGON_ID }
    else if w = "Convex" then { s with spaceid := CONVEX_ID }
    else if w = "Position" then { s with look_for := .FRAME, spaceid := POSITION_ID }
    else { s with look_for := .SPECTRAL_IDENTIFIER, new_word := false }
  if s.spaceid ≠ NULL_ID then
    ({ s with subphrase := some "space", props := some .space }).mapPut "ID" (some w)
  else s

/-- The branch for VELOCITY_IDENTIFIER. -/
def stepVelocityIdentifier (env : Env) (s : State) (w : String) : State :=
  let s := finishSpace env s
  let s := { s with spaceid := NULL_ID, err := none }
  if w = "VelocityInterval" then
    ({ s with velid := VELOCITY_INTERVAL_ID, look_for := .FILL_FACTOR,
              subphrase := some "velocity" }).warn 1
      "Ignoring unsupported VelocityInterval sub-phrase found in an STC-S description: '%s'."
      [s.fragment]
  else { s with look_for := .SPECTRAL_IDENTIFIER, new_word := false }

/-- The branch for SPECTRAL_IDENTIFIER. -/
def stepSpectralIdentifier (s : State) (w : String) : State :=
  let s := { s with velid := NULL_ID }
  let s :=
    if w = "SpectralInterval" then
      { s with look_for := .FILL_FACTOR, specid := SPECTRAL_INTERVAL_ID }
    else if w = "Spectral" then { s with look_for := .REFPOS, specid := SPECTRAL_ID }
    else { s with look_for := .REDSHIFT_IDENTIFIER, new_word := false }
  let s :=
    if s.specid ≠ NULL_ID then
      ({ s with specfrm := some (astSpecFrame none), subphrase := some "spectral",
                props := some .spec }).mapPut "ID" (some w)
    else s
  { s with value := none, lolim := none, hilim := none }

/-- The branch for REDSHIFT_IDENTIFIER. -/
def stepRedshiftIdentifier (env : Env) (s : State) (w : String) : State :=
  let s := finishSpec env s
  let s := { s with err := none, specid := NULL_ID }
  let s :=
    if w = "RedshiftInterval" then
      { s with look_for := .FILL_FACTOR, redid := REDSHIFT_INTERVAL_ID }
    else if w = "Redshift" then { s with look_for := .REFPOS, redid := REDSHIFT_ID }
    else if w ≠ "" then s.raise .badin
    else s
  let s :=
    if s.redid ≠ NULL_ID then
      ({ s with redfrm := if s.status = Status.ok then some (astSpecFrame (some "REDSHIFT")) else none,
                subphrase := some "redshift", props := some .red }).mapPut "ID" (some w)
    else s
  { s with value := none, lolim := none, hilim := none, con := { s.con with done := true } }

/-- The branch for FILL_FACTOR. -/
def stepFillFactor (env : Env) (s : State) (w : String) : State :=
  let s :=
    if w = "fillfactor" then
      let s := s.nextWord
      let s := { s with fill := s.chr2Double env }
      if s.fill = none then { (s.raise .badin) with new_word := false } else s
    else { s with new_word := false }
  let s := { s with look_for :=
    if s.timeid ≠ NULL_ID then LookFor.TIME_SCALE
    else if s.spaceid ≠ NULL_ID then LookFor.FRAME
    else if s.velid ≠ NULL_ID then LookFor.LIMITS
    else LookFor.REFPOS }
  if s.new_word then s.mapPut "FILLFACTOR" s.word else s

/-- The call `astSetTimeScale( timefrm, ts )`. -/
def State.setTimeScale (s : State) (ts : TimeScale) : State :=
  { s with
    timefrm := if s.status = .ok then
        s.timefrm.map (fun tf => { tf with timeScale := some ts })
      else s.timefrm,
    status := if s.status = .ok ∧ s.timefrm = none then .fault else s.status }

/-- The branch for TIME_SCALE. -/
def stepTimeScale (s : State) (w : String) : State :=
  let dflt := "Time scale defaulting to 'TAI' in an STC-S description: '%s'."
  let s := { s with ts := .BADTS }
  let r : State × Option String × Nat :=
    if w = "TT" then ({ s with ts := .TT }, none, 3)
    else if w = "TDT" then ({ s with ts := .TT }, some "TT", 3)
    else if w = "ET" then ({ s with ts := .TT }, some "TT", 3)
    else if w = "TAI" then ({ s with ts := .TAI }, none, 3)
    else if w = "IAT" then ({ s with ts := .TAI }, some "TAI", 3)
    else if w = "UTC" then ({ s with ts := .UTC }, none, 3)
    else if w = "TEB" then ({ s with ts := .TDB }, some "TDB", 1)
    else if w = "TDB" then ({ s with ts := .TDB }, none, 3)
    else if w = "TCG" then ({ s with ts := .TCG }, none, 3)
    else if w = "TCB" then ({ s with ts := .TCB }, none, 3)
    else if w = "LST" then ({ s with ts := .LMST }, none, 3)
    else if w = "nil" then (s.warn 2 dflt [s.fragment], none, 3)
    else ({ (s.warn 2 dflt [s.fragment]) with new_word := false }, none, 3)
  let s : State := match r.2.1 with
    | some new_ts => r.1.warn r.2.2
        "'%s' being used in place of unsupported time scale '%s' found in STC-S description: '%s'."
        [new_ts, w, r.1.fragment]
    | none => r.1
  let s := if s.ts ≠ .BADTS then s.setTimeScale s.ts else s
  let s := { s with look_for := .REFPOS }
  if s.new_word then s.mapPut "TIMESCALE" (some w) else s

/-- The branch for FRAME. -/
def stepFrame (s : State) (w : String) : State :=
  let s := { s with sys := .UNKNOWN }
  let s :=
    if w = "ICRS" then { s with sys := .ICRS }
    else if w = "FK5" then { s with sys := .FK5 }
    else if w = "FK4" then { s with sys := .FK4 }
    else if w = "J2000" then { s with sys := .FK5 }
    else if w = "B1950" then { s with sys := .FK4 }
    else if w = "ECLIPTIC" then { s with sys := .ECLIPTIC }
    else if w = "GALACTIC" then { s with sys := .GALACTIC }
    else if w = "GALACTIC_II" then { s with sys := .GALACTIC }
    else if w = "SUPER_GALACTIC" then { s with sys := .SUPERGALACTIC }
    else if w = "UNKNOWNFrame" then { s with sys := .UNKNOWN }
    else if w = "GEO_C" ∨ w = "GEO_D" then
      s.warn 1 "'UNKNOWNFrame' being used in place of unsupported frame '%s' in an STC-S description: '%s'."
        [w, s.fragment]
    else { s with new_word := false }
  let s := { s with look_for := .REFPOS, frame := some w }
  if s.new_word then s.mapPut "FRAME" (some w) else s

/-- The reference positions other than TOPOCENTER and UNKNOWNRefPos that the time and
space sub-phrases recognise. -/
def otherRefPos : List String :=
  ["HELIOCENTER", "BARYCENTER", "GEOCENTER", "GALACTIC_CENTER", "EMBARYCENTER", "MOON",
   "MERCURY", "VENUS", "MARS", "JUPITER", "SATURN", "URANUS", "NEPTUNE", "PLUTO"]

/-- The reference positions that a spectral or redshift sub-phrase recognises and
replaces by HELIOCENTER. -/
def unsupportedSpecRefPos : List String :=
  ["LOCAL_GROUP_CENTER", "EMBARYCENTER", "MOON", "MERCURY", "VENUS", "MARS", "JUPITER",
   "SATURN", "URANUS", "NEPTUNE", "PLUTO"]

/-- The branch for REFPOS in a time sub-phrase. -/
def stepRefPosTime (s : State) (w : String) : State :=
  let s :=
    if w = "TOPOCENTER" then s
    else if w = "UNKNOWNRefPos" then
      s.warn 1 "'TOPOCENTER' being used in place of time 'UNKNOWNRefPos' in an STC-S description: '%s'."
        [s.fragment]
    else if w ∈ otherRefPos then
      s.warn 1 "Unsupported time reference position '%s' found in STC-S description. Using 'TOPOCENTER' instead: '%s'."
        [w, s.fragment]
    else
      { (s.warn 2 "Time reference position defaulting to 'TOPOCENTER' in an STC-S description: '%s'."
          [s.fragment]) with new_word := false }
  { s with look_for :=
    if s.timeid = TIME_INTERVAL_ID then LookFor.START
    else if s.timeid = START_TIME_ID then LookFor.START
    else if s.timeid = STOP_TIME_ID then LookFor.STOP
    else LookFor.TIME }

/-- The branch for REFPOS in a space sub-phrase. -/
def stepRefPosSpace (s : State) (w : String) : State :=
  let s :=
    if s.sys ≠ .UNKNOWN then
      if w = "TOPOCENTER" then s
      else if w = "UNKNOWNRefPos" then
        s.warn 1 "'TOPOCENTER' being used in place of space 'UNKNOWNRefPos' in an STC-S description: '%s'."
          [s.fragment]
      else if w ∈ otherRefPos then
        s.warn 1 "'TOPOCENTER' being used in place of unsupported space reference 'position '%s' in an STC-S description: '%s'."
          [w, s.fragment]
      else
        { (s.warn 2 "Space reference position defaulting to 'TOPOCENTER' in an STC-S description: '%s'."
            [s.fragment]) with new_word := false }
    else
      if w = "TOPOCENTER" ∨ w = "UNKNOWNRefPos" ∨ w ∈ otherRefPos then
        s.warn 1 "Ignoring space reference position '%s' found in an STC-S description: '%s'."
          [w, s.fragment]
      else { s with new_word := false }
  { s with look_for := .FLAVOUR }

/-- The branch for REFPOS in a spectral or redshift sub-phrase. -/
def stepRefPosSpec (s : State) (w : String) : State :=
  let t := if s.specid ≠ NULL_ID then "Spectral" else "Redshift"
  let s := { s with sor := .BADSOR }
  let s :=
    if w = "GEOCENTER" then { s with sor := .GESOR }
    else if w = "BARYCENTER" then { s with sor := .BYSOR }
    else if w = "HELIOCENTER" then { s with sor := .HLSOR }
    else if w = "TOPOCENTER" then { s with sor := .TPSOR }
    else if w = "LSR" ∨ w = "LSRK" then { s with sor := .LKSOR }
    else if w = "LSRD" then { s with sor := .LDSOR }
    else if w = "GALACTIC_CENTER" then { s with sor := .GLSOR }
    else if w = "UNKNOWNRefPos" then
      s.warn 1 "'HELIOCENTER' being used in place of %s 'UNKNOWNRefPos' in an STC-S description: '%s'."
        [t, s.fragment]
    else if w ∈ unsupportedSpecRefPos then
      s.warn 1 "Using 'HELIOCENTER' in place of unsupported %s reference position '%s' found in an STC-S description: '%s'."
        [t, w, s.fragment]
    else
      { (s.warn 2 "%s reference position defaulting to 'HELIOCENTER' in an STC-S description: '%s'."
          [t, s.fragment]) with new_word := false }
  { s with look_for :=
    if s.specid = SPECTRAL_INTERVAL_ID then LookFor.LIMITS
    else if s.specid = SPECTRAL_ID then LookFor.RED_SPEC_VALUE
    else if s.redid = REDSHIFT_INTERVAL_ID then LookFor.TYPE_DOPPLER
    else LookFor.RED_SPEC_VALUE }

/-- The branch for REFPOS. -/
def stepRefPos (s : State) (w : String) : State :=
  let s :=
    if s.timeid ≠ NULL_ID then stepRefPosTime s w
    else if s.spaceid ≠ NULL_ID then stepRefPosSpace s w
    else stepRefPosSpec s w
  if s.new_word then s.mapPut "REFPOS" (some w) else s

/-- The reading of a start, stop or time value, common to the branches START, STOP and
TIME: `JD` or `MJD` followed by a number, or an ISO date given to astUnformat.  The
second component is the new value of the variable (`old` when astUnformat reads
nothing).  In START and STOP the second word of the two-word forms is appended to
`prop` here (`inside`); TIME appends after the value has been read. -/
def readTime (env : Env) (s : State) (w : String) (old : Option ℚ) (inside : Bool) :
    State × Option ℚ :=
  let s := ({ s with nc := 0 }).append (some w)
  if w = "JD" then
    let s := s.nextWord
    let v := s.chr2Double env
    if v = none ∧ s.astOK then (s.raise .badin, none)
    else ((if inside then (s.append (some " ")).append s.word else s),
          v.map (fun x => x - 2400000.5))
  else if w = "MJD" then
    let s := s.nextWord
    let v := s.chr2Double env
    if v = none ∧ s.astOK then (s.raise .badin, none)
    else ((if inside then (s.append (some " ")).append s.word else s), v)
  else
    match s.timefrm with
    | none => (s.crash, old)
    | some tf =>
      match env.unformat tf w with
      | some v => (s, some v)
      | none => (s.raise .badin, old)

/-- The branch for START. -/
def stepStart (env : Env) (s : State) (w : String) : State :=
  let r := readTime env s w s.start true
  let s : State := { r.1 with start := r.2 }
  let s := if s.epoch = none then { s with epoch := s.start } else s
  let s :=
    if s.timeid = TIME_INTERVAL_ID then { s with look_for := .STOP }
    else if s.timeid = START_TIME_ID then { s with look_for := .TIME_LABEL }
    else s
  s.mapPutProp "START"

/-- The branch for STOP. -/
def stepStop (env : Env) (s : State) (w : String) : State :=
  let r := readTime env s w s.stop true
  let s : State := { r.1 with stop := r.2 }
  let s := if s.epoch = none then { s with epoch := s.stop } else s
  let s := { s with look_for := .TIME_LABEL }
  s.mapPutProp "STOP"

/-- The branch for TIME_LABEL. -/
def stepTimeLabel (s : State) (w : String) : State :=
  if w = "Time" then { s with look_for := .TIME }
  else { s with new_word := false, look_for := .UNIT }

/-- The branch for TIME. -/
def stepTime (env : Env) (s : State) (w : String) : State :=
  let r := readTime env s w s.time false
  let s : State := { r.1 with time := r.2 }
  let s := if s.epoch = none then { s with epoch := s.time } else s
  let s := { s with look_for := .UNIT }
  let s := (s.append (some " ")).append s.word
  s.mapPutProp "TIME"

/-- A call that changes an attribute of the space Frame. -/
def State.setSpaceFrm (s : State) (g : AstFrame → AstFrame) : State :=
  { s with
    spacefrm := if s.status = .ok then s.spacefrm.map g else s.spacefrm,
    status := if s.status = .ok ∧ s.spacefrm = none then .fault else s.status }

/-- FLAVOUR, first part: the space Frame implied by the flavour word. -/
def flavourFrame (s : State) (w : String) : State :=
  let s := { s with is_skyframe := false }
  if w = "SPHER2" then { s with spacefrm := some astSkyFrame, is_skyframe := true }
  else if w = "CART1" then { s with spacefrm := some (astFrame 1) }
  else if w = "CART2" then { s with spacefrm := some (astFrame 2) }
  else if w = "CART3" then { s with spacefrm := some (astFrame 3) }
  else if w = "UNITSPHERE" ∨ w = "SPHER3" then s.raise .badin
  else { s with spacefrm := some astSkyFrame, is_skyframe := true, new_word := false }

/-- FLAVOUR, second part: basic Frames can only have the System UNKNOWNFrame. -/
def flavourCheck (s : State) : State :=
  if s.new_word ∧ ¬ s.is_skyframe ∧ s.sys ≠ .UNKNOWN ∧ s.astOK then s.raise .badin else s

/-- FLAVOUR, third part: `if( is_skyframe ) astSetSystem( spacefrm, sys )`. -/
def flavourSystem (s : State) : State :=
  if s.is_skyframe then s.setSpaceFrm (fun f => { f with system := some s.sys }) else s

/-- FLAVOUR, fourth part: the Domain of a basic Frame or of a SkyFrame with unknown
System is the STC-S frame word. -/
def flavourDomain (s : State) : State :=
  if ¬ s.is_skyframe ∨ s.sys = .UNKNOWN then
    s.setSpaceFrm (fun f => { f with domain := s.frame })
  else s

/-- FLAVOUR, fifth part: the number of axes and the next item to look for. -/
def flavourNext (s : State) : State :=
  { s with
    naxes := if s.status = Status.ok then (s.spacefrm.map (fun (f : AstFrame) => f.naxes)).getD 0
             else 0,
    look_for :=
      if s.spaceid = POSITION_INTERVAL_ID then LookFor.POSITION_INTERVAL
      else if s.spaceid = ALL_SKY_ID then LookFor.ALLSKY
      else if s.spaceid = CIRCLE_ID then LookFor.CIRCLE
      else if s.spaceid = ELLIPSE_ID then LookFor.ELLIPSE
      else if s.spaceid = BOX_ID then LookFor.BOX
      else if s.spaceid = POLYGON_ID then LookFor.POLYGON
      else if s.spaceid = CONVEX_ID then LookFor.CONVEX
      else LookFor.POSITION }

/-- The branch for FLAVOUR. -/
def stepFlavour (s : State) (w : String) : State :=
  let s := flavourNext (flavourDomain (flavourSystem (flavourCheck (flavourFrame s w))))
  if s.new_word then (s.mapPut "FLAVOR" (some w)).mapPut "FLAVOUR" (some w) else s

/-- LIMITS, the low limit: `lolim = astChr2Double( word )`, then an error or the
LOLIMIT property. -/
def limitsLow (env : Env) (s : State) : State :=
  let s := { s with lolim := s.chr2Double env }
  if s.lolim = none ∧ s.astOK then s.raise .badin else s.mapPut "LOLIMIT" s.word

/-- LIMITS, the high limit, read from the next word. -/
def limitsHigh (env : Env) (s : State) : State :=
  let s := { s with hilim := s.chr2Double env }
  if s.hilim = none ∧ s.astOK then s.raise .badin else s.mapPut "HILIMIT" s.word

/-- The branch for LIMITS. -/
def stepLimits (env : Env) (s : State) (_w : String) : State :=
  let s := { s with look_for :=
    if s.velid ≠ NULL_ID then LookFor.VELOCITY_VALUE else LookFor.RED_SPEC_LABEL }
  limitsHigh env (limitsLow env s).nextWord

/-- The branch for RED_SPEC_LABEL. -/
def stepRedSpecLabel (s : State) (w : String) : State :=
  if s.specid ≠ NULL_ID ∧ w = "Spectral" then { s with look_for := .RED_SPEC_VALUE }
  else if s.redid ≠ NULL_ID ∧ w = "Redshift" then { s with look_for := .RED_SPEC_VALUE }
  else { s with new_word := false, look_for := .UNIT }

/-- The branch for RED_SPEC_VALUE. -/
def stepRedSpecValue (env : Env) (s : State) (_w : String) : State :=
  let s := { s with value := s.chr2Double env }
  let s :=
    if s.value = none ∧ s.astOK then s.raise .badin
    else s.mapPut (if s.specid ≠ NULL_ID then "SPECTRAL" else "REDSHIFT") s.word
  { s with look_for :=
    if s.specid ≠ NULL_ID then LookFor.UNIT
    else if s.redid = REDSHIFT_INTERVAL_ID then LookFor.UNIT
    else LookFor.TYPE_DOPPLER }

/-- The statement pair `x = astChr2Double( word ); if( x == AST__BAD && astOK ) astError(..)`:
the state after it. -/
def State.needNumber (env : Env) (s : State) : State :=
  { s with status := if s.chr2Double env = none ∧ s.status = .ok then .badin else s.status }

/-- The branch for POSITION_INTERVAL. -/
def stepPositionInterval (env : Env) (s : State) (_w : String) : State :=
  let r1 := axisLoop env s.naxes { s with nc := 0 }
  let s1 := ({ r1.1 with slolim := r1.2 }.chop).mapPutProp "LOLIMIT"
  let r2 := axisLoop env s1.naxes { s1 with nc := 0 }
  let s2 := ({ r2.1 with shilim := r2.2 }.chop).mapPutProp "HILIMIT"
  { s2 with new_word := false, look_for := .POSITION_LABEL }

/-- The branch for ALLSKY. -/
def stepAllSky (s : State) (_w : String) : State :=
  { s with new_word := false, look_for := .POSITION_LABEL }

/-- The branch for CIRCLE. -/
def stepCircle (env : Env) (s : State) (_w : String) : State :=
  let r := axisLoop env s.naxes { s with nc := 0 }
  let s1 := ({ r.1 with centre := r.2 }.chop).mapPutProp "CENTRE"
  let s2 := { s1.needNumber env with radius := (s1.chr2Double env).getD 0 }
  { s2.mapPut "RADIUS" s2.word with look_for := .POSITION_LABEL }

/-- The branch for ELLIPSE.  The word is advanced before each of RADIUS1 and RADIUS2
is stored, as in the source. -/
def stepEllipse (env : Env) (s : State) (_w : String) : State :=
  let r := axisLoop env s.naxes { s with nc := 0 }
  let s1 := ({ r.1 with centre := r.2 }.chop).mapPutProp "CENTRE"
  let s2 := ({ s1.needNumber env with radius := (s1.chr2Double env).getD 0 }).nextWord
  let s3 := s2.mapPut "RADIUS1" s2.word
  let s4 := ({ s3.needNumber env with radius2 := (s3.chr2Double env).getD 0 }).nextWord
  let s5 := s4.mapPut "RADIUS2" s4.word
  let s6 := { s5.needNumber env with pa := (s5.chr2Double env).getD 0 }
  { s6.mapPut "POSANGLE" s6.word with look_for := .POSITION_LABEL }

/-- The branch for BOX. -/
def stepBox (env : Env) (s : State) (_w : String) : State :=
  let r1 := axisLoop env s.naxes { s with nc := 0 }
  let s1 := ({ r1.1 with centre := r1.2 }.chop).mapPutProp "CENTRE"
  let r2 := axisLoop env s1.naxes { s1 with nc := 0 }
  let s2 := ({ r2.1 with bsize := r2.2 }.chop).mapPutProp "BSIZE"
  { s2 with new_word := false, look_for := .POSITION_LABEL }

/-- The loop of POLYGON that reads the vertices after the first:
`while( axval != AST__BAD && astOK ) { read one value per axis; nvert++ }`.
The arguments are a bound on the number of passes, the state, the values read so far
and the number of vertices. -/
def polygonRest (env : Env) (naxes : Nat) : Nat → State → List ℚ → Nat → State × List ℚ × Nat
  | 0, s, temp, nvert =>
    (if (s.chr2Double env).isSome then s.raise .hang else s, temp, nvert)
  | fuel + 1, s, temp, nvert =>
    if (s.chr2Double env).isSome then
      let r := axisLoop env naxes s
      polygonRest env naxes fuel r.1 (temp ++ r.2) (nvert + 1)
    else (s, temp, nvert)

/-- The transposition `vertices[ iaxis*nvert + ivert ] = temp[ ivert*naxes + iaxis ]`. -/
def transposeVertices (naxes nvert : Nat) (temp : List ℚ) : List ℚ :=
  (List.range (naxes * nvert)).map (fun k => temp.getD ((k % nvert) * naxes + k / nvert) 0)

/-- The branch for POLYGON.  Nothing is read when `naxes` is 0, since astMalloc then
gives NULL. -/
def stepPolygon (env : Env) (s : State) (_w : String) : State :=
  let s1 : State :=
    if s.naxes = 0 then s
    else
      let r1 := axisLoop env s.naxes { s with nc := 0 }
      let r2 := polygonRest env s.naxes (r1.1.inputSize + 1) r1.1 r1.2 1
      let s2 := ({ r2.1 with nvert := r2.2.2 }.chop).mapPutProp "VERTICES"
      if s2.status = .ok then
        { s2 with vertices := transposeVertices s2.naxes s2.nvert r2.2.1 }
      else { s2 with vertices := [] }
  { s1 with new_word := false, look_for := .POSITION_LABEL }

/-- The branch for CONVEX. -/
def stepConvex (s : State) (_w : String) : State := s.raise .badin

/-- The branch for POSITION. -/
def stepPosition (env : Env) (s : State) (_w : String) : State :=
  let r := axisLoop env s.naxes { s with nc := 0 }
  let s1 := ({ r.1 with pos := if r.2 = [] then none else some r.2 }.chop).mapPutProp "POSITION"
  { s1 with new_word := false, look_for := .UNIT }

/-- The branch for POSITION_LABEL. -/
def stepPositionLabel (s : State) (w : String) : State :=
  if w = "Position" then { s with look_for := .POSITION }
  else { s with new_word := false, look_for := .UNIT }

/-- A call that changes an attribute of the redshift SpecFrame. -/
def State.setRedFrm (s : State) (g : AstFrame → AstFrame) : State :=
  { s with
    redfrm := if s.status = .ok then s.redfrm.map g else s.redfrm,
    status := if s.status = .ok ∧ s.redfrm = none then .fault else s.status }

/-- A call that changes an attribute of the spectral SpecFrame. -/
def State.setSpecFrm (s : State) (g : AstFrame → AstFrame) : State :=
  { s with
    specfrm := if s.status = .ok then s.specfrm.map g else s.specfrm,
    status := if s.status = .ok ∧ s.specfrm = none then .fault else s.status }

/-- TYPE_DOPPLER, first part: the redshift type.  A valid type word is stored as the
TYPE property and the next word is fetched. -/
def dopplerType (s : State) (w : String) : State :=
  let s := { s with isvel := true }
  if w = "REDSHIFT" then (({ s with isvel := false }).mapPut "TYPE" (some w)).nextWord
  else if w ≠ "VELOCITY" then { s with new_word := false }
  else (s.mapPut "TYPE" (some w)).nextWord

/-- The System of the redshift Frame for an optical definition. -/
def opticalSystem (isvel : Bool) : System := if isvel then .VOPTICAL else .REDSHIFT

/-- TYPE_DOPPLER, second part: the Doppler definition, compared with the current word
(a NULL word is a fault). -/
def dopplerDef (s : State) : State :=
  match s.word with
  | none => s.crash
  | some w =>
    if w = "OPTICAL" then s.setRedFrm (fun f => { f with system := some (opticalSystem s.isvel) })
    else if w = "RADIO" then
      if s.isvel then
        (s.setRedFrm (fun f => { f with system := some System.VRADIO })).warn 1
          "STC-S RADIO redshift not supported. Assuming OPTICAL redshift instead: '%s'."
          [s.fragment]
      else s
    else if w = "RELATIVISTIC" then
      if s.isvel then s.setRedFrm (fun f => { f with system := some .VREL })
      else s.warn 1
        "STC-S RELATIVISTIC redshift not supported. Assuming OPTICAL redshift instead: '%s'."
        [s.fragment]
    else
      { s.setRedFrm (fun f => { f with system := some (opticalSystem s.isvel) }) with
        new_word := false }

/-- The branch for TYPE_DOPPLER. -/
def stepTypeDoppler (s : State) (w : String) : State :=
  let s := dopplerDef (dopplerType s w)
  let s := if s.new_word then s.mapPut "DOPPLERDEF" s.word else s
  { s with look_for := if s.redid = REDSHIFT_INTERVAL_ID then LookFor.LIMITS else LookFor.UNIT }

/-- The branch for VELOCITY_VALUE. -/
def stepVelocityValue (env : Env) (s : State) (w : String) : State :=
  let s := if w = "Velocity" then s.nextWord.needNumber env else { s with new_word := false }
  { s with look_for := .UNIT }

/-- The loop of ERROR that reads the error values:
`for( i = 0; i < nerror; i++ ) { word = GetNextWord(..); err[ i ] = astChr2Double( word );
if( err[ i ] == AST__BAD ) break; append the word and a space to prop }`.
The values read are returned (their number is the final `i`). -/
def errorLoop (env : Env) : Nat → State → State × List ℚ
  | 0, s => (s, [])
  | n + 1, s =>
    let s1 := s.nextWord
    match s1.chr2Double env with
    | none => (s1, [])
    | some v =>
      let r := errorLoop env n ((s1.append s1.word).append (some " "))
      (r.1, v :: r.2)

/-- ERROR, after the loop: duplicate the last value as required, or fetch the next word
when all values were found, or report an error when none was. -/
def errorValues (s : State) (nerror : Nat) (vals : List ℚ) : State :=
  match vals.getLast? with
  | some last =>
    if vals.length < nerror then
      { s with err := some (vals ++ List.replicate (nerror - vals.length) last) }
    else ({ s with err := some vals }).nextWord
  | none => (if nerror = 0 then s else { s with err := none }).raise .badin

/-- ERROR, the values that follow the expected ones: they are read and ignored with a
warning, then the ERROR property is stored. -/
def errorExtra (env : Env) (s : State) : State :=
  let r := numberRun env (s.inputSize + 1) s
  let s1 := r.1
  let s2 :=
    if r.2 ≠ 0 then
      s1.warn 1 "Ignoring extra 'Error' parameters found in an STC-S %s sub-phrase: '%s'."
        [s1.subphrase.getD "(null)", s1.fragment]
    else s1
  s2.chop.mapPutProp "ERROR"

/-- The branch for ERROR. -/
def stepError (env : Env) (s : State) (w : String) : State :=
  let s1 :=
    if w = "Error" then
      let nerror := if s.spaceid ≠ NULL_ID then s.naxes else 1
      let r := errorLoop env nerror { s with nc := 0 }
      errorExtra env (errorValues r.1 nerror r.2)
    else s
  { s1 with new_word := false, look_for := .RESOLUTION }

/-- The common part of RESOLUTION, SIZE and PIX_SIZE when the keyword is present: the
numbers that follow are read and discarded with a warning, and their text is stored
under the given key. -/
def ignoredValues (env : Env) (s : State) (key text : String) : State :=
  let s1 := ({ s with nc := 0 }).nextWord
  let s2 := (numberRun env (s1.inputSize + 1) s1).1
  let s3 := ({ s2 with new_word := false }).warn 1 text
    [s2.subphrase.getD "(null)", s2.fragment]
  s3.chop.mapPutProp key

/-- The branch for RESOLUTION. -/
def stepResolution (env : Env) (s : State) (w : String) : State :=
  let s1 :=
    if w = "Resolution" then
      ignoredValues env s "RESOLUTION"
        "Ignoring 'Resolution' values found in an STC-S %s sub-phrase: '%s'."
    else { s with new_word := false }
  { s1 with look_for := if s1.spaceid ≠ NULL_ID then LookFor.SIZE else LookFor.PIX_SIZE }

/-- The branch for SIZE. -/
def stepSize (env : Env) (s : State) (w : String) : State :=
  let s1 :=
    if w = "Size" then
      ignoredValues env s "SIZE" "Ignoring 'Size' values found in an STC-S %s sub-phrase: '%s'."
    else { s with new_word := false }
  { s1 with look_for := .PIX_SIZE }

/-- The branch for PIX_SIZE; when no sub-phrase is being read the loop is left. -/
def stepPixSize (env : Env) (s : State) (w : String) : State :=
  let s1 :=
    if w = "PixSize" then
      ignoredValues env s "PIXSIZE" "Ignoring 'PixSize' values in an STC-S %s sub-phrase: '%s'."
    else { s with new_word := false }
  if s1.timeid ≠ NULL_ID then { s1 with look_for := .SPACE_IDENTIFIER }
  else if s1.spaceid ≠ NULL_ID then { s1 with look_for := .VELOCITY_IDENTIFIER }
  else if s1.velid ≠ NULL_ID then { s1 with look_for := .SPECTRAL_IDENTIFIER }
  else if s1.specid ≠ NULL_ID then { s1 with look_for := .REDSHIFT_IDENTIFIER }
  else { s1 with broke := true }

/-- UNIT, first part: the unit string.  After the word `unit` the next word is the
unit (a NULL word is a fault); otherwise the unit is NULL and the word is kept. -/
def unitWord (s : State) (w : String) : State :=
  if w = "unit" then
    let s1 := s.nextWord
    match s1.word with
    | some u => ({ s1 with unit := some u }).mapPut "UNIT" (some u)
    | none => s1.crash
  else { s with unit := none, new_word := false }

/-- UNIT in a time sub-phrase: the factor that scales the errors into days. -/
def unitTime (s : State) : State :=
  if s.unit = none ∨ s.unit = some "s" then { s with scale := 1 / 86400 }
  else if s.unit = some "d" then { s with scale := 1 }
  else if s.unit = some "a" then { s with scale := 365.25 }
  else if s.unit = some "yr" then { s with scale := 365.25 }
  else if s.unit = some "cy" then { s with scale := 36525 }
  else s.raise .badin

/-- UNIT in a space sub-phrase: radians for a SkyFrame, the supplied unit (or `m`) on
every axis of a basic Frame. -/
def unitSpace (env : Env) (s : State) : State :=
  if s.is_skyframe then
    if s.unit = none ∨ s.unit = some "deg" then { s with scale := env.DD2R }
    else if s.unit = some "arcmin" then { s with scale := env.DD2R / 60 }
    else if s.unit = some "arcsec" then { s with scale := env.DD2R / 3600 }
    else s.raise .badin
  else
    ({ s with scale := 1 }).setSpaceFrm (fun f =>
      { f with units := List.replicate s.naxes (some (s.unit.getD "m")), activeUnit := true })

/-- UNIT in a spectral sub-phrase: the System implied by the unit, and the unit. -/
def unitSpec (s : State) : State :=
  let s1 :=
    if s.unit = none ∨ s.unit = some "Hz" ∨ s.unit = some "MHz" ∨ s.unit = some "GHz" then
      s.setSpecFrm (fun f => { f with system := some .FREQ })
    else if s.unit = some "m" ∨ s.unit = some "mm" ∨ s.unit = some "um" ∨ s.unit = some "nm"
        ∨ s.unit = some "A" then
      s.setSpecFrm (fun f => { f with system := some .WAVELEN })
    else if s.unit = some "eV" ∨ s.unit = some "keV" ∨ s.unit = some "MeV" then
      s.setSpecFrm (fun f => { f with system := some .ENERGY })
    else s.raise .badin
  ({ s1 with scale := 1 }).setSpecFrm (fun f => { f with units := [some (s1.unit.getD "Hz")] })

/-- UNIT in a redshift sub-phrase. -/
def unitRed (s : State) : State :=
  let s1 := { s with scale := 1 }
  if s1.isvel then s1.setRedFrm (fun f => { f with units := [some (s1.unit.getD "km/s")] })
  else if s1.unit = none ∨ s1.unit = some "nill" then s1.setRedFrm (fun f => { f with units := [] })
  else s1.setRedFrm (fun f => { f with units := [s1.unit] })

/-- The branch for UNIT. -/
def stepUnit (env : Env) (s : State) (w : String) : State :=
  let s1 := unitWord s w
  let s2 :=
    if s1.timeid ≠ NULL_ID then unitTime s1
    else if s1.spaceid ≠ NULL_ID then unitSpace env s1
    else if s1.velid ≠ NULL_ID then s1
    else if s1.specid ≠ NULL_ID then unitSpec s1
    else if s1.redid ≠ NULL_ID then unitRed s1
    else s1
  { s2 with look_for := .ERROR }

/-! ## The main loop and the result of Read -/

/-- The chain `if( look_for == ... ) { ... } else if ...` of the main loop: the branch
for the value `lf` of look_for. -/
def branch (env : Env) (lf : LookFor) (s : State) (w : String) : State :=
  match lf with
  | .TIME_IDENTIFIER => stepTimeIdentifier s w
  | .SPACE_IDENTIFIER => stepSpaceIdentifier env s w
  | .VELOCITY_IDENTIFIER => stepVelocityIdentifier env s w
  | .SPECTRAL_IDENTIFIER => stepSpectralIdentifier s w
  | .REDSHIFT_IDENTIFIER => stepRedshiftIdentifier env s w
  | .FILL_FACTOR => stepFillFactor env s w
  | .TIME_SCALE => stepTimeScale s w
  | .FRAME => stepFrame s w
  | .REFPOS => stepRefPos s w
  | .START => stepStart env s w
  | .STOP => stepStop env s w
  | .TIME_LABEL => stepTimeLabel s w
  | .TIME => stepTime env s w
  | .FLAVOUR => stepFlavour s w
  | .LIMITS => stepLimits env s w
  | .RED_SPEC_LABEL => stepRedSpecLabel s w
  | .RED_SPEC_VALUE => stepRedSpecValue env s w
  | .POSITION_INTERVAL => stepPositionInterval env s w
  | .ALLSKY => stepAllSky s w
  | .CIRCLE => stepCircle env s w
  | .ELLIPSE => stepEllipse env s w
  | .BOX => stepBox env s w
  | .POLYGON => stepPolygon env s w
  | .CONVEX => stepConvex s w
  | .POSITION => stepPosition env s w
  | .POSITION_LABEL => stepPositionLabel s w
  | .TYPE_DOPPLER => stepTypeDoppler s w
  | .VELOCITY_VALUE => stepVelocityValue env s w
  | .ERROR => stepError env s w
  | .RESOLUTION => stepResolution env s w
  | .SIZE => stepSize env s w
  | .PIX_SIZE => stepPixSize env s w
  | .UNIT => stepUnit env s w

/-- The body of the main loop for the current word `w`: `new_word` is set, then the
branch selected by `look_for` is run. -/
def stepBody (env : Env) (s0 : State) (w : String) : State :=
  branch env s0.look_for { s0 with new_word := true } w

/-- One pass of the main loop: the body, then `if( new_word ) word = GetNextWord(..)`
unless the loop was left by `break`. -/
def step (env : Env) (s : State) (w : String) : State :=
  let s1 := stepBody env s w
  if s1.broke then s1 else if s1.new_word then s1.nextWord else s1

/-- The loop condition `word && astOK`, and that the loop has not been left. -/
def State.running (s : State) : Bool :=
  s.word.isSome && s.astOK && !s.broke

/-- The main loop, run for at most the given number of passes. -/
def readLoop (env : Env) : Nat → State → State
  | 0, s => s
  | n + 1, s =>
    match s.word with
    | some w => if s.astOK && !s.broke then readLoop env n (step env s w) else s
    | none => s

/-- A KeyMap whose entries are the KeyMaps of the sub-phrases (the Property Tree). -/
structure PropTree where
  entries : List (String × KeyMap)
deriving DecidableEq, Repr

/-- The library call astMapGet0A on a Property Tree. -/
def PropTree.get (t : PropTree) (key : String) : Option KeyMap :=
  (t.entries.find? (fun p => p.1 = key)).map Prod.snd

/-- The library call astMapPut0A on a Property Tree. -/
def PropTree.put (t : PropTree) (key : String) (v : KeyMap) : PropTree :=
  if t.entries.any (fun p => p.1 = key) then
    ⟨t.entries.map (fun p => if p.1 = key then (key, v) else p)⟩
  else ⟨t.entries ++ [(key, v)]⟩

/-- An Object that Read stores under a key of the KeyMap it returns. -/
inductive Item
| region (r : Region)
| props (p : PropTree)
deriving DecidableEq, Repr

/-- The Object returned by Read: one item itself, or a KeyMap of items. -/
inductive AstObject
| item (i : Item)
| keyMap (entries : List (String × Item))
deriving DecidableEq, Repr

/-- The largest int, used as the value of an attribute that is not set. -/
def INT_MAX : Int := 2147483647

/-- The attributes that the StcsChan class adds to a Channel. -/
structure AstStcsChan where
  stcsarea : Int := -INT_MAX
  stcscoords : Int := -INT_MAX
  stcsprops : Int := -INT_MAX
deriving DecidableEq, Repr

/-- The accessor astGetStcsArea (default 1). -/
def GetStcsArea (this : AstStcsChan) : Int :=
  if this.stcsarea ≠ -INT_MAX then this.stcsarea else 1

/-- The accessor astGetStcsCoords (default 0). -/
def GetStcsCoords (this : AstStcsChan) : Int :=
  if this.stcscoords ≠ -INT_MAX then this.stcscoords else 0

/-- The accessor astGetStcsProps (default 0). -/
def GetStcsProps (this : AstStcsChan) : Int :=
  if this.stcsprops ≠ -INT_MAX then this.stcsprops else 0

/-- The state of Read when the main loop is entered: the context is initialised and the
first word fetched. -/
def initState (source : List String) : State :=
  let r := GetNextWord source initContext
  { source := r.2.1, con := r.2.2, word := r.1 }

/-- The fold that builds the full position or the full enclosure: take the first
Region that exists, and form the Prism with each later one. -/
def foldPrism (first : Option Region) (rest : List (Option Region)) : Option Region :=
  rest.foldl (fun acc r =>
    match r, acc with
    | some x, some n => some (Region.prism n x)
    | some x, none => some x
    | none, a => a) first

/-- What Read has when the loop and the finalisation are done. -/
structure Decoded where
  status : Status
  warnings : List Warning
  source : List String
  full_co : Option Region
  full_enc : Option Region
  full_props : Option PropTree
deriving DecidableEq, Repr

/-- The statement `full = astSimplify( new )`; a NULL argument is a fault. -/
def simplifyFull (env : Env) (status : Status) (new : Option Region) : Status × Option Region :=
  if status = .ok then
    match new with
    | some r => (.ok, some (env.simplify r))
    | none => (.fault, none)
  else (status, none)

/-- The part of Read between the main loop and the selection of the result: the word
context is released, the redshift sub-phrase finalised, and the Regions and property
KeyMaps of the sub-phrases combined. -/
def decodeEnd (env : Env) (s0 : State) : Decoded :=
  let s1 := { s0 with con := { s0.con with done := true } }
  let s := finishRed env { s1.nextWord with word := s1.word }
  let co : Status × Option Region :=
    if s.use_co then simplifyFull env s.status (foldPrism s.time_co [s.space_co, s.spec_co, s.red_co])
    else (s.status, none)
  let enc : Status × Option Region :=
    if s.use_enc then
      simplifyFull env co.1 (foldPrism s.time_enc [s.space_enc, s.spec_enc, s.red_enc])
    else (co.1, none)
  let sub := fun (t : PropTree) (key : String) (km : KeyMap) =>
    if km.size > 0 then t.put key km else t
  let tree := sub (sub (sub (sub ⟨[]⟩ "TIME_PROPS" s.time_props) "SPACE_PROPS" s.space_props)
    "SPECTRAL_PROPS" s.spec_props) "REDSHIFT_PROPS" s.red_props
  { status := enc.1, warnings := s.warnings, source := s.source, full_co := co.2,
    full_enc := enc.2, full_props := if enc.1 = .ok then some tree else none }

/-- The selection of the Object to return, from the attributes StcsArea, StcsCoords and
StcsProps; the first component is the final status.  An Object made before an error
is deleted at the end (`if( !astOK ) new = astDelete( new )`). -/
def selectResult (this : AstStcsChan) (d : Decoded) : Status × Option AstObject :=
  let want_enc : Bool := decide (GetStcsArea this ≠ 0)
  let want_co : Bool := decide (GetStcsCoords this ≠ 0)
  let want_props : Bool := decide (GetStcsProps this ≠ 0)
  let nwant : Nat := (if want_enc then 1 else 0) + (if want_co then 1 else 0)
    + (if want_props then 1 else 0)
  let area : Option Region := if want_enc then d.full_enc else none
  let coords : Option Region := if want_co then d.full_co else none
  let props : Option PropTree := if want_props then d.full_props else none
  let r : Status × Option AstObject :=
    if nwant = 1 then
      (d.status,
       match area, coords, props with
       | some e, _, _ => some (.item (.region e))
       | none, some c, _ => some (.item (.region c))
       | none, none, some p => some (.item (.props p))
       | none, none, none => none)
    else if nwant > 1 then
      (d.status,
       some (.keyMap ((area.map (fun e => ("AREA", Item.region e))).toList
         ++ (coords.map (fun c => ("COORDS", Item.region c))).toList
         ++ (props.map (fun p => ("PROPS", Item.props p))).toList)))
    else (if d.status = .ok then .attin else d.status, none)
  if r.1 = .ok then r else (r.1, none)

/-- The outcome of a call of Read. -/
structure ReadResult where
  object : Option AstObject
  status : Status
  warnings : List Warning
  source : List String
deriving DecidableEq, Repr

/-- Read, with a bound on the number of passes of the main loop.  The result is `none`
when the bound is reached before the loop ends. -/
def Read (env : Env) (this : AstStcsChan) (fuel : Nat) (source : List String) :
    Option ReadResult :=
  let s := readLoop env fuel (initState source)
  if s.running then none
  else
    let d := decodeEnd env s
    let r := selectResult this d
    some { object := r.2, status := r.1, warnings := d.warnings, source := d.source }

/-! ## Writing the properties -/

/-- The memory module function astAppendString on a buffer with its length `nc`, for a
good status: the text is written at offset `nc`; `nc` restarts at 0 for a NULL buffer
and nothing is written for a NULL string. -/
def astAppendString (buf : Option (List Char) × Nat) (str : Option String) :
    Option (List Char) × Nat :=
  let nc := if buf.1 = none then 0 else buf.2
  match str with
  | some t => (some ((buf.1.getD []).take nc ++ t.data), nc + t.data.length)
  | none => (buf.1, nc)

/-- AddItem: if the KeyMap has the key, append the prefix (if any), the value and a
space to the buffer. -/
def AddItem (km : KeyMap) (key : String) (pfx : Option String)
    (buf : Option (List Char) × Nat) : Option (List Char) × Nat :=
  match km.get key with
  | some word => astAppendString (astAppendString (astAppendString buf pfx) (some word)) (some " ")
  | none => buf

/-- AddItem for a run of keys, in order, each with its prefix. -/
def addItems (km : KeyMap) (items : List (String × Option String))
    (buf : Option (List Char) × Nat) : Option (List Char) × Nat :=
  items.foldl (fun b it => AddItem km it.1 it.2 b) buf

/-- The local state of WriteProps: the line buffer with its length, the flag `first`,
the lines given to the sink so far, and whether `strcpy( id, line )` met a NULL line. -/
structure WriteState where
  buf : Option (List Char) × Nat := (none, 0)
  first : Bool := true
  sink : List String := []
  fault : Bool := false
deriving DecidableEq, Repr

/-- The text written for one sub-phrase.  `label` is the identifier of the single-value
form and `valueKey` the key of the value that it introduces; `before` and `after` are
the keys written before and after that value.  The statement `strcpy( id, line )` copies
the line into the array `char id[ 30 ]`: a NULL line, or a line of 30 characters or
more (which does not fit with its terminator), is recorded as a fault. -/
def writeSubPhrase (spprops : KeyMap) (label valueKey : String)
    (before after : List (String × Option String)) (st : WriteState) : WriteState :=
  if st.fault then st
  else
    let b0 : Option (List Char) × Nat :=
      if st.first then st.buf else ((astAppendString st.buf (some "\n")).1, 0)
    let b1 := AddItem spprops "ID" none b0
    match b1.1 with
    | none => { st with buf := b1, first := false, fault := true }
    | some id =>
      if 30 ≤ id.length then { st with buf := b1, first := false, fault := true }
      else
        let b2 := addItems spprops before b1
        let pfx : Option String :=
          if String.mk id ≠ label ++ " " then some (label ++ " ") else none
        let b3 := addItems spprops after (AddItem spprops valueKey pfx b2)
        { st with buf := b3, first := false, sink := st.sink ++ [String.mk (b3.1.getD [])] }

/-- The keys that end every sub-phrase but the space one. -/
def tailItems : List (String × Option String) :=
  [("UNIT", some "unit "), ("ERROR", some "Error "), ("RESOLUTION", some "Resolution "),
   ("PIXSIZE", some "PixSize ")]

/-- WriteProps: one line of text for each sub-phrase KeyMap present, in the order time,
space, spectral, redshift. -/
def WriteProps (props : PropTree) : WriteState :=
  let st0 : WriteState := {}
  let st1 := match props.get "TIME_PROPS" with
    | some sp => writeSubPhrase sp "Time" "TIME"
        [("FILLFACTOR", some "fillfactor "), ("TIMESCALE", none), ("REFPOS", none),
         ("START", none), ("STOP", none)] tailItems st0
    | none => st0
  let st2 := match props.get "SPACE_PROPS" with
    | some sp => writeSubPhrase sp "Position" "POSITION"
        [("FILLFACTOR", some "fillfactor "), ("FRAME", none), ("REFPOS", none),
         ("FLAVOUR", none), ("LOLIMIT", none), ("HILIMIT", none), ("CENTRE", none),
         ("RADIUS", none), ("RADIUS1", none), ("RADIUS2", none), ("POSANGLE", none),
         ("VERTICES", none)]
        [("UNIT", some "unit "), ("ERROR", some "Error "), ("RESOLUTION", some "Resolution "),
         ("SIZE", some "Size "), ("PIXSIZE", some "PixSize ")] st1
    | none => st1
  let st3 := match props.get "SPECTRAL_PROPS" with
    | some sp => writeSubPhrase sp "Spectral" "SPECTRAL"
        [("FILLFACTOR", some "fillfactor "), ("REFPOS", none), ("LOLIMIT", none),
         ("HILIMIT", none)] tailItems st2
    | none => st2
  match props.get "REDSHIFT_PROPS" with
  | some sp => writeSubPhrase sp "Redshift" "REDSHIFT"
      [("FILLFACTOR", some "fillfactor "), ("REFPOS", none), ("TYPE", none),
       ("DOPPLERDEF", none), ("LOLIMIT", none), ("HILIMIT", none)] tailItems st3
  | none => st3

/-! ## A sample environment

A small instance of `Env`, used to run the definitions on concrete documents: numbers
are plain decimals, dates are calendar dates, and the geometry is that of the plane
with angles counted in right angles, so that every value is rational. -/

/-- The value of a plain decimal number: an optional sign, digits, and an optional
fraction; anything else is not a number. -/
def decimalValue (str : String) : Option ℚ :=
  let body : Bool × List Char := match str.data with
    | '-' :: t => (true, t)
    | '+' :: t => (false, t)
    | cs => (false, cs)
  let ip := body.2.takeWhile Char.isDigit
  let fp : Option (List Char) := match body.2.dropWhile Char.isDigit with
    | '.' :: t => if t.all Char.isDigit then some t else none
    | [] => some []
    | _ => none
  match fp with
  | none => none
  | some f =>
    if ip.isEmpty ∧ f.isEmpty then none
    else
      let n : Nat := (ip ++ f).foldl (fun acc c => acc * 10 + (c.toNat - 48)) 0
      some ((if body.1 then -1 else 1) * (n : ℚ) / (10 : ℚ) ^ f.length)

/-- The Modified Julian Date of a calendar date written `yyyy-mm-dd`, optionally
followed by a time of day (which is not used); anything else is not a date. -/
def calendarDate (str : String) : Option ℚ :=
  match str.data with
  | y1 :: y2 :: y3 :: y4 :: '-' :: m1 :: m2 :: '-' :: d1 :: d2 :: _ =>
    if [y1, y2, y3, y4, m1, m2, d1, d2].all Char.isDigit then
      let num : List Char → Nat := fun cs => cs.foldl (fun acc c => acc * 10 + (c.toNat - 48)) 0
      let y : Int := num [y1, y2, y3, y4]
      let m : Int := num [m1, m2]
      let d : Int := num [d1, d2]
      some (((367 * y - (7 * (y + (m + 9) / 12)) / 4 + (275 * m) / 9 + d - 678987 : Int) : ℚ))
    else none
  | _ => none

/-- The end point of a step of length `d` from `p` in the direction `angle` (counted in
right angles from the second axis towards the first). -/
def planeOffset2 (p : List ℚ) (angle d : ℚ) : ℚ × List ℚ :=
  let x := p.getD 0 0
  let y := p.getD 1 0
  if angle = 0 ∨ angle = 4 then (angle, [x, y + d])
  else if angle = 1 then (angle, [x + d, y])
  else if angle = 2 ∨ angle = -2 then (angle, [x, y - d])
  else if angle = 3 ∨ angle = -1 then (angle, [x - d, y])
  else (angle, p)

/-- The point where the line through `a1` and `a2` meets the line through `b1` and `b2`
(the point `a1` when the lines are parallel). -/
def planeIntersect (a1 a2 b1 b2 : List ℚ) : List ℚ :=
  let x := fun (p : List ℚ) => p.getD 0 0
  let y := fun (p : List ℚ) => p.getD 1 0
  let dax := x a2 - x a1
  let day := y a2 - y a1
  let dbx := x b2 - x b1
  let dby := y b2 - y b1
  let den := dax * dby - day * dbx
  if den = 0 then a1
  else
    let t := ((x b1 - x a1) * dby - (y b1 - y a1) * dbx) / den
    [x a1 + t * dax, y a1 + t * day]

/-- The largest axis difference between two points. -/
def planeDistance (p q : List ℚ) : ℚ :=
  (List.zipWith (fun a b => |b - a|) p q).foldl max 0

/-- The bounding box of a Region, from the values given to its constructor. -/
def sampleBaseBox : Region → List ℚ × List ℚ
  | .basic _ (.interval lo hi) _ _ => ([lo.getD 0], [hi.getD 0])
  | .basic _ (.box _ p1 p2) _ _ => (p1, p2)
  | .basic _ (.circle c r) _ _ => (c.map (fun v => v - r), c.map (fun v => v + r))
  | .basic _ (.ellipse c _ _) _ _ => (c, c)
  | .basic _ (.polygon n pts) _ _ =>
    ([(pts.take n).foldl min (pts.getD 0 0), ((pts.drop n).take n).foldl min (pts.getD n 0)],
     [(pts.take n).foldl max (pts.getD 0 0), ((pts.drop n).take n).foldl max (pts.getD n 0)])
  | .basic _ (.pointList p) _ _ => (p, p)
  | .basic _ (.nullRegion _) _ _ => ([], [])
  | .prism _ _ => ([], [])

/-- The sample environment. -/
def sampleEnv : Env where
  chr2Double := decimalValue
  unformat := fun _ w => calendarDate w
  toTDB := fun _ x => x
  DD2R := 1 / 90
  DPI := 2
  DPIBY2 := 1
  offset2 := fun _ p angle d => planeOffset2 p angle d
  intersect := fun _ a1 a2 b1 b2 => planeIntersect a1 a2 b1 b2
  distance := fun _ p q => planeDistance p q
  offset := fun _ p q d =>
    if planeDistance p q = 0 then p
    else List.zipWith (fun a b => a + (b - a) * d / planeDistance p q) p q
  axDistance := fun _ _ v1 v2 => some (v2 - v1)
  regBaseBox := sampleBaseBox
  simplify := fun r => r

/-! ## Vocabularies and the order of the states -/

/-- The words that the TIME_SCALE state recognises (eleven time scales and `nil`). -/
def timeScaleWords : List String :=
  ["TT", "TDT", "ET", "TAI", "IAT", "UTC", "TEB", "TDB", "TCG", "TCB", "LST", "nil"]

/-- The words that the FRAME state recognises. -/
def frameWords : List String :=
  ["ICRS", "FK5", "FK4", "J2000", "B1950", "ECLIPTIC", "GALACTIC", "GALACTIC_II",
   "SUPER_GALACTIC", "UNKNOWNFrame", "GEO_C", "GEO_D"]

/-- The words that the REFPOS state recognises in a time or space sub-phrase. -/
def timeRefPosWords : List String := ["TOPOCENTER", "UNKNOWNRefPos"] ++ otherRefPos

/-- The words that the REFPOS state recognises in a spectral or redshift sub-phrase. -/
def specRefPosWords : List String :=
  ["GEOCENTER", "BARYCENTER", "HELIOCENTER", "TOPOCENTER", "LSR", "LSRK", "LSRD",
   "GALACTIC_CENTER", "UNKNOWNRefPos"] ++ unsupportedSpecRefPos

/-- The words that the FLAVOUR state recognises. -/
def flavourWords : List String := ["SPHER2", "CART1", "CART2", "CART3", "UNITSPHERE", "SPHER3"]

/-- The words that the TYPE_DOPPLER state recognises. -/
def dopplerWords : List String := ["REDSHIFT", "VELOCITY", "OPTICAL", "RADIO", "RELATIVISTIC"]

/-- The states of Read that look for an optional field. -/
def optionalStates : List LookFor :=
  [.TIME_IDENTIFIER, .SPACE_IDENTIFIER, .VELOCITY_IDENTIFIER, .SPECTRAL_IDENTIFIER,
   .FILL_FACTOR, .TIME_SCALE, .FRAME, .REFPOS, .FLAVOUR, .TIME_LABEL, .POSITION_LABEL,
   .RED_SPEC_LABEL, .TYPE_DOPPLER, .UNIT, .RESOLUTION, .SIZE, .PIX_SIZE]

/-- The vocabulary of an optional-field state: the words that its branch compares the
current word with, in the sub-phrase being read. -/
def vocabulary (s : State) : List String :=
  match s.look_for with
  | .TIME_IDENTIFIER => ["TimeInterval", "StartTime", "StopTime", "Time"]
  | .SPACE_IDENTIFIER =>
    ["PositionInterval", "AllSky", "Circle", "Ellipse", "Box", "Polygon", "Convex", "Position"]
  | .VELOCITY_IDENTIFIER => ["VelocityInterval"]
  | .SPECTRAL_IDENTIFIER => ["SpectralInterval", "Spectral"]
  | .FILL_FACTOR => ["fillfactor"]
  | .TIME_SCALE => timeScaleWords
  | .FRAME => frameWords
  | .REFPOS =>
    if s.timeid ≠ NULL_ID ∨ s.spaceid ≠ NULL_ID then timeRefPosWords else specRefPosWords
  | .FLAVOUR => flavourWords
  | .TIME_LABEL => ["Time"]
  | .POSITION_LABEL => ["Position"]
  | .RED_SPEC_LABEL =>
    (if s.specid ≠ NULL_ID then ["Spectral"] else [])
      ++ (if s.redid ≠ NULL_ID then ["Redshift"] else [])
  | .TYPE_DOPPLER => dopplerWords
  | .UNIT => ["unit"]
  | .RESOLUTION => ["Resolution"]
  | .SIZE => ["Size"]
  | .PIX_SIZE => ["PixSize"]
  | _ => []

/-- The place of the sub-phrase being read in the order time, space, velocity,
spectral, redshift (the last also when no identifier is set). -/
def phaseBase (s : State) : Nat :=
  if s.timeid ≠ NULL_ID then 0
  else if s.spaceid ≠ NULL_ID then 20
  else if s.velid ≠ NULL_ID then 40
  else if s.specid ≠ NULL_ID then 60
  else 80

/-- The place of a state in the fixed order of the states: the identifier states stand
at the start of their sub-phrase, the other states at their place within the sub-phrase
being read. -/
def rank (s : State) : Nat :=
  match s.look_for with
  | .TIME_IDENTIFIER => 0
  | .SPACE_IDENTIFIER => 20
  | .VELOCITY_IDENTIFIER => 40
  | .SPECTRAL_IDENTIFIER => 60
  | .REDSHIFT_IDENTIFIER => 80
  | .FILL_FACTOR => phaseBase s + 1
  | .TIME_SCALE => phaseBase s + 2
  | .FRAME => phaseBase s + 2
  | .REFPOS => phaseBase s + 3
  | .FLAVOUR => phaseBase s + 4
  | .TYPE_DOPPLER => phaseBase s + (if s.redid = REDSHIFT_INTERVAL_ID then 4 else 9)
  | .START => phaseBase s + 5
  | .STOP => phaseBase s + 6
  | .TIME_LABEL => phaseBase s + 7
  | .TIME => phaseBase s + 8
  | .LIMITS => phaseBase s + 5
  | .VELOCITY_VALUE => phaseBase s + 6
  | .RED_SPEC_LABEL => phaseBase s + 6
  | .RED_SPEC_VALUE => phaseBase s + 7
  | .POSITION_INTERVAL => phaseBase s + 5
  | .ALLSKY => phaseBase s + 5
  | .CIRCLE => phaseBase s + 5
  | .ELLIPSE => phaseBase s + 5
  | .BOX => phaseBase s + 5
  | .POLYGON => phaseBase s + 5
  | .CONVEX => phaseBase s + 5
  | .POSITION_LABEL => phaseBase s + 6
  | .POSITION => phaseBase s + 7
  | .UNIT => phaseBase s + 10
  | .ERROR => phaseBase s + 11
  | .RESOLUTION => phaseBase s + 12
  | .SIZE => phaseBase s + 13
  | .PIX_SIZE => phaseBase s + 14

/-! ## Views of the result of Read, used to state theorems -/

/-- The Region that an item is, if it is one. -/
def Item.asRegion (i : Item) : Option Region :=
  match i with
  | .region r => some r
  | .props _ => none

/-- The Property Tree that an item is, if it is one. -/
def Item.asProps (i : Item) : Option PropTree :=
  match i with
  | .region _ => none
  | .props p => some p

/-- The entry of a returned KeyMap under a key (astMapGet0A); nothing for a single item. -/
def AstObject.entry (o : AstObject) (key : String) : Option Item :=
  match o with
  | .item _ => none
  | .keyMap es => (es.find? (fun p => p.1 = key)).map Prod.snd

/-- The Property Tree held by an Object that is one. -/
def AstObject.tree (o : AstObject) : Option PropTree :=
  match o with
  | .item (.props p) => some p
  | _ => none

/-- The Region held by an Object that is one. -/
def AstObject.region (o : AstObject) : Option Region :=
  match o with
  | .item (.region r) => some r
  | _ => none

/-- The geometric shape of a Region that is not a Prism. -/
def Region.shape (r : Region) : Option Shape :=
  match r with
  | .basic _ sh _ _ => some sh
  | .prism _ _ => none

/-- The lines that WriteProps writes for the Property Tree that Read returns when only
StcsProps is set (nothing when Read returns no Property Tree). -/
def reencode (env : Env) (fuel : Nat) (source : List String) : Option (List String) :=
  ((Read env { stcsarea := 0, stcscoords := 0, stcsprops := 1 } fuel source).bind
    (fun r => r.object.bind AstObject.tree)).map (fun t => (WriteProps t).sink)

/-- The KeyMap of one sub-phrase in the Property Tree that Read returns when only
StcsProps is set. -/
def decodedProps (env : Env) (fuel : Nat) (source : List String) (key : String) :
    Option KeyMap :=
  ((Read env { stcsarea := 0, stcscoords := 0, stcsprops := 1 } fuel source).bind
    (fun r => r.object.bind AstObject.tree)).bind (fun t => t.get key)

/-- The value and the status that the branches START, STOP and TIME leave for the
current word: the variable `start`, `stop` or `time` and the inherited status. -/
def timeBranches (env : Env) (s : State) (w : String) : List (Option ℚ × Status) :=
  [((stepStart env s w).start, (stepStart env s w).status),
   ((stepStop env s w).stop, (stepStop env s w).status),
   ((stepTime env s w).time, (stepTime env s w).status)]

/-- The time origin as the class description words it: the start time if one is given,
otherwise the stop time, otherwise the single time value. -/
def chosenOrigin (start stop time : Option ℚ) : Option ℚ :=
  match start with
  | some v => some v
  | none =>
    match stop with
    | some v => some v
    | none => time

/-- The representative position that SetUnc uses for a Region: half way along the
diagonal of its bounding box, from the lower corner. -/
def representativePosition (env : Env) (frm : AstFrame) (r : Region) : List ℚ :=
  env.offset frm (env.regBaseBox r).1 (env.regBaseBox r).2
    (env.distance frm (env.regBaseBox r).1 (env.regBaseBox r).2 / 2)

/-! ## WriteRegion: the bounds of the spectral and redshift axes, and the end of Write -/

/-- What WriteRegion knows of the Region picked for the spectral or the redshift axis
when it tests the bounds: whether its Frame is a SpecFrame (astIsASpecFrame), and the
bounds given by astGetRegionBounds. -/
structure AxisBounds where
  isSpecFrame : Bool
  lbnd : ℚ
  ubnd : ℚ

/-- The variables of WriteRegion that the tests of the bounds use: the flag `ok` (set
to 1 at the start of WriteRegion, never set to 1 again, and returned at the end), the
KeyMap of the sub-phrase, the fill factor and the warnings issued. -/
structure BoundsState where
  ok : Bool
  spprops : KeyMap
  fill : Option ℚ
  warnings : List Warning

/-- The tests of the bounds in the spectral section of WriteRegion; `fmt` is the text
that astMapPut0D stores for a value and `lim` is sqrt( DBL_MAX ). -/
def spectralBounds (fmt : ℚ → String) (lim : ℚ) (b : AxisBounds) (st : BoundsState) :
    BoundsState :=
  if ¬ b.isSpecFrame then
    { st with ok := false, warnings := st.warnings ++ [⟨1,
        "The spectral sub-phrase in the supplied KeyMap is not described using an AST SpecFrame.",
        []⟩] }
  else if b.lbnd = b.ubnd then
    { st with spprops := (st.spprops.put "ID" "Spectral").put "SPECTRAL" (fmt b.lbnd),
              fill := none }
  else if b.lbnd > -lim ∧ b.ubnd < lim then
    { st with spprops := ((st.spprops.put "ID" "SpectralInterval").put "LOLIMIT"
        (fmt b.lbnd)).put "HILIMIT" (fmt b.ubnd) }
  else
    { st with ok := false, warnings := st.warnings ++ [⟨1,
        "Cannot write out an unbounded spectral interval.", []⟩] }

/-- The tests of the bounds in the redshift section of WriteRegion. -/
def redshiftBounds (fmt : ℚ → String) (lim : ℚ) (b : AxisBounds) (st : BoundsState) :
    BoundsState :=
  if ¬ b.isSpecFrame then
    { st with ok := false, warnings := st.warnings ++ [⟨1,
        "The redshift sub-phrase in the supplied KeyMap is not described using an AST SpecFrame.",
        []⟩] }
  else if b.lbnd = b.ubnd then
    { st with spprops := (st.spprops.put "ID" "Redshift").put "REDSHIFT" (fmt b.lbnd),
              fill := none }
  else if b.lbnd > -lim ∧ b.ubnd < lim then
    { st with spprops := ((st.spprops.put "ID" "RedshiftInterval").put "LOLIMIT"
        (fmt b.lbnd)).put "HILIMIT" (fmt b.ubnd) }
  else
    { st with ok := false, warnings := st.warnings ++ [⟨1,
        "Cannot write out an unbounded redshift interval.", []⟩] }

/-- The end of Write: `ret = coords ? WriteRegion( coords ) : 1;
if( area && ret ) ret = WriteRegion( area ); if( ret ) WriteProps( props )`.
The arguments are the values that WriteRegion returns for the Coords and for the Area
Region (`none` when the Region is absent) and the properties; the result is `ret` and
the lines written. -/
def WriteEnd (coords area : Option Bool) (props : PropTree) : Bool × List String :=
  let ret : Bool := match coords with
    | some r => r
    | none => true
  let ret2 : Bool := match area with
    | some r => if ret then r else ret
    | none => ret
  (ret2, if ret2 then (WriteProps props).sink else [])

/-! ## The levels of the warnings -/

/-- The format of the warning that the TIME_SCALE branch issues when it replaces a time
scale. -/
def replacedTimeScale : String :=
  "'%s' being used in place of unsupported time scale '%s' found in STC-S description: '%s'."

/-- A warning whose level is 1 or 2, or 3 for a replaced time scale. -/
def levelOK (x : Warning) : Prop :=
  x.level = 1 ∨ x.level = 2 ∨ (x.level = 3 ∧ x.text = replacedTimeScale)

/-- Every warning of the list has one of the levels that Read uses. -/
def WarnOK (ws : List Warning) : Prop := ∀ x ∈ ws, levelOK x

/-- What tolerant lookahead asks of a pass of the main loop from the state `s` to the
state `t`: the word, the word context and the source are untouched, and either the loop
goes on in a different state that stands later in the order of the states, or the loop
is left, which only the PIX_SIZE state does when no sub-phrase identifier is set. -/
def Lookahead (s t : State) : Prop :=
  t.word = s.word ∧ t.con = s.con ∧ t.source = s.source
  ∧ ((t.broke = false ∧ t.look_for ≠ s.look_for ∧ rank s < rank t)
    ∨ (t.broke = true ∧ s.look_for = .PIX_SIZE ∧ s.timeid = NULL_ID ∧ s.spaceid = NULL_ID
        ∧ s.velid = NULL_ID ∧ s.specid = NULL_ID))

/-- The part of the state that decides how the parse goes on, apart from `look_for`:
the word, the word context, the source, the flags `new_word` and `broke`, and the five
sub-phrase identifiers. -/
def State.control (s : State) :
    Option String × WordContext × List String × Bool × Bool × Nat × Nat × Nat × Nat × Nat :=
  (s.word, s.con, s.source, s.new_word, s.broke, s.timeid, s.spaceid, s.velid, s.specid,
    s.redid)

/-! ## Words and the view of the state used to follow a parse -/

/-- A word of a document: a non-empty string without white space. -/
def IsWord (w : String) : Prop := w.data ≠ [] ∧ ∀ c ∈ w.data, isspace c = false

instance (w : String) : Decidable (IsWord w) := by
  unfold IsWord; infer_instance

/-- The first character of the string is a decimal digit. -/
def startsWithDigit (w : String) : Bool :=
  match w.data with
  | c :: _ => c.isDigit
  | [] => false

/-- An ISO date token: a word that starts with a digit. -/
def IsoToken (w : String) : Prop := IsWord w ∧ startsWithDigit w = true

instance (w : String) : Decidable (IsoToken w) := by
  unfold IsoToken; infer_instance

/-- The part of the state that a parse depends on: the reader (current word, the text
left in the line, the flag `done`, the lines left), the status, the state of the loop,
the property KeyMaps with the pointer `props`, the sub-phrase identifiers, the
TimeFrame, which of the other Frames exist, and the kind of the space Frame. -/
structure View where
  word : Option String
  e : Option (List Char)
  done : Bool
  source : List String
  status : Status
  look_for : LookFor
  broke : Bool
  props : Option PropsSel
  time_props : KeyMap
  space_props : KeyMap
  spec_props : KeyMap
  red_props : KeyMap
  timeid : Nat
  spaceid : Nat
  velid : Nat
  specid : Nat
  redid : Nat
  timefrm : Option AstFrame
  spacefrm : Bool
  specfrm : Bool
  redfrm : Bool
  is_skyframe : Bool
  sys : System
  naxes : Nat
  epoch : Option ℚ
  use_co : Bool
  use_enc : Bool
  time_enc : Bool
  space_enc : Bool
  spec_enc : Bool
  red_enc : Bool
  start : Bool
  time : Bool
  ts : TimeScale

/-- The view of a state. -/
def State.view (s : State) : View :=
  { word := s.word, e := s.con.e, done := s.con.done, source := s.source, status := s.status,
    look_for := s.look_for, broke := s.broke, props := s.props, time_props := s.time_props,
    space_props := s.space_props, spec_props := s.spec_props, red_props := s.red_props,
    timeid := s.timeid, spaceid := s.spaceid, velid := s.velid, specid := s.specid,
    redid := s.redid, timefrm := s.timefrm, spacefrm := s.spacefrm.isSome,
    specfrm := s.specfrm.isSome, redfrm := s.redfrm.isSome, is_skyframe := s.is_skyframe,
    sys := s.sys, naxes := s.naxes, epoch := s.epoch, use_co := s.use_co, use_enc := s.use_enc,
    time_enc := s.time_enc.isSome, space_enc := s.space_enc.isSome,
    spec_enc := s.spec_enc.isSome, red_enc := s.red_enc.isSome, start := s.start.isSome,
    time := s.time.isSome, ts := s.ts }

/-- The Property Tree in the Object that Read returns: the Object itself when it is a
Property Tree, the entry `PROPS` when Read returns a KeyMap of items. -/
def AstObject.propTree (o : AstObject) : Option PropTree :=
  match o with
  | .item i => i.asProps
  | .keyMap _ => (o.entry "PROPS").bind Item.asProps

/-- The lines that WriteProps writes for the Property Tree that Read builds from a
document (nothing when Read does not end or returns no Property Tree). -/
def roundTrip (env : Env) (this : AstStcsChan) (fuel : Nat) (source : List String) :
    Option (List String) :=
  ((Read env this fuel source).bind (fun r => r.object.bind AstObject.propTree)).map
    (fun t => (WriteProps t).sink)

/-! ## GetFmt: the format used to write a numerical property -/

/-- The counters that GetFmt keeps for the word it scans: whether an exponent was
found, the digits counted before and after the decimal point, and whether a decimal
point was found (`dot` is not NULL). -/
structure Digits where
  exp : Bool
  before : Nat
  after : Nat
  dot : Bool
deriving DecidableEq, Repr

/-- What one character adds to the counters of GetFmt (the body of the inner loop). -/
def countChar (d : Digits) (c : Char) : Digits :=
  if d.exp then d
  else if c.isDigit then
    (if d.dot then { d with after := d.after + 1 } else { d with before := d.before + 1 })
  else if c = '.' then { d with dot := true }
  else if c = 'e' ∨ c = 'E' then { d with exp := true }
  else d

/-- The inner loop `while( *p != 0 && *p != ' ' ) { ...; p++; }` of GetFmt: the counters
at the end of the word and the text at which `p` stops. -/
def scanWord : List Char → Digits → Digits × List Char
  | [], d => (d, [])
  | c :: cs, d => if c = ' ' then (d, c :: cs) else scanWord cs (countChar d c)

/-- The loop `for( j = 0; j <= i; j++ )` of GetFmt from pass `j` on, with `n` passes
left: `p` is the text not yet scanned, `first` holds the counters of the first word and
`cur` those of the word scanned last.  When the text ends after a word, the loop is left
with the counters of the first word. -/
def wordLoop : Nat → Nat → List Char → Digits → Digits → Digits
  | 0, _, _, _, cur => cur
  | n + 1, j, p, first, _ =>
    let r := scanWord p ⟨false, 0, 0, false⟩
    let first1 := if j = 0 then r.1 else first
    let p1 := r.2.dropWhile (fun c => c = ' ')
    if p1 = [] then first1 else wordLoop n (j + 1) p1 first1 r.1

/-- GetFmt, for a good status and an index `i` that is not negative: the format
specifier written to `fmt`. -/
def GetFmt (key : String) (props : KeyMap) (i defdigs : Nat) : String :=
  let d : Digits := match props.get key with
    | some word => wordLoop (i + 1) 0 word.data ⟨false, 0, 0, false⟩ ⟨true, defdigs, 0, false⟩
    | none => ⟨true, defdigs, 0, false⟩
  if d.exp then "%." ++ toString (d.before + d.after) ++ "g"
  else "%." ++ toString d.after ++ "f"

/-- The characters that start an exponent. -/
def isExpChar (c : Char) : Bool := c = 'e' || c = 'E'

/-- The characters other than the decimal point. -/
def notPoint (c : Char) : Bool := !(c = '.')

/-- The mantissa of a token: its text before the first `e` or `E`. -/
def mantissa (tok : List Char) : List Char := tok.takeWhile (fun c => !isExpChar c)

/-- The format of one numeric token as the specification words it: `%.Nf` with N the
number of digits after the decimal point when the token has no exponent, `%.Ng` with N
the number of digits of the mantissa when it has one. -/
def tokenFormat (tok : String) : String :=
  if tok.data.any isExpChar then
    "%." ++ toString ((mantissa tok.data).countP Char.isDigit) ++ "g"
  else
    "%." ++ toString (((mantissa tok.data).dropWhile notPoint).countP Char.isDigit) ++ "f"

/-- A token of a property value: a non-empty text without a space. -/
def IsToken (t : String) : Prop := t.data ≠ [] ∧ ' ' ∉ t.data

instance (t : String) : Decidable (IsToken t) := by
  unfold IsToken; infer_instance

/-- The text of a list of tokens separated by single spaces. -/
def joinTokens : List (List Char) → List Char
  | [] => []
  | [t] => t
  | t :: u :: r => t ++ ' ' :: joinTokens (u :: r)

/-- The format that GetFmt makes of its counters. -/
def Digits.format (d : Digits) : String :=
  if d.exp then "%." ++ toString (d.before + d.after) ++ "g"
  else "%." ++ toString d.after ++ "f"

/-! ## Runs of calls of GetNextWord -/

/-- GetNextWord finds no further word: the rest of the current line is blank and the
source has no line left (the branch that returns the empty string or NULL). -/
def endOfInput (this : List String) (con : WordContext) : Bool :=
  this.isEmpty && (match con.e.map skipSpace with
    | none => true
    | some cs => cs.isEmpty)

/-- The pointer `con->e` is not NULL although the context holds no line: it points into
the line that GetNextWord freed when the source gave no further line.  The next call
starts with `if( con->e ) *(con->e) = ' '`, a write to that freed memory. -/
def dangling (con : WordContext) : Bool := con.e.isSome && con.line.isNone

/-- The words returned by `n` successive calls of GetNextWord, the values returned at the
end of the input left out, and the context after the calls. -/
def GetWords : Nat → List String → WordContext → List String × WordContext
  | 0, _, con => ([], con)
  | n + 1, this, con =>
    let r := GetNextWord this con
    let rest := GetWords n r.2.1 r.2.2
    ((if endOfInput this con then [] else r.1.toList) ++ rest.1, rest.2)

/-- Successive calls of GetNextWord, the caller giving the flag `done` the listed value
before each call: the values returned and the context after the calls. -/
def GetNextWords : List Bool → List String → WordContext →
    List (Option String) × List String × WordContext
  | [], this, con => ([], this, con)
  | d :: ds, this, con =>
    let r := GetNextWord this { con with done := d }
    let rest := GetNextWords ds r.2.1 r.2.2
    (r.1 :: rest.1, rest.2)

/-- The maximal runs of characters that are not white space in a text; `acc` holds the
run being read. -/
def runsFrom : List Char → List Char → List String
  | [], acc => if acc = [] then [] else [String.mk acc]
  | c :: cs, acc =>
    if isspace c then (if acc = [] then runsFrom cs [] else String.mk acc :: runsFrom cs [])
    else runsFrom cs (acc ++ [c])

/-- The words of a document as the specification words them: the maximal runs of
characters that are not white space, line by line and left to right. -/
def docWords (lines : List String) : List String :=
  (lines.map (fun l => runsFrom l.data [])).flatten

/-- The cyclic list of words of a context, read from the oldest entry on (the order in
which ContextFragment visits it). -/
def WordContext.history (con : WordContext) : List (Option String) :=
  (List.range NEWORD).map (fun i => con.words.getD ((con.next + i) % NEWORD) none)

/-- The last NEWORD of the words given, preceded by NULL entries when there are fewer. -/
def lastWords (ws : List String) : List (Option String) :=
  List.replicate (NEWORD - ws.length) none ++ (ws.drop (ws.length - NEWORD)).map some

/-! ## WriteRegion: the classification of the axes -/

/-- The variables set by the loop of WriteRegion over the axes of the Region: the index
of the time axis (`none` for -1), the indices of the space axes (`nspace` is the length
of the list), the flag `issky`, the indices of the spectral and redshift axes, and the
warnings issued. -/
structure AxisSel where
  timeax : Option Nat := none
  spaceax : List Nat := []
  issky : Bool := false
  specax : Option Nat := none
  redax : Option Nat := none
  warnings : List Warning := []
deriving DecidableEq, Repr

/-- The call astAddWarning for axis `i` (printed as `i + 1`) in the loop over the axes. -/
def AxisSel.warn (st : AxisSel) (text : String) (i : Nat) (more : List String) : AxisSel :=
  { st with warnings := st.warnings ++ [⟨1, text, toString (i + 1) :: more⟩] }

/-- The body of the loop for axis `i`, for a good status: `cls` and `dom` are the class
and the Domain of the primary Frame that defines the axis. -/
def classifyAxis (st : AxisSel) (i : Nat) (cls dom : String) : AxisSel :=
  if cls = "TimeFrame" then
    if st.timeax = none then { st with timeax := some i }
    else st.warn "More than one time axis found. Extra axis (axis %d) will be ignored." i []
  else if cls = "SkyFrame" then
    if st.issky ∨ st.spaceax.length = 0 then
      if st.spaceax.length < 2 then { st with spaceax := st.spaceax ++ [i], issky := true }
      else st.warn "More than two sky frame axes found. Extra axis (axis %d) will be ignored."
        i []
    else st.warn "Mixture of basic and sky frame axes found. Sky frame axis %d will be ignored."
      i []
  else if cls = "Frame" then
    if ¬ st.issky then
      if st.spaceax.length < 3 then { st with spaceax := st.spaceax ++ [i] }
      else st.warn
        "More than three basic space frame axes found. Extra axis (axis %d) will be ignored."
        i []
    else st.warn
      "Mixture of basic and sky frame axes found. Basic frame axis %d will be ignored." i []
  else if cls = "SpecFrame" ∧ dom = "SPECTRUM" then
    if st.specax = none then { st with specax := some i }
    else st.warn "More than one spectral axis found. Extra axis (axis %d) will be ignored." i []
  else if cls = "SpecFrame" ∧ dom = "REDSHIFT" then
    if st.redax = none then { st with redax := some i }
    else st.warn "More than one redshift axis found. Extra axis (axis %d) will be ignored." i []
  else st.warn "Could not classify axis %d (class=%s domain=%s). It will be ignored." i
    [cls, dom]

/-- The loop `for( i = 0; i < nax; i++ )` from axis `i` on; the list holds the class and
the Domain of the primary Frame of each axis left. -/
def classifyFrom (st : AxisSel) (i : Nat) : List (String × String) → AxisSel
  | [] => st
  | a :: rest => classifyFrom (classifyAxis st i a.1 a.2) (i + 1) rest

/-- The classification of the axes of a Region. -/
def classifyAxes (axes : List (String × String)) : AxisSel :=
  classifyFrom {} 0 axes

/-- Axis `i` was selected for one of the sub-phrases. -/
def AxisSel.selected (st : AxisSel) (i : Nat) : Bool :=
  st.timeax = some i || st.spaceax.contains i || st.specax = some i || st.redax = some i

/-- The class of the first space axis: the first axis that is a SkyFrame or a basic
Frame axis. -/
def firstSpaceClass (axes : List (String × String)) : Option String :=
  (axes.find? (fun a => a.1 = "SkyFrame" || a.1 = "Frame")).map Prod.fst

/-- The indices of the axes of a class, in order. -/
def axesOfClass (axes : List (String × String)) (cls : String) : List Nat :=
  (axes.enum.filter (fun p => p.2.1 = cls)).map Prod.fst

/-! ## Write -/

/-- An entry of the KeyMap given to Write, as Write looks at it: a Region, a KeyMap, or
an Object of another class (with the name of its class). -/
inductive WItem
| region (r : Region)
| keyMap (t : PropTree)
| other (cls : String)
deriving DecidableEq, Repr

/-- The Object given to Write: a Region, a KeyMap, or an Object of another class.  Of a
KeyMap the entries that Write looks at are kept: the entries AREA, COORDS and PROPS, and
the KeyMap itself seen as a Property Tree (its entries TIME_PROPS, SPACE_PROPS,
SPECTRAL_PROPS and REDSHIFT_PROPS). -/
inductive WObject
| region (r : Region)
| keyMap (area coords props : Option WItem) (subs : PropTree)
| other (cls : String)
deriving DecidableEq, Repr

/-- What a call of WriteRegion gives: the value returned, the properties KeyMap after
the call, the warnings issued and the status. -/
structure RegionResult where
  ok : Bool
  props : PropTree
  warnings : List Warning
  status : Status
deriving DecidableEq, Repr

/-- The functions that Write calls and that are not part of it: WriteRegion entered
with a good status, the conversion of the COORDS Region into the Frame of the AREA
Region (astConvert and astMapRegion; `none` when astConvert finds no conversion), and
the class names given by astGetClass for the channel and for a Region. -/
structure WriteEnv where
  writeRegion : Region → PropTree → RegionResult
  convert : Region → Region → Option Region
  className : String
  regionClass : Region → String

/-- The class name of an entry (astGetClass). -/
def WItem.className (env : WriteEnv) : WItem → String
  | .region r => env.regionClass r
  | .keyMap _ => "KeyMap"
  | .other cls => cls

/-- The variables of Write when the supplied Object has been looked at. -/
structure WriteSetup where
  area : Option Region
  coords : Option Region
  props : Option PropTree
  warnings : List Warning
deriving DecidableEq, Repr

/-- The entry that has the wrong type, as the variables `errclass`, `errname` and
`wantclass` hold it: the last one looked at of PROPS, COORDS and AREA. -/
def wrongEntry (env : WriteEnv) (area coords props : Option WItem) :
    Option (String × String × String) :=
  match props with
  | some (.region r) => some (env.regionClass r, "PROPS", "KeyMap")
  | some (.other cls) => some (cls, "PROPS", "KeyMap")
  | _ =>
    match coords with
    | some (.keyMap _) => some ("KeyMap", "COORDS", "Region")
    | some (.other cls) => some (cls, "COORDS", "Region")
    | _ =>
      match area with
      | some (.keyMap _) => some ("KeyMap", "AREA", "Region")
      | some (.other cls) => some (cls, "AREA", "Region")
      | _ => none

/-- The first part of Write, for a good status: the AREA and COORDS Regions and the
properties KeyMap found in the supplied Object, with the warnings issued. -/
def writeSetup (env : WriteEnv) (object : WObject) : WriteSetup :=
  match object with
  | .region r => { area := some r, coords := none, props := none, warnings := [] }
  | .other cls =>
    { area := none, coords := none, props := none,
      warnings := [⟨1,
        "Failed to write out a %s through a %s. The %s class cannot be used to write out a %s.",
        [cls, env.className, env.className, cls]⟩] }
  | .keyMap a c p subs =>
    let area : Option Region := match a with
      | some (.region r) => some r
      | _ => none
    let coords : Option Region := match c with
      | some (.region r) => some r
      | _ => none
    let props0 : Option PropTree := match p with
      | some (.keyMap t) => some t
      | _ => none
    let props : Option PropTree :=
      if (subs.get "TIME_PROPS").isSome ∨ (subs.get "SPACE_PROPS").isSome
          ∨ (subs.get "SPECTRAL_PROPS").isSome ∨ (subs.get "REDSHIFT_PROPS").isSome then
        some subs
      else props0
    let w1 : List Warning := match wrongEntry env a c p with
      | some (errclass, errname, wantclass) =>
        [⟨1, "The supplied KeyMap contains a %s called '%s'. But '%s' should be a %s (programming error).",
          [errclass, errname, errname, wantclass]⟩]
      | none => []
    let w2 : List Warning :=
      if area = none ∧ coords = none ∧ props = none then
        [⟨1, "The supplied KeyMap does not contains anything that can be written out through a %s.",
          [env.className]⟩]
      else []
    let conv : Option Region × List Warning := match area, coords with
      | some ar, some co =>
        (match env.convert co ar with
         | some nc => (some nc, [])
         | none => (some co, [⟨1,
             "Cannot convert between the co-ordinate frame of the COORDS Region and the co-ordinate frame of the AREA Region.",
             []⟩]))
      | _, _ => (coords, [])
    { area := area, coords := conv.1, props := props, warnings := w1 ++ w2 ++ conv.2 }

/-- A call of WriteRegion: it returns 0 at once when the status is bad. -/
def callRegion (env : WriteEnv) (status : Status) (reg : Region) (props : PropTree) :
    RegionResult :=
  if status = .ok then env.writeRegion reg props
  else { ok := false, props := props, warnings := [], status := status }

/-- The statement `ret = coords ? WriteRegion( this, coords, props, status ) : 1`, with
the properties KeyMap made when there was none. -/
def writeCoords (env : WriteEnv) (s : WriteSetup) : RegionResult :=
  match s.coords with
  | some c => env.writeRegion c (s.props.getD ⟨[]⟩)
  | none => { ok := true, props := s.props.getD ⟨[]⟩, warnings := [], status := .ok }

/-- The statement `if( area && ret ) ret = WriteRegion( this, area, props, status )`. -/
def writeArea (env : WriteEnv) (s : WriteSetup) (rc : RegionResult) : RegionResult :=
  match s.area with
  | some a =>
    if rc.ok then
      let ra := callRegion env rc.status a rc.props
      { ra with warnings := rc.warnings ++ ra.warnings }
    else rc
  | none => rc

/-- The outcome of Write: the value returned, the lines given to the sink, the warnings,
the status, and whether WriteProps met a NULL line. -/
structure WriteResult where
  ret : Nat
  sink : List String
  warnings : List Warning
  status : Status
  fault : Bool
deriving DecidableEq, Repr

/-- Write.  `status` is the status on entry. -/
def Write (env : WriteEnv) (status : Status) (object : WObject) : WriteResult :=
  if status ≠ .ok then { ret := 0, sink := [], warnings := [], status := status, fault := false }
  else
    let s := writeSetup env object
    let r := writeArea env s (writeCoords env s)
    let written : Bool := r.ok && decide (r.status = .ok)
    { ret := if r.status = .ok then (if r.ok then 1 else 0) else 0,
      sink := if written then (WriteProps r.props).sink else [],
      warnings := s.warnings ++ r.warnings,
      status := r.status,
      fault := if written then (WriteProps r.props).fault else false }

/-- A sample of the functions that Write calls: WriteRegion stores a time sub-phrase in
the properties KeyMap and then rejects a Region that is a Prism, and accepts any other
Region. -/
def sampleWriteEnv : WriteEnv where
  writeRegion := fun reg props =>
    match reg with
    | .prism _ _ =>
      { ok := false,
        props := props.put "TIME_PROPS" ((KeyMap.empty.put "ID" "Time").put "TIME" "2009-01-01"),
        warnings := [⟨1, "Cannot determine the region covered by the space axes.", []⟩],
        status := .ok }
    | .basic _ _ _ _ =>
      { ok := true,
        props := props.put "TIME_PROPS" ((KeyMap.empty.put "ID" "Time").put "TIME" "2009-01-01"),
        warnings := [], status := .ok }
  convert := fun co _ => some co
  className := "StcsChan"
  regionClass := fun _ => "Region"

/-! ## WriteRegion: the limits of a PositionInterval -/

/-- The variables of WriteRegion that the space section uses when it stores the limits
of a PositionInterval: the flag `ok`, the text entries of the KeyMap `props` given to
WriteRegion, the KeyMap `spprops` of the space sub-phrase (the entry SPACE_PROPS of
`props`), the buffer `prop` with its length `nc`, the warnings issued, and whether
astMapPut0C was given a NULL string. -/
structure SpaceWrite where
  ok : Bool
  props : KeyMap
  spprops : KeyMap
  prop : Option (List Char)
  nc : Nat
  warnings : List Warning
  fault : Bool
deriving DecidableEq, Repr

/-- The loop over the space axes that formats the limits: `bnd` holds the bounds of the
axes from axis `i` on, a bound that is AST__BAD, DBL_MAX or -DBL_MAX being `none`;
`sprintf` is the C library function with one number, and `text` the warning for an
undefined limit, after which the loop is left. -/
def limitsLoop (sprintf : String → ℚ → String) (key text : String) (scale : ℚ)
    (defdigs : Nat) : Nat → List (Option ℚ) → SpaceWrite → SpaceWrite
  | _, [], st => st
  | i, none :: _, st =>
    { st with ok := false, warnings := st.warnings ++ [⟨1, text, [toString (i + 1)]⟩] }
  | i, some v :: rest, st =>
    let buf := sprintf (GetFmt key st.spprops i defdigs) (scale * v)
    let b := astAppendString (astAppendString (st.prop, st.nc) (some buf)) (some " ")
    limitsLoop sprintf key text scale defdigs (i + 1) rest { st with prop := b.1, nc := b.2 }

/-- The statements `prop[ nc - 1 ] = 0; astMapPut0C( props, key, prop, NULL );` that
follow the loop: the value is stored in `props`, the KeyMap given to WriteRegion.  With a
NULL buffer, or with `nc` equal to 0, the first statement writes through a null pointer
or in front of the buffer: a fault. -/
def storeLimits (key : String) (st : SpaceWrite) : SpaceWrite :=
  match st.prop with
  | some p =>
    if st.nc = 0 then { st with fault := true }
    else { st with prop := some (p.take (st.nc - 1)),
                   props := st.props.put key (String.mk (p.take (st.nc - 1))) }
  | none => { st with fault := true }

/-- The branch of WriteRegion for a space Region that is an Interval or a Box. -/
def positionInterval (sprintf : String → ℚ → String) (scale : ℚ) (defdigs : Nat)
    (lbnd ubnd : List (Option ℚ)) (st : SpaceWrite) : SpaceWrite :=
  let st0 := { st with spprops := st.spprops.put "ID" "PositionInterval" }
  let st1 := storeLimits "LOLIMIT"
    (limitsLoop sprintf "LOLIMIT" "Spatial axis %d has an undefined lower limit." scale defdigs
      0 lbnd { st0 with nc := 0 })
  storeLimits "HILIMIT"
    (limitsLoop sprintf "HILIMIT" "Spatial axis %d has an undefined upper limit." scale defdigs
      0 ubnd { st1 with nc := 0 })

/-! ## The lines of WriteProps, as the specification words them -/

/-- The text of one field of a line: nothing when the sub-map has no value for the key,
otherwise the keyword that introduces the value (if any), the value and one space. -/
def fieldText (km : KeyMap) (it : String × Option String) : List Char :=
  match km.get it.1 with
  | some v => (match it.2 with
      | some pfx => pfx.data
      | none => []) ++ v.data ++ [' ']
  | none => []

/-- The line of one sub-phrase: the fields that the sub-map has, in the fixed order
identifier, the keys before the value, the value (introduced by the label of the
single-value form unless the identifier is that label), the keys after it. -/
def subPhraseLine (km : KeyMap) (label valueKey : String)
    (before after : List (String × Option String)) : String :=
  String.mk ((([("ID", none)] ++ before
      ++ [(valueKey, if km.get "ID" = some label then none else some (label ++ " "))]
      ++ after).map (fieldText km)).flatten)

/-- The lines expected of WriteProps: one for each sub-map present, in the order time,
space, spectral, redshift. -/
def expectedLines (t : PropTree) : List String :=
  ((t.get "TIME_PROPS").map (fun km => subPhraseLine km "Time" "TIME"
      [("FILLFACTOR", some "fillfactor "), ("TIMESCALE", none), ("REFPOS", none),
       ("START", none), ("STOP", none)]
      [("UNIT", some "unit "), ("ERROR", some "Error "), ("RESOLUTION", some "Resolution "),
       ("PIXSIZE", some "PixSize ")])).toList
  ++ ((t.get "SPACE_PROPS").map (fun km => subPhraseLine km "Position" "POSITION"
      [("FILLFACTOR", some "fillfactor "), ("FRAME", none), ("REFPOS", none),
       ("FLAVOUR", none), ("LOLIMIT", none), ("HILIMIT", none), ("CENTRE", none),
       ("RADIUS", none), ("RADIUS1", none), ("RADIUS2", none), ("POSANGLE", none),
       ("VERTICES", none)]
      [("UNIT", some "unit "), ("ERROR", some "Error "), ("RESOLUTION", some "Resolution "),
       ("SIZE", some "Size "), ("PIXSIZE", some "PixSize ")])).toList
  ++ ((t.get "SPECTRAL_PROPS").map (fun km => subPhraseLine km "Spectral" "SPECTRAL"
      [("FILLFACTOR", some "fillfactor "), ("REFPOS", none), ("LOLIMIT", none),
       ("HILIMIT", none)]
      [("UNIT", some "unit "), ("ERROR", some "Error "), ("RESOLUTION", some "Resolution "),
       ("PIXSIZE", some "PixSize ")])).toList
  ++ ((t.get "REDSHIFT_PROPS").map (fun km => subPhraseLine km "Redshift" "REDSHIFT"
      [("FILLFACTOR", some "fillfactor "), ("REFPOS", none), ("TYPE", none),
       ("DOPPLERDEF", none), ("LOLIMIT", none), ("HILIMIT", none)]
      [("UNIT", some "unit "), ("ERROR", some "Error "), ("RESOLUTION", some "Resolution "),
       ("PIXSIZE", some "PixSize ")])).toList

/-- The sub-map has an identifier that fits, followed by a space, in the array
`char id[ 30 ]` of WriteProps. -/
def idFits (km : KeyMap) : Bool :=
  match km.get "ID" with
  | some id => id.data.length < 29
  | none => false

/-- Each sub-map present in the Property Tree has an identifier that fits. -/
def subMapsFit (t : PropTree) : Bool :=
  ["TIME_PROPS", "SPACE_PROPS", "SPECTRAL_PROPS", "REDSHIFT_PROPS"].all (fun key =>
    match t.get key with
    | some km => idFits km
    | none => true)

/-! ## The words ahead of the reader -/

/-- The values that the next `n` calls of GetNextWord return. -/
def wordsAhead : Nat → List String → WordContext → List (Option String)
  | 0, _, _ => []
  | n + 1, this, con =>
    (GetNextWord this con).1 :: wordsAhead n (GetNextWord this con).2.1 (GetNextWord this con).2.2

/-- The number of characters that the reader can still deliver from a source and a
context (the value of `State.inputSize`). -/
def inputLeft (this : List String) (con : WordContext) : Nat :=
  (con.e.getD []).length + (this.map (fun l => l.length + 1)).sum

/-- The buffer `prop` holds the text `P` up to its length `nc` (a NULL buffer has the
length 0). -/
def PropIs (s : State) (P : List Char) : Prop :=
  (if s.prop = none then 0 else s.nc) = P.length ∧ (s.prop.getD []).take P.length = P

/-- The variables of Read that the loops of the ERROR state leave alone. -/
structure ErrFrame where
  status : Status
  warnings : List Warning
  props : Option PropsSel
  time_props : KeyMap
  space_props : KeyMap
  spec_props : KeyMap
  red_props : KeyMap
  err : Option (List ℚ)
  subphrase : Option String

/-- The part of the state that the loops of the ERROR state leave alone. -/
def State.errFrame (s : State) : ErrFrame :=
  { status := s.status, warnings := s.warnings, props := s.props, time_props := s.time_props,
    space_props := s.space_props, spec_props := s.spec_props, red_props := s.red_props,
    err := s.err, subphrase := s.subphrase }

/-- A state of Read in the space sub-phrase of a document with two space axes, with
`Error` as the current word and three numbers after it. -/
def errorSample : State :=
  { initState ["Error 1 2 3 Size 4"] with
    look_for := .ERROR, props := some .space, spaceid := BOX_ID, naxes := 2,
    subphrase := some "space" }

/-- A state of Read at the end of a `Position` sub-phrase in a basic Frame with two axes:
position (10, 20), scale factor 1/2. -/
def positionSample : State :=
  { initState [] with
    spaceid := POSITION_ID, naxes := 2, pos := some [10, 20], scale := 1 / 2,
    spacefrm := some (astFrame 2) }

/-- A state of Read at the end of a `Box` sub-phrase in a basic Frame with two axes:
centre (1, 2), size pair (4, 6), scale factor 1. -/
def boxSample : State :=
  { initState [] with
    spaceid := BOX_ID, naxes := 2, centre := [1, 2], bsize := [4, 6], scale := 1,
    spacefrm := some (astFrame 2) }

/-! ## The spectral units of the decoder and of the encoder -/

/-- WriteRegion, spectral sub-phrase, when the units of the properties KeyMap are
retained: the System implied by the UNIT entry (`Hz` when there is none); `none` when
the unit is refused (a warning is issued and the sub-phrase is not written). -/
def retainedSpecSystem (unit : Option String) : Option System :=
  let u := unit.getD "Hz"
  if u = "Hz" ∨ u = "MHz" ∨ u = "GHz" then some .FREQ
  else if u = "m" ∨ u = "mm" ∨ u = "um" ∨ u = "nm" ∨ u = "Angstrom" then some .WAVELEN
  else if u = "eV" ∨ u = "keV" ∨ u = "MeV" then some .ENERGY
  else none

/-- The System that the UNIT branch of Read gives to the spectral Frame; `none` when the
unit is refused (the branch reports an error). -/
def decodedSpecSystem (s : State) : Option System :=
  if (unitSpec s).status = .ok then (unitSpec s).specfrm.bind (fun f => f.system) else none

/-! ## The attributes of a StcsChan -/

/-- The member made by `astMAKE_CLEAR(StcsChan,StcsArea,stcsarea,-INT_MAX)`. -/
def astClearStcsArea (this : AstStcsChan) : AstStcsChan := { this with stcsarea := -INT_MAX }

/-- The member made by `astMAKE_CLEAR(StcsChan,StcsCoords,stcscoords,-INT_MAX)`. -/
def astClearStcsCoords (this : AstStcsChan) : AstStcsChan :=
  { this with stcscoords := -INT_MAX }

/-- The member made by `astMAKE_CLEAR(StcsChan,StcsProps,stcsprops,-INT_MAX)`. -/
def astClearStcsProps (this : AstStcsChan) : AstStcsChan := { this with stcsprops := -INT_MAX }

/-- The member made by `astMAKE_SET(StcsChan,StcsArea,int,stcsarea,( value != 0 ))`. -/
def astSetStcsArea (this : AstStcsChan) (value : Int) : AstStcsChan :=
  { this with stcsarea := if value ≠ 0 then 1 else 0 }

/-- The member made by `astMAKE_SET(StcsChan,StcsCoords,int,stcscoords,( value != 0 ))`. -/
def astSetStcsCoords (this : AstStcsChan) (value : Int) : AstStcsChan :=
  { this with stcscoords := if value ≠ 0 then 1 else 0 }

/-- The member made by `astMAKE_SET(StcsChan,StcsProps,int,stcsprops,( value != 0 ))`. -/
def astSetStcsProps (this : AstStcsChan) (value : Int) : AstStcsChan :=
  { this with stcsprops := if value ≠ 0 then 1 else 0 }

/-- The member made by `astMAKE_TEST(StcsChan,StcsArea,( this->stcsarea != -INT_MAX ))`. -/
def astTestStcsArea (this : AstStcsChan) : Int := if this.stcsarea ≠ -INT_MAX then 1 else 0

/-- The member made by `astMAKE_TEST(StcsChan,StcsCoords,( this->stcscoords != -INT_MAX ))`. -/
def astTestStcsCoords (this : AstStcsChan) : Int :=
  if this.stcscoords ≠ -INT_MAX then 1 else 0

/-- The member made by `astMAKE_TEST(StcsChan,StcsProps,( this->stcsprops != -INT_MAX ))`. -/
def astTestStcsProps (this : AstStcsChan) : Int := if this.stcsprops ≠ -INT_MAX then 1 else 0

/-- ClearAttrib.  The second component tells whether the name was recognised here; a
name that is not is passed on to the parent method, which knows nothing of the
attributes of the StcsChan. -/
def ClearAttrib (this : AstStcsChan) (attrib : String) : AstStcsChan × Bool :=
  if attrib = "stcsarea" then (astClearStcsArea this, true)
  else if attrib = "stcscoords" then (astClearStcsCoords this, true)
  else if attrib = "stcsprop" then (astClearStcsProps this, true)
  else (this, false)

/-- GetAttrib: the value formatted with `%d`; `none` when the name is passed on to the
parent method. -/
def GetAttrib (this : AstStcsChan) (attrib : String) : Option String :=
  if attrib = "stcsarea" then some (toString (GetStcsArea this))
  else if attrib = "stcscoords" then some (toString (GetStcsCoords this))
  else if attrib = "stcsprops" then some (toString (GetStcsProps this))
  else none

/-- TestAttrib; `none` when the name is passed on to the parent method. -/
def TestAttrib (this : AstStcsChan) (attrib : String) : Option Int :=
  if attrib = "stcsarea" then some (astTestStcsArea this)
  else if attrib = "stcscoords" then some (astTestStcsCoords this)
  else if attrib = "stcsprops" then some (astTestStcsProps this)
  else none

/-- The conversion `%d` of sscanf on a text without leading white space: an optional
sign and at least one decimal digit; the value and the text left.  (The value is taken
to fit an int.) -/
def scanInt (cs : List Char) : Option (Int × List Char) :=
  let body : Bool × List Char := match cs with
    | '-' :: t => (true, t)
    | '+' :: t => (false, t)
    | t => (false, t)
  let ds := body.2.takeWhile Char.isDigit
  if ds.isEmpty then none
  else
    let n : Nat := ds.foldl (fun acc c => acc * 10 + (c.toNat - 48)) 0
    some (if body.1 then -(n : Int) else (n : Int), body.2.dropWhile Char.isDigit)

/-- The test `1 == astSscanf( setting, "<name>= %d %n", &ival, &nc ) && nc >= len`:
the text must start with the name and `=`, then hold an integer, with optional white
space around it and nothing else; the integer is returned. -/
def scanSetting (name setting : String) : Option Int :=
  if (name.data ++ ['=']).isPrefixOf setting.data then
    match scanInt ((setting.data.drop (name.data.length + 1)).dropWhile isspace) with
    | some (v, rest) => if (rest.dropWhile isspace).isEmpty then some v else none
    | none => none
  else none

/-- SetAttrib.  The second component tells whether the setting was recognised here;
one that is not is passed on to the parent method. -/
def SetAttrib (this : AstStcsChan) (setting : String) : AstStcsChan × Bool :=
  match scanSetting "stcsarea" setting with
  | some v => (astSetStcsArea this v, true)
  | none =>
    match scanSetting "stcscoords" setting with
    | some v => (astSetStcsCoords this v, true)
    | none =>
      match scanSetting "stcsprops" setting with
      | some v => (astSetStcsProps this v, true)
      | none => (this, false)

/-- A state of Read in the POLYGON state of a document with two space axes, with six
numbers as the payload. -/
def polygonSample : State :=
  { initState ["1 2 3 4 5 6 Position"] with
    look_for := .POLYGON, props := some .space, spaceid := POLYGON_ID, naxes := 2 }

/-! ## The control part of the state of Read -/

/-- The variables of Read that decide which state follows: `look_for`, the identifiers
of the five sub-phrases, and whether the loop was left by `break`. -/
structure Phase where
  look_for : LookFor
  timeid : Nat
  spaceid : Nat
  velid : Nat
  specid : Nat
  redid : Nat
  broke : Bool
deriving DecidableEq, Repr

/-- The control part of a state. -/
def State.phase (s : State) : Phase :=
  { look_for := s.look_for, timeid := s.timeid, spaceid := s.spaceid, velid := s.velid,
    specid := s.specid, redid := s.redid, broke := s.broke }

/-- The assignments to `look_for` and to the identifiers that the branch of the main
loop for the current state makes for the word `w`, and the `break` of PIX_SIZE. -/
def Phase.next (c : Phase) (w : String) : Phase :=
  match c.look_for with
  | .TIME_IDENTIFIER =>
    if w = "TimeInterval" then { c with look_for := .FILL_FACTOR, timeid := TIME_INTERVAL_ID }
    else if w = "StartTime" then { c with look_for := .FILL_FACTOR, timeid := START_TIME_ID }
    else if w = "StopTime" then { c with look_for := .FILL_FACTOR, timeid := STOP_TIME_ID }
    else if w = "Time" then { c with look_for := .TIME_SCALE }
    else { c with look_for := .SPACE_IDENTIFIER }
  | .SPACE_IDENTIFIER =>
    if w = "PositionInterval" then
      { c with look_for := .FILL_FACTOR, timeid := NULL_ID, spaceid := POSITION_INTERVAL_ID }
    else if w = "AllSky" then
      { c with look_for := .FILL_FACTOR, timeid := NULL_ID, spaceid := ALL_SKY_ID }
    else if w = "Circle" then
      { c with look_for := .FILL_FACTOR, timeid := NULL_ID, spaceid := CIRCLE_ID }
    else if w = "Ellipse" then
      { c with look_for := .FILL_FACTOR, timeid := NULL_ID, spaceid := ELLIPSE_ID }
    else if w = "Box" then
      { c with look_for := .FILL_FACTOR, timeid := NULL_ID, spaceid := BOX_ID }
    else if w = "Polygon" then
      { c with look_for := .FILL_FACTOR, timeid := NULL_ID, spaceid := POLYGON_ID }
    else if w = "Convex" then
      { c with look_for := .FILL_FACTOR, timeid := NULL_ID, spaceid := CONVEX_ID }
    else if w = "Position" then
      { c with look_for := .FRAME, timeid := NULL_ID, spaceid := POSITION_ID }
    else { c with look_for := .SPECTRAL_IDENTIFIER, timeid := NULL_ID }
  | .VELOCITY_IDENTIFIER =>
    if w = "VelocityInterval" then
      { c with look_for := .FILL_FACTOR, spaceid := NULL_ID, velid := VELOCITY_INTERVAL_ID }
    else { c with look_for := .SPECTRAL_IDENTIFIER, spaceid := NULL_ID }
  | .SPECTRAL_IDENTIFIER =>
    if w = "SpectralInterval" then
      { c with look_for := .FILL_FACTOR, velid := NULL_ID, specid := SPECTRAL_INTERVAL_ID }
    else if w = "Spectral" then
      { c with look_for := .REFPOS, velid := NULL_ID, specid := SPECTRAL_ID }
    else { c with look_for := .REDSHIFT_IDENTIFIER, velid := NULL_ID }
  | .REDSHIFT_IDENTIFIER =>
    if w = "RedshiftInterval" then
      { c with look_for := .FILL_FACTOR, specid := NULL_ID, redid := REDSHIFT_INTERVAL_ID }
    else if w = "Redshift" then
      { c with look_for := .REFPOS, specid := NULL_ID, redid := REDSHIFT_ID }
    else { c with specid := NULL_ID }
  | .FILL_FACTOR =>
    { c with look_for :=
        if c.timeid ≠ NULL_ID then LookFor.TIME_SCALE
        else if c.spaceid ≠ NULL_ID then LookFor.FRAME
        else if c.velid ≠ NULL_ID then LookFor.LIMITS
        else LookFor.REFPOS }
  | .TIME_SCALE => { c with look_for := .REFPOS }
  | .FRAME => { c with look_for := .REFPOS }
  | .REFPOS =>
    { c with look_for :=
        if c.timeid ≠ NULL_ID then
          (if c.timeid = TIME_INTERVAL_ID then LookFor.START
           else if c.timeid = START_TIME_ID then LookFor.START
           else if c.timeid = STOP_TIME_ID then LookFor.STOP
           else LookFor.TIME)
        else if c.spaceid ≠ NULL_ID then LookFor.FLAVOUR
        else if c.specid = SPECTRAL_INTERVAL_ID then LookFor.LIMITS
        else if c.specid = SPECTRAL_ID then LookFor.RED_SPEC_VALUE
        else if c.redid = REDSHIFT_INTERVAL_ID then LookFor.TYPE_DOPPLER
        else LookFor.RED_SPEC_VALUE }
  | .START =>
    if c.timeid = TIME_INTERVAL_ID then { c with look_for := .STOP }
    else if c.timeid = START_TIME_ID then { c with look_for := .TIME_LABEL }
    else c
  | .STOP => { c with look_for := .TIME_LABEL }
  | .TIME_LABEL => { c with look_for := if w = "Time" then LookFor.TIME else LookFor.UNIT }
  | .TIME => { c with look_for := .UNIT }
  | .FLAVOUR =>
    { c with look_for :=
        if c.spaceid = POSITION_INTERVAL_ID then LookFor.POSITION_INTERVAL
        else if c.spaceid = ALL_SKY_ID then LookFor.ALLSKY
        else if c.spaceid = CIRCLE_ID then LookFor.CIRCLE
        else if c.spaceid = ELLIPSE_ID then LookFor.ELLIPSE
        else if c.spaceid = BOX_ID then LookFor.BOX
        else if c.spaceid = POLYGON_ID then LookFor.POLYGON
        else if c.spaceid = CONVEX_ID then LookFor.CONVEX
        else LookFor.POSITION }
  | .LIMITS =>
    { c with look_for :=
        if c.velid ≠ NULL_ID then LookFor.VELOCITY_VALUE else LookFor.RED_SPEC_LABEL }
  | .RED_SPEC_LABEL =>
    { c with look_for :=
        if c.specid ≠ NULL_ID ∧ w = "Spectral" then LookFor.RED_SPEC_VALUE
        else if c.redid ≠ NULL_ID ∧ w = "Redshift" then LookFor.RED_SPEC_VALUE
        else LookFor.UNIT }
  | .RED_SPEC_VALUE =>
    { c with look_for :=
        if c.specid ≠ NULL_ID then LookFor.UNIT
        else if c.redid = REDSHIFT_INTERVAL_ID then LookFor.UNIT
        else LookFor.TYPE_DOPPLER }
  | .POSITION_INTERVAL => { c with look_for := .POSITION_LABEL }
  | .ALLSKY => { c with look_for := .POSITION_LABEL }
  | .CIRCLE => { c with look_for := .POSITION_LABEL }
  | .ELLIPSE => { c with look_for := .POSITION_LABEL }
  | .BOX => { c with look_for := .POSITION_LABEL }
  | .POLYGON => { c with look_for := .POSITION_LABEL }
  | .CONVEX => c
  | .POSITION => { c with look_for := .UNIT }
  | .POSITION_LABEL =>
    { c with look_for := if w = "Position" then LookFor.POSITION else LookFor.UNIT }
  | .TYPE_DOPPLER =>
    { c with look_for :=
        if c.redid = REDSHIFT_INTERVAL_ID then LookFor.LIMITS else LookFor.UNIT }
  | .VELOCITY_VALUE => { c with look_for := .UNIT }
  | .ERROR => { c with look_for := .RESOLUTION }
  | .RESOLUTION =>
    { c with look_for := if c.spaceid ≠ NULL_ID then LookFor.SIZE else LookFor.PIX_SIZE }
  | .SIZE => { c with look_for := .PIX_SIZE }
  | .PIX_SIZE =>
    if c.timeid ≠ NULL_ID then { c with look_for := .SPACE_IDENTIFIER }
    else if c.spaceid ≠ NULL_ID then { c with look_for := .VELOCITY_IDENTIFIER }
    else if c.velid ≠ NULL_ID then { c with look_for := .SPECTRAL_IDENTIFIER }
    else if c.specid ≠ NULL_ID then { c with look_for := .REDSHIFT_IDENTIFIER }
    else { c with broke := true }
  | .UNIT => { c with look_for := .ERROR }

/-- The function `phaseBase` on the control part. -/
def Phase.base (c : Phase) : Nat :=
  if c.timeid ≠ NULL_ID then 0
  else if c.spaceid ≠ NULL_ID then 20
  else if c.velid ≠ NULL_ID then 40
  else if c.specid ≠ NULL_ID then 60
  else 80

/-- The function `rank` on the control part. -/
def Phase.rank (c : Phase) : Nat :=
  match c.look_for with
  | .TIME_IDENTIFIER => 0
  | .SPACE_IDENTIFIER => 20
  | .VELOCITY_IDENTIFIER => 40
  | .SPECTRAL_IDENTIFIER => 60
  | .REDSHIFT_IDENTIFIER => 80
  | .FILL_FACTOR => c.base + 1
  | .TIME_SCALE => c.base + 2
  | .FRAME => c.base + 2
  | .REFPOS => c.base + 3
  | .FLAVOUR => c.base + 4
  | .TYPE_DOPPLER => c.base + (if c.redid = REDSHIFT_INTERVAL_ID then 4 else 9)
  | .START => c.base + 5
  | .STOP => c.base + 6
  | .TIME_LABEL => c.base + 7
  | .TIME => c.base + 8
  | .LIMITS => c.base + 5
  | .VELOCITY_VALUE => c.base + 6
  | .RED_SPEC_LABEL => c.base + 6
  | .RED_SPEC_VALUE => c.base + 7
  | .POSITION_INTERVAL => c.base + 5
  | .ALLSKY => c.base + 5
  | .CIRCLE => c.base + 5
  | .ELLIPSE => c.base + 5
  | .BOX => c.base + 5
  | .POLYGON => c.base + 5
  | .CONVEX => c.base + 5
  | .POSITION_LABEL => c.base + 6
  | .POSITION => c.base + 7
  | .UNIT => c.base + 10
  | .ERROR => c.base + 11
  | .RESOLUTION => c.base + 12
  | .SIZE => c.base + 13
  | .PIX_SIZE => c.base + 14

/-- Consistency of the control part: the space identifier is not set while the time
identifier is; no space identifier is set when a time or space identifier is looked
for; the identifiers of the sub-phrases that are over are not set when a velocity,
spectral or redshift identifier is looked for; and a start time is looked for only in a
`TimeInterval` or `StartTime` sub-phrase. -/
def Phase.Consistent (c : Phase) : Prop :=
  (c.timeid ≠ NULL_ID → c.spaceid = NULL_ID)
  ∧ (c.look_for = .TIME_IDENTIFIER → c.spaceid = NULL_ID)
  ∧ (c.look_for = .SPACE_IDENTIFIER → c.spaceid = NULL_ID)
  ∧ (c.look_for = .VELOCITY_IDENTIFIER → c.timeid = NULL_ID)
  ∧ (c.look_for = .SPECTRAL_IDENTIFIER → c.timeid = NULL_ID ∧ c.spaceid = NULL_ID)
  ∧ (c.look_for = .REDSHIFT_IDENTIFIER →
      c.timeid = NULL_ID ∧ c.spaceid = NULL_ID ∧ c.velid = NULL_ID)
  ∧ (c.look_for = .START → c.timeid = TIME_INTERVAL_ID ∨ c.timeid = START_TIME_ID)

instance (c : Phase) : Decidable c.Consistent := by
  unfold Phase.Consistent
  infer_instance

/-- The states of Read that arise in a run have a consistent control part. -/
def Consistent (s : State) : Prop := s.phase.Consistent

instance (s : State) : Decidable (Consistent s) := by
  unfold Consistent
  infer_instance

/-! ## The inner loops stop -/

/-- A status other than the one that stands for an inner loop that does not stop. -/
def NoHang (st : Status) : Prop := st ≠ .hang

instance (st : Status) : Decidable (NoHang st) := by
  unfold NoHang
  infer_instance

/-! # Theorems -/

attribute [simp] State.nextWord State.raise State.crash State.mapPut State.append State.chop
  State.mapPutProp State.setTimeScale State.setSpaceFrm State.setRedFrm State.setSpecFrm
  State.needNumber State.astOK

section frame
variable (env : Env) (s : State)

theorem warn_warnings (l : Nat) (t : String) (a : List String) :
    (s.warn l t a).warnings = if s.status = .ok then s.warnings ++ [⟨l, t, a⟩] else s.warnings :=
  rfl

@[simp] theorem finishTime_warnings : (finishTime env s).warnings = s.warnings := by
  unfold finishTime; split <;> rfl
@[simp] theorem finishSpace_warnings : (finishSpace env s).warnings = s.warnings := by
  unfold finishSpace; split <;> rfl
@[simp] theorem finishSpec_warnings : (finishSpec env s).warnings = s.warnings := by
  unfold finishSpec; split <;> rfl
@[simp] theorem finishRed_warnings : (finishRed env s).warnings = s.warnings := by
  unfold finishRed; split <;> rfl

@[simp] theorem finishTime_word : (finishTime env s).word = s.word := by
  unfold finishTime; split <;> rfl
@[simp] theorem finishTime_con : (finishTime env s).con = s.con := by
  unfold finishTime; split <;> rfl
@[simp] theorem finishTime_source : (finishTime env s).source = s.source := by
  unfold finishTime; split <;> rfl
@[simp] theorem finishTime_broke : (finishTime env s).broke = s.broke := by
  unfold finishTime; split <;> rfl
@[simp] theorem finishTime_new_word : (finishTime env s).new_word = s.new_word := by
  unfold finishTime; split <;> rfl
@[simp] theorem finishTime_spaceid : (finishTime env s).spaceid = s.spaceid := by
  unfold finishTime; split <;> rfl
@[simp] theorem finishTime_velid : (finishTime env s).velid = s.velid := by
  unfold finishTime; split <;> rfl
@[simp] theorem finishTime_specid : (finishTime env s).specid = s.specid := by
  unfold finishTime; split <;> rfl
@[simp] theorem finishTime_redid : (finishTime env s).redid = s.redid := by
  unfold finishTime; split <;> rfl

@[simp] theorem finishSpace_word : (finishSpace env s).word = s.word := by
  unfold finishSpace; split <;> rfl
@[simp] theorem finishSpace_con : (finishSpace env s).con = s.con := by
  unfold finishSpace; split <;> rfl
@[simp] theorem finishSpace_source : (finishSpace env s).source = s.source := by
  unfold finishSpace; split <;> rfl
@[simp] theorem finishSpace_broke : (finishSpace env s).broke = s.broke := by
  unfold finishSpace; split <;> rfl
@[simp] theorem finishSpace_new_word : (finishSpace env s).new_word = s.new_word := by
  unfold finishSpace; split <;> rfl
@[simp] theorem finishSpace_timeid : (finishSpace env s).timeid = s.timeid := by
  unfold finishSpace; split <;> rfl
@[simp] theorem finishSpace_velid : (finishSpace env s).velid = s.velid := by
  unfold finishSpace; split <;> rfl
@[simp] theorem finishSpace_specid : (finishSpace env s).specid = s.specid := by
  unfold finishSpace; split <;> rfl
@[simp] theorem finishSpace_redid : (finishSpace env s).redid = s.redid := by
  unfold finishSpace; split <;> rfl

@[simp] theorem finishSpec_status : (finishSpec env s).status = s.status := by
  unfold finishSpec; split <;> rfl
@[simp] theorem finishRed_status : (finishRed env s).status = s.status := by
  unfold finishRed; split <;> rfl
@[simp] theorem finishRed_source : (finishRed env s).source = s.source := by
  unfold finishRed; split <;> rfl

end frame

@[simp] theorem axisLoop_warnings (env : Env) (n : Nat) (s : State) :
    (axisLoop env n s).1.warnings = s.warnings := by
  induction n generalizing s with
  | zero => rfl
  | succ n ih => simp only [axisLoop, ih]; split <;> rfl

@[simp] theorem numberRun_warnings (env : Env) (n : Nat) (s : State) :
    (numberRun env n s).1.warnings = s.warnings := by
  induction n generalizing s with
  | zero => simp only [numberRun]; split <;> rfl
  | succ n ih => simp only [numberRun]; split <;> simp [ih]

@[simp] theorem errorLoop_warnings (env : Env) (n : Nat) (s : State) :
    (errorLoop env n s).1.warnings = s.warnings := by
  induction n generalizing s with
  | zero => rfl
  | succ n ih => simp only [errorLoop]; split <;> simp [ih]

@[simp] theorem polygonRest_warnings (env : Env) (k n : Nat) (s : State) (t : List ℚ) (v : Nat) :
    (polygonRest env k n s t v).1.warnings = s.warnings := by
  induction n generalizing s t v with
  | zero => simp only [polygonRest]; split <;> rfl
  | succ n ih => simp only [polygonRest]; split <;> simp [ih]

/-- C2 (the code does not do what the claim states): the branch for TIME_IDENTIFIER
leaves the time identifier unchanged for the word `Time`, so decoding
`Time 2009-01-01` records no time sub-phrase: after the first pass the identifier is
still NULL_ID, TIME_PROPS is empty and the time scale is looked for; the date is then
taken for a redshift value and Read ends with the error AST__BADIN and no Object. -/
theorem time_identifier_not_recognised :
    (∀ s : State, (stepTimeIdentifier s "Time").timeid = s.timeid)
    ∧ (readLoop sampleEnv 1 (initState ["Time 2009-01-01"])).timeid = NULL_ID
    ∧ (readLoop sampleEnv 1 (initState ["Time 2009-01-01"])).time_props = KeyMap.empty
    ∧ (readLoop sampleEnv 1 (initState ["Time 2009-01-01"])).look_for = LookFor.TIME_SCALE
    ∧ (readLoop sampleEnv 1 (initState ["Time 2009-01-01"])).word = some "2009-01-01"
    ∧ (Read sampleEnv { stcsprops := 1 } 100 ["Time 2009-01-01"]).map
        (fun r => (r.object, r.status)) = some (none, Status.badin) := by
  refine ⟨?_, by decide!, by decide!, by decide!, by decide!, by decide!⟩
  intro s
  by_cases h1 : s.timeid = NULL_ID <;> simp [stepTimeIdentifier, h1]

/-- C3 (the code does not do what the claim states): for the document
`Box ICRS TOPOCENTER SPHER2 10 20 2 3` read with StcsArea and StcsProps set, the Area
that Read returns is a Polygon with four vertices, the Property Tree holds the size
under the key BSIZE, and WriteProps writes the line `Box ICRS TOPOCENTER SPHER2 10 20 `
for that tree: the size values 2 3 are not written. -/
theorem box_size_not_written :
    ((Read sampleEnv { stcsarea := 1, stcsprops := 1 } 100
        ["Box ICRS TOPOCENTER SPHER2 10 20 2 3"]).bind (fun r => r.object.bind
          (fun o => (((o.entry "AREA").bind Item.asRegion).bind Region.shape).map
            (fun sh => match sh with
              | Shape.polygon n _ => (true, n)
              | _ => (false, 0))))
      = some (true, 4))
    ∧ (decodedProps sampleEnv 100 ["Box ICRS TOPOCENTER SPHER2 10 20 2 3"] "SPACE_PROPS").map
        (fun km => (km.get "ID", km.get "CENTRE", km.get "BSIZE"))
      = some (some "Box", some "10 20", some "2 3")
    ∧ reencode sampleEnv 100 ["Box ICRS TOPOCENTER SPHER2 10 20 2 3"]
      = some ["Box ICRS TOPOCENTER SPHER2 10 20 "] := by
  refine ⟨by decide!, by decide!, by decide!⟩

/-- C4 (the code does not do what the claim states): WriteProps writes the redshift
properties in the order ID, REFPOS, TYPE, DOPPLERDEF, REDSHIFT, while Read expects the
redshift value right after the reference position.  The document
`Redshift TOPOCENTER 1.5 REDSHIFT OPTICAL` decodes without error into a sub-map with the
properties ID, REFPOS, REDSHIFT, TYPE and DOPPLERDEF; WriteProps writes that Property
Tree as `Redshift TOPOCENTER REDSHIFT OPTICAL 1.5 `, and decoding that line ends with
the error AST__BADIN and no Object.  The same happens for a sub-map that holds only the
Doppler definition RADIO. -/
theorem redshift_word_order_disagrees :
    (decodedProps sampleEnv 100 ["Redshift TOPOCENTER 1.5 REDSHIFT OPTICAL"] "REDSHIFT_PROPS")
      = some ⟨[("ID", "Redshift"), ("REFPOS", "TOPOCENTER"), ("REDSHIFT", "1.5"),
               ("TYPE", "REDSHIFT"), ("DOPPLERDEF", "OPTICAL")]⟩
    ∧ reencode sampleEnv 100 ["Redshift TOPOCENTER 1.5 REDSHIFT OPTICAL"]
      = some ["Redshift TOPOCENTER REDSHIFT OPTICAL 1.5 "]
    ∧ (Read sampleEnv { stcsarea := 0, stcscoords := 0, stcsprops := 1 } 100
        ["Redshift TOPOCENTER REDSHIFT OPTICAL 1.5 "]).map (fun r => (r.object, r.status))
      = some (none, Status.badin)
    ∧ (WriteProps ⟨[("REDSHIFT_PROPS", ⟨[("ID", "Redshift"), ("REDSHIFT", "1.5"),
          ("REFPOS", "TOPOCENTER"), ("DOPPLERDEF", "RADIO"), ("UNIT", "km/s")]⟩)]⟩).sink
      = ["Redshift TOPOCENTER RADIO 1.5 unit km/s "]
    ∧ (Read sampleEnv { stcsarea := 0, stcscoords := 0, stcsprops := 1 } 100
        ["Redshift TOPOCENTER RADIO 1.5 unit km/s "]).map (fun r => (r.object, r.status))
      = some (none, Status.badin) := by
  refine ⟨by decide!, by decide!, by decide!, by decide!, by decide!⟩

/-- C5 (the code does not do what the general part of the claim states): decoding
`Circle ICRS TOPOCENTER SPHER2 10 20 0.5` ends without error and its SPACE_PROPS has
none of the keys ERROR, RESOLUTION, SIZE, PIXSIZE; but when that space sub-phrase is
followed by `VelocityInterval 1 2 Error 3`, whose keyword Error belongs to the
velocity sub-phrase, SPACE_PROPS receives the key ERROR (with the value 3). -/
theorem error_key_from_velocity_subphrase :
    ((Read sampleEnv { stcsarea := 0, stcscoords := 0, stcsprops := 1 } 100
        ["Circle ICRS TOPOCENTER SPHER2 10 20 0.5"]).map (fun r => r.status) = some Status.ok)
    ∧ (decodedProps sampleEnv 100 ["Circle ICRS TOPOCENTER SPHER2 10 20 0.5"] "SPACE_PROPS").map
        (fun km => (km.hasKey "ERROR", km.hasKey "RESOLUTION", km.hasKey "SIZE",
          km.hasKey "PIXSIZE")) = some (false, false, false, false)
    ∧ ((Read sampleEnv { stcsarea := 0, stcscoords := 0, stcsprops := 1 } 100
        ["Circle ICRS TOPOCENTER SPHER2 10 20 0.5 VelocityInterval 1 2 Error 3"]).map
          (fun r => r.status) = some Status.ok)
    ∧ (decodedProps sampleEnv 100
        ["Circle ICRS TOPOCENTER SPHER2 10 20 0.5 VelocityInterval 1 2 Error 3"]
        "SPACE_PROPS").map (fun km => km.get "ERROR") = some (some "3") := by
  refine ⟨by decide!, by decide!, by decide!, by decide!⟩

/-- C13 (the code does not do what the claim states): `use_co` is set only by a time
sub-phrase with a time value.  For the document
`Circle ICRS TOPOCENTER SPHER2 10 20 0.5 Position 10 20`, which has no time sub-phrase,
the decode ends without error with `use_co` false, and Read with StcsCoords alone
returns no Object; with StcsArea and StcsCoords the returned KeyMap has the key AREA
but not the key COORDS. -/
theorem coords_need_time_value :
    (readLoop sampleEnv 100
        (initState ["Circle ICRS TOPOCENTER SPHER2 10 20 0.5 Position 10 20"])).use_co = false
    ∧ (Read sampleEnv { stcsarea := 0, stcscoords := 1, stcsprops := 0 } 100
        ["Circle ICRS TOPOCENTER SPHER2 10 20 0.5 Position 10 20"]).map
          (fun r => (r.object, r.status)) = some (none, Status.ok)
    ∧ (Read sampleEnv { stcsarea := 1, stcscoords := 1, stcsprops := 0 } 100
        ["Circle ICRS TOPOCENTER SPHER2 10 20 0.5 Position 10 20"]).map
          (fun r => (r.status, r.object.map (fun o => ((o.entry "AREA").isSome,
            (o.entry "COORDS").isSome)))) = some (Status.ok, some (true, false)) := by
  refine ⟨by decide!, by decide!, by decide!⟩

/-- C14 (the code does not do what the claim states): a Position sub-phrase makes an
enclosure Region but does not set `use_enc`, so for the document
`Position ICRS TOPOCENTER SPHER2 10 20` Read with StcsArea alone ends without error
and returns no Object. -/
theorem position_alone_gives_no_area :
    (readLoop sampleEnv 100
        (initState ["Position ICRS TOPOCENTER SPHER2 10 20"])).use_enc = false
    ∧ ((decodeEnd sampleEnv (readLoop sampleEnv 100
        (initState ["Position ICRS TOPOCENTER SPHER2 10 20"]))).full_enc.isSome = false)
    ∧ (Read sampleEnv { stcsarea := 1, stcscoords := 0, stcsprops := 0 } 100
        ["Position ICRS TOPOCENTER SPHER2 10 20"]).map
          (fun r => (r.object, r.status)) = some (none, Status.ok) := by
  refine ⟨by decide!, by decide!, by decide!⟩

/-- C15 (the code does not do what the claim states): while the velocity sub-phrase is
read, `props` still refers to the KeyMap of the space sub-phrase, so the velocity limits
are stored there.  SPACE_PROPS of `Circle ICRS TOPOCENTER SPHER2 10 20 0.5` has no key
LOLIMIT or HILIMIT; with `VelocityInterval 1 2` added it has LOLIMIT 1 and HILIMIT 2,
and the lines written by WriteProps differ. -/
theorem velocity_limits_stored_in_space_props :
    (decodedProps sampleEnv 100 ["Circle ICRS TOPOCENTER SPHER2 10 20 0.5"] "SPACE_PROPS").map
        (fun km => (km.get "LOLIMIT", km.get "HILIMIT")) = some (none, none)
    ∧ (decodedProps sampleEnv 100
        ["Circle ICRS TOPOCENTER SPHER2 10 20 0.5 VelocityInterval 1 2"] "SPACE_PROPS").map
        (fun km => (km.get "LOLIMIT", km.get "HILIMIT")) = some (some "1", some "2")
    ∧ reencode sampleEnv 100 ["Circle ICRS TOPOCENTER SPHER2 10 20 0.5"]
      = some ["Circle ICRS TOPOCENTER SPHER2 10 20 0.5 "]
    ∧ reencode sampleEnv 100 ["Circle ICRS TOPOCENTER SPHER2 10 20 0.5 VelocityInterval 1 2"]
      = some ["Circle ICRS TOPOCENTER SPHER2 1 2 10 20 0.5 "] := by
  refine ⟨by decide!, by decide!, by decide!, by decide!⟩

/-- C6: in the TIME_SCALE state, when the current word is none of the time scales
that Read knows (nor `nil`) and the status is good, the pass of the main loop adds one
warning of level 2 (time scale defaulting to TAI), leaves the TimeFrame as it is (its
TimeScale attribute is not set, so it keeps the default TAI), stores no property in any
KeyMap, fetches no new word, keeps the status good and moves to the REFPOS state, so
that the next pass of the loop examines the same word as a reference position. -/
theorem timeScale_unrecognised (env : Env) (s : State) (w : String)
    (hlf : s.look_for = .TIME_SCALE) (hword : s.word = some w) (hok : s.status = .ok)
    (hbroke : s.broke = false) (hw : w ∉ timeScaleWords) :
    (step env s w).warnings = s.warnings ++
        [⟨2, "Time scale defaulting to 'TAI' in an STC-S description: '%s'.", [s.fragment]⟩]
    ∧ (step env s w).timefrm = s.timefrm
    ∧ (step env s w).ts = TimeScale.BADTS
    ∧ (step env s w).time_props = s.time_props
    ∧ (step env s w).space_props = s.space_props
    ∧ (step env s w).spec_props = s.spec_props
    ∧ (step env s w).red_props = s.red_props
    ∧ (step env s w).word = some w ∧ (step env s w).con = s.con
    ∧ (step env s w).source = s.source
    ∧ (step env s w).status = .ok
    ∧ (step env s w).look_for = .REFPOS
    ∧ ∀ n, readLoop env (n + 1) s = readLoop env n (step env s w) := by
  simp only [timeScaleWords, List.mem_cons, List.mem_singleton, not_or, List.not_mem_nil,
    not_false_eq_true, and_true] at hw
  obtain ⟨h1, h2, h3, h4, h5, h6, h7, h8, h9, h10, h11, h12⟩ := hw
  simp [step, stepBody, branch, readLoop, hlf, hword, hbroke, stepTimeScale, h1, h2, h3, h4, h5, h6,
    h7, h8, h9, h10, h11, h12, State.warn, hok, State.fragment, putIf]

/-- C6, an instance: the second pass over `TimeInterval 2009-01-01 2009-02-01` meets
the date in the TIME_SCALE state. -/
theorem timeScale_unrecognised_witness :
    (readLoop sampleEnv 2 (initState ["TimeInterval 2009-01-01 2009-02-01"])).look_for
        = LookFor.TIME_SCALE
    ∧ (step sampleEnv (readLoop sampleEnv 2 (initState ["TimeInterval 2009-01-01 2009-02-01"]))
        "2009-01-01").look_for = LookFor.REFPOS
    ∧ (step sampleEnv (readLoop sampleEnv 2 (initState ["TimeInterval 2009-01-01 2009-02-01"]))
        "2009-01-01").word = some "2009-01-01" :=
  have h := timeScale_unrecognised sampleEnv
    (readLoop sampleEnv 2 (initState ["TimeInterval 2009-01-01 2009-02-01"])) "2009-01-01"
    (by decide!) (by decide!) (by decide!) (by decide!) (by decide!)
  ⟨by decide!, h.2.2.2.2.2.2.2.2.2.2.2.1, h.2.2.2.2.2.2.2.1⟩

theorem selectResult_nothing_wanted (this : AstStcsChan) (d : Decoded)
    (ha : GetStcsArea this = 0) (hc : GetStcsCoords this = 0) (hp : GetStcsProps this = 0) :
    selectResult this d = (if d.status = .ok then .attin else d.status, none) := by
  by_cases h : d.status = .ok <;> simp [selectResult, ha, hc, hp, h]

/-- C11: when the attributes StcsArea, StcsCoords and StcsProps are all zero, Read
returns no Object whatever the document and the number of passes allowed, and every
call that runs to its end finishes with a bad status: AST__ATTIN (nothing is to be
returned) when the decoding itself met no error, the error of the decoding otherwise. -/
theorem nothing_wanted_is_an_error (env : Env) (this : AstStcsChan) (fuel : Nat)
    (source : List String)
    (ha : GetStcsArea this = 0) (hc : GetStcsCoords this = 0) (hp : GetStcsProps this = 0) :
    (Read env this fuel source).bind (fun r => r.object) = none
    ∧ ∀ r, Read env this fuel source = some r →
        r.object = none ∧ r.status ≠ .ok
        ∧ ((decodeEnd env (readLoop env fuel (initState source))).status = .ok →
            r.status = .attin) := by
  have key : ∀ r, Read env this fuel source = some r →
      r.object = none ∧ r.status ≠ .ok
        ∧ ((decodeEnd env (readLoop env fuel (initState source))).status = .ok →
            r.status = .attin) := by
    intro r hr
    unfold Read at hr
    simp only [] at hr
    split at hr
    · exact absurd hr (by simp)
    · rw [selectResult_nothing_wanted this _ ha hc hp] at hr
      injection hr with hr
      subst hr
      by_cases h : (decodeEnd env (readLoop env fuel (initState source))).status = .ok
      · simp [h]
      · simp [h]
  refine ⟨?_, key⟩
  cases hR : Read env this fuel source with
  | none => rfl
  | some r => exact (key r hR).1

/-- C11, an instance: the Circle document read with the three attributes set to zero. -/
theorem nothing_wanted_is_an_error_witness :
    (Read sampleEnv { stcsarea := 0, stcscoords := 0, stcsprops := 0 } 100
      ["Circle ICRS TOPOCENTER SPHER2 10 20 0.5"]).map (fun r => (r.object, r.status))
      = some (none, Status.attin) ∧
    (Read sampleEnv { stcsarea := 0, stcscoords := 0, stcsprops := 0 } 100
      ["Circle ICRS TOPOCENTER SPHER2 10 20 0.5"]).bind (fun r => r.object) = none :=
  ⟨by decide!, (nothing_wanted_is_an_error sampleEnv
    { stcsarea := 0, stcscoords := 0, stcsprops := 0 } 100
    ["Circle ICRS TOPOCENTER SPHER2 10 20 0.5"] (by decide) (by decide) (by decide)).1⟩

theorem Read_some (env : Env) (this : AstStcsChan) (fuel : Nat) (source : List String)
    (r : ReadResult) (hR : Read env this fuel source = some r) :
    (readLoop env fuel (initState source)).running = false
    ∧ r.object = (selectResult this (decodeEnd env (readLoop env fuel (initState source)))).2
    ∧ r.status = (selectResult this (decodeEnd env (readLoop env fuel (initState source)))).1
    ∧ r.warnings = (decodeEnd env (readLoop env fuel (initState source))).warnings := by
  unfold Read at hR
  simp only [] at hR
  split at hR
  · exact absurd hR (by simp)
  · rename_i h
    injection hR with hR
    subst hR
    exact ⟨by simpa using h, rfl, rfl, rfl⟩

theorem selectResult_ok (this : AstStcsChan) (d : Decoded) (hok : d.status = .ok) :
    (GetStcsArea this ≠ 0 → GetStcsCoords this = 0 → GetStcsProps this = 0 →
        selectResult this d = (.ok, d.full_enc.map (fun e => AstObject.item (Item.region e))))
    ∧ (GetStcsArea this = 0 → GetStcsCoords this ≠ 0 → GetStcsProps this = 0 →
        selectResult this d = (.ok, d.full_co.map (fun e => AstObject.item (Item.region e))))
    ∧ (GetStcsArea this = 0 → GetStcsCoords this = 0 → GetStcsProps this ≠ 0 →
        selectResult this d = (.ok, d.full_props.map (fun p => AstObject.item (Item.props p))))
    ∧ ((GetStcsArea this ≠ 0 ∧ GetStcsCoords this ≠ 0) ∨
       (GetStcsArea this ≠ 0 ∧ GetStcsProps this ≠ 0) ∨
       (GetStcsCoords this ≠ 0 ∧ GetStcsProps this ≠ 0) →
        ∃ o, selectResult this d = (.ok, some o) ∧ o.tree = none ∧ o.region = none
          ∧ o.entry "AREA" = (if GetStcsArea this ≠ 0 then d.full_enc.map Item.region else none)
          ∧ o.entry "COORDS" = (if GetStcsCoords this ≠ 0 then d.full_co.map Item.region else none)
          ∧ o.entry "PROPS" = (if GetStcsProps this ≠ 0 then d.full_props.map Item.props else none)) := by
  refine ⟨?_, ?_, ?_, ?_⟩
  · intro ha hc hp
    cases h1 : d.full_enc <;> simp [selectResult, ha, hc, hp, hok, h1]
  · intro ha hc hp
    cases h1 : d.full_co <;> simp [selectResult, ha, hc, hp, hok, h1]
  · intro ha hc hp
    cases h1 : d.full_props <;> simp [selectResult, ha, hc, hp, hok, h1]
  · intro h
    by_cases ha : GetStcsArea this = 0 <;> by_cases hc : GetStcsCoords this = 0 <;>
      by_cases hp : GetStcsProps this = 0 <;> simp [ha, hc, hp] at h <;>
      cases h1 : d.full_enc <;> cases h2 : d.full_co <;> cases h3 : d.full_props <;>
      simp [selectResult, ha, hc, hp, hok, h1, h2, h3, AstObject.tree, AstObject.region,
        AstObject.entry]

theorem Read_of_stopped (env : Env) (this : AstStcsChan) (fuel : Nat) (source : List String)
    (hrun : (readLoop env fuel (initState source)).running = false) :
    Read env this fuel source = some
      { object := (selectResult this (decodeEnd env (readLoop env fuel (initState source)))).2,
        status := (selectResult this (decodeEnd env (readLoop env fuel (initState source)))).1,
        warnings := (decodeEnd env (readLoop env fuel (initState source))).warnings,
        source := (decodeEnd env (readLoop env fuel (initState source))).source } := by
  unfold Read
  simp [hrun]

/-- C12: when the main loop has ended within the allowed passes and the decoding met
no error, Read returns with a good status and: with StcsArea alone, the Area Region
itself, or NULL if there is none; with StcsCoords alone, the Coords Region itself, or
NULL; with StcsProps alone, the Property Tree itself; with two or three of the
attributes set, a KeyMap (not a Region or Property Tree) whose entry AREA, COORDS or
PROPS exists exactly when the item was requested and was produced, and is that item. -/
theorem final_selection (env : Env) (this : AstStcsChan) (fuel : Nat) (source : List String)
    (hrun : (readLoop env fuel (initState source)).running = false)
    (hok : (decodeEnd env (readLoop env fuel (initState source))).status = .ok) :
    (GetStcsArea this ≠ 0 → GetStcsCoords this = 0 → GetStcsProps this = 0 →
        (Read env this fuel source).map (fun r => (r.status, r.object)) = some (.ok,
          (decodeEnd env (readLoop env fuel (initState source))).full_enc.map
            (fun e => AstObject.item (Item.region e))))
    ∧ (GetStcsArea this = 0 → GetStcsCoords this ≠ 0 → GetStcsProps this = 0 →
        (Read env this fuel source).map (fun r => (r.status, r.object)) = some (.ok,
          (decodeEnd env (readLoop env fuel (initState source))).full_co.map
            (fun e => AstObject.item (Item.region e))))
    ∧ (GetStcsArea this = 0 → GetStcsCoords this = 0 → GetStcsProps this ≠ 0 →
        (Read env this fuel source).map (fun r => (r.status, r.object)) = some (.ok,
          (decodeEnd env (readLoop env fuel (initState source))).full_props.map
            (fun p => AstObject.item (Item.props p))))
    ∧ ((GetStcsArea this ≠ 0 ∧ GetStcsCoords this ≠ 0) ∨
       (GetStcsArea this ≠ 0 ∧ GetStcsProps this ≠ 0) ∨
       (GetStcsCoords this ≠ 0 ∧ GetStcsProps this ≠ 0) →
        ∃ o, (Read env this fuel source).map (fun r => (r.status, r.object))
            = some (.ok, some o) ∧ o.tree = none ∧ o.region = none
          ∧ o.entry "AREA" = (if GetStcsArea this ≠ 0 then
              (decodeEnd env (readLoop env fuel (initState source))).full_enc.map Item.region
              else none)
          ∧ o.entry "COORDS" = (if GetStcsCoords this ≠ 0 then
              (decodeEnd env (readLoop env fuel (initState source))).full_co.map Item.region
              else none)
          ∧ o.entry "PROPS" = (if GetStcsProps this ≠ 0 then
              (decodeEnd env (readLoop env fuel (initState source))).full_props.map Item.props
              else none)) := by
  have hs := selectResult_ok this (decodeEnd env (readLoop env fuel (initState source))) hok
  have hR := Read_of_stopped env this fuel source hrun
  refine ⟨?_, ?_, ?_, ?_⟩
  · intro ha hc hp
    rw [hR, hs.1 ha hc hp]; rfl
  · intro ha hc hp
    rw [hR, hs.2.1 ha hc hp]; rfl
  · intro ha hc hp
    rw [hR, hs.2.2.1 ha hc hp]; rfl
  · intro h
    obtain ⟨o, ho, h1, h2, h3, h4, h5⟩ := hs.2.2.2 h
    exact ⟨o, by rw [hR, ho]; rfl, h1, h2, h3, h4, h5⟩

/-- C12, an instance: the Position document read with StcsArea alone gives NULL with a
good status, since no Area was produced. -/
theorem final_selection_witness :
    (Read sampleEnv { stcsarea := 1, stcscoords := 0, stcsprops := 0 } 100
      ["Position ICRS TOPOCENTER SPHER2 10 20"]).map (fun r => (r.status, r.object))
      = some (Status.ok, (decodeEnd sampleEnv (readLoop sampleEnv 100
          (initState ["Position ICRS TOPOCENTER SPHER2 10 20"]))).full_enc.map
            (fun e => AstObject.item (Item.region e))) :=
  (final_selection sampleEnv { stcsarea := 1, stcscoords := 0, stcsprops := 0 } 100
    ["Position ICRS TOPOCENTER SPHER2 10 20"] (by decide!) (by decide!)).1
    (by decide) (by decide) (by decide)

theorem readTime_spec (env : Env) (s : State) (w : String) (old : Option ℚ) (inside : Bool)
    (hok : s.status = .ok) :
    (w = "JD" → ∀ x, (GetNextWord s.source s.con).1.bind env.chr2Double = some x →
        (readTime env s w old inside).2 = some (x - 2400000.5)
        ∧ (readTime env s w old inside).1.status = .ok)
    ∧ (w = "JD" → (GetNextWord s.source s.con).1.bind env.chr2Double = none →
        (readTime env s w old inside).1.status = .badin)
    ∧ (w = "MJD" → ∀ x, (GetNextWord s.source s.con).1.bind env.chr2Double = some x →
        (readTime env s w old inside).2 = some x
        ∧ (readTime env s w old inside).1.status = .ok)
    ∧ (w = "MJD" → (GetNextWord s.source s.con).1.bind env.chr2Double = none →
        (readTime env s w old inside).1.status = .badin)
    ∧ (w ≠ "JD" → w ≠ "MJD" → ∀ tf, s.timefrm = some tf → ∀ x, env.unformat tf w = some x →
        (readTime env s w old inside).2 = some x
        ∧ (readTime env s w old inside).1.status = .ok)
    ∧ (w ≠ "JD" → w ≠ "MJD" → ∀ tf, s.timefrm = some tf → env.unformat tf w = none →
        (readTime env s w old inside).1.status = .badin) := by
  refine ⟨?_, ?_, ?_, ?_, ?_, ?_⟩
  · rintro rfl x hx
    cases inside <;> simp [readTime, State.chr2Double, hok, hx]
  · rintro rfl hx
    simp [readTime, State.chr2Double, hok, hx]
  · rintro rfl x hx
    cases inside <;> simp [readTime, State.chr2Double, hok, hx]
  · rintro rfl hx
    simp [readTime, State.chr2Double, hok, hx]
  · intro h1 h2 tf htf x hx
    simp [readTime, h1, h2, htf, hx, hok]
  · intro h1 h2 tf htf hx
    simp [readTime, h1, h2, htf, hx, hok]

theorem mapPutProp_status_of_bad (s : State) (k : String) (c : Status) (h : s.status = c)
    (hc : c ≠ .ok) : (s.mapPutProp k).status = c := by
  subst h
  simp [hc]

theorem timeBranches_eq (env : Env) (s : State) (w : String) :
    ((stepStart env s w).start = (readTime env s w s.start true).2
      ∧ ((readTime env s w s.start true).1.status = .badin → (stepStart env s w).status = .badin))
    ∧ ((stepStop env s w).stop = (readTime env s w s.stop true).2
      ∧ ((readTime env s w s.stop true).1.status = .badin → (stepStop env s w).status = .badin))
    ∧ ((stepTime env s w).time = (readTime env s w s.time false).2
      ∧ ((readTime env s w s.time false).1.status = .badin → (stepTime env s w).status = .badin)) := by
  refine ⟨⟨?_, ?_⟩, ⟨?_, ?_⟩, ⟨?_, ?_⟩⟩
  · simp only [stepStart]; split_ifs <;> simp
  · intro h; simp only [stepStart]; split_ifs <;> simp [h]
  · simp only [stepStop]; split_ifs <;> simp
  · intro h; simp only [stepStop]; split_ifs <;> simp [h]
  · simp only [stepTime]; split_ifs <;> simp
  · intro h; simp only [stepTime]; split_ifs <;> simp [h]

/-- C16: in each of the branches START, STOP and TIME, entered with a good status and
the current word `w`: if `w` is `JD` and the next word is the number `x`, the value
stored is x - 2400000.5; if `w` is `MJD` and the next word is the number `x`, the value
is x; in both cases a next word that is not a number leaves the error AST__BADIN; for
any other `w` the word is given to astUnformat with the TimeFrame, the value is what
astUnformat returns, and when astUnformat reads nothing the error AST__BADIN is left. -/
theorem time_value_parsing (env : Env) (s : State) (w : String) (hok : s.status = .ok)
    (r : Option ℚ × Status) (hr : r ∈ timeBranches env s w) :
    (w = "JD" → ∀ x, (GetNextWord s.source s.con).1.bind env.chr2Double = some x →
        r.1 = some (x - 2400000.5))
    ∧ (w = "JD" → (GetNextWord s.source s.con).1.bind env.chr2Double = none → r.2 = .badin)
    ∧ (w = "MJD" → ∀ x, (GetNextWord s.source s.con).1.bind env.chr2Double = some x →
        r.1 = some x)
    ∧ (w = "MJD" → (GetNextWord s.source s.con).1.bind env.chr2Double = none → r.2 = .badin)
    ∧ (w ≠ "JD" → w ≠ "MJD" → ∀ tf, s.timefrm = some tf → ∀ x, env.unformat tf w = some x →
        r.1 = some x)
    ∧ (w ≠ "JD" → w ≠ "MJD" → ∀ tf, s.timefrm = some tf → env.unformat tf w = none →
        r.2 = .badin) := by
  have hb := timeBranches_eq env s w
  simp only [timeBranches, List.mem_cons, List.mem_singleton, List.not_mem_nil, or_false] at hr
  rcases hr with rfl | rfl | rfl
  · have h := readTime_spec env s w s.start true hok
    refine ⟨fun a x hx => ?_, fun a hx => ?_, fun a x hx => ?_, fun a hx => ?_,
      fun a b tf htf x hx => ?_, fun a b tf htf hx => ?_⟩
    · exact hb.1.1.trans (h.1 a x hx).1
    · exact hb.1.2 (h.2.1 a hx)
    · exact hb.1.1.trans (h.2.2.1 a x hx).1
    · exact hb.1.2 (h.2.2.2.1 a hx)
    · exact hb.1.1.trans (h.2.2.2.2.1 a b tf htf x hx).1
    · exact hb.1.2 (h.2.2.2.2.2 a b tf htf hx)
  · have h := readTime_spec env s w s.stop true hok
    refine ⟨fun a x hx => ?_, fun a hx => ?_, fun a x hx => ?_, fun a hx => ?_,
      fun a b tf htf x hx => ?_, fun a b tf htf hx => ?_⟩
    · exact hb.2.1.1.trans (h.1 a x hx).1
    · exact hb.2.1.2 (h.2.1 a hx)
    · exact hb.2.1.1.trans (h.2.2.1 a x hx).1
    · exact hb.2.1.2 (h.2.2.2.1 a hx)
    · exact hb.2.1.1.trans (h.2.2.2.2.1 a b tf htf x hx).1
    · exact hb.2.1.2 (h.2.2.2.2.2 a b tf htf hx)
  · have h := readTime_spec env s w s.time false hok
    refine ⟨fun a x hx => ?_, fun a hx => ?_, fun a x hx => ?_, fun a hx => ?_,
      fun a b tf htf x hx => ?_, fun a b tf htf hx => ?_⟩
    · exact hb.2.2.1.trans (h.1 a x hx).1
    · exact hb.2.2.2 (h.2.1 a hx)
    · exact hb.2.2.1.trans (h.2.2.1 a x hx).1
    · exact hb.2.2.2 (h.2.2.2.1 a hx)
    · exact hb.2.2.1.trans (h.2.2.2.2.1 a b tf htf x hx).1
    · exact hb.2.2.2 (h.2.2.2.2.2 a b tf htf hx)

/-- C16, an instance: the START branch for `StartTime JD 2455000.5`. -/
theorem time_value_parsing_witness :
    (stepStart sampleEnv (readLoop sampleEnv 4 (initState ["StartTime JD 2455000.5"])) "JD").start
      = some (2455000.5 - 2400000.5) :=
  (time_value_parsing sampleEnv (readLoop sampleEnv 4 (initState ["StartTime JD 2455000.5"]))
    "JD" (by decide!) _ (List.mem_cons_self _ _)).1 rfl 2455000.5 (by decide!)

theorem SetUnc_no_error (env : Env) (ok : Bool) (r1 r2 : Option Region) (frm : AstFrame)
    (sky : Bool) (scale : ℚ) (nax : Nat) :
    SetUnc env ok r1 r2 frm sky scale none nax = (r1, r2) := by
  unfold SetUnc
  cases ok <;> rfl

theorem epoch_choice (env : Env) (s : State) (w : String) :
    (stepStart env s w).epoch = (if s.epoch = none then (stepStart env s w).start else s.epoch)
    ∧ (stepStop env s w).epoch = (if s.epoch = none then (stepStop env s w).stop else s.epoch)
    ∧ (stepTime env s w).epoch = (if s.epoch = none then (stepTime env s w).time else s.epoch) := by
  have e1 : ∀ old b, (readTime env s w old b).1.epoch = s.epoch := by
    intro old b
    simp only [readTime]
    split_ifs <;> (try split) <;> (try split) <;> simp
  refine ⟨?_, ?_, ?_⟩
  · simp only [stepStart]; split_ifs <;> simp_all
  · simp only [stepStop]; split_ifs <;> simp_all
  · simp only [stepTime]; split_ifs <;> simp_all

theorem time_values_kept (env : Env) (s : State) (w : String) :
    ((stepStart env s w).stop = s.stop ∧ (stepStart env s w).time = s.time)
    ∧ ((stepStop env s w).start = s.start ∧ (stepStop env s w).time = s.time)
    ∧ ((stepTime env s w).start = s.start ∧ (stepTime env s w).stop = s.stop) := by
  have e1 : ∀ old b, (readTime env s w old b).1.start = s.start
      ∧ (readTime env s w old b).1.stop = s.stop
      ∧ (readTime env s w old b).1.time = s.time := by
    intro old b
    simp only [readTime]
    split_ifs <;> (try split) <;> (try split) <;> simp
  refine ⟨⟨?_, ?_⟩, ⟨?_, ?_⟩, ⟨?_, ?_⟩⟩
  · simp only [stepStart]; split_ifs <;> simp [(e1 _ _).2.1]
  · simp only [stepStart]; split_ifs <;> simp [(e1 _ _).2.2]
  · simp only [stepStop]; split_ifs <;> simp [(e1 _ _).1]
  · simp only [stepStop]; split_ifs <;> simp [(e1 _ _).2.2]
  · simp only [stepTime]; split_ifs <;> simp [(e1 _ _).1]
  · simp only [stepTime]; split_ifs <;> simp [(e1 _ _).2.1]

theorem finishTime_origin (env : Env) (s : State) : (finishTime env s).time_origin = s.epoch := by
  unfold finishTime
  split <;> rfl

/-- C17: the epoch, which becomes the time origin when the time sub-phrase is finalised,
is the start time if one is given, otherwise the stop time, otherwise the single time
value (`chosenOrigin`).  This holds of the start, stop and time values of the state
after each of the branches START, STOP and TIME when it holds before the branch and the
values that the later branches read are not yet set.  The finalisation makes the epoch
the time origin.  When the time sub-phrase is finalised with the TimeFrame `tf0` and
the epoch `t0`, the time origin is `t0` (also as the TimeOrigin of the finished
TimeFrame), the start, stop and time values become the parsed values minus `t0` (a value
equal to `t0` becomes 0), and with a good status, no error values and no fill factor the
enclosure of a sub-phrase with a start or stop value is the Interval of the relative
start and stop values in the finished TimeFrame. -/
theorem time_origin_choice (env : Env) (s : State) (w : String) (tf0 : AstFrame)
    (htf : s.timefrm = some tf0) :
    (s.epoch = none → s.stop = none → s.time = none →
        (stepStart env s w).epoch = chosenOrigin (stepStart env s w).start
          (stepStart env s w).stop (stepStart env s w).time
        ∧ (stepStart env s w).epoch = (stepStart env s w).start)
    ∧ (s.epoch = chosenOrigin s.start s.stop s.time → s.stop = none → s.time = none →
        (stepStop env s w).epoch = chosenOrigin (stepStop env s w).start
          (stepStop env s w).stop (stepStop env s w).time
        ∧ (s.start = none → (stepStop env s w).epoch = (stepStop env s w).stop)
        ∧ (s.start ≠ none → (stepStop env s w).epoch = s.start))
    ∧ (s.epoch = chosenOrigin s.start s.stop s.time → s.time = none →
        (stepTime env s w).epoch = chosenOrigin (stepTime env s w).start
          (stepTime env s w).stop (stepTime env s w).time
        ∧ (s.start = none → s.stop = none →
            (stepTime env s w).epoch = (stepTime env s w).time))
    ∧ (finishTime env s).time_origin = s.epoch
    ∧ (s.epoch = chosenOrigin s.start s.stop s.time →
        (finishTime env s).time_origin = chosenOrigin s.start s.stop s.time)
    ∧ (∀ t0 : ℚ, s.epoch = some t0 →
        (finishTime env s).time_origin = some t0
        ∧ (timeFrameFinal env s tf0).timeOrigin = some t0
        ∧ (finishTime env s).start = s.start.map (fun v => v - t0)
        ∧ (finishTime env s).stop = s.stop.map (fun v => v - t0)
        ∧ (finishTime env s).time = s.time.map (fun v => v - t0)
        ∧ (s.start = some t0 → (finishTime env s).start = some 0)
        ∧ (s.stop = some t0 → (finishTime env s).stop = some 0)
        ∧ (s.time = some t0 → (finishTime env s).time = some 0)
        ∧ (s.status = .ok → s.err = none → s.fill = none →
            (s.start ≠ none ∨ s.stop ≠ none) →
            (finishTime env s).time_enc = some (Region.basic (timeFrameFinal env s tf0)
              (Shape.interval (s.start.map (fun v => v - t0)) (s.stop.map (fun v => v - t0)))
              none none))
        ∧ (s.status = .ok → s.err = none → ∀ t, s.time = some t →
            (finishTime env s).time_co = some (Region.basic (timeFrameFinal env s tf0)
              (Shape.pointList ([t - t0].take (timeFrameFinal env s tf0).naxes))
              none none))) := by
  have E := epoch_choice env s w
  have K := time_values_kept env s w
  refine ⟨?_, ?_, ?_, finishTime_origin env s, ?_, ?_⟩
  · intro he hs ht
    have h1 : (stepStart env s w).epoch = (stepStart env s w).start := by
      rw [E.1, if_pos he]
    refine ⟨?_, h1⟩
    rw [h1, K.1.1, K.1.2, hs, ht]
    cases (stepStart env s w).start <;> rfl
  · intro he hs ht
    rw [hs, ht] at he
    have h1 := E.2.1
    cases hst : s.start with
    | none =>
      rw [hst] at he
      have he2 : s.epoch = none := he
      rw [if_pos he2] at h1
      refine ⟨?_, fun _ => h1, fun hc => absurd rfl hc⟩
      rw [h1, K.2.1.1, K.2.1.2, hst, ht]
      cases (stepStop env s w).stop <;> rfl
    | some v =>
      rw [hst] at he
      have he2 : s.epoch = some v := he
      have hne : s.epoch ≠ none := by rw [he2]; exact Option.some_ne_none v
      rw [if_neg hne, he2] at h1
      refine ⟨?_, fun hc => absurd hc (Option.some_ne_none v), fun _ => h1⟩
      rw [h1, K.2.1.1, hst]
      rfl
  · intro he ht
    rw [ht] at he
    have h1 := E.2.2
    cases hep : s.epoch with
    | none =>
      rw [if_pos hep] at h1
      have hss : s.start = none ∧ s.stop = none := by
        rw [hep] at he
        cases hst : s.start with
        | some v => rw [hst] at he; exact absurd he.symm (Option.some_ne_none v)
        | none =>
          rw [hst] at he
          cases hsp : s.stop with
          | some v => rw [hsp] at he; exact absurd he.symm (Option.some_ne_none v)
          | none => exact ⟨rfl, rfl⟩
      refine ⟨?_, fun _ _ => h1⟩
      rw [h1, K.2.2.1, K.2.2.2, hss.1, hss.2]
      rfl
    | some v =>
      have hne : s.epoch ≠ none := by rw [hep]; exact Option.some_ne_none v
      rw [if_neg hne] at h1
      refine ⟨?_, fun h3 h4 => ?_⟩
      · rw [h1, K.2.2.1, K.2.2.2, he]
        cases hst : s.start with
        | some a => rfl
        | none =>
          cases hsp : s.stop with
          | some b => rfl
          | none =>
            rw [hst, hsp, hep] at he
            exact absurd he (Option.some_ne_none v)
      · rw [h3, h4, hep] at he
        exact absurd he (Option.some_ne_none v)
  · intro he
    rw [finishTime_origin, he]
  · intro t0 hep
    refine ⟨?_, ?_, ?_, ?_, ?_, ?_, ?_, ?_, ?_, ?_⟩
    · simp [finishTime, htf, hep]
    · simp [timeFrameFinal, hep]
    · simp [finishTime, htf, hep, relTime]
    · simp [finishTime, htf, hep, relTime]
    · simp [finishTime, htf, hep, relTime]
    · intro h; simp [finishTime, htf, hep, relTime, h]
    · intro h; simp [finishTime, htf, hep, relTime, h]
    · intro h; simp [finishTime, htf, hep, relTime, h]
    · intro hok herr hfill h
      have hc : ¬ ((s.start = none) ∧ (s.stop = none)) := by
        intro hh; rcases h with h | h
        · exact h hh.1
        · exact h hh.2
      simp [finishTime, htf, hep, relTime, timeRegions, herr, SetUnc_no_error, hfill,
        applyFill, mkRegion, hok, hc]
    · intro hok herr t ht
      simp [finishTime, htf, hep, relTime, timeRegions, herr, SetUnc_no_error,
        mkRegion, hok, ht, SinglePointList]

/-- C17, an instance: `TimeInterval 2009-01-01 2009-02-01` after its start and stop
values have been read; the time origin is the start, MJD 54832. -/
theorem time_origin_choice_witness :
    (finishTime sampleEnv
      (readLoop sampleEnv 6 (initState ["TimeInterval 2009-01-01 2009-02-01"]))).time_origin
      = some 54832 :=
  ((time_origin_choice sampleEnv
    (readLoop sampleEnv 6 (initState ["TimeInterval 2009-01-01 2009-02-01"])) "" astTimeFrame
    (by decide!)).2.2.2.2.2 54832 (by decide!)).1

theorem unitWord_frame (s : State) (w : String) :
    (unitWord s w).timeid = s.timeid ∧ (unitWord s w).spaceid = s.spaceid
    ∧ (unitWord s w).velid = s.velid ∧ (unitWord s w).specid = s.specid
    ∧ (unitWord s w).redid = s.redid ∧ (unitWord s w).is_skyframe = s.is_skyframe := by
  unfold unitWord
  split_ifs
  · simp only []
    split <;> simp
  · simp

/-- C18: the scale factor left by the UNIT branch, where `u` is the unit string found
by the first part of the branch (NULL when the word `unit` is absent).  Time
sub-phrase: 1/86400 for `s` or no unit, 1 for `d`, 365.25 for `a` and `yr`, 36525 for
`cy`, and the error AST__BADIN for any other unit.  Space sub-phrase with a SkyFrame:
AST__DD2R (pi/180) for `deg` or no unit, AST__DD2R/60 for `arcmin`, AST__DD2R/3600 for
`arcsec`, and the error AST__BADIN for any other unit.  Space sub-phrase with a basic
Frame, spectral sub-phrase and redshift sub-phrase: 1. -/
theorem unit_scale_factor (env : Env) (s : State) (w : String) (u : Option String)
    (hu : (unitWord s w).unit = u) :
    (s.timeid ≠ NULL_ID →
        ((u = none ∨ u = some "s") → (stepUnit env s w).scale = 1 / 86400)
        ∧ (u = some "d" → (stepUnit env s w).scale = 1)
        ∧ ((u = some "a" ∨ u = some "yr") → (stepUnit env s w).scale = 365.25)
        ∧ (u = some "cy" → (stepUnit env s w).scale = 36525)
        ∧ (u ∉ [none, some "s", some "d", some "a", some "yr", some "cy"] →
            (unitWord s w).status = .ok → (stepUnit env s w).status = .badin))
    ∧ (s.timeid = NULL_ID → s.spaceid ≠ NULL_ID → s.is_skyframe = true →
        ((u = none ∨ u = some "deg") → (stepUnit env s w).scale = env.DD2R)
        ∧ (u = some "arcmin" → (stepUnit env s w).scale = env.DD2R / 60)
        ∧ (u = some "arcsec" → (stepUnit env s w).scale = env.DD2R / 3600)
        ∧ (u ∉ [none, some "deg", some "arcmin", some "arcsec"] →
            (unitWord s w).status = .ok → (stepUnit env s w).status = .badin))
    ∧ (s.timeid = NULL_ID → s.spaceid ≠ NULL_ID → s.is_skyframe = false →
        (stepUnit env s w).scale = 1)
    ∧ (s.timeid = NULL_ID → s.spaceid = NULL_ID → s.velid = NULL_ID → s.specid ≠ NULL_ID →
        (stepUnit env s w).scale = 1)
    ∧ (s.timeid = NULL_ID → s.spaceid = NULL_ID → s.velid = NULL_ID → s.specid = NULL_ID →
        s.redid ≠ NULL_ID → (stepUnit env s w).scale = 1) := by
  obtain ⟨f1, f2, f3, f4, f5, f6⟩ := unitWord_frame s w
  refine ⟨fun ht => ⟨?_, ?_, ?_, ?_, ?_⟩, fun ht hs hsky => ⟨?_, ?_, ?_, ?_⟩, ?_, ?_, ?_⟩
  · rintro (h | h) <;> simp [stepUnit, f1, ht, unitTime, hu, h]
  · intro h; simp [stepUnit, f1, ht, unitTime, hu, h]
  · rintro (h | h) <;> simp [stepUnit, f1, ht, unitTime, hu, h]
  · intro h; simp [stepUnit, f1, ht, unitTime, hu, h]
  · intro h hok
    simp only [List.mem_cons, List.mem_singleton, List.not_mem_nil, or_false, not_or] at h
    simp [stepUnit, f1, ht, unitTime, hu, h, hok]
  · rintro (h | h) <;> simp [stepUnit, f1, f2, f6, ht, hs, hsky, unitSpace, hu, h]
  · intro h; simp [stepUnit, f1, f2, f6, ht, hs, hsky, unitSpace, hu, h]
  · intro h; simp [stepUnit, f1, f2, f6, ht, hs, hsky, unitSpace, hu, h]
  · intro h hok
    simp only [List.mem_cons, List.mem_singleton, List.not_mem_nil, or_false, not_or] at h
    simp [stepUnit, f1, f2, f6, ht, hs, hsky, unitSpace, hu, h, hok]
  · intro ht hs hsky
    simp [stepUnit, f1, f2, f6, ht, hs, hsky, unitSpace]
  · intro ht hs hv hsp
    simp [stepUnit, f1, f2, f3, f4, ht, hs, hv, hsp, unitSpec]
  · intro ht hs hv hsp hr
    simp [stepUnit, f1, f2, f3, f4, f5, ht, hs, hv, hsp, hr, unitRed]
    split_ifs <;> simp

/-- C18, an instance: the UNIT branch of `TimeInterval 2009-01-01 2009-02-01 unit d`. -/
theorem unit_scale_factor_witness :
    (stepUnit sampleEnv
      (readLoop sampleEnv 7 (initState ["TimeInterval 2009-01-01 2009-02-01 unit d"]))
      "unit").scale = 1 :=
  ((unit_scale_factor sampleEnv
    (readLoop sampleEnv 7 (initState ["TimeInterval 2009-01-01 2009-02-01 unit d"]))
    "unit" (some "d") (by decide!)).1 (by decide!)).2.1 rfl

theorem range_lookup (nax : Nat) (e p : Nat → ℚ) :
    (List.range nax).map (fun i =>
        ((((List.range nax).map (fun j => some (e j))).getD i none).getD 0) + p i)
      = (List.range nax).map (fun i => e i + p i) := by
  apply List.map_congr_left
  intro i hi
  have h := List.mem_range.1 hi
  simp [List.getD, h]

/-- C19: called with a good status, error values and both Regions, for a Frame that is
not a SkyFrame, SetUnc stores one and the same Box as the uncertainty of both Regions:
its centre is the representative position `p` of the first Region (the Area) and its
corner is, on every axis, the error value times the scale factor plus `p`.  Without
error values (first entry AST__BAD) both Regions are returned unchanged. -/
theorem SetUnc_box (env : Env) (r1 r2 : Region) (frm : AstFrame) (scale : ℚ)
    (err : List ℚ) (nax : Nat) (ok : Bool) (a b : Option Region) (sky : Bool) :
    SetUnc env true (some r1) (some r2) frm false scale (some err) nax
      = (some (r1.setUnc ⟨representativePosition env frm r1,
            (List.range nax).map (fun i =>
              err.getD i 0 * scale + (representativePosition env frm r1).getD i 0)⟩),
         some (r2.setUnc ⟨representativePosition env frm r1,
            (List.range nax).map (fun i =>
              err.getD i 0 * scale + (representativePosition env frm r1).getD i 0)⟩))
    ∧ SetUnc env ok a b frm sky scale none nax = (a, b) := by
  constructor
  · have h := range_lookup nax (fun i => err.getD i 0 * scale)
      (fun i => (representativePosition env frm r1).getD i 0)
    simp only [SetUnc, representativePosition] at h ⊢
    simp only [Option.orElse, HOrElse.hOrElse, OrElse.orElse, Option.map, Bool.false_eq_true,
      if_false]
    rw [h]
  · cases ok <;> rfl

/-- C20: when the bounds of the spectral axis differ and one of them is unbounded
(the lower one at or below -lim, or the upper one at or above lim), the tests of the
bounds in WriteRegion clear the flag `ok` that WriteRegion returns and leave the KeyMap
of the sub-phrase as it was, so no ID, LOLIMIT or HILIMIT is stored; the same holds
for the redshift axis; and when WriteRegion has returned 0 for the Coords or for the
Area Region, Write returns 0 and writes no line at all. -/
theorem unbounded_interval_rejected (fmt : ℚ → String) (lim : ℚ) (b : AxisBounds)
    (st : BoundsState) (hne : b.lbnd ≠ b.ubnd) (hun : b.lbnd ≤ -lim ∨ lim ≤ b.ubnd) :
    (spectralBounds fmt lim b st).ok = false
    ∧ (spectralBounds fmt lim b st).spprops = st.spprops
    ∧ (redshiftBounds fmt lim b st).ok = false
    ∧ (redshiftBounds fmt lim b st).spprops = st.spprops
    ∧ (∀ area props, WriteEnd (some false) area props = (false, []))
    ∧ (∀ coords props, WriteEnd coords (some false) props = (false, [])) := by
  have hb : ¬ (b.lbnd > -lim ∧ b.ubnd < lim) := by
    rintro ⟨h1, h2⟩
    rcases hun with h | h
    · exact absurd h1 (not_lt.2 h)
    · exact absurd h2 (not_lt.2 h)
  refine ⟨?_, ?_, ?_, ?_, ?_, ?_⟩
  · unfold spectralBounds; split_ifs <;> rfl
  · unfold spectralBounds; split_ifs <;> rfl
  · unfold redshiftBounds; split_ifs <;> rfl
  · unfold redshiftBounds; split_ifs <;> rfl
  · intro area props; cases area <;> simp [WriteEnd]
  · intro coords props
    rcases coords with _ | c
    · simp [WriteEnd]
    · cases c <;> simp [WriteEnd]

/-- C20, an instance: a spectral interval from 1 without upper bound. -/
theorem unbounded_interval_rejected_witness :
    (spectralBounds (fun _ => "") 1000 ⟨true, 1, 1000⟩ ⟨true, KeyMap.empty, none, []⟩).ok
      = false :=
  (unbounded_interval_rejected (fun _ => "") 1000 ⟨true, 1, 1000⟩
    ⟨true, KeyMap.empty, none, []⟩ (by norm_num) (Or.inr (le_refl _))).1

theorem readLoop_stopped (env : Env) (n : Nat) (s : State) (h : s.running = false) :
    readLoop env n s = s := by
  cases n with
  | zero => rfl
  | succ n =>
    unfold readLoop
    cases hw : s.word with
    | none => rfl
    | some w =>
      have h2 : (s.astOK && !s.broke) = false := by
        simpa [State.running, hw] using h
      simp only [h2]
      rfl

theorem readLoop_add (env : Env) (n m : Nat) (s : State) :
    readLoop env (n + m) s = readLoop env m (readLoop env n s) := by
  induction n generalizing s with
  | zero => simp [readLoop]
  | succ n ih =>
    rw [Nat.succ_add]
    by_cases hr : s.running = false
    · simp only [readLoop_stopped env _ s hr]
    · cases hw : s.word with
      | none => simp [State.running, hw] at hr
      | some w =>
        have h2 : (s.astOK && !s.broke) = true := by
          simpa [State.running, hw] using hr
        simp only [readLoop, hw, h2, if_true]
        exact ih _

theorem running_of_bad (s : State) (h : s.status ≠ .ok) : s.running = false := by
  simp [State.running, h]

theorem decodeEnd_status_of_bad (env : Env) (s : State) (h : s.status ≠ .ok) :
    (decodeEnd env s).status = s.status := by
  simp [decodeEnd, simplifyFull, h]

theorem selectResult_of_bad (this : AstStcsChan) (d : Decoded) (h : d.status ≠ .ok) :
    selectResult this d = (d.status, none) := by
  unfold selectResult
  simp only []
  split_ifs <;> simp_all

theorem flavour_rest_of_bad (s : State) (c : Status) (h : s.status = c) (hc : c ≠ .ok) :
    (flavourNext (flavourDomain (flavourSystem (flavourCheck s)))).status = c := by
  subst h
  have h1 : (flavourCheck s).status = s.status := by
    unfold flavourCheck; split_ifs <;> simp [hc]
  have h2 : (flavourSystem (flavourCheck s)).status = s.status := by
    unfold flavourSystem; split_ifs <;> simp [h1, hc]
  have h3 : (flavourDomain (flavourSystem (flavourCheck s))).status = s.status := by
    unfold flavourDomain; split_ifs <;> simp [h2, hc]
  simp only [flavourNext]
  exact h3

theorem selectResult_bad_none (this : AstStcsChan) (d : Decoded)
    (h : (selectResult this d).1 ≠ .ok) : (selectResult this d).2 = none := by
  have key : ∀ r : Status × Option AstObject,
      (if r.1 = .ok then r else (r.1, none)).1 ≠ .ok →
      (if r.1 = .ok then r else (r.1, none)).2 = none := by
    intro r hr
    by_cases h1 : r.1 = .ok
    · simp [h1] at hr
    · simp [h1]
  exact key _ h

theorem step_raises (env : Env) (s : State) (w : String) (hok : s.status = .ok)
    (hword : s.word = some w) :
    (s.look_for = .CONVEX → (step env s w).status = .badin)
    ∧ (s.look_for = .REDSHIFT_IDENTIFIER → w ≠ "RedshiftInterval" → w ≠ "Redshift" → w ≠ "" →
        (step env s w).status = .badin)
    ∧ (s.look_for = .FLAVOUR → (w = "UNITSPHERE" ∨ w = "SPHER3") →
        (step env s w).status = .badin)
    ∧ (s.look_for = .RED_SPEC_VALUE → env.chr2Double w = none →
        (step env s w).status = .badin) := by
  refine ⟨?_, ?_, ?_, ?_⟩
  · intro h
    simp [step, stepBody, branch, h, stepConvex, hok]
    split_ifs <;> simp [hok]
  · intro h h1 h2 h3
    simp [step, stepBody, branch, h, stepRedshiftIdentifier, hok, h1, h2, h3]
    split_ifs <;> simp [hok]
  · intro h hw
    have hf : (flavourFrame { s with new_word := true } w).status = .badin := by
      rcases hw with rfl | rfl <;> simp [flavourFrame, hok]
    have hr := flavour_rest_of_bad _ .badin hf (by decide)
    have hb : stepBody env s w = stepFlavour { s with new_word := true } w := by
      unfold stepBody
      rw [h]
      rfl
    have hb2 : (stepBody env s w).status = .badin := by
      rw [hb]
      unfold stepFlavour
      simp only []
      split_ifs <;> simp [hr]
    simp only [step]
    split_ifs <;> simp [hb2]
  · intro h hn
    simp [step, stepBody, branch, h, stepRedSpecValue, State.chr2Double, hok, hword, hn]
    split_ifs <;> simp [hok]

/-- C10: if some pass of the main loop leaves a bad status other than a fault, then Read,
allowed at least that many passes, returns with that status and with no Object, whatever
the values of StcsArea, StcsCoords and StcsProps; and every call of Read that ends with
such a status returns no Object.  Hard errors of the loop: a Convex shape, a word that
is not a redshift identifier where one is expected, the flavours UNITSPHERE and SPHER3,
and a spectral or redshift value that is not a number each leave the status AST__BADIN.
When the first value of a shape is not a number the error is reported too, but the
statement `prop[ nc - 1 ] = 0` that follows is executed with `nc` equal to 0: for the
document `Circle ICRS TOPOCENTER SPHER2 abc` the buffer is still NULL and the run ends in
a fault instead of returning. -/
theorem hard_error_aborts (env : Env) (this : AstStcsChan) (source : List String) (n m : Nat)
    (h : (readLoop env n (initState source)).status ≠ .ok) :
    ((readLoop env n (initState source)).status ≠ .fault →
      (Read env this (n + m) source).map (fun r => (r.object, r.status))
        = some (none, (readLoop env n (initState source)).status))
    ∧ (∀ fuel r, Read env this fuel source = some r → r.status ≠ .ok → r.status ≠ .fault →
        r.object = none)
    ∧ (∀ (s : State) (w : String), s.status = .ok → s.word = some w →
        (s.look_for = .CONVEX → (step env s w).status = .badin)
        ∧ (s.look_for = .REDSHIFT_IDENTIFIER → w ≠ "RedshiftInterval" → w ≠ "Redshift" →
            w ≠ "" → (step env s w).status = .badin)
        ∧ (s.look_for = .FLAVOUR → (w = "UNITSPHERE" ∨ w = "SPHER3") →
            (step env s w).status = .badin)
        ∧ (s.look_for = .RED_SPEC_VALUE → env.chr2Double w = none →
            (step env s w).status = .badin))
    ∧ (readLoop sampleEnv 6 (initState ["Circle ICRS TOPOCENTER SPHER2 abc"])).look_for
        = .CIRCLE
    ∧ (readLoop sampleEnv 6 (initState ["Circle ICRS TOPOCENTER SPHER2 abc"])).prop = none
    ∧ (axisLoop sampleEnv 2
        { readLoop sampleEnv 6 (initState ["Circle ICRS TOPOCENTER SPHER2 abc"]) with
          nc := 0 }).1.status = .badin
    ∧ (readLoop sampleEnv 7 (initState ["Circle ICRS TOPOCENTER SPHER2 abc"])).status
        = .fault := by
  refine ⟨fun _ => ?_, ?_, fun s w hok hword => step_raises env s w hok hword,
    by decide!, by decide!, by decide!, by decide!⟩
  · have hstop := running_of_bad _ h
    have hl : readLoop env (n + m) (initState source) = readLoop env n (initState source) := by
      rw [readLoop_add, readLoop_stopped env m _ hstop]
    have hR := Read_of_stopped env this (n + m) source (by rw [hl]; exact hstop)
    rw [hR, hl]
    have hd := decodeEnd_status_of_bad env _ h
    have hs := selectResult_of_bad this (decodeEnd env (readLoop env n (initState source)))
      (by rw [hd]; exact h)
    simp [hs, hd]
  · intro fuel r hR hbad _
    obtain ⟨_, ho, hst, _⟩ := Read_some env this fuel source r hR
    rw [ho]
    rw [hst] at hbad
    exact selectResult_bad_none this _ hbad

/-- C10, an instance: the document `Convex ICRS` read with all three attributes set;
the fourth pass of the loop meets the Convex shape. -/
theorem hard_error_aborts_witness :
    (Read sampleEnv { stcsarea := 1, stcscoords := 1, stcsprops := 1 } (7 + 93)
      ["Convex ICRS TOPOCENTER SPHER2 1 2"]).map (fun r => (r.object, r.status))
      = some (none, (readLoop sampleEnv 7
          (initState ["Convex ICRS TOPOCENTER SPHER2 1 2"])).status) :=
  (hard_error_aborts sampleEnv { stcsarea := 1, stcscoords := 1, stcsprops := 1 }
    ["Convex ICRS TOPOCENTER SPHER2 1 2"] 7 93 (by decide!)).1 (by decide!)

theorem WarnOK_append_iff (a : List Warning) (x : Warning) :
    WarnOK (a ++ [x]) ↔ WarnOK a ∧ levelOK x := by
  constructor
  · intro h
    exact ⟨fun y hy => h y (List.mem_append_left _ hy), h x (by simp)⟩
  · rintro ⟨h1, h2⟩ y hy
    rcases List.mem_append.1 hy with h | h
    · exact h1 y h
    · rw [List.mem_singleton.1 h]; exact h2

theorem WarnOK_ite_iff (c : Prop) [Decidable c] (a b : List Warning) :
    WarnOK (if c then a else b) ↔ (c → WarnOK a) ∧ (¬ c → WarnOK b) := by
  split_ifs with h <;> simp [h]

theorem ite_warnings (c : Prop) [Decidable c] (a b : State) :
    (if c then a else b).warnings = if c then a.warnings else b.warnings := by
  split_ifs <;> rfl

set_option linter.unreachableTactic false
set_option linter.unusedTactic false

theorem ok_ite {c : Prop} [Decidable c] {a b : State} (ha : WarnOK a.warnings)
    (hb : WarnOK b.warnings) : WarnOK (if c then a else b).warnings := by
  split_ifs <;> assumption

theorem ok_warn1 {s : State} {t : String} {a : List String} (h : WarnOK s.warnings) :
    WarnOK (s.warn 1 t a).warnings := by
  rw [warn_warnings]; split_ifs
  · exact (WarnOK_append_iff _ _).2 ⟨h, Or.inl rfl⟩
  · exact h

theorem ok_warn2 {s : State} {t : String} {a : List String} (h : WarnOK s.warnings) :
    WarnOK (s.warn 2 t a).warnings := by
  rw [warn_warnings]; split_ifs
  · exact (WarnOK_append_iff _ _).2 ⟨h, Or.inr (Or.inl rfl)⟩
  · exact h

theorem ok_nextWord {s : State} (h : WarnOK s.warnings) :
    WarnOK (s.nextWord).warnings := by
  exact h

theorem ok_raise {s : State} {c : Status} (h : WarnOK s.warnings) :
    WarnOK (s.raise c).warnings := by
  exact h

theorem ok_crash {s : State} (h : WarnOK s.warnings) :
    WarnOK (s.crash).warnings := by
  exact h

theorem ok_mapPut {s : State} {k : String} {v : Option String} (h : WarnOK s.warnings) :
    WarnOK (s.mapPut k v).warnings := by
  exact h

theorem ok_append {s : State} {v : Option String} (h : WarnOK s.warnings) :
    WarnOK (s.append v).warnings := by
  exact h

theorem ok_chop {s : State} (h : WarnOK s.warnings) :
    WarnOK (s.chop).warnings := by
  unfold State.chop
  split <;> exact h

theorem ok_mapPutProp {s : State} {k : String} (h : WarnOK s.warnings) :
    WarnOK (s.mapPutProp k).warnings := by
  exact h

theorem ok_setTimeScale {s : State} {t : TimeScale} (h : WarnOK s.warnings) :
    WarnOK (s.setTimeScale t).warnings := by
  exact h

theorem ok_setSpaceFrm {s : State} {g : AstFrame → AstFrame} (h : WarnOK s.warnings) :
    WarnOK (s.setSpaceFrm g).warnings := by
  exact h

theorem ok_setRedFrm {s : State} {g : AstFrame → AstFrame} (h : WarnOK s.warnings) :
    WarnOK (s.setRedFrm g).warnings := by
  exact h

theorem ok_setSpecFrm {s : State} {g : AstFrame → AstFrame} (h : WarnOK s.warnings) :
    WarnOK (s.setSpecFrm g).warnings := by
  exact h

theorem ok_needNumber {env : Env} {s : State} (h : WarnOK s.warnings) :
    WarnOK (s.needNumber env).warnings := by
  exact h

theorem ok_finishTime {env : Env} {s : State} (h : WarnOK s.warnings) :
    WarnOK (finishTime env s).warnings := by
  rw [finishTime_warnings env s]; exact h

theorem ok_finishSpace {env : Env} {s : State} (h : WarnOK s.warnings) :
    WarnOK (finishSpace env s).warnings := by
  rw [finishSpace_warnings env s]; exact h

theorem ok_finishSpec {env : Env} {s : State} (h : WarnOK s.warnings) :
    WarnOK (finishSpec env s).warnings := by
  rw [finishSpec_warnings env s]; exact h

theorem ok_finishRed {env : Env} {s : State} (h : WarnOK s.warnings) :
    WarnOK (finishRed env s).warnings := by
  rw [finishRed_warnings env s]; exact h

theorem ok_axisLoop {env : Env} {n : Nat} {s : State} (h : WarnOK s.warnings) :
    WarnOK ((axisLoop env n s).1).warnings := by
  rw [axisLoop_warnings env n s]; exact h

theorem ok_numberRun {env : Env} {n : Nat} {s : State} (h : WarnOK s.warnings) :
    WarnOK ((numberRun env n s).1).warnings := by
  rw [numberRun_warnings env n s]; exact h

theorem ok_errorLoop {env : Env} {n : Nat} {s : State} (h : WarnOK s.warnings) :
    WarnOK ((errorLoop env n s).1).warnings := by
  rw [errorLoop_warnings env n s]; exact h

theorem ok_polygonRest {env : Env} {k n : Nat} {s : State} {t : List ℚ} {v : Nat} (h : WarnOK s.warnings) :
    WarnOK ((polygonRest env k n s t v).1).warnings := by
  rw [polygonRest_warnings env k n s t v]; exact h

theorem ok_stepTimeIdentifier {s : State} {w : String} (h : WarnOK s.warnings) :
    WarnOK (stepTimeIdentifier s w).warnings := by
  unfold stepTimeIdentifier
  repeat' first
    | with_reducible exact h
    | with_reducible apply ok_ite
    | with_reducible apply ok_warn1
    | with_reducible apply ok_warn2
    | with_reducible apply ok_nextWord
    | with_reducible apply ok_raise
    | with_reducible apply ok_crash
    | with_reducible apply ok_mapPut
    | with_reducible apply ok_append
    | with_reducible apply ok_chop
    | with_reducible apply ok_mapPutProp
    | with_reducible apply ok_setTimeScale
    | with_reducible apply ok_setSpaceFrm
    | with_reducible apply ok_setRedFrm
    | with_reducible apply ok_setSpecFrm
    | with_reducible apply ok_needNumber
    | with_reducible apply ok_finishTime
    | with_reducible apply ok_finishSpace
    | with_reducible apply ok_finishSpec
    | with_reducible apply ok_finishRed
    | with_reducible apply ok_axisLoop
    | with_reducible apply ok_numberRun
    | with_reducible apply ok_errorLoop
    | with_reducible apply ok_polygonRest
    | split

theorem ok_stepSpaceIdentifier {env : Env} {s : State} {w : String} (h : WarnOK s.warnings) :
    WarnOK (stepSpaceIdentifier env s w).warnings := by
  unfold stepSpaceIdentifier
  repeat' first
    | with_reducible exact h
    | with_reducible apply ok_ite
    | with_reducible apply ok_warn1
    | with_reducible apply ok_warn2
    | with_reducible apply ok_nextWord
    | with_reducible apply ok_raise
    | with_reducible apply ok_crash
    | with_reducible apply ok_mapPut
    | with_reducible apply ok_append
    | with_reducible apply ok_chop
    | with_reducible apply ok_mapPutProp
    | with_reducible apply ok_setTimeScale
    | with_reducible apply ok_setSpaceFrm
    | with_reducible apply ok_setRedFrm
    | with_reducible apply ok_setSpecFrm
    | with_reducible apply ok_needNumber
    | with_reducible apply ok_finishTime
    | with_reducible apply ok_finishSpace
    | with_reducible apply ok_finishSpec
    | with_reducible apply ok_finishRed
    | with_reducible apply ok_axisLoop
    | with_reducible apply ok_numberRun
    | with_reducible apply ok_errorLoop
    | with_reducible apply ok_polygonRest
    | with_reducible apply ok_stepTimeIdentifier
    | split

theorem ok_stepVelocityIdentifier {env : Env} {s : State} {w : String} (h : WarnOK s.warnings) :
    WarnOK (stepVelocityIdentifier env s w).warnings := by
  unfold stepVelocityIdentifier
  repeat' first
    | with_reducible exact h
    | with_reducible apply ok_ite
    | with_reducible apply ok_warn1
    | with_reducible apply ok_warn2
    | with_reducible apply ok_nextWord
    | with_reducible apply ok_raise
    | with_reducible apply ok_crash
    | with_reducible apply ok_mapPut
    | with_reducible apply ok_append
    | with_reducible apply ok_chop
    | with_reducible apply ok_mapPutProp
    | with_reducible apply ok_setTimeScale
    | with_reducible apply ok_setSpaceFrm
    | with_reducible apply ok_setRedFrm
    | with_reducible apply ok_setSpecFrm
    | with_reducible apply ok_needNumber
    | with_reducible apply ok_finishTime
    | with_reducible apply ok_finishSpace
    | with_reducible apply ok_finishSpec
    | with_reducible apply ok_finishRed
    | with_reducible apply ok_axisLoop
    | with_reducible apply ok_numberRun
    | with_reducible apply ok_errorLoop
    | with_reducible apply ok_polygonRest
    | with_reducible apply ok_stepTimeIdentifier
    | with_reducible apply ok_stepSpaceIdentifier
    | split

theorem ok_stepSpectralIdentifier {s : State} {w : String} (h : WarnOK s.warnings) :
    WarnOK (stepSpectralIdentifier s w).warnings := by
  unfold stepSpectralIdentifier
  repeat' first
    | with_reducible exact h
    | with_reducible apply ok_ite
    | with_reducible apply ok_warn1
    | with_reducible apply ok_warn2
    | with_reducible apply ok_nextWord
    | with_reducible apply ok_raise
    | with_reducible apply ok_crash
    | with_reducible apply ok_mapPut
    | with_reducible apply ok_append
    | with_reducible apply ok_chop
    | with_reducible apply ok_mapPutProp
    | with_reducible apply ok_setTimeScale
    | with_reducible apply ok_setSpaceFrm
    | with_reducible apply ok_setRedFrm
    | with_reducible apply ok_setSpecFrm
    | with_reducible apply ok_needNumber
    | with_reducible apply ok_finishTime
    | with_reducible apply ok_finishSpace
    | with_reducible apply ok_finishSpec
    | with_reducible apply ok_finishRed
    | with_reducible apply ok_axisLoop
    | with_reducible apply ok_numberRun
    | with_reducible apply ok_errorLoop
    | with_reducible apply ok_polygonRest
    | with_reducible apply ok_stepTimeIdentifier
    | with_reducible apply ok_stepSpaceIdentifier
    | with_reducible apply ok_stepVelocityIdentifier
    | split

theorem ok_stepRedshiftIdentifier {env : Env} {s : State} {w : String} (h : WarnOK s.warnings) :
    WarnOK (stepRedshiftIdentifier env s w).warnings := by
  unfold stepRedshiftIdentifier
  repeat' first
    | with_reducible exact h
    | with_reducible apply ok_ite
    | with_reducible apply ok_warn1
    | with_reducible apply ok_warn2
    | with_reducible apply ok_nextWord
    | with_reducible apply ok_raise
    | with_reducible apply ok_crash
    | with_reducible apply ok_mapPut
    | with_reducible apply ok_append
    | with_reducible apply ok_chop
    | with_reducible apply ok_mapPutProp
    | with_reducible apply ok_setTimeScale
    | with_reducible apply ok_setSpaceFrm
    | with_reducible apply ok_setRedFrm
    | with_reducible apply ok_setSpecFrm
    | with_reducible apply ok_needNumber
    | with_reducible apply ok_finishTime
    | with_reducible apply ok_finishSpace
    | with_reducible apply ok_finishSpec
    | with_reducible apply ok_finishRed
    | with_reducible apply ok_axisLoop
    | with_reducible apply ok_numberRun
    | with_reducible apply ok_errorLoop
    | with_reducible apply ok_polygonRest
    | with_reducible apply ok_stepTimeIdentifier
    | with_reducible apply ok_stepSpaceIdentifier
    | with_reducible apply ok_stepVelocityIdentifier
    | with_reducible apply ok_stepSpectralIdentifier
    | split

theorem ok_stepFillFactor {env : Env} {s : State} {w : String} (h : WarnOK s.warnings) :
    WarnOK (stepFillFactor env s w).warnings := by
  unfold stepFillFactor
  repeat' first
    | with_reducible exact h
    | with_reducible apply ok_ite
    | with_reducible apply ok_warn1
    | with_reducible apply ok_warn2
    | with_reducible apply ok_nextWord
    | with_reducible apply ok_raise
    | with_reducible apply ok_crash
    | with_reducible apply ok_mapPut
    | with_reducible apply ok_append
    | with_reducible apply ok_chop
    | with_reducible apply ok_mapPutProp
    | with_reducible apply ok_setTimeScale
    | with_reducible apply ok_setSpaceFrm
    | with_reducible apply ok_setRedFrm
    | with_reducible apply ok_setSpecFrm
    | with_reducible apply ok_needNumber
    | with_reducible apply ok_finishTime
    | with_reducible apply ok_finishSpace
    | with_reducible apply ok_finishSpec
    | with_reducible apply ok_finishRed
    | with_reducible apply ok_axisLoop
    | with_reducible apply ok_numberRun
    | with_reducible apply ok_errorLoop
    | with_reducible apply ok_polygonRest
    | with_reducible apply ok_stepTimeIdentifier
    | with_reducible apply ok_stepSpaceIdentifier
    | with_reducible apply ok_stepVelocityIdentifier
    | with_reducible apply ok_stepSpectralIdentifier
    | with_reducible apply ok_stepRedshiftIdentifier
    | split

theorem ok_stepFrame {s : State} {w : String} (h : WarnOK s.warnings) :
    WarnOK (stepFrame s w).warnings := by
  unfold stepFrame
  repeat' first
    | with_reducible exact h
    | with_reducible apply ok_ite
    | with_reducible apply ok_warn1
    | with_reducible apply ok_warn2
    | with_reducible apply ok_nextWord
    | with_reducible apply ok_raise
    | with_reducible apply ok_crash
    | with_reducible apply ok_mapPut
    | with_reducible apply ok_append
    | with_reducible apply ok_chop
    | with_reducible apply ok_mapPutProp
    | with_reducible apply ok_setTimeScale
    | with_reducible apply ok_setSpaceFrm
    | with_reducible apply ok_setRedFrm
    | with_reducible apply ok_setSpecFrm
    | with_reducible apply ok_needNumber
    | with_reducible apply ok_finishTime
    | with_reducible apply ok_finishSpace
    | with_reducible apply ok_finishSpec
    | with_reducible apply ok_finishRed
    | with_reducible apply ok_axisLoop
    | with_reducible apply ok_numberRun
    | with_reducible apply ok_errorLoop
    | with_reducible apply ok_polygonRest
    | with_reducible apply ok_stepTimeIdentifier
    | with_reducible apply ok_stepSpaceIdentifier
    | with_reducible apply ok_stepVelocityIdentifier
    | with_reducible apply ok_stepSpectralIdentifier
    | with_reducible apply ok_stepRedshiftIdentifier
    | with_reducible apply ok_stepFillFactor
    | split

theorem ok_stepRefPosTime {s : State} {w : String} (h : WarnOK s.warnings) :
    WarnOK (stepRefPosTime s w).warnings := by
  unfold stepRefPosTime
  repeat' first
    | with_reducible exact h
    | with_reducible apply ok_ite
    | with_reducible apply ok_warn1
    | with_reducible apply ok_warn2
    | with_reducible apply ok_nextWord
    | with_reducible apply ok_raise
    | with_reducible apply ok_crash
    | with_reducible apply ok_mapPut
    | with_reducible apply ok_append
    | with_reducible apply ok_chop
    | with_reducible apply ok_mapPutProp
    | with_reducible apply ok_setTimeScale
    | with_reducible apply ok_setSpaceFrm
    | with_reducible apply ok_setRedFrm
    | with_reducible apply ok_setSpecFrm
    | with_reducible apply ok_needNumber
    | with_reducible apply ok_finishTime
    | with_reducible apply ok_finishSpace
    | with_reducible apply ok_finishSpec
    | with_reducible apply ok_finishRed
    | with_reducible apply ok_axisLoop
    | with_reducible apply ok_numberRun
    | with_reducible apply ok_errorLoop
    | with_reducible apply ok_polygonRest
    | with_reducible apply ok_stepTimeIdentifier
    | with_reducible apply ok_stepSpaceIdentifier
    | with_reducible apply ok_stepVelocityIdentifier
    | with_reducible apply ok_stepSpectralIdentifier
    | with_reducible apply ok_stepRedshiftIdentifier
    | with_reducible apply ok_stepFillFactor
    | with_reducible apply ok_stepFrame
    | split

theorem ok_stepRefPosSpace {s : State} {w : String} (h : WarnOK s.warnings) :
    WarnOK (stepRefPosSpace s w).warnings := by
  unfold stepRefPosSpace
  repeat' first
    | with_reducible exact h
    | with_reducible apply ok_ite
    | with_reducible apply ok_warn1
    | with_reducible apply ok_warn2
    | with_reducible apply ok_nextWord
    | with_reducible apply ok_raise
    | with_reducible apply ok_crash
    | with_reducible apply ok_mapPut
    | with_reducible apply ok_append
    | with_reducible apply ok_chop
    | with_reducible apply ok_mapPutProp
    | with_reducible apply ok_setTimeScale
    | with_reducible apply ok_setSpaceFrm
    | with_reducible apply ok_setRedFrm
    | with_reducible apply ok_setSpecFrm
    | with_reducible apply ok_needNumber
    | with_reducible apply ok_finishTime
    | with_reducible apply ok_finishSpace
    | with_reducible apply ok_finishSpec
    | with_reducible apply ok_finishRed
    | with_reducible apply ok_axisLoop
    | with_reducible apply ok_numberRun
    | with_reducible apply ok_errorLoop
    | with_reducible apply ok_polygonRest
    | with_reducible apply ok_stepTimeIdentifier
    | with_reducible apply ok_stepSpaceIdentifier
    | with_reducible apply ok_stepVelocityIdentifier
    | with_reducible apply ok_stepSpectralIdentifier
    | with_reducible apply ok_stepRedshiftIdentifier
    | with_reducible apply ok_stepFillFactor
    | with_reducible apply ok_stepFrame
    | with_reducible apply ok_stepRefPosTime
    | split

theorem ok_stepRefPosSpec {s : State} {w : String} (h : WarnOK s.warnings) :
    WarnOK (stepRefPosSpec s w).warnings := by
  unfold stepRefPosSpec
  repeat' first
    | with_reducible exact h
    | with_reducible apply ok_ite
    | with_reducible apply ok_warn1
    | with_reducible apply ok_warn2
    | with_reducible apply ok_nextWord
    | with_reducible apply ok_raise
    | with_reducible apply ok_crash
    | with_reducible apply ok_mapPut
    | with_reducible apply ok_append
    | with_reducible apply ok_chop
    | with_reducible apply ok_mapPutProp
    | with_reducible apply ok_setTimeScale
    | with_reducible apply ok_setSpaceFrm
    | with_reducible apply ok_setRedFrm
    | with_reducible apply ok_setSpecFrm
    | with_reducible apply ok_needNumber
    | with_reducible apply ok_finishTime
    | with_reducible apply ok_finishSpace
    | with_reducible apply ok_finishSpec
    | with_reducible apply ok_finishRed
    | with_reducible apply ok_axisLoop
    | with_reducible apply ok_numberRun
    | with_reducible apply ok_errorLoop
    | with_reducible apply ok_polygonRest
    | with_reducible apply ok_stepTimeIdentifier
    | with_reducible apply ok_stepSpaceIdentifier
    | with_reducible apply ok_stepVelocityIdentifier
    | with_reducible apply ok_stepSpectralIdentifier
    | with_reducible apply ok_stepRedshiftIdentifier
    | with_reducible apply ok_stepFillFactor
    | with_reducible apply ok_stepFrame
    | with_reducible apply ok_stepRefPosTime
    | with_reducible apply ok_stepRefPosSpace
    | split

theorem ok_stepRefPos {s : State} {w : String} (h : WarnOK s.warnings) :
    WarnOK (stepRefPos s w).warnings := by
  unfold stepRefPos
  repeat' first
    | with_reducible exact h
    | with_reducible apply ok_ite
    | with_reducible apply ok_warn1
    | with_reducible apply ok_warn2
    | with_reducible apply ok_nextWord
    | with_reducible apply ok_raise
    | with_reducible apply ok_crash
    | with_reducible apply ok_mapPut
    | with_reducible apply ok_append
    | with_reducible apply ok_chop
    | with_reducible apply ok_mapPutProp
    | with_reducible apply ok_setTimeScale
    | with_reducible apply ok_setSpaceFrm
    | with_reducible apply ok_setRedFrm
    | with_reducible apply ok_setSpecFrm
    | with_reducible apply ok_needNumber
    | with_reducible apply ok_finishTime
    | with_reducible apply ok_finishSpace
    | with_reducible apply ok_finishSpec
    | with_reducible apply ok_finishRed
    | with_reducible apply ok_axisLoop
    | with_reducible apply ok_numberRun
    | with_reducible apply ok_errorLoop
    | with_reducible apply ok_polygonRest
    | with_reducible apply ok_stepTimeIdentifier
    | with_reducible apply ok_stepSpaceIdentifier
    | with_reducible apply ok_stepVelocityIdentifier
    | with_reducible apply ok_stepSpectralIdentifier
    | with_reducible apply ok_stepRedshiftIdentifier
    | with_reducible apply ok_stepFillFactor
    | with_reducible apply ok_stepFrame
    | with_reducible apply ok_stepRefPosTime
    | with_reducible apply ok_stepRefPosSpace
    | with_reducible apply ok_stepRefPosSpec
    | split

theorem ok_readTime {env : Env} {s : State} {w : String} {old : Option ℚ} {b : Bool} (h : WarnOK s.warnings) :
    WarnOK ((readTime env s w old b).1).warnings := by
  have e : (readTime env s w old b).1.warnings = s.warnings := by
    simp only [readTime]
    split_ifs <;> (try split) <;> (try split) <;> simp
  rw [e]; exact h

theorem ok_stepStart {env : Env} {s : State} {w : String} (h : WarnOK s.warnings) :
    WarnOK (stepStart env s w).warnings := by
  unfold stepStart
  repeat' first
    | with_reducible exact h
    | with_reducible apply ok_ite
    | with_reducible apply ok_warn1
    | with_reducible apply ok_warn2
    | with_reducible apply ok_nextWord
    | with_reducible apply ok_raise
    | with_reducible apply ok_crash
    | with_reducible apply ok_mapPut
    | with_reducible apply ok_append
    | with_reducible apply ok_chop
    | with_reducible apply ok_mapPutProp
    | with_reducible apply ok_setTimeScale
    | with_reducible apply ok_setSpaceFrm
    | with_reducible apply ok_setRedFrm
    | with_reducible apply ok_setSpecFrm
    | with_reducible apply ok_needNumber
    | with_reducible apply ok_finishTime
    | with_reducible apply ok_finishSpace
    | with_reducible apply ok_finishSpec
    | with_reducible apply ok_finishRed
    | with_reducible apply ok_axisLoop
    | with_reducible apply ok_numberRun
    | with_reducible apply ok_errorLoop
    | with_reducible apply ok_polygonRest
    | with_reducible apply ok_stepTimeIdentifier
    | with_reducible apply ok_stepSpaceIdentifier
    | with_reducible apply ok_stepVelocityIdentifier
    | with_reducible apply ok_stepSpectralIdentifier
    | with_reducible apply ok_stepRedshiftIdentifier
    | with_reducible apply ok_stepFillFactor
    | with_reducible apply ok_stepFrame
    | with_reducible apply ok_stepRefPosTime
    | with_reducible apply ok_stepRefPosSpace
    | with_reducible apply ok_stepRefPosSpec
    | with_reducible apply ok_stepRefPos
    | with_reducible apply ok_readTime
    | split

theorem ok_stepStop {env : Env} {s : State} {w : String} (h : WarnOK s.warnings) :
    WarnOK (stepStop env s w).warnings := by
  unfold stepStop
  repeat' first
    | with_reducible exact h
    | with_reducible apply ok_ite
    | with_reducible apply ok_warn1
    | with_reducible apply ok_warn2
    | with_reducible apply ok_nextWord
    | with_reducible apply ok_raise
    | with_reducible apply ok_crash
    | with_reducible apply ok_mapPut
    | with_reducible apply ok_append
    | with_reducible apply ok_chop
    | with_reducible apply ok_mapPutProp
    | with_reducible apply ok_setTimeScale
    | with_reducible apply ok_setSpaceFrm
    | with_reducible apply ok_setRedFrm
    | with_reducible apply ok_setSpecFrm
    | with_reducible apply ok_needNumber
    | with_reducible apply ok_finishTime
    | with_reducible apply ok_finishSpace
    | with_reducible apply ok_finishSpec
    | with_reducible apply ok_finishRed
    | with_reducible apply ok_axisLoop
    | with_reducible apply ok_numberRun
    | with_reducible apply ok_errorLoop
    | with_reducible apply ok_polygonRest
    | with_reducible apply ok_stepTimeIdentifier
    | with_reducible apply ok_stepSpaceIdentifier
    | with_reducible apply ok_stepVelocityIdentifier
    | with_reducible apply ok_stepSpectralIdentifier
    | with_reducible apply ok_stepRedshiftIdentifier
    | with_reducible apply ok_stepFillFactor
    | with_reducible apply ok_stepFrame
    | with_reducible apply ok_stepRefPosTime
    | with_reducible apply ok_stepRefPosSpace
    | with_reducible apply ok_stepRefPosSpec
    | with_reducible apply ok_stepRefPos
    | with_reducible apply ok_readTime
    | with_reducible apply ok_stepStart
    | split

theorem ok_stepTimeLabel {s : State} {w : String} (h : WarnOK s.warnings) :
    WarnOK (stepTimeLabel s w).warnings := by
  unfold stepTimeLabel
  repeat' first
    | with_reducible exact h
    | with_reducible apply ok_ite
    | with_reducible apply ok_warn1
    | with_reducible apply ok_warn2
    | with_reducible apply ok_nextWord
    | with_reducible apply ok_raise
    | with_reducible apply ok_crash
    | with_reducible apply ok_mapPut
    | with_reducible apply ok_append
    | with_reducible apply ok_chop
    | with_reducible apply ok_mapPutProp
    | with_reducible apply ok_setTimeScale
    | with_reducible apply ok_setSpaceFrm
    | with_reducible apply ok_setRedFrm
    | with_reducible apply ok_setSpecFrm
    | with_reducible apply ok_needNumber
    | with_reducible apply ok_finishTime
    | with_reducible apply ok_finishSpace
    | with_reducible apply ok_finishSpec
    | with_reducible apply ok_finishRed
    | with_reducible apply ok_axisLoop
    | with_reducible apply ok_numberRun
    | with_reducible apply ok_errorLoop
    | with_reducible apply ok_polygonRest
    | with_reducible apply ok_stepTimeIdentifier
    | with_reducible apply ok_stepSpaceIdentifier
    | with_reducible apply ok_stepVelocityIdentifier
    | with_reducible apply ok_stepSpectralIdentifier
    | with_reducible apply ok_stepRedshiftIdentifier
    | with_reducible apply ok_stepFillFactor
    | with_reducible apply ok_stepFrame
    | with_reducible apply ok_stepRefPosTime
    | with_reducible apply ok_stepRefPosSpace
    | with_reducible apply ok_stepRefPosSpec
    | with_reducible apply ok_stepRefPos
    | with_reducible apply ok_readTime
    | with_reducible apply ok_stepStart
    | with_reducible apply ok_stepStop
    | split

theorem ok_stepTime {env : Env} {s : State} {w : String} (h : WarnOK s.warnings) :
    WarnOK (stepTime env s w).warnings := by
  unfold stepTime
  repeat' first
    | with_reducible exact h
    | with_reducible apply ok_ite
    | with_reducible apply ok_warn1
    | with_reducible apply ok_warn2
    | with_reducible apply ok_nextWord
    | with_reducible apply ok_raise
    | with_reducible apply ok_crash
    | with_reducible apply ok_mapPut
    | with_reducible apply ok_append
    | with_reducible apply ok_chop
    | with_reducible apply ok_mapPutProp
    | with_reducible apply ok_setTimeScale
    | with_reducible apply ok_setSpaceFrm
    | with_reducible apply ok_setRedFrm
    | with_reducible apply ok_setSpecFrm
    | with_reducible apply ok_needNumber
    | with_reducible apply ok_finishTime
    | with_reducible apply ok_finishSpace
    | with_reducible apply ok_finishSpec
    | with_reducible apply ok_finishRed
    | with_reducible apply ok_axisLoop
    | with_reducible apply ok_numberRun
    | with_reducible apply ok_errorLoop
    | with_reducible apply ok_polygonRest
    | with_reducible apply ok_stepTimeIdentifier
    | with_reducible apply ok_stepSpaceIdentifier
    | with_reducible apply ok_stepVelocityIdentifier
    | with_reducible apply ok_stepSpectralIdentifier
    | with_reducible apply ok_stepRedshiftIdentifier
    | with_reducible apply ok_stepFillFactor
    | with_reducible apply ok_stepFrame
    | with_reducible apply ok_stepRefPosTime
    | with_reducible apply ok_stepRefPosSpace
    | with_reducible apply ok_stepRefPosSpec
    | with_reducible apply ok_stepRefPos
    | with_reducible apply ok_readTime
    | with_reducible apply ok_stepStart
    | with_reducible apply ok_stepStop
    | with_reducible apply ok_stepTimeLabel
    | split

theorem ok_flavourFrame {s : State} {w : String} (h : WarnOK s.warnings) :
    WarnOK (flavourFrame s w).warnings := by
  unfold flavourFrame
  repeat' first
    | with_reducible exact h
    | with_reducible apply ok_ite
    | with_reducible apply ok_warn1
    | with_reducible apply ok_warn2
    | with_reducible apply ok_nextWord
    | with_reducible apply ok_raise
    | with_reducible apply ok_crash
    | with_reducible apply ok_mapPut
    | with_reducible apply ok_append
    | with_reducible apply ok_chop
    | with_reducible apply ok_mapPutProp
    | with_reducible apply ok_setTimeScale
    | with_reducible apply ok_setSpaceFrm
    | with_reducible apply ok_setRedFrm
    | with_reducible apply ok_setSpecFrm
    | with_reducible apply ok_needNumber
    | with_reducible apply ok_finishTime
    | with_reducible apply ok_finishSpace
    | with_reducible apply ok_finishSpec
    | with_reducible apply ok_finishRed
    | with_reducible apply ok_axisLoop
    | with_reducible apply ok_numberRun
    | with_reducible apply ok_errorLoop
    | with_reducible apply ok_polygonRest
    | with_reducible apply ok_stepTimeIdentifier
    | with_reducible apply ok_stepSpaceIdentifier
    | with_reducible apply ok_stepVelocityIdentifier
    | with_reducible apply ok_stepSpectralIdentifier
    | with_reducible apply ok_stepRedshiftIdentifier
    | with_reducible apply ok_stepFillFactor
    | with_reducible apply ok_stepFrame
    | with_reducible apply ok_stepRefPosTime
    | with_reducible apply ok_stepRefPosSpace
    | with_reducible apply ok_stepRefPosSpec
    | with_reducible apply ok_stepRefPos
    | with_reducible apply ok_readTime
    | with_reducible apply ok_stepStart
    | with_reducible apply ok_stepStop
    | with_reducible apply ok_stepTimeLabel
    | with_reducible apply ok_stepTime
    | split

theorem ok_flavourCheck {s : State} (h : WarnOK s.warnings) :
    WarnOK (flavourCheck s).warnings := by
  unfold flavourCheck
  repeat' first
    | with_reducible exact h
    | with_reducible apply ok_ite
    | with_reducible apply ok_warn1
    | with_reducible apply ok_warn2
    | with_reducible apply ok_nextWord
    | with_reducible apply ok_raise
    | with_reducible apply ok_crash
    | with_reducible apply ok_mapPut
    | with_reducible apply ok_append
    | with_reducible apply ok_chop
    | with_reducible apply ok_mapPutProp
    | with_reducible apply ok_setTimeScale
    | with_reducible apply ok_setSpaceFrm
    | with_reducible apply ok_setRedFrm
    | with_reducible apply ok_setSpecFrm
    | with_reducible apply ok_needNumber
    | with_reducible apply ok_finishTime
    | with_reducible apply ok_finishSpace
    | with_reducible apply ok_finishSpec
    | with_reducible apply ok_finishRed
    | with_reducible apply ok_axisLoop
    | with_reducible apply ok_numberRun
    | with_reducible apply ok_errorLoop
    | with_reducible apply ok_polygonRest
    | with_reducible apply ok_stepTimeIdentifier
    | with_reducible apply ok_stepSpaceIdentifier
    | with_reducible apply ok_stepVelocityIdentifier
    | with_reducible apply ok_stepSpectralIdentifier
    | with_reducible apply ok_stepRedshiftIdentifier
    | with_reducible apply ok_stepFillFactor
    | with_reducible apply ok_stepFrame
    | with_reducible apply ok_stepRefPosTime
    | with_reducible apply ok_stepRefPosSpace
    | with_reducible apply ok_stepRefPosSpec
    | with_reducible apply ok_stepRefPos
    | with_reducible apply ok_readTime
    | with_reducible apply ok_stepStart
    | with_reducible apply ok_stepStop
    | with_reducible apply ok_stepTimeLabel
    | with_reducible apply ok_stepTime
    | with_reducible apply ok_flavourFrame
    | split

theorem ok_flavourSystem {s : State} (h : WarnOK s.warnings) :
    WarnOK (flavourSystem s).warnings := by
  unfold flavourSystem
  repeat' first
    | with_reducible exact h
    | with_reducible apply ok_ite
    | with_reducible apply ok_warn1
    | with_reducible apply ok_warn2
    | with_reducible apply ok_nextWord
    | with_reducible apply ok_raise
    | with_reducible apply ok_crash
    | with_reducible apply ok_mapPut
    | with_reducible apply ok_append
    | with_reducible apply ok_chop
    | with_reducible apply ok_mapPutProp
    | with_reducible apply ok_setTimeScale
    | with_reducible apply ok_setSpaceFrm
    | with_reducible apply ok_setRedFrm
    | with_reducible apply ok_setSpecFrm
    | with_reducible apply ok_needNumber
    | with_reducible apply ok_finishTime
    | with_reducible apply ok_finishSpace
    | with_reducible apply ok_finishSpec
    | with_reducible apply ok_finishRed
    | with_reducible apply ok_axisLoop
    | with_reducible apply ok_numberRun
    | with_reducible apply ok_errorLoop
    | with_reducible apply ok_polygonRest
    | with_reducible apply ok_stepTimeIdentifier
    | with_reducible apply ok_stepSpaceIdentifier
    | with_reducible apply ok_stepVelocityIdentifier
    | with_reducible apply ok_stepSpectralIdentifier
    | with_reducible apply ok_stepRedshiftIdentifier
    | with_reducible apply ok_stepFillFactor
    | with_reducible apply ok_stepFrame
    | with_reducible apply ok_stepRefPosTime
    | with_reducible apply ok_stepRefPosSpace
    | with_reducible apply ok_stepRefPosSpec
    | with_reducible apply ok_stepRefPos
    | with_reducible apply ok_readTime
    | with_reducible apply ok_stepStart
    | with_reducible apply ok_stepStop
    | with_reducible apply ok_stepTimeLabel
    | with_reducible apply ok_stepTime
    | with_reducible apply ok_flavourFrame
    | with_reducible apply ok_flavourCheck
    | split

theorem ok_flavourDomain {s : State} (h : WarnOK s.warnings) :
    WarnOK (flavourDomain s).warnings := by
  unfold flavourDomain
  repeat' first
    | with_reducible exact h
    | with_reducible apply ok_ite
    | with_reducible apply ok_warn1
    | with_reducible apply ok_warn2
    | with_reducible apply ok_nextWord
    | with_reducible apply ok_raise
    | with_reducible apply ok_crash
    | with_reducible apply ok_mapPut
    | with_reducible apply ok_append
    | with_reducible apply ok_chop
    | with_reducible apply ok_mapPutProp
    | with_reducible apply ok_setTimeScale
    | with_reducible apply ok_setSpaceFrm
    | with_reducible apply ok_setRedFrm
    | with_reducible apply ok_setSpecFrm
    | with_reducible apply ok_needNumber
    | with_reducible apply ok_finishTime
    | with_reducible apply ok_finishSpace
    | with_reducible apply ok_finishSpec
    | with_reducible apply ok_finishRed
    | with_reducible apply ok_axisLoop
    | with_reducible apply ok_numberRun
    | with_reducible apply ok_errorLoop
    | with_reducible apply ok_polygonRest
    | with_reducible apply ok_stepTimeIdentifier
    | with_reducible apply ok_stepSpaceIdentifier
    | with_reducible apply ok_stepVelocityIdentifier
    | with_reducible apply ok_stepSpectralIdentifier
    | with_reducible apply ok_stepRedshiftIdentifier
    | with_reducible apply ok_stepFillFactor
    | with_reducible apply ok_stepFrame
    | with_reducible apply ok_stepRefPosTime
    | with_reducible apply ok_stepRefPosSpace
    | with_reducible apply ok_stepRefPosSpec
    | with_reducible apply ok_stepRefPos
    | with_reducible apply ok_readTime
    | with_reducible apply ok_stepStart
    | with_reducible apply ok_stepStop
    | with_reducible apply ok_stepTimeLabel
    | with_reducible apply ok_stepTime
    | with_reducible apply ok_flavourFrame
    | with_reducible apply ok_flavourCheck
    | with_reducible apply ok_flavourSystem
    | split

theorem ok_flavourNext {s : State} (h : WarnOK s.warnings) :
    WarnOK (flavourNext s).warnings := by
  unfold flavourNext
  repeat' first
    | with_reducible exact h
    | with_reducible apply ok_ite
    | with_reducible apply ok_warn1
    | with_reducible apply ok_warn2
    | with_reducible apply ok_nextWord
    | with_reducible apply ok_raise
    | with_reducible apply ok_crash
    | with_reducible apply ok_mapPut
    | with_reducible apply ok_append
    | with_reducible apply ok_chop
    | with_reducible apply ok_mapPutProp
    | with_reducible apply ok_setTimeScale
    | with_reducible apply ok_setSpaceFrm
    | with_reducible apply ok_setRedFrm
    | with_reducible apply ok_setSpecFrm
    | with_reducible apply ok_needNumber
    | with_reducible apply ok_finishTime
    | with_reducible apply ok_finishSpace
    | with_reducible apply ok_finishSpec
    | with_reducible apply ok_finishRed
    | with_reducible apply ok_axisLoop
    | with_reducible apply ok_numberRun
    | with_reducible apply ok_errorLoop
    | with_reducible apply ok_polygonRest
    | with_reducible apply ok_stepTimeIdentifier
    | with_reducible apply ok_stepSpaceIdentifier
    | with_reducible apply ok_stepVelocityIdentifier
    | with_reducible apply ok_stepSpectralIdentifier
    | with_reducible apply ok_stepRedshiftIdentifier
    | with_reducible apply ok_stepFillFactor
    | with_reducible apply ok_stepFrame
    | with_reducible apply ok_stepRefPosTime
    | with_reducible apply ok_stepRefPosSpace
    | with_reducible apply ok_stepRefPosSpec
    | with_reducible apply ok_stepRefPos
    | with_reducible apply ok_readTime
    | with_reducible apply ok_stepStart
    | with_reducible apply ok_stepStop
    | with_reducible apply ok_stepTimeLabel
    | with_reducible apply ok_stepTime
    | with_reducible apply ok_flavourFrame
    | with_reducible apply ok_flavourCheck
    | with_reducible apply ok_flavourSystem
    | with_reducible apply ok_flavourDomain
    | split

theorem ok_stepFlavour {s : State} {w : String} (h : WarnOK s.warnings) :
    WarnOK (stepFlavour s w).warnings := by
  unfold stepFlavour
  repeat' first
    | with_reducible exact h
    | with_reducible apply ok_ite
    | with_reducible apply ok_warn1
    | with_reducible apply ok_warn2
    | with_reducible apply ok_nextWord
    | with_reducible apply ok_raise
    | with_reducible apply ok_crash
    | with_reducible apply ok_mapPut
    | with_reducible apply ok_append
    | with_reducible apply ok_chop
    | with_reducible apply ok_mapPutProp
    | with_reducible apply ok_setTimeScale
    | with_reducible apply ok_setSpaceFrm
    | with_reducible apply ok_setRedFrm
    | with_reducible apply ok_setSpecFrm
    | with_reducible apply ok_needNumber
    | with_reducible apply ok_finishTime
    | with_reducible apply ok_finishSpace
    | with_reducible apply ok_finishSpec
    | with_reducible apply ok_finishRed
    | with_reducible apply ok_axisLoop
    | with_reducible apply ok_numberRun
    | with_reducible apply ok_errorLoop
    | with_reducible apply ok_polygonRest
    | with_reducible apply ok_stepTimeIdentifier
    | with_reducible apply ok_stepSpaceIdentifier
    | with_reducible apply ok_stepVelocityIdentifier
    | with_reducible apply ok_stepSpectralIdentifier
    | with_reducible apply ok_stepRedshiftIdentifier
    | with_reducible apply ok_stepFillFactor
    | with_reducible apply ok_stepFrame
    | with_reducible apply ok_stepRefPosTime
    | with_reducible apply ok_stepRefPosSpace
    | with_reducible apply ok_stepRefPosSpec
    | with_reducible apply ok_stepRefPos
    | with_reducible apply ok_readTime
    | with_reducible apply ok_stepStart
    | with_reducible apply ok_stepStop
    | with_reducible apply ok_stepTimeLabel
    | with_reducible apply ok_stepTime
    | with_reducible apply ok_flavourFrame
    | with_reducible apply ok_flavourCheck
    | with_reducible apply ok_flavourSystem
    | with_reducible apply ok_flavourDomain
    | with_reducible apply ok_flavourNext
    | split

theorem ok_limitsLow {env : Env} {s : State} (h : WarnOK s.warnings) :
    WarnOK (limitsLow env s).warnings := by
  unfold limitsLow
  repeat' first
    | with_reducible exact h
    | with_reducible apply ok_ite
    | with_reducible apply ok_warn1
    | with_reducible apply ok_warn2
    | with_reducible apply ok_nextWord
    | with_reducible apply ok_raise
    | with_reducible apply ok_crash
    | with_reducible apply ok_mapPut
    | with_reducible apply ok_append
    | with_reducible apply ok_chop
    | with_reducible apply ok_mapPutProp
    | with_reducible apply ok_setTimeScale
    | with_reducible apply ok_setSpaceFrm
    | with_reducible apply ok_setRedFrm
    | with_reducible apply ok_setSpecFrm
    | with_reducible apply ok_needNumber
    | with_reducible apply ok_finishTime
    | with_reducible apply ok_finishSpace
    | with_reducible apply ok_finishSpec
    | with_reducible apply ok_finishRed
    | with_reducible apply ok_axisLoop
    | with_reducible apply ok_numberRun
    | with_reducible apply ok_errorLoop
    | with_reducible apply ok_polygonRest
    | with_reducible apply ok_stepTimeIdentifier
    | with_reducible apply ok_stepSpaceIdentifier
    | with_reducible apply ok_stepVelocityIdentifier
    | with_reducible apply ok_stepSpectralIdentifier
    | with_reducible apply ok_stepRedshiftIdentifier
    | with_reducible apply ok_stepFillFactor
    | with_reducible apply ok_stepFrame
    | with_reducible apply ok_stepRefPosTime
    | with_reducible apply ok_stepRefPosSpace
    | with_reducible apply ok_stepRefPosSpec
    | with_reducible apply ok_stepRefPos
    | with_reducible apply ok_readTime
    | with_reducible apply ok_stepStart
    | with_reducible apply ok_stepStop
    | with_reducible apply ok_stepTimeLabel
    | with_reducible apply ok_stepTime
    | with_reducible apply ok_flavourFrame
    | with_reducible apply ok_flavourCheck
    | with_reducible apply ok_flavourSystem
    | with_reducible apply ok_flavourDomain
    | with_reducible apply ok_flavourNext
    | with_reducible apply ok_stepFlavour
    | split

theorem ok_limitsHigh {env : Env} {s : State} (h : WarnOK s.warnings) :
    WarnOK (limitsHigh env s).warnings := by
  unfold limitsHigh
  repeat' first
    | with_reducible exact h
    | with_reducible apply ok_ite
    | with_reducible apply ok_warn1
    | with_reducible apply ok_warn2
    | with_reducible apply ok_nextWord
    | with_reducible apply ok_raise
    | with_reducible apply ok_crash
    | with_reducible apply ok_mapPut
    | with_reducible apply ok_append
    | with_reducible apply ok_chop
    | with_reducible apply ok_mapPutProp
    | with_reducible apply ok_setTimeScale
    | with_reducible apply ok_setSpaceFrm
    | with_reducible apply ok_setRedFrm
    | with_reducible apply ok_setSpecFrm
    | with_reducible apply ok_needNumber
    | with_reducible apply ok_finishTime
    | with_reducible apply ok_finishSpace
    | with_reducible apply ok_finishSpec
    | with_reducible apply ok_finishRed
    | with_reducible apply ok_axisLoop
    | with_reducible apply ok_numberRun
    | with_reducible apply ok_errorLoop
    | with_reducible apply ok_polygonRest
    | with_reducible apply ok_stepTimeIdentifier
    | with_reducible apply ok_stepSpaceIdentifier
    | with_reducible apply ok_stepVelocityIdentifier
    | with_reducible apply ok_stepSpectralIdentifier
    | with_reducible apply ok_stepRedshiftIdentifier
    | with_reducible apply ok_stepFillFactor
    | with_reducible apply ok_stepFrame
    | with_reducible apply ok_stepRefPosTime
    | with_reducible apply ok_stepRefPosSpace
    | with_reducible apply ok_stepRefPosSpec
    | with_reducible apply ok_stepRefPos
    | with_reducible apply ok_readTime
    | with_reducible apply ok_stepStart
    | with_reducible apply ok_stepStop
    | with_reducible apply ok_stepTimeLabel
    | with_reducible apply ok_stepTime
    | with_reducible apply ok_flavourFrame
    | with_reducible apply ok_flavourCheck
    | with_reducible apply ok_flavourSystem
    | with_reducible apply ok_flavourDomain
    | with_reducible apply ok_flavourNext
    | with_reducible apply ok_stepFlavour
    | with_reducible apply ok_limitsLow
    | split

theorem ok_stepLimits {env : Env} {s : State} {w : String} (h : WarnOK s.warnings) :
    WarnOK (stepLimits env s w).warnings := by
  unfold stepLimits
  repeat' first
    | with_reducible exact h
    | with_reducible apply ok_ite
    | with_reducible apply ok_warn1
    | with_reducible apply ok_warn2
    | with_reducible apply ok_nextWord
    | with_reducible apply ok_raise
    | with_reducible apply ok_crash
    | with_reducible apply ok_mapPut
    | with_reducible apply ok_append
    | with_reducible apply ok_chop
    | with_reducible apply ok_mapPutProp
    | with_reducible apply ok_setTimeScale
    | with_reducible apply ok_setSpaceFrm
    | with_reducible apply ok_setRedFrm
    | with_reducible apply ok_setSpecFrm
    | with_reducible apply ok_needNumber
    | with_reducible apply ok_finishTime
    | with_reducible apply ok_finishSpace
    | with_reducible apply ok_finishSpec
    | with_reducible apply ok_finishRed
    | with_reducible apply ok_axisLoop
    | with_reducible apply ok_numberRun
    | with_reducible apply ok_errorLoop
    | with_reducible apply ok_polygonRest
    | with_reducible apply ok_stepTimeIdentifier
    | with_reducible apply ok_stepSpaceIdentifier
    | with_reducible apply ok_stepVelocityIdentifier
    | with_reducible apply ok_stepSpectralIdentifier
    | with_reducible apply ok_stepRedshiftIdentifier
    | with_reducible apply ok_stepFillFactor
    | with_reducible apply ok_stepFrame
    | with_reducible apply ok_stepRefPosTime
    | with_reducible apply ok_stepRefPosSpace
    | with_reducible apply ok_stepRefPosSpec
    | with_reducible apply ok_stepRefPos
    | with_reducible apply ok_readTime
    | with_reducible apply ok_stepStart
    | with_reducible apply ok_stepStop
    | with_reducible apply ok_stepTimeLabel
    | with_reducible apply ok_stepTime
    | with_reducible apply ok_flavourFrame
    | with_reducible apply ok_flavourCheck
    | with_reducible apply ok_flavourSystem
    | with_reducible apply ok_flavourDomain
    | with_reducible apply ok_flavourNext
    | with_reducible apply ok_stepFlavour
    | with_reducible apply ok_limitsLow
    | with_reducible apply ok_limitsHigh
    | split

theorem ok_stepRedSpecLabel {s : State} {w : String} (h : WarnOK s.warnings) :
    WarnOK (stepRedSpecLabel s w).warnings := by
  unfold stepRedSpecLabel
  repeat' first
    | with_reducible exact h
    | with_reducible apply ok_ite
    | with_reducible apply ok_warn1
    | with_reducible apply ok_warn2
    | with_reducible apply ok_nextWord
    | with_reducible apply ok_raise
    | with_reducible apply ok_crash
    | with_reducible apply ok_mapPut
    | with_reducible apply ok_append
    | with_reducible apply ok_chop
    | with_reducible apply ok_mapPutProp
    | with_reducible apply ok_setTimeScale
    | with_reducible apply ok_setSpaceFrm
    | with_reducible apply ok_setRedFrm
    | with_reducible apply ok_setSpecFrm
    | with_reducible apply ok_needNumber
    | with_reducible apply ok_finishTime
    | with_reducible apply ok_finishSpace
    | with_reducible apply ok_finishSpec
    | with_reducible apply ok_finishRed
    | with_reducible apply ok_axisLoop
    | with_reducible apply ok_numberRun
    | with_reducible apply ok_errorLoop
    | with_reducible apply ok_polygonRest
    | with_reducible apply ok_stepTimeIdentifier
    | with_reducible apply ok_stepSpaceIdentifier
    | with_reducible apply ok_stepVelocityIdentifier
    | with_reducible apply ok_stepSpectralIdentifier
    | with_reducible apply ok_stepRedshiftIdentifier
    | with_reducible apply ok_stepFillFactor
    | with_reducible apply ok_stepFrame
    | with_reducible apply ok_stepRefPosTime
    | with_reducible apply ok_stepRefPosSpace
    | with_reducible apply ok_stepRefPosSpec
    | with_reducible apply ok_stepRefPos
    | with_reducible apply ok_readTime
    | with_reducible apply ok_stepStart
    | with_reducible apply ok_stepStop
    | with_reducible apply ok_stepTimeLabel
    | with_reducible apply ok_stepTime
    | with_reducible apply ok_flavourFrame
    | with_reducible apply ok_flavourCheck
    | with_reducible apply ok_flavourSystem
    | with_reducible apply ok_flavourDomain
    | with_reducible apply ok_flavourNext
    | with_reducible apply ok_stepFlavour
    | with_reducible apply ok_limitsLow
    | with_reducible apply ok_limitsHigh
    | with_reducible apply ok_stepLimits
    | split

theorem ok_stepRedSpecValue {env : Env} {s : State} {w : String} (h : WarnOK s.warnings) :
    WarnOK (stepRedSpecValue env s w).warnings := by
  unfold stepRedSpecValue
  repeat' first
    | with_reducible exact h
    | with_reducible apply ok_ite
    | with_reducible apply ok_warn1
    | with_reducible apply ok_warn2
    | with_reducible apply ok_nextWord
    | with_reducible apply ok_raise
    | with_reducible apply ok_crash
    | with_reducible apply ok_mapPut
    | with_reducible apply ok_append
    | with_reducible apply ok_chop
    | with_reducible apply ok_mapPutProp
    | with_reducible apply ok_setTimeScale
    | with_reducible apply ok_setSpaceFrm
    | with_reducible apply ok_setRedFrm
    | with_reducible apply ok_setSpecFrm
    | with_reducible apply ok_needNumber
    | with_reducible apply ok_finishTime
    | with_reducible apply ok_finishSpace
    | with_reducible apply ok_finishSpec
    | with_reducible apply ok_finishRed
    | with_reducible apply ok_axisLoop
    | with_reducible apply ok_numberRun
    | with_reducible apply ok_errorLoop
    | with_reducible apply ok_polygonRest
    | with_reducible apply ok_stepTimeIdentifier
    | with_reducible apply ok_stepSpaceIdentifier
    | with_reducible apply ok_stepVelocityIdentifier
    | with_reducible apply ok_stepSpectralIdentifier
    | with_reducible apply ok_stepRedshiftIdentifier
    | with_reducible apply ok_stepFillFactor
    | with_reducible apply ok_stepFrame
    | with_reducible apply ok_stepRefPosTime
    | with_reducible apply ok_stepRefPosSpace
    | with_reducible apply ok_stepRefPosSpec
    | with_reducible apply ok_stepRefPos
    | with_reducible apply ok_readTime
    | with_reducible apply ok_stepStart
    | with_reducible apply ok_stepStop
    | with_reducible apply ok_stepTimeLabel
    | with_reducible apply ok_stepTime
    | with_reducible apply ok_flavourFrame
    | with_reducible apply ok_flavourCheck
    | with_reducible apply ok_flavourSystem
    | with_reducible apply ok_flavourDomain
    | with_reducible apply ok_flavourNext
    | with_reducible apply ok_stepFlavour
    | with_reducible apply ok_limitsLow
    | with_reducible apply ok_limitsHigh
    | with_reducible apply ok_stepLimits
    | with_reducible apply ok_stepRedSpecLabel
    | split

theorem ok_stepPositionInterval {env : Env} {s : State} {w : String} (h : WarnOK s.warnings) :
    WarnOK (stepPositionInterval env s w).warnings := by
  unfold stepPositionInterval
  repeat' first
    | with_reducible exact h
    | with_reducible apply ok_ite
    | with_reducible apply ok_warn1
    | with_reducible apply ok_warn2
    | with_reducible apply ok_nextWord
    | with_reducible apply ok_raise
    | with_reducible apply ok_crash
    | with_reducible apply ok_mapPut
    | with_reducible apply ok_append
    | with_reducible apply ok_chop
    | with_reducible apply ok_mapPutProp
    | with_reducible apply ok_setTimeScale
    | with_reducible apply ok_setSpaceFrm
    | with_reducible apply ok_setRedFrm
    | with_reducible apply ok_setSpecFrm
    | with_reducible apply ok_needNumber
    | with_reducible apply ok_finishTime
    | with_reducible apply ok_finishSpace
    | with_reducible apply ok_finishSpec
    | with_reducible apply ok_finishRed
    | with_reducible apply ok_axisLoop
    | with_reducible apply ok_numberRun
    | with_reducible apply ok_errorLoop
    | with_reducible apply ok_polygonRest
    | with_reducible apply ok_stepTimeIdentifier
    | with_reducible apply ok_stepSpaceIdentifier
    | with_reducible apply ok_stepVelocityIdentifier
    | with_reducible apply ok_stepSpectralIdentifier
    | with_reducible apply ok_stepRedshiftIdentifier
    | with_reducible apply ok_stepFillFactor
    | with_reducible apply ok_stepFrame
    | with_reducible apply ok_stepRefPosTime
    | with_reducible apply ok_stepRefPosSpace
    | with_reducible apply ok_stepRefPosSpec
    | with_reducible apply ok_stepRefPos
    | with_reducible apply ok_readTime
    | with_reducible apply ok_stepStart
    | with_reducible apply ok_stepStop
    | with_reducible apply ok_stepTimeLabel
    | with_reducible apply ok_stepTime
    | with_reducible apply ok_flavourFrame
    | with_reducible apply ok_flavourCheck
    | with_reducible apply ok_flavourSystem
    | with_reducible apply ok_flavourDomain
    | with_reducible apply ok_flavourNext
    | with_reducible apply ok_stepFlavour
    | with_reducible apply ok_limitsLow
    | with_reducible apply ok_limitsHigh
    | with_reducible apply ok_stepLimits
    | with_reducible apply ok_stepRedSpecLabel
    | with_reducible apply ok_stepRedSpecValue
    | split

theorem ok_stepAllSky {s : State} {w : String} (h : WarnOK s.warnings) :
    WarnOK (stepAllSky s w).warnings := by
  unfold stepAllSky
  repeat' first
    | with_reducible exact h
    | with_reducible apply ok_ite
    | with_reducible apply ok_warn1
    | with_reducible apply ok_warn2
    | with_reducible apply ok_nextWord
    | with_reducible apply ok_raise
    | with_reducible apply ok_crash
    | with_reducible apply ok_mapPut
    | with_reducible apply ok_append
    | with_reducible apply ok_chop
    | with_reducible apply ok_mapPutProp
    | with_reducible apply ok_setTimeScale
    | with_reducible apply ok_setSpaceFrm
    | with_reducible apply ok_setRedFrm
    | with_reducible apply ok_setSpecFrm
    | with_reducible apply ok_needNumber
    | with_reducible apply ok_finishTime
    | with_reducible apply ok_finishSpace
    | with_reducible apply ok_finishSpec
    | with_reducible apply ok_finishRed
    | with_reducible apply ok_axisLoop
    | with_reducible apply ok_numberRun
    | with_reducible apply ok_errorLoop
    | with_reducible apply ok_polygonRest
    | with_reducible apply ok_stepTimeIdentifier
    | with_reducible apply ok_stepSpaceIdentifier
    | with_reducible apply ok_stepVelocityIdentifier
    | with_reducible apply ok_stepSpectralIdentifier
    | with_reducible apply ok_stepRedshiftIdentifier
    | with_reducible apply ok_stepFillFactor
    | with_reducible apply ok_stepFrame
    | with_reducible apply ok_stepRefPosTime
    | with_reducible apply ok_stepRefPosSpace
    | with_reducible apply ok_stepRefPosSpec
    | with_reducible apply ok_stepRefPos
    | with_reducible apply ok_readTime
    | with_reducible apply ok_stepStart
    | with_reducible apply ok_stepStop
    | with_reducible apply ok_stepTimeLabel
    | with_reducible apply ok_stepTime
    | with_reducible apply ok_flavourFrame
    | with_reducible apply ok_flavourCheck
    | with_reducible apply ok_flavourSystem
    | with_reducible apply ok_flavourDomain
    | with_reducible apply ok_flavourNext
    | with_reducible apply ok_stepFlavour
    | with_reducible apply ok_limitsLow
    | with_reducible apply ok_limitsHigh
    | with_reducible apply ok_stepLimits
    | with_reducible apply ok_stepRedSpecLabel
    | with_reducible apply ok_stepRedSpecValue
    | with_reducible apply ok_stepPositionInterval
    | split

theorem ok_stepCircle {env : Env} {s : State} {w : String} (h : WarnOK s.warnings) :
    WarnOK (stepCircle env s w).warnings := by
  unfold stepCircle
  repeat' first
    | with_reducible exact h
    | with_reducible apply ok_ite
    | with_reducible apply ok_warn1
    | with_reducible apply ok_warn2
    | with_reducible apply ok_nextWord
    | with_reducible apply ok_raise
    | with_reducible apply ok_crash
    | with_reducible apply ok_mapPut
    | with_reducible apply ok_append
    | with_reducible apply ok_chop
    | with_reducible apply ok_mapPutProp
    | with_reducible apply ok_setTimeScale
    | with_reducible apply ok_setSpaceFrm
    | with_reducible apply ok_setRedFrm
    | with_reducible apply ok_setSpecFrm
    | with_reducible apply ok_needNumber
    | with_reducible apply ok_finishTime
    | with_reducible apply ok_finishSpace
    | with_reducible apply ok_finishSpec
    | with_reducible apply ok_finishRed
    | with_reducible apply ok_axisLoop
    | with_reducible apply ok_numberRun
    | with_reducible apply ok_errorLoop
    | with_reducible apply ok_polygonRest
    | with_reducible apply ok_stepTimeIdentifier
    | with_reducible apply ok_stepSpaceIdentifier
    | with_reducible apply ok_stepVelocityIdentifier
    | with_reducible apply ok_stepSpectralIdentifier
    | with_reducible apply ok_stepRedshiftIdentifier
    | with_reducible apply ok_stepFillFactor
    | with_reducible apply ok_stepFrame
    | with_reducible apply ok_stepRefPosTime
    | with_reducible apply ok_stepRefPosSpace
    | with_reducible apply ok_stepRefPosSpec
    | with_reducible apply ok_stepRefPos
    | with_reducible apply ok_readTime
    | with_reducible apply ok_stepStart
    | with_reducible apply ok_stepStop
    | with_reducible apply ok_stepTimeLabel
    | with_reducible apply ok_stepTime
    | with_reducible apply ok_flavourFrame
    | with_reducible apply ok_flavourCheck
    | with_reducible apply ok_flavourSystem
    | with_reducible apply ok_flavourDomain
    | with_reducible apply ok_flavourNext
    | with_reducible apply ok_stepFlavour
    | with_reducible apply ok_limitsLow
    | with_reducible apply ok_limitsHigh
    | with_reducible apply ok_stepLimits
    | with_reducible apply ok_stepRedSpecLabel
    | with_reducible apply ok_stepRedSpecValue
    | with_reducible apply ok_stepPositionInterval
    | with_reducible apply ok_stepAllSky
    | split

theorem ok_stepEllipse {env : Env} {s : State} {w : String} (h : WarnOK s.warnings) :
    WarnOK (stepEllipse env s w).warnings := by
  unfold stepEllipse
  repeat' first
    | with_reducible exact h
    | with_reducible apply ok_ite
    | with_reducible apply ok_warn1
    | with_reducible apply ok_warn2
    | with_reducible apply ok_nextWord
    | with_reducible apply ok_raise
    | with_reducible apply ok_crash
    | with_reducible apply ok_mapPut
    | with_reducible apply ok_append
    | with_reducible apply ok_chop
    | with_reducible apply ok_mapPutProp
    | with_reducible apply ok_setTimeScale
    | with_reducible apply ok_setSpaceFrm
    | with_reducible apply ok_setRedFrm
    | with_reducible apply ok_setSpecFrm
    | with_reducible apply ok_needNumber
    | with_reducible apply ok_finishTime
    | with_reducible apply ok_finishSpace
    | with_reducible apply ok_finishSpec
    | with_reducible apply ok_finishRed
    | with_reducible apply ok_axisLoop
    | with_reducible apply ok_numberRun
    | with_reducible apply ok_errorLoop
    | with_reducible apply ok_polygonRest
    | with_reducible apply ok_stepTimeIdentifier
    | with_reducible apply ok_stepSpaceIdentifier
    | with_reducible apply ok_stepVelocityIdentifier
    | with_reducible apply ok_stepSpectralIdentifier
    | with_reducible apply ok_stepRedshiftIdentifier
    | with_reducible apply ok_stepFillFactor
    | with_reducible apply ok_stepFrame
    | with_reducible apply ok_stepRefPosTime
    | with_reducible apply ok_stepRefPosSpace
    | with_reducible apply ok_stepRefPosSpec
    | with_reducible apply ok_stepRefPos
    | with_reducible apply ok_readTime
    | with_reducible apply ok_stepStart
    | with_reducible apply ok_stepStop
    | with_reducible apply ok_stepTimeLabel
    | with_reducible apply ok_stepTime
    | with_reducible apply ok_flavourFrame
    | with_reducible apply ok_flavourCheck
    | with_reducible apply ok_flavourSystem
    | with_reducible apply ok_flavourDomain
    | with_reducible apply ok_flavourNext
    | with_reducible apply ok_stepFlavour
    | with_reducible apply ok_limitsLow
    | with_reducible apply ok_limitsHigh
    | with_reducible apply ok_stepLimits
    | with_reducible apply ok_stepRedSpecLabel
    | with_reducible apply ok_stepRedSpecValue
    | with_reducible apply ok_stepPositionInterval
    | with_reducible apply ok_stepAllSky
    | with_reducible apply ok_stepCircle
    | split

theorem ok_stepBox {env : Env} {s : State} {w : String} (h : WarnOK s.warnings) :
    WarnOK (stepBox env s w).warnings := by
  unfold stepBox
  repeat' first
    | with_reducible exact h
    | with_reducible apply ok_ite
    | with_reducible apply ok_warn1
    | with_reducible apply ok_warn2
    | with_reducible apply ok_nextWord
    | with_reducible apply ok_raise
    | with_reducible apply ok_crash
    | with_reducible apply ok_mapPut
    | with_reducible apply ok_append
    | with_reducible apply ok_chop
    | with_reducible apply ok_mapPutProp
    | with_reducible apply ok_setTimeScale
    | with_reducible apply ok_setSpaceFrm
    | with_reducible apply ok_setRedFrm
    | with_reducible apply ok_setSpecFrm
    | with_reducible apply ok_needNumber
    | with_reducible apply ok_finishTime
    | with_reducible apply ok_finishSpace
    | with_reducible apply ok_finishSpec
    | with_reducible apply ok_finishRed
    | with_reducible apply ok_axisLoop
    | with_reducible apply ok_numberRun
    | with_reducible apply ok_errorLoop
    | with_reducible apply ok_polygonRest
    | with_reducible apply ok_stepTimeIdentifier
    | with_reducible apply ok_stepSpaceIdentifier
    | with_reducible apply ok_stepVelocityIdentifier
    | with_reducible apply ok_stepSpectralIdentifier
    | with_reducible apply ok_stepRedshiftIdentifier
    | with_reducible apply ok_stepFillFactor
    | with_reducible apply ok_stepFrame
    | with_reducible apply ok_stepRefPosTime
    | with_reducible apply ok_stepRefPosSpace
    | with_reducible apply ok_stepRefPosSpec
    | with_reducible apply ok_stepRefPos
    | with_reducible apply ok_readTime
    | with_reducible apply ok_stepStart
    | with_reducible apply ok_stepStop
    | with_reducible apply ok_stepTimeLabel
    | with_reducible apply ok_stepTime
    | with_reducible apply ok_flavourFrame
    | with_reducible apply ok_flavourCheck
    | with_reducible apply ok_flavourSystem
    | with_reducible apply ok_flavourDomain
    | with_reducible apply ok_flavourNext
    | with_reducible apply ok_stepFlavour
    | with_reducible apply ok_limitsLow
    | with_reducible apply ok_limitsHigh
    | with_reducible apply ok_stepLimits
    | with_reducible apply ok_stepRedSpecLabel
    | with_reducible apply ok_stepRedSpecValue
    | with_reducible apply ok_stepPositionInterval
    | with_reducible apply ok_stepAllSky
    | with_reducible apply ok_stepCircle
    | with_reducible apply ok_stepEllipse
    | split

theorem ok_stepPolygon {env : Env} {s : State} {w : String} (h : WarnOK s.warnings) :
    WarnOK (stepPolygon env s w).warnings := by
  unfold stepPolygon
  repeat' first
    | with_reducible exact h
    | with_reducible apply ok_ite
    | with_reducible apply ok_warn1
    | with_reducible apply ok_warn2
    | with_reducible apply ok_nextWord
    | with_reducible apply ok_raise
    | with_reducible apply ok_crash
    | with_reducible apply ok_mapPut
    | with_reducible apply ok_append
    | with_reducible apply ok_chop
    | with_reducible apply ok_mapPutProp
    | with_reducible apply ok_setTimeScale
    | with_reducible apply ok_setSpaceFrm
    | with_reducible apply ok_setRedFrm
    | with_reducible apply ok_setSpecFrm
    | with_reducible apply ok_needNumber
    | with_reducible apply ok_finishTime
    | with_reducible apply ok_finishSpace
    | with_reducible apply ok_finishSpec
    | with_reducible apply ok_finishRed
    | with_reducible apply ok_axisLoop
    | with_reducible apply ok_numberRun
    | with_reducible apply ok_errorLoop
    | with_reducible apply ok_polygonRest
    | with_reducible apply ok_stepTimeIdentifier
    | with_reducible apply ok_stepSpaceIdentifier
    | with_reducible apply ok_stepVelocityIdentifier
    | with_reducible apply ok_stepSpectralIdentifier
    | with_reducible apply ok_stepRedshiftIdentifier
    | with_reducible apply ok_stepFillFactor
    | with_reducible apply ok_stepFrame
    | with_reducible apply ok_stepRefPosTime
    | with_reducible apply ok_stepRefPosSpace
    | with_reducible apply ok_stepRefPosSpec
    | with_reducible apply ok_stepRefPos
    | with_reducible apply ok_readTime
    | with_reducible apply ok_stepStart
    | with_reducible apply ok_stepStop
    | with_reducible apply ok_stepTimeLabel
    | with_reducible apply ok_stepTime
    | with_reducible apply ok_flavourFrame
    | with_reducible apply ok_flavourCheck
    | with_reducible apply ok_flavourSystem
    | with_reducible apply ok_flavourDomain
    | with_reducible apply ok_flavourNext
    | with_reducible apply ok_stepFlavour
    | with_reducible apply ok_limitsLow
    | with_reducible apply ok_limitsHigh
    | with_reducible apply ok_stepLimits
    | with_reducible apply ok_stepRedSpecLabel
    | with_reducible apply ok_stepRedSpecValue
    | with_reducible apply ok_stepPositionInterval
    | with_reducible apply ok_stepAllSky
    | with_reducible apply ok_stepCircle
    | with_reducible apply ok_stepEllipse
    | with_reducible apply ok_stepBox
    | split

theorem ok_stepConvex {s : State} {w : String} (h : WarnOK s.warnings) :
    WarnOK (stepConvex s w).warnings := by
  unfold stepConvex
  repeat' first
    | with_reducible exact h
    | with_reducible apply ok_ite
    | with_reducible apply ok_warn1
    | with_reducible apply ok_warn2
    | with_reducible apply ok_nextWord
    | with_reducible apply ok_raise
    | with_reducible apply ok_crash
    | with_reducible apply ok_mapPut
    | with_reducible apply ok_append
    | with_reducible apply ok_chop
    | with_reducible apply ok_mapPutProp
    | with_reducible apply ok_setTimeScale
    | with_reducible apply ok_setSpaceFrm
    | with_reducible apply ok_setRedFrm
    | with_reducible apply ok_setSpecFrm
    | with_reducible apply ok_needNumber
    | with_reducible apply ok_finishTime
    | with_reducible apply ok_finishSpace
    | with_reducible apply ok_finishSpec
    | with_reducible apply ok_finishRed
    | with_reducible apply ok_axisLoop
    | with_reducible apply ok_numberRun
    | with_reducible apply ok_errorLoop
    | with_reducible apply ok_polygonRest
    | with_reducible apply ok_stepTimeIdentifier
    | with_reducible apply ok_stepSpaceIdentifier
    | with_reducible apply ok_stepVelocityIdentifier
    | with_reducible apply ok_stepSpectralIdentifier
    | with_reducible apply ok_stepRedshiftIdentifier
    | with_reducible apply ok_stepFillFactor
    | with_reducible apply ok_stepFrame
    | with_reducible apply ok_stepRefPosTime
    | with_reducible apply ok_stepRefPosSpace
    | with_reducible apply ok_stepRefPosSpec
    | with_reducible apply ok_stepRefPos
    | with_reducible apply ok_readTime
    | with_reducible apply ok_stepStart
    | with_reducible apply ok_stepStop
    | with_reducible apply ok_stepTimeLabel
    | with_reducible apply ok_stepTime
    | with_reducible apply ok_flavourFrame
    | with_reducible apply ok_flavourCheck
    | with_reducible apply ok_flavourSystem
    | with_reducible apply ok_flavourDomain
    | with_reducible apply ok_flavourNext
    | with_reducible apply ok_stepFlavour
    | with_reducible apply ok_limitsLow
    | with_reducible apply ok_limitsHigh
    | with_reducible apply ok_stepLimits
    | with_reducible apply ok_stepRedSpecLabel
    | with_reducible apply ok_stepRedSpecValue
    | with_reducible apply ok_stepPositionInterval
    | with_reducible apply ok_stepAllSky
    | with_reducible apply ok_stepCircle
    | with_reducible apply ok_stepEllipse
    | with_reducible apply ok_stepBox
    | with_reducible apply ok_stepPolygon
    | split

theorem ok_stepPosition {env : Env} {s : State} {w : String} (h : WarnOK s.warnings) :
    WarnOK (stepPosition env s w).warnings := by
  unfold stepPosition
  repeat' first
    | with_reducible exact h
    | with_reducible apply ok_ite
    | with_reducible apply ok_warn1
    | with_reducible apply ok_warn2
    | with_reducible apply ok_nextWord
    | with_reducible apply ok_raise
    | with_reducible apply ok_crash
    | with_reducible apply ok_mapPut
    | with_reducible apply ok_append
    | with_reducible apply ok_chop
    | with_reducible apply ok_mapPutProp
    | with_reducible apply ok_setTimeScale
    | with_reducible apply ok_setSpaceFrm
    | with_reducible apply ok_setRedFrm
    | with_reducible apply ok_setSpecFrm
    | with_reducible apply ok_needNumber
    | with_reducible apply ok_finishTime
    | with_reducible apply ok_finishSpace
    | with_reducible apply ok_finishSpec
    | with_reducible apply ok_finishRed
    | with_reducible apply ok_axisLoop
    | with_reducible apply ok_numberRun
    | with_reducible apply ok_errorLoop
    | with_reducible apply ok_polygonRest
    | with_reducible apply ok_stepTimeIdentifier
    | with_reducible apply ok_stepSpaceIdentifier
    | with_reducible apply ok_stepVelocityIdentifier
    | with_reducible apply ok_stepSpectralIdentifier
    | with_reducible apply ok_stepRedshiftIdentifier
    | with_reducible apply ok_stepFillFactor
    | with_reducible apply ok_stepFrame
    | with_reducible apply ok_stepRefPosTime
    | with_reducible apply ok_stepRefPosSpace
    | with_reducible apply ok_stepRefPosSpec
    | with_reducible apply ok_stepRefPos
    | with_reducible apply ok_readTime
    | with_reducible apply ok_stepStart
    | with_reducible apply ok_stepStop
    | with_reducible apply ok_stepTimeLabel
    | with_reducible apply ok_stepTime
    | with_reducible apply ok_flavourFrame
    | with_reducible apply ok_flavourCheck
    | with_reducible apply ok_flavourSystem
    | with_reducible apply ok_flavourDomain
    | with_reducible apply ok_flavourNext
    | with_reducible apply ok_stepFlavour
    | with_reducible apply ok_limitsLow
    | with_reducible apply ok_limitsHigh
    | with_reducible apply ok_stepLimits
    | with_reducible apply ok_stepRedSpecLabel
    | with_reducible apply ok_stepRedSpecValue
    | with_reducible apply ok_stepPositionInterval
    | with_reducible apply ok_stepAllSky
    | with_reducible apply ok_stepCircle
    | with_reducible apply ok_stepEllipse
    | with_reducible apply ok_stepBox
    | with_reducible apply ok_stepPolygon
    | with_reducible apply ok_stepConvex
    | split

theorem ok_stepPositionLabel {s : State} {w : String} (h : WarnOK s.warnings) :
    WarnOK (stepPositionLabel s w).warnings := by
  unfold stepPositionLabel
  repeat' first
    | with_reducible exact h
    | with_reducible apply ok_ite
    | with_reducible apply ok_warn1
    | with_reducible apply ok_warn2
    | with_reducible apply ok_nextWord
    | with_reducible apply ok_raise
    | with_reducible apply ok_crash
    | with_reducible apply ok_mapPut
    | with_reducible apply ok_append
    | with_reducible apply ok_chop
    | with_reducible apply ok_mapPutProp
    | with_reducible apply ok_setTimeScale
    | with_reducible apply ok_setSpaceFrm
    | with_reducible apply ok_setRedFrm
    | with_reducible apply ok_setSpecFrm
    | with_reducible apply ok_needNumber
    | with_reducible apply ok_finishTime
    | with_reducible apply ok_finishSpace
    | with_reducible apply ok_finishSpec
    | with_reducible apply ok_finishRed
    | with_reducible apply ok_axisLoop
    | with_reducible apply ok_numberRun
    | with_reducible apply ok_errorLoop
    | with_reducible apply ok_polygonRest
    | with_reducible apply ok_stepTimeIdentifier
    | with_reducible apply ok_stepSpaceIdentifier
    | with_reducible apply ok_stepVelocityIdentifier
    | with_reducible apply ok_stepSpectralIdentifier
    | with_reducible apply ok_stepRedshiftIdentifier
    | with_reducible apply ok_stepFillFactor
    | with_reducible apply ok_stepFrame
    | with_reducible apply ok_stepRefPosTime
    | with_reducible apply ok_stepRefPosSpace
    | with_reducible apply ok_stepRefPosSpec
    | with_reducible apply ok_stepRefPos
    | with_reducible apply ok_readTime
    | with_reducible apply ok_stepStart
    | with_reducible apply ok_stepStop
    | with_reducible apply ok_stepTimeLabel
    | with_reducible apply ok_stepTime
    | with_reducible apply ok_flavourFrame
    | with_reducible apply ok_flavourCheck
    | with_reducible apply ok_flavourSystem
    | with_reducible apply ok_flavourDomain
    | with_reducible apply ok_flavourNext
    | with_reducible apply ok_stepFlavour
    | with_reducible apply ok_limitsLow
    | with_reducible apply ok_limitsHigh
    | with_reducible apply ok_stepLimits
    | with_reducible apply ok_stepRedSpecLabel
    | with_reducible apply ok_stepRedSpecValue
    | with_reducible apply ok_stepPositionInterval
    | with_reducible apply ok_stepAllSky
    | with_reducible apply ok_stepCircle
    | with_reducible apply ok_stepEllipse
    | with_reducible apply ok_stepBox
    | with_reducible apply ok_stepPolygon
    | with_reducible apply ok_stepConvex
    | with_reducible apply ok_stepPosition
    | split

theorem ok_dopplerType {s : State} {w : String} (h : WarnOK s.warnings) :
    WarnOK (dopplerType s w).warnings := by
  unfold dopplerType
  repeat' first
    | with_reducible exact h
    | with_reducible apply ok_ite
    | with_reducible apply ok_warn1
    | with_reducible apply ok_warn2
    | with_reducible apply ok_nextWord
    | with_reducible apply ok_raise
    | with_reducible apply ok_crash
    | with_reducible apply ok_mapPut
    | with_reducible apply ok_append
    | with_reducible apply ok_chop
    | with_reducible apply ok_mapPutProp
    | with_reducible apply ok_setTimeScale
    | with_reducible apply ok_setSpaceFrm
    | with_reducible apply ok_setRedFrm
    | with_reducible apply ok_setSpecFrm
    | with_reducible apply ok_needNumber
    | with_reducible apply ok_finishTime
    | with_reducible apply ok_finishSpace
    | with_reducible apply ok_finishSpec
    | with_reducible apply ok_finishRed
    | with_reducible apply ok_axisLoop
    | with_reducible apply ok_numberRun
    | with_reducible apply ok_errorLoop
    | with_reducible apply ok_polygonRest
    | with_reducible apply ok_stepTimeIdentifier
    | with_reducible apply ok_stepSpaceIdentifier
    | with_reducible apply ok_stepVelocityIdentifier
    | with_reducible apply ok_stepSpectralIdentifier
    | with_reducible apply ok_stepRedshiftIdentifier
    | with_reducible apply ok_stepFillFactor
    | with_reducible apply ok_stepFrame
    | with_reducible apply ok_stepRefPosTime
    | with_reducible apply ok_stepRefPosSpace
    | with_reducible apply ok_stepRefPosSpec
    | with_reducible apply ok_stepRefPos
    | with_reducible apply ok_readTime
    | with_reducible apply ok_stepStart
    | with_reducible apply ok_stepStop
    | with_reducible apply ok_stepTimeLabel
    | with_reducible apply ok_stepTime
    | with_reducible apply ok_flavourFrame
    | with_reducible apply ok_flavourCheck
    | with_reducible apply ok_flavourSystem
    | with_reducible apply ok_flavourDomain
    | with_reducible apply ok_flavourNext
    | with_reducible apply ok_stepFlavour
    | with_reducible apply ok_limitsLow
    | with_reducible apply ok_limitsHigh
    | with_reducible apply ok_stepLimits
    | with_reducible apply ok_stepRedSpecLabel
    | with_reducible apply ok_stepRedSpecValue
    | with_reducible apply ok_stepPositionInterval
    | with_reducible apply ok_stepAllSky
    | with_reducible apply ok_stepCircle
    | with_reducible apply ok_stepEllipse
    | with_reducible apply ok_stepBox
    | with_reducible apply ok_stepPolygon
    | with_reducible apply ok_stepConvex
    | with_reducible apply ok_stepPosition
    | with_reducible apply ok_stepPositionLabel
    | split

theorem ok_dopplerDef {s : State} (h : WarnOK s.warnings) :
    WarnOK (dopplerDef s).warnings := by
  unfold dopplerDef
  repeat' first
    | with_reducible exact h
    | with_reducible apply ok_ite
    | with_reducible apply ok_warn1
    | with_reducible apply ok_warn2
    | with_reducible apply ok_nextWord
    | with_reducible apply ok_raise
    | with_reducible apply ok_crash
    | with_reducible apply ok_mapPut
    | with_reducible apply ok_append
    | with_reducible apply ok_chop
    | with_reducible apply ok_mapPutProp
    | with_reducible apply ok_setTimeScale
    | with_reducible apply ok_setSpaceFrm
    | with_reducible apply ok_setRedFrm
    | with_reducible apply ok_setSpecFrm
    | with_reducible apply ok_needNumber
    | with_reducible apply ok_finishTime
    | with_reducible apply ok_finishSpace
    | with_reducible apply ok_finishSpec
    | with_reducible apply ok_finishRed
    | with_reducible apply ok_axisLoop
    | with_reducible apply ok_numberRun
    | with_reducible apply ok_errorLoop
    | with_reducible apply ok_polygonRest
    | with_reducible apply ok_stepTimeIdentifier
    | with_reducible apply ok_stepSpaceIdentifier
    | with_reducible apply ok_stepVelocityIdentifier
    | with_reducible apply ok_stepSpectralIdentifier
    | with_reducible apply ok_stepRedshiftIdentifier
    | with_reducible apply ok_stepFillFactor
    | with_reducible apply ok_stepFrame
    | with_reducible apply ok_stepRefPosTime
    | with_reducible apply ok_stepRefPosSpace
    | with_reducible apply ok_stepRefPosSpec
    | with_reducible apply ok_stepRefPos
    | with_reducible apply ok_readTime
    | with_reducible apply ok_stepStart
    | with_reducible apply ok_stepStop
    | with_reducible apply ok_stepTimeLabel
    | with_reducible apply ok_stepTime
    | with_reducible apply ok_flavourFrame
    | with_reducible apply ok_flavourCheck
    | with_reducible apply ok_flavourSystem
    | with_reducible apply ok_flavourDomain
    | with_reducible apply ok_flavourNext
    | with_reducible apply ok_stepFlavour
    | with_reducible apply ok_limitsLow
    | with_reducible apply ok_limitsHigh
    | with_reducible apply ok_stepLimits
    | with_reducible apply ok_stepRedSpecLabel
    | with_reducible apply ok_stepRedSpecValue
    | with_reducible apply ok_stepPositionInterval
    | with_reducible apply ok_stepAllSky
    | with_reducible apply ok_stepCircle
    | with_reducible apply ok_stepEllipse
    | with_reducible apply ok_stepBox
    | with_reducible apply ok_stepPolygon
    | with_reducible apply ok_stepConvex
    | with_reducible apply ok_stepPosition
    | with_reducible apply ok_stepPositionLabel
    | with_reducible apply ok_dopplerType
    | split

theorem ok_stepTypeDoppler {s : State} {w : String} (h : WarnOK s.warnings) :
    WarnOK (stepTypeDoppler s w).warnings := by
  unfold stepTypeDoppler
  repeat' first
    | with_reducible exact h
    | with_reducible apply ok_ite
    | with_reducible apply ok_warn1
    | with_reducible apply ok_warn2
    | with_reducible apply ok_nextWord
    | with_reducible apply ok_raise
    | with_reducible apply ok_crash
    | with_reducible apply ok_mapPut
    | with_reducible apply ok_append
    | with_reducible apply ok_chop
    | with_reducible apply ok_mapPutProp
    | with_reducible apply ok_setTimeScale
    | with_reducible apply ok_setSpaceFrm
    | with_reducible apply ok_setRedFrm
    | with_reducible apply ok_setSpecFrm
    | with_reducible apply ok_needNumber
    | with_reducible apply ok_finishTime
    | with_reducible apply ok_finishSpace
    | with_reducible apply ok_finishSpec
    | with_reducible apply ok_finishRed
    | with_reducible apply ok_axisLoop
    | with_reducible apply ok_numberRun
    | with_reducible apply ok_errorLoop
    | with_reducible apply ok_polygonRest
    | with_reducible apply ok_stepTimeIdentifier
    | with_reducible apply ok_stepSpaceIdentifier
    | with_reducible apply ok_stepVelocityIdentifier
    | with_reducible apply ok_stepSpectralIdentifier
    | with_reducible apply ok_stepRedshiftIdentifier
    | with_reducible apply ok_stepFillFactor
    | with_reducible apply ok_stepFrame
    | with_reducible apply ok_stepRefPosTime
    | with_reducible apply ok_stepRefPosSpace
    | with_reducible apply ok_stepRefPosSpec
    | with_reducible apply ok_stepRefPos
    | with_reducible apply ok_readTime
    | with_reducible apply ok_stepStart
    | with_reducible apply ok_stepStop
    | with_reducible apply ok_stepTimeLabel
    | with_reducible apply ok_stepTime
    | with_reducible apply ok_flavourFrame
    | with_reducible apply ok_flavourCheck
    | with_reducible apply ok_flavourSystem
    | with_reducible apply ok_flavourDomain
    | with_reducible apply ok_flavourNext
    | with_reducible apply ok_stepFlavour
    | with_reducible apply ok_limitsLow
    | with_reducible apply ok_limitsHigh
    | with_reducible apply ok_stepLimits
    | with_reducible apply ok_stepRedSpecLabel
    | with_reducible apply ok_stepRedSpecValue
    | with_reducible apply ok_stepPositionInterval
    | with_reducible apply ok_stepAllSky
    | with_reducible apply ok_stepCircle
    | with_reducible apply ok_stepEllipse
    | with_reducible apply ok_stepBox
    | with_reducible apply ok_stepPolygon
    | with_reducible apply ok_stepConvex
    | with_reducible apply ok_stepPosition
    | with_reducible apply ok_stepPositionLabel
    | with_reducible apply ok_dopplerType
    | with_reducible apply ok_dopplerDef
    | split

theorem ok_stepVelocityValue {env : Env} {s : State} {w : String} (h : WarnOK s.warnings) :
    WarnOK (stepVelocityValue env s w).warnings := by
  unfold stepVelocityValue
  repeat' first
    | with_reducible exact h
    | with_reducible apply ok_ite
    | with_reducible apply ok_warn1
    | with_reducible apply ok_warn2
    | with_reducible apply ok_nextWord
    | with_reducible apply ok_raise
    | with_reducible apply ok_crash
    | with_reducible apply ok_mapPut
    | with_reducible apply ok_append
    | with_reducible apply ok_chop
    | with_reducible apply ok_mapPutProp
    | with_reducible apply ok_setTimeScale
    | with_reducible apply ok_setSpaceFrm
    | with_reducible apply ok_setRedFrm
    | with_reducible apply ok_setSpecFrm
    | with_reducible apply ok_needNumber
    | with_reducible apply ok_finishTime
    | with_reducible apply ok_finishSpace
    | with_reducible apply ok_finishSpec
    | with_reducible apply ok_finishRed
    | with_reducible apply ok_axisLoop
    | with_reducible apply ok_numberRun
    | with_reducible apply ok_errorLoop
    | with_reducible apply ok_polygonRest
    | with_reducible apply ok_stepTimeIdentifier
    | with_reducible apply ok_stepSpaceIdentifier
    | with_reducible apply ok_stepVelocityIdentifier
    | with_reducible apply ok_stepSpectralIdentifier
    | with_reducible apply ok_stepRedshiftIdentifier
    | with_reducible apply ok_stepFillFactor
    | with_reducible apply ok_stepFrame
    | with_reducible apply ok_stepRefPosTime
    | with_reducible apply ok_stepRefPosSpace
    | with_reducible apply ok_stepRefPosSpec
    | with_reducible apply ok_stepRefPos
    | with_reducible apply ok_readTime
    | with_reducible apply ok_stepStart
    | with_reducible apply ok_stepStop
    | with_reducible apply ok_stepTimeLabel
    | with_reducible apply ok_stepTime
    | with_reducible apply ok_flavourFrame
    | with_reducible apply ok_flavourCheck
    | with_reducible apply ok_flavourSystem
    | with_reducible apply ok_flavourDomain
    | with_reducible apply ok_flavourNext
    | with_reducible apply ok_stepFlavour
    | with_reducible apply ok_limitsLow
    | with_reducible apply ok_limitsHigh
    | with_reducible apply ok_stepLimits
    | with_reducible apply ok_stepRedSpecLabel
    | with_reducible apply ok_stepRedSpecValue
    | with_reducible apply ok_stepPositionInterval
    | with_reducible apply ok_stepAllSky
    | with_reducible apply ok_stepCircle
    | with_reducible apply ok_stepEllipse
    | with_reducible apply ok_stepBox
    | with_reducible apply ok_stepPolygon
    | with_reducible apply ok_stepConvex
    | with_reducible apply ok_stepPosition
    | with_reducible apply ok_stepPositionLabel
    | with_reducible apply ok_dopplerType
    | with_reducible apply ok_dopplerDef
    | with_reducible apply ok_stepTypeDoppler
    | split

theorem ok_errorValues {s : State} {n : Nat} {vals : List ℚ} (h : WarnOK s.warnings) :
    WarnOK (errorValues s n vals).warnings := by
  unfold errorValues
  repeat' first
    | with_reducible exact h
    | with_reducible apply ok_ite
    | with_reducible apply ok_warn1
    | with_reducible apply ok_warn2
    | with_reducible apply ok_nextWord
    | with_reducible apply ok_raise
    | with_reducible apply ok_crash
    | with_reducible apply ok_mapPut
    | with_reducible apply ok_append
    | with_reducible apply ok_chop
    | with_reducible apply ok_mapPutProp
    | with_reducible apply ok_setTimeScale
    | with_reducible apply ok_setSpaceFrm
    | with_reducible apply ok_setRedFrm
    | with_reducible apply ok_setSpecFrm
    | with_reducible apply ok_needNumber
    | with_reducible apply ok_finishTime
    | with_reducible apply ok_finishSpace
    | with_reducible apply ok_finishSpec
    | with_reducible apply ok_finishRed
    | with_reducible apply ok_axisLoop
    | with_reducible apply ok_numberRun
    | with_reducible apply ok_errorLoop
    | with_reducible apply ok_polygonRest
    | with_reducible apply ok_stepTimeIdentifier
    | with_reducible apply ok_stepSpaceIdentifier
    | with_reducible apply ok_stepVelocityIdentifier
    | with_reducible apply ok_stepSpectralIdentifier
    | with_reducible apply ok_stepRedshiftIdentifier
    | with_reducible apply ok_stepFillFactor
    | with_reducible apply ok_stepFrame
    | with_reducible apply ok_stepRefPosTime
    | with_reducible apply ok_stepRefPosSpace
    | with_reducible apply ok_stepRefPosSpec
    | with_reducible apply ok_stepRefPos
    | with_reducible apply ok_readTime
    | with_reducible apply ok_stepStart
    | with_reducible apply ok_stepStop
    | with_reducible apply ok_stepTimeLabel
    | with_reducible apply ok_stepTime
    | with_reducible apply ok_flavourFrame
    | with_reducible apply ok_flavourCheck
    | with_reducible apply ok_flavourSystem
    | with_reducible apply ok_flavourDomain
    | with_reducible apply ok_flavourNext
    | with_reducible apply ok_stepFlavour
    | with_reducible apply ok_limitsLow
    | with_reducible apply ok_limitsHigh
    | with_reducible apply ok_stepLimits
    | with_reducible apply ok_stepRedSpecLabel
    | with_reducible apply ok_stepRedSpecValue
    | with_reducible apply ok_stepPositionInterval
    | with_reducible apply ok_stepAllSky
    | with_reducible apply ok_stepCircle
    | with_reducible apply ok_stepEllipse
    | with_reducible apply ok_stepBox
    | with_reducible apply ok_stepPolygon
    | with_reducible apply ok_stepConvex
    | with_reducible apply ok_stepPosition
    | with_reducible apply ok_stepPositionLabel
    | with_reducible apply ok_dopplerType
    | with_reducible apply ok_dopplerDef
    | with_reducible apply ok_stepTypeDoppler
    | with_reducible apply ok_stepVelocityValue
    | split

theorem ok_errorExtra {env : Env} {s : State} (h : WarnOK s.warnings) :
    WarnOK (errorExtra env s).warnings := by
  unfold errorExtra
  repeat' first
    | with_reducible exact h
    | with_reducible apply ok_ite
    | with_reducible apply ok_warn1
    | with_reducible apply ok_warn2
    | with_reducible apply ok_nextWord
    | with_reducible apply ok_raise
    | with_reducible apply ok_crash
    | with_reducible apply ok_mapPut
    | with_reducible apply ok_append
    | with_reducible apply ok_chop
    | with_reducible apply ok_mapPutProp
    | with_reducible apply ok_setTimeScale
    | with_reducible apply ok_setSpaceFrm
    | with_reducible apply ok_setRedFrm
    | with_reducible apply ok_setSpecFrm
    | with_reducible apply ok_needNumber
    | with_reducible apply ok_finishTime
    | with_reducible apply ok_finishSpace
    | with_reducible apply ok_finishSpec
    | with_reducible apply ok_finishRed
    | with_reducible apply ok_axisLoop
    | with_reducible apply ok_numberRun
    | with_reducible apply ok_errorLoop
    | with_reducible apply ok_polygonRest
    | with_reducible apply ok_stepTimeIdentifier
    | with_reducible apply ok_stepSpaceIdentifier
    | with_reducible apply ok_stepVelocityIdentifier
    | with_reducible apply ok_stepSpectralIdentifier
    | with_reducible apply ok_stepRedshiftIdentifier
    | with_reducible apply ok_stepFillFactor
    | with_reducible apply ok_stepFrame
    | with_reducible apply ok_stepRefPosTime
    | with_reducible apply ok_stepRefPosSpace
    | with_reducible apply ok_stepRefPosSpec
    | with_reducible apply ok_stepRefPos
    | with_reducible apply ok_readTime
    | with_reducible apply ok_stepStart
    | with_reducible apply ok_stepStop
    | with_reducible apply ok_stepTimeLabel
    | with_reducible apply ok_stepTime
    | with_reducible apply ok_flavourFrame
    | with_reducible apply ok_flavourCheck
    | with_reducible apply ok_flavourSystem
    | with_reducible apply ok_flavourDomain
    | with_reducible apply ok_flavourNext
    | with_reducible apply ok_stepFlavour
    | with_reducible apply ok_limitsLow
    | with_reducible apply ok_limitsHigh
    | with_reducible apply ok_stepLimits
    | with_reducible apply ok_stepRedSpecLabel
    | with_reducible apply ok_stepRedSpecValue
    | with_reducible apply ok_stepPositionInterval
    | with_reducible apply ok_stepAllSky
    | with_reducible apply ok_stepCircle
    | with_reducible apply ok_stepEllipse
    | with_reducible apply ok_stepBox
    | with_reducible apply ok_stepPolygon
    | with_reducible apply ok_stepConvex
    | with_reducible apply ok_stepPosition
    | with_reducible apply ok_stepPositionLabel
    | with_reducible apply ok_dopplerType
    | with_reducible apply ok_dopplerDef
    | with_reducible apply ok_stepTypeDoppler
    | with_reducible apply ok_stepVelocityValue
    | with_reducible apply ok_errorValues
    | split

theorem ok_stepError {env : Env} {s : State} {w : String} (h : WarnOK s.warnings) :
    WarnOK (stepError env s w).warnings := by
  unfold stepError
  repeat' first
    | with_reducible exact h
    | with_reducible apply ok_ite
    | with_reducible apply ok_warn1
    | with_reducible apply ok_warn2
    | with_reducible apply ok_nextWord
    | with_reducible apply ok_raise
    | with_reducible apply ok_crash
    | with_reducible apply ok_mapPut
    | with_reducible apply ok_append
    | with_reducible apply ok_chop
    | with_reducible apply ok_mapPutProp
    | with_reducible apply ok_setTimeScale
    | with_reducible apply ok_setSpaceFrm
    | with_reducible apply ok_setRedFrm
    | with_reducible apply ok_setSpecFrm
    | with_reducible apply ok_needNumber
    | with_reducible apply ok_finishTime
    | with_reducible apply ok_finishSpace
    | with_reducible apply ok_finishSpec
    | with_reducible apply ok_finishRed
    | with_reducible apply ok_axisLoop
    | with_reducible apply ok_numberRun
    | with_reducible apply ok_errorLoop
    | with_reducible apply ok_polygonRest
    | with_reducible apply ok_stepTimeIdentifier
    | with_reducible apply ok_stepSpaceIdentifier
    | with_reducible apply ok_stepVelocityIdentifier
    | with_reducible apply ok_stepSpectralIdentifier
    | with_reducible apply ok_stepRedshiftIdentifier
    | with_reducible apply ok_stepFillFactor
    | with_reducible apply ok_stepFrame
    | with_reducible apply ok_stepRefPosTime
    | with_reducible apply ok_stepRefPosSpace
    | with_reducible apply ok_stepRefPosSpec
    | with_reducible apply ok_stepRefPos
    | with_reducible apply ok_readTime
    | with_reducible apply ok_stepStart
    | with_reducible apply ok_stepStop
    | with_reducible apply ok_stepTimeLabel
    | with_reducible apply ok_stepTime
    | with_reducible apply ok_flavourFrame
    | with_reducible apply ok_flavourCheck
    | with_reducible apply ok_flavourSystem
    | with_reducible apply ok_flavourDomain
    | with_reducible apply ok_flavourNext
    | with_reducible apply ok_stepFlavour
    | with_reducible apply ok_limitsLow
    | with_reducible apply ok_limitsHigh
    | with_reducible apply ok_stepLimits
    | with_reducible apply ok_stepRedSpecLabel
    | with_reducible apply ok_stepRedSpecValue
    | with_reducible apply ok_stepPositionInterval
    | with_reducible apply ok_stepAllSky
    | with_reducible apply ok_stepCircle
    | with_reducible apply ok_stepEllipse
    | with_reducible apply ok_stepBox
    | with_reducible apply ok_stepPolygon
    | with_reducible apply ok_stepConvex
    | with_reducible apply ok_stepPosition
    | with_reducible apply ok_stepPositionLabel
    | with_reducible apply ok_dopplerType
    | with_reducible apply ok_dopplerDef
    | with_reducible apply ok_stepTypeDoppler
    | with_reducible apply ok_stepVelocityValue
    | with_reducible apply ok_errorValues
    | with_reducible apply ok_errorExtra
    | split

theorem ok_ignoredValues {env : Env} {s : State} {key text : String} (h : WarnOK s.warnings) :
    WarnOK (ignoredValues env s key text).warnings := by
  unfold ignoredValues
  repeat' first
    | with_reducible exact h
    | with_reducible apply ok_ite
    | with_reducible apply ok_warn1
    | with_reducible apply ok_warn2
    | with_reducible apply ok_nextWord
    | with_reducible apply ok_raise
    | with_reducible apply ok_crash
    | with_reducible apply ok_mapPut
    | with_reducible apply ok_append
    | with_reducible apply ok_chop
    | with_reducible apply ok_mapPutProp
    | with_reducible apply ok_setTimeScale
    | with_reducible apply ok_setSpaceFrm
    | with_reducible apply ok_setRedFrm
    | with_reducible apply ok_setSpecFrm
    | with_reducible apply ok_needNumber
    | with_reducible apply ok_finishTime
    | with_reducible apply ok_finishSpace
    | with_reducible apply ok_finishSpec
    | with_reducible apply ok_finishRed
    | with_reducible apply ok_axisLoop
    | with_reducible apply ok_numberRun
    | with_reducible apply ok_errorLoop
    | with_reducible apply ok_polygonRest
    | with_reducible apply ok_stepTimeIdentifier
    | with_reducible apply ok_stepSpaceIdentifier
    | with_reducible apply ok_stepVelocityIdentifier
    | with_reducible apply ok_stepSpectralIdentifier
    | with_reducible apply ok_stepRedshiftIdentifier
    | with_reducible apply ok_stepFillFactor
    | with_reducible apply ok_stepFrame
    | with_reducible apply ok_stepRefPosTime
    | with_reducible apply ok_stepRefPosSpace
    | with_reducible apply ok_stepRefPosSpec
    | with_reducible apply ok_stepRefPos
    | with_reducible apply ok_readTime
    | with_reducible apply ok_stepStart
    | with_reducible apply ok_stepStop
    | with_reducible apply ok_stepTimeLabel
    | with_reducible apply ok_stepTime
    | with_reducible apply ok_flavourFrame
    | with_reducible apply ok_flavourCheck
    | with_reducible apply ok_flavourSystem
    | with_reducible apply ok_flavourDomain
    | with_reducible apply ok_flavourNext
    | with_reducible apply ok_stepFlavour
    | with_reducible apply ok_limitsLow
    | with_reducible apply ok_limitsHigh
    | with_reducible apply ok_stepLimits
    | with_reducible apply ok_stepRedSpecLabel
    | with_reducible apply ok_stepRedSpecValue
    | with_reducible apply ok_stepPositionInterval
    | with_reducible apply ok_stepAllSky
    | with_reducible apply ok_stepCircle
    | with_reducible apply ok_stepEllipse
    | with_reducible apply ok_stepBox
    | with_reducible apply ok_stepPolygon
    | with_reducible apply ok_stepConvex
    | with_reducible apply ok_stepPosition
    | with_reducible apply ok_stepPositionLabel
    | with_reducible apply ok_dopplerType
    | with_reducible apply ok_dopplerDef
    | with_reducible apply ok_stepTypeDoppler
    | with_reducible apply ok_stepVelocityValue
    | with_reducible apply ok_errorValues
    | with_reducible apply ok_errorExtra
    | with_reducible apply ok_stepError
    | split

theorem ok_stepResolution {env : Env} {s : State} {w : String} (h : WarnOK s.warnings) :
    WarnOK (stepResolution env s w).warnings := by
  unfold stepResolution
  repeat' first
    | with_reducible exact h
    | with_reducible apply ok_ite
    | with_reducible apply ok_warn1
    | with_reducible apply ok_warn2
    | with_reducible apply ok_nextWord
    | with_reducible apply ok_raise
    | with_reducible apply ok_crash
    | with_reducible apply ok_mapPut
    | with_reducible apply ok_append
    | with_reducible apply ok_chop
    | with_reducible apply ok_mapPutProp
    | with_reducible apply ok_setTimeScale
    | with_reducible apply ok_setSpaceFrm
    | with_reducible apply ok_setRedFrm
    | with_reducible apply ok_setSpecFrm
    | with_reducible apply ok_needNumber
    | with_reducible apply ok_finishTime
    | with_reducible apply ok_finishSpace
    | with_reducible apply ok_finishSpec
    | with_reducible apply ok_finishRed
    | with_reducible apply ok_axisLoop
    | with_reducible apply ok_numberRun
    | with_reducible apply ok_errorLoop
    | with_reducible apply ok_polygonRest
    | with_reducible apply ok_stepTimeIdentifier
    | with_reducible apply ok_stepSpaceIdentifier
    | with_reducible apply ok_stepVelocityIdentifier
    | with_reducible apply ok_stepSpectralIdentifier
    | with_reducible apply ok_stepRedshiftIdentifier
    | with_reducible apply ok_stepFillFactor
    | with_reducible apply ok_stepFrame
    | with_reducible apply ok_stepRefPosTime
    | with_reducible apply ok_stepRefPosSpace
    | with_reducible apply ok_stepRefPosSpec
    | with_reducible apply ok_stepRefPos
    | with_reducible apply ok_readTime
    | with_reducible apply ok_stepStart
    | with_reducible apply ok_stepStop
    | with_reducible apply ok_stepTimeLabel
    | with_reducible apply ok_stepTime
    | with_reducible apply ok_flavourFrame
    | with_reducible apply ok_flavourCheck
    | with_reducible apply ok_flavourSystem
    | with_reducible apply ok_flavourDomain
    | with_reducible apply ok_flavourNext
    | with_reducible apply ok_stepFlavour
    | with_reducible apply ok_limitsLow
    | with_reducible apply ok_limitsHigh
    | with_reducible apply ok_stepLimits
    | with_reducible apply ok_stepRedSpecLabel
    | with_reducible apply ok_stepRedSpecValue
    | with_reducible apply ok_stepPositionInterval
    | with_reducible apply ok_stepAllSky
    | with_reducible apply ok_stepCircle
    | with_reducible apply ok_stepEllipse
    | with_reducible apply ok_stepBox
    | with_reducible apply ok_stepPolygon
    | with_reducible apply ok_stepConvex
    | with_reducible apply ok_stepPosition
    | with_reducible apply ok_stepPositionLabel
    | with_reducible apply ok_dopplerType
    | with_reducible apply ok_dopplerDef
    | with_reducible apply ok_stepTypeDoppler
    | with_reducible apply ok_stepVelocityValue
    | with_reducible apply ok_errorValues
    | with_reducible apply ok_errorExtra
    | with_reducible apply ok_stepError
    | with_reducible apply ok_ignoredValues
    | split

theorem ok_stepSize {env : Env} {s : State} {w : String} (h : WarnOK s.warnings) :
    WarnOK (stepSize env s w).warnings := by
  unfold stepSize
  repeat' first
    | with_reducible exact h
    | with_reducible apply ok_ite
    | with_reducible apply ok_warn1
    | with_reducible apply ok_warn2
    | with_reducible apply ok_nextWord
    | with_reducible apply ok_raise
    | with_reducible apply ok_crash
    | with_reducible apply ok_mapPut
    | with_reducible apply ok_append
    | with_reducible apply ok_chop
    | with_reducible apply ok_mapPutProp
    | with_reducible apply ok_setTimeScale
    | with_reducible apply ok_setSpaceFrm
    | with_reducible apply ok_setRedFrm
    | with_reducible apply ok_setSpecFrm
    | with_reducible apply ok_needNumber
    | with_reducible apply ok_finishTime
    | with_reducible apply ok_finishSpace
    | with_reducible apply ok_finishSpec
    | with_reducible apply ok_finishRed
    | with_reducible apply ok_axisLoop
    | with_reducible apply ok_numberRun
    | with_reducible apply ok_errorLoop
    | with_reducible apply ok_polygonRest
    | with_reducible apply ok_stepTimeIdentifier
    | with_reducible apply ok_stepSpaceIdentifier
    | with_reducible apply ok_stepVelocityIdentifier
    | with_reducible apply ok_stepSpectralIdentifier
    | with_reducible apply ok_stepRedshiftIdentifier
    | with_reducible apply ok_stepFillFactor
    | with_reducible apply ok_stepFrame
    | with_reducible apply ok_stepRefPosTime
    | with_reducible apply ok_stepRefPosSpace
    | with_reducible apply ok_stepRefPosSpec
    | with_reducible apply ok_stepRefPos
    | with_reducible apply ok_readTime
    | with_reducible apply ok_stepStart
    | with_reducible apply ok_stepStop
    | with_reducible apply ok_stepTimeLabel
    | with_reducible apply ok_stepTime
    | with_reducible apply ok_flavourFrame
    | with_reducible apply ok_flavourCheck
    | with_reducible apply ok_flavourSystem
    | with_reducible apply ok_flavourDomain
    | with_reducible apply ok_flavourNext
    | with_reducible apply ok_stepFlavour
    | with_reducible apply ok_limitsLow
    | with_reducible apply ok_limitsHigh
    | with_reducible apply ok_stepLimits
    | with_reducible apply ok_stepRedSpecLabel
    | with_reducible apply ok_stepRedSpecValue
    | with_reducible apply ok_stepPositionInterval
    | with_reducible apply ok_stepAllSky
    | with_reducible apply ok_stepCircle
    | with_reducible apply ok_stepEllipse
    | with_reducible apply ok_stepBox
    | with_reducible apply ok_stepPolygon
    | with_reducible apply ok_stepConvex
    | with_reducible apply ok_stepPosition
    | with_reducible apply ok_stepPositionLabel
    | with_reducible apply ok_dopplerType
    | with_reducible apply ok_dopplerDef
    | with_reducible apply ok_stepTypeDoppler
    | with_reducible apply ok_stepVelocityValue
    | with_reducible apply ok_errorValues
    | with_reducible apply ok_errorExtra
    | with_reducible apply ok_stepError
    | with_reducible apply ok_ignoredValues
    | with_reducible apply ok_stepResolution
    | split

theorem ok_stepPixSize {env : Env} {s : State} {w : String} (h : WarnOK s.warnings) :
    WarnOK (stepPixSize env s w).warnings := by
  unfold stepPixSize
  repeat' first
    | with_reducible exact h
    | with_reducible apply ok_ite
    | with_reducible apply ok_warn1
    | with_reducible apply ok_warn2
    | with_reducible apply ok_nextWord
    | with_reducible apply ok_raise
    | with_reducible apply ok_crash
    | with_reducible apply ok_mapPut
    | with_reducible apply ok_append
    | with_reducible apply ok_chop
    | with_reducible apply ok_mapPutProp
    | with_reducible apply ok_setTimeScale
    | with_reducible apply ok_setSpaceFrm
    | with_reducible apply ok_setRedFrm
    | with_reducible apply ok_setSpecFrm
    | with_reducible apply ok_needNumber
    | with_reducible apply ok_finishTime
    | with_reducible apply ok_finishSpace
    | with_reducible apply ok_finishSpec
    | with_reducible apply ok_finishRed
    | with_reducible apply ok_axisLoop
    | with_reducible apply ok_numberRun
    | with_reducible apply ok_errorLoop
    | with_reducible apply ok_polygonRest
    | with_reducible apply ok_stepTimeIdentifier
    | with_reducible apply ok_stepSpaceIdentifier
    | with_reducible apply ok_stepVelocityIdentifier
    | with_reducible apply ok_stepSpectralIdentifier
    | with_reducible apply ok_stepRedshiftIdentifier
    | with_reducible apply ok_stepFillFactor
    | with_reducible apply ok_stepFrame
    | with_reducible apply ok_stepRefPosTime
    | with_reducible apply ok_stepRefPosSpace
    | with_reducible apply ok_stepRefPosSpec
    | with_reducible apply ok_stepRefPos
    | with_reducible apply ok_readTime
    | with_reducible apply ok_stepStart
    | with_reducible apply ok_stepStop
    | with_reducible apply ok_stepTimeLabel
    | with_reducible apply ok_stepTime
    | with_reducible apply ok_flavourFrame
    | with_reducible apply ok_flavourCheck
    | with_reducible apply ok_flavourSystem
    | with_reducible apply ok_flavourDomain
    | with_reducible apply ok_flavourNext
    | with_reducible apply ok_stepFlavour
    | with_reducible apply ok_limitsLow
    | with_reducible apply ok_limitsHigh
    | with_reducible apply ok_stepLimits
    | with_reducible apply ok_stepRedSpecLabel
    | with_reducible apply ok_stepRedSpecValue
    | with_reducible apply ok_stepPositionInterval
    | with_reducible apply ok_stepAllSky
    | with_reducible apply ok_stepCircle
    | with_reducible apply ok_stepEllipse
    | with_reducible apply ok_stepBox
    | with_reducible apply ok_stepPolygon
    | with_reducible apply ok_stepConvex
    | with_reducible apply ok_stepPosition
    | with_reducible apply ok_stepPositionLabel
    | with_reducible apply ok_dopplerType
    | with_reducible apply ok_dopplerDef
    | with_reducible apply ok_stepTypeDoppler
    | with_reducible apply ok_stepVelocityValue
    | with_reducible apply ok_errorValues
    | with_reducible apply ok_errorExtra
    | with_reducible apply ok_stepError
    | with_reducible apply ok_ignoredValues
    | with_reducible apply ok_stepResolution
    | with_reducible apply ok_stepSize
    | split

theorem ok_unitWord {s : State} {w : String} (h : WarnOK s.warnings) :
    WarnOK (unitWord s w).warnings := by
  have e : (unitWord s w).warnings = s.warnings := by
    unfold unitWord
    split_ifs
    · simp only []
      split <;> simp
    · simp
  rw [e]; exact h

theorem ok_unitTime {s : State} (h : WarnOK s.warnings) :
    WarnOK (unitTime s).warnings := by
  unfold unitTime
  repeat' first
    | with_reducible exact h
    | with_reducible apply ok_ite
    | with_reducible apply ok_warn1
    | with_reducible apply ok_warn2
    | with_reducible apply ok_nextWord
    | with_reducible apply ok_raise
    | with_reducible apply ok_crash
    | with_reducible apply ok_mapPut
    | with_reducible apply ok_append
    | with_reducible apply ok_chop
    | with_reducible apply ok_mapPutProp
    | with_reducible apply ok_setTimeScale
    | with_reducible apply ok_setSpaceFrm
    | with_reducible apply ok_setRedFrm
    | with_reducible apply ok_setSpecFrm
    | with_reducible apply ok_needNumber
    | with_reducible apply ok_finishTime
    | with_reducible apply ok_finishSpace
    | with_reducible apply ok_finishSpec
    | with_reducible apply ok_finishRed
    | with_reducible apply ok_axisLoop
    | with_reducible apply ok_numberRun
    | with_reducible apply ok_errorLoop
    | with_reducible apply ok_polygonRest
    | with_reducible apply ok_stepTimeIdentifier
    | with_reducible apply ok_stepSpaceIdentifier
    | with_reducible apply ok_stepVelocityIdentifier
    | with_reducible apply ok_stepSpectralIdentifier
    | with_reducible apply ok_stepRedshiftIdentifier
    | with_reducible apply ok_stepFillFactor
    | with_reducible apply ok_stepFrame
    | with_reducible apply ok_stepRefPosTime
    | with_reducible apply ok_stepRefPosSpace
    | with_reducible apply ok_stepRefPosSpec
    | with_reducible apply ok_stepRefPos
    | with_reducible apply ok_readTime
    | with_reducible apply ok_stepStart
    | with_reducible apply ok_stepStop
    | with_reducible apply ok_stepTimeLabel
    | with_reducible apply ok_stepTime
    | with_reducible apply ok_flavourFrame
    | with_reducible apply ok_flavourCheck
    | with_reducible apply ok_flavourSystem
    | with_reducible apply ok_flavourDomain
    | with_reducible apply ok_flavourNext
    | with_reducible apply ok_stepFlavour
    | with_reducible apply ok_limitsLow
    | with_reducible apply ok_limitsHigh
    | with_reducible apply ok_stepLimits
    | with_reducible apply ok_stepRedSpecLabel
    | with_reducible apply ok_stepRedSpecValue
    | with_reducible apply ok_stepPositionInterval
    | with_reducible apply ok_stepAllSky
    | with_reducible apply ok_stepCircle
    | with_reducible apply ok_stepEllipse
    | with_reducible apply ok_stepBox
    | with_reducible apply ok_stepPolygon
    | with_reducible apply ok_stepConvex
    | with_reducible apply ok_stepPosition
    | with_reducible apply ok_stepPositionLabel
    | with_reducible apply ok_dopplerType
    | with_reducible apply ok_dopplerDef
    | with_reducible apply ok_stepTypeDoppler
    | with_reducible apply ok_stepVelocityValue
    | with_reducible apply ok_errorValues
    | with_reducible apply ok_errorExtra
    | with_reducible apply ok_stepError
    | with_reducible apply ok_ignoredValues
    | with_reducible apply ok_stepResolution
    | with_reducible apply ok_stepSize
    | with_reducible apply ok_stepPixSize
    | with_reducible apply ok_unitWord
    | split

theorem ok_unitSpace {env : Env} {s : State} (h : WarnOK s.warnings) :
    WarnOK (unitSpace env s).warnings := by
  unfold unitSpace
  repeat' first
    | with_reducible exact h
    | with_reducible apply ok_ite
    | with_reducible apply ok_warn1
    | with_reducible apply ok_warn2
    | with_reducible apply ok_nextWord
    | with_reducible apply ok_raise
    | with_reducible apply ok_crash
    | with_reducible apply ok_mapPut
    | with_reducible apply ok_append
    | with_reducible apply ok_chop
    | with_reducible apply ok_mapPutProp
    | with_reducible apply ok_setTimeScale
    | with_reducible apply ok_setSpaceFrm
    | with_reducible apply ok_setRedFrm
    | with_reducible apply ok_setSpecFrm
    | with_reducible apply ok_needNumber
    | with_reducible apply ok_finishTime
    | with_reducible apply ok_finishSpace
    | with_reducible apply ok_finishSpec
    | with_reducible apply ok_finishRed
    | with_reducible apply ok_axisLoop
    | with_reducible apply ok_numberRun
    | with_reducible apply ok_errorLoop
    | with_reducible apply ok_polygonRest
    | with_reducible apply ok_stepTimeIdentifier
    | with_reducible apply ok_stepSpaceIdentifier
    | with_reducible apply ok_stepVelocityIdentifier
    | with_reducible apply ok_stepSpectralIdentifier
    | with_reducible apply ok_stepRedshiftIdentifier
    | with_reducible apply ok_stepFillFactor
    | with_reducible apply ok_stepFrame
    | with_reducible apply ok_stepRefPosTime
    | with_reducible apply ok_stepRefPosSpace
    | with_reducible apply ok_stepRefPosSpec
    | with_reducible apply ok_stepRefPos
    | with_reducible apply ok_readTime
    | with_reducible apply ok_stepStart
    | with_reducible apply ok_stepStop
    | with_reducible apply ok_stepTimeLabel
    | with_reducible apply ok_stepTime
    | with_reducible apply ok_flavourFrame
    | with_reducible apply ok_flavourCheck
    | with_reducible apply ok_flavourSystem
    | with_reducible apply ok_flavourDomain
    | with_reducible apply ok_flavourNext
    | with_reducible apply ok_stepFlavour
    | with_reducible apply ok_limitsLow
    | with_reducible apply ok_limitsHigh
    | with_reducible apply ok_stepLimits
    | with_reducible apply ok_stepRedSpecLabel
    | with_reducible apply ok_stepRedSpecValue
    | with_reducible apply ok_stepPositionInterval
    | with_reducible apply ok_stepAllSky
    | with_reducible apply ok_stepCircle
    | with_reducible apply ok_stepEllipse
    | with_reducible apply ok_stepBox
    | with_reducible apply ok_stepPolygon
    | with_reducible apply ok_stepConvex
    | with_reducible apply ok_stepPosition
    | with_reducible apply ok_stepPositionLabel
    | with_reducible apply ok_dopplerType
    | with_reducible apply ok_dopplerDef
    | with_reducible apply ok_stepTypeDoppler
    | with_reducible apply ok_stepVelocityValue
    | with_reducible apply ok_errorValues
    | with_reducible apply ok_errorExtra
    | with_reducible apply ok_stepError
    | with_reducible apply ok_ignoredValues
    | with_reducible apply ok_stepResolution
    | with_reducible apply ok_stepSize
    | with_reducible apply ok_stepPixSize
    | with_reducible apply ok_unitWord
    | with_reducible apply ok_unitTime
    | split

theorem ok_unitSpec {s : State} (h : WarnOK s.warnings) :
    WarnOK (unitSpec s).warnings := by
  unfold unitSpec
  repeat' first
    | with_reducible exact h
    | with_reducible apply ok_ite
    | with_reducible apply ok_warn1
    | with_reducible apply ok_warn2
    | with_reducible apply ok_nextWord
    | with_reducible apply ok_raise
    | with_reducible apply ok_crash
    | with_reducible apply ok_mapPut
    | with_reducible apply ok_append
    | with_reducible apply ok_chop
    | with_reducible apply ok_mapPutProp
    | with_reducible apply ok_setTimeScale
    | with_reducible apply ok_setSpaceFrm
    | with_reducible apply ok_setRedFrm
    | with_reducible apply ok_setSpecFrm
    | with_reducible apply ok_needNumber
    | with_reducible apply ok_finishTime
    | with_reducible apply ok_finishSpace
    | with_reducible apply ok_finishSpec
    | with_reducible apply ok_finishRed
    | with_reducible apply ok_axisLoop
    | with_reducible apply ok_numberRun
    | with_reducible apply ok_errorLoop
    | with_reducible apply ok_polygonRest
    | with_reducible apply ok_stepTimeIdentifier
    | with_reducible apply ok_stepSpaceIdentifier
    | with_reducible apply ok_stepVelocityIdentifier
    | with_reducible apply ok_stepSpectralIdentifier
    | with_reducible apply ok_stepRedshiftIdentifier
    | with_reducible apply ok_stepFillFactor
    | with_reducible apply ok_stepFrame
    | with_reducible apply ok_stepRefPosTime
    | with_reducible apply ok_stepRefPosSpace
    | with_reducible apply ok_stepRefPosSpec
    | with_reducible apply ok_stepRefPos
    | with_reducible apply ok_readTime
    | with_reducible apply ok_stepStart
    | with_reducible apply ok_stepStop
    | with_reducible apply ok_stepTimeLabel
    | with_reducible apply ok_stepTime
    | with_reducible apply ok_flavourFrame
    | with_reducible apply ok_flavourCheck
    | with_reducible apply ok_flavourSystem
    | with_reducible apply ok_flavourDomain
    | with_reducible apply ok_flavourNext
    | with_reducible apply ok_stepFlavour
    | with_reducible apply ok_limitsLow
    | with_reducible apply ok_limitsHigh
    | with_reducible apply ok_stepLimits
    | with_reducible apply ok_stepRedSpecLabel
    | with_reducible apply ok_stepRedSpecValue
    | with_reducible apply ok_stepPositionInterval
    | with_reducible apply ok_stepAllSky
    | with_reducible apply ok_stepCircle
    | with_reducible apply ok_stepEllipse
    | with_reducible apply ok_stepBox
    | with_reducible apply ok_stepPolygon
    | with_reducible apply ok_stepConvex
    | with_reducible apply ok_stepPosition
    | with_reducible apply ok_stepPositionLabel
    | with_reducible apply ok_dopplerType
    | with_reducible apply ok_dopplerDef
    | with_reducible apply ok_stepTypeDoppler
    | with_reducible apply ok_stepVelocityValue
    | with_reducible apply ok_errorValues
    | with_reducible apply ok_errorExtra
    | with_reducible apply ok_stepError
    | with_reducible apply ok_ignoredValues
    | with_reducible apply ok_stepResolution
    | with_reducible apply ok_stepSize
    | with_reducible apply ok_stepPixSize
    | with_reducible apply ok_unitWord
    | with_reducible apply ok_unitTime
    | with_reducible apply ok_unitSpace
    | split

theorem ok_unitRed {s : State} (h : WarnOK s.warnings) :
    WarnOK (unitRed s).warnings := by
  unfold unitRed
  repeat' first
    | with_reducible exact h
    | with_reducible apply ok_ite
    | with_reducible apply ok_warn1
    | with_reducible apply ok_warn2
    | with_reducible apply ok_nextWord
    | with_reducible apply ok_raise
    | with_reducible apply ok_crash
    | with_reducible apply ok_mapPut
    | with_reducible apply ok_append
    | with_reducible apply ok_chop
    | with_reducible apply ok_mapPutProp
    | with_reducible apply ok_setTimeScale
    | with_reducible apply ok_setSpaceFrm
    | with_reducible apply ok_setRedFrm
    | with_reducible apply ok_setSpecFrm
    | with_reducible apply ok_needNumber
    | with_reducible apply ok_finishTime
    | with_reducible apply ok_finishSpace
    | with_reducible apply ok_finishSpec
    | with_reducible apply ok_finishRed
    | with_reducible apply ok_axisLoop
    | with_reducible apply ok_numberRun
    | with_reducible apply ok_errorLoop
    | with_reducible apply ok_polygonRest
    | with_reducible apply ok_stepTimeIdentifier
    | with_reducible apply ok_stepSpaceIdentifier
    | with_reducible apply ok_stepVelocityIdentifier
    | with_reducible apply ok_stepSpectralIdentifier
    | with_reducible apply ok_stepRedshiftIdentifier
    | with_reducible apply ok_stepFillFactor
    | with_reducible apply ok_stepFrame
    | with_reducible apply ok_stepRefPosTime
    | with_reducible apply ok_stepRefPosSpace
    | with_reducible apply ok_stepRefPosSpec
    | with_reducible apply ok_stepRefPos
    | with_reducible apply ok_readTime
    | with_reducible apply ok_stepStart
    | with_reducible apply ok_stepStop
    | with_reducible apply ok_stepTimeLabel
    | with_reducible apply ok_stepTime
    | with_reducible apply ok_flavourFrame
    | with_reducible apply ok_flavourCheck
    | with_reducible apply ok_flavourSystem
    | with_reducible apply ok_flavourDomain
    | with_reducible apply ok_flavourNext
    | with_reducible apply ok_stepFlavour
    | with_reducible apply ok_limitsLow
    | with_reducible apply ok_limitsHigh
    | with_reducible apply ok_stepLimits
    | with_reducible apply ok_stepRedSpecLabel
    | with_reducible apply ok_stepRedSpecValue
    | with_reducible apply ok_stepPositionInterval
    | with_reducible apply ok_stepAllSky
    | with_reducible apply ok_stepCircle
    | with_reducible apply ok_stepEllipse
    | with_reducible apply ok_stepBox
    | with_reducible apply ok_stepPolygon
    | with_reducible apply ok_stepConvex
    | with_reducible apply ok_stepPosition
    | with_reducible apply ok_stepPositionLabel
    | with_reducible apply ok_dopplerType
    | with_reducible apply ok_dopplerDef
    | with_reducible apply ok_stepTypeDoppler
    | with_reducible apply ok_stepVelocityValue
    | with_reducible apply ok_errorValues
    | with_reducible apply ok_errorExtra
    | with_reducible apply ok_stepError
    | with_reducible apply ok_ignoredValues
    | with_reducible apply ok_stepResolution
    | with_reducible apply ok_stepSize
    | with_reducible apply ok_stepPixSize
    | with_reducible apply ok_unitWord
    | with_reducible apply ok_unitTime
    | with_reducible apply ok_unitSpace
    | with_reducible apply ok_unitSpec
    | split

theorem ok_stepUnit {env : Env} {s : State} {w : String} (h : WarnOK s.warnings) :
    WarnOK (stepUnit env s w).warnings := by
  unfold stepUnit
  repeat' first
    | with_reducible exact h
    | with_reducible apply ok_ite
    | with_reducible apply ok_warn1
    | with_reducible apply ok_warn2
    | with_reducible apply ok_nextWord
    | with_reducible apply ok_raise
    | with_reducible apply ok_crash
    | with_reducible apply ok_mapPut
    | with_reducible apply ok_append
    | with_reducible apply ok_chop
    | with_reducible apply ok_mapPutProp
    | with_reducible apply ok_setTimeScale
    | with_reducible apply ok_setSpaceFrm
    | with_reducible apply ok_setRedFrm
    | with_reducible apply ok_setSpecFrm
    | with_reducible apply ok_needNumber
    | with_reducible apply ok_finishTime
    | with_reducible apply ok_finishSpace
    | with_reducible apply ok_finishSpec
    | with_reducible apply ok_finishRed
    | with_reducible apply ok_axisLoop
    | with_reducible apply ok_numberRun
    | with_reducible apply ok_errorLoop
    | with_reducible apply ok_polygonRest
    | with_reducible apply ok_stepTimeIdentifier
    | with_reducible apply ok_stepSpaceIdentifier
    | with_reducible apply ok_stepVelocityIdentifier
    | with_reducible apply ok_stepSpectralIdentifier
    | with_reducible apply ok_stepRedshiftIdentifier
    | with_reducible apply ok_stepFillFactor
    | with_reducible apply ok_stepFrame
    | with_reducible apply ok_stepRefPosTime
    | with_reducible apply ok_stepRefPosSpace
    | with_reducible apply ok_stepRefPosSpec
    | with_reducible apply ok_stepRefPos
    | with_reducible apply ok_readTime
    | with_reducible apply ok_stepStart
    | with_reducible apply ok_stepStop
    | with_reducible apply ok_stepTimeLabel
    | with_reducible apply ok_stepTime
    | with_reducible apply ok_flavourFrame
    | with_reducible apply ok_flavourCheck
    | with_reducible apply ok_flavourSystem
    | with_reducible apply ok_flavourDomain
    | with_reducible apply ok_flavourNext
    | with_reducible apply ok_stepFlavour
    | with_reducible apply ok_limitsLow
    | with_reducible apply ok_limitsHigh
    | with_reducible apply ok_stepLimits
    | with_reducible apply ok_stepRedSpecLabel
    | with_reducible apply ok_stepRedSpecValue
    | with_reducible apply ok_stepPositionInterval
    | with_reducible apply ok_stepAllSky
    | with_reducible apply ok_stepCircle
    | with_reducible apply ok_stepEllipse
    | with_reducible apply ok_stepBox
    | with_reducible apply ok_stepPolygon
    | with_reducible apply ok_stepConvex
    | with_reducible apply ok_stepPosition
    | with_reducible apply ok_stepPositionLabel
    | with_reducible apply ok_dopplerType
    | with_reducible apply ok_dopplerDef
    | with_reducible apply ok_stepTypeDoppler
    | with_reducible apply ok_stepVelocityValue
    | with_reducible apply ok_errorValues
    | with_reducible apply ok_errorExtra
    | with_reducible apply ok_stepError
    | with_reducible apply ok_ignoredValues
    | with_reducible apply ok_stepResolution
    | with_reducible apply ok_stepSize
    | with_reducible apply ok_stepPixSize
    | with_reducible apply ok_unitWord
    | with_reducible apply ok_unitTime
    | with_reducible apply ok_unitSpace
    | with_reducible apply ok_unitSpec
    | with_reducible apply ok_unitRed
    | split

theorem stepTimeScale_warnings (s : State) (w : String) :
    (stepTimeScale s w).warnings =
      if w = "TDT" ∨ w = "ET" then (s.warn 3 replacedTimeScale ["TT", w, s.fragment]).warnings
      else if w = "IAT" then (s.warn 3 replacedTimeScale ["TAI", w, s.fragment]).warnings
      else if w = "TEB" then (s.warn 1 replacedTimeScale ["TDB", w, s.fragment]).warnings
      else if w ∈ ["TT", "TAI", "UTC", "TDB", "TCG", "TCB", "LST"] then s.warnings
      else (s.warn 2 "Time scale defaulting to 'TAI' in an STC-S description: '%s'."
        [s.fragment]).warnings := by
  by_cases hw : w ∈ timeScaleWords
  · simp only [timeScaleWords, List.mem_cons, List.mem_singleton, List.not_mem_nil, or_false] at hw
    rcases hw with rfl | rfl | rfl | rfl | rfl | rfl | rfl | rfl | rfl | rfl | rfl | rfl <;>
      simp [stepTimeScale, State.warn, replacedTimeScale, State.fragment, ite_warnings]
  · simp only [timeScaleWords, List.mem_cons, List.mem_singleton, List.not_mem_nil, or_false,
      not_or] at hw
    simp [stepTimeScale, State.warn, hw, State.fragment, ite_warnings]

theorem ok_stepTimeScale {s : State} {w : String} (h : WarnOK s.warnings) :
    WarnOK (stepTimeScale s w).warnings := by
  rw [stepTimeScale_warnings]
  simp only [warn_warnings]
  split_ifs <;> first
    | exact h
    | exact (WarnOK_append_iff _ _).2 ⟨h, Or.inl rfl⟩
    | exact (WarnOK_append_iff _ _).2 ⟨h, Or.inr (Or.inl rfl)⟩
    | exact (WarnOK_append_iff _ _).2 ⟨h, Or.inr (Or.inr ⟨rfl, rfl⟩)⟩

theorem ok_branch {env : Env} {lf : LookFor} {s : State} {w : String}
    (h : WarnOK s.warnings) : WarnOK (branch env lf s w).warnings := by
  cases lf with
  | TIME_IDENTIFIER => exact @ok_stepTimeIdentifier s w h
  | SPACE_IDENTIFIER => exact @ok_stepSpaceIdentifier env s w h
  | VELOCITY_IDENTIFIER => exact @ok_stepVelocityIdentifier env s w h
  | SPECTRAL_IDENTIFIER => exact @ok_stepSpectralIdentifier s w h
  | REDSHIFT_IDENTIFIER => exact @ok_stepRedshiftIdentifier env s w h
  | FILL_FACTOR => exact @ok_stepFillFactor env s w h
  | TIME_SCALE => exact @ok_stepTimeScale s w h
  | FRAME => exact @ok_stepFrame s w h
  | REFPOS => exact @ok_stepRefPos s w h
  | START => exact @ok_stepStart env s w h
  | STOP => exact @ok_stepStop env s w h
  | TIME_LABEL => exact @ok_stepTimeLabel s w h
  | TIME => exact @ok_stepTime env s w h
  | FLAVOUR => exact @ok_stepFlavour s w h
  | LIMITS => exact @ok_stepLimits env s w h
  | RED_SPEC_LABEL => exact @ok_stepRedSpecLabel s w h
  | RED_SPEC_VALUE => exact @ok_stepRedSpecValue env s w h
  | POSITION_INTERVAL => exact @ok_stepPositionInterval env s w h
  | ALLSKY => exact @ok_stepAllSky s w h
  | CIRCLE => exact @ok_stepCircle env s w h
  | ELLIPSE => exact @ok_stepEllipse env s w h
  | BOX => exact @ok_stepBox env s w h
  | POLYGON => exact @ok_stepPolygon env s w h
  | CONVEX => exact @ok_stepConvex s w h
  | POSITION => exact @ok_stepPosition env s w h
  | POSITION_LABEL => exact @ok_stepPositionLabel s w h
  | TYPE_DOPPLER => exact @ok_stepTypeDoppler s w h
  | VELOCITY_VALUE => exact @ok_stepVelocityValue env s w h
  | ERROR => exact @ok_stepError env s w h
  | RESOLUTION => exact @ok_stepResolution env s w h
  | SIZE => exact @ok_stepSize env s w h
  | PIX_SIZE => exact @ok_stepPixSize env s w h
  | UNIT => exact @ok_stepUnit env s w h

theorem ok_step {env : Env} {s : State} {w : String} (h : WarnOK s.warnings) :
    WarnOK (step env s w).warnings := by
  have hb : WarnOK (stepBody env s w).warnings := by
    unfold stepBody
    exact ok_branch h
  unfold step
  simp only []
  split_ifs
  · exact hb
  · exact ok_nextWord hb
  · exact hb

theorem ok_readLoop {env : Env} (n : Nat) {s : State} (h : WarnOK s.warnings) :
    WarnOK (readLoop env n s).warnings := by
  induction n generalizing s with
  | zero => exact h
  | succ n ih =>
    unfold readLoop
    split
    · split_ifs
      · exact ih (ok_step h)
      · exact h
    · exact h

theorem ok_Read (env : Env) (this : AstStcsChan) (fuel : Nat) (source : List String)
    (r : ReadResult) (hR : Read env this fuel source = some r) : WarnOK r.warnings := by
  obtain ⟨_, _, _, hw⟩ := Read_some env this fuel source r hR
  rw [hw]
  have h0 : WarnOK (initState source).warnings := by
    intro x hx
    simp [initState] at hx
  have h1 := @ok_readLoop env fuel _ h0
  simp only [decodeEnd, finishRed_warnings]
  exact h1

/-- C9 as stated fails: in `TimeInterval TDT TOPOCENTER 2009-01-01 2009-02-01` the time
scale TDT is replaced by TT, and the only warning that Read adds has level 3. -/
theorem warning_level_three_used :
    (Read sampleEnv { stcsarea := 0, stcscoords := 0, stcsprops := 1 } 100
      ["TimeInterval TDT TOPOCENTER 2009-01-01 2009-02-01"]).map
        (fun r => (r.status, r.warnings.map (fun x => (x.level, x.args.take 2))))
      = some (Status.ok, [(3, ["TT", "TDT"])]) := by
  decide!

/-- C9, amended: every warning that Read adds has level 1, 2 or 3, and level 3 only
with the message that a time scale was replaced.  In the TIME_SCALE branch with a good
status, TDT and ET replaced by TT and IAT replaced by TAI add one warning of level 3,
TEB replaced by TDB adds one warning of level 1, and a word that is no time scale adds
one warning of level 2. -/
theorem warning_levels (env : Env) (this : AstStcsChan) (fuel : Nat) (source : List String) :
    (∀ x ∈ ((Read env this fuel source).map (fun r => r.warnings)).getD [],
        x.level = 1 ∨ x.level = 2 ∨ (x.level = 3 ∧ x.text = replacedTimeScale))
    ∧ (∀ s : State, s.status = .ok →
        (stepTimeScale s "TDT").warnings
          = s.warnings ++ [⟨3, replacedTimeScale, ["TT", "TDT", s.fragment]⟩]
        ∧ (stepTimeScale s "ET").warnings
          = s.warnings ++ [⟨3, replacedTimeScale, ["TT", "ET", s.fragment]⟩]
        ∧ (stepTimeScale s "IAT").warnings
          = s.warnings ++ [⟨3, replacedTimeScale, ["TAI", "IAT", s.fragment]⟩]
        ∧ (stepTimeScale s "TEB").warnings
          = s.warnings ++ [⟨1, replacedTimeScale, ["TDB", "TEB", s.fragment]⟩]
        ∧ ∀ w, w ∉ timeScaleWords → (stepTimeScale s w).warnings
          = s.warnings ++ [⟨2, "Time scale defaulting to 'TAI' in an STC-S description: '%s'.",
              [s.fragment]⟩]) := by
  constructor
  · intro x hx
    cases hR : Read env this fuel source with
    | none => simp [hR] at hx
    | some r =>
      simp only [hR, Option.map_some', Option.getD_some] at hx
      exact ok_Read env this fuel source r hR x hx
  · intro s hok
    refine ⟨?_, ?_, ?_, ?_, ?_⟩
    · rw [stepTimeScale_warnings]; simp [warn_warnings, hok]
    · rw [stepTimeScale_warnings]; simp [warn_warnings, hok]
    · rw [stepTimeScale_warnings]; simp [warn_warnings, hok]
    · rw [stepTimeScale_warnings]; simp [warn_warnings, hok]
    · intro w hw
      simp only [timeScaleWords, List.mem_cons, List.mem_singleton, List.not_mem_nil, or_false,
        not_or] at hw
      rw [stepTimeScale_warnings]; simp [warn_warnings, hok, hw]

/-- C9, amended, an instance: the TIME_SCALE branch for TEB on the first state of a
document. -/
theorem warning_levels_witness :
    (stepTimeScale (initState ["TimeInterval TEB"]) "TEB").warnings
      = (initState ["TimeInterval TEB"]).warnings
        ++ [⟨1, replacedTimeScale, ["TDB", "TEB", (initState ["TimeInterval TEB"]).fragment]⟩] :=
  ((warning_levels sampleEnv {} 0 []).2 (initState ["TimeInterval TEB"]) (by decide!)).2.2.2.1

theorem step_warnings (env : Env) (s : State) (w : String) :
    (step env s w).warnings = (stepBody env s w).warnings := by
  unfold step
  simp only []
  split_ifs <;> rfl

theorem absent_fill_factor (env : Env) (s : State) (w : String) (hlf : s.look_for = .FILL_FACTOR)
    (hw : w ≠ "fillfactor") : (step env s w).warnings = s.warnings := by
  rw [step_warnings]
  simp [stepBody, branch, hlf, stepFillFactor, hw, ite_warnings]

theorem absent_frame (env : Env) (s : State) (w : String) (hlf : s.look_for = .FRAME)
    (hw : w ∉ frameWords) : (step env s w).warnings = s.warnings := by
  rw [step_warnings]
  simp only [frameWords, List.mem_cons, List.mem_singleton, List.not_mem_nil, or_false,
    not_or] at hw
  simp [stepBody, branch, hlf, stepFrame, hw, ite_warnings]

theorem absent_flavour (env : Env) (s : State) (w : String) (hlf : s.look_for = .FLAVOUR)
    (hw : w ∉ flavourWords) : (step env s w).warnings = s.warnings := by
  rw [step_warnings]
  simp only [flavourWords, List.mem_cons, List.mem_singleton, List.not_mem_nil, or_false,
    not_or] at hw
  simp [stepBody, branch, hlf, stepFlavour, flavourFrame, flavourCheck, flavourSystem,
    flavourDomain, flavourNext, hw, ite_warnings]

theorem absent_unit (env : Env) (s : State) (w : String) (hlf : s.look_for = .UNIT)
    (hw : w ≠ "unit") : (step env s w).warnings = s.warnings := by
  rw [step_warnings]
  simp [stepBody, branch, hlf, stepUnit, unitWord, unitTime, unitSpace, unitSpec, unitRed, hw,
    ite_warnings]

theorem absent_type_doppler (env : Env) (s : State) (w : String)
    (hlf : s.look_for = .TYPE_DOPPLER) (hword : s.word = some w)
    (hw : w ∉ dopplerWords) : (step env s w).warnings = s.warnings := by
  rw [step_warnings]
  simp only [dopplerWords, List.mem_cons, List.mem_singleton, List.not_mem_nil, or_false,
    not_or] at hw
  simp [stepBody, branch, hlf, stepTypeDoppler, dopplerType, dopplerDef, hw, hword,
    ite_warnings]

theorem absent_refpos (env : Env) (s : State) (w : String)
    (hlf : s.look_for = .REFPOS) (hok : s.status = .ok) :
    (s.timeid ≠ NULL_ID → w ∉ timeRefPosWords →
        (step env s w).warnings = s.warnings ++ [⟨2,
          "Time reference position defaulting to 'TOPOCENTER' in an STC-S description: '%s'.",
          [s.fragment]⟩])
    ∧ (s.timeid = NULL_ID → s.spaceid ≠ NULL_ID → s.sys ≠ .UNKNOWN → w ∉ timeRefPosWords →
        (step env s w).warnings = s.warnings ++ [⟨2,
          "Space reference position defaulting to 'TOPOCENTER' in an STC-S description: '%s'.",
          [s.fragment]⟩])
    ∧ (s.timeid = NULL_ID → s.spaceid ≠ NULL_ID → s.sys = .UNKNOWN → w ∉ timeRefPosWords →
        (step env s w).warnings = s.warnings)
    ∧ (s.timeid = NULL_ID → s.spaceid = NULL_ID → w ∉ specRefPosWords →
        (step env s w).warnings = s.warnings ++ [⟨2,
          "%s reference position defaulting to 'HELIOCENTER' in an STC-S description: '%s'.",
          [if s.specid ≠ NULL_ID then "Spectral" else "Redshift", s.fragment]⟩]) := by
  refine ⟨?_, ?_, ?_, ?_⟩
  · intro ht hw
    rw [step_warnings]
    simp only [timeRefPosWords, otherRefPos, List.cons_append, List.nil_append, List.mem_cons,
      List.mem_singleton, List.not_mem_nil, or_false, not_or] at hw
    simp [stepBody, branch, hlf, stepRefPos, stepRefPosTime, otherRefPos, ht, hw, ite_warnings,
      State.warn, hok, State.fragment]
  · intro ht hs hsys hw
    rw [step_warnings]
    simp only [timeRefPosWords, otherRefPos, List.cons_append, List.nil_append, List.mem_cons,
      List.mem_singleton, List.not_mem_nil, or_false, not_or] at hw
    simp [stepBody, branch, hlf, stepRefPos, stepRefPosSpace, otherRefPos, ht, hs, hsys, hw,
      ite_warnings, State.warn, hok, State.fragment]
  · intro ht hs hsys hw
    rw [step_warnings]
    simp only [timeRefPosWords, otherRefPos, List.cons_append, List.nil_append, List.mem_cons,
      List.mem_singleton, List.not_mem_nil, or_false, not_or] at hw
    simp [stepBody, branch, hlf, stepRefPos, stepRefPosSpace, otherRefPos, ht, hs, hsys, hw,
      ite_warnings, State.warn, hok, State.fragment]
  · intro ht hs hw
    rw [step_warnings]
    simp only [specRefPosWords, unsupportedSpecRefPos, List.cons_append, List.nil_append,
      List.mem_cons, List.mem_singleton, List.not_mem_nil, or_false, not_or] at hw
    simp [stepBody, branch, hlf, stepRefPos, stepRefPosSpec, unsupportedSpecRefPos, ht, hs, hw,
      ite_warnings, State.warn, hok, State.fragment]

/-- C8 as stated fails: on the second pass over `Circle ICRS TOPOCENTER SPHER2 10 20 0.5`
the FILL_FACTOR state meets the word ICRS, assumes the default fill factor, and adds
no warning; the whole document, which also lacks a unit, is decoded with no warning. -/
theorem default_without_warning :
    (readLoop sampleEnv 2 (initState ["Circle ICRS TOPOCENTER SPHER2 10 20 0.5"])).look_for
      = LookFor.FILL_FACTOR
    ∧ (readLoop sampleEnv 2 (initState ["Circle ICRS TOPOCENTER SPHER2 10 20 0.5"])).word
      = some "ICRS"
    ∧ (readLoop sampleEnv 3 (initState ["Circle ICRS TOPOCENTER SPHER2 10 20 0.5"])).look_for
      = LookFor.FRAME
    ∧ (readLoop sampleEnv 3 (initState ["Circle ICRS TOPOCENTER SPHER2 10 20 0.5"])).warnings
      = []
    ∧ (Read sampleEnv { stcsarea := 0, stcscoords := 0, stcsprops := 1 } 100
        ["Circle ICRS TOPOCENTER SPHER2 10 20 0.5"]).map (fun r => (r.status, r.warnings))
      = some (Status.ok, []) := by
  refine ⟨by decide!, by decide!, by decide!, by decide!, by decide!⟩

/-- C8, amended: in a pass of the main loop entered with a good status, in which the
current word is not in the vocabulary of the state, so that the default is assumed:
the TIME_SCALE state adds exactly one warning (level 2); the REFPOS state adds exactly
one warning (level 2) in a time sub-phrase, in a space sub-phrase whose frame is known,
and in a spectral or redshift sub-phrase, and none in a space sub-phrase whose frame is
UNKNOWNFrame; the states FILL_FACTOR, FRAME, FLAVOUR, UNIT and TYPE_DOPPLER add no
warning. -/
theorem default_warnings (env : Env) (s : State) (w : String) (hok : s.status = .ok)
    (hword : s.word = some w) (hw : w ∉ vocabulary s) :
    (s.look_for = .TIME_SCALE → (step env s w).warnings = s.warnings ++ [⟨2,
        "Time scale defaulting to 'TAI' in an STC-S description: '%s'.", [s.fragment]⟩])
    ∧ (s.look_for = .REFPOS → s.timeid ≠ NULL_ID →
        (step env s w).warnings = s.warnings ++ [⟨2,
          "Time reference position defaulting to 'TOPOCENTER' in an STC-S description: '%s'.",
          [s.fragment]⟩])
    ∧ (s.look_for = .REFPOS → s.timeid = NULL_ID → s.spaceid ≠ NULL_ID → s.sys ≠ .UNKNOWN →
        (step env s w).warnings = s.warnings ++ [⟨2,
          "Space reference position defaulting to 'TOPOCENTER' in an STC-S description: '%s'.",
          [s.fragment]⟩])
    ∧ (s.look_for = .REFPOS → s.timeid = NULL_ID → s.spaceid ≠ NULL_ID → s.sys = .UNKNOWN →
        (step env s w).warnings = s.warnings)
    ∧ (s.look_for = .REFPOS → s.timeid = NULL_ID → s.spaceid = NULL_ID →
        (step env s w).warnings = s.warnings ++ [⟨2,
          "%s reference position defaulting to 'HELIOCENTER' in an STC-S description: '%s'.",
          [if s.specid ≠ NULL_ID then "Spectral" else "Redshift", s.fragment]⟩])
    ∧ (s.look_for = .FILL_FACTOR ∨ s.look_for = .FRAME ∨ s.look_for = .FLAVOUR
        ∨ s.look_for = .UNIT ∨ s.look_for = .TYPE_DOPPLER →
        (step env s w).warnings = s.warnings) := by
  refine ⟨?_, ?_, ?_, ?_, ?_, ?_⟩
  · intro hlf
    simp only [vocabulary, hlf, timeScaleWords, List.mem_cons, List.mem_singleton,
      List.not_mem_nil, or_false, not_or] at hw
    rw [step_warnings]
    simp [stepBody, branch, hlf, stepTimeScale, hw, ite_warnings, State.warn, hok,
      State.fragment]
  · intro hlf ht
    have hv : w ∉ timeRefPosWords := by simpa [vocabulary, hlf, ht] using hw
    exact (absent_refpos env s w hlf hok).1 ht hv
  · intro hlf ht hs hsys
    have hv : w ∉ timeRefPosWords := by simpa [vocabulary, hlf, ht, hs] using hw
    exact (absent_refpos env s w hlf hok).2.1 ht hs hsys hv
  · intro hlf ht hs hsys
    have hv : w ∉ timeRefPosWords := by simpa [vocabulary, hlf, ht, hs] using hw
    exact (absent_refpos env s w hlf hok).2.2.1 ht hs hsys hv
  · intro hlf ht hs
    have hv : w ∉ specRefPosWords := by simpa [vocabulary, hlf, ht, hs] using hw
    exact (absent_refpos env s w hlf hok).2.2.2 ht hs hv
  · rintro (hlf | hlf | hlf | hlf | hlf)
    · exact absent_fill_factor env s w hlf (by simpa [vocabulary, hlf] using hw)
    · exact absent_frame env s w hlf (by simpa [vocabulary, hlf] using hw)
    · exact absent_flavour env s w hlf (by simpa [vocabulary, hlf] using hw)
    · exact absent_unit env s w hlf (by simpa [vocabulary, hlf] using hw)
    · exact absent_type_doppler env s w hlf hword (by simpa [vocabulary, hlf] using hw)

/-- C8, amended, an instance: the FILL_FACTOR state of the Circle document. -/
theorem default_warnings_witness :
    (step sampleEnv (readLoop sampleEnv 2
      (initState ["Circle ICRS TOPOCENTER SPHER2 10 20 0.5"])) "ICRS").warnings
      = (readLoop sampleEnv 2 (initState ["Circle ICRS TOPOCENTER SPHER2 10 20 0.5"])).warnings :=
  (default_warnings sampleEnv
    (readLoop sampleEnv 2 (initState ["Circle ICRS TOPOCENTER SPHER2 10 20 0.5"])) "ICRS"
    (by decide!) (by decide!) (by decide!)).2.2.2.2.2 (Or.inl (by decide!))

set_option maxHeartbeats 4000000 in
theorem lookahead_TIME_IDENTIFIER (env : Env) (s : State) (w : String) (hlf : s.look_for = .TIME_IDENTIFIER)
    (hword : s.word = some w) (hbroke : s.broke = false) (hw : w ∉ vocabulary s) :
    Lookahead s (step env s w) := by
  by_cases c0 : s.timeid = NULL_ID <;> (
    simp only [vocabulary, hlf, c0, List.mem_cons, List.mem_singleton, List.not_mem_nil,
      or_false, not_or, List.mem_append, ne_eq, not_true_eq_false, not_false_eq_true, if_true, if_false, or_true, true_or, or_self] at hw
    simp [Lookahead, step, stepBody, branch, hlf, stepTimeIdentifier, c0, hw, hword, hbroke, rank, phaseBase, State.warn]) <;>
    (try split_ifs) <;> (try simp_all) <;> (try omega)

set_option maxHeartbeats 4000000 in
theorem lookahead_SPACE_IDENTIFIER (env : Env) (s : State) (w : String) (hlf : s.look_for = .SPACE_IDENTIFIER)
    (hword : s.word = some w) (hbroke : s.broke = false) (hw : w ∉ vocabulary s) :
    Lookahead s (step env s w) := by
  by_cases c0 : s.spaceid = NULL_ID <;> (
    simp only [vocabulary, hlf, c0, List.mem_cons, List.mem_singleton, List.not_mem_nil,
      or_false, not_or, List.mem_append, ne_eq, not_true_eq_false, not_false_eq_true, if_true, if_false, or_true, true_or, or_self] at hw
    simp [Lookahead, step, stepBody, branch, hlf, stepSpaceIdentifier, c0, hw, hword, hbroke, rank, phaseBase, State.warn]) <;>
    (try split_ifs) <;> (try simp_all) <;> (try omega)

set_option maxHeartbeats 4000000 in
theorem lookahead_VELOCITY_IDENTIFIER (env : Env) (s : State) (w : String) (hlf : s.look_for = .VELOCITY_IDENTIFIER)
    (hword : s.word = some w) (hbroke : s.broke = false) (hw : w ∉ vocabulary s) :
    Lookahead s (step env s w) := by
  (
    simp only [vocabulary, hlf, List.mem_cons, List.mem_singleton, List.not_mem_nil,
      or_false, not_or, List.mem_append, ne_eq, not_true_eq_false, not_false_eq_true, if_true, if_false, or_true, true_or, or_self] at hw
    simp [Lookahead, step, stepBody, branch, hlf, stepVelocityIdentifier, hw, hword, hbroke, rank, phaseBase, State.warn]) <;>
    (try split_ifs) <;> (try simp_all) <;> (try omega)

set_option maxHeartbeats 4000000 in
theorem lookahead_SPECTRAL_IDENTIFIER (env : Env) (s : State) (w : String) (hlf : s.look_for = .SPECTRAL_IDENTIFIER)
    (hword : s.word = some w) (hbroke : s.broke = false) (hw : w ∉ vocabulary s) :
    Lookahead s (step env s w) := by
  by_cases c0 : s.specid = NULL_ID <;> (
    simp only [vocabulary, hlf, c0, List.mem_cons, List.mem_singleton, List.not_mem_nil,
      or_false, not_or, List.mem_append, ne_eq, not_true_eq_false, not_false_eq_true, if_true, if_false, or_true, true_or, or_self] at hw
    simp [Lookahead, step, stepBody, branch, hlf, stepSpectralIdentifier, c0, hw, hword, hbroke, rank, phaseBase, State.warn]) <;>
    (try split_ifs) <;> (try simp_all) <;> (try omega)

set_option maxHeartbeats 4000000 in
theorem lookahead_FILL_FACTOR (env : Env) (s : State) (w : String) (hlf : s.look_for = .FILL_FACTOR)
    (hword : s.word = some w) (hbroke : s.broke = false) (hw : w ∉ vocabulary s) :
    Lookahead s (step env s w) := by
  by_cases c0 : s.timeid = NULL_ID <;> by_cases c1 : s.spaceid = NULL_ID <;> by_cases c2 : s.velid = NULL_ID <;> (
    simp only [vocabulary, hlf, c0, c1, c2, List.mem_cons, List.mem_singleton, List.not_mem_nil,
      or_false, not_or, List.mem_append, ne_eq, not_true_eq_false, not_false_eq_true, if_true, if_false, or_true, true_or, or_self] at hw
    simp [Lookahead, step, stepBody, branch, hlf, stepFillFactor, c0, c1, c2, hw, hword, hbroke, rank, phaseBase, State.warn]) <;>
    (try split_ifs) <;> (try simp_all) <;> (try omega)

set_option maxHeartbeats 4000000 in
theorem lookahead_TIME_SCALE (env : Env) (s : State) (w : String) (hlf : s.look_for = .TIME_SCALE)
    (hword : s.word = some w) (hbroke : s.broke = false) (hw : w ∉ vocabulary s) :
    Lookahead s (step env s w) := by
  (
    simp only [vocabulary, hlf, timeScaleWords, List.mem_cons, List.mem_singleton, List.not_mem_nil,
      or_false, not_or, List.mem_append, ne_eq, not_true_eq_false, not_false_eq_true, if_true, if_false, or_true, true_or, or_self] at hw
    simp [Lookahead, step, stepBody, branch, hlf, stepTimeScale, timeScaleWords, hw, hword, hbroke, rank, phaseBase, State.warn]) <;>
    (try split_ifs) <;> (try simp_all) <;> (try omega)

set_option maxHeartbeats 4000000 in
theorem lookahead_FRAME (env : Env) (s : State) (w : String) (hlf : s.look_for = .FRAME)
    (hword : s.word = some w) (hbroke : s.broke = false) (hw : w ∉ vocabulary s) :
    Lookahead s (step env s w) := by
  (
    simp only [vocabulary, hlf, frameWords, List.mem_cons, List.mem_singleton, List.not_mem_nil,
      or_false, not_or, List.mem_append, ne_eq, not_true_eq_false, not_false_eq_true, if_true, if_false, or_true, true_or, or_self] at hw
    simp [Lookahead, step, stepBody, branch, hlf, stepFrame, frameWords, hw, hword, hbroke, rank, phaseBase, State.warn]) <;>
    (try split_ifs) <;> (try simp_all) <;> (try omega)

set_option maxHeartbeats 4000000 in
theorem lookahead_REFPOS (env : Env) (s : State) (w : String) (hlf : s.look_for = .REFPOS)
    (hword : s.word = some w) (hbroke : s.broke = false) (hw : w ∉ vocabulary s) :
    Lookahead s (step env s w) := by
  by_cases c0 : s.timeid = NULL_ID <;> by_cases c1 : s.spaceid = NULL_ID <;> by_cases c2 : s.velid = NULL_ID <;> by_cases c3 : s.specid = NULL_ID <;> by_cases c4 : s.sys = System.UNKNOWN <;> (
    simp only [vocabulary, hlf, c0, c1, c2, c3, c4, timeRefPosWords, specRefPosWords, otherRefPos, unsupportedSpecRefPos, List.cons_append, List.nil_append, List.mem_cons, List.mem_singleton, List.not_mem_nil,
      or_false, not_or, List.mem_append, ne_eq, not_true_eq_false, not_false_eq_true, if_true, if_false, or_true, true_or, or_self] at hw
    simp [Lookahead, step, stepBody, branch, hlf, stepRefPos, stepRefPosTime, stepRefPosSpace, stepRefPosSpec, c0, c1, c2, c3, c4, timeRefPosWords, specRefPosWords, otherRefPos, unsupportedSpecRefPos, List.cons_append, List.nil_append, hw, hword, hbroke, rank, phaseBase, State.warn]) <;>
    (try split_ifs) <;> (try simp_all) <;> (try omega)

set_option maxHeartbeats 4000000 in
theorem lookahead_TIME_LABEL (env : Env) (s : State) (w : String) (hlf : s.look_for = .TIME_LABEL)
    (hword : s.word = some w) (hbroke : s.broke = false) (hw : w ∉ vocabulary s) :
    Lookahead s (step env s w) := by
  (
    simp only [vocabulary, hlf, List.mem_cons, List.mem_singleton, List.not_mem_nil,
      or_false, not_or, List.mem_append, ne_eq, not_true_eq_false, not_false_eq_true, if_true, if_false, or_true, true_or, or_self] at hw
    simp [Lookahead, step, stepBody, branch, hlf, stepTimeLabel, hw, hword, hbroke, rank, phaseBase, State.warn]) <;>
    (try split_ifs) <;> (try simp_all) <;> (try omega)

set_option maxHeartbeats 4000000 in
theorem lookahead_POSITION_LABEL (env : Env) (s : State) (w : String) (hlf : s.look_for = .POSITION_LABEL)
    (hword : s.word = some w) (hbroke : s.broke = false) (hw : w ∉ vocabulary s) :
    Lookahead s (step env s w) := by
  (
    simp only [vocabulary, hlf, List.mem_cons, List.mem_singleton, List.not_mem_nil,
      or_false, not_or, List.mem_append, ne_eq, not_true_eq_false, not_false_eq_true, if_true, if_false, or_true, true_or, or_self] at hw
    simp [Lookahead, step, stepBody, branch, hlf, stepPositionLabel, hw, hword, hbroke, rank, phaseBase, State.warn]) <;>
    (try split_ifs) <;> (try simp_all) <;> (try omega)

set_option maxHeartbeats 4000000 in
theorem lookahead_RED_SPEC_LABEL (env : Env) (s : State) (w : String) (hlf : s.look_for = .RED_SPEC_LABEL)
    (hword : s.word = some w) (hbroke : s.broke = false) (hw : w ∉ vocabulary s) :
    Lookahead s (step env s w) := by
  by_cases c0 : s.specid = NULL_ID <;> by_cases c1 : s.redid = NULL_ID <;> (
    simp only [vocabulary, hlf, c0, c1, List.mem_cons, List.mem_singleton, List.not_mem_nil,
      or_false, not_or, List.mem_append, ne_eq, not_true_eq_false, not_false_eq_true, if_true, if_false, or_true, true_or, or_self] at hw
    simp [Lookahead, step, stepBody, branch, hlf, stepRedSpecLabel, c0, c1, hw, hword, hbroke, rank, phaseBase, State.warn]) <;>
    (try split_ifs) <;> (try simp_all) <;> (try omega)

set_option maxHeartbeats 4000000 in
theorem lookahead_TYPE_DOPPLER (env : Env) (s : State) (w : String) (hlf : s.look_for = .TYPE_DOPPLER)
    (hword : s.word = some w) (hbroke : s.broke = false) (hw : w ∉ vocabulary s) :
    Lookahead s (step env s w) := by
  by_cases c0 : s.redid = REDSHIFT_INTERVAL_ID <;> (
    simp only [vocabulary, hlf, c0, dopplerWords, List.mem_cons, List.mem_singleton, List.not_mem_nil,
      or_false, not_or, List.mem_append, ne_eq, not_true_eq_false, not_false_eq_true, if_true, if_false, or_true, true_or, or_self] at hw
    simp [Lookahead, step, stepBody, branch, hlf, stepTypeDoppler, dopplerType, dopplerDef, c0, dopplerWords, hw, hword, hbroke, rank, phaseBase, State.warn]) <;>
    (try split_ifs) <;> (try simp_all) <;> (try omega)

set_option maxHeartbeats 4000000 in
theorem lookahead_RESOLUTION (env : Env) (s : State) (w : String) (hlf : s.look_for = .RESOLUTION)
    (hword : s.word = some w) (hbroke : s.broke = false) (hw : w ∉ vocabulary s) :
    Lookahead s (step env s w) := by
  by_cases c0 : s.spaceid = NULL_ID <;> (
    simp only [vocabulary, hlf, c0, List.mem_cons, List.mem_singleton, List.not_mem_nil,
      or_false, not_or, List.mem_append, ne_eq, not_true_eq_false, not_false_eq_true, if_true, if_false, or_true, true_or, or_self] at hw
    simp [Lookahead, step, stepBody, branch, hlf, stepResolution, c0, hw, hword, hbroke, rank, phaseBase, State.warn]) <;>
    (try split_ifs) <;> (try simp_all) <;> (try omega)

set_option maxHeartbeats 4000000 in
theorem lookahead_SIZE (env : Env) (s : State) (w : String) (hlf : s.look_for = .SIZE)
    (hword : s.word = some w) (hbroke : s.broke = false) (hw : w ∉ vocabulary s) :
    Lookahead s (step env s w) := by
  (
    simp only [vocabulary, hlf, List.mem_cons, List.mem_singleton, List.not_mem_nil,
      or_false, not_or, List.mem_append, ne_eq, not_true_eq_false, not_false_eq_true, if_true, if_false, or_true, true_or, or_self] at hw
    simp [Lookahead, step, stepBody, branch, hlf, stepSize, hw, hword, hbroke, rank, phaseBase, State.warn]) <;>
    (try split_ifs) <;> (try simp_all) <;> (try omega)

set_option maxHeartbeats 4000000 in
theorem lookahead_PIX_SIZE (env : Env) (s : State) (w : String) (hlf : s.look_for = .PIX_SIZE)
    (hword : s.word = some w) (hbroke : s.broke = false) (hw : w ∉ vocabulary s) :
    Lookahead s (step env s w) := by
  by_cases c0 : s.timeid = NULL_ID <;> by_cases c1 : s.spaceid = NULL_ID <;> by_cases c2 : s.velid = NULL_ID <;> by_cases c3 : s.specid = NULL_ID <;> (
    simp only [vocabulary, hlf, c0, c1, c2, c3, List.mem_cons, List.mem_singleton, List.not_mem_nil,
      or_false, not_or, List.mem_append, ne_eq, not_true_eq_false, not_false_eq_true, if_true, if_false, or_true, true_or, or_self] at hw
    simp [Lookahead, step, stepBody, branch, hlf, stepPixSize, c0, c1, c2, c3, hw, hword, hbroke, rank, phaseBase, State.warn]) <;>
    (try split_ifs) <;> (try simp_all) <;> (try omega)

theorem flavourCheck_control (s : State) :
    (flavourCheck s).control = s.control ∧ (flavourCheck s).look_for = s.look_for := by
  unfold flavourCheck; split_ifs <;> exact ⟨rfl, rfl⟩

theorem flavourSystem_control (s : State) :
    (flavourSystem s).control = s.control ∧ (flavourSystem s).look_for = s.look_for := by
  unfold flavourSystem; split_ifs <;> exact ⟨rfl, rfl⟩

theorem flavourDomain_control (s : State) :
    (flavourDomain s).control = s.control ∧ (flavourDomain s).look_for = s.look_for := by
  unfold flavourDomain; split_ifs <;> exact ⟨rfl, rfl⟩

theorem flavourNext_control (s : State) : (flavourNext s).control = s.control := rfl

theorem flavourNext_look_for (s : State) :
    (flavourNext s).look_for ∈ [LookFor.POSITION_INTERVAL, .ALLSKY, .CIRCLE, .ELLIPSE, .BOX,
      .POLYGON, .CONVEX, .POSITION] := by
  simp only [flavourNext]
  split_ifs <;> simp

theorem flavourFrame_absent (s : State) (w : String) (hw : w ∉ flavourWords) :
    (flavourFrame s w).control = ({ s with new_word := false }).control := by
  simp only [flavourWords, List.mem_cons, List.mem_singleton, List.not_mem_nil, or_false,
    not_or] at hw
  simp [flavourFrame, hw, State.control]

set_option maxHeartbeats 4000000 in
theorem lookahead_FLAVOUR (env : Env) (s : State) (w : String) (hlf : s.look_for = .FLAVOUR)
    (hword : s.word = some w) (hbroke : s.broke = false) (hw : w ∉ vocabulary s) :
    Lookahead s (step env s w) := by
  have hv : w ∉ flavourWords := by simpa [vocabulary, hlf] using hw
  have hb : stepBody env s w = stepFlavour { s with new_word := true } w := by
    unfold stepBody; rw [hlf]; rfl
  have h1 := flavourFrame_absent { s with new_word := true } w hv
  have h2 := (flavourCheck_control (flavourFrame { s with new_word := true } w)).1
  have h3 := (flavourSystem_control (flavourCheck (flavourFrame { s with new_word := true } w))).1
  have h4 := (flavourDomain_control
    (flavourSystem (flavourCheck (flavourFrame { s with new_word := true } w)))).1
  have h5 := flavourNext_control (flavourDomain
    (flavourSystem (flavourCheck (flavourFrame { s with new_word := true } w))))
  have hc : (flavourNext (flavourDomain (flavourSystem (flavourCheck
      (flavourFrame { s with new_word := true } w))))).control
      = (s.word, s.con, s.source, false, s.broke, s.timeid, s.spaceid, s.velid, s.specid,
        s.redid) := by
    rw [h5, h4, h3, h2, h1]; rfl
  have hl := flavourNext_look_for (flavourDomain (flavourSystem (flavourCheck
      (flavourFrame { s with new_word := true } w))))
  have hnw : (flavourNext (flavourDomain (flavourSystem (flavourCheck
      (flavourFrame { s with new_word := true } w))))).new_word = false :=
    congrArg (fun c => c.2.2.2.1) hc
  have hbr : (flavourNext (flavourDomain (flavourSystem (flavourCheck
      (flavourFrame { s with new_word := true } w))))).broke = false :=
    (congrArg (fun c => c.2.2.2.2.1) hc).trans hbroke
  have hs : stepFlavour { s with new_word := true } w
      = flavourNext (flavourDomain (flavourSystem (flavourCheck
          (flavourFrame { s with new_word := true } w)))) := by
    unfold stepFlavour
    simp only [hnw]
    rfl
  have hst : step env s w = flavourNext (flavourDomain (flavourSystem (flavourCheck
      (flavourFrame { s with new_word := true } w)))) := by
    unfold step
    simp only [hb, hs, hnw, hbr]
    rfl
  rw [hst]
  generalize flavourNext (flavourDomain (flavourSystem (flavourCheck
      (flavourFrame { s with new_word := true } w)))) = t at hc hl hbr
  simp only [State.control, Prod.mk.injEq] at hc
  obtain ⟨c1, c2, c3, -, -, c6, c7, c8, c9, c10⟩ := hc
  refine ⟨c1, c2, c3, Or.inl ⟨hbr, ?_, ?_⟩⟩
  · rw [hlf]
    simp only [List.mem_cons, List.mem_singleton, List.not_mem_nil, or_false] at hl
    rcases hl with h | h | h | h | h | h | h | h <;> simp [h]
  · simp only [List.mem_cons, List.mem_singleton, List.not_mem_nil, or_false] at hl
    rcases hl with h | h | h | h | h | h | h | h <;>
      simp [rank, phaseBase, hlf, h, c6, c7, c8, c9, c10]

theorem unitTime_control (s : State) : (unitTime s).control = s.control := by
  unfold unitTime; split_ifs <;> rfl

theorem unitSpace_control (env : Env) (s : State) : (unitSpace env s).control = s.control := by
  unfold unitSpace; split_ifs <;> rfl

theorem unitSpec_control (s : State) : (unitSpec s).control = s.control := by
  unfold unitSpec; simp only []; split_ifs <;> rfl

theorem unitRed_control (s : State) : (unitRed s).control = s.control := by
  unfold unitRed; simp only []; split_ifs <;> rfl

theorem stepUnit_control (env : Env) (s : State) (w : String) :
    (stepUnit env s w).control = (unitWord s w).control
    ∧ (stepUnit env s w).look_for = .ERROR := by
  refine ⟨?_, rfl⟩
  unfold stepUnit
  simp only []
  split_ifs
  · exact unitTime_control _
  · exact unitSpace_control env _
  · rfl
  · exact unitSpec_control _
  · exact unitRed_control _
  · rfl

theorem lookahead_UNIT (env : Env) (s : State) (w : String) (hlf : s.look_for = .UNIT)
    (hword : s.word = some w) (hbroke : s.broke = false) (hw : w ∉ vocabulary s) :
    Lookahead s (step env s w) := by
  have hv : w ≠ "unit" := by simpa [vocabulary, hlf] using hw
  have hb : stepBody env s w = stepUnit env { s with new_word := true } w := by
    unfold stepBody; rw [hlf]; rfl
  have hu : (unitWord { s with new_word := true } w).control
      = (s.word, s.con, s.source, false, s.broke, s.timeid, s.spaceid, s.velid, s.specid,
        s.redid) := by
    simp [unitWord, hv, State.control]
  obtain ⟨hc, hl⟩ := stepUnit_control env { s with new_word := true } w
  rw [hu] at hc
  have hnw : (stepUnit env { s with new_word := true } w).new_word = false :=
    congrArg (fun c => c.2.2.2.1) hc
  have hbr : (stepUnit env { s with new_word := true } w).broke = false :=
    (congrArg (fun c => c.2.2.2.2.1) hc).trans hbroke
  have hst : step env s w = stepUnit env { s with new_word := true } w := by
    unfold step
    simp only [hb, hnw, hbr]
    rfl
  rw [hst]
  generalize stepUnit env { s with new_word := true } w = t at hc hl hbr
  simp only [State.control, Prod.mk.injEq] at hc
  obtain ⟨c1, c2, c3, -, -, c6, c7, c8, c9, c10⟩ := hc
  refine ⟨c1, c2, c3, Or.inl ⟨hbr, ?_, ?_⟩⟩
  · rw [hlf, hl]; simp
  · simp [rank, phaseBase, hlf, hl, c6, c7, c8, c9, c10]

/-- C7: in each of the seventeen optional-field states, when the current word is not in
the vocabulary of the state, the pass of the main loop fetches no word (the word, the
word context and the source are unchanged), and either the loop goes on in a different
state that stands later in the order of the states, where the same word is examined,
or the loop is left; it is left only by the PIX_SIZE state when no time, space, velocity
or spectral identifier is set, that is after the redshift sub-phrase. -/
theorem tolerant_lookahead (env : Env) (s : State) (w : String)
    (hst : s.look_for ∈ optionalStates) (hword : s.word = some w) (hbroke : s.broke = false)
    (hw : w ∉ vocabulary s) :
    (step env s w).word = some w ∧ (step env s w).con = s.con
    ∧ (step env s w).source = s.source
    ∧ (((step env s w).broke = false ∧ (step env s w).look_for ≠ s.look_for
        ∧ rank s < rank (step env s w))
      ∨ ((step env s w).broke = true ∧ s.look_for = .PIX_SIZE ∧ s.timeid = NULL_ID
        ∧ s.spaceid = NULL_ID ∧ s.velid = NULL_ID ∧ s.specid = NULL_ID)) := by
  have key : Lookahead s (step env s w) := by
    simp only [optionalStates, List.mem_cons, List.mem_singleton, List.not_mem_nil,
      or_false] at hst
    rcases hst with h | h | h | h | h | h | h | h | h | h | h | h | h | h | h | h | h
    · exact lookahead_TIME_IDENTIFIER env s w h hword hbroke hw
    · exact lookahead_SPACE_IDENTIFIER env s w h hword hbroke hw
    · exact lookahead_VELOCITY_IDENTIFIER env s w h hword hbroke hw
    · exact lookahead_SPECTRAL_IDENTIFIER env s w h hword hbroke hw
    · exact lookahead_FILL_FACTOR env s w h hword hbroke hw
    · exact lookahead_TIME_SCALE env s w h hword hbroke hw
    · exact lookahead_FRAME env s w h hword hbroke hw
    · exact lookahead_REFPOS env s w h hword hbroke hw
    · exact lookahead_FLAVOUR env s w h hword hbroke hw
    · exact lookahead_TIME_LABEL env s w h hword hbroke hw
    · exact lookahead_POSITION_LABEL env s w h hword hbroke hw
    · exact lookahead_RED_SPEC_LABEL env s w h hword hbroke hw
    · exact lookahead_TYPE_DOPPLER env s w h hword hbroke hw
    · exact lookahead_UNIT env s w h hword hbroke hw
    · exact lookahead_RESOLUTION env s w h hword hbroke hw
    · exact lookahead_SIZE env s w h hword hbroke hw
    · exact lookahead_PIX_SIZE env s w h hword hbroke hw
  obtain ⟨h1, h2, h3, h4⟩ := key
  exact ⟨h1.trans hword, h2, h3, h4⟩

/-- C7, an instance: the FILL_FACTOR state of the Circle document meets the word ICRS
and hands it on to the FRAME state. -/
theorem tolerant_lookahead_witness :
    (step sampleEnv (readLoop sampleEnv 2
      (initState ["Circle ICRS TOPOCENTER SPHER2 10 20 0.5"])) "ICRS").word = some "ICRS" :=
  (tolerant_lookahead sampleEnv
    (readLoop sampleEnv 2 (initState ["Circle ICRS TOPOCENTER SPHER2 10 20 0.5"])) "ICRS"
    (by decide!) (by decide!) (by decide!) (by decide!)).1

theorem isSome_false {α : Type} {o : Option α} (h : o.isSome = false) : o = none := by
  cases o with
  | none => rfl
  | some a => simp at h

theorem SetUnc_isSome (env : Env) (ok : Bool) (r1 r2 : Option Region) (frm : AstFrame)
    (sky : Bool) (scale : ℚ) (err : Option (List ℚ)) (nax : Nat) :
    (SetUnc env ok r1 r2 frm sky scale err nax).1.isSome = r1.isSome := by
  unfold SetUnc
  split
  · cases r1 <;> rfl
  · rfl

theorem applyFill_isSome (enc : Option Region) (fill : Option ℚ) :
    (applyFill enc fill).1.isSome = enc.isSome := by
  unfold applyFill
  split <;> rfl

theorem relTime_isSome (s : State) (x : Option ℚ) : (relTime s x).isSome = x.isSome := by
  unfold relTime
  split
  · cases x <;> rfl
  · rfl

theorem readLoop_view_succ (env : Env) (n : Nat) (s : State) (w : String) (V : View)
    (h : s.view = V) (hw : V.word = some w) (hok : V.status = .ok) (hb : V.broke = false) :
    readLoop env (n + 1) s = readLoop env n (step env s w) := by
  subst h
  simp only [State.view] at hw hok hb
  simp [readLoop, hw, hok, hb]

theorem IsoToken.ne_word {T : String} (hT : IsoToken T) (k : String)
    (hk : startsWithDigit k = false) : (T = k) = False := by
  apply eq_false
  intro h
  subst h
  have h2 := hT.2
  rw [hk] at h2
  exact Bool.noConfusion h2

theorem takeWhile_word (w rest : List Char) (hw : ∀ c ∈ w, isspace c = false) :
    (w ++ ' ' :: rest).takeWhile (fun x => !isspace x) = w
    ∧ (w ++ ' ' :: rest).dropWhile (fun x => !isspace x) = ' ' :: rest := by
  induction w with
  | nil =>
    have hb : isspace ' ' = true := by decide
    simp [List.takeWhile, List.dropWhile, hb]
  | cons c w ih =>
    have hc : isspace c = false := hw c (List.mem_cons_self _ _)
    have ih2 := ih (fun d hd => hw d (List.mem_cons_of_mem _ hd))
    simp [List.takeWhile, List.dropWhile, hc, ih2]

theorem takeWhile_last (w : List Char) (hw : ∀ c ∈ w, isspace c = false) :
    w.takeWhile (fun x => !isspace x) = w ∧ w.dropWhile (fun x => !isspace x) = [] := by
  induction w with
  | nil => simp
  | cons c w ih =>
    have hc : isspace c = false := hw c (List.mem_cons_self _ _)
    have ih2 := ih (fun d hd => hw d (List.mem_cons_of_mem _ hd))
    simp [List.takeWhile, List.dropWhile, hc, ih2]

/-- GetNextWord on a context that stands before a word followed by a blank. -/
theorem GetNextWord_word (this : List String) (con : WordContext) (w : String)
    (rest : List Char) (hw : IsWord w) (he : con.e = some (' ' :: (w.data ++ ' ' :: rest))) :
    (GetNextWord this con).1 = some w ∧ (GetNextWord this con).2.1 = this
    ∧ (GetNextWord this con).2.2.e = some (' ' :: rest)
    ∧ (GetNextWord this con).2.2.done = con.done := by
  obtain ⟨hne, hsp⟩ := hw
  obtain ⟨d⟩ := w
  cases d with
  | nil => exact absurd rfl hne
  | cons c cs =>
    have hc : isspace c = false := hsp c (List.mem_cons_self _ _)
    have ht := takeWhile_word cs rest (fun x hx => hsp x (List.mem_cons_of_mem _ hx))
    have hb : isspace ' ' = true := by decide
    simp [GetNextWord, he, skipSpace, List.dropWhile, hb, hc, ht.1, ht.2, WordContext.store]

/-- GetNextWord on a context that stands before the last word of the line. -/
theorem GetNextWord_last (this : List String) (con : WordContext) (w : String)
    (hw : IsWord w) (he : con.e = some (' ' :: w.data)) :
    (GetNextWord this con).1 = some w ∧ (GetNextWord this con).2.1 = this
    ∧ (GetNextWord this con).2.2.e = none
    ∧ (GetNextWord this con).2.2.done = con.done := by
  obtain ⟨hne, hsp⟩ := hw
  obtain ⟨d⟩ := w
  cases d with
  | nil => exact absurd rfl hne
  | cons c cs =>
    have hc : isspace c = false := hsp c (List.mem_cons_self _ _)
    have ht := takeWhile_last cs (fun x hx => hsp x (List.mem_cons_of_mem _ hx))
    have hb : isspace ' ' = true := by decide
    simp [GetNextWord, he, skipSpace, List.dropWhile, hb, hc, ht.1, ht.2, WordContext.store]

/-- GetNextWord when the line and the source are used up. -/
theorem GetNextWord_end (con : WordContext) (he : con.e = none) :
    (GetNextWord [] con).1 = (if con.done then none else some "")
    ∧ (GetNextWord [] con).2.1 = []
    ∧ (GetNextWord [] con).2.2.e = none
    ∧ (GetNextWord [] con).2.2.done = con.done := by
  simp [GetNextWord, he]

/-- The first state of Read for a document of one line that starts with a word followed
by a blank. -/
theorem initState_view (l w : String) (rest : List Char) (hw : IsWord w)
    (hl : l.data = w.data ++ ' ' :: rest) :
    (initState [l]).view =
      { word := some w, e := some (' ' :: rest), done := false, source := [], status := .ok,
        look_for := .TIME_IDENTIFIER, broke := false, props := none,
        time_props := KeyMap.empty, space_props := KeyMap.empty, spec_props := KeyMap.empty,
        red_props := KeyMap.empty, timeid := NULL_ID, spaceid := NULL_ID, velid := NULL_ID,
        specid := NULL_ID, redid := NULL_ID, timefrm := none, spacefrm := false,
        specfrm := false, redfrm := false, is_skyframe := false, sys := .unset, naxes := 0,
        epoch := none, use_co := false, use_enc := false, time_enc := false,
        space_enc := false, spec_enc := false, red_enc := false, start := false,
        time := false, ts := .BADTS } := by
  obtain ⟨hne, hsp⟩ := hw
  obtain ⟨d⟩ := w
  cases d with
  | nil => exact absurd rfl hne
  | cons c cs =>
    have hc : isspace c = false := hsp c (List.mem_cons_self _ _)
    have ht := takeWhile_word cs rest (fun x hx => hsp x (List.mem_cons_of_mem _ hx))
    simp only [] at hl
    simp [initState, State.view, GetNextWord, initContext, hl, skipSpace, List.dropWhile, hc,
      ht.1, ht.2, WordContext.store]

theorem readLoop_succ (env : Env) (n : Nat) (s : State) (w : String) (hw : s.word = some w)
    (hok : s.status = .ok) (hb : s.broke = false) :
    readLoop env (n + 1) s = readLoop env n (step env s w) := by
  simp [readLoop, hw, hok, hb]

/-! ## The passes of the main loop for the document `TimeInterval T1 T2`

Each lemma follows one pass of the loop on the view of the state. -/

theorem timeInterval_step1 (env : Env) (T1 T2 : String) (hT1 : IsoToken T1) (s : State)
    (h : s.view =
      { word := some "TimeInterval", e := some (' ' :: (T1.data ++ ' ' :: T2.data)),
        done := false, source := [], status := Status.ok, look_for := LookFor.TIME_IDENTIFIER,
        broke := false, props := none, time_props := KeyMap.empty, space_props := KeyMap.empty,
        spec_props := KeyMap.empty, red_props := KeyMap.empty, timeid := NULL_ID,
        spaceid := NULL_ID, velid := NULL_ID, specid := NULL_ID, redid := NULL_ID,
        timefrm := none, spacefrm := false, specfrm := false, redfrm := false,
        is_skyframe := false, sys := System.unset, naxes := 0, epoch := none, use_co := false,
        use_enc := false, time_enc := false, space_enc := false, spec_enc := false,
        red_enc := false, start := false, time := false, ts := TimeScale.BADTS }) :
    (step env s "TimeInterval").view =
      { word := some T1, e := some (' ' :: T2.data), done := false, source := [],
        status := Status.ok, look_for := LookFor.FILL_FACTOR, broke := false,
        props := some PropsSel.time, time_props := (KeyMap.empty).put "ID" "TimeInterval",
        space_props := KeyMap.empty, spec_props := KeyMap.empty, red_props := KeyMap.empty,
        timeid := TIME_INTERVAL_ID, spaceid := NULL_ID, velid := NULL_ID, specid := NULL_ID,
        redid := NULL_ID, timefrm := some astTimeFrame, spacefrm := false, specfrm := false,
        redfrm := false, is_skyframe := false, sys := System.unset, naxes := 0, epoch := none,
        use_co := false, use_enc := false, time_enc := false, space_enc := false,
        spec_enc := false, red_enc := false, start := false, time := false,
        ts := TimeScale.BADTS } := by
  simp only [State.view, View.mk.injEq] at h
  obtain ⟨h_word, h_e, h_done, h_source, h_status, h_look_for, h_broke, h_props, h_time_props, h_space_props, h_spec_props, h_red_props, h_timeid, h_spaceid, h_velid, h_specid, h_redid, h_timefrm, h_spacefrm, h_specfrm, h_redfrm, h_is_skyframe, h_sys, h_naxes, h_epoch, h_use_co, h_use_enc, h_time_enc, h_space_enc, h_spec_enc, h_red_enc, h_start, h_time, h_ts⟩ := h
  replace h_spacefrm := isSome_false h_spacefrm
  replace h_specfrm := isSome_false h_specfrm
  replace h_redfrm := isSome_false h_redfrm
  replace h_time_enc := isSome_false h_time_enc
  replace h_space_enc := isSome_false h_space_enc
  replace h_spec_enc := isSome_false h_spec_enc
  replace h_red_enc := isSome_false h_red_enc
  replace h_start := isSome_false h_start
  replace h_time := isSome_false h_time
  have hg := GetNextWord_word [] s.con T1 T2.data hT1.1 h_e
  simp [SetUnc_isSome, applyFill_isSome, relTime_isSome, mkRegion, State.view, step, stepBody, branch, putIf, State.warn, State.chr2Double, NULL_ID, TIME_INTERVAL_ID, START_TIME_ID, STOP_TIME_ID, POSITION_INTERVAL_ID, ALL_SKY_ID, CIRCLE_ID, ELLIPSE_ID, BOX_ID, POLYGON_ID, CONVEX_ID, POSITION_ID, TIME_ID, SPECTRAL_INTERVAL_ID, SPECTRAL_ID, REDSHIFT_INTERVAL_ID, REDSHIFT_ID, VELOCITY_INTERVAL_ID, stepTimeIdentifier, hg.1, hg.2.1, hg.2.2.1, hg.2.2.2, h_word, h_e, h_done, h_source, h_status, h_look_for, h_broke, h_props, h_time_props, h_space_props, h_spec_props, h_red_props, h_timeid, h_spaceid, h_velid, h_specid, h_redid, h_timefrm, h_spacefrm, h_specfrm, h_redfrm, h_is_skyframe, h_sys, h_naxes, h_epoch, h_use_co, h_use_enc, h_time_enc, h_space_enc, h_spec_enc, h_red_enc, h_start, h_time, h_ts]

theorem timeInterval_step2 (env : Env) (T1 T2 : String) (hT1 : IsoToken T1) (s : State)
    (h : s.view =
      { word := some T1, e := some (' ' :: T2.data), done := false, source := [],
        status := Status.ok, look_for := LookFor.FILL_FACTOR, broke := false,
        props := some PropsSel.time, time_props := (KeyMap.empty).put "ID" "TimeInterval",
        space_props := KeyMap.empty, spec_props := KeyMap.empty, red_props := KeyMap.empty,
        timeid := TIME_INTERVAL_ID, spaceid := NULL_ID, velid := NULL_ID, specid := NULL_ID,
        redid := NULL_ID, timefrm := some astTimeFrame, spacefrm := false, specfrm := false,
        redfrm := false, is_skyframe := false, sys := System.unset, naxes := 0, epoch := none,
        use_co := false, use_enc := false, time_enc := false, space_enc := false,
        spec_enc := false, red_enc := false, start := false, time := false,
        ts := TimeScale.BADTS }) :
    (step env s T1).view =
      { word := some T1, e := some (' ' :: T2.data), done := false, source := [],
        status := Status.ok, look_for := LookFor.TIME_SCALE, broke := false,
        props := some PropsSel.time, time_props := (KeyMap.empty).put "ID" "TimeInterval",
        space_props := KeyMap.empty, spec_props := KeyMap.empty, red_props := KeyMap.empty,
        timeid := TIME_INTERVAL_ID, spaceid := NULL_ID, velid := NULL_ID, specid := NULL_ID,
        redid := NULL_ID, timefrm := some astTimeFrame, spacefrm := false, specfrm := false,
        redfrm := false, is_skyframe := false, sys := System.unset, naxes := 0, epoch := none,
        use_co := false, use_enc := false, time_enc := false, space_enc := false,
        spec_enc := false, red_enc := false, start := false, time := false,
        ts := TimeScale.BADTS } := by
  simp only [State.view, View.mk.injEq] at h
  obtain ⟨h_word, h_e, h_done, h_source, h_status, h_look_for, h_broke, h_props, h_time_props, h_space_props, h_spec_props, h_red_props, h_timeid, h_spaceid, h_velid, h_specid, h_redid, h_timefrm, h_spacefrm, h_specfrm, h_redfrm, h_is_skyframe, h_sys, h_naxes, h_epoch, h_use_co, h_use_enc, h_time_enc, h_space_enc, h_spec_enc, h_red_enc, h_start, h_time, h_ts⟩ := h
  replace h_spacefrm := isSome_false h_spacefrm
  replace h_specfrm := isSome_false h_specfrm
  replace h_redfrm := isSome_false h_redfrm
  replace h_time_enc := isSome_false h_time_enc
  replace h_space_enc := isSome_false h_space_enc
  replace h_spec_enc := isSome_false h_spec_enc
  replace h_red_enc := isSome_false h_red_enc
  replace h_start := isSome_false h_start
  replace h_time := isSome_false h_time
  simp [GetNextWord, skipSpace, isspace, WordContext.store, SetUnc_isSome, applyFill_isSome, relTime_isSome, mkRegion, State.view, step, stepBody, branch, putIf, State.warn, State.chr2Double, NULL_ID, TIME_INTERVAL_ID, START_TIME_ID, STOP_TIME_ID, POSITION_INTERVAL_ID, ALL_SKY_ID, CIRCLE_ID, ELLIPSE_ID, BOX_ID, POLYGON_ID, CONVEX_ID, POSITION_ID, TIME_ID, SPECTRAL_INTERVAL_ID, SPECTRAL_ID, REDSHIFT_INTERVAL_ID, REDSHIFT_ID, VELOCITY_INTERVAL_ID, stepFillFactor, hT1.ne_word "fillfactor" rfl, h_word, h_e, h_done, h_source, h_status, h_look_for, h_broke, h_props, h_time_props, h_space_props, h_spec_props, h_red_props, h_timeid, h_spaceid, h_velid, h_specid, h_redid, h_timefrm, h_spacefrm, h_specfrm, h_redfrm, h_is_skyframe, h_sys, h_naxes, h_epoch, h_use_co, h_use_enc, h_time_enc, h_space_enc, h_spec_enc, h_red_enc, h_start, h_time, h_ts]

theorem timeInterval_step3 (env : Env) (T1 T2 : String) (hT1 : IsoToken T1) (s : State)
    (h : s.view =
      { word := some T1, e := some (' ' :: T2.data), done := false, source := [],
        status := Status.ok, look_for := LookFor.TIME_SCALE, broke := false,
        props := some PropsSel.time, time_props := (KeyMap.empty).put "ID" "TimeInterval",
        space_props := KeyMap.empty, spec_props := KeyMap.empty, red_props := KeyMap.empty,
        timeid := TIME_INTERVAL_ID, spaceid := NULL_ID, velid := NULL_ID, specid := NULL_ID,
        redid := NULL_ID, timefrm := some astTimeFrame, spacefrm := false, specfrm := false,
        redfrm := false, is_skyframe := false, sys := System.unset, naxes := 0, epoch := none,
        use_co := false, use_enc := false, time_enc := false, space_enc := false,
        spec_enc := false, red_enc := false, start := false, time := false,
        ts := TimeScale.BADTS }) :
    (step env s T1).view =
      { word := some T1, e := some (' ' :: T2.data), done := false, source := [],
        status := Status.ok, look_for := LookFor.REFPOS, broke := false,
        props := some PropsSel.time, time_props := (KeyMap.empty).put "ID" "TimeInterval",
        space_props := KeyMap.empty, spec_props := KeyMap.empty, red_props := KeyMap.empty,
        timeid := TIME_INTERVAL_ID, spaceid := NULL_ID, velid := NULL_ID, specid := NULL_ID,
        redid := NULL_ID, timefrm := some astTimeFrame, spacefrm := false, specfrm := false,
        redfrm := false, is_skyframe := false, sys := System.unset, naxes := 0, epoch := none,
        use_co := false, use_enc := false, time_enc := false, space_enc := false,
        spec_enc := false, red_enc := false, start := false, time := false,
        ts := TimeScale.BADTS } := by
  simp only [State.view, View.mk.injEq] at h
  obtain ⟨h_word, h_e, h_done, h_source, h_status, h_look_for, h_broke, h_props, h_time_props, h_space_props, h_spec_props, h_red_props, h_timeid, h_spaceid, h_velid, h_specid, h_redid, h_timefrm, h_spacefrm, h_specfrm, h_redfrm, h_is_skyframe, h_sys, h_naxes, h_epoch, h_use_co, h_use_enc, h_time_enc, h_space_enc, h_spec_enc, h_red_enc, h_start, h_time, h_ts⟩ := h
  replace h_spacefrm := isSome_false h_spacefrm
  replace h_specfrm := isSome_false h_specfrm
  replace h_redfrm := isSome_false h_redfrm
  replace h_time_enc := isSome_false h_time_enc
  replace h_space_enc := isSome_false h_space_enc
  replace h_spec_enc := isSome_false h_spec_enc
  replace h_red_enc := isSome_false h_red_enc
  replace h_start := isSome_false h_start
  replace h_time := isSome_false h_time
  simp [GetNextWord, skipSpace, isspace, WordContext.store, SetUnc_isSome, applyFill_isSome, relTime_isSome, mkRegion, State.view, step, stepBody, branch, putIf, State.warn, State.chr2Double, NULL_ID, TIME_INTERVAL_ID, START_TIME_ID, STOP_TIME_ID, POSITION_INTERVAL_ID, ALL_SKY_ID, CIRCLE_ID, ELLIPSE_ID, BOX_ID, POLYGON_ID, CONVEX_ID, POSITION_ID, TIME_ID, SPECTRAL_INTERVAL_ID, SPECTRAL_ID, REDSHIFT_INTERVAL_ID, REDSHIFT_ID, VELOCITY_INTERVAL_ID, stepTimeScale, hT1.ne_word "TT" rfl, hT1.ne_word "TDT" rfl, hT1.ne_word "ET" rfl, hT1.ne_word "TAI" rfl, hT1.ne_word "IAT" rfl, hT1.ne_word "UTC" rfl, hT1.ne_word "TEB" rfl, hT1.ne_word "TDB" rfl, hT1.ne_word "TCG" rfl, hT1.ne_word "TCB" rfl, hT1.ne_word "LST" rfl, hT1.ne_word "nil" rfl, h_word, h_e, h_done, h_source, h_status, h_look_for, h_broke, h_props, h_time_props, h_space_props, h_spec_props, h_red_props, h_timeid, h_spaceid, h_velid, h_specid, h_redid, h_timefrm, h_spacefrm, h_specfrm, h_redfrm, h_is_skyframe, h_sys, h_naxes, h_epoch, h_use_co, h_use_enc, h_time_enc, h_space_enc, h_spec_enc, h_red_enc, h_start, h_time, h_ts]

theorem timeInterval_step4 (env : Env) (T1 T2 : String) (hT1 : IsoToken T1) (s : State)
    (h : s.view =
      { word := some T1, e := some (' ' :: T2.data), done := false, source := [],
        status := Status.ok, look_for := LookFor.REFPOS, broke := false,
        props := some PropsSel.time, time_props := (KeyMap.empty).put "ID" "TimeInterval",
        space_props := KeyMap.empty, spec_props := KeyMap.empty, red_props := KeyMap.empty,
        timeid := TIME_INTERVAL_ID, spaceid := NULL_ID, velid := NULL_ID, specid := NULL_ID,
        redid := NULL_ID, timefrm := some astTimeFrame, spacefrm := false, specfrm := false,
        redfrm := false, is_skyframe := false, sys := System.unset, naxes := 0, epoch := none,
        use_co := false, use_enc := false, time_enc := false, space_enc := false,
        spec_enc := false, red_enc := false, start := false, time := false,
        ts := TimeScale.BADTS }) :
    (step env s T1).view =
      { word := some T1, e := some (' ' :: T2.data), done := false, source := [],
        status := Status.ok, look_for := LookFor.START, broke := false,
        props := some PropsSel.time, time_props := (KeyMap.empty).put "ID" "TimeInterval",
        space_props := KeyMap.empty, spec_props := KeyMap.empty, red_props := KeyMap.empty,
        timeid := TIME_INTERVAL_ID, spaceid := NULL_ID, velid := NULL_ID, specid := NULL_ID,
        redid := NULL_ID, timefrm := some astTimeFrame, spacefrm := false, specfrm := false,
        redfrm := false, is_skyframe := false, sys := System.unset, naxes := 0, epoch := none,
        use_co := false, use_enc := false, time_enc := false, space_enc := false,
        spec_enc := false, red_enc := false, start := false, time := false,
        ts := TimeScale.BADTS } := by
  simp only [State.view, View.mk.injEq] at h
  obtain ⟨h_word, h_e, h_done, h_source, h_status, h_look_for, h_broke, h_props, h_time_props, h_space_props, h_spec_props, h_red_props, h_timeid, h_spaceid, h_velid, h_specid, h_redid, h_timefrm, h_spacefrm, h_specfrm, h_redfrm, h_is_skyframe, h_sys, h_naxes, h_epoch, h_use_co, h_use_enc, h_time_enc, h_space_enc, h_spec_enc, h_red_enc, h_start, h_time, h_ts⟩ := h
  replace h_spacefrm := isSome_false h_spacefrm
  replace h_specfrm := isSome_false h_specfrm
  replace h_redfrm := isSome_false h_redfrm
  replace h_time_enc := isSome_false h_time_enc
  replace h_space_enc := isSome_false h_space_enc
  replace h_spec_enc := isSome_false h_spec_enc
  replace h_red_enc := isSome_false h_red_enc
  replace h_start := isSome_false h_start
  replace h_time := isSome_false h_time
  simp [GetNextWord, skipSpace, isspace, WordContext.store, SetUnc_isSome, applyFill_isSome, relTime_isSome, mkRegion, State.view, step, stepBody, branch, putIf, State.warn, State.chr2Double, NULL_ID, TIME_INTERVAL_ID, START_TIME_ID, STOP_TIME_ID, POSITION_INTERVAL_ID, ALL_SKY_ID, CIRCLE_ID, ELLIPSE_ID, BOX_ID, POLYGON_ID, CONVEX_ID, POSITION_ID, TIME_ID, SPECTRAL_INTERVAL_ID, SPECTRAL_ID, REDSHIFT_INTERVAL_ID, REDSHIFT_ID, VELOCITY_INTERVAL_ID, stepRefPos, stepRefPosTime, otherRefPos, hT1.ne_word "TOPOCENTER" rfl, hT1.ne_word "UNKNOWNRefPos" rfl, hT1.ne_word "HELIOCENTER" rfl, hT1.ne_word "BARYCENTER" rfl, hT1.ne_word "GEOCENTER" rfl, hT1.ne_word "GALACTIC_CENTER" rfl, hT1.ne_word "EMBARYCENTER" rfl, hT1.ne_word "MOON" rfl, hT1.ne_word "MERCURY" rfl, hT1.ne_word "VENUS" rfl, hT1.ne_word "MARS" rfl, hT1.ne_word "JUPITER" rfl, hT1.ne_word "SATURN" rfl, hT1.ne_word "URANUS" rfl, hT1.ne_word "NEPTUNE" rfl, hT1.ne_word "PLUTO" rfl, h_word, h_e, h_done, h_source, h_status, h_look_for, h_broke, h_props, h_time_props, h_space_props, h_spec_props, h_red_props, h_timeid, h_spaceid, h_velid, h_specid, h_redid, h_timefrm, h_spacefrm, h_specfrm, h_redfrm, h_is_skyframe, h_sys, h_naxes, h_epoch, h_use_co, h_use_enc, h_time_enc, h_space_enc, h_spec_enc, h_red_enc, h_start, h_time, h_ts]

theorem timeInterval_step5 (env : Env) (T1 T2 : String) (u1 : ℚ) (hT1 : IsoToken T1) (hT2 : IsoToken T2)
    (hu1 : env.unformat astTimeFrame T1 = some u1) (s : State)
    (h : s.view =
      { word := some T1, e := some (' ' :: T2.data), done := false, source := [],
        status := Status.ok, look_for := LookFor.START, broke := false,
        props := some PropsSel.time, time_props := (KeyMap.empty).put "ID" "TimeInterval",
        space_props := KeyMap.empty, spec_props := KeyMap.empty, red_props := KeyMap.empty,
        timeid := TIME_INTERVAL_ID, spaceid := NULL_ID, velid := NULL_ID, specid := NULL_ID,
        redid := NULL_ID, timefrm := some astTimeFrame, spacefrm := false, specfrm := false,
        redfrm := false, is_skyframe := false, sys := System.unset, naxes := 0, epoch := none,
        use_co := false, use_enc := false, time_enc := false, space_enc := false,
        spec_enc := false, red_enc := false, start := false, time := false,
        ts := TimeScale.BADTS }) :
    (step env s T1).view =
      { word := some T2, e := none, done := false, source := [], status := Status.ok,
        look_for := LookFor.STOP, broke := false, props := some PropsSel.time,
        time_props := ((KeyMap.empty).put "ID" "TimeInterval").put "START" T1,
        space_props := KeyMap.empty, spec_props := KeyMap.empty, red_props := KeyMap.empty,
        timeid := TIME_INTERVAL_ID, spaceid := NULL_ID, velid := NULL_ID, specid := NULL_ID,
        redid := NULL_ID, timefrm := some astTimeFrame, spacefrm := false, specfrm := false,
        redfrm := false, is_skyframe := false, sys := System.unset, naxes := 0, epoch := some u1,
        use_co := false, use_enc := false, time_enc := false, space_enc := false,
        spec_enc := false, red_enc := false, start := true, time := false, ts := TimeScale.BADTS } := by
  simp only [State.view, View.mk.injEq] at h
  obtain ⟨h_word, h_e, h_done, h_source, h_status, h_look_for, h_broke, h_props, h_time_props, h_space_props, h_spec_props, h_red_props, h_timeid, h_spaceid, h_velid, h_specid, h_redid, h_timefrm, h_spacefrm, h_specfrm, h_redfrm, h_is_skyframe, h_sys, h_naxes, h_epoch, h_use_co, h_use_enc, h_time_enc, h_space_enc, h_spec_enc, h_red_enc, h_start, h_time, h_ts⟩ := h
  replace h_spacefrm := isSome_false h_spacefrm
  replace h_specfrm := isSome_false h_specfrm
  replace h_redfrm := isSome_false h_redfrm
  replace h_time_enc := isSome_false h_time_enc
  replace h_space_enc := isSome_false h_space_enc
  replace h_spec_enc := isSome_false h_spec_enc
  replace h_red_enc := isSome_false h_red_enc
  replace h_start := isSome_false h_start
  replace h_time := isSome_false h_time
  have hg := GetNextWord_last [] s.con T2 hT2.1 h_e
  simp [SetUnc_isSome, applyFill_isSome, relTime_isSome, mkRegion, State.view, step, stepBody, branch, putIf, State.warn, State.chr2Double, NULL_ID, TIME_INTERVAL_ID, START_TIME_ID, STOP_TIME_ID, POSITION_INTERVAL_ID, ALL_SKY_ID, CIRCLE_ID, ELLIPSE_ID, BOX_ID, POLYGON_ID, CONVEX_ID, POSITION_ID, TIME_ID, SPECTRAL_INTERVAL_ID, SPECTRAL_ID, REDSHIFT_INTERVAL_ID, REDSHIFT_ID, VELOCITY_INTERVAL_ID, stepStart, readTime, hu1, hg.1, hg.2.1, hg.2.2.1, hg.2.2.2, hT1.ne_word "JD" rfl, hT1.ne_word "MJD" rfl, h_word, h_e, h_done, h_source, h_status, h_look_for, h_broke, h_props, h_time_props, h_space_props, h_spec_props, h_red_props, h_timeid, h_spaceid, h_velid, h_specid, h_redid, h_timefrm, h_spacefrm, h_specfrm, h_redfrm, h_is_skyframe, h_sys, h_naxes, h_epoch, h_use_co, h_use_enc, h_time_enc, h_space_enc, h_spec_enc, h_red_enc, h_start, h_time, h_ts]

theorem timeInterval_step6 (env : Env) (T1 T2 : String) (u1 u2 : ℚ) (hT2 : IsoToken T2)
    (hu2 : env.unformat astTimeFrame T2 = some u2) (s : State)
    (h : s.view =
      { word := some T2, e := none, done := false, source := [], status := Status.ok,
        look_for := LookFor.STOP, broke := false, props := some PropsSel.time,
        time_props := ((KeyMap.empty).put "ID" "TimeInterval").put "START" T1,
        space_props := KeyMap.empty, spec_props := KeyMap.empty, red_props := KeyMap.empty,
        timeid := TIME_INTERVAL_ID, spaceid := NULL_ID, velid := NULL_ID, specid := NULL_ID,
        redid := NULL_ID, timefrm := some astTimeFrame, spacefrm := false, specfrm := false,
        redfrm := false, is_skyframe := false, sys := System.unset, naxes := 0, epoch := some u1,
        use_co := false, use_enc := false, time_enc := false, space_enc := false,
        spec_enc := false, red_enc := false, start := true, time := false, ts := TimeScale.BADTS }) :
    (step env s T2).view =
      { word := some "", e := none, done := false, source := [], status := Status.ok,
        look_for := LookFor.TIME_LABEL, broke := false, props := some PropsSel.time,
        time_props := (((KeyMap.empty).put "ID" "TimeInterval").put "START" T1).put "STOP" T2,
        space_props := KeyMap.empty, spec_props := KeyMap.empty, red_props := KeyMap.empty,
        timeid := TIME_INTERVAL_ID, spaceid := NULL_ID, velid := NULL_ID, specid := NULL_ID,
        redid := NULL_ID, timefrm := some astTimeFrame, spacefrm := false, specfrm := false,
        redfrm := false, is_skyframe := false, sys := System.unset, naxes := 0, epoch := some u1,
        use_co := false, use_enc := false, time_enc := false, space_enc := false,
        spec_enc := false, red_enc := false, start := true, time := false, ts := TimeScale.BADTS } := by
  simp only [State.view, View.mk.injEq] at h
  obtain ⟨h_word, h_e, h_done, h_source, h_status, h_look_for, h_broke, h_props, h_time_props, h_space_props, h_spec_props, h_red_props, h_timeid, h_spaceid, h_velid, h_specid, h_redid, h_timefrm, h_spacefrm, h_specfrm, h_redfrm, h_is_skyframe, h_sys, h_naxes, h_epoch, h_use_co, h_use_enc, h_time_enc, h_space_enc, h_spec_enc, h_red_enc, h_start, h_time, h_ts⟩ := h
  obtain ⟨f_start, hf_start⟩ := Option.isSome_iff_exists.1 h_start
  replace h_spacefrm := isSome_false h_spacefrm
  replace h_specfrm := isSome_false h_specfrm
  replace h_redfrm := isSome_false h_redfrm
  replace h_time_enc := isSome_false h_time_enc
  replace h_space_enc := isSome_false h_space_enc
  replace h_spec_enc := isSome_false h_spec_enc
  replace h_red_enc := isSome_false h_red_enc
  replace h_time := isSome_false h_time
  simp [GetNextWord, skipSpace, isspace, WordContext.store, SetUnc_isSome, applyFill_isSome, relTime_isSome, mkRegion, State.view, step, stepBody, branch, putIf, State.warn, State.chr2Double, NULL_ID, TIME_INTERVAL_ID, START_TIME_ID, STOP_TIME_ID, POSITION_INTERVAL_ID, ALL_SKY_ID, CIRCLE_ID, ELLIPSE_ID, BOX_ID, POLYGON_ID, CONVEX_ID, POSITION_ID, TIME_ID, SPECTRAL_INTERVAL_ID, SPECTRAL_ID, REDSHIFT_INTERVAL_ID, REDSHIFT_ID, VELOCITY_INTERVAL_ID, stepStop, readTime, hu2, hf_start, hT2.ne_word "JD" rfl, hT2.ne_word "MJD" rfl, h_word, h_e, h_done, h_source, h_status, h_look_for, h_broke, h_props, h_time_props, h_space_props, h_spec_props, h_red_props, h_timeid, h_spaceid, h_velid, h_specid, h_redid, h_timefrm, h_spacefrm, h_specfrm, h_redfrm, h_is_skyframe, h_sys, h_naxes, h_epoch, h_use_co, h_use_enc, h_time_enc, h_space_enc, h_spec_enc, h_red_enc, h_start, h_time, h_ts]

theorem timeInterval_step7 (env : Env) (T1 T2 : String) (u1 : ℚ) (s : State)
    (h : s.view =
      { word := some "", e := none, done := false, source := [], status := Status.ok,
        look_for := LookFor.TIME_LABEL, broke := false, props := some PropsSel.time,
        time_props := (((KeyMap.empty).put "ID" "TimeInterval").put "START" T1).put "STOP" T2,
        space_props := KeyMap.empty, spec_props := KeyMap.empty, red_props := KeyMap.empty,
        timeid := TIME_INTERVAL_ID, spaceid := NULL_ID, velid := NULL_ID, specid := NULL_ID,
        redid := NULL_ID, timefrm := some astTimeFrame, spacefrm := false, specfrm := false,
        redfrm := false, is_skyframe := false, sys := System.unset, naxes := 0, epoch := some u1,
        use_co := false, use_enc := false, time_enc := false, space_enc := false,
        spec_enc := false, red_enc := false, start := true, time := false, ts := TimeScale.BADTS }) :
    (step env s "").view =
      { word := some "", e := none, done := false, source := [], status := Status.ok,
        look_for := LookFor.UNIT, broke := false, props := some PropsSel.time,
        time_props := (((KeyMap.empty).put "ID" "TimeInterval").put "START" T1).put "STOP" T2,
        space_props := KeyMap.empty, spec_props := KeyMap.empty, red_props := KeyMap.empty,
        timeid := TIME_INTERVAL_ID, spaceid := NULL_ID, velid := NULL_ID, specid := NULL_ID,
        redid := NULL_ID, timefrm := some astTimeFrame, spacefrm := false, specfrm := false,
        redfrm := false, is_skyframe := false, sys := System.unset, naxes := 0, epoch := some u1,
        use_co := false, use_enc := false, time_enc := false, space_enc := false,
        spec_enc := false, red_enc := false, start := true, time := false, ts := TimeScale.BADTS } := by
  simp only [State.view, View.mk.injEq] at h
  obtain ⟨h_word, h_e, h_done, h_source, h_status, h_look_for, h_broke, h_props, h_time_props, h_space_props, h_spec_props, h_red_props, h_timeid, h_spaceid, h_velid, h_specid, h_redid, h_timefrm, h_spacefrm, h_specfrm, h_redfrm, h_is_skyframe, h_sys, h_naxes, h_epoch, h_use_co, h_use_enc, h_time_enc, h_space_enc, h_spec_enc, h_red_enc, h_start, h_time, h_ts⟩ := h
  obtain ⟨f_start, hf_start⟩ := Option.isSome_iff_exists.1 h_start
  replace h_spacefrm := isSome_false h_spacefrm
  replace h_specfrm := isSome_false h_specfrm
  replace h_redfrm := isSome_false h_redfrm
  replace h_time_enc := isSome_false h_time_enc
  replace h_space_enc := isSome_false h_space_enc
  replace h_spec_enc := isSome_false h_spec_enc
  replace h_red_enc := isSome_false h_red_enc
  replace h_time := isSome_false h_time
  simp [GetNextWord, skipSpace, isspace, WordContext.store, SetUnc_isSome, applyFill_isSome, relTime_isSome, mkRegion, State.view, step, stepBody, branch, putIf, State.warn, State.chr2Double, NULL_ID, TIME_INTERVAL_ID, START_TIME_ID, STOP_TIME_ID, POSITION_INTERVAL_ID, ALL_SKY_ID, CIRCLE_ID, ELLIPSE_ID, BOX_ID, POLYGON_ID, CONVEX_ID, POSITION_ID, TIME_ID, SPECTRAL_INTERVAL_ID, SPECTRAL_ID, REDSHIFT_INTERVAL_ID, REDSHIFT_ID, VELOCITY_INTERVAL_ID, stepTimeLabel, hf_start, h_word, h_e, h_done, h_source, h_status, h_look_for, h_broke, h_props, h_time_props, h_space_props, h_spec_props, h_red_props, h_timeid, h_spaceid, h_velid, h_specid, h_redid, h_timefrm, h_spacefrm, h_specfrm, h_redfrm, h_is_skyframe, h_sys, h_naxes, h_epoch, h_use_co, h_use_enc, h_time_enc, h_space_enc, h_spec_enc, h_red_enc, h_start, h_time, h_ts]

theorem timeInterval_step8 (env : Env) (T1 T2 : String) (u1 : ℚ) (s : State)
    (h : s.view =
      { word := some "", e := none, done := false, source := [], status := Status.ok,
        look_for := LookFor.UNIT, broke := false, props := some PropsSel.time,
        time_props := (((KeyMap.empty).put "ID" "TimeInterval").put "START" T1).put "STOP" T2,
        space_props := KeyMap.empty, spec_props := KeyMap.empty, red_props := KeyMap.empty,
        timeid := TIME_INTERVAL_ID, spaceid := NULL_ID, velid := NULL_ID, specid := NULL_ID,
        redid := NULL_ID, timefrm := some astTimeFrame, spacefrm := false, specfrm := false,
        redfrm := false, is_skyframe := false, sys := System.unset, naxes := 0, epoch := some u1,
        use_co := false, use_enc := false, time_enc := false, space_enc := false,
        spec_enc := false, red_enc := false, start := true, time := false, ts := TimeScale.BADTS }) :
    (step env s "").view =
      { word := some "", e := none, done := false, source := [], status := Status.ok,
        look_for := LookFor.ERROR, broke := false, props := some PropsSel.time,
        time_props := (((KeyMap.empty).put "ID" "TimeInterval").put "START" T1).put "STOP" T2,
        space_props := KeyMap.empty, spec_props := KeyMap.empty, red_props := KeyMap.empty,
        timeid := TIME_INTERVAL_ID, spaceid := NULL_ID, velid := NULL_ID, specid := NULL_ID,
        redid := NULL_ID, timefrm := some astTimeFrame, spacefrm := false, specfrm := false,
        redfrm := false, is_skyframe := false, sys := System.unset, naxes := 0, epoch := some u1,
        use_co := false, use_enc := false, time_enc := false, space_enc := false,
        spec_enc := false, red_enc := false, start := true, time := false, ts := TimeScale.BADTS } := by
  simp only [State.view, View.mk.injEq] at h
  obtain ⟨h_word, h_e, h_done, h_source, h_status, h_look_for, h_broke, h_props, h_time_props, h_space_props, h_spec_props, h_red_props, h_timeid, h_spaceid, h_velid, h_specid, h_redid, h_timefrm, h_spacefrm, h_specfrm, h_redfrm, h_is_skyframe, h_sys, h_naxes, h_epoch, h_use_co, h_use_enc, h_time_enc, h_space_enc, h_spec_enc, h_red_enc, h_start, h_time, h_ts⟩ := h
  obtain ⟨f_start, hf_start⟩ := Option.isSome_iff_exists.1 h_start
  replace h_spacefrm := isSome_false h_spacefrm
  replace h_specfrm := isSome_false h_specfrm
  replace h_redfrm := isSome_false h_redfrm
  replace h_time_enc := isSome_false h_time_enc
  replace h_space_enc := isSome_false h_space_enc
  replace h_spec_enc := isSome_false h_spec_enc
  replace h_red_enc := isSome_false h_red_enc
  replace h_time := isSome_false h_time
  simp [GetNextWord, skipSpace, isspace, WordContext.store, SetUnc_isSome, applyFill_isSome, relTime_isSome, mkRegion, State.view, step, stepBody, branch, putIf, State.warn, State.chr2Double, NULL_ID, TIME_INTERVAL_ID, START_TIME_ID, STOP_TIME_ID, POSITION_INTERVAL_ID, ALL_SKY_ID, CIRCLE_ID, ELLIPSE_ID, BOX_ID, POLYGON_ID, CONVEX_ID, POSITION_ID, TIME_ID, SPECTRAL_INTERVAL_ID, SPECTRAL_ID, REDSHIFT_INTERVAL_ID, REDSHIFT_ID, VELOCITY_INTERVAL_ID, stepUnit, unitWord, unitTime, hf_start, h_word, h_e, h_done, h_source, h_status, h_look_for, h_broke, h_props, h_time_props, h_space_props, h_spec_props, h_red_props, h_timeid, h_spaceid, h_velid, h_specid, h_redid, h_timefrm, h_spacefrm, h_specfrm, h_redfrm, h_is_skyframe, h_sys, h_naxes, h_epoch, h_use_co, h_use_enc, h_time_enc, h_space_enc, h_spec_enc, h_red_enc, h_start, h_time, h_ts]

theorem timeInterval_step9 (env : Env) (T1 T2 : String) (u1 : ℚ) (s : State)
    (h : s.view =
      { word := some "", e := none, done := false, source := [], status := Status.ok,
        look_for := LookFor.ERROR, broke := false, props := some PropsSel.time,
        time_props := (((KeyMap.empty).put "ID" "TimeInterval").put "START" T1).put "STOP" T2,
        space_props := KeyMap.empty, spec_props := KeyMap.empty, red_props := KeyMap.empty,
        timeid := TIME_INTERVAL_ID, spaceid := NULL_ID, velid := NULL_ID, specid := NULL_ID,
        redid := NULL_ID, timefrm := some astTimeFrame, spacefrm := false, specfrm := false,
        redfrm := false, is_skyframe := false, sys := System.unset, naxes := 0, epoch := some u1,
        use_co := false, use_enc := false, time_enc := false, space_enc := false,
        spec_enc := false, red_enc := false, start := true, time := false, ts := TimeScale.BADTS }) :
    (step env s "").view =
      { word := some "", e := none, done := false, source := [], status := Status.ok,
        look_for := LookFor.RESOLUTION, broke := false, props := some PropsSel.time,
        time_props := (((KeyMap.empty).put "ID" "TimeInterval").put "START" T1).put "STOP" T2,
        space_props := KeyMap.empty, spec_props := KeyMap.empty, red_props := KeyMap.empty,
        timeid := TIME_INTERVAL_ID, spaceid := NULL_ID, velid := NULL_ID, specid := NULL_ID,
        redid := NULL_ID, timefrm := some astTimeFrame, spacefrm := false, specfrm := false,
        redfrm := false, is_skyframe := false, sys := System.unset, naxes := 0, epoch := some u1,
        use_co := false, use_enc := false, time_enc := false, space_enc := false,
        spec_enc := false, red_enc := false, start := true, time := false, ts := TimeScale.BADTS } := by
  simp only [State.view, View.mk.injEq] at h
  obtain ⟨h_word, h_e, h_done, h_source, h_status, h_look_for, h_broke, h_props, h_time_props, h_space_props, h_spec_props, h_red_props, h_timeid, h_spaceid, h_velid, h_specid, h_redid, h_timefrm, h_spacefrm, h_specfrm, h_redfrm, h_is_skyframe, h_sys, h_naxes, h_epoch, h_use_co, h_use_enc, h_time_enc, h_space_enc, h_spec_enc, h_red_enc, h_start, h_time, h_ts⟩ := h
  obtain ⟨f_start, hf_start⟩ := Option.isSome_iff_exists.1 h_start
  replace h_spacefrm := isSome_false h_spacefrm
  replace h_specfrm := isSome_false h_specfrm
  replace h_redfrm := isSome_false h_redfrm
  replace h_time_enc := isSome_false h_time_enc
  replace h_space_enc := isSome_false h_space_enc
  replace h_spec_enc := isSome_false h_spec_enc
  replace h_red_enc := isSome_false h_red_enc
  replace h_time := isSome_false h_time
  simp [GetNextWord, skipSpace, isspace, WordContext.store, SetUnc_isSome, applyFill_isSome, relTime_isSome, mkRegion, State.view, step, stepBody, branch, putIf, State.warn, State.chr2Double, NULL_ID, TIME_INTERVAL_ID, START_TIME_ID, STOP_TIME_ID, POSITION_INTERVAL_ID, ALL_SKY_ID, CIRCLE_ID, ELLIPSE_ID, BOX_ID, POLYGON_ID, CONVEX_ID, POSITION_ID, TIME_ID, SPECTRAL_INTERVAL_ID, SPECTRAL_ID, REDSHIFT_INTERVAL_ID, REDSHIFT_ID, VELOCITY_INTERVAL_ID, stepError, hf_start, h_word, h_e, h_done, h_source, h_status, h_look_for, h_broke, h_props, h_time_props, h_space_props, h_spec_props, h_red_props, h_timeid, h_spaceid, h_velid, h_specid, h_redid, h_timefrm, h_spacefrm, h_specfrm, h_redfrm, h_is_skyframe, h_sys, h_naxes, h_epoch, h_use_co, h_use_enc, h_time_enc, h_space_enc, h_spec_enc, h_red_enc, h_start, h_time, h_ts]

theorem timeInterval_step10 (env : Env) (T1 T2 : String) (u1 : ℚ) (s : State)
    (h : s.view =
      { word := some "", e := none, done := false, source := [], status := Status.ok,
        look_for := LookFor.RESOLUTION, broke := false, props := some PropsSel.time,
        time_props := (((KeyMap.empty).put "ID" "TimeInterval").put "START" T1).put "STOP" T2,
        space_props := KeyMap.empty, spec_props := KeyMap.empty, red_props := KeyMap.empty,
        timeid := TIME_INTERVAL_ID, spaceid := NULL_ID, velid := NULL_ID, specid := NULL_ID,
        redid := NULL_ID, timefrm := some astTimeFrame, spacefrm := false, specfrm := false,
        redfrm := false, is_skyframe := false, sys := System.unset, naxes := 0, epoch := some u1,
        use_co := false, use_enc := false, time_enc := false, space_enc := false,
        spec_enc := false, red_enc := false, start := true, time := false, ts := TimeScale.BADTS }) :
    (step env s "").view =
      { word := some "", e := none, done := false, source := [], status := Status.ok,
        look_for := LookFor.PIX_SIZE, broke := false, props := some PropsSel.time,
        time_props := (((KeyMap.empty).put "ID" "TimeInterval").put "START" T1).put "STOP" T2,
        space_props := KeyMap.empty, spec_props := KeyMap.empty, red_props := KeyMap.empty,
        timeid := TIME_INTERVAL_ID, spaceid := NULL_ID, velid := NULL_ID, specid := NULL_ID,
        redid := NULL_ID, timefrm := some astTimeFrame, spacefrm := false, specfrm := false,
        redfrm := false, is_skyframe := false, sys := System.unset, naxes := 0, epoch := some u1,
        use_co := false, use_enc := false, time_enc := false, space_enc := false,
        spec_enc := false, red_enc := false, start := true, time := false, ts := TimeScale.BADTS } := by
  simp only [State.view, View.mk.injEq] at h
  obtain ⟨h_word, h_e, h_done, h_source, h_status, h_look_for, h_broke, h_props, h_time_props, h_space_props, h_spec_props, h_red_props, h_timeid, h_spaceid, h_velid, h_specid, h_redid, h_timefrm, h_spacefrm, h_specfrm, h_redfrm, h_is_skyframe, h_sys, h_naxes, h_epoch, h_use_co, h_use_enc, h_time_enc, h_space_enc, h_spec_enc, h_red_enc, h_start, h_time, h_ts⟩ := h
  obtain ⟨f_start, hf_start⟩ := Option.isSome_iff_exists.1 h_start
  replace h_spacefrm := isSome_false h_spacefrm
  replace h_specfrm := isSome_false h_specfrm
  replace h_redfrm := isSome_false h_redfrm
  replace h_time_enc := isSome_false h_time_enc
  replace h_space_enc := isSome_false h_space_enc
  replace h_spec_enc := isSome_false h_spec_enc
  replace h_red_enc := isSome_false h_red_enc
  replace h_time := isSome_false h_time
  simp [GetNextWord, skipSpace, isspace, WordContext.store, SetUnc_isSome, applyFill_isSome, relTime_isSome, mkRegion, State.view, step, stepBody, branch, putIf, State.warn, State.chr2Double, NULL_ID, TIME_INTERVAL_ID, START_TIME_ID, STOP_TIME_ID, POSITION_INTERVAL_ID, ALL_SKY_ID, CIRCLE_ID, ELLIPSE_ID, BOX_ID, POLYGON_ID, CONVEX_ID, POSITION_ID, TIME_ID, SPECTRAL_INTERVAL_ID, SPECTRAL_ID, REDSHIFT_INTERVAL_ID, REDSHIFT_ID, VELOCITY_INTERVAL_ID, stepResolution, hf_start, h_word, h_e, h_done, h_source, h_status, h_look_for, h_broke, h_props, h_time_props, h_space_props, h_spec_props, h_red_props, h_timeid, h_spaceid, h_velid, h_specid, h_redid, h_timefrm, h_spacefrm, h_specfrm, h_redfrm, h_is_skyframe, h_sys, h_naxes, h_epoch, h_use_co, h_use_enc, h_time_enc, h_space_enc, h_spec_enc, h_red_enc, h_start, h_time, h_ts]

theorem timeInterval_step11 (env : Env) (T1 T2 : String) (u1 : ℚ) (s : State)
    (h : s.view =
      { word := some "", e := none, done := false, source := [], status := Status.ok,
        look_for := LookFor.PIX_SIZE, broke := false, props := some PropsSel.time,
        time_props := (((KeyMap.empty).put "ID" "TimeInterval").put "START" T1).put "STOP" T2,
        space_props := KeyMap.empty, spec_props := KeyMap.empty, red_props := KeyMap.empty,
        timeid := TIME_INTERVAL_ID, spaceid := NULL_ID, velid := NULL_ID, specid := NULL_ID,
        redid := NULL_ID, timefrm := some astTimeFrame, spacefrm := false, specfrm := false,
        redfrm := false, is_skyframe := false, sys := System.unset, naxes := 0, epoch := some u1,
        use_co := false, use_enc := false, time_enc := false, space_enc := false,
        spec_enc := false, red_enc := false, start := true, time := false, ts := TimeScale.BADTS }) :
    (step env s "").view =
      { word := some "", e := none, done := false, source := [], status := Status.ok,
        look_for := LookFor.SPACE_IDENTIFIER, broke := false, props := some PropsSel.time,
        time_props := (((KeyMap.empty).put "ID" "TimeInterval").put "START" T1).put "STOP" T2,
        space_props := KeyMap.empty, spec_props := KeyMap.empty, red_props := KeyMap.empty,
        timeid := TIME_INTERVAL_ID, spaceid := NULL_ID, velid := NULL_ID, specid := NULL_ID,
        redid := NULL_ID, timefrm := some astTimeFrame, spacefrm := false, specfrm := false,
        redfrm := false, is_skyframe := false, sys := System.unset, naxes := 0, epoch := some u1,
        use_co := false, use_enc := false, time_enc := false, space_enc := false,
        spec_enc := false, red_enc := false, start := true, time := false, ts := TimeScale.BADTS } := by
  simp only [State.view, View.mk.injEq] at h
  obtain ⟨h_word, h_e, h_done, h_source, h_status, h_look_for, h_broke, h_props, h_time_props, h_space_props, h_spec_props, h_red_props, h_timeid, h_spaceid, h_velid, h_specid, h_redid, h_timefrm, h_spacefrm, h_specfrm, h_redfrm, h_is_skyframe, h_sys, h_naxes, h_epoch, h_use_co, h_use_enc, h_time_enc, h_space_enc, h_spec_enc, h_red_enc, h_start, h_time, h_ts⟩ := h
  obtain ⟨f_start, hf_start⟩ := Option.isSome_iff_exists.1 h_start
  replace h_spacefrm := isSome_false h_spacefrm
  replace h_specfrm := isSome_false h_specfrm
  replace h_redfrm := isSome_false h_redfrm
  replace h_time_enc := isSome_false h_time_enc
  replace h_space_enc := isSome_false h_space_enc
  replace h_spec_enc := isSome_false h_spec_enc
  replace h_red_enc := isSome_false h_red_enc
  replace h_time := isSome_false h_time
  simp [GetNextWord, skipSpace, isspace, WordContext.store, SetUnc_isSome, applyFill_isSome, relTime_isSome, mkRegion, State.view, step, stepBody, branch, putIf, State.warn, State.chr2Double, NULL_ID, TIME_INTERVAL_ID, START_TIME_ID, STOP_TIME_ID, POSITION_INTERVAL_ID, ALL_SKY_ID, CIRCLE_ID, ELLIPSE_ID, BOX_ID, POLYGON_ID, CONVEX_ID, POSITION_ID, TIME_ID, SPECTRAL_INTERVAL_ID, SPECTRAL_ID, REDSHIFT_INTERVAL_ID, REDSHIFT_ID, VELOCITY_INTERVAL_ID, stepPixSize, hf_start, h_word, h_e, h_done, h_source, h_status, h_look_for, h_broke, h_props, h_time_props, h_space_props, h_spec_props, h_red_props, h_timeid, h_spaceid, h_velid, h_specid, h_redid, h_timefrm, h_spacefrm, h_specfrm, h_redfrm, h_is_skyframe, h_sys, h_naxes, h_epoch, h_use_co, h_use_enc, h_time_enc, h_space_enc, h_spec_enc, h_red_enc, h_start, h_time, h_ts]

theorem timeInterval_step12 (env : Env) (T1 T2 : String) (u1 : ℚ) (s : State)
    (h : s.view =
      { word := some "", e := none, done := false, source := [], status := Status.ok,
        look_for := LookFor.SPACE_IDENTIFIER, broke := false, props := some PropsSel.time,
        time_props := (((KeyMap.empty).put "ID" "TimeInterval").put "START" T1).put "STOP" T2,
        space_props := KeyMap.empty, spec_props := KeyMap.empty, red_props := KeyMap.empty,
        timeid := TIME_INTERVAL_ID, spaceid := NULL_ID, velid := NULL_ID, specid := NULL_ID,
        redid := NULL_ID, timefrm := some astTimeFrame, spacefrm := false, specfrm := false,
        redfrm := false, is_skyframe := false, sys := System.unset, naxes := 0, epoch := some u1,
        use_co := false, use_enc := false, time_enc := false, space_enc := false,
        spec_enc := false, red_enc := false, start := true, time := false, ts := TimeScale.BADTS }) :
    (step env s "").view =
      { word := some "", e := none, done := false, source := [], status := Status.ok,
        look_for := LookFor.SPECTRAL_IDENTIFIER, broke := false, props := some PropsSel.time,
        time_props := (((KeyMap.empty).put "ID" "TimeInterval").put "START" T1).put "STOP" T2,
        space_props := KeyMap.empty, spec_props := KeyMap.empty, red_props := KeyMap.empty,
        timeid := NULL_ID, spaceid := NULL_ID, velid := NULL_ID, specid := NULL_ID,
        redid := NULL_ID, timefrm := none, spacefrm := false, specfrm := false, redfrm := false,
        is_skyframe := false, sys := System.unset, naxes := 0,
        epoch := some (env.toTDB astTimeFrame u1), use_co := false, use_enc := true,
        time_enc := true, space_enc := false, spec_enc := false, red_enc := false, start := true,
        time := false, ts := TimeScale.BADTS } := by
  simp only [State.view, View.mk.injEq] at h
  obtain ⟨h_word, h_e, h_done, h_source, h_status, h_look_for, h_broke, h_props, h_time_props, h_space_props, h_spec_props, h_red_props, h_timeid, h_spaceid, h_velid, h_specid, h_redid, h_timefrm, h_spacefrm, h_specfrm, h_redfrm, h_is_skyframe, h_sys, h_naxes, h_epoch, h_use_co, h_use_enc, h_time_enc, h_space_enc, h_spec_enc, h_red_enc, h_start, h_time, h_ts⟩ := h
  obtain ⟨f_start, hf_start⟩ := Option.isSome_iff_exists.1 h_start
  replace h_spacefrm := isSome_false h_spacefrm
  replace h_specfrm := isSome_false h_specfrm
  replace h_redfrm := isSome_false h_redfrm
  replace h_time_enc := isSome_false h_time_enc
  replace h_space_enc := isSome_false h_space_enc
  replace h_spec_enc := isSome_false h_spec_enc
  replace h_red_enc := isSome_false h_red_enc
  replace h_time := isSome_false h_time
  simp [GetNextWord, skipSpace, isspace, WordContext.store, SetUnc_isSome, applyFill_isSome, relTime_isSome, mkRegion, State.view, step, stepBody, branch, putIf, State.warn, State.chr2Double, NULL_ID, TIME_INTERVAL_ID, START_TIME_ID, STOP_TIME_ID, POSITION_INTERVAL_ID, ALL_SKY_ID, CIRCLE_ID, ELLIPSE_ID, BOX_ID, POLYGON_ID, CONVEX_ID, POSITION_ID, TIME_ID, SPECTRAL_INTERVAL_ID, SPECTRAL_ID, REDSHIFT_INTERVAL_ID, REDSHIFT_ID, VELOCITY_INTERVAL_ID, stepSpaceIdentifier, finishTime, timeRegions, relTime, hf_start, h_word, h_e, h_done, h_source, h_status, h_look_for, h_broke, h_props, h_time_props, h_space_props, h_spec_props, h_red_props, h_timeid, h_spaceid, h_velid, h_specid, h_redid, h_timefrm, h_spacefrm, h_specfrm, h_redfrm, h_is_skyframe, h_sys, h_naxes, h_epoch, h_use_co, h_use_enc, h_time_enc, h_space_enc, h_spec_enc, h_red_enc, h_start, h_time, h_ts]

theorem timeInterval_step13 (env : Env) (T1 T2 : String) (u1 : ℚ) (s : State)
    (h : s.view =
      { word := some "", e := none, done := false, source := [], status := Status.ok,
        look_for := LookFor.SPECTRAL_IDENTIFIER, broke := false, props := some PropsSel.time,
        time_props := (((KeyMap.empty).put "ID" "TimeInterval").put "START" T1).put "STOP" T2,
        space_props := KeyMap.empty, spec_props := KeyMap.empty, red_props := KeyMap.empty,
        timeid := NULL_ID, spaceid := NULL_ID, velid := NULL_ID, specid := NULL_ID,
        redid := NULL_ID, timefrm := none, spacefrm := false, specfrm := false, redfrm := false,
        is_skyframe := false, sys := System.unset, naxes := 0,
        epoch := some (env.toTDB astTimeFrame u1), use_co := false, use_enc := true,
        time_enc := true, space_enc := false, spec_enc := false, red_enc := false, start := true,
        time := false, ts := TimeScale.BADTS }) :
    (step env s "").view =
      { word := some "", e := none, done := false, source := [], status := Status.ok,
        look_for := LookFor.REDSHIFT_IDENTIFIER, broke := false, props := some PropsSel.time,
        time_props := (((KeyMap.empty).put "ID" "TimeInterval").put "START" T1).put "STOP" T2,
        space_props := KeyMap.empty, spec_props := KeyMap.empty, red_props := KeyMap.empty,
        timeid := NULL_ID, spaceid := NULL_ID, velid := NULL_ID, specid := NULL_ID,
        redid := NULL_ID, timefrm := none, spacefrm := false, specfrm := false, redfrm := false,
        is_skyframe := false, sys := System.unset, naxes := 0,
        epoch := some (env.toTDB astTimeFrame u1), use_co := false, use_enc := true,
        time_enc := true, space_enc := false, spec_enc := false, red_enc := false, start := true,
        time := false, ts := TimeScale.BADTS } := by
  simp only [State.view, View.mk.injEq] at h
  obtain ⟨h_word, h_e, h_done, h_source, h_status, h_look_for, h_broke, h_props, h_time_props, h_space_props, h_spec_props, h_red_props, h_timeid, h_spaceid, h_velid, h_specid, h_redid, h_timefrm, h_spacefrm, h_specfrm, h_redfrm, h_is_skyframe, h_sys, h_naxes, h_epoch, h_use_co, h_use_enc, h_time_enc, h_space_enc, h_spec_enc, h_red_enc, h_start, h_time, h_ts⟩ := h
  obtain ⟨f_start, hf_start⟩ := Option.isSome_iff_exists.1 h_start
  replace h_spacefrm := isSome_false h_spacefrm
  replace h_specfrm := isSome_false h_specfrm
  replace h_redfrm := isSome_false h_redfrm
  replace h_space_enc := isSome_false h_space_enc
  replace h_spec_enc := isSome_false h_spec_enc
  replace h_red_enc := isSome_false h_red_enc
  replace h_time := isSome_false h_time
  simp [GetNextWord, skipSpace, isspace, WordContext.store, SetUnc_isSome, applyFill_isSome, relTime_isSome, mkRegion, State.view, step, stepBody, branch, putIf, State.warn, State.chr2Double, NULL_ID, TIME_INTERVAL_ID, START_TIME_ID, STOP_TIME_ID, POSITION_INTERVAL_ID, ALL_SKY_ID, CIRCLE_ID, ELLIPSE_ID, BOX_ID, POLYGON_ID, CONVEX_ID, POSITION_ID, TIME_ID, SPECTRAL_INTERVAL_ID, SPECTRAL_ID, REDSHIFT_INTERVAL_ID, REDSHIFT_ID, VELOCITY_INTERVAL_ID, stepSpectralIdentifier, hf_start, h_word, h_e, h_done, h_source, h_status, h_look_for, h_broke, h_props, h_time_props, h_space_props, h_spec_props, h_red_props, h_timeid, h_spaceid, h_velid, h_specid, h_redid, h_timefrm, h_spacefrm, h_specfrm, h_redfrm, h_is_skyframe, h_sys, h_naxes, h_epoch, h_use_co, h_use_enc, h_time_enc, h_space_enc, h_spec_enc, h_red_enc, h_start, h_time, h_ts]

theorem timeInterval_step14 (env : Env) (T1 T2 : String) (u1 : ℚ) (s : State)
    (h : s.view =
      { word := some "", e := none, done := false, source := [], status := Status.ok,
        look_for := LookFor.REDSHIFT_IDENTIFIER, broke := false, props := some PropsSel.time,
        time_props := (((KeyMap.empty).put "ID" "TimeInterval").put "START" T1).put "STOP" T2,
        space_props := KeyMap.empty, spec_props := KeyMap.empty, red_props := KeyMap.empty,
        timeid := NULL_ID, spaceid := NULL_ID, velid := NULL_ID, specid := NULL_ID,
        redid := NULL_ID, timefrm := none, spacefrm := false, specfrm := false, redfrm := false,
        is_skyframe := false, sys := System.unset, naxes := 0,
        epoch := some (env.toTDB astTimeFrame u1), use_co := false, use_enc := true,
        time_enc := true, space_enc := false, spec_enc := false, red_enc := false, start := true,
        time := false, ts := TimeScale.BADTS }) :
    (step env s "").view =
      { word := none, e := none, done := true, source := [], status := Status.ok,
        look_for := LookFor.REDSHIFT_IDENTIFIER, broke := false, props := some PropsSel.time,
        time_props := (((KeyMap.empty).put "ID" "TimeInterval").put "START" T1).put "STOP" T2,
        space_props := KeyMap.empty, spec_props := KeyMap.empty, red_props := KeyMap.empty,
        timeid := NULL_ID, spaceid := NULL_ID, velid := NULL_ID, specid := NULL_ID,
        redid := NULL_ID, timefrm := none, spacefrm := false, specfrm := false, redfrm := false,
        is_skyframe := false, sys := System.unset, naxes := 0,
        epoch := some (env.toTDB astTimeFrame u1), use_co := false, use_enc := true,
        time_enc := true, space_enc := false, spec_enc := false, red_enc := false, start := true,
        time := false, ts := TimeScale.BADTS } := by
  simp only [State.view, View.mk.injEq] at h
  obtain ⟨h_word, h_e, h_done, h_source, h_status, h_look_for, h_broke, h_props, h_time_props, h_space_props, h_spec_props, h_red_props, h_timeid, h_spaceid, h_velid, h_specid, h_redid, h_timefrm, h_spacefrm, h_specfrm, h_redfrm, h_is_skyframe, h_sys, h_naxes, h_epoch, h_use_co, h_use_enc, h_time_enc, h_space_enc, h_spec_enc, h_red_enc, h_start, h_time, h_ts⟩ := h
  obtain ⟨f_start, hf_start⟩ := Option.isSome_iff_exists.1 h_start
  replace h_spacefrm := isSome_false h_spacefrm
  replace h_specfrm := isSome_false h_specfrm
  replace h_redfrm := isSome_false h_redfrm
  replace h_space_enc := isSome_false h_space_enc
  replace h_spec_enc := isSome_false h_spec_enc
  replace h_red_enc := isSome_false h_red_enc
  replace h_time := isSome_false h_time
  simp [GetNextWord, skipSpace, isspace, WordContext.store, SetUnc_isSome, applyFill_isSome, relTime_isSome, mkRegion, State.view, step, stepBody, branch, putIf, State.warn, State.chr2Double, NULL_ID, TIME_INTERVAL_ID, START_TIME_ID, STOP_TIME_ID, POSITION_INTERVAL_ID, ALL_SKY_ID, CIRCLE_ID, ELLIPSE_ID, BOX_ID, POLYGON_ID, CONVEX_ID, POSITION_ID, TIME_ID, SPECTRAL_INTERVAL_ID, SPECTRAL_ID, REDSHIFT_INTERVAL_ID, REDSHIFT_ID, VELOCITY_INTERVAL_ID, stepRedshiftIdentifier, finishSpec, hf_start, h_word, h_e, h_done, h_source, h_status, h_look_for, h_broke, h_props, h_time_props, h_space_props, h_spec_props, h_red_props, h_timeid, h_spaceid, h_velid, h_specid, h_redid, h_timefrm, h_spacefrm, h_specfrm, h_redfrm, h_is_skyframe, h_sys, h_naxes, h_epoch, h_use_co, h_use_enc, h_time_enc, h_space_enc, h_spec_enc, h_red_enc, h_start, h_time, h_ts]

theorem timeInterval_loop (env : Env) (T1 T2 : String) (u1 u2 : ℚ) (hT1 : IsoToken T1) (hT2 : IsoToken T2)
    (hu1 : env.unformat astTimeFrame T1 = some u1)
    (hu2 : env.unformat astTimeFrame T2 = some u2) :
    (readLoop env 14 (initState ["TimeInterval " ++ T1 ++ " " ++ T2])).view =
      { word := none, e := none, done := true, source := [], status := Status.ok,
        look_for := LookFor.REDSHIFT_IDENTIFIER, broke := false, props := some PropsSel.time,
        time_props := (((KeyMap.empty).put "ID" "TimeInterval").put "START" T1).put "STOP" T2,
        space_props := KeyMap.empty, spec_props := KeyMap.empty, red_props := KeyMap.empty,
        timeid := NULL_ID, spaceid := NULL_ID, velid := NULL_ID, specid := NULL_ID,
        redid := NULL_ID, timefrm := none, spacefrm := false, specfrm := false, redfrm := false,
        is_skyframe := false, sys := System.unset, naxes := 0,
        epoch := some (env.toTDB astTimeFrame u1), use_co := false, use_enc := true,
        time_enc := true, space_enc := false, spec_enc := false, red_enc := false, start := true,
        time := false, ts := TimeScale.BADTS } := by
  have k0 := initState_view ("TimeInterval " ++ T1 ++ " " ++ T2) "TimeInterval" (T1.data ++ ' ' :: T2.data) (by decide) (by simp [String.data_append])
  rw [readLoop_view_succ env 13 _ ("TimeInterval") _ k0 rfl rfl rfl]
  have k1 := timeInterval_step1 env T1 T2 hT1 _ k0
  rw [readLoop_view_succ env 12 _ (T1) _ k1 rfl rfl rfl]
  have k2 := timeInterval_step2 env T1 T2 hT1 _ k1
  rw [readLoop_view_succ env 11 _ (T1) _ k2 rfl rfl rfl]
  have k3 := timeInterval_step3 env T1 T2 hT1 _ k2
  rw [readLoop_view_succ env 10 _ (T1) _ k3 rfl rfl rfl]
  have k4 := timeInterval_step4 env T1 T2 hT1 _ k3
  rw [readLoop_view_succ env 9 _ (T1) _ k4 rfl rfl rfl]
  have k5 := timeInterval_step5 env T1 T2 u1 hT1 hT2 hu1 _ k4
  rw [readLoop_view_succ env 8 _ (T2) _ k5 rfl rfl rfl]
  have k6 := timeInterval_step6 env T1 T2 u1 u2 hT2 hu2 _ k5
  rw [readLoop_view_succ env 7 _ ("") _ k6 rfl rfl rfl]
  have k7 := timeInterval_step7 env T1 T2 u1 _ k6
  rw [readLoop_view_succ env 6 _ ("") _ k7 rfl rfl rfl]
  have k8 := timeInterval_step8 env T1 T2 u1 _ k7
  rw [readLoop_view_succ env 5 _ ("") _ k8 rfl rfl rfl]
  have k9 := timeInterval_step9 env T1 T2 u1 _ k8
  rw [readLoop_view_succ env 4 _ ("") _ k9 rfl rfl rfl]
  have k10 := timeInterval_step10 env T1 T2 u1 _ k9
  rw [readLoop_view_succ env 3 _ ("") _ k10 rfl rfl rfl]
  have k11 := timeInterval_step11 env T1 T2 u1 _ k10
  rw [readLoop_view_succ env 2 _ ("") _ k11 rfl rfl rfl]
  have k12 := timeInterval_step12 env T1 T2 u1 _ k11
  rw [readLoop_view_succ env 1 _ ("") _ k12 rfl rfl rfl]
  have k13 := timeInterval_step13 env T1 T2 u1 _ k12
  rw [readLoop_view_succ env 0 _ ("") _ k13 rfl rfl rfl]
  have k14 := timeInterval_step14 env T1 T2 u1 _ k13
  exact k14

theorem timeInterval_decoded (env : Env) (T1 T2 : String) (u1 : ℚ) (s : State)
    (h : s.view =
      { word := none, e := none, done := true, source := [], status := Status.ok,
        look_for := LookFor.REDSHIFT_IDENTIFIER, broke := false, props := some PropsSel.time,
        time_props := (((KeyMap.empty).put "ID" "TimeInterval").put "START" T1).put "STOP" T2,
        space_props := KeyMap.empty, spec_props := KeyMap.empty, red_props := KeyMap.empty,
        timeid := NULL_ID, spaceid := NULL_ID, velid := NULL_ID, specid := NULL_ID,
        redid := NULL_ID, timefrm := none, spacefrm := false, specfrm := false, redfrm := false,
        is_skyframe := false, sys := System.unset, naxes := 0,
        epoch := some (env.toTDB astTimeFrame u1), use_co := false, use_enc := true,
        time_enc := true, space_enc := false, spec_enc := false, red_enc := false, start := true,
        time := false, ts := TimeScale.BADTS }) :
    (decodeEnd env s).status = Status.ok
    ∧ (decodeEnd env s).full_props = some ⟨[("TIME_PROPS", (((KeyMap.empty).put "ID" "TimeInterval").put "START" T1).put "STOP" T2)]⟩ := by
  simp only [State.view, View.mk.injEq] at h
  obtain ⟨h_word, h_e, h_done, h_source, h_status, h_look_for, h_broke, h_props, h_time_props, h_space_props, h_spec_props, h_red_props, h_timeid, h_spaceid, h_velid, h_specid, h_redid, h_timefrm, h_spacefrm, h_specfrm, h_redfrm, h_is_skyframe, h_sys, h_naxes, h_epoch, h_use_co, h_use_enc, h_time_enc, h_space_enc, h_spec_enc, h_red_enc, h_start, h_time, h_ts⟩ := h
  obtain ⟨r, hr⟩ := Option.isSome_iff_exists.1 h_time_enc
  replace h_redfrm := isSome_false h_redfrm
  replace h_space_enc := isSome_false h_space_enc
  replace h_spec_enc := isSome_false h_spec_enc
  replace h_red_enc := isSome_false h_red_enc
  simp [decodeEnd, finishRed, simplifyFull, foldPrism, PropTree.put, KeyMap.size, KeyMap.put,
    KeyMap.hasKey, KeyMap.empty, hr, h_word, h_e, h_done, h_source, h_status, h_look_for, h_broke, h_props, h_time_props, h_space_props, h_spec_props, h_red_props, h_timeid, h_spaceid, h_velid, h_specid, h_redid, h_timefrm, h_spacefrm, h_specfrm, h_redfrm, h_is_skyframe, h_sys, h_naxes, h_epoch, h_use_co, h_use_enc, h_space_enc, h_spec_enc, h_red_enc, h_start, h_time, h_ts]

/-! ## The passes of the main loop for the document `Circle ICRS TOPOCENTER SPHER2 10 20 0.5`

Each lemma follows one pass of the loop on the view of the state. -/

theorem circle_step1 (env : Env) (s : State)
    (h : s.view =
      { word := some "Circle",
        e := some [' ', 'I', 'C', 'R', 'S', ' ', 'T', 'O', 'P', 'O', 'C', 'E', 'N', 'T', 'E', 'R', ' ', 'S', 'P', 'H', 'E', 'R', '2', ' ', '1', '0', ' ', '2', '0', ' ', '0', '.', '5'],
        done := false, source := [], status := Status.ok, look_for := LookFor.TIME_IDENTIFIER,
        broke := false, props := none, time_props := KeyMap.empty, space_props := KeyMap.empty,
        spec_props := KeyMap.empty, red_props := KeyMap.empty, timeid := NULL_ID,
        spaceid := NULL_ID, velid := NULL_ID, specid := NULL_ID, redid := NULL_ID,
        timefrm := none, spacefrm := false, specfrm := false, redfrm := false,
        is_skyframe := false, sys := System.unset, naxes := 0, epoch := none, use_co := false,
        use_enc := false, time_enc := false, space_enc := false, spec_enc := false,
        red_enc := false, start := false, time := false, ts := TimeScale.BADTS }) :
    (step env s "Circle").view =
      { word := some "Circle",
        e := some [' ', 'I', 'C', 'R', 'S', ' ', 'T', 'O', 'P', 'O', 'C', 'E', 'N', 'T', 'E', 'R', ' ', 'S', 'P', 'H', 'E', 'R', '2', ' ', '1', '0', ' ', '2', '0', ' ', '0', '.', '5'],
        done := false, source := [], status := Status.ok, look_for := LookFor.SPACE_IDENTIFIER,
        broke := false, props := none, time_props := KeyMap.empty, space_props := KeyMap.empty,
        spec_props := KeyMap.empty, red_props := KeyMap.empty, timeid := NULL_ID,
        spaceid := NULL_ID, velid := NULL_ID, specid := NULL_ID, redid := NULL_ID,
        timefrm := none, spacefrm := false, specfrm := false, redfrm := false,
        is_skyframe := false, sys := System.unset, naxes := 0, epoch := none, use_co := false,
        use_enc := false, time_enc := false, space_enc := false, spec_enc := false,
        red_enc := false, start := false, time := false, ts := TimeScale.BADTS } := by
  simp only [State.view, View.mk.injEq] at h
  obtain ⟨h_word, h_e, h_done, h_source, h_status, h_look_for, h_broke, h_props, h_time_props, h_space_props, h_spec_props, h_red_props, h_timeid, h_spaceid, h_velid, h_specid, h_redid, h_timefrm, h_spacefrm, h_specfrm, h_redfrm, h_is_skyframe, h_sys, h_naxes, h_epoch, h_use_co, h_use_enc, h_time_enc, h_space_enc, h_spec_enc, h_red_enc, h_start, h_time, h_ts⟩ := h
  replace h_spacefrm := isSome_false h_spacefrm
  replace h_specfrm := isSome_false h_specfrm
  replace h_redfrm := isSome_false h_redfrm
  replace h_time_enc := isSome_false h_time_enc
  replace h_space_enc := isSome_false h_space_enc
  replace h_spec_enc := isSome_false h_spec_enc
  replace h_red_enc := isSome_false h_red_enc
  replace h_start := isSome_false h_start
  replace h_time := isSome_false h_time
  simp [GetNextWord, skipSpace, isspace, WordContext.store, SetUnc_isSome, applyFill_isSome, relTime_isSome, mkRegion, State.view, step, stepBody, branch, putIf, State.warn, State.chr2Double, NULL_ID, TIME_INTERVAL_ID, START_TIME_ID, STOP_TIME_ID, POSITION_INTERVAL_ID, ALL_SKY_ID, CIRCLE_ID, ELLIPSE_ID, BOX_ID, POLYGON_ID, CONVEX_ID, POSITION_ID, TIME_ID, SPECTRAL_INTERVAL_ID, SPECTRAL_ID, REDSHIFT_INTERVAL_ID, REDSHIFT_ID, VELOCITY_INTERVAL_ID, stepTimeIdentifier, h_word, h_e, h_done, h_source, h_status, h_look_for, h_broke, h_props, h_time_props, h_space_props, h_spec_props, h_red_props, h_timeid, h_spaceid, h_velid, h_specid, h_redid, h_timefrm, h_spacefrm, h_specfrm, h_redfrm, h_is_skyframe, h_sys, h_naxes, h_epoch, h_use_co, h_use_enc, h_time_enc, h_space_enc, h_spec_enc, h_red_enc, h_start, h_time, h_ts]

theorem circle_step2 (env : Env) (s : State)
    (h : s.view =
      { word := some "Circle",
        e := some [' ', 'I', 'C', 'R', 'S', ' ', 'T', 'O', 'P', 'O', 'C', 'E', 'N', 'T', 'E', 'R', ' ', 'S', 'P', 'H', 'E', 'R', '2', ' ', '1', '0', ' ', '2', '0', ' ', '0', '.', '5'],
        done := false, source := [], status := Status.ok, look_for := LookFor.SPACE_IDENTIFIER,
        broke := false, props := none, time_props := KeyMap.empty, space_props := KeyMap.empty,
        spec_props := KeyMap.empty, red_props := KeyMap.empty, timeid := NULL_ID,
        spaceid := NULL_ID, velid := NULL_ID, specid := NULL_ID, redid := NULL_ID,
        timefrm := none, spacefrm := false, specfrm := false, redfrm := false,
        is_skyframe := false, sys := System.unset, naxes := 0, epoch := none, use_co := false,
        use_enc := false, time_enc := false, space_enc := false, spec_enc := false,
        red_enc := false, start := false, time := false, ts := TimeScale.BADTS }) :
    (step env s "Circle").view =
      { word := some "ICRS",
        e := some [' ', 'T', 'O', 'P', 'O', 'C', 'E', 'N', 'T', 'E', 'R', ' ', 'S', 'P', 'H', 'E', 'R', '2', ' ', '1', '0', ' ', '2', '0', ' ', '0', '.', '5'],
        done := false, source := [], status := Status.ok, look_for := LookFor.FILL_FACTOR,
        broke := false, props := some PropsSel.space, time_props := KeyMap.empty,
        space_props := (KeyMap.empty).put "ID" "Circle", spec_props := KeyMap.empty,
        red_props := KeyMap.empty, timeid := NULL_ID, spaceid := CIRCLE_ID, velid := NULL_ID,
        specid := NULL_ID, redid := NULL_ID, timefrm := none, spacefrm := false,
        specfrm := false, redfrm := false, is_skyframe := false, sys := System.unset, naxes := 0,
        epoch := none, use_co := false, use_enc := false, time_enc := false, space_enc := false,
        spec_enc := false, red_enc := false, start := false, time := false,
        ts := TimeScale.BADTS } := by
  simp only [State.view, View.mk.injEq] at h
  obtain ⟨h_word, h_e, h_done, h_source, h_status, h_look_for, h_broke, h_props, h_time_props, h_space_props, h_spec_props, h_red_props, h_timeid, h_spaceid, h_velid, h_specid, h_redid, h_timefrm, h_spacefrm, h_specfrm, h_redfrm, h_is_skyframe, h_sys, h_naxes, h_epoch, h_use_co, h_use_enc, h_time_enc, h_space_enc, h_spec_enc, h_red_enc, h_start, h_time, h_ts⟩ := h
  replace h_spacefrm := isSome_false h_spacefrm
  replace h_specfrm := isSome_false h_specfrm
  replace h_redfrm := isSome_false h_redfrm
  replace h_time_enc := isSome_false h_time_enc
  replace h_space_enc := isSome_false h_space_enc
  replace h_spec_enc := isSome_false h_spec_enc
  replace h_red_enc := isSome_false h_red_enc
  replace h_start := isSome_false h_start
  replace h_time := isSome_false h_time
  simp [GetNextWord, skipSpace, isspace, WordContext.store, SetUnc_isSome, applyFill_isSome, relTime_isSome, mkRegion, State.view, step, stepBody, branch, putIf, State.warn, State.chr2Double, NULL_ID, TIME_INTERVAL_ID, START_TIME_ID, STOP_TIME_ID, POSITION_INTERVAL_ID, ALL_SKY_ID, CIRCLE_ID, ELLIPSE_ID, BOX_ID, POLYGON_ID, CONVEX_ID, POSITION_ID, TIME_ID, SPECTRAL_INTERVAL_ID, SPECTRAL_ID, REDSHIFT_INTERVAL_ID, REDSHIFT_ID, VELOCITY_INTERVAL_ID, stepSpaceIdentifier, finishTime, h_word, h_e, h_done, h_source, h_status, h_look_for, h_broke, h_props, h_time_props, h_space_props, h_spec_props, h_red_props, h_timeid, h_spaceid, h_velid, h_specid, h_redid, h_timefrm, h_spacefrm, h_specfrm, h_redfrm, h_is_skyframe, h_sys, h_naxes, h_epoch, h_use_co, h_use_enc, h_time_enc, h_space_enc, h_spec_enc, h_red_enc, h_start, h_time, h_ts]

theorem circle_step3 (env : Env) (s : State)
    (h : s.view =
      { word := some "ICRS",
        e := some [' ', 'T', 'O', 'P', 'O', 'C', 'E', 'N', 'T', 'E', 'R', ' ', 'S', 'P', 'H', 'E', 'R', '2', ' ', '1', '0', ' ', '2', '0', ' ', '0', '.', '5'],
        done := false, source := [], status := Status.ok, look_for := LookFor.FILL_FACTOR,
        broke := false, props := some PropsSel.space, time_props := KeyMap.empty,
        space_props := (KeyMap.empty).put "ID" "Circle", spec_props := KeyMap.empty,
        red_props := KeyMap.empty, timeid := NULL_ID, spaceid := CIRCLE_ID, velid := NULL_ID,
        specid := NULL_ID, redid := NULL_ID, timefrm := none, spacefrm := false,
        specfrm := false, redfrm := false, is_skyframe := false, sys := System.unset, naxes := 0,
        epoch := none, use_co := false, use_enc := false, time_enc := false, space_enc := false,
        spec_enc := false, red_enc := false, start := false, time := false,
        ts := TimeScale.BADTS }) :
    (step env s "ICRS").view =
      { word := some "ICRS",
        e := some [' ', 'T', 'O', 'P', 'O', 'C', 'E', 'N', 'T', 'E', 'R', ' ', 'S', 'P', 'H', 'E', 'R', '2', ' ', '1', '0', ' ', '2', '0', ' ', '0', '.', '5'],
        done := false, source := [], status := Status.ok, look_for := LookFor.FRAME,
        broke := false, props := some PropsSel.space, time_props := KeyMap.empty,
        space_props := (KeyMap.empty).put "ID" "Circle", spec_props := KeyMap.empty,
        red_props := KeyMap.empty, timeid := NULL_ID, spaceid := CIRCLE_ID, velid := NULL_ID,
        specid := NULL_ID, redid := NULL_ID, timefrm := none, spacefrm := false,
        specfrm := false, redfrm := false, is_skyframe := false, sys := System.unset, naxes := 0,
        epoch := none, use_co := false, use_enc := false, time_enc := false, space_enc := false,
        spec_enc := false, red_enc := false, start := false, time := false,
        ts := TimeScale.BADTS } := by
  simp only [State.view, View.mk.injEq] at h
  obtain ⟨h_word, h_e, h_done, h_source, h_status, h_look_for, h_broke, h_props, h_time_props, h_space_props, h_spec_props, h_red_props, h_timeid, h_spaceid, h_velid, h_specid, h_redid, h_timefrm, h_spacefrm, h_specfrm, h_redfrm, h_is_skyframe, h_sys, h_naxes, h_epoch, h_use_co, h_use_enc, h_time_enc, h_space_enc, h_spec_enc, h_red_enc, h_start, h_time, h_ts⟩ := h
  replace h_spacefrm := isSome_false h_spacefrm
  replace h_specfrm := isSome_false h_specfrm
  replace h_redfrm := isSome_false h_redfrm
  replace h_time_enc := isSome_false h_time_enc
  replace h_space_enc := isSome_false h_space_enc
  replace h_spec_enc := isSome_false h_spec_enc
  replace h_red_enc := isSome_false h_red_enc
  replace h_start := isSome_false h_start
  replace h_time := isSome_false h_time
  simp [GetNextWord, skipSpace, isspace, WordContext.store, SetUnc_isSome, applyFill_isSome, relTime_isSome, mkRegion, State.view, step, stepBody, branch, putIf, State.warn, State.chr2Double, NULL_ID, TIME_INTERVAL_ID, START_TIME_ID, STOP_TIME_ID, POSITION_INTERVAL_ID, ALL_SKY_ID, CIRCLE_ID, ELLIPSE_ID, BOX_ID, POLYGON_ID, CONVEX_ID, POSITION_ID, TIME_ID, SPECTRAL_INTERVAL_ID, SPECTRAL_ID, REDSHIFT_INTERVAL_ID, REDSHIFT_ID, VELOCITY_INTERVAL_ID, stepFillFactor, h_word, h_e, h_done, h_source, h_status, h_look_for, h_broke, h_props, h_time_props, h_space_props, h_spec_props, h_red_props, h_timeid, h_spaceid, h_velid, h_specid, h_redid, h_timefrm, h_spacefrm, h_specfrm, h_redfrm, h_is_skyframe, h_sys, h_naxes, h_epoch, h_use_co, h_use_enc, h_time_enc, h_space_enc, h_spec_enc, h_red_enc, h_start, h_time, h_ts]

theorem circle_step4 (env : Env) (s : State)
    (h : s.view =
      { word := some "ICRS",
        e := some [' ', 'T', 'O', 'P', 'O', 'C', 'E', 'N', 'T', 'E', 'R', ' ', 'S', 'P', 'H', 'E', 'R', '2', ' ', '1', '0', ' ', '2', '0', ' ', '0', '.', '5'],
        done := false, source := [], status := Status.ok, look_for := LookFor.FRAME,
        broke := false, props := some PropsSel.space, time_props := KeyMap.empty,
        space_props := (KeyMap.empty).put "ID" "Circle", spec_props := KeyMap.empty,
        red_props := KeyMap.empty, timeid := NULL_ID, spaceid := CIRCLE_ID, velid := NULL_ID,
        specid := NULL_ID, redid := NULL_ID, timefrm := none, spacefrm := false,
        specfrm := false, redfrm := false, is_skyframe := false, sys := System.unset, naxes := 0,
        epoch := none, use_co := false, use_enc := false, time_enc := false, space_enc := false,
        spec_enc := false, red_enc := false, start := false, time := false,
        ts := TimeScale.BADTS }) :
    (step env s "ICRS").view =
      { word := some "TOPOCENTER",
        e := some [' ', 'S', 'P', 'H', 'E', 'R', '2', ' ', '1', '0', ' ', '2', '0', ' ', '0', '.', '5'],
        done := false, source := [], status := Status.ok, look_for := LookFor.REFPOS,
        broke := false, props := some PropsSel.space, time_props := KeyMap.empty,
        space_props := ((KeyMap.empty).put "ID" "Circle").put "FRAME" "ICRS",
        spec_props := KeyMap.empty, red_props := KeyMap.empty, timeid := NULL_ID,
        spaceid := CIRCLE_ID, velid := NULL_ID, specid := NULL_ID, redid := NULL_ID,
        timefrm := none, spacefrm := false, specfrm := false, redfrm := false,
        is_skyframe := false, sys := System.ICRS, naxes := 0, epoch := none, use_co := false,
        use_enc := false, time_enc := false, space_enc := false, spec_enc := false,
        red_enc := false, start := false, time := false, ts := TimeScale.BADTS } := by
  simp only [State.view, View.mk.injEq] at h
  obtain ⟨h_word, h_e, h_done, h_source, h_status, h_look_for, h_broke, h_props, h_time_props, h_space_props, h_spec_props, h_red_props, h_timeid, h_spaceid, h_velid, h_specid, h_redid, h_timefrm, h_spacefrm, h_specfrm, h_redfrm, h_is_skyframe, h_sys, h_naxes, h_epoch, h_use_co, h_use_enc, h_time_enc, h_space_enc, h_spec_enc, h_red_enc, h_start, h_time, h_ts⟩ := h
  replace h_spacefrm := isSome_false h_spacefrm
  replace h_specfrm := isSome_false h_specfrm
  replace h_redfrm := isSome_false h_redfrm
  replace h_time_enc := isSome_false h_time_enc
  replace h_space_enc := isSome_false h_space_enc
  replace h_spec_enc := isSome_false h_spec_enc
  replace h_red_enc := isSome_false h_red_enc
  replace h_start := isSome_false h_start
  replace h_time := isSome_false h_time
  simp [GetNextWord, skipSpace, isspace, WordContext.store, SetUnc_isSome, applyFill_isSome, relTime_isSome, mkRegion, State.view, step, stepBody, branch, putIf, State.warn, State.chr2Double, NULL_ID, TIME_INTERVAL_ID, START_TIME_ID, STOP_TIME_ID, POSITION_INTERVAL_ID, ALL_SKY_ID, CIRCLE_ID, ELLIPSE_ID, BOX_ID, POLYGON_ID, CONVEX_ID, POSITION_ID, TIME_ID, SPECTRAL_INTERVAL_ID, SPECTRAL_ID, REDSHIFT_INTERVAL_ID, REDSHIFT_ID, VELOCITY_INTERVAL_ID, stepFrame, h_word, h_e, h_done, h_source, h_status, h_look_for, h_broke, h_props, h_time_props, h_space_props, h_spec_props, h_red_props, h_timeid, h_spaceid, h_velid, h_specid, h_redid, h_timefrm, h_spacefrm, h_specfrm, h_redfrm, h_is_skyframe, h_sys, h_naxes, h_epoch, h_use_co, h_use_enc, h_time_enc, h_space_enc, h_spec_enc, h_red_enc, h_start, h_time, h_ts]

theorem circle_step5 (env : Env) (s : State)
    (h : s.view =
      { word := some "TOPOCENTER",
        e := some [' ', 'S', 'P', 'H', 'E', 'R', '2', ' ', '1', '0', ' ', '2', '0', ' ', '0', '.', '5'],
        done := false, source := [], status := Status.ok, look_for := LookFor.REFPOS,
        broke := false, props := some PropsSel.space, time_props := KeyMap.empty,
        space_props := ((KeyMap.empty).put "ID" "Circle").put "FRAME" "ICRS",
        spec_props := KeyMap.empty, red_props := KeyMap.empty, timeid := NULL_ID,
        spaceid := CIRCLE_ID, velid := NULL_ID, specid := NULL_ID, redid := NULL_ID,
        timefrm := none, spacefrm := false, specfrm := false, redfrm := false,
        is_skyframe := false, sys := System.ICRS, naxes := 0, epoch := none, use_co := false,
        use_enc := false, time_enc := false, space_enc := false, spec_enc := false,
        red_enc := false, start := false, time := false, ts := TimeScale.BADTS }) :
    (step env s "TOPOCENTER").view =
      { word := some "SPHER2", e := some [' ', '1', '0', ' ', '2', '0', ' ', '0', '.', '5'],
        done := false, source := [], status := Status.ok, look_for := LookFor.FLAVOUR,
        broke := false, props := some PropsSel.space, time_props := KeyMap.empty,
        space_props := (((KeyMap.empty).put "ID" "Circle").put "FRAME" "ICRS").put "REFPOS" "TOPOCENTER",
        spec_props := KeyMap.empty, red_props := KeyMap.empty, timeid := NULL_ID,
        spaceid := CIRCLE_ID, velid := NULL_ID, specid := NULL_ID, redid := NULL_ID,
        timefrm := none, spacefrm := false, specfrm := false, redfrm := false,
        is_skyframe := false, sys := System.ICRS, naxes := 0, epoch := none, use_co := false,
        use_enc := false, time_enc := false, space_enc := false, spec_enc := false,
        red_enc := false, start := false, time := false, ts := TimeScale.BADTS } := by
  simp only [State.view, View.mk.injEq] at h
  obtain ⟨h_word, h_e, h_done, h_source, h_status, h_look_for, h_broke, h_props, h_time_props, h_space_props, h_spec_props, h_red_props, h_timeid, h_spaceid, h_velid, h_specid, h_redid, h_timefrm, h_spacefrm, h_specfrm, h_redfrm, h_is_skyframe, h_sys, h_naxes, h_epoch, h_use_co, h_use_enc, h_time_enc, h_space_enc, h_spec_enc, h_red_enc, h_start, h_time, h_ts⟩ := h
  replace h_spacefrm := isSome_false h_spacefrm
  replace h_specfrm := isSome_false h_specfrm
  replace h_redfrm := isSome_false h_redfrm
  replace h_time_enc := isSome_false h_time_enc
  replace h_space_enc := isSome_false h_space_enc
  replace h_spec_enc := isSome_false h_spec_enc
  replace h_red_enc := isSome_false h_red_enc
  replace h_start := isSome_false h_start
  replace h_time := isSome_false h_time
  simp [GetNextWord, skipSpace, isspace, WordContext.store, SetUnc_isSome, applyFill_isSome, relTime_isSome, mkRegion, State.view, step, stepBody, branch, putIf, State.warn, State.chr2Double, NULL_ID, TIME_INTERVAL_ID, START_TIME_ID, STOP_TIME_ID, POSITION_INTERVAL_ID, ALL_SKY_ID, CIRCLE_ID, ELLIPSE_ID, BOX_ID, POLYGON_ID, CONVEX_ID, POSITION_ID, TIME_ID, SPECTRAL_INTERVAL_ID, SPECTRAL_ID, REDSHIFT_INTERVAL_ID, REDSHIFT_ID, VELOCITY_INTERVAL_ID, stepRefPos, stepRefPosSpace, h_word, h_e, h_done, h_source, h_status, h_look_for, h_broke, h_props, h_time_props, h_space_props, h_spec_props, h_red_props, h_timeid, h_spaceid, h_velid, h_specid, h_redid, h_timefrm, h_spacefrm, h_specfrm, h_redfrm, h_is_skyframe, h_sys, h_naxes, h_epoch, h_use_co, h_use_enc, h_time_enc, h_space_enc, h_spec_enc, h_red_enc, h_start, h_time, h_ts]

theorem circle_step6 (env : Env) (s : State)
    (h : s.view =
      { word := some "SPHER2", e := some [' ', '1', '0', ' ', '2', '0', ' ', '0', '.', '5'],
        done := false, source := [], status := Status.ok, look_for := LookFor.FLAVOUR,
        broke := false, props := some PropsSel.space, time_props := KeyMap.empty,
        space_props := (((KeyMap.empty).put "ID" "Circle").put "FRAME" "ICRS").put "REFPOS" "TOPOCENTER",
        spec_props := KeyMap.empty, red_props := KeyMap.empty, timeid := NULL_ID,
        spaceid := CIRCLE_ID, velid := NULL_ID, specid := NULL_ID, redid := NULL_ID,
        timefrm := none, spacefrm := false, specfrm := false, redfrm := false,
        is_skyframe := false, sys := System.ICRS, naxes := 0, epoch := none, use_co := false,
        use_enc := false, time_enc := false, space_enc := false, spec_enc := false,
        red_enc := false, start := false, time := false, ts := TimeScale.BADTS }) :
    (step env s "SPHER2").view =
      { word := some "10", e := some [' ', '2', '0', ' ', '0', '.', '5'], done := false,
        source := [], status := Status.ok, look_for := LookFor.CIRCLE, broke := false,
        props := some PropsSel.space, time_props := KeyMap.empty,
        space_props := (((((KeyMap.empty).put "ID" "Circle").put "FRAME" "ICRS").put "REFPOS" "TOPOCENTER").put "FLAVOR" "SPHER2").put "FLAVOUR" "SPHER2",
        spec_props := KeyMap.empty, red_props := KeyMap.empty, timeid := NULL_ID,
        spaceid := CIRCLE_ID, velid := NULL_ID, specid := NULL_ID, redid := NULL_ID,
        timefrm := none, spacefrm := true, specfrm := false, redfrm := false,
        is_skyframe := true, sys := System.ICRS, naxes := 2, epoch := none, use_co := false,
        use_enc := false, time_enc := false, space_enc := false, spec_enc := false,
        red_enc := false, start := false, time := false, ts := TimeScale.BADTS } := by
  simp only [State.view, View.mk.injEq] at h
  obtain ⟨h_word, h_e, h_done, h_source, h_status, h_look_for, h_broke, h_props, h_time_props, h_space_props, h_spec_props, h_red_props, h_timeid, h_spaceid, h_velid, h_specid, h_redid, h_timefrm, h_spacefrm, h_specfrm, h_redfrm, h_is_skyframe, h_sys, h_naxes, h_epoch, h_use_co, h_use_enc, h_time_enc, h_space_enc, h_spec_enc, h_red_enc, h_start, h_time, h_ts⟩ := h
  replace h_spacefrm := isSome_false h_spacefrm
  replace h_specfrm := isSome_false h_specfrm
  replace h_redfrm := isSome_false h_redfrm
  replace h_time_enc := isSome_false h_time_enc
  replace h_space_enc := isSome_false h_space_enc
  replace h_spec_enc := isSome_false h_spec_enc
  replace h_red_enc := isSome_false h_red_enc
  replace h_start := isSome_false h_start
  replace h_time := isSome_false h_time
  simp [GetNextWord, skipSpace, isspace, WordContext.store, SetUnc_isSome, applyFill_isSome, relTime_isSome, mkRegion, State.view, step, stepBody, branch, putIf, State.warn, State.chr2Double, NULL_ID, TIME_INTERVAL_ID, START_TIME_ID, STOP_TIME_ID, POSITION_INTERVAL_ID, ALL_SKY_ID, CIRCLE_ID, ELLIPSE_ID, BOX_ID, POLYGON_ID, CONVEX_ID, POSITION_ID, TIME_ID, SPECTRAL_INTERVAL_ID, SPECTRAL_ID, REDSHIFT_INTERVAL_ID, REDSHIFT_ID, VELOCITY_INTERVAL_ID, stepFlavour, flavourNext, flavourDomain, flavourSystem, flavourCheck, flavourFrame, astSkyFrame, h_word, h_e, h_done, h_source, h_status, h_look_for, h_broke, h_props, h_time_props, h_space_props, h_spec_props, h_red_props, h_timeid, h_spaceid, h_velid, h_specid, h_redid, h_timefrm, h_spacefrm, h_specfrm, h_redfrm, h_is_skyframe, h_sys, h_naxes, h_epoch, h_use_co, h_use_enc, h_time_enc, h_space_enc, h_spec_enc, h_red_enc, h_start, h_time, h_ts]

theorem circle_step7 (env : Env) (v1 v2 v3 : ℚ) (h1 : env.chr2Double "10" = some v1)
    (h2 : env.chr2Double "20" = some v2) (h3 : env.chr2Double "0.5" = some v3) (s : State)
    (h : s.view =
      { word := some "10", e := some [' ', '2', '0', ' ', '0', '.', '5'], done := false,
        source := [], status := Status.ok, look_for := LookFor.CIRCLE, broke := false,
        props := some PropsSel.space, time_props := KeyMap.empty,
        space_props := (((((KeyMap.empty).put "ID" "Circle").put "FRAME" "ICRS").put "REFPOS" "TOPOCENTER").put "FLAVOR" "SPHER2").put "FLAVOUR" "SPHER2",
        spec_props := KeyMap.empty, red_props := KeyMap.empty, timeid := NULL_ID,
        spaceid := CIRCLE_ID, velid := NULL_ID, specid := NULL_ID, redid := NULL_ID,
        timefrm := none, spacefrm := true, specfrm := false, redfrm := false,
        is_skyframe := true, sys := System.ICRS, naxes := 2, epoch := none, use_co := false,
        use_enc := false, time_enc := false, space_enc := false, spec_enc := false,
        red_enc := false, start := false, time := false, ts := TimeScale.BADTS }) :
    (step env s "10").view =
      { word := some "", e := none, done := false, source := [], status := Status.ok,
        look_for := LookFor.POSITION_LABEL, broke := false, props := some PropsSel.space,
        time_props := KeyMap.empty,
        space_props := (((((((KeyMap.empty).put "ID" "Circle").put "FRAME" "ICRS").put "REFPOS" "TOPOCENTER").put "FLAVOR" "SPHER2").put "FLAVOUR" "SPHER2").put "CENTRE" "10 20").put "RADIUS" "0.5",
        spec_props := KeyMap.empty, red_props := KeyMap.empty, timeid := NULL_ID,
        spaceid := CIRCLE_ID, velid := NULL_ID, specid := NULL_ID, redid := NULL_ID,
        timefrm := none, spacefrm := true, specfrm := false, redfrm := false,
        is_skyframe := true, sys := System.ICRS, naxes := 2, epoch := none, use_co := false,
        use_enc := false, time_enc := false, space_enc := false, spec_enc := false,
        red_enc := false, start := false, time := false, ts := TimeScale.BADTS } := by
  simp only [State.view, View.mk.injEq] at h
  obtain ⟨h_word, h_e, h_done, h_source, h_status, h_look_for, h_broke, h_props, h_time_props, h_space_props, h_spec_props, h_red_props, h_timeid, h_spaceid, h_velid, h_specid, h_redid, h_timefrm, h_spacefrm, h_specfrm, h_redfrm, h_is_skyframe, h_sys, h_naxes, h_epoch, h_use_co, h_use_enc, h_time_enc, h_space_enc, h_spec_enc, h_red_enc, h_start, h_time, h_ts⟩ := h
  obtain ⟨f_spacefrm, hf_spacefrm⟩ := Option.isSome_iff_exists.1 h_spacefrm
  replace h_specfrm := isSome_false h_specfrm
  replace h_redfrm := isSome_false h_redfrm
  replace h_time_enc := isSome_false h_time_enc
  replace h_space_enc := isSome_false h_space_enc
  replace h_spec_enc := isSome_false h_spec_enc
  replace h_red_enc := isSome_false h_red_enc
  replace h_start := isSome_false h_start
  replace h_time := isSome_false h_time
  simp [GetNextWord, skipSpace, isspace, WordContext.store, SetUnc_isSome, applyFill_isSome, relTime_isSome, mkRegion, State.view, step, stepBody, branch, putIf, State.warn, State.chr2Double, NULL_ID, TIME_INTERVAL_ID, START_TIME_ID, STOP_TIME_ID, POSITION_INTERVAL_ID, ALL_SKY_ID, CIRCLE_ID, ELLIPSE_ID, BOX_ID, POLYGON_ID, CONVEX_ID, POSITION_ID, TIME_ID, SPECTRAL_INTERVAL_ID, SPECTRAL_ID, REDSHIFT_INTERVAL_ID, REDSHIFT_ID, VELOCITY_INTERVAL_ID, stepCircle, axisLoop, hf_spacefrm, h1, h2, h3, h_word, h_e, h_done, h_source, h_status, h_look_for, h_broke, h_props, h_time_props, h_space_props, h_spec_props, h_red_props, h_timeid, h_spaceid, h_velid, h_specid, h_redid, h_timefrm, h_spacefrm, h_specfrm, h_redfrm, h_is_skyframe, h_sys, h_naxes, h_epoch, h_use_co, h_use_enc, h_time_enc, h_space_enc, h_spec_enc, h_red_enc, h_start, h_time, h_ts]

theorem circle_step8 (env : Env) (s : State)
    (h : s.view =
      { word := some "", e := none, done := false, source := [], status := Status.ok,
        look_for := LookFor.POSITION_LABEL, broke := false, props := some PropsSel.space,
        time_props := KeyMap.empty,
        space_props := (((((((KeyMap.empty).put "ID" "Circle").put "FRAME" "ICRS").put "REFPOS" "TOPOCENTER").put "FLAVOR" "SPHER2").put "FLAVOUR" "SPHER2").put "CENTRE" "10 20").put "RADIUS" "0.5",
        spec_props := KeyMap.empty, red_props := KeyMap.empty, timeid := NULL_ID,
        spaceid := CIRCLE_ID, velid := NULL_ID, specid := NULL_ID, redid := NULL_ID,
        timefrm := none, spacefrm := true, specfrm := false, redfrm := false,
        is_skyframe := true, sys := System.ICRS, naxes := 2, epoch := none, use_co := false,
        use_enc := false, time_enc := false, space_enc := false, spec_enc := false,
        red_enc := false, start := false, time := false, ts := TimeScale.BADTS }) :
    (step env s "").view =
      { word := some "", e := none, done := false, source := [], status := Status.ok,
        look_for := LookFor.UNIT, broke := false, props := some PropsSel.space,
        time_props := KeyMap.empty,
        space_props := (((((((KeyMap.empty).put "ID" "Circle").put "FRAME" "ICRS").put "REFPOS" "TOPOCENTER").put "FLAVOR" "SPHER2").put "FLAVOUR" "SPHER2").put "CENTRE" "10 20").put "RADIUS" "0.5",
        spec_props := KeyMap.empty, red_props := KeyMap.empty, timeid := NULL_ID,
        spaceid := CIRCLE_ID, velid := NULL_ID, specid := NULL_ID, redid := NULL_ID,
        timefrm := none, spacefrm := true, specfrm := false, redfrm := false,
        is_skyframe := true, sys := System.ICRS, naxes := 2, epoch := none, use_co := false,
        use_enc := false, time_enc := false, space_enc := false, spec_enc := false,
        red_enc := false, start := false, time := false, ts := TimeScale.BADTS } := by
  simp only [State.view, View.mk.injEq] at h
  obtain ⟨h_word, h_e, h_done, h_source, h_status, h_look_for, h_broke, h_props, h_time_props, h_space_props, h_spec_props, h_red_props, h_timeid, h_spaceid, h_velid, h_specid, h_redid, h_timefrm, h_spacefrm, h_specfrm, h_redfrm, h_is_skyframe, h_sys, h_naxes, h_epoch, h_use_co, h_use_enc, h_time_enc, h_space_enc, h_spec_enc, h_red_enc, h_start, h_time, h_ts⟩ := h
  replace h_specfrm := isSome_false h_specfrm
  replace h_redfrm := isSome_false h_redfrm
  replace h_time_enc := isSome_false h_time_enc
  replace h_space_enc := isSome_false h_space_enc
  replace h_spec_enc := isSome_false h_spec_enc
  replace h_red_enc := isSome_false h_red_enc
  replace h_start := isSome_false h_start
  replace h_time := isSome_false h_time
  simp [GetNextWord, skipSpace, isspace, WordContext.store, SetUnc_isSome, applyFill_isSome, relTime_isSome, mkRegion, State.view, step, stepBody, branch, putIf, State.warn, State.chr2Double, NULL_ID, TIME_INTERVAL_ID, START_TIME_ID, STOP_TIME_ID, POSITION_INTERVAL_ID, ALL_SKY_ID, CIRCLE_ID, ELLIPSE_ID, BOX_ID, POLYGON_ID, CONVEX_ID, POSITION_ID, TIME_ID, SPECTRAL_INTERVAL_ID, SPECTRAL_ID, REDSHIFT_INTERVAL_ID, REDSHIFT_ID, VELOCITY_INTERVAL_ID, stepPositionLabel, h_word, h_e, h_done, h_source, h_status, h_look_for, h_broke, h_props, h_time_props, h_space_props, h_spec_props, h_red_props, h_timeid, h_spaceid, h_velid, h_specid, h_redid, h_timefrm, h_spacefrm, h_specfrm, h_redfrm, h_is_skyframe, h_sys, h_naxes, h_epoch, h_use_co, h_use_enc, h_time_enc, h_space_enc, h_spec_enc, h_red_enc, h_start, h_time, h_ts]

theorem circle_step9 (env : Env) (s : State)
    (h : s.view =
      { word := some "", e := none, done := false, source := [], status := Status.ok,
        look_for := LookFor.UNIT, broke := false, props := some PropsSel.space,
        time_props := KeyMap.empty,
        space_props := (((((((KeyMap.empty).put "ID" "Circle").put "FRAME" "ICRS").put "REFPOS" "TOPOCENTER").put "FLAVOR" "SPHER2").put "FLAVOUR" "SPHER2").put "CENTRE" "10 20").put "RADIUS" "0.5",
        spec_props := KeyMap.empty, red_props := KeyMap.empty, timeid := NULL_ID,
        spaceid := CIRCLE_ID, velid := NULL_ID, specid := NULL_ID, redid := NULL_ID,
        timefrm := none, spacefrm := true, specfrm := false, redfrm := false,
        is_skyframe := true, sys := System.ICRS, naxes := 2, epoch := none, use_co := false,
        use_enc := false, time_enc := false, space_enc := false, spec_enc := false,
        red_enc := false, start := false, time := false, ts := TimeScale.BADTS }) :
    (step env s "").view =
      { word := some "", e := none, done := false, source := [], status := Status.ok,
        look_for := LookFor.ERROR, broke := false, props := some PropsSel.space,
        time_props := KeyMap.empty,
        space_props := (((((((KeyMap.empty).put "ID" "Circle").put "FRAME" "ICRS").put "REFPOS" "TOPOCENTER").put "FLAVOR" "SPHER2").put "FLAVOUR" "SPHER2").put "CENTRE" "10 20").put "RADIUS" "0.5",
        spec_props := KeyMap.empty, red_props := KeyMap.empty, timeid := NULL_ID,
        spaceid := CIRCLE_ID, velid := NULL_ID, specid := NULL_ID, redid := NULL_ID,
        timefrm := none, spacefrm := true, specfrm := false, redfrm := false,
        is_skyframe := true, sys := System.ICRS, naxes := 2, epoch := none, use_co := false,
        use_enc := false, time_enc := false, space_enc := false, spec_enc := false,
        red_enc := false, start := false, time := false, ts := TimeScale.BADTS } := by
  simp only [State.view, View.mk.injEq] at h
  obtain ⟨h_word, h_e, h_done, h_source, h_status, h_look_for, h_broke, h_props, h_time_props, h_space_props, h_spec_props, h_red_props, h_timeid, h_spaceid, h_velid, h_specid, h_redid, h_timefrm, h_spacefrm, h_specfrm, h_redfrm, h_is_skyframe, h_sys, h_naxes, h_epoch, h_use_co, h_use_enc, h_time_enc, h_space_enc, h_spec_enc, h_red_enc, h_start, h_time, h_ts⟩ := h
  obtain ⟨f_spacefrm, hf_spacefrm⟩ := Option.isSome_iff_exists.1 h_spacefrm
  replace h_specfrm := isSome_false h_specfrm
  replace h_redfrm := isSome_false h_redfrm
  replace h_time_enc := isSome_false h_time_enc
  replace h_space_enc := isSome_false h_space_enc
  replace h_spec_enc := isSome_false h_spec_enc
  replace h_red_enc := isSome_false h_red_enc
  replace h_start := isSome_false h_start
  replace h_time := isSome_false h_time
  simp [GetNextWord, skipSpace, isspace, WordContext.store, SetUnc_isSome, applyFill_isSome, relTime_isSome, mkRegion, State.view, step, stepBody, branch, putIf, State.warn, State.chr2Double, NULL_ID, TIME_INTERVAL_ID, START_TIME_ID, STOP_TIME_ID, POSITION_INTERVAL_ID, ALL_SKY_ID, CIRCLE_ID, ELLIPSE_ID, BOX_ID, POLYGON_ID, CONVEX_ID, POSITION_ID, TIME_ID, SPECTRAL_INTERVAL_ID, SPECTRAL_ID, REDSHIFT_INTERVAL_ID, REDSHIFT_ID, VELOCITY_INTERVAL_ID, stepUnit, unitWord, unitSpace, hf_spacefrm, h_word, h_e, h_done, h_source, h_status, h_look_for, h_broke, h_props, h_time_props, h_space_props, h_spec_props, h_red_props, h_timeid, h_spaceid, h_velid, h_specid, h_redid, h_timefrm, h_spacefrm, h_specfrm, h_redfrm, h_is_skyframe, h_sys, h_naxes, h_epoch, h_use_co, h_use_enc, h_time_enc, h_space_enc, h_spec_enc, h_red_enc, h_start, h_time, h_ts]

theorem circle_step10 (env : Env) (s : State)
    (h : s.view =
      { word := some "", e := none, done := false, source := [], status := Status.ok,
        look_for := LookFor.ERROR, broke := false, props := some PropsSel.space,
        time_props := KeyMap.empty,
        space_props := (((((((KeyMap.empty).put "ID" "Circle").put "FRAME" "ICRS").put "REFPOS" "TOPOCENTER").put "FLAVOR" "SPHER2").put "FLAVOUR" "SPHER2").put "CENTRE" "10 20").put "RADIUS" "0.5",
        spec_props := KeyMap.empty, red_props := KeyMap.empty, timeid := NULL_ID,
        spaceid := CIRCLE_ID, velid := NULL_ID, specid := NULL_ID, redid := NULL_ID,
        timefrm := none, spacefrm := true, specfrm := false, redfrm := false,
        is_skyframe := true, sys := System.ICRS, naxes := 2, epoch := none, use_co := false,
        use_enc := false, time_enc := false, space_enc := false, spec_enc := false,
        red_enc := false, start := false, time := false, ts := TimeScale.BADTS }) :
    (step env s "").view =
      { word := some "", e := none, done := false, source := [], status := Status.ok,
        look_for := LookFor.RESOLUTION, broke := false, props := some PropsSel.space,
        time_props := KeyMap.empty,
        space_props := (((((((KeyMap.empty).put "ID" "Circle").put "FRAME" "ICRS").put "REFPOS" "TOPOCENTER").put "FLAVOR" "SPHER2").put "FLAVOUR" "SPHER2").put "CENTRE" "10 20").put "RADIUS" "0.5",
        spec_props := KeyMap.empty, red_props := KeyMap.empty, timeid := NULL_ID,
        spaceid := CIRCLE_ID, velid := NULL_ID, specid := NULL_ID, redid := NULL_ID,
        timefrm := none, spacefrm := true, specfrm := false, redfrm := false,
        is_skyframe := true, sys := System.ICRS, naxes := 2, epoch := none, use_co := false,
        use_enc := false, time_enc := false, space_enc := false, spec_enc := false,
        red_enc := false, start := false, time := false, ts := TimeScale.BADTS } := by
  simp only [State.view, View.mk.injEq] at h
  obtain ⟨h_word, h_e, h_done, h_source, h_status, h_look_for, h_broke, h_props, h_time_props, h_space_props, h_spec_props, h_red_props, h_timeid, h_spaceid, h_velid, h_specid, h_redid, h_timefrm, h_spacefrm, h_specfrm, h_redfrm, h_is_skyframe, h_sys, h_naxes, h_epoch, h_use_co, h_use_enc, h_time_enc, h_space_enc, h_spec_enc, h_red_enc, h_start, h_time, h_ts⟩ := h
  obtain ⟨f_spacefrm, hf_spacefrm⟩ := Option.isSome_iff_exists.1 h_spacefrm
  replace h_specfrm := isSome_false h_specfrm
  replace h_redfrm := isSome_false h_redfrm
  replace h_time_enc := isSome_false h_time_enc
  replace h_space_enc := isSome_false h_space_enc
  replace h_spec_enc := isSome_false h_spec_enc
  replace h_red_enc := isSome_false h_red_enc
  replace h_start := isSome_false h_start
  replace h_time := isSome_false h_time
  simp [GetNextWord, skipSpace, isspace, WordContext.store, SetUnc_isSome, applyFill_isSome, relTime_isSome, mkRegion, State.view, step, stepBody, branch, putIf, State.warn, State.chr2Double, NULL_ID, TIME_INTERVAL_ID, START_TIME_ID, STOP_TIME_ID, POSITION_INTERVAL_ID, ALL_SKY_ID, CIRCLE_ID, ELLIPSE_ID, BOX_ID, POLYGON_ID, CONVEX_ID, POSITION_ID, TIME_ID, SPECTRAL_INTERVAL_ID, SPECTRAL_ID, REDSHIFT_INTERVAL_ID, REDSHIFT_ID, VELOCITY_INTERVAL_ID, stepError, hf_spacefrm, h_word, h_e, h_done, h_source, h_status, h_look_for, h_broke, h_props, h_time_props, h_space_props, h_spec_props, h_red_props, h_timeid, h_spaceid, h_velid, h_specid, h_redid, h_timefrm, h_spacefrm, h_specfrm, h_redfrm, h_is_skyframe, h_sys, h_naxes, h_epoch, h_use_co, h_use_enc, h_time_enc, h_space_enc, h_spec_enc, h_red_enc, h_start, h_time, h_ts]

theorem circle_step11 (env : Env) (s : State)
    (h : s.view =
      { word := some "", e := none, done := false, source := [], status := Status.ok,
        look_for := LookFor.RESOLUTION, broke := false, props := some PropsSel.space,
        time_props := KeyMap.empty,
        space_props := (((((((KeyMap.empty).put "ID" "Circle").put "FRAME" "ICRS").put "REFPOS" "TOPOCENTER").put "FLAVOR" "SPHER2").put "FLAVOUR" "SPHER2").put "CENTRE" "10 20").put "RADIUS" "0.5",
        spec_props := KeyMap.empty, red_props := KeyMap.empty, timeid := NULL_ID,
        spaceid := CIRCLE_ID, velid := NULL_ID, specid := NULL_ID, redid := NULL_ID,
        timefrm := none, spacefrm := true, specfrm := false, redfrm := false,
        is_skyframe := true, sys := System.ICRS, naxes := 2, epoch := none, use_co := false,
        use_enc := false, time_enc := false, space_enc := false, spec_enc := false,
        red_enc := false, start := false, time := false, ts := TimeScale.BADTS }) :
    (step env s "").view =
      { word := some "", e := none, done := false, source := [], status := Status.ok,
        look_for := LookFor.SIZE, broke := false, props := some PropsSel.space,
        time_props := KeyMap.empty,
        space_props := (((((((KeyMap.empty).put "ID" "Circle").put "FRAME" "ICRS").put "REFPOS" "TOPOCENTER").put "FLAVOR" "SPHER2").put "FLAVOUR" "SPHER2").put "CENTRE" "10 20").put "RADIUS" "0.5",
        spec_props := KeyMap.empty, red_props := KeyMap.empty, timeid := NULL_ID,
        spaceid := CIRCLE_ID, velid := NULL_ID, specid := NULL_ID, redid := NULL_ID,
        timefrm := none, spacefrm := true, specfrm := false, redfrm := false,
        is_skyframe := true, sys := System.ICRS, naxes := 2, epoch := none, use_co := false,
        use_enc := false, time_enc := false, space_enc := false, spec_enc := false,
        red_enc := false, start := false, time := false, ts := TimeScale.BADTS } := by
  simp only [State.view, View.mk.injEq] at h
  obtain ⟨h_word, h_e, h_done, h_source, h_status, h_look_for, h_broke, h_props, h_time_props, h_space_props, h_spec_props, h_red_props, h_timeid, h_spaceid, h_velid, h_specid, h_redid, h_timefrm, h_spacefrm, h_specfrm, h_redfrm, h_is_skyframe, h_sys, h_naxes, h_epoch, h_use_co, h_use_enc, h_time_enc, h_space_enc, h_spec_enc, h_red_enc, h_start, h_time, h_ts⟩ := h
  obtain ⟨f_spacefrm, hf_spacefrm⟩ := Option.isSome_iff_exists.1 h_spacefrm
  replace h_specfrm := isSome_false h_specfrm
  replace h_redfrm := isSome_false h_redfrm
  replace h_time_enc := isSome_false h_time_enc
  replace h_space_enc := isSome_false h_space_enc
  replace h_spec_enc := isSome_false h_spec_enc
  replace h_red_enc := isSome_false h_red_enc
  replace h_start := isSome_false h_start
  replace h_time := isSome_false h_time
  simp [GetNextWord, skipSpace, isspace, WordContext.store, SetUnc_isSome, applyFill_isSome, relTime_isSome, mkRegion, State.view, step, stepBody, branch, putIf, State.warn, State.chr2Double, NULL_ID, TIME_INTERVAL_ID, START_TIME_ID, STOP_TIME_ID, POSITION_INTERVAL_ID, ALL_SKY_ID, CIRCLE_ID, ELLIPSE_ID, BOX_ID, POLYGON_ID, CONVEX_ID, POSITION_ID, TIME_ID, SPECTRAL_INTERVAL_ID, SPECTRAL_ID, REDSHIFT_INTERVAL_ID, REDSHIFT_ID, VELOCITY_INTERVAL_ID, stepResolution, hf_spacefrm, h_word, h_e, h_done, h_source, h_status, h_look_for, h_broke, h_props, h_time_props, h_space_props, h_spec_props, h_red_props, h_timeid, h_spaceid, h_velid, h_specid, h_redid, h_timefrm, h_spacefrm, h_specfrm, h_redfrm, h_is_skyframe, h_sys, h_naxes, h_epoch, h_use_co, h_use_enc, h_time_enc, h_space_enc, h_spec_enc, h_red_enc, h_start, h_time, h_ts]

theorem circle_step12 (env : Env) (s : State)
    (h : s.view =
      { word := some "", e := none, done := false, source := [], status := Status.ok,
        look_for := LookFor.SIZE, broke := false, props := some PropsSel.space,
        time_props := KeyMap.empty,
        space_props := (((((((KeyMap.empty).put "ID" "Circle").put "FRAME" "ICRS").put "REFPOS" "TOPOCENTER").put "FLAVOR" "SPHER2").put "FLAVOUR" "SPHER2").put "CENTRE" "10 20").put "RADIUS" "0.5",
        spec_props := KeyMap.empty, red_props := KeyMap.empty, timeid := NULL_ID,
        spaceid := CIRCLE_ID, velid := NULL_ID, specid := NULL_ID, redid := NULL_ID,
        timefrm := none, spacefrm := true, specfrm := false, redfrm := false,
        is_skyframe := true, sys := System.ICRS, naxes := 2, epoch := none, use_co := false,
        use_enc := false, time_enc := false, space_enc := false, spec_enc := false,
        red_enc := false, start := false, time := false, ts := TimeScale.BADTS }) :
    (step env s "").view =
      { word := some "", e := none, done := false, source := [], status := Status.ok,
        look_for := LookFor.PIX_SIZE, broke := false, props := some PropsSel.space,
        time_props := KeyMap.empty,
        space_props := (((((((KeyMap.empty).put "ID" "Circle").put "FRAME" "ICRS").put "REFPOS" "TOPOCENTER").put "FLAVOR" "SPHER2").put "FLAVOUR" "SPHER2").put "CENTRE" "10 20").put "RADIUS" "0.5",
        spec_props := KeyMap.empty, red_props := KeyMap.empty, timeid := NULL_ID,
        spaceid := CIRCLE_ID, velid := NULL_ID, specid := NULL_ID, redid := NULL_ID,
        timefrm := none, spacefrm := true, specfrm := false, redfrm := false,
        is_skyframe := true, sys := System.ICRS, naxes := 2, epoch := none, use_co := false,
        use_enc := false, time_enc := false, space_enc := false, spec_enc := false,
        red_enc := false, start := false, time := false, ts := TimeScale.BADTS } := by
  simp only [State.view, View.mk.injEq] at h
  obtain ⟨h_word, h_e, h_done, h_source, h_status, h_look_for, h_broke, h_props, h_time_props, h_space_props, h_spec_props, h_red_props, h_timeid, h_spaceid, h_velid, h_specid, h_redid, h_timefrm, h_spacefrm, h_specfrm, h_redfrm, h_is_skyframe, h_sys, h_naxes, h_epoch, h_use_co, h_use_enc, h_time_enc, h_space_enc, h_spec_enc, h_red_enc, h_start, h_time, h_ts⟩ := h
  obtain ⟨f_spacefrm, hf_spacefrm⟩ := Option.isSome_iff_exists.1 h_spacefrm
  replace h_specfrm := isSome_false h_specfrm
  replace h_redfrm := isSome_false h_redfrm
  replace h_time_enc := isSome_false h_time_enc
  replace h_space_enc := isSome_false h_space_enc
  replace h_spec_enc := isSome_false h_spec_enc
  replace h_red_enc := isSome_false h_red_enc
  replace h_start := isSome_false h_start
  replace h_time := isSome_false h_time
  simp [GetNextWord, skipSpace, isspace, WordContext.store, SetUnc_isSome, applyFill_isSome, relTime_isSome, mkRegion, State.view, step, stepBody, branch, putIf, State.warn, State.chr2Double, NULL_ID, TIME_INTERVAL_ID, START_TIME_ID, STOP_TIME_ID, POSITION_INTERVAL_ID, ALL_SKY_ID, CIRCLE_ID, ELLIPSE_ID, BOX_ID, POLYGON_ID, CONVEX_ID, POSITION_ID, TIME_ID, SPECTRAL_INTERVAL_ID, SPECTRAL_ID, REDSHIFT_INTERVAL_ID, REDSHIFT_ID, VELOCITY_INTERVAL_ID, stepSize, hf_spacefrm, h_word, h_e, h_done, h_source, h_status, h_look_for, h_broke, h_props, h_time_props, h_space_props, h_spec_props, h_red_props, h_timeid, h_spaceid, h_velid, h_specid, h_redid, h_timefrm, h_spacefrm, h_specfrm, h_redfrm, h_is_skyframe, h_sys, h_naxes, h_epoch, h_use_co, h_use_enc, h_time_enc, h_space_enc, h_spec_enc, h_red_enc, h_start, h_time, h_ts]

theorem circle_step13 (env : Env) (s : State)
    (h : s.view =
      { word := some "", e := none, done := false, source := [], status := Status.ok,
        look_for := LookFor.PIX_SIZE, broke := false, props := some PropsSel.space,
        time_props := KeyMap.empty,
        space_props := (((((((KeyMap.empty).put "ID" "Circle").put "FRAME" "ICRS").put "REFPOS" "TOPOCENTER").put "FLAVOR" "SPHER2").put "FLAVOUR" "SPHER2").put "CENTRE" "10 20").put "RADIUS" "0.5",
        spec_props := KeyMap.empty, red_props := KeyMap.empty, timeid := NULL_ID,
        spaceid := CIRCLE_ID, velid := NULL_ID, specid := NULL_ID, redid := NULL_ID,
        timefrm := none, spacefrm := true, specfrm := false, redfrm := false,
        is_skyframe := true, sys := System.ICRS, naxes := 2, epoch := none, use_co := false,
        use_enc := false, time_enc := false, space_enc := false, spec_enc := false,
        red_enc := false, start := false, time := false, ts := TimeScale.BADTS }) :
    (step env s "").view =
      { word := some "", e := none, done := false, source := [], status := Status.ok,
        look_for := LookFor.VELOCITY_IDENTIFIER, broke := false, props := some PropsSel.space,
        time_props := KeyMap.empty,
        space_props := (((((((KeyMap.empty).put "ID" "Circle").put "FRAME" "ICRS").put "REFPOS" "TOPOCENTER").put "FLAVOR" "SPHER2").put "FLAVOUR" "SPHER2").put "CENTRE" "10 20").put "RADIUS" "0.5",
        spec_props := KeyMap.empty, red_props := KeyMap.empty, timeid := NULL_ID,
        spaceid := CIRCLE_ID, velid := NULL_ID, specid := NULL_ID, redid := NULL_ID,
        timefrm := none, spacefrm := true, specfrm := false, redfrm := false,
        is_skyframe := true, sys := System.ICRS, naxes := 2, epoch := none, use_co := false,
        use_enc := false, time_enc := false, space_enc := false, spec_enc := false,
        red_enc := false, start := false, time := false, ts := TimeScale.BADTS } := by
  simp only [State.view, View.mk.injEq] at h
  obtain ⟨h_word, h_e, h_done, h_source, h_status, h_look_for, h_broke, h_props, h_time_props, h_space_props, h_spec_props, h_red_props, h_timeid, h_spaceid, h_velid, h_specid, h_redid, h_timefrm, h_spacefrm, h_specfrm, h_redfrm, h_is_skyframe, h_sys, h_naxes, h_epoch, h_use_co, h_use_enc, h_time_enc, h_space_enc, h_spec_enc, h_red_enc, h_start, h_time, h_ts⟩ := h
  obtain ⟨f_spacefrm, hf_spacefrm⟩ := Option.isSome_iff_exists.1 h_spacefrm
  replace h_specfrm := isSome_false h_specfrm
  replace h_redfrm := isSome_false h_redfrm
  replace h_time_enc := isSome_false h_time_enc
  replace h_space_enc := isSome_false h_space_enc
  replace h_spec_enc := isSome_false h_spec_enc
  replace h_red_enc := isSome_false h_red_enc
  replace h_start := isSome_false h_start
  replace h_time := isSome_false h_time
  simp [GetNextWord, skipSpace, isspace, WordContext.store, SetUnc_isSome, applyFill_isSome, relTime_isSome, mkRegion, State.view, step, stepBody, branch, putIf, State.warn, State.chr2Double, NULL_ID, TIME_INTERVAL_ID, START_TIME_ID, STOP_TIME_ID, POSITION_INTERVAL_ID, ALL_SKY_ID, CIRCLE_ID, ELLIPSE_ID, BOX_ID, POLYGON_ID, CONVEX_ID, POSITION_ID, TIME_ID, SPECTRAL_INTERVAL_ID, SPECTRAL_ID, REDSHIFT_INTERVAL_ID, REDSHIFT_ID, VELOCITY_INTERVAL_ID, stepPixSize, hf_spacefrm, h_word, h_e, h_done, h_source, h_status, h_look_for, h_broke, h_props, h_time_props, h_space_props, h_spec_props, h_red_props, h_timeid, h_spaceid, h_velid, h_specid, h_redid, h_timefrm, h_spacefrm, h_specfrm, h_redfrm, h_is_skyframe, h_sys, h_naxes, h_epoch, h_use_co, h_use_enc, h_time_enc, h_space_enc, h_spec_enc, h_red_enc, h_start, h_time, h_ts]

theorem circle_step14 (env : Env) (s : State)
    (h : s.view =
      { word := some "", e := none, done := false, source := [], status := Status.ok,
        look_for := LookFor.VELOCITY_IDENTIFIER, broke := false, props := some PropsSel.space,
        time_props := KeyMap.empty,
        space_props := (((((((KeyMap.empty).put "ID" "Circle").put "FRAME" "ICRS").put "REFPOS" "TOPOCENTER").put "FLAVOR" "SPHER2").put "FLAVOUR" "SPHER2").put "CENTRE" "10 20").put "RADIUS" "0.5",
        spec_props := KeyMap.empty, red_props := KeyMap.empty, timeid := NULL_ID,
        spaceid := CIRCLE_ID, velid := NULL_ID, specid := NULL_ID, redid := NULL_ID,
        timefrm := none, spacefrm := true, specfrm := false, redfrm := false,
        is_skyframe := true, sys := System.ICRS, naxes := 2, epoch := none, use_co := false,
        use_enc := false, time_enc := false, space_enc := false, spec_enc := false,
        red_enc := false, start := false, time := false, ts := TimeScale.BADTS }) :
    (step env s "").view =
      { word := some "", e := none, done := false, source := [], status := Status.ok,
        look_for := LookFor.SPECTRAL_IDENTIFIER, broke := false, props := some PropsSel.space,
        time_props := KeyMap.empty,
        space_props := (((((((KeyMap.empty).put "ID" "Circle").put "FRAME" "ICRS").put "REFPOS" "TOPOCENTER").put "FLAVOR" "SPHER2").put "FLAVOUR" "SPHER2").put "CENTRE" "10 20").put "RADIUS" "0.5",
        spec_props := KeyMap.empty, red_props := KeyMap.empty, timeid := NULL_ID,
        spaceid := NULL_ID, velid := NULL_ID, specid := NULL_ID, redid := NULL_ID,
        timefrm := none, spacefrm := false, specfrm := false, redfrm := false,
        is_skyframe := true, sys := System.ICRS, naxes := 2, epoch := none, use_co := false,
        use_enc := true, time_enc := false, space_enc := true, spec_enc := false,
        red_enc := false, start := false, time := false, ts := TimeScale.BADTS } := by
  simp only [State.view, View.mk.injEq] at h
  obtain ⟨h_word, h_e, h_done, h_source, h_status, h_look_for, h_broke, h_props, h_time_props, h_space_props, h_spec_props, h_red_props, h_timeid, h_spaceid, h_velid, h_specid, h_redid, h_timefrm, h_spacefrm, h_specfrm, h_redfrm, h_is_skyframe, h_sys, h_naxes, h_epoch, h_use_co, h_use_enc, h_time_enc, h_space_enc, h_spec_enc, h_red_enc, h_start, h_time, h_ts⟩ := h
  obtain ⟨f_spacefrm, hf_spacefrm⟩ := Option.isSome_iff_exists.1 h_spacefrm
  replace h_specfrm := isSome_false h_specfrm
  replace h_redfrm := isSome_false h_redfrm
  replace h_time_enc := isSome_false h_time_enc
  replace h_space_enc := isSome_false h_space_enc
  replace h_spec_enc := isSome_false h_spec_enc
  replace h_red_enc := isSome_false h_red_enc
  replace h_start := isSome_false h_start
  replace h_time := isSome_false h_time
  simp [GetNextWord, skipSpace, isspace, WordContext.store, SetUnc_isSome, applyFill_isSome, relTime_isSome, mkRegion, State.view, step, stepBody, branch, putIf, State.warn, State.chr2Double, NULL_ID, TIME_INTERVAL_ID, START_TIME_ID, STOP_TIME_ID, POSITION_INTERVAL_ID, ALL_SKY_ID, CIRCLE_ID, ELLIPSE_ID, BOX_ID, POLYGON_ID, CONVEX_ID, POSITION_ID, TIME_ID, SPECTRAL_INTERVAL_ID, SPECTRAL_ID, REDSHIFT_INTERVAL_ID, REDSHIFT_ID, VELOCITY_INTERVAL_ID, stepVelocityIdentifier, finishSpace, spaceEnclosure, hf_spacefrm, h_word, h_e, h_done, h_source, h_status, h_look_for, h_broke, h_props, h_time_props, h_space_props, h_spec_props, h_red_props, h_timeid, h_spaceid, h_velid, h_specid, h_redid, h_timefrm, h_spacefrm, h_specfrm, h_redfrm, h_is_skyframe, h_sys, h_naxes, h_epoch, h_use_co, h_use_enc, h_time_enc, h_space_enc, h_spec_enc, h_red_enc, h_start, h_time, h_ts]

theorem circle_step15 (env : Env) (s : State)
    (h : s.view =
      { word := some "", e := none, done := false, source := [], status := Status.ok,
        look_for := LookFor.SPECTRAL_IDENTIFIER, broke := false, props := some PropsSel.space,
        time_props := KeyMap.empty,
        space_props := (((((((KeyMap.empty).put "ID" "Circle").put "FRAME" "ICRS").put "REFPOS" "TOPOCENTER").put "FLAVOR" "SPHER2").put "FLAVOUR" "SPHER2").put "CENTRE" "10 20").put "RADIUS" "0.5",
        spec_props := KeyMap.empty, red_props := KeyMap.empty, timeid := NULL_ID,
        spaceid := NULL_ID, velid := NULL_ID, specid := NULL_ID, redid := NULL_ID,
        timefrm := none, spacefrm := false, specfrm := false, redfrm := false,
        is_skyframe := true, sys := System.ICRS, naxes := 2, epoch := none, use_co := false,
        use_enc := true, time_enc := false, space_enc := true, spec_enc := false,
        red_enc := false, start := false, time := false, ts := TimeScale.BADTS }) :
    (step env s "").view =
      { word := some "", e := none, done := false, source := [], status := Status.ok,
        look_for := LookFor.REDSHIFT_IDENTIFIER, broke := false, props := some PropsSel.space,
        time_props := KeyMap.empty,
        space_props := (((((((KeyMap.empty).put "ID" "Circle").put "FRAME" "ICRS").put "REFPOS" "TOPOCENTER").put "FLAVOR" "SPHER2").put "FLAVOUR" "SPHER2").put "CENTRE" "10 20").put "RADIUS" "0.5",
        spec_props := KeyMap.empty, red_props := KeyMap.empty, timeid := NULL_ID,
        spaceid := NULL_ID, velid := NULL_ID, specid := NULL_ID, redid := NULL_ID,
        timefrm := none, spacefrm := false, specfrm := false, redfrm := false,
        is_skyframe := true, sys := System.ICRS, naxes := 2, epoch := none, use_co := false,
        use_enc := true, time_enc := false, space_enc := true, spec_enc := false,
        red_enc := false, start := false, time := false, ts := TimeScale.BADTS } := by
  simp only [State.view, View.mk.injEq] at h
  obtain ⟨h_word, h_e, h_done, h_source, h_status, h_look_for, h_broke, h_props, h_time_props, h_space_props, h_spec_props, h_red_props, h_timeid, h_spaceid, h_velid, h_specid, h_redid, h_timefrm, h_spacefrm, h_specfrm, h_redfrm, h_is_skyframe, h_sys, h_naxes, h_epoch, h_use_co, h_use_enc, h_time_enc, h_space_enc, h_spec_enc, h_red_enc, h_start, h_time, h_ts⟩ := h
  replace h_spacefrm := isSome_false h_spacefrm
  replace h_specfrm := isSome_false h_specfrm
  replace h_redfrm := isSome_false h_redfrm
  replace h_time_enc := isSome_false h_time_enc
  replace h_spec_enc := isSome_false h_spec_enc
  replace h_red_enc := isSome_false h_red_enc
  replace h_start := isSome_false h_start
  replace h_time := isSome_false h_time
  simp [GetNextWord, skipSpace, isspace, WordContext.store, SetUnc_isSome, applyFill_isSome, relTime_isSome, mkRegion, State.view, step, stepBody, branch, putIf, State.warn, State.chr2Double, NULL_ID, TIME_INTERVAL_ID, START_TIME_ID, STOP_TIME_ID, POSITION_INTERVAL_ID, ALL_SKY_ID, CIRCLE_ID, ELLIPSE_ID, BOX_ID, POLYGON_ID, CONVEX_ID, POSITION_ID, TIME_ID, SPECTRAL_INTERVAL_ID, SPECTRAL_ID, REDSHIFT_INTERVAL_ID, REDSHIFT_ID, VELOCITY_INTERVAL_ID, stepSpectralIdentifier, h_word, h_e, h_done, h_source, h_status, h_look_for, h_broke, h_props, h_time_props, h_space_props, h_spec_props, h_red_props, h_timeid, h_spaceid, h_velid, h_specid, h_redid, h_timefrm, h_spacefrm, h_specfrm, h_redfrm, h_is_skyframe, h_sys, h_naxes, h_epoch, h_use_co, h_use_enc, h_time_enc, h_space_enc, h_spec_enc, h_red_enc, h_start, h_time, h_ts]

theorem circle_step16 (env : Env) (s : State)
    (h : s.view =
      { word := some "", e := none, done := false, source := [], status := Status.ok,
        look_for := LookFor.REDSHIFT_IDENTIFIER, broke := false, props := some PropsSel.space,
        time_props := KeyMap.empty,
        space_props := (((((((KeyMap.empty).put "ID" "Circle").put "FRAME" "ICRS").put "REFPOS" "TOPOCENTER").put "FLAVOR" "SPHER2").put "FLAVOUR" "SPHER2").put "CENTRE" "10 20").put "RADIUS" "0.5",
        spec_props := KeyMap.empty, red_props := KeyMap.empty, timeid := NULL_ID,
        spaceid := NULL_ID, velid := NULL_ID, specid := NULL_ID, redid := NULL_ID,
        timefrm := none, spacefrm := false, specfrm := false, redfrm := false,
        is_skyframe := true, sys := System.ICRS, naxes := 2, epoch := none, use_co := false,
        use_enc := true, time_enc := false, space_enc := true, spec_enc := false,
        red_enc := false, start := false, time := false, ts := TimeScale.BADTS }) :
    (step env s "").view =
      { word := none, e := none, done := true, source := [], status := Status.ok,
        look_for := LookFor.REDSHIFT_IDENTIFIER, broke := false, props := some PropsSel.space,
        time_props := KeyMap.empty,
        space_props := (((((((KeyMap.empty).put "ID" "Circle").put "FRAME" "ICRS").put "REFPOS" "TOPOCENTER").put "FLAVOR" "SPHER2").put "FLAVOUR" "SPHER2").put "CENTRE" "10 20").put "RADIUS" "0.5",
        spec_props := KeyMap.empty, red_props := KeyMap.empty, timeid := NULL_ID,
        spaceid := NULL_ID, velid := NULL_ID, specid := NULL_ID, redid := NULL_ID,
        timefrm := none, spacefrm := false, specfrm := false, redfrm := false,
        is_skyframe := true, sys := System.ICRS, naxes := 2, epoch := none, use_co := false,
        use_enc := true, time_enc := false, space_enc := true, spec_enc := false,
        red_enc := false, start := false, time := false, ts := TimeScale.BADTS } := by
  simp only [State.view, View.mk.injEq] at h
  obtain ⟨h_word, h_e, h_done, h_source, h_status, h_look_for, h_broke, h_props, h_time_props, h_space_props, h_spec_props, h_red_props, h_timeid, h_spaceid, h_velid, h_specid, h_redid, h_timefrm, h_spacefrm, h_specfrm, h_redfrm, h_is_skyframe, h_sys, h_naxes, h_epoch, h_use_co, h_use_enc, h_time_enc, h_space_enc, h_spec_enc, h_red_enc, h_start, h_time, h_ts⟩ := h
  replace h_spacefrm := isSome_false h_spacefrm
  replace h_specfrm := isSome_false h_specfrm
  replace h_redfrm := isSome_false h_redfrm
  replace h_time_enc := isSome_false h_time_enc
  replace h_spec_enc := isSome_false h_spec_enc
  replace h_red_enc := isSome_false h_red_enc
  replace h_start := isSome_false h_start
  replace h_time := isSome_false h_time
  simp [GetNextWord, skipSpace, isspace, WordContext.store, SetUnc_isSome, applyFill_isSome, relTime_isSome, mkRegion, State.view, step, stepBody, branch, putIf, State.warn, State.chr2Double, NULL_ID, TIME_INTERVAL_ID, START_TIME_ID, STOP_TIME_ID, POSITION_INTERVAL_ID, ALL_SKY_ID, CIRCLE_ID, ELLIPSE_ID, BOX_ID, POLYGON_ID, CONVEX_ID, POSITION_ID, TIME_ID, SPECTRAL_INTERVAL_ID, SPECTRAL_ID, REDSHIFT_INTERVAL_ID, REDSHIFT_ID, VELOCITY_INTERVAL_ID, stepRedshiftIdentifier, finishSpec, h_word, h_e, h_done, h_source, h_status, h_look_for, h_broke, h_props, h_time_props, h_space_props, h_spec_props, h_red_props, h_timeid, h_spaceid, h_velid, h_specid, h_redid, h_timefrm, h_spacefrm, h_specfrm, h_redfrm, h_is_skyframe, h_sys, h_naxes, h_epoch, h_use_co, h_use_enc, h_time_enc, h_space_enc, h_spec_enc, h_red_enc, h_start, h_time, h_ts]

theorem circle_loop (env : Env) (v1 v2 v3 : ℚ) (h1 : env.chr2Double "10" = some v1)
    (h2 : env.chr2Double "20" = some v2) (h3 : env.chr2Double "0.5" = some v3) :
    (readLoop env 16 (initState ["Circle ICRS TOPOCENTER SPHER2 10 20 0.5"])).view =
      { word := none, e := none, done := true, source := [], status := Status.ok,
        look_for := LookFor.REDSHIFT_IDENTIFIER, broke := false, props := some PropsSel.space,
        time_props := KeyMap.empty,
        space_props := (((((((KeyMap.empty).put "ID" "Circle").put "FRAME" "ICRS").put "REFPOS" "TOPOCENTER").put "FLAVOR" "SPHER2").put "FLAVOUR" "SPHER2").put "CENTRE" "10 20").put "RADIUS" "0.5",
        spec_props := KeyMap.empty, red_props := KeyMap.empty, timeid := NULL_ID,
        spaceid := NULL_ID, velid := NULL_ID, specid := NULL_ID, redid := NULL_ID,
        timefrm := none, spacefrm := false, specfrm := false, redfrm := false,
        is_skyframe := true, sys := System.ICRS, naxes := 2, epoch := none, use_co := false,
        use_enc := true, time_enc := false, space_enc := true, spec_enc := false,
        red_enc := false, start := false, time := false, ts := TimeScale.BADTS } := by
  have k0 := initState_view ("Circle ICRS TOPOCENTER SPHER2 10 20 0.5") "Circle" (['I', 'C', 'R', 'S', ' ', 'T', 'O', 'P', 'O', 'C', 'E', 'N', 'T', 'E', 'R', ' ', 'S', 'P', 'H', 'E', 'R', '2', ' ', '1', '0', ' ', '2', '0', ' ', '0', '.', '5']) (by decide) (by rfl)
  rw [readLoop_view_succ env 15 _ ("Circle") _ k0 rfl rfl rfl]
  have k1 := circle_step1 env _ k0
  rw [readLoop_view_succ env 14 _ ("Circle") _ k1 rfl rfl rfl]
  have k2 := circle_step2 env _ k1
  rw [readLoop_view_succ env 13 _ ("ICRS") _ k2 rfl rfl rfl]
  have k3 := circle_step3 env _ k2
  rw [readLoop_view_succ env 12 _ ("ICRS") _ k3 rfl rfl rfl]
  have k4 := circle_step4 env _ k3
  rw [readLoop_view_succ env 11 _ ("TOPOCENTER") _ k4 rfl rfl rfl]
  have k5 := circle_step5 env _ k4
  rw [readLoop_view_succ env 10 _ ("SPHER2") _ k5 rfl rfl rfl]
  have k6 := circle_step6 env _ k5
  rw [readLoop_view_succ env 9 _ ("10") _ k6 rfl rfl rfl]
  have k7 := circle_step7 env v1 v2 v3 h1 h2 h3 _ k6
  rw [readLoop_view_succ env 8 _ ("") _ k7 rfl rfl rfl]
  have k8 := circle_step8 env _ k7
  rw [readLoop_view_succ env 7 _ ("") _ k8 rfl rfl rfl]
  have k9 := circle_step9 env _ k8
  rw [readLoop_view_succ env 6 _ ("") _ k9 rfl rfl rfl]
  have k10 := circle_step10 env _ k9
  rw [readLoop_view_succ env 5 _ ("") _ k10 rfl rfl rfl]
  have k11 := circle_step11 env _ k10
  rw [readLoop_view_succ env 4 _ ("") _ k11 rfl rfl rfl]
  have k12 := circle_step12 env _ k11
  rw [readLoop_view_succ env 3 _ ("") _ k12 rfl rfl rfl]
  have k13 := circle_step13 env _ k12
  rw [readLoop_view_succ env 2 _ ("") _ k13 rfl rfl rfl]
  have k14 := circle_step14 env _ k13
  rw [readLoop_view_succ env 1 _ ("") _ k14 rfl rfl rfl]
  have k15 := circle_step15 env _ k14
  rw [readLoop_view_succ env 0 _ ("") _ k15 rfl rfl rfl]
  have k16 := circle_step16 env _ k15
  exact k16

theorem circle_decoded (env : Env) (s : State)
    (h : s.view =
      { word := none, e := none, done := true, source := [], status := Status.ok,
        look_for := LookFor.REDSHIFT_IDENTIFIER, broke := false, props := some PropsSel.space,
        time_props := KeyMap.empty,
        space_props := (((((((KeyMap.empty).put "ID" "Circle").put "FRAME" "ICRS").put "REFPOS" "TOPOCENTER").put "FLAVOR" "SPHER2").put "FLAVOUR" "SPHER2").put "CENTRE" "10 20").put "RADIUS" "0.5",
        spec_props := KeyMap.empty, red_props := KeyMap.empty, timeid := NULL_ID,
        spaceid := NULL_ID, velid := NULL_ID, specid := NULL_ID, redid := NULL_ID,
        timefrm := none, spacefrm := false, specfrm := false, redfrm := false,
        is_skyframe := true, sys := System.ICRS, naxes := 2, epoch := none, use_co := false,
        use_enc := true, time_enc := false, space_enc := true, spec_enc := false,
        red_enc := false, start := false, time := false, ts := TimeScale.BADTS }) :
    (decodeEnd env s).status = Status.ok
    ∧ (decodeEnd env s).full_props = some ⟨[("SPACE_PROPS", (((((((KeyMap.empty).put "ID" "Circle").put "FRAME" "ICRS").put "REFPOS" "TOPOCENTER").put "FLAVOR" "SPHER2").put "FLAVOUR" "SPHER2").put "CENTRE" "10 20").put "RADIUS" "0.5")]⟩ := by
  simp only [State.view, View.mk.injEq] at h
  obtain ⟨h_word, h_e, h_done, h_source, h_status, h_look_for, h_broke, h_props, h_time_props, h_space_props, h_spec_props, h_red_props, h_timeid, h_spaceid, h_velid, h_specid, h_redid, h_timefrm, h_spacefrm, h_specfrm, h_redfrm, h_is_skyframe, h_sys, h_naxes, h_epoch, h_use_co, h_use_enc, h_time_enc, h_space_enc, h_spec_enc, h_red_enc, h_start, h_time, h_ts⟩ := h
  obtain ⟨r, hr⟩ := Option.isSome_iff_exists.1 h_space_enc
  replace h_redfrm := isSome_false h_redfrm
  replace h_time_enc := isSome_false h_time_enc
  replace h_spec_enc := isSome_false h_spec_enc
  replace h_red_enc := isSome_false h_red_enc
  simp [decodeEnd, finishRed, simplifyFull, foldPrism, PropTree.put, KeyMap.size, KeyMap.put,
    KeyMap.hasKey, KeyMap.empty, hr, h_word, h_e, h_done, h_source, h_status, h_look_for, h_broke, h_props, h_time_props, h_space_props, h_spec_props, h_red_props, h_timeid, h_spaceid, h_velid, h_specid, h_redid, h_timefrm, h_spacefrm, h_specfrm, h_redfrm, h_is_skyframe, h_sys, h_naxes, h_epoch, h_use_co, h_use_enc, h_time_enc, h_spec_enc, h_red_enc, h_start, h_time, h_ts]

/-! ## The passes of the main loop for the document `SpectralInterval TOPOCENTER 1 2 unit Hz`

Each lemma follows one pass of the loop on the view of the state. -/

theorem spectral_step1 (env : Env) (s : State)
    (h : s.view =
      { word := some "SpectralInterval",
        e := some [' ', 'T', 'O', 'P', 'O', 'C', 'E', 'N', 'T', 'E', 'R', ' ', '1', ' ', '2', ' ', 'u', 'n', 'i', 't', ' ', 'H', 'z'],
        done := false, source := [], status := Status.ok, look_for := LookFor.TIME_IDENTIFIER,
        broke := false, props := none, time_props := KeyMap.empty, space_props := KeyMap.empty,
        spec_props := KeyMap.empty, red_props := KeyMap.empty, timeid := NULL_ID,
        spaceid := NULL_ID, velid := NULL_ID, specid := NULL_ID, redid := NULL_ID,
        timefrm := none, spacefrm := false, specfrm := false, redfrm := false,
        is_skyframe := false, sys := System.unset, naxes := 0, epoch := none, use_co := false,
        use_enc := false, time_enc := false, space_enc := false, spec_enc := false,
        red_enc := false, start := false, time := false, ts := TimeScale.BADTS }) :
    (step env s "SpectralInterval").view =
      { word := some "SpectralInterval",
        e := some [' ', 'T', 'O', 'P', 'O', 'C', 'E', 'N', 'T', 'E', 'R', ' ', '1', ' ', '2', ' ', 'u', 'n', 'i', 't', ' ', 'H', 'z'],
        done := false, source := [], status := Status.ok, look_for := LookFor.SPACE_IDENTIFIER,
        broke := false, props := none, time_props := KeyMap.empty, space_props := KeyMap.empty,
        spec_props := KeyMap.empty, red_props := KeyMap.empty, timeid := NULL_ID,
        spaceid := NULL_ID, velid := NULL_ID, specid := NULL_ID, redid := NULL_ID,
        timefrm := none, spacefrm := false, specfrm := false, redfrm := false,
        is_skyframe := false, sys := System.unset, naxes := 0, epoch := none, use_co := false,
        use_enc := false, time_enc := false, space_enc := false, spec_enc := false,
        red_enc := false, start := false, time := false, ts := TimeScale.BADTS } := by
  simp only [State.view, View.mk.injEq] at h
  obtain ⟨h_word, h_e, h_done, h_source, h_status, h_look_for, h_broke, h_props, h_time_props, h_space_props, h_spec_props, h_red_props, h_timeid, h_spaceid, h_velid, h_specid, h_redid, h_timefrm, h_spacefrm, h_specfrm, h_redfrm, h_is_skyframe, h_sys, h_naxes, h_epoch, h_use_co, h_use_enc, h_time_enc, h_space_enc, h_spec_enc, h_red_enc, h_start, h_time, h_ts⟩ := h
  replace h_spacefrm := isSome_false h_spacefrm
  replace h_specfrm := isSome_false h_specfrm
  replace h_redfrm := isSome_false h_redfrm
  replace h_time_enc := isSome_false h_time_enc
  replace h_space_enc := isSome_false h_space_enc
  replace h_spec_enc := isSome_false h_spec_enc
  replace h_red_enc := isSome_false h_red_enc
  replace h_start := isSome_false h_start
  replace h_time := isSome_false h_time
  simp [GetNextWord, skipSpace, isspace, WordContext.store, SetUnc_isSome, applyFill_isSome, relTime_isSome, mkRegion, State.view, step, stepBody, branch, putIf, State.warn, State.chr2Double, NULL_ID, TIME_INTERVAL_ID, START_TIME_ID, STOP_TIME_ID, POSITION_INTERVAL_ID, ALL_SKY_ID, CIRCLE_ID, ELLIPSE_ID, BOX_ID, POLYGON_ID, CONVEX_ID, POSITION_ID, TIME_ID, SPECTRAL_INTERVAL_ID, SPECTRAL_ID, REDSHIFT_INTERVAL_ID, REDSHIFT_ID, VELOCITY_INTERVAL_ID, stepTimeIdentifier, h_word, h_e, h_done, h_source, h_status, h_look_for, h_broke, h_props, h_time_props, h_space_props, h_spec_props, h_red_props, h_timeid, h_spaceid, h_velid, h_specid, h_redid, h_timefrm, h_spacefrm, h_specfrm, h_redfrm, h_is_skyframe, h_sys, h_naxes, h_epoch, h_use_co, h_use_enc, h_time_enc, h_space_enc, h_spec_enc, h_red_enc, h_start, h_time, h_ts]

theorem spectral_step2 (env : Env) (s : State)
    (h : s.view =
      { word := some "SpectralInterval",
        e := some [' ', 'T', 'O', 'P', 'O', 'C', 'E', 'N', 'T', 'E', 'R', ' ', '1', ' ', '2', ' ', 'u', 'n', 'i', 't', ' ', 'H', 'z'],
        done := false, source := [], status := Status.ok, look_for := LookFor.SPACE_IDENTIFIER,
        broke := false, props := none, time_props := KeyMap.empty, space_props := KeyMap.empty,
        spec_props := KeyMap.empty, red_props := KeyMap.empty, timeid := NULL_ID,
        spaceid := NULL_ID, velid := NULL_ID, specid := NULL_ID, redid := NULL_ID,
        timefrm := none, spacefrm := false, specfrm := false, redfrm := false,
        is_skyframe := false, sys := System.unset, naxes := 0, epoch := none, use_co := false,
        use_enc := false, time_enc := false, space_enc := false, spec_enc := false,
        red_enc := false, start := false, time := false, ts := TimeScale.BADTS }) :
    (step env s "SpectralInterval").view =
      { word := some "SpectralInterval",
        e := some [' ', 'T', 'O', 'P', 'O', 'C', 'E', 'N', 'T', 'E', 'R', ' ', '1', ' ', '2', ' ', 'u', 'n', 'i', 't', ' ', 'H', 'z'],
        done := false, source := [], status := Status.ok,
        look_for := LookFor.SPECTRAL_IDENTIFIER, broke := false, props := none,
        time_props := KeyMap.empty, space_props := KeyMap.empty, spec_props := KeyMap.empty,
        red_props := KeyMap.empty, timeid := NULL_ID, spaceid := NULL_ID, velid := NULL_ID,
        specid := NULL_ID, redid := NULL_ID, timefrm := none, spacefrm := false,
        specfrm := false, redfrm := false, is_skyframe := false, sys := System.unset, naxes := 0,
        epoch := none, use_co := false, use_enc := false, time_enc := false, space_enc := false,
        spec_enc := false, red_enc := false, start := false, time := false,
        ts := TimeScale.BADTS } := by
  simp only [State.view, View.mk.injEq] at h
  obtain ⟨h_word, h_e, h_done, h_source, h_status, h_look_for, h_broke, h_props, h_time_props, h_space_props, h_spec_props, h_red_props, h_timeid, h_spaceid, h_velid, h_specid, h_redid, h_timefrm, h_spacefrm, h_specfrm, h_redfrm, h_is_skyframe, h_sys, h_naxes, h_epoch, h_use_co, h_use_enc, h_time_enc, h_space_enc, h_spec_enc, h_red_enc, h_start, h_time, h_ts⟩ := h
  replace h_spacefrm := isSome_false h_spacefrm
  replace h_specfrm := isSome_false h_specfrm
  replace h_redfrm := isSome_false h_redfrm
  replace h_time_enc := isSome_false h_time_enc
  replace h_space_enc := isSome_false h_space_enc
  replace h_spec_enc := isSome_false h_spec_enc
  replace h_red_enc := isSome_false h_red_enc
  replace h_start := isSome_false h_start
  replace h_time := isSome_false h_time
  simp [GetNextWord, skipSpace, isspace, WordContext.store, SetUnc_isSome, applyFill_isSome, relTime_isSome, mkRegion, State.view, step, stepBody, branch, putIf, State.warn, State.chr2Double, NULL_ID, TIME_INTERVAL_ID, START_TIME_ID, STOP_TIME_ID, POSITION_INTERVAL_ID, ALL_SKY_ID, CIRCLE_ID, ELLIPSE_ID, BOX_ID, POLYGON_ID, CONVEX_ID, POSITION_ID, TIME_ID, SPECTRAL_INTERVAL_ID, SPECTRAL_ID, REDSHIFT_INTERVAL_ID, REDSHIFT_ID, VELOCITY_INTERVAL_ID, stepSpaceIdentifier, finishTime, h_word, h_e, h_done, h_source, h_status, h_look_for, h_broke, h_props, h_time_props, h_space_props, h_spec_props, h_red_props, h_timeid, h_spaceid, h_velid, h_specid, h_redid, h_timefrm, h_spacefrm, h_specfrm, h_redfrm, h_is_skyframe, h_sys, h_naxes, h_epoch, h_use_co, h_use_enc, h_time_enc, h_space_enc, h_spec_enc, h_red_enc, h_start, h_time, h_ts]

theorem spectral_step3 (env : Env) (s : State)
    (h : s.view =
      { word := some "SpectralInterval",
        e := some [' ', 'T', 'O', 'P', 'O', 'C', 'E', 'N', 'T', 'E', 'R', ' ', '1', ' ', '2', ' ', 'u', 'n', 'i', 't', ' ', 'H', 'z'],
        done := false, source := [], status := Status.ok,
        look_for := LookFor.SPECTRAL_IDENTIFIER, broke := false, props := none,
        time_props := KeyMap.empty, space_props := KeyMap.empty, spec_props := KeyMap.empty,
        red_props := KeyMap.empty, timeid := NULL_ID, spaceid := NULL_ID, velid := NULL_ID,
        specid := NULL_ID, redid := NULL_ID, timefrm := none, spacefrm := false,
        specfrm := false, redfrm := false, is_skyframe := false, sys := System.unset, naxes := 0,
        epoch := none, use_co := false, use_enc := false, time_enc := false, space_enc := false,
        spec_enc := false, red_enc := false, start := false, time := false,
        ts := TimeScale.BADTS }) :
    (step env s "SpectralInterval").view =
      { word := some "TOPOCENTER",
        e := some [' ', '1', ' ', '2', ' ', 'u', 'n', 'i', 't', ' ', 'H', 'z'], done := false,
        source := [], status := Status.ok, look_for := LookFor.FILL_FACTOR, broke := false,
        props := some PropsSel.spec, time_props := KeyMap.empty, space_props := KeyMap.empty,
        spec_props := (KeyMap.empty).put "ID" "SpectralInterval", red_props := KeyMap.empty,
        timeid := NULL_ID, spaceid := NULL_ID, velid := NULL_ID, specid := SPECTRAL_INTERVAL_ID,
        redid := NULL_ID, timefrm := none, spacefrm := false, specfrm := true, redfrm := false,
        is_skyframe := false, sys := System.unset, naxes := 0, epoch := none, use_co := false,
        use_enc := false, time_enc := false, space_enc := false, spec_enc := false,
        red_enc := false, start := false, time := false, ts := TimeScale.BADTS } := by
  simp only [State.view, View.mk.injEq] at h
  obtain ⟨h_word, h_e, h_done, h_source, h_status, h_look_for, h_broke, h_props, h_time_props, h_space_props, h_spec_props, h_red_props, h_timeid, h_spaceid, h_velid, h_specid, h_redid, h_timefrm, h_spacefrm, h_specfrm, h_redfrm, h_is_skyframe, h_sys, h_naxes, h_epoch, h_use_co, h_use_enc, h_time_enc, h_space_enc, h_spec_enc, h_red_enc, h_start, h_time, h_ts⟩ := h
  replace h_spacefrm := isSome_false h_spacefrm
  replace h_specfrm := isSome_false h_specfrm
  replace h_redfrm := isSome_false h_redfrm
  replace h_time_enc := isSome_false h_time_enc
  replace h_space_enc := isSome_false h_space_enc
  replace h_spec_enc := isSome_false h_spec_enc
  replace h_red_enc := isSome_false h_red_enc
  replace h_start := isSome_false h_start
  replace h_time := isSome_false h_time
  simp [GetNextWord, skipSpace, isspace, WordContext.store, SetUnc_isSome, applyFill_isSome, relTime_isSome, mkRegion, State.view, step, stepBody, branch, putIf, State.warn, State.chr2Double, NULL_ID, TIME_INTERVAL_ID, START_TIME_ID, STOP_TIME_ID, POSITION_INTERVAL_ID, ALL_SKY_ID, CIRCLE_ID, ELLIPSE_ID, BOX_ID, POLYGON_ID, CONVEX_ID, POSITION_ID, TIME_ID, SPECTRAL_INTERVAL_ID, SPECTRAL_ID, REDSHIFT_INTERVAL_ID, REDSHIFT_ID, VELOCITY_INTERVAL_ID, stepSpectralIdentifier, h_word, h_e, h_done, h_source, h_status, h_look_for, h_broke, h_props, h_time_props, h_space_props, h_spec_props, h_red_props, h_timeid, h_spaceid, h_velid, h_specid, h_redid, h_timefrm, h_spacefrm, h_specfrm, h_redfrm, h_is_skyframe, h_sys, h_naxes, h_epoch, h_use_co, h_use_enc, h_time_enc, h_space_enc, h_spec_enc, h_red_enc, h_start, h_time, h_ts]

theorem spectral_step4 (env : Env) (s : State)
    (h : s.view =
      { word := some "TOPOCENTER",
        e := some [' ', '1', ' ', '2', ' ', 'u', 'n', 'i', 't', ' ', 'H', 'z'], done := false,
        source := [], status := Status.ok, look_for := LookFor.FILL_FACTOR, broke := false,
        props := some PropsSel.spec, time_props := KeyMap.empty, space_props := KeyMap.empty,
        spec_props := (KeyMap.empty).put "ID" "SpectralInterval", red_props := KeyMap.empty,
        timeid := NULL_ID, spaceid := NULL_ID, velid := NULL_ID, specid := SPECTRAL_INTERVAL_ID,
        redid := NULL_ID, timefrm := none, spacefrm := false, specfrm := true, redfrm := false,
        is_skyframe := false, sys := System.unset, naxes := 0, epoch := none, use_co := false,
        use_enc := false, time_enc := false, space_enc := false, spec_enc := false,
        red_enc := false, start := false, time := false, ts := TimeScale.BADTS }) :
    (step env s "TOPOCENTER").view =
      { word := some "TOPOCENTER",
        e := some [' ', '1', ' ', '2', ' ', 'u', 'n', 'i', 't', ' ', 'H', 'z'], done := false,
        source := [], status := Status.ok, look_for := LookFor.REFPOS, broke := false,
        props := some PropsSel.spec, time_props := KeyMap.empty, space_props := KeyMap.empty,
        spec_props := (KeyMap.empty).put "ID" "SpectralInterval", red_props := KeyMap.empty,
        timeid := NULL_ID, spaceid := NULL_ID, velid := NULL_ID, specid := SPECTRAL_INTERVAL_ID,
        redid := NULL_ID, timefrm := none, spacefrm := false, specfrm := true, redfrm := false,
        is_skyframe := false, sys := System.unset, naxes := 0, epoch := none, use_co := false,
        use_enc := false, time_enc := false, space_enc := false, spec_enc := false,
        red_enc := false, start := false, time := false, ts := TimeScale.BADTS } := by
  simp only [State.view, View.mk.injEq] at h
  obtain ⟨h_word, h_e, h_done, h_source, h_status, h_look_for, h_broke, h_props, h_time_props, h_space_props, h_spec_props, h_red_props, h_timeid, h_spaceid, h_velid, h_specid, h_redid, h_timefrm, h_spacefrm, h_specfrm, h_redfrm, h_is_skyframe, h_sys, h_naxes, h_epoch, h_use_co, h_use_enc, h_time_enc, h_space_enc, h_spec_enc, h_red_enc, h_start, h_time, h_ts⟩ := h
  obtain ⟨f_specfrm, hf_specfrm⟩ := Option.isSome_iff_exists.1 h_specfrm
  replace h_spacefrm := isSome_false h_spacefrm
  replace h_redfrm := isSome_false h_redfrm
  replace h_time_enc := isSome_false h_time_enc
  replace h_space_enc := isSome_false h_space_enc
  replace h_spec_enc := isSome_false h_spec_enc
  replace h_red_enc := isSome_false h_red_enc
  replace h_start := isSome_false h_start
  replace h_time := isSome_false h_time
  simp [GetNextWord, skipSpace, isspace, WordContext.store, SetUnc_isSome, applyFill_isSome, relTime_isSome, mkRegion, State.view, step, stepBody, branch, putIf, State.warn, State.chr2Double, NULL_ID, TIME_INTERVAL_ID, START_TIME_ID, STOP_TIME_ID, POSITION_INTERVAL_ID, ALL_SKY_ID, CIRCLE_ID, ELLIPSE_ID, BOX_ID, POLYGON_ID, CONVEX_ID, POSITION_ID, TIME_ID, SPECTRAL_INTERVAL_ID, SPECTRAL_ID, REDSHIFT_INTERVAL_ID, REDSHIFT_ID, VELOCITY_INTERVAL_ID, stepFillFactor, hf_specfrm, h_word, h_e, h_done, h_source, h_status, h_look_for, h_broke, h_props, h_time_props, h_space_props, h_spec_props, h_red_props, h_timeid, h_spaceid, h_velid, h_specid, h_redid, h_timefrm, h_spacefrm, h_specfrm, h_redfrm, h_is_skyframe, h_sys, h_naxes, h_epoch, h_use_co, h_use_enc, h_time_enc, h_space_enc, h_spec_enc, h_red_enc, h_start, h_time, h_ts]

theorem spectral_step5 (env : Env) (s : State)
    (h : s.view =
      { word := some "TOPOCENTER",
        e := some [' ', '1', ' ', '2', ' ', 'u', 'n', 'i', 't', ' ', 'H', 'z'], done := false,
        source := [], status := Status.ok, look_for := LookFor.REFPOS, broke := false,
        props := some PropsSel.spec, time_props := KeyMap.empty, space_props := KeyMap.empty,
        spec_props := (KeyMap.empty).put "ID" "SpectralInterval", red_props := KeyMap.empty,
        timeid := NULL_ID, spaceid := NULL_ID, velid := NULL_ID, specid := SPECTRAL_INTERVAL_ID,
        redid := NULL_ID, timefrm := none, spacefrm := false, specfrm := true, redfrm := false,
        is_skyframe := false, sys := System.unset, naxes := 0, epoch := none, use_co := false,
        use_enc := false, time_enc := false, space_enc := false, spec_enc := false,
        red_enc := false, start := false, time := false, ts := TimeScale.BADTS }) :
    (step env s "TOPOCENTER").view =
      { word := some "1", e := some [' ', '2', ' ', 'u', 'n', 'i', 't', ' ', 'H', 'z'],
        done := false, source := [], status := Status.ok, look_for := LookFor.LIMITS,
        broke := false, props := some PropsSel.spec, time_props := KeyMap.empty,
        space_props := KeyMap.empty,
        spec_props := ((KeyMap.empty).put "ID" "SpectralInterval").put "REFPOS" "TOPOCENTER",
        red_props := KeyMap.empty, timeid := NULL_ID, spaceid := NULL_ID, velid := NULL_ID,
        specid := SPECTRAL_INTERVAL_ID, redid := NULL_ID, timefrm := none, spacefrm := false,
        specfrm := true, redfrm := false, is_skyframe := false, sys := System.unset, naxes := 0,
        epoch := none, use_co := false, use_enc := false, time_enc := false, space_enc := false,
        spec_enc := false, red_enc := false, start := false, time := false,
        ts := TimeScale.BADTS } := by
  simp only [State.view, View.mk.injEq] at h
  obtain ⟨h_word, h_e, h_done, h_source, h_status, h_look_for, h_broke, h_props, h_time_props, h_space_props, h_spec_props, h_red_props, h_timeid, h_spaceid, h_velid, h_specid, h_redid, h_timefrm, h_spacefrm, h_specfrm, h_redfrm, h_is_skyframe, h_sys, h_naxes, h_epoch, h_use_co, h_use_enc, h_time_enc, h_space_enc, h_spec_enc, h_red_enc, h_start, h_time, h_ts⟩ := h
  obtain ⟨f_specfrm, hf_specfrm⟩ := Option.isSome_iff_exists.1 h_specfrm
  replace h_spacefrm := isSome_false h_spacefrm
  replace h_redfrm := isSome_false h_redfrm
  replace h_time_enc := isSome_false h_time_enc
  replace h_space_enc := isSome_false h_space_enc
  replace h_spec_enc := isSome_false h_spec_enc
  replace h_red_enc := isSome_false h_red_enc
  replace h_start := isSome_false h_start
  replace h_time := isSome_false h_time
  simp [GetNextWord, skipSpace, isspace, WordContext.store, SetUnc_isSome, applyFill_isSome, relTime_isSome, mkRegion, State.view, step, stepBody, branch, putIf, State.warn, State.chr2Double, NULL_ID, TIME_INTERVAL_ID, START_TIME_ID, STOP_TIME_ID, POSITION_INTERVAL_ID, ALL_SKY_ID, CIRCLE_ID, ELLIPSE_ID, BOX_ID, POLYGON_ID, CONVEX_ID, POSITION_ID, TIME_ID, SPECTRAL_INTERVAL_ID, SPECTRAL_ID, REDSHIFT_INTERVAL_ID, REDSHIFT_ID, VELOCITY_INTERVAL_ID, stepRefPos, stepRefPosSpec, hf_specfrm, h_word, h_e, h_done, h_source, h_status, h_look_for, h_broke, h_props, h_time_props, h_space_props, h_spec_props, h_red_props, h_timeid, h_spaceid, h_velid, h_specid, h_redid, h_timefrm, h_spacefrm, h_specfrm, h_redfrm, h_is_skyframe, h_sys, h_naxes, h_epoch, h_use_co, h_use_enc, h_time_enc, h_space_enc, h_spec_enc, h_red_enc, h_start, h_time, h_ts]

theorem spectral_step6 (env : Env) (v1 v2 : ℚ) (h1 : env.chr2Double "1" = some v1)
    (h2 : env.chr2Double "2" = some v2) (s : State)
    (h : s.view =
      { word := some "1", e := some [' ', '2', ' ', 'u', 'n', 'i', 't', ' ', 'H', 'z'],
        done := false, source := [], status := Status.ok, look_for := LookFor.LIMITS,
        broke := false, props := some PropsSel.spec, time_props := KeyMap.empty,
        space_props := KeyMap.empty,
        spec_props := ((KeyMap.empty).put "ID" "SpectralInterval").put "REFPOS" "TOPOCENTER",
        red_props := KeyMap.empty, timeid := NULL_ID, spaceid := NULL_ID, velid := NULL_ID,
        specid := SPECTRAL_INTERVAL_ID, redid := NULL_ID, timefrm := none, spacefrm := false,
        specfrm := true, redfrm := false, is_skyframe := false, sys := System.unset, naxes := 0,
        epoch := none, use_co := false, use_enc := false, time_enc := false, space_enc := false,
        spec_enc := false, red_enc := false, start := false, time := false,
        ts := TimeScale.BADTS }) :
    (step env s "1").view =
      { word := some "unit", e := some [' ', 'H', 'z'], done := false, source := [],
        status := Status.ok, look_for := LookFor.RED_SPEC_LABEL, broke := false,
        props := some PropsSel.spec, time_props := KeyMap.empty, space_props := KeyMap.empty,
        spec_props := ((((KeyMap.empty).put "ID" "SpectralInterval").put "REFPOS" "TOPOCENTER").put "LOLIMIT" "1").put "HILIMIT" "2",
        red_props := KeyMap.empty, timeid := NULL_ID, spaceid := NULL_ID, velid := NULL_ID,
        specid := SPECTRAL_INTERVAL_ID, redid := NULL_ID, timefrm := none, spacefrm := false,
        specfrm := true, redfrm := false, is_skyframe := false, sys := System.unset, naxes := 0,
        epoch := none, use_co := false, use_enc := false, time_enc := false, space_enc := false,
        spec_enc := false, red_enc := false, start := false, time := false,
        ts := TimeScale.BADTS } := by
  simp only [State.view, View.mk.injEq] at h
  obtain ⟨h_word, h_e, h_done, h_source, h_status, h_look_for, h_broke, h_props, h_time_props, h_space_props, h_spec_props, h_red_props, h_timeid, h_spaceid, h_velid, h_specid, h_redid, h_timefrm, h_spacefrm, h_specfrm, h_redfrm, h_is_skyframe, h_sys, h_naxes, h_epoch, h_use_co, h_use_enc, h_time_enc, h_space_enc, h_spec_enc, h_red_enc, h_start, h_time, h_ts⟩ := h
  obtain ⟨f_specfrm, hf_specfrm⟩ := Option.isSome_iff_exists.1 h_specfrm
  replace h_spacefrm := isSome_false h_spacefrm
  replace h_redfrm := isSome_false h_redfrm
  replace h_time_enc := isSome_false h_time_enc
  replace h_space_enc := isSome_false h_space_enc
  replace h_spec_enc := isSome_false h_spec_enc
  replace h_red_enc := isSome_false h_red_enc
  replace h_start := isSome_false h_start
  replace h_time := isSome_false h_time
  simp [GetNextWord, skipSpace, isspace, WordContext.store, SetUnc_isSome, applyFill_isSome, relTime_isSome, mkRegion, State.view, step, stepBody, branch, putIf, State.warn, State.chr2Double, NULL_ID, TIME_INTERVAL_ID, START_TIME_ID, STOP_TIME_ID, POSITION_INTERVAL_ID, ALL_SKY_ID, CIRCLE_ID, ELLIPSE_ID, BOX_ID, POLYGON_ID, CONVEX_ID, POSITION_ID, TIME_ID, SPECTRAL_INTERVAL_ID, SPECTRAL_ID, REDSHIFT_INTERVAL_ID, REDSHIFT_ID, VELOCITY_INTERVAL_ID, stepLimits, limitsLow, limitsHigh, hf_specfrm, h1, h2, h_word, h_e, h_done, h_source, h_status, h_look_for, h_broke, h_props, h_time_props, h_space_props, h_spec_props, h_red_props, h_timeid, h_spaceid, h_velid, h_specid, h_redid, h_timefrm, h_spacefrm, h_specfrm, h_redfrm, h_is_skyframe, h_sys, h_naxes, h_epoch, h_use_co, h_use_enc, h_time_enc, h_space_enc, h_spec_enc, h_red_enc, h_start, h_time, h_ts]

theorem spectral_step7 (env : Env) (s : State)
    (h : s.view =
      { word := some "unit", e := some [' ', 'H', 'z'], done := false, source := [],
        status := Status.ok, look_for := LookFor.RED_SPEC_LABEL, broke := false,
        props := some PropsSel.spec, time_props := KeyMap.empty, space_props := KeyMap.empty,
        spec_props := ((((KeyMap.empty).put "ID" "SpectralInterval").put "REFPOS" "TOPOCENTER").put "LOLIMIT" "1").put "HILIMIT" "2",
        red_props := KeyMap.empty, timeid := NULL_ID, spaceid := NULL_ID, velid := NULL_ID,
        specid := SPECTRAL_INTERVAL_ID, redid := NULL_ID, timefrm := none, spacefrm := false,
        specfrm := true, redfrm := false, is_skyframe := false, sys := System.unset, naxes := 0,
        epoch := none, use_co := false, use_enc := false, time_enc := false, space_enc := false,
        spec_enc := false, red_enc := false, start := false, time := false,
        ts := TimeScale.BADTS }) :
    (step env s "unit").view =
      { word := some "unit", e := some [' ', 'H', 'z'], done := false, source := [],
        status := Status.ok, look_for := LookFor.UNIT, broke := false,
        props := some PropsSel.spec, time_props := KeyMap.empty, space_props := KeyMap.empty,
        spec_props := ((((KeyMap.empty).put "ID" "SpectralInterval").put "REFPOS" "TOPOCENTER").put "LOLIMIT" "1").put "HILIMIT" "2",
        red_props := KeyMap.empty, timeid := NULL_ID, spaceid := NULL_ID, velid := NULL_ID,
        specid := SPECTRAL_INTERVAL_ID, redid := NULL_ID, timefrm := none, spacefrm := false,
        specfrm := true, redfrm := false, is_skyframe := false, sys := System.unset, naxes := 0,
        epoch := none, use_co := false, use_enc := false, time_enc := false, space_enc := false,
        spec_enc := false, red_enc := false, start := false, time := false,
        ts := TimeScale.BADTS } := by
  simp only [State.view, View.mk.injEq] at h
  obtain ⟨h_word, h_e, h_done, h_source, h_status, h_look_for, h_broke, h_props, h_time_props, h_space_props, h_spec_props, h_red_props, h_timeid, h_spaceid, h_velid, h_specid, h_redid, h_timefrm, h_spacefrm, h_specfrm, h_redfrm, h_is_skyframe, h_sys, h_naxes, h_epoch, h_use_co, h_use_enc, h_time_enc, h_space_enc, h_spec_enc, h_red_enc, h_start, h_time, h_ts⟩ := h
  obtain ⟨f_specfrm, hf_specfrm⟩ := Option.isSome_iff_exists.1 h_specfrm
  replace h_spacefrm := isSome_false h_spacefrm
  replace h_redfrm := isSome_false h_redfrm
  replace h_time_enc := isSome_false h_time_enc
  replace h_space_enc := isSome_false h_space_enc
  replace h_spec_enc := isSome_false h_spec_enc
  replace h_red_enc := isSome_false h_red_enc
  replace h_start := isSome_false h_start
  replace h_time := isSome_false h_time
  simp [GetNextWord, skipSpace, isspace, WordContext.store, SetUnc_isSome, applyFill_isSome, relTime_isSome, mkRegion, State.view, step, stepBody, branch, putIf, State.warn, State.chr2Double, NULL_ID, TIME_INTERVAL_ID, START_TIME_ID, STOP_TIME_ID, POSITION_INTERVAL_ID, ALL_SKY_ID, CIRCLE_ID, ELLIPSE_ID, BOX_ID, POLYGON_ID, CONVEX_ID, POSITION_ID, TIME_ID, SPECTRAL_INTERVAL_ID, SPECTRAL_ID, REDSHIFT_INTERVAL_ID, REDSHIFT_ID, VELOCITY_INTERVAL_ID, stepRedSpecLabel, hf_specfrm, h_word, h_e, h_done, h_source, h_status, h_look_for, h_broke, h_props, h_time_props, h_space_props, h_spec_props, h_red_props, h_timeid, h_spaceid, h_velid, h_specid, h_redid, h_timefrm, h_spacefrm, h_specfrm, h_redfrm, h_is_skyframe, h_sys, h_naxes, h_epoch, h_use_co, h_use_enc, h_time_enc, h_space_enc, h_spec_enc, h_red_enc, h_start, h_time, h_ts]

theorem spectral_step8 (env : Env) (s : State)
    (h : s.view =
      { word := some "unit", e := some [' ', 'H', 'z'], done := false, source := [],
        status := Status.ok, look_for := LookFor.UNIT, broke := false,
        props := some PropsSel.spec, time_props := KeyMap.empty, space_props := KeyMap.empty,
        spec_props := ((((KeyMap.empty).put "ID" "SpectralInterval").put "REFPOS" "TOPOCENTER").put "LOLIMIT" "1").put "HILIMIT" "2",
        red_props := KeyMap.empty, timeid := NULL_ID, spaceid := NULL_ID, velid := NULL_ID,
        specid := SPECTRAL_INTERVAL_ID, redid := NULL_ID, timefrm := none, spacefrm := false,
        specfrm := true, redfrm := false, is_skyframe := false, sys := System.unset, naxes := 0,
        epoch := none, use_co := false, use_enc := false, time_enc := false, space_enc := false,
        spec_enc := false, red_enc := false, start := false, time := false,
        ts := TimeScale.BADTS }) :
    (step env s "unit").view =
      { word := some "", e := none, done := false, source := [], status := Status.ok,
        look_for := LookFor.ERROR, broke := false, props := some PropsSel.spec,
        time_props := KeyMap.empty, space_props := KeyMap.empty,
        spec_props := (((((KeyMap.empty).put "ID" "SpectralInterval").put "REFPOS" "TOPOCENTER").put "LOLIMIT" "1").put "HILIMIT" "2").put "UNIT" "Hz",
        red_props := KeyMap.empty, timeid := NULL_ID, spaceid := NULL_ID, velid := NULL_ID,
        specid := SPECTRAL_INTERVAL_ID, redid := NULL_ID, timefrm := none, spacefrm := false,
        specfrm := true, redfrm := false, is_skyframe := false, sys := System.unset, naxes := 0,
        epoch := none, use_co := false, use_enc := false, time_enc := false, space_enc := false,
        spec_enc := false, red_enc := false, start := false, time := false,
        ts := TimeScale.BADTS } := by
  simp only [State.view, View.mk.injEq] at h
  obtain ⟨h_word, h_e, h_done, h_source, h_status, h_look_for, h_broke, h_props, h_time_props, h_space_props, h_spec_props, h_red_props, h_timeid, h_spaceid, h_velid, h_specid, h_redid, h_timefrm, h_spacefrm, h_specfrm, h_redfrm, h_is_skyframe, h_sys, h_naxes, h_epoch, h_use_co, h_use_enc, h_time_enc, h_space_enc, h_spec_enc, h_red_enc, h_start, h_time, h_ts⟩ := h
  obtain ⟨f_specfrm, hf_specfrm⟩ := Option.isSome_iff_exists.1 h_specfrm
  replace h_spacefrm := isSome_false h_spacefrm
  replace h_redfrm := isSome_false h_redfrm
  replace h_time_enc := isSome_false h_time_enc
  replace h_space_enc := isSome_false h_space_enc
  replace h_spec_enc := isSome_false h_spec_enc
  replace h_red_enc := isSome_false h_red_enc
  replace h_start := isSome_false h_start
  replace h_time := isSome_false h_time
  simp [GetNextWord, skipSpace, isspace, WordContext.store, SetUnc_isSome, applyFill_isSome, relTime_isSome, mkRegion, State.view, step, stepBody, branch, putIf, State.warn, State.chr2Double, NULL_ID, TIME_INTERVAL_ID, START_TIME_ID, STOP_TIME_ID, POSITION_INTERVAL_ID, ALL_SKY_ID, CIRCLE_ID, ELLIPSE_ID, BOX_ID, POLYGON_ID, CONVEX_ID, POSITION_ID, TIME_ID, SPECTRAL_INTERVAL_ID, SPECTRAL_ID, REDSHIFT_INTERVAL_ID, REDSHIFT_ID, VELOCITY_INTERVAL_ID, stepUnit, unitWord, unitSpec, hf_specfrm, h_word, h_e, h_done, h_source, h_status, h_look_for, h_broke, h_props, h_time_props, h_space_props, h_spec_props, h_red_props, h_timeid, h_spaceid, h_velid, h_specid, h_redid, h_timefrm, h_spacefrm, h_specfrm, h_redfrm, h_is_skyframe, h_sys, h_naxes, h_epoch, h_use_co, h_use_enc, h_time_enc, h_space_enc, h_spec_enc, h_red_enc, h_start, h_time, h_ts]

theorem spectral_step9 (env : Env) (s : State)
    (h : s.view =
      { word := some "", e := none, done := false, source := [], status := Status.ok,
        look_for := LookFor.ERROR, broke := false, props := some PropsSel.spec,
        time_props := KeyMap.empty, space_props := KeyMap.empty,
        spec_props := (((((KeyMap.empty).put "ID" "SpectralInterval").put "REFPOS" "TOPOCENTER").put "LOLIMIT" "1").put "HILIMIT" "2").put "UNIT" "Hz",
        red_props := KeyMap.empty, timeid := NULL_ID, spaceid := NULL_ID, velid := NULL_ID,
        specid := SPECTRAL_INTERVAL_ID, redid := NULL_ID, timefrm := none, spacefrm := false,
        specfrm := true, redfrm := false, is_skyframe := false, sys := System.unset, naxes := 0,
        epoch := none, use_co := false, use_enc := false, time_enc := false, space_enc := false,
        spec_enc := false, red_enc := false, start := false, time := false,
        ts := TimeScale.BADTS }) :
    (step env s "").view =
      { word := some "", e := none, done := false, source := [], status := Status.ok,
        look_for := LookFor.RESOLUTION, broke := false, props := some PropsSel.spec,
        time_props := KeyMap.empty, space_props := KeyMap.empty,
        spec_props := (((((KeyMap.empty).put "ID" "SpectralInterval").put "REFPOS" "TOPOCENTER").put "LOLIMIT" "1").put "HILIMIT" "2").put "UNIT" "Hz",
        red_props := KeyMap.empty, timeid := NULL_ID, spaceid := NULL_ID, velid := NULL_ID,
        specid := SPECTRAL_INTERVAL_ID, redid := NULL_ID, timefrm := none, spacefrm := false,
        specfrm := true, redfrm := false, is_skyframe := false, sys := System.unset, naxes := 0,
        epoch := none, use_co := false, use_enc := false, time_enc := false, space_enc := false,
        spec_enc := false, red_enc := false, start := false, time := false,
        ts := TimeScale.BADTS } := by
  simp only [State.view, View.mk.injEq] at h
  obtain ⟨h_word, h_e, h_done, h_source, h_status, h_look_for, h_broke, h_props, h_time_props, h_space_props, h_spec_props, h_red_props, h_timeid, h_spaceid, h_velid, h_specid, h_redid, h_timefrm, h_spacefrm, h_specfrm, h_redfrm, h_is_skyframe, h_sys, h_naxes, h_epoch, h_use_co, h_use_enc, h_time_enc, h_space_enc, h_spec_enc, h_red_enc, h_start, h_time, h_ts⟩ := h
  obtain ⟨f_specfrm, hf_specfrm⟩ := Option.isSome_iff_exists.1 h_specfrm
  replace h_spacefrm := isSome_false h_spacefrm
  replace h_redfrm := isSome_false h_redfrm
  replace h_time_enc := isSome_false h_time_enc
  replace h_space_enc := isSome_false h_space_enc
  replace h_spec_enc := isSome_false h_spec_enc
  replace h_red_enc := isSome_false h_red_enc
  replace h_start := isSome_false h_start
  replace h_time := isSome_false h_time
  simp [GetNextWord, skipSpace, isspace, WordContext.store, SetUnc_isSome, applyFill_isSome, relTime_isSome, mkRegion, State.view, step, stepBody, branch, putIf, State.warn, State.chr2Double, NULL_ID, TIME_INTERVAL_ID, START_TIME_ID, STOP_TIME_ID, POSITION_INTERVAL_ID, ALL_SKY_ID, CIRCLE_ID, ELLIPSE_ID, BOX_ID, POLYGON_ID, CONVEX_ID, POSITION_ID, TIME_ID, SPECTRAL_INTERVAL_ID, SPECTRAL_ID, REDSHIFT_INTERVAL_ID, REDSHIFT_ID, VELOCITY_INTERVAL_ID, stepError, hf_specfrm, h_word, h_e, h_done, h_source, h_status, h_look_for, h_broke, h_props, h_time_props, h_space_props, h_spec_props, h_red_props, h_timeid, h_spaceid, h_velid, h_specid, h_redid, h_timefrm, h_spacefrm, h_specfrm, h_redfrm, h_is_skyframe, h_sys, h_naxes, h_epoch, h_use_co, h_use_enc, h_time_enc, h_space_enc, h_spec_enc, h_red_enc, h_start, h_time, h_ts]

theorem spectral_step10 (env : Env) (s : State)
    (h : s.view =
      { word := some "", e := none, done := false, source := [], status := Status.ok,
        look_for := LookFor.RESOLUTION, broke := false, props := some PropsSel.spec,
        time_props := KeyMap.empty, space_props := KeyMap.empty,
        spec_props := (((((KeyMap.empty).put "ID" "SpectralInterval").put "REFPOS" "TOPOCENTER").put "LOLIMIT" "1").put "HILIMIT" "2").put "UNIT" "Hz",
        red_props := KeyMap.empty, timeid := NULL_ID, spaceid := NULL_ID, velid := NULL_ID,
        specid := SPECTRAL_INTERVAL_ID, redid := NULL_ID, timefrm := none, spacefrm := false,
        specfrm := true, redfrm := false, is_skyframe := false, sys := System.unset, naxes := 0,
        epoch := none, use_co := false, use_enc := false, time_enc := false, space_enc := false,
        spec_enc := false, red_enc := false, start := false, time := false,
        ts := TimeScale.BADTS }) :
    (step env s "").view =
      { word := some "", e := none, done := false, source := [], status := Status.ok,
        look_for := LookFor.PIX_SIZE, broke := false, props := some PropsSel.spec,
        time_props := KeyMap.empty, space_props := KeyMap.empty,
        spec_props := (((((KeyMap.empty).put "ID" "SpectralInterval").put "REFPOS" "TOPOCENTER").put "LOLIMIT" "1").put "HILIMIT" "2").put "UNIT" "Hz",
        red_props := KeyMap.empty, timeid := NULL_ID, spaceid := NULL_ID, velid := NULL_ID,
        specid := SPECTRAL_INTERVAL_ID, redid := NULL_ID, timefrm := none, spacefrm := false,
        specfrm := true, redfrm := false, is_skyframe := false, sys := System.unset, naxes := 0,
        epoch := none, use_co := false, use_enc := false, time_enc := false, space_enc := false,
        spec_enc := false, red_enc := false, start := false, time := false,
        ts := TimeScale.BADTS } := by
  simp only [State.view, View.mk.injEq] at h
  obtain ⟨h_word, h_e, h_done, h_source, h_status, h_look_for, h_broke, h_props, h_time_props, h_space_props, h_spec_props, h_red_props, h_timeid, h_spaceid, h_velid, h_specid, h_redid, h_timefrm, h_spacefrm, h_specfrm, h_redfrm, h_is_skyframe, h_sys, h_naxes, h_epoch, h_use_co, h_use_enc, h_time_enc, h_space_enc, h_spec_enc, h_red_enc, h_start, h_time, h_ts⟩ := h
  obtain ⟨f_specfrm, hf_specfrm⟩ := Option.isSome_iff_exists.1 h_specfrm
  replace h_spacefrm := isSome_false h_spacefrm
  replace h_redfrm := isSome_false h_redfrm
  replace h_time_enc := isSome_false h_time_enc
  replace h_space_enc := isSome_false h_space_enc
  replace h_spec_enc := isSome_false h_spec_enc
  replace h_red_enc := isSome_false h_red_enc
  replace h_start := isSome_false h_start
  replace h_time := isSome_false h_time
  simp [GetNextWord, skipSpace, isspace, WordContext.store, SetUnc_isSome, applyFill_isSome, relTime_isSome, mkRegion, State.view, step, stepBody, branch, putIf, State.warn, State.chr2Double, NULL_ID, TIME_INTERVAL_ID, START_TIME_ID, STOP_TIME_ID, POSITION_INTERVAL_ID, ALL_SKY_ID, CIRCLE_ID, ELLIPSE_ID, BOX_ID, POLYGON_ID, CONVEX_ID, POSITION_ID, TIME_ID, SPECTRAL_INTERVAL_ID, SPECTRAL_ID, REDSHIFT_INTERVAL_ID, REDSHIFT_ID, VELOCITY_INTERVAL_ID, stepResolution, hf_specfrm, h_word, h_e, h_done, h_source, h_status, h_look_for, h_broke, h_props, h_time_props, h_space_props, h_spec_props, h_red_props, h_timeid, h_spaceid, h_velid, h_specid, h_redid, h_timefrm, h_spacefrm, h_specfrm, h_redfrm, h_is_skyframe, h_sys, h_naxes, h_epoch, h_use_co, h_use_enc, h_time_enc, h_space_enc, h_spec_enc, h_red_enc, h_start, h_time, h_ts]

theorem spectral_step11 (env : Env) (s : State)
    (h : s.view =
      { word := some "", e := none, done := false, source := [], status := Status.ok,
        look_for := LookFor.PIX_SIZE, broke := false, props := some PropsSel.spec,
        time_props := KeyMap.empty, space_props := KeyMap.empty,
        spec_props := (((((KeyMap.empty).put "ID" "SpectralInterval").put "REFPOS" "TOPOCENTER").put "LOLIMIT" "1").put "HILIMIT" "2").put "UNIT" "Hz",
        red_props := KeyMap.empty, timeid := NULL_ID, spaceid := NULL_ID, velid := NULL_ID,
        specid := SPECTRAL_INTERVAL_ID, redid := NULL_ID, timefrm := none, spacefrm := false,
        specfrm := true, redfrm := false, is_skyframe := false, sys := System.unset, naxes := 0,
        epoch := none, use_co := false, use_enc := false, time_enc := false, space_enc := false,
        spec_enc := false, red_enc := false, start := false, time := false,
        ts := TimeScale.BADTS }) :
    (step env s "").view =
      { word := some "", e := none, done := false, source := [], status := Status.ok,
        look_for := LookFor.REDSHIFT_IDENTIFIER, broke := false, props := some PropsSel.spec,
        time_props := KeyMap.empty, space_props := KeyMap.empty,
        spec_props := (((((KeyMap.empty).put "ID" "SpectralInterval").put "REFPOS" "TOPOCENTER").put "LOLIMIT" "1").put "HILIMIT" "2").put "UNIT" "Hz",
        red_props := KeyMap.empty, timeid := NULL_ID, spaceid := NULL_ID, velid := NULL_ID,
        specid := SPECTRAL_INTERVAL_ID, redid := NULL_ID, timefrm := none, spacefrm := false,
        specfrm := true, redfrm := false, is_skyframe := false, sys := System.unset, naxes := 0,
        epoch := none, use_co := false, use_enc := false, time_enc := false, space_enc := false,
        spec_enc := false, red_enc := false, start := false, time := false,
        ts := TimeScale.BADTS } := by
  simp only [State.view, View.mk.injEq] at h
  obtain ⟨h_word, h_e, h_done, h_source, h_status, h_look_for, h_broke, h_props, h_time_props, h_space_props, h_spec_props, h_red_props, h_timeid, h_spaceid, h_velid, h_specid, h_redid, h_timefrm, h_spacefrm, h_specfrm, h_redfrm, h_is_skyframe, h_sys, h_naxes, h_epoch, h_use_co, h_use_enc, h_time_enc, h_space_enc, h_spec_enc, h_red_enc, h_start, h_time, h_ts⟩ := h
  obtain ⟨f_specfrm, hf_specfrm⟩ := Option.isSome_iff_exists.1 h_specfrm
  replace h_spacefrm := isSome_false h_spacefrm
  replace h_redfrm := isSome_false h_redfrm
  replace h_time_enc := isSome_false h_time_enc
  replace h_space_enc := isSome_false h_space_enc
  replace h_spec_enc := isSome_false h_spec_enc
  replace h_red_enc := isSome_false h_red_enc
  replace h_start := isSome_false h_start
  replace h_time := isSome_false h_time
  simp [GetNextWord, skipSpace, isspace, WordContext.store, SetUnc_isSome, applyFill_isSome, relTime_isSome, mkRegion, State.view, step, stepBody, branch, putIf, State.warn, State.chr2Double, NULL_ID, TIME_INTERVAL_ID, START_TIME_ID, STOP_TIME_ID, POSITION_INTERVAL_ID, ALL_SKY_ID, CIRCLE_ID, ELLIPSE_ID, BOX_ID, POLYGON_ID, CONVEX_ID, POSITION_ID, TIME_ID, SPECTRAL_INTERVAL_ID, SPECTRAL_ID, REDSHIFT_INTERVAL_ID, REDSHIFT_ID, VELOCITY_INTERVAL_ID, stepPixSize, hf_specfrm, h_word, h_e, h_done, h_source, h_status, h_look_for, h_broke, h_props, h_time_props, h_space_props, h_spec_props, h_red_props, h_timeid, h_spaceid, h_velid, h_specid, h_redid, h_timefrm, h_spacefrm, h_specfrm, h_redfrm, h_is_skyframe, h_sys, h_naxes, h_epoch, h_use_co, h_use_enc, h_time_enc, h_space_enc, h_spec_enc, h_red_enc, h_start, h_time, h_ts]

theorem spectral_step12 (env : Env) (s : State)
    (h : s.view =
      { word := some "", e := none, done := false, source := [], status := Status.ok,
        look_for := LookFor.REDSHIFT_IDENTIFIER, broke := false, props := some PropsSel.spec,
        time_props := KeyMap.empty, space_props := KeyMap.empty,
        spec_props := (((((KeyMap.empty).put "ID" "SpectralInterval").put "REFPOS" "TOPOCENTER").put "LOLIMIT" "1").put "HILIMIT" "2").put "UNIT" "Hz",
        red_props := KeyMap.empty, timeid := NULL_ID, spaceid := NULL_ID, velid := NULL_ID,
        specid := SPECTRAL_INTERVAL_ID, redid := NULL_ID, timefrm := none, spacefrm := false,
        specfrm := true, redfrm := false, is_skyframe := false, sys := System.unset, naxes := 0,
        epoch := none, use_co := false, use_enc := false, time_enc := false, space_enc := false,
        spec_enc := false, red_enc := false, start := false, time := false,
        ts := TimeScale.BADTS }) :
    (step env s "").view =
      { word := none, e := none, done := true, source := [], status := Status.ok,
        look_for := LookFor.REDSHIFT_IDENTIFIER, broke := false, props := some PropsSel.spec,
        time_props := KeyMap.empty, space_props := KeyMap.empty,
        spec_props := (((((KeyMap.empty).put "ID" "SpectralInterval").put "REFPOS" "TOPOCENTER").put "LOLIMIT" "1").put "HILIMIT" "2").put "UNIT" "Hz",
        red_props := KeyMap.empty, timeid := NULL_ID, spaceid := NULL_ID, velid := NULL_ID,
        specid := NULL_ID, redid := NULL_ID, timefrm := none, spacefrm := false,
        specfrm := false, redfrm := false, is_skyframe := false, sys := System.unset, naxes := 0,
        epoch := none, use_co := false, use_enc := true, time_enc := false, space_enc := false,
        spec_enc := true, red_enc := false, start := false, time := false, ts := TimeScale.BADTS } := by
  simp only [State.view, View.mk.injEq] at h
  obtain ⟨h_word, h_e, h_done, h_source, h_status, h_look_for, h_broke, h_props, h_time_props, h_space_props, h_spec_props, h_red_props, h_timeid, h_spaceid, h_velid, h_specid, h_redid, h_timefrm, h_spacefrm, h_specfrm, h_redfrm, h_is_skyframe, h_sys, h_naxes, h_epoch, h_use_co, h_use_enc, h_time_enc, h_space_enc, h_spec_enc, h_red_enc, h_start, h_time, h_ts⟩ := h
  obtain ⟨f_specfrm, hf_specfrm⟩ := Option.isSome_iff_exists.1 h_specfrm
  replace h_spacefrm := isSome_false h_spacefrm
  replace h_redfrm := isSome_false h_redfrm
  replace h_time_enc := isSome_false h_time_enc
  replace h_space_enc := isSome_false h_space_enc
  replace h_spec_enc := isSome_false h_spec_enc
  replace h_red_enc := isSome_false h_red_enc
  replace h_start := isSome_false h_start
  replace h_time := isSome_false h_time
  simp [GetNextWord, skipSpace, isspace, WordContext.store, SetUnc_isSome, applyFill_isSome, relTime_isSome, mkRegion, State.view, step, stepBody, branch, putIf, State.warn, State.chr2Double, NULL_ID, TIME_INTERVAL_ID, START_TIME_ID, STOP_TIME_ID, POSITION_INTERVAL_ID, ALL_SKY_ID, CIRCLE_ID, ELLIPSE_ID, BOX_ID, POLYGON_ID, CONVEX_ID, POSITION_ID, TIME_ID, SPECTRAL_INTERVAL_ID, SPECTRAL_ID, REDSHIFT_INTERVAL_ID, REDSHIFT_ID, VELOCITY_INTERVAL_ID, stepRedshiftIdentifier, finishSpec, specRegions, hf_specfrm, h_word, h_e, h_done, h_source, h_status, h_look_for, h_broke, h_props, h_time_props, h_space_props, h_spec_props, h_red_props, h_timeid, h_spaceid, h_velid, h_specid, h_redid, h_timefrm, h_spacefrm, h_specfrm, h_redfrm, h_is_skyframe, h_sys, h_naxes, h_epoch, h_use_co, h_use_enc, h_time_enc, h_space_enc, h_spec_enc, h_red_enc, h_start, h_time, h_ts]

theorem spectral_loop (env : Env) (v1 v2 : ℚ) (h1 : env.chr2Double "1" = some v1)
    (h2 : env.chr2Double "2" = some v2) :
    (readLoop env 12 (initState ["SpectralInterval TOPOCENTER 1 2 unit Hz"])).view =
      { word := none, e := none, done := true, source := [], status := Status.ok,
        look_for := LookFor.REDSHIFT_IDENTIFIER, broke := false, props := some PropsSel.spec,
        time_props := KeyMap.empty, space_props := KeyMap.empty,
        spec_props := (((((KeyMap.empty).put "ID" "SpectralInterval").put "REFPOS" "TOPOCENTER").put "LOLIMIT" "1").put "HILIMIT" "2").put "UNIT" "Hz",
        red_props := KeyMap.empty, timeid := NULL_ID, spaceid := NULL_ID, velid := NULL_ID,
        specid := NULL_ID, redid := NULL_ID, timefrm := none, spacefrm := false,
        specfrm := false, redfrm := false, is_skyframe := false, sys := System.unset, naxes := 0,
        epoch := none, use_co := false, use_enc := true, time_enc := false, space_enc := false,
        spec_enc := true, red_enc := false, start := false, time := false, ts := TimeScale.BADTS } := by
  have k0 := initState_view ("SpectralInterval TOPOCENTER 1 2 unit Hz") "SpectralInterval" (['T', 'O', 'P', 'O', 'C', 'E', 'N', 'T', 'E', 'R', ' ', '1', ' ', '2', ' ', 'u', 'n', 'i', 't', ' ', 'H', 'z']) (by decide) (by rfl)
  rw [readLoop_view_succ env 11 _ ("SpectralInterval") _ k0 rfl rfl rfl]
  have k1 := spectral_step1 env _ k0
  rw [readLoop_view_succ env 10 _ ("SpectralInterval") _ k1 rfl rfl rfl]
  have k2 := spectral_step2 env _ k1
  rw [readLoop_view_succ env 9 _ ("SpectralInterval") _ k2 rfl rfl rfl]
  have k3 := spectral_step3 env _ k2
  rw [readLoop_view_succ env 8 _ ("TOPOCENTER") _ k3 rfl rfl rfl]
  have k4 := spectral_step4 env _ k3
  rw [readLoop_view_succ env 7 _ ("TOPOCENTER") _ k4 rfl rfl rfl]
  have k5 := spectral_step5 env _ k4
  rw [readLoop_view_succ env 6 _ ("1") _ k5 rfl rfl rfl]
  have k6 := spectral_step6 env v1 v2 h1 h2 _ k5
  rw [readLoop_view_succ env 5 _ ("unit") _ k6 rfl rfl rfl]
  have k7 := spectral_step7 env _ k6
  rw [readLoop_view_succ env 4 _ ("unit") _ k7 rfl rfl rfl]
  have k8 := spectral_step8 env _ k7
  rw [readLoop_view_succ env 3 _ ("") _ k8 rfl rfl rfl]
  have k9 := spectral_step9 env _ k8
  rw [readLoop_view_succ env 2 _ ("") _ k9 rfl rfl rfl]
  have k10 := spectral_step10 env _ k9
  rw [readLoop_view_succ env 1 _ ("") _ k10 rfl rfl rfl]
  have k11 := spectral_step11 env _ k10
  rw [readLoop_view_succ env 0 _ ("") _ k11 rfl rfl rfl]
  have k12 := spectral_step12 env _ k11
  exact k12

theorem spectral_decoded (env : Env) (s : State)
    (h : s.view =
      { word := none, e := none, done := true, source := [], status := Status.ok,
        look_for := LookFor.REDSHIFT_IDENTIFIER, broke := false, props := some PropsSel.spec,
        time_props := KeyMap.empty, space_props := KeyMap.empty,
        spec_props := (((((KeyMap.empty).put "ID" "SpectralInterval").put "REFPOS" "TOPOCENTER").put "LOLIMIT" "1").put "HILIMIT" "2").put "UNIT" "Hz",
        red_props := KeyMap.empty, timeid := NULL_ID, spaceid := NULL_ID, velid := NULL_ID,
        specid := NULL_ID, redid := NULL_ID, timefrm := none, spacefrm := false,
        specfrm := false, redfrm := false, is_skyframe := false, sys := System.unset, naxes := 0,
        epoch := none, use_co := false, use_enc := true, time_enc := false, space_enc := false,
        spec_enc := true, red_enc := false, start := false, time := false, ts := TimeScale.BADTS }) :
    (decodeEnd env s).status = Status.ok
    ∧ (decodeEnd env s).full_props = some ⟨[("SPECTRAL_PROPS", (((((KeyMap.empty).put "ID" "SpectralInterval").put "REFPOS" "TOPOCENTER").put "LOLIMIT" "1").put "HILIMIT" "2").put "UNIT" "Hz")]⟩ := by
  simp only [State.view, View.mk.injEq] at h
  obtain ⟨h_word, h_e, h_done, h_source, h_status, h_look_for, h_broke, h_props, h_time_props, h_space_props, h_spec_props, h_red_props, h_timeid, h_spaceid, h_velid, h_specid, h_redid, h_timefrm, h_spacefrm, h_specfrm, h_redfrm, h_is_skyframe, h_sys, h_naxes, h_epoch, h_use_co, h_use_enc, h_time_enc, h_space_enc, h_spec_enc, h_red_enc, h_start, h_time, h_ts⟩ := h
  obtain ⟨r, hr⟩ := Option.isSome_iff_exists.1 h_spec_enc
  replace h_redfrm := isSome_false h_redfrm
  replace h_time_enc := isSome_false h_time_enc
  replace h_space_enc := isSome_false h_space_enc
  replace h_red_enc := isSome_false h_red_enc
  simp [decodeEnd, finishRed, simplifyFull, foldPrism, PropTree.put, KeyMap.size, KeyMap.put,
    KeyMap.hasKey, KeyMap.empty, hr, h_word, h_e, h_done, h_source, h_status, h_look_for, h_broke, h_props, h_time_props, h_space_props, h_spec_props, h_red_props, h_timeid, h_spaceid, h_velid, h_specid, h_redid, h_timefrm, h_spacefrm, h_specfrm, h_redfrm, h_is_skyframe, h_sys, h_naxes, h_epoch, h_use_co, h_use_enc, h_time_enc, h_space_enc, h_red_enc, h_start, h_time, h_ts]

/-! ## Reading a document and writing its properties -/

theorem propTree_selected (this : AstStcsChan) (d : Decoded) (t : PropTree)
    (hp : GetStcsProps this ≠ 0) (hst : d.status = .ok) (hfp : d.full_props = some t) :
    (selectResult this d).2.bind AstObject.propTree = some t := by
  unfold selectResult
  by_cases ha : GetStcsArea this = 0 <;> by_cases hc : GetStcsCoords this = 0 <;>
    cases he : d.full_enc <;> cases ho : d.full_co <;>
    simp [ha, hc, hp, hst, hfp, he, ho, AstObject.propTree, AstObject.entry, Item.asProps]

theorem running_of_view (s : State) (V : View) (h : s.view = V) (hw : V.word = none) :
    s.running = false := by
  subst h
  simp only [State.view] at hw
  simp [State.running, hw]

theorem roundTrip_of_loop (env : Env) (this : AstStcsChan) (n fuel : Nat)
    (source : List String) (t : PropTree) (hp : GetStcsProps this ≠ 0) (hfuel : n ≤ fuel)
    (hrun : (readLoop env n (initState source)).running = false)
    (hd : (decodeEnd env (readLoop env n (initState source))).status = .ok
      ∧ (decodeEnd env (readLoop env n (initState source))).full_props = some t) :
    roundTrip env this fuel source = some (WriteProps t).sink := by
  obtain ⟨m, rfl⟩ := Nat.exists_eq_add_of_le hfuel
  have hl : readLoop env (n + m) (initState source) = readLoop env n (initState source) := by
    rw [readLoop_add, readLoop_stopped env m _ hrun]
  have hrun2 : (readLoop env (n + m) (initState source)).running = false := by rw [hl]; exact hrun
  unfold roundTrip
  rw [Read_of_stopped env this (n + m) source hrun2, hl]
  simp only [Option.bind_some, Option.some_bind]
  rw [propTree_selected this _ t hp hd.1 hd.2]
  rfl

theorem write_timeInterval (T1 T2 : String) :
    (WriteProps ⟨[("TIME_PROPS", (((KeyMap.empty).put "ID" "TimeInterval").put "START" T1).put "STOP" T2)]⟩).sink
      = ["TimeInterval " ++ T1 ++ " " ++ T2 ++ " "] := by
  have hk : (((KeyMap.empty).put "ID" "TimeInterval").put "START" T1).put "STOP" T2
      = ⟨[("ID", "TimeInterval"), ("START", T1), ("STOP", T2)]⟩ := by
    simp [KeyMap.put, KeyMap.hasKey, KeyMap.empty]
  rw [hk]
  simp [WriteProps, PropTree.get, writeSubPhrase, AddItem, addItems, tailItems, KeyMap.get,
    astAppendString, String.ext_iff]
  rw [List.take_of_length_le (by simp)]
  rw [List.take_of_length_le (by simp)]
  rw [List.take_of_length_le (by simp; omega)]
  simp

theorem write_circle :
    (WriteProps ⟨[("SPACE_PROPS", (((((((KeyMap.empty).put "ID" "Circle").put "FRAME" "ICRS").put "REFPOS" "TOPOCENTER").put "FLAVOR" "SPHER2").put "FLAVOUR" "SPHER2").put "CENTRE" "10 20").put "RADIUS" "0.5")]⟩).sink
      = ["Circle ICRS TOPOCENTER SPHER2 10 20 0.5 "] := by
  decide

theorem write_spectralInterval :
    (WriteProps ⟨[("SPECTRAL_PROPS", (((((KeyMap.empty).put "ID" "SpectralInterval").put "REFPOS" "TOPOCENTER").put "LOLIMIT" "1").put "HILIMIT" "2").put "UNIT" "Hz")]⟩).sink
      = ["SpectralInterval TOPOCENTER 1 2 unit Hz "] := by
  decide

/-- C1: for each of the documents `TimeInterval T1 T2` (T1 and T2 words that start with
a digit and that astUnformat reads as dates), `Circle ICRS TOPOCENTER SPHER2 10 20 0.5`
and `SpectralInterval TOPOCENTER 1 2 unit Hz` (their numbers being read by
astChr2Double), Read with the attribute StcsProps set ends within 16 passes of its main
loop and returns a Property Tree, and WriteProps writes for that tree exactly one line:
the words of the document in the same order, each followed by one blank. -/
theorem round_trip (env : Env) (this : AstStcsChan) (fuel : Nat) (T1 T2 : String)
    (hp : GetStcsProps this ≠ 0) (hfuel : 16 ≤ fuel)
    (hT1 : IsoToken T1) (hT2 : IsoToken T2)
    (hu1 : env.unformat astTimeFrame T1 ≠ none) (hu2 : env.unformat astTimeFrame T2 ≠ none)
    (hn : ∀ w ∈ ["10", "20", "0.5", "1", "2"], env.chr2Double w ≠ none) :
    roundTrip env this fuel ["TimeInterval " ++ T1 ++ " " ++ T2]
      = some ["TimeInterval " ++ T1 ++ " " ++ T2 ++ " "]
    ∧ roundTrip env this fuel ["Circle ICRS TOPOCENTER SPHER2 10 20 0.5"]
      = some ["Circle ICRS TOPOCENTER SPHER2 10 20 0.5 "]
    ∧ roundTrip env this fuel ["SpectralInterval TOPOCENTER 1 2 unit Hz"]
      = some ["SpectralInterval TOPOCENTER 1 2 unit Hz "] := by
  obtain ⟨u1, hu1⟩ := Option.ne_none_iff_exists'.1 hu1
  obtain ⟨u2, hu2⟩ := Option.ne_none_iff_exists'.1 hu2
  obtain ⟨a1, ha1⟩ := Option.ne_none_iff_exists'.1 (hn "10" (by simp))
  obtain ⟨a2, ha2⟩ := Option.ne_none_iff_exists'.1 (hn "20" (by simp))
  obtain ⟨a3, ha3⟩ := Option.ne_none_iff_exists'.1 (hn "0.5" (by simp))
  obtain ⟨b1, hb1⟩ := Option.ne_none_iff_exists'.1 (hn "1" (by simp))
  obtain ⟨b2, hb2⟩ := Option.ne_none_iff_exists'.1 (hn "2" (by simp))
  refine ⟨?_, ?_, ?_⟩
  · have hv := timeInterval_loop env T1 T2 u1 u2 hT1 hT2 hu1 hu2
    rw [roundTrip_of_loop env this 14 fuel _ _ hp (by omega) (running_of_view _ _ hv rfl)
      (timeInterval_decoded env T1 T2 u1 _ hv)]
    exact congrArg some (write_timeInterval T1 T2)
  · have hv := circle_loop env a1 a2 a3 ha1 ha2 ha3
    rw [roundTrip_of_loop env this 16 fuel _ _ hp hfuel (running_of_view _ _ hv rfl)
      (circle_decoded env _ hv)]
    exact congrArg some write_circle
  · have hv := spectral_loop env b1 b2 hb1 hb2
    rw [roundTrip_of_loop env this 12 fuel _ _ hp (by omega) (running_of_view _ _ hv rfl)
      (spectral_decoded env _ hv)]
    exact congrArg some write_spectralInterval

/-- C1, an instance: the sample environment, the documents of the claim with the dates
`2009-01-01` and `2009-02-01`, StcsProps set and 16 passes allowed. -/
theorem round_trip_witness :
    roundTrip sampleEnv { stcsprops := 1 } 16 ["TimeInterval " ++ "2009-01-01" ++ " " ++ "2009-02-01"]
      = some ["TimeInterval " ++ "2009-01-01" ++ " " ++ "2009-02-01" ++ " "]
    ∧ roundTrip sampleEnv { stcsprops := 1 } 16 ["Circle ICRS TOPOCENTER SPHER2 10 20 0.5"]
      = some ["Circle ICRS TOPOCENTER SPHER2 10 20 0.5 "]
    ∧ roundTrip sampleEnv { stcsprops := 1 } 16 ["SpectralInterval TOPOCENTER 1 2 unit Hz"]
      = some ["SpectralInterval TOPOCENTER 1 2 unit Hz "] :=
  round_trip sampleEnv { stcsprops := 1 } 16 "2009-01-01" "2009-02-01" (by decide) (by decide)
    (by decide) (by decide) (by decide!) (by decide!) (by decide!)

theorem scanWord_token (t rest : List Char) (d : Digits) (ht : ' ' ∉ t)
    (hr : rest = [] ∨ ∃ r, rest = ' ' :: r) :
    scanWord (t ++ rest) d = (t.foldl countChar d, rest) := by
  induction t generalizing d with
  | nil =>
    rcases hr with rfl | ⟨r, rfl⟩
    · rfl
    · simp [scanWord]
  | cons c cs ih =>
    have hc : c ≠ ' ' := fun h => ht (by simp [h])
    have hcs : ' ' ∉ cs := fun h => ht (by simp [h])
    simp [scanWord, hc, ih _ hcs]

theorem foldl_countChar_exp (t : List Char) (d : Digits) (hd : d.exp = true) :
    t.foldl countChar d = d := by
  induction t with
  | nil => rfl
  | cons c cs ih => simp [List.foldl, countChar, hd, ih]

theorem foldl_countChar (t : List Char) (b a : Nat) (dt : Bool) :
    (t.foldl countChar ⟨false, b, a, dt⟩).exp = t.any isExpChar
    ∧ (t.foldl countChar ⟨false, b, a, dt⟩).before + (t.foldl countChar ⟨false, b, a, dt⟩).after
        = b + a + (mantissa t).countP Char.isDigit
    ∧ (t.foldl countChar ⟨false, b, a, dt⟩).after
        = a + (if dt then (mantissa t).countP Char.isDigit
               else ((mantissa t).dropWhile notPoint).countP Char.isDigit) := by
  induction t generalizing b a dt with
  | nil => cases dt <;> simp [mantissa]
  | cons c cs ih =>
    by_cases he : c = 'e' ∨ c = 'E'
    · have hE : isExpChar c = true := by simpa [isExpChar] using he
      have h1 : countChar ⟨false, b, a, dt⟩ c = ⟨true, b, a, dt⟩ := by
        rcases he with rfl | rfl <;> simp [countChar]
      rw [List.foldl_cons, h1, foldl_countChar_exp _ _ rfl]
      cases dt <;> simp [mantissa, List.takeWhile_cons, hE]
    · have hE : isExpChar c = false := by simpa [isExpChar] using he
      by_cases hdig : c.isDigit = true
      · have hdot : c ≠ '.' := by rintro rfl; exact absurd hdig (by decide)
        have hP : notPoint c = true := by simpa [notPoint] using hdot
        cases dt
        · have h1 : countChar ⟨false, b, a, false⟩ c = ⟨false, b + 1, a, false⟩ := by
            simp [countChar, hdig]
          have h := ih (b + 1) a false
          rw [List.foldl_cons, h1]
          simp only [mantissa] at h ⊢
          simp only [List.takeWhile_cons, List.any_cons, hE, List.countP_cons, hdig,
            List.dropWhile_cons, hP, Bool.not_false, if_true, Bool.false_or,
            Bool.false_eq_true, if_false] at h ⊢
          refine ⟨h.1, ?_, h.2.2⟩
          rw [h.2.1]; omega
        · have h1 : countChar ⟨false, b, a, true⟩ c = ⟨false, b, a + 1, true⟩ := by
            simp [countChar, hdig]
          have h := ih b (a + 1) true
          rw [List.foldl_cons, h1]
          simp only [mantissa] at h ⊢
          simp only [List.takeWhile_cons, List.any_cons, hE, List.countP_cons, hdig,
            Bool.not_false, if_true, Bool.false_or] at h ⊢
          refine ⟨h.1, ?_, ?_⟩
          · rw [h.2.1]; omega
          · rw [h.2.2]; omega
      · have hdig2 : c.isDigit = false := by simpa using hdig
        by_cases hdot : c = '.'
        · have hP : notPoint c = false := by simp [notPoint, hdot]
          have h1 : countChar ⟨false, b, a, dt⟩ c = ⟨false, b, a, true⟩ := by
            simp [countChar, hdig2, hdot]
          have h := ih b a true
          rw [List.foldl_cons, h1]
          simp only [mantissa] at h ⊢
          simp only [List.takeWhile_cons, List.any_cons, hE, List.countP_cons, hdig2,
            List.dropWhile_cons, hP, Bool.not_false, if_true, Bool.false_or,
            Bool.false_eq_true, if_false, Nat.add_zero] at h ⊢
          refine ⟨h.1, h.2.1, ?_⟩
          rw [h.2.2]
          cases dt <;> simp [hdig2]
        · have hP : notPoint c = true := by simpa [notPoint] using hdot
          have h1 : countChar ⟨false, b, a, dt⟩ c = ⟨false, b, a, dt⟩ := by
            simp [countChar, hdig2, hdot, he]
          have h := ih b a dt
          rw [List.foldl_cons, h1]
          simp only [mantissa] at h ⊢
          simp only [List.takeWhile_cons, List.any_cons, hE, List.countP_cons, hdig2,
            List.dropWhile_cons, hP, Bool.not_false, if_true, Bool.false_or,
            Bool.false_eq_true, if_false, Nat.add_zero] at h ⊢
          exact h

theorem format_token (t : String) :
    (t.data.foldl countChar ⟨false, 0, 0, false⟩).format = tokenFormat t := by
  have h := foldl_countChar t.data 0 0 false
  simp only [Nat.zero_add, Bool.false_eq_true, if_false] at h
  unfold Digits.format tokenFormat
  rw [h.1]
  by_cases he : t.data.any isExpChar = true
  · simp only [he, if_true]
    rw [h.2.1]
  · simp only [he]
    rw [h.2.2]
    rfl

theorem wordLoop_last (n : Nat) (t : List Char) (ht : ' ' ∉ t) (j : Nat)
    (first cur : Digits) :
    wordLoop (n + 1) j (joinTokens [t]) first cur
      = if j = 0 then t.foldl countChar ⟨false, 0, 0, false⟩ else first := by
  have hs := scanWord_token t [] ⟨false, 0, 0, false⟩ ht (Or.inl rfl)
  simp only [List.append_nil] at hs
  simp [wordLoop, joinTokens, hs]

theorem wordLoop_next (n : Nat) (t u : List Char) (r : List (List Char)) (ht : ' ' ∉ t)
    (hu : u ≠ [] ∧ ' ' ∉ u) (j : Nat) (first cur : Digits) :
    wordLoop (n + 1) j (joinTokens (t :: u :: r)) first cur
      = wordLoop n (j + 1) (joinTokens (u :: r))
          (if j = 0 then t.foldl countChar ⟨false, 0, 0, false⟩ else first)
          (t.foldl countChar ⟨false, 0, 0, false⟩) := by
  have hs := scanWord_token t (' ' :: joinTokens (u :: r)) ⟨false, 0, 0, false⟩ ht
    (Or.inr ⟨_, rfl⟩)
  obtain ⟨c, cs, hcs⟩ := List.exists_cons_of_ne_nil hu.1
  have hc : c ≠ ' ' := fun h => hu.2 (by simp [hcs, h])
  have hj : ∃ y, joinTokens (u :: r) = c :: y := by
    cases r with
    | nil => exact ⟨cs, by simp [joinTokens, hcs]⟩
    | cons v r2 => exact ⟨cs ++ ' ' :: joinTokens (v :: r2), by simp [joinTokens, hcs]⟩
  obtain ⟨y, hy⟩ := hj
  have hd : List.dropWhile (fun c => decide (c = ' ')) (' ' :: joinTokens (u :: r))
      = joinTokens (u :: r) := by
    simp [List.dropWhile, hy, hc]
  have hn : joinTokens (u :: r) ≠ [] := by simp [hy]
  rw [wordLoop]
  simp only [joinTokens, hs, hd, hn, if_false]

theorem wordLoop_tokens (n : Nat) (us : List (List Char)) (hne : us ≠ [])
    (htok : ∀ u ∈ us, u ≠ [] ∧ ' ' ∉ u) (j : Nat) (first cur : Digits) :
    wordLoop (n + 1) j (joinTokens us) first cur
      = if n + 1 < us.length then (us.getD n []).foldl countChar ⟨false, 0, 0, false⟩
        else if j = 0 then (us.headD []).foldl countChar ⟨false, 0, 0, false⟩ else first := by
  induction n generalizing us j first cur with
  | zero =>
    match us, hne, htok with
    | [t], _, htok =>
      rw [wordLoop_last 0 t (htok t (by simp)).2]
      simp
    | t :: u :: r, _, htok =>
      rw [wordLoop_next 0 t u r (htok t (by simp)).2 (htok u (by simp))]
      simp [wordLoop]
  | succ n ih =>
    match us, hne, htok with
    | [t], _, htok =>
      rw [wordLoop_last _ t (htok t (by simp)).2]
      simp
    | t :: u :: r, _, htok =>
      rw [wordLoop_next _ t u r (htok t (by simp)).2 (htok u (by simp))]
      rw [ih (u :: r) (by simp) (fun x hx => htok x (by simp [hx]))]
      simp [Nat.add_lt_add_iff_right]

theorem intercalate_go_data (acc : String) (ts : List String) :
    (String.intercalate.go acc " " ts).data
      = acc.data ++ (ts.map (fun t => ' ' :: t.data)).flatten := by
  induction ts generalizing acc with
  | nil => simp [String.intercalate.go]
  | cons t ts ih =>
    simp [String.intercalate.go, ih, String.data_append]

theorem joinTokens_cons (t : List Char) (ts : List (List Char)) :
    joinTokens (t :: ts) = t ++ (ts.map (fun u => ' ' :: u)).flatten := by
  induction ts generalizing t with
  | nil => simp [joinTokens]
  | cons u r ih => simp [joinTokens, ih]

theorem intercalate_data (ts : List String) :
    (String.intercalate " " ts).data = joinTokens (ts.map String.data) := by
  cases ts with
  | nil => rfl
  | cons t ts =>
    simp [String.intercalate, intercalate_go_data, joinTokens_cons, List.map_map,
      Function.comp_def]

/-- C26: GetFmt, for a key whose value is a list of tokens separated by single spaces,
returns the format of token `i` (`%.Nf` with N the digits after the decimal point, or
`%.Ng` with N the digits of the mantissa when the token has an exponent) only when
token `i` is not the last one: for the last token, and for an index past the end, it
returns the format of the first token.  So for `1.5 2.25` and `i = 1` the format is
`%.1f`, not the format `%.2f` of the token `2.25`. -/
theorem getFmt_of_tokens (key : String) (props : KeyMap) (ts : List String) (i defdigs : Nat)
    (hne : ts ≠ []) (htok : ∀ t ∈ ts, IsToken t)
    (hget : props.get key = some (String.intercalate " " ts)) :
    GetFmt key props i defdigs
      = tokenFormat (if i + 1 < ts.length then ts.getD i "" else ts.headD "") := by
  have hloop := wordLoop_tokens i (ts.map String.data) (by simpa using hne)
    (by
      intro u hu
      obtain ⟨t, ht, rfl⟩ := List.mem_map.1 hu
      exact htok t ht) 0 ⟨false, 0, 0, false⟩ ⟨true, defdigs, 0, false⟩
  have hfmt : GetFmt key props i defdigs
      = (wordLoop (i + 1) 0 (String.intercalate " " ts).data ⟨false, 0, 0, false⟩
          ⟨true, defdigs, 0, false⟩).format := by
    simp [GetFmt, hget, Digits.format]
  rw [hfmt, intercalate_data, hloop]
  simp only [List.length_map, if_true]
  by_cases h : i + 1 < ts.length
  · simp only [h, if_true]
    have : (ts.map String.data).getD i [] = (ts.getD i "").data := by
      simp [List.getD, List.getElem?_map]
    rw [this, format_token]
  · simp only [h, if_false]
    have : (ts.map String.data).headD [] = (ts.headD "").data := by
      cases ts <;> rfl
    rw [this, format_token]

/-- C26, an instance: the value `1.5 2.25` and the index 1 of its last token. -/
theorem getFmt_of_tokens_witness :
    GetFmt "CENTRE" ⟨[("CENTRE", "1.5 2.25")]⟩ 1 7 = tokenFormat "1.5"
    ∧ tokenFormat "1.5" = "%.1f" ∧ tokenFormat "2.25" = "%.2f" :=
  ⟨getFmt_of_tokens "CENTRE" ⟨[("CENTRE", "1.5 2.25")]⟩ ["1.5", "2.25"] 1 7 (by decide)
    (by decide) (by decide), by decide, by decide⟩

theorem store_history (con : WordContext) (w : String) (hl : con.words.length = NEWORD)
    (hn : con.next < NEWORD) :
    (con.store w).history = con.history.tail ++ [some w]
    ∧ (con.store w).words.length = NEWORD ∧ (con.store w).next < NEWORD := by
  obtain ⟨line, e, done, words, next⟩ := con
  simp only [NEWORD] at hl hn ⊢
  match words, hl with
  | [a0, a1, a2, a3, a4, a5, a6, a7, a8, a9], _ =>
    interval_cases next <;>
      simp [WordContext.store, WordContext.history, NEWORD, List.range, List.range.loop]

theorem lastWords_snoc (ws : List String) (w : String) :
    lastWords (ws ++ [w]) = (lastWords ws).tail ++ [some w] := by
  unfold lastWords
  simp only [NEWORD, List.length_append, List.length_singleton]
  by_cases h : ws.length < 10
  · have h1 : ws.length - 10 = 0 := by omega
    have h2 : ws.length + 1 - 10 = 0 := by omega
    obtain ⟨k, hk⟩ : ∃ k, 10 - ws.length = k + 1 := ⟨9 - ws.length, by omega⟩
    have h3 : 10 - (ws.length + 1) = k := by omega
    rw [h1, h2, hk, h3]
    simp [List.replicate_succ]
  · have h1 : 10 - ws.length = 0 := by omega
    have h2 : 10 - (ws.length + 1) = 0 := by omega
    have h3 : ws.length + 1 - 10 = (ws.length - 10) + 1 := by omega
    rw [h1, h2, h3]
    have h4 : ws.length - 10 + 1 ≤ ws.length := by omega
    simp only [List.replicate_zero, List.nil_append]
    rw [List.drop_append_of_le_length h4]
    simp only [List.map_append, List.map_cons, List.map_nil]
    congr 1
    rw [← List.map_tail, List.tail_drop]

theorem GetNextWord_at_end (this : List String) (con : WordContext)
    (h : endOfInput this con = true) :
    GetNextWord this con
      = (if con.done then none else some "", [], { con with line := none }) := by
  unfold endOfInput at h
  simp only [Bool.and_eq_true, List.isEmpty_iff] at h
  obtain ⟨rfl, h2⟩ := h
  cases he : con.e with
  | none => simp [GetNextWord, he]
  | some cs =>
    simp only [he, Option.map_some', List.isEmpty_iff] at h2
    simp [GetNextWord, he, h2]

theorem endOfInput_at_end (this : List String) (con : WordContext) (d : Bool)
    (h : endOfInput this con = true) :
    endOfInput [] { con with line := none, done := d } = true := by
  unfold endOfInput at h ⊢
  simp only [Bool.and_eq_true, List.isEmpty_iff] at h
  simpa using h.2

theorem endOfInput_done (this : List String) (con : WordContext) (d : Bool) :
    endOfInput this { con with done := d } = endOfInput this con := rfl

theorem GetNextWords_e (flags : List Bool) (this : List String) (con : WordContext)
    (h : endOfInput this con = true) : (GetNextWords flags this con).2.2.e = con.e := by
  induction flags generalizing this con with
  | nil => rfl
  | cons d ds ih =>
    have h1 : endOfInput this { con with done := d } = true := h
    have h2 := GetNextWord_at_end this { con with done := d } h1
    have h3 := endOfInput_at_end this con d h
    have h4 := ih [] { con with line := none, done := d } h3
    simp only [GetNextWords, h2]
    exact h4

/-- C29: GetNextWord at the end of the input (the rest of the line is blank and the
source has no line left).  When the pointer `con->e` is NULL (the last word ended its
line), every further call returns the empty string when the flag `done` of the context
is clear at the call and NULL when it is set, the calls leave the cyclic list of words
and its index `next` unchanged, and `con->e` stays NULL.  When `con->e` is not NULL
and points into the line that is held (blanks follow the last word of the last line),
the first call still returns the empty string or NULL and leaves the list alone, but it
frees the line and keeps `con->e`, so the pointer dangles and the next call writes to
freed memory; for the source with the single line `a ` (a blank after the word) the
first call returns `a`, the second is that first call at the end of the input, and the
third would write to the freed line. -/
theorem end_of_input_idempotent (flags : List Bool) (this : List String) (con : WordContext)
    (h : endOfInput this con = true) :
    (con.e = none →
      (GetNextWords flags this con).1 = flags.map (fun d => if d then none else some "")
      ∧ (GetNextWords flags this con).2.2.words = con.words
      ∧ (GetNextWords flags this con).2.2.next = con.next
      ∧ (GetNextWords flags this con).2.1 = (if flags = [] then this else [])
      ∧ (GetNextWords flags this con).2.2.e = none
      ∧ dangling (GetNextWords flags this con).2.2 = false)
    ∧ (∀ d : Bool, con.e ≠ none → dangling con = false →
      (GetNextWord this { con with done := d }).1 = (if d then none else some "")
      ∧ (GetNextWord this { con with done := d }).2.2.words = con.words
      ∧ (GetNextWord this { con with done := d }).2.2.next = con.next
      ∧ dangling (GetNextWord this { con with done := d }).2.2 = true)
    ∧ (GetNextWord ["a "] initContext).1 = some "a"
    ∧ dangling (GetNextWord ["a "] initContext).2.2 = false
    ∧ endOfInput (GetNextWord ["a "] initContext).2.1 (GetNextWord ["a "] initContext).2.2
        = true
    ∧ dangling (GetNextWord (GetNextWord ["a "] initContext).2.1
        (GetNextWord ["a "] initContext).2.2).2.2 = true := by
  have key : (GetNextWords flags this con).1 = flags.map (fun d => if d then none else some "")
      ∧ (GetNextWords flags this con).2.2.words = con.words
      ∧ (GetNextWords flags this con).2.2.next = con.next
      ∧ (GetNextWords flags this con).2.1 = (if flags = [] then this else []) := by
    clear * - h
    induction flags generalizing this con with
    | nil => simp [GetNextWords]
    | cons d ds ih =>
      have h1 : endOfInput this { con with done := d } = true := h
      have h2 := GetNextWord_at_end this { con with done := d } h1
      have h3 := endOfInput_at_end this con d h
      have h4 := ih [] { con with line := none, done := d } h3
      simp only [GetNextWords, h2]
      refine ⟨?_, h4.2.1, h4.2.2.1, ?_⟩
      · simp [h4.1]
      · rw [h4.2.2.2]; simp
  refine ⟨fun he => ?_, fun d he _ => ?_, by decide, by decide, by decide, by decide⟩
  · have h5 := GetNextWords_e flags this con h
    refine ⟨key.1, key.2.1, key.2.2.1, key.2.2.2, h5.trans he, ?_⟩
    unfold dangling
    rw [h5, he]
    rfl
  · have h1 : endOfInput this { con with done := d } = true := h
    have h2 := GetNextWord_at_end this { con with done := d } h1
    rw [h2]
    refine ⟨rfl, rfl, rfl, ?_⟩
    unfold dangling
    obtain ⟨e0, he0⟩ := Option.ne_none_iff_exists'.1 he
    simp [he0]

/-- C29, an instance: the line `a` has been read; three more calls, the flag `done`
being set before the third. -/
theorem end_of_input_idempotent_witness :
    (GetNextWords [false, false, true] [] (GetNextWord ["a"] initContext).2.2).1
      = [some "", some "", none] :=
  ((end_of_input_idempotent [false, false, true] [] (GetNextWord ["a"] initContext).2.2
    (by decide)).1 (by decide)).1

theorem GetNextWord_found (this : List String) (con : WordContext)
    (h : endOfInput this con = false) :
    ∃ w, (GetNextWord this con).1 = some w
      ∧ (GetNextWord this con).2.2.words = (con.store w).words
      ∧ (GetNextWord this con).2.2.next = (con.store w).next := by
  unfold endOfInput at h
  cases he : con.e with
  | none =>
    cases this with
    | nil => simp [he] at h
    | cons l rest =>
      cases hl : skipSpace l.data with
      | nil => exact ⟨"", by simp [GetNextWord, he, hl, WordContext.store]⟩
      | cons c cs =>
        exact ⟨String.mk (c :: cs.takeWhile (fun x => !isspace x)),
          by simp [GetNextWord, he, hl, WordContext.store]⟩
  | some e0 =>
    cases hs : skipSpace e0 with
    | nil =>
      cases this with
      | nil => simp [he, hs] at h
      | cons l rest =>
        cases hl : skipSpace l.data with
        | nil => exact ⟨"", by simp [GetNextWord, he, hs, hl, WordContext.store]⟩
        | cons c cs =>
          exact ⟨String.mk (c :: cs.takeWhile (fun x => !isspace x)),
            by simp [GetNextWord, he, hs, hl, WordContext.store]⟩
    | cons c cs =>
      exact ⟨String.mk (c :: cs.takeWhile (fun x => !isspace x)),
        by simp [GetNextWord, he, hs, WordContext.store]⟩

theorem GetWords_history (n : Nat) (this : List String) (con : WordContext)
    (ws : List String) (hl : con.words.length = NEWORD) (hn : con.next < NEWORD)
    (hh : con.history = lastWords ws) :
    (GetWords n this con).2.words.length = NEWORD ∧ (GetWords n this con).2.next < NEWORD
    ∧ (GetWords n this con).2.history = lastWords (ws ++ (GetWords n this con).1) := by
  induction n generalizing this con ws with
  | zero => simp [GetWords, hl, hn, hh]
  | succ n ih =>
    cases hend : endOfInput this con with
    | true =>
      have h1 := GetNextWord_at_end this con hend
      have h2 := ih [] { con with line := none } ws hl hn hh
      simp only [GetWords, hend, h1, if_true, List.nil_append]
      exact h2
    | false =>
      obtain ⟨w, hw, hwords, hnext⟩ := GetNextWord_found this con hend
      have hs := store_history con w hl hn
      have hh2 : (GetNextWord this con).2.2.history = lastWords (ws ++ [w]) := by
        rw [lastWords_snoc, ← hh, ← hs.1]
        simp [WordContext.history, hwords, hnext]
      have h2 := ih (GetNextWord this con).2.1 (GetNextWord this con).2.2 (ws ++ [w])
        (by rw [hwords]; exact hs.2.1) (by rw [hnext]; exact hs.2.2) hh2
      simp only [GetWords, hend, hw, Option.toList, Bool.false_eq_true, if_false]
      simpa [List.append_assoc] using h2

theorem fold_words (xs : List String) (acc : List Char) :
    (xs.map some).foldl (fun (acc : List Char) (o : Option String) =>
        match o with
        | some w => acc ++ w.data ++ [' ']
        | none => acc) acc
      = acc ++ (xs.map (fun w => w.data ++ [' '])).flatten := by
  induction xs generalizing acc with
  | nil => simp
  | cons x xs ih =>
    simp only [List.map_cons, List.foldl_cons, List.flatten_cons]
    rw [ih]
    simp [List.append_assoc]

theorem fold_lastWords (xs : List String) (k : Nat) (acc : List Char) :
    (List.replicate k none ++ xs.map some).foldl (fun (acc : List Char) (o : Option String) =>
        match o with
        | some w => acc ++ w.data ++ [' ']
        | none => acc) acc
      = acc ++ (xs.map (fun w => w.data ++ [' '])).flatten := by
  induction k with
  | zero => simpa using fold_words xs acc
  | succ k ih => simpa [List.replicate_succ] using ih

theorem dropLast_words (xs : List String) (hne : xs ≠ []) :
    ((xs.map (fun w => w.data ++ [' '])).flatten).dropLast = joinTokens (xs.map String.data) := by
  induction xs with
  | nil => exact absurd rfl hne
  | cons x xs ih =>
    cases xs with
    | nil => simp [joinTokens]
    | cons y ys =>
      have h := ih (by simp)
      have hne2 : ((y :: ys).map (fun w => w.data ++ [' '])).flatten ≠ [] := by simp
      simp only [List.map_cons, List.flatten_cons] at h hne2 ⊢
      rw [List.dropLast_append_of_ne_nil _ hne2, h]
      simp [joinTokens]

theorem ContextFragment_history (con : WordContext) :
    ContextFragment con = String.mk ((con.history.foldl
      (fun (acc : List Char) (o : Option String) =>
        match o with
        | some w => acc ++ w.data ++ [' ']
        | none => acc) []).dropLast) := by
  unfold ContextFragment WordContext.history
  rw [List.foldl_map]
  simp only [List.foldl_map]
  try rfl

/-- C28: after `n` successive calls of GetNextWord on a context that was initialised,
when the calls have returned at least one word (the values returned at the end of the
input are not words and are not recorded), ContextFragment returns the last
min(k, 10) of the k words returned, in their order, separated by single spaces and
without a trailing space. -/
theorem context_fragment_last_words (n : Nat) (this : List String)
    (hne : (GetWords n this initContext).1 ≠ []) :
    ContextFragment (GetWords n this initContext).2
      = String.intercalate " " ((GetWords n this initContext).1.drop
          ((GetWords n this initContext).1.length - NEWORD)) := by
  have h := GetWords_history n this initContext [] (by simp [initContext])
    (by simp [initContext, NEWORD]) (by decide)
  simp only [List.nil_append] at h
  have hne2 : (GetWords n this initContext).1.drop
      ((GetWords n this initContext).1.length - NEWORD) ≠ [] := by
    intro h0
    have hle := List.drop_eq_nil_iff.1 h0
    have hpos : 0 < (GetWords n this initContext).1.length := List.length_pos.2 hne
    simp only [NEWORD] at hle
    omega
  rw [ContextFragment_history, h.2.2]
  unfold lastWords
  rw [fold_lastWords, List.nil_append, dropLast_words _ hne2, ← intercalate_data]

/-- C28, an instance: twelve words on two lines, of which the last ten are kept. -/
theorem context_fragment_last_words_witness :
    ContextFragment (GetWords 12 ["a b c d e f g", "h i j k l"] initContext).2
      = "c d e f g h i j k l" :=
  (context_fragment_last_words 12 ["a b c d e f g", "h i j k l"] (by decide)).trans
    (by decide)

/-- C27: for the lines `a`, the empty line and `b`, three calls of GetNextWord return the
words `a`, the empty string and `b` (none of them at the end of the input): the empty
line contributes an empty word, although the maximal runs of characters that are not
white space are `a` and `b` only; a line of blanks does the same. -/
theorem blank_line_gives_empty_word :
    (GetWords 3 ["a", "", "b"] initContext).1 = ["a", "", "b"]
    ∧ docWords ["a", "", "b"] = ["a", "b"]
    ∧ (GetWords 3 ["a", "   ", "b"] initContext).1 = ["a", "", "b"]
    ∧ docWords ["a", "   ", "b"] = ["a", "b"]
    ∧ (GetWords 4 ["a b ", " c"] initContext).1 = docWords ["a b ", " c"] := by
  decide

theorem classifyFrom_snoc (st : AxisSel) (i : Nat) (l : List (String × String))
    (a : String × String) :
    classifyFrom st i (l ++ [a]) = classifyAxis (classifyFrom st i l) (i + l.length) a.1 a.2 := by
  induction l generalizing st i with
  | nil => simp [classifyFrom]
  | cons b l ih =>
    have h : i + 1 + l.length = i + (l.length + 1) := by omega
    show classifyFrom (classifyAxis st i b.1 b.2) (i + 1) (l ++ [a]) = _
    rw [ih, h]
    rfl

theorem classifyAxes_snoc (l : List (String × String)) (a : String × String) :
    classifyAxes (l ++ [a]) = classifyAxis (classifyAxes l) l.length a.1 a.2 := by
  unfold classifyAxes
  rw [classifyFrom_snoc, Nat.zero_add]

theorem findIdx_snoc {α : Type} (p : α → Bool) (l : List α) (a : α) :
    (l ++ [a]).findIdx? p
      = match l.findIdx? p with
        | some i => some i
        | none => if p a then some l.length else none := by
  rw [List.findIdx?_append]
  cases h : l.findIdx? p with
  | some i => simp
  | none =>
    simp only [Option.none_or, List.findIdx?_cons, List.findIdx?_nil]
    by_cases hp : p a = true <;> simp [hp]

theorem classifyAxis_timeax (st : AxisSel) (i : Nat) (c d : String) :
    (classifyAxis st i c d).timeax
      = if c = "TimeFrame" ∧ st.timeax = none then some i else st.timeax := by
  unfold classifyAxis
  split_ifs <;> simp_all [AxisSel.warn]

theorem classifyAxis_specax (st : AxisSel) (i : Nat) (c d : String) :
    (classifyAxis st i c d).specax
      = if (c = "SpecFrame" ∧ d = "SPECTRUM") ∧ st.specax = none then some i
        else st.specax := by
  unfold classifyAxis
  split_ifs <;> simp_all [AxisSel.warn]

theorem classifyAxis_redax (st : AxisSel) (i : Nat) (c d : String) :
    (classifyAxis st i c d).redax
      = if (c = "SpecFrame" ∧ d = "REDSHIFT") ∧ st.redax = none then some i
        else st.redax := by
  unfold classifyAxis
  split_ifs <;> simp_all [AxisSel.warn]

/-- The time axis is the first TimeFrame axis. -/
theorem classify_timeax (axes : List (String × String)) :
    (classifyAxes axes).timeax = axes.findIdx? (fun a => a.1 = "TimeFrame") := by
  induction axes using List.reverseRecOn with
  | nil => rfl
  | append_singleton l a ih =>
    rw [classifyAxes_snoc, findIdx_snoc, ← ih, classifyAxis_timeax]
    cases ht : (classifyAxes l).timeax <;> by_cases h1 : a.1 = "TimeFrame" <;> simp [h1]

theorem classify_specax (axes : List (String × String)) :
    (classifyAxes axes).specax
      = axes.findIdx? (fun a => a.1 = "SpecFrame" && a.2 = "SPECTRUM") := by
  induction axes using List.reverseRecOn with
  | nil => rfl
  | append_singleton l a ih =>
    rw [classifyAxes_snoc, findIdx_snoc, ← ih, classifyAxis_specax]
    cases ht : (classifyAxes l).specax <;>
      by_cases h1 : a.1 = "SpecFrame" <;> by_cases h2 : a.2 = "SPECTRUM" <;> simp [h1, h2]

theorem classify_redax (axes : List (String × String)) :
    (classifyAxes axes).redax
      = axes.findIdx? (fun a => a.1 = "SpecFrame" && a.2 = "REDSHIFT") := by
  induction axes using List.reverseRecOn with
  | nil => rfl
  | append_singleton l a ih =>
    rw [classifyAxes_snoc, findIdx_snoc, ← ih, classifyAxis_redax]
    cases ht : (classifyAxes l).redax <;>
      by_cases h1 : a.1 = "SpecFrame" <;> by_cases h2 : a.2 = "REDSHIFT" <;> simp [h1, h2]

theorem classifyAxis_space (st : AxisSel) (i : Nat) (c d : String) :
    (classifyAxis st i c d).spaceax
      = (if (c = "SkyFrame" ∧ (st.issky = true ∨ st.spaceax.length = 0) ∧ st.spaceax.length < 2)
            ∨ (c = "Frame" ∧ st.issky = false ∧ st.spaceax.length < 3)
         then st.spaceax ++ [i] else st.spaceax)
    ∧ (classifyAxis st i c d).issky
      = (if c = "SkyFrame" ∧ (st.issky = true ∨ st.spaceax.length = 0) ∧ st.spaceax.length < 2
         then true else st.issky) := by
  have hne : ("Frame" : String) ≠ "SkyFrame" := by decide
  have hne2 : ("Frame" : String) ≠ "TimeFrame" := by decide
  have hne3 : ("SkyFrame" : String) ≠ "TimeFrame" := by decide
  unfold classifyAxis
  split_ifs <;> simp_all [AxisSel.warn]
  omega

theorem take_snoc (idx : List Nat) (n m : Nat) :
    (idx ++ [n]).take m = if (idx.take m).length < m then idx.take m ++ [n] else idx.take m := by
  by_cases h : idx.length < m
  · have h1 : idx.take m = idx := List.take_of_length_le (by omega)
    rw [h1, if_pos h]
    exact List.take_of_length_le (by simp; omega)
  · have h1 : (idx.take m).length = m := by simp; omega
    rw [h1, if_neg (lt_irrefl m)]
    exact List.take_append_of_le_length (by omega)

theorem axesOfClass_snoc (l : List (String × String)) (a : String × String) (k : String) :
    axesOfClass (l ++ [a]) k = axesOfClass l k ++ (if a.1 = k then [l.length] else []) := by
  unfold axesOfClass
  rw [List.enum_append]
  by_cases h : a.1 = k <;> simp [List.enumFrom, List.filter_cons, h]

theorem firstSpaceClass_snoc (l : List (String × String)) (a : String × String) :
    firstSpaceClass (l ++ [a])
      = match firstSpaceClass l with
        | some k => some k
        | none => if a.1 = "SkyFrame" ∨ a.1 = "Frame" then some a.1 else none := by
  unfold firstSpaceClass
  rw [List.find?_append]
  cases h : l.find? (fun a => a.1 = "SkyFrame" || a.1 = "Frame") with
  | some b => simp
  | none =>
    by_cases hs : a.1 = "SkyFrame" ∨ a.1 = "Frame"
    · rcases hs with h1 | h1 <;> simp [List.find?, h1]
    · simp only [not_or] at hs
      simp [List.find?, hs.1, hs.2]

/-- The space axes: without a SkyFrame or basic Frame axis there is none; otherwise they
are the first axes of the class of the first space axis, at most 2 for a SkyFrame and at
most 3 for a basic Frame. -/
theorem classify_space (axes : List (String × String)) :
    match firstSpaceClass axes with
    | none => (classifyAxes axes).spaceax = [] ∧ (classifyAxes axes).issky = false
        ∧ axesOfClass axes "SkyFrame" = [] ∧ axesOfClass axes "Frame" = []
    | some k => (k = "SkyFrame" ∨ k = "Frame") ∧ axesOfClass axes k ≠ []
        ∧ (classifyAxes axes).issky = decide (k = "SkyFrame")
        ∧ (classifyAxes axes).spaceax
            = (axesOfClass axes k).take (if k = "SkyFrame" then 2 else 3) := by
  have hne : ("Frame" : String) ≠ "SkyFrame" := by decide
  induction axes using List.reverseRecOn with
  | nil => simp [firstSpaceClass, classifyAxes, classifyFrom, axesOfClass]
  | append_singleton l a ih =>
    have hsp := classifyAxis_space (classifyAxes l) l.length a.1 a.2
    rw [firstSpaceClass_snoc]
    rw [classifyAxes_snoc, hsp.1, hsp.2]
    cases hf : firstSpaceClass l with
    | none =>
      simp only [hf] at ih
      obtain ⟨h1, h2, h3, h4⟩ := ih
      by_cases hs : a.1 = "SkyFrame"
      · simp [hs, h1, h2, axesOfClass_snoc, h3]
      · by_cases hb : a.1 = "Frame"
        · simp [hb, h1, h2, axesOfClass_snoc, h4, hne]
        · simp [hs, hb, h1, h2, axesOfClass_snoc, h3, h4]
    | some k =>
      simp only [hf] at ih
      obtain ⟨h1, h2, h3, h4⟩ := ih
      have hlen : (classifyAxes l).spaceax.length ≠ 0 := by
        rw [h4]
        intro h0
        have := List.length_eq_zero.1 h0
        rcases h1 with rfl | rfl
        · simp at this; exact h2 this
        · simp [hne] at this; exact h2 this
      refine ⟨h1, ?_, ?_, ?_⟩
      · rw [axesOfClass_snoc]; simp [h2]
      · rcases h1 with rfl | rfl
        · by_cases hs : a.1 = "SkyFrame" <;> simp [hs, h3]
        · by_cases hs : a.1 = "SkyFrame" <;> simp [hs, h3, hne, hlen]
      · rw [axesOfClass_snoc]
        rw [h4] at hlen ⊢
        rcases h1 with rfl | rfl
        · by_cases hs : a.1 = "SkyFrame"
          · simp only [hs, if_true, take_snoc]
            simp [h3]
          · have hs2 : ¬ "SkyFrame" = a.1 := fun h => hs h.symm
            simp [hs, h3]
        · by_cases hs : a.1 = "Frame"
          · simp only [hs, if_true, take_snoc, hne, if_false]
            simp [h3, hne]
          · simp only [hne, if_false] at hlen
            simp [hs, h3, hne, hlen]
            intro _ h6
            exact absurd h6 h2

theorem classifyAxis_cases (st : AxisSel) (n : Nat) (c d : String)
    (hsel : ∀ j, st.selected j = true → j < n) :
    (∃ text more, classifyAxis st n c d = st.warn text n more)
    ∨ ((classifyAxis st n c d).warnings = st.warnings
        ∧ ∀ j, (classifyAxis st n c d).selected j = (st.selected j || decide (j = n))) := by
  have hn : st.selected n = false := by
    cases h : st.selected n with
    | false => rfl
    | true => exact absurd (hsel n h) (lt_irrefl n)
  unfold classifyAxis
  split_ifs with h1 h2 h3 h4 h5 h6 h7 h8 h9 h10 h11 h12
  all_goals first
    | exact Or.inl ⟨_, _, rfl⟩
    | (refine Or.inr ⟨rfl, fun j => ?_⟩
       simp only [AxisSel.selected] at hn ⊢
       by_cases hj : j = n
       · subst hj; simp_all
       · have hj2 : ¬ n = j := fun h => hj h.symm
         simp_all)

theorem warn_selected (st : AxisSel) (text : String) (n : Nat) (more : List String)
    (j : Nat) : (st.warn text n more).selected j = st.selected j := rfl

/-- Exactly one warning, of level 1 and naming the axis, is added for each axis not
selected, in the order of the axes. -/
theorem classify_warnings (axes : List (String × String)) :
    (∀ j, (classifyAxes axes).selected j = true → j < axes.length)
    ∧ (classifyAxes axes).warnings.map (fun w => (w.level, w.args.head?))
      = ((List.range axes.length).filter (fun i => !(classifyAxes axes).selected i)).map
          (fun i => (1, some (toString (i + 1)))) := by
  induction axes using List.reverseRecOn with
  | nil => exact ⟨fun j h => by simp [classifyAxes, classifyFrom, AxisSel.selected] at h, rfl⟩
  | append_singleton l a ih =>
    obtain ⟨hsel, hw⟩ := ih
    have hn : (classifyAxes l).selected l.length = false := by
      cases h : (classifyAxes l).selected l.length with
      | false => rfl
      | true => exact absurd (hsel _ h) (lt_irrefl _)
    rw [classifyAxes_snoc]
    simp only [List.length_append, List.length_singleton, List.range_succ, List.filter_append,
      List.map_append]
    rcases classifyAxis_cases (classifyAxes l) l.length a.1 a.2 hsel with
      ⟨text, more, he⟩ | ⟨hwarn, hs⟩
    · rw [he]
      refine ⟨fun j h => ?_, ?_⟩
      · rw [warn_selected] at h
        exact Nat.lt_succ_of_lt (hsel j h)
      · simp only [warn_selected]
        simp [AxisSel.warn, hw, List.filter_cons, hn]
    · refine ⟨fun j h => ?_, ?_⟩
      · rw [hs] at h
        simp only [Bool.or_eq_true, decide_eq_true_eq] at h
        rcases h with h | h
        · exact Nat.lt_succ_of_lt (hsel j h)
        · omega
      · rw [hwarn, hw]
        have hf : (List.range l.length).filter
              (fun i => !(classifyAxis (classifyAxes l) l.length a.1 a.2).selected i)
            = (List.range l.length).filter (fun i => !(classifyAxes l).selected i) := by
          apply List.filter_congr
          intro i hi
          have hi2 : i ≠ l.length := by
            have := List.mem_range.1 hi
            omega
          rw [hs]
          simp [hi2]
        rw [hf]
        simp [hs]

/-- C23: the classification of the axes in WriteRegion, for every list of axes given by
the class and the Domain of their primary Frames: the time axis is the first TimeFrame
axis; the space axes are the first axes of the class (SkyFrame or basic Frame) of the
first space axis, at most 2 for a SkyFrame and at most 3 for a basic Frame, so never a
mixture; the spectral axis is the first SpecFrame axis with Domain SPECTRUM and the
redshift axis the first with Domain REDSHIFT; and the warnings are exactly one warning of
level 1 for each axis not selected, naming that axis, in the order of the axes.  The axes
TimeFrame, Frame, Frame, SpecFrame/SPECTRUM give time axis 1, two basic space axes, the
spectral axis 4, no redshift axis and no warning. -/
theorem axis_classification (axes : List (String × String)) :
    (classifyAxes axes).timeax = axes.findIdx? (fun a => a.1 = "TimeFrame")
    ∧ (match firstSpaceClass axes with
       | none => (classifyAxes axes).spaceax = [] ∧ (classifyAxes axes).issky = false
       | some k => (k = "SkyFrame" ∨ k = "Frame")
           ∧ (classifyAxes axes).issky = decide (k = "SkyFrame")
           ∧ (classifyAxes axes).spaceax
               = (axesOfClass axes k).take (if k = "SkyFrame" then 2 else 3))
    ∧ (classifyAxes axes).specax
        = axes.findIdx? (fun a => a.1 = "SpecFrame" && a.2 = "SPECTRUM")
    ∧ (classifyAxes axes).redax
        = axes.findIdx? (fun a => a.1 = "SpecFrame" && a.2 = "REDSHIFT")
    ∧ (classifyAxes axes).warnings.map (fun w => (w.level, w.args.head?))
        = ((List.range axes.length).filter (fun i => !(classifyAxes axes).selected i)).map
            (fun i => (1, some (toString (i + 1))))
    ∧ classifyAxes [("TimeFrame", "TIME"), ("Frame", ""), ("Frame", ""),
          ("SpecFrame", "SPECTRUM")]
        = { timeax := some 0, spaceax := [1, 2], issky := false, specax := some 3,
            redax := none, warnings := [] } := by
  refine ⟨classify_timeax axes, ?_, classify_specax axes, classify_redax axes,
    (classify_warnings axes).2, by decide⟩
  have h := classify_space axes
  cases hf : firstSpaceClass axes with
  | none =>
    simp only [hf] at h
    exact ⟨h.1, h.2.1⟩
  | some k =>
    simp only [hf] at h
    exact ⟨h.1, h.2.2.1, h.2.2.2⟩

/-- C21: when WriteRegion returns 0 for the COORDS Region, or for the AREA Region, Write
returns 0 and gives no line to the sink: WriteProps is not called, so nothing is written
for the sub-phrases that WriteRegion had already stored in the properties KeyMap. -/
theorem write_all_or_nothing (env : WriteEnv) (object : WObject) :
    (∀ c, (writeSetup env object).coords = some c →
        (env.writeRegion c ((writeSetup env object).props.getD ⟨[]⟩)).ok = false →
        (Write env .ok object).ret = 0 ∧ (Write env .ok object).sink = [])
    ∧ (∀ a, (writeSetup env object).area = some a →
        (callRegion env (writeCoords env (writeSetup env object)).status a
          (writeCoords env (writeSetup env object)).props).ok = false →
        (Write env .ok object).ret = 0 ∧ (Write env .ok object).sink = []) := by
  refine ⟨fun c hc h => ?_, fun a ha h => ?_⟩
  · have h1 : (writeCoords env (writeSetup env object)).ok = false := by
      simp [writeCoords, hc, h]
    have h2 : (writeArea env (writeSetup env object)
        (writeCoords env (writeSetup env object))).ok = false := by
      unfold writeArea
      cases (writeSetup env object).area <;> simp [h1]
    simp [Write, h2]
  · have h2 : (writeArea env (writeSetup env object)
        (writeCoords env (writeSetup env object))).ok = false := by
      unfold writeArea
      rw [ha]
      cases hk : (writeCoords env (writeSetup env object)).ok
      · simp [hk]
      · simp [h]
    simp [Write, h2]

/-- C21, an instance: a Prism given as the AREA, which the sample WriteRegion rejects
after it has stored the time sub-phrase. -/
theorem write_all_or_nothing_witness :
    (Write sampleWriteEnv .ok
        (.region (.prism (.basic astTimeFrame (.nullRegion false) none none)
          (.basic astTimeFrame (.nullRegion false) none none)))).ret = 0
    ∧ (Write sampleWriteEnv .ok
        (.region (.prism (.basic astTimeFrame (.nullRegion false) none none)
          (.basic astTimeFrame (.nullRegion false) none none)))).sink = [] :=
  (write_all_or_nothing sampleWriteEnv
    (.region (.prism (.basic astTimeFrame (.nullRegion false) none none)
      (.basic astTimeFrame (.nullRegion false) none none)))).2 _ rfl rfl

/-- C22: when the Object given to Write is neither a Region nor a KeyMap, and when it is
a KeyMap that has none of the entries AREA, COORDS, PROPS, TIME_PROPS, SPACE_PROPS,
SPECTRAL_PROPS and REDSHIFT_PROPS, Write issues a warning and gives no line to the sink,
but the value it returns is 1, not 0: `ret` is set to 1 when there is no COORDS Region
and nothing resets it while the status is good. -/
theorem write_nothing_returns_one (env : WriteEnv) (cls : String) (subs : PropTree)
    (h1 : subs.get "TIME_PROPS" = none) (h2 : subs.get "SPACE_PROPS" = none)
    (h3 : subs.get "SPECTRAL_PROPS" = none) (h4 : subs.get "REDSHIFT_PROPS" = none) :
    (Write env .ok (.other cls)).ret = 1 ∧ (Write env .ok (.other cls)).sink = []
    ∧ (Write env .ok (.other cls)).warnings.length = 1
    ∧ (Write env .ok (.keyMap none none none subs)).ret = 1
    ∧ (Write env .ok (.keyMap none none none subs)).sink = []
    ∧ (Write env .ok (.keyMap none none none subs)).warnings.length = 1 := by
  have hw : (WriteProps ⟨[]⟩).sink = [] := by decide
  simp [Write, writeSetup, writeCoords, writeArea, wrongEntry, h1, h2, h3, h4, hw]

/-- C22, an instance: an Object of the class Frame, and an empty KeyMap. -/
theorem write_nothing_returns_one_witness :
    (Write sampleWriteEnv .ok (.other "Frame")).ret = 1
    ∧ (Write sampleWriteEnv .ok (.keyMap none none none ⟨[]⟩)).ret = 1 :=
  ⟨(write_nothing_returns_one sampleWriteEnv "Frame" ⟨[]⟩ rfl rfl rfl rfl).1,
   (write_nothing_returns_one sampleWriteEnv "Frame" ⟨[]⟩ rfl rfl rfl rfl).2.2.2.1⟩

/-! ## KeyMaps -/

theorem KeyMap.find_map_replace (es : List (String × String)) (k v : String)
    (h : es.any (fun p => p.1 = k) = true) :
    ((es.map (fun p => if p.1 = k then (k, v) else p)).find? (fun p => p.1 = k)).map Prod.snd
      = some v := by
  induction es with
  | nil => simp at h
  | cons e es ih =>
    rw [List.map_cons]
    by_cases he : e.1 = k
    · rw [if_pos he, List.find?_cons_of_pos _ (by simp)]
      rfl
    · have h2 : es.any (fun p => p.1 = k) = true := by simpa [he] using h
      rw [if_neg he, List.find?_cons_of_neg _ (by simpa using he)]
      exact ih h2

theorem KeyMap.find_map_other (es : List (String × String)) (k v k2 : String) (hk : k2 ≠ k) :
    ((es.map (fun p => if p.1 = k then (k, v) else p)).find? (fun p => p.1 = k2)).map Prod.snd
      = (es.find? (fun p => p.1 = k2)).map Prod.snd := by
  induction es with
  | nil => rfl
  | cons e es ih =>
    rw [List.map_cons]
    by_cases he : e.1 = k
    · have h3 : ¬ e.1 = k2 := by rw [he]; exact fun h => hk h.symm
      have h4 : ¬ k = k2 := fun h => hk h.symm
      rw [if_pos he, List.find?_cons_of_neg _ (by simpa using h4),
        List.find?_cons_of_neg _ (by simpa using h3)]
      exact ih
    · rw [if_neg he]
      by_cases h2 : e.1 = k2
      · rw [List.find?_cons_of_pos _ (by simpa using h2),
          List.find?_cons_of_pos _ (by simpa using h2)]
      · rw [List.find?_cons_of_neg _ (by simpa using h2),
          List.find?_cons_of_neg _ (by simpa using h2)]
        exact ih

theorem KeyMap.find_none_of_not_any (es : List (String × String)) (k : String)
    (h : ¬ es.any (fun p => p.1 = k) = true) :
    es.find? (fun p => p.1 = k) = none := by
  induction es with
  | nil => rfl
  | cons e es ih =>
    have he : ¬ e.1 = k := fun he => h (by simp [he])
    have h2 : ¬ es.any (fun p => p.1 = k) = true := fun h2 => h (by simp [h2])
    rw [List.find?_cons_of_neg _ (by simpa using he)]
    exact ih h2

theorem KeyMap.get_put_self (km : KeyMap) (k v : String) : (km.put k v).get k = some v := by
  unfold KeyMap.put KeyMap.get
  by_cases h : km.hasKey k = true
  · rw [if_pos h]
    exact KeyMap.find_map_replace km.entries k v h
  · rw [if_neg h]
    show ((km.entries ++ [(k, v)]).find? (fun p => p.1 = k)).map Prod.snd = some v
    rw [List.find?_append, KeyMap.find_none_of_not_any km.entries k h]
    simp [List.find?]

theorem KeyMap.get_put_other (km : KeyMap) (k v k2 : String) (hk : k2 ≠ k) :
    (km.put k v).get k2 = km.get k2 := by
  unfold KeyMap.put KeyMap.get
  by_cases h : km.hasKey k = true
  · rw [if_pos h]
    exact KeyMap.find_map_other _ _ _ _ hk
  · rw [if_neg h]
    have h4 : ¬ k = k2 := fun h => hk h.symm
    show ((km.entries ++ [(k, v)]).find? (fun p => p.1 = k2)).map Prod.snd = _
    rw [List.find?_append]
    cases hf : km.entries.find? (fun p => p.1 = k2) with
    | some x => rfl
    | none => simp [List.find?, h4]

theorem KeyMap.hasKey_iff (km : KeyMap) (k : String) :
    km.hasKey k = (km.get k).isSome := by
  unfold KeyMap.hasKey KeyMap.get
  induction km.entries with
  | nil => rfl
  | cons e es ih =>
    by_cases he : e.1 = k
    · rw [List.find?_cons_of_pos _ (by simpa using he)]
      simp [he]
    · rw [List.find?_cons_of_neg _ (by simpa using he)]
      simp [he, ih]

theorem limitsLoop_frame (sprintf : String → ℚ → String) (key text : String) (scale : ℚ)
    (defdigs i : Nat) (bnd : List (Option ℚ)) (st : SpaceWrite) :
    (limitsLoop sprintf key text scale defdigs i bnd st).spprops = st.spprops
    ∧ (limitsLoop sprintf key text scale defdigs i bnd st).props = st.props
    ∧ (limitsLoop sprintf key text scale defdigs i bnd st).fault = st.fault := by
  induction bnd generalizing i st with
  | nil => simp [limitsLoop]
  | cons b rest ih =>
    cases b with
    | none => simp [limitsLoop]
    | some v =>
      simp only [limitsLoop]
      exact ih _ _

theorem limitsLoop_prop (sprintf : String → ℚ → String) (key text : String) (scale : ℚ)
    (defdigs i : Nat) (vs : List ℚ) (st : SpaceWrite)
    (h : vs ≠ [] ∨ (st.prop ≠ none ∧ st.nc ≠ 0)) :
    (limitsLoop sprintf key text scale defdigs i (vs.map some) st).prop ≠ none
    ∧ (limitsLoop sprintf key text scale defdigs i (vs.map some) st).nc ≠ 0 := by
  induction vs generalizing i st with
  | nil =>
    rcases h with h | h
    · exact absurd rfl h
    · simpa [limitsLoop] using h
  | cons v rest ih =>
    simp only [List.map_cons, limitsLoop]
    apply ih
    right
    simp [astAppendString]

theorem storeLimits_spec (key : String) (st : SpaceWrite) (h : st.prop ≠ none ∧ st.nc ≠ 0) :
    (storeLimits key st).spprops = st.spprops
    ∧ ((storeLimits key st).props.get key).isSome = true
    ∧ (∀ k2, k2 ≠ key → (storeLimits key st).props.get k2 = st.props.get k2)
    ∧ (storeLimits key st).fault = st.fault := by
  obtain ⟨p, hp⟩ := Option.ne_none_iff_exists'.1 h.1
  unfold storeLimits
  simp [h.2, hp, KeyMap.get_put_self]
  intro k2 hk
  exact KeyMap.get_put_other _ _ _ _ hk

/-- C25: when WriteRegion writes a space Region that is an Interval or a Box, with
defined bounds on its axes, the formatted limits are stored under the keys LOLIMIT and
HILIMIT of `props`, the KeyMap given to WriteRegion, and not in the KeyMap of the space
sub-phrase: that KeyMap only receives the ID `PositionInterval`, so a space sub-phrase
KeyMap without limits has none afterwards and the line written for it has no limits. -/
theorem limits_stored_in_props (sprintf : String → ℚ → String) (scale : ℚ) (defdigs : Nat)
    (lo hi : List ℚ) (st : SpaceWrite) (hlo : lo ≠ []) (hhi : hi ≠ []) :
    (positionInterval sprintf scale defdigs (lo.map some) (hi.map some) st).spprops
      = st.spprops.put "ID" "PositionInterval"
    ∧ ((positionInterval sprintf scale defdigs (lo.map some) (hi.map some) st).props.get
        "LOLIMIT").isSome = true
    ∧ ((positionInterval sprintf scale defdigs (lo.map some) (hi.map some) st).props.get
        "HILIMIT").isSome = true
    ∧ (st.spprops.get "LOLIMIT" = none →
        (positionInterval sprintf scale defdigs (lo.map some) (hi.map some) st).spprops.get
          "LOLIMIT" = none)
    ∧ (st.spprops.get "HILIMIT" = none →
        (positionInterval sprintf scale defdigs (lo.map some) (hi.map some) st).spprops.get
          "HILIMIT" = none) := by
  have hsp : (positionInterval sprintf scale defdigs (lo.map some) (hi.map some) st).spprops
      = st.spprops.put "ID" "PositionInterval" := by
    unfold positionInterval
    simp only []
    rw [(storeLimits_spec _ _ (limitsLoop_prop _ _ _ _ _ _ hi _ (Or.inl hhi))).1,
      (limitsLoop_frame _ _ _ _ _ _ _ _).1]
    simp only []
    rw [(storeLimits_spec _ _ (limitsLoop_prop _ _ _ _ _ _ lo _ (Or.inl hlo))).1,
      (limitsLoop_frame _ _ _ _ _ _ _ _).1]
  refine ⟨hsp, ?_, ?_, ?_, ?_⟩
  · unfold positionInterval
    simp only []
    rw [(storeLimits_spec _ _ (limitsLoop_prop _ _ _ _ _ _ hi _ (Or.inl hhi))).2.2.1
        "LOLIMIT" (by decide),
      (limitsLoop_frame _ _ _ _ _ _ _ _).2.1]
    exact (storeLimits_spec _ _ (limitsLoop_prop _ _ _ _ _ _ lo _ (Or.inl hlo))).2.1
  · unfold positionInterval
    exact (storeLimits_spec _ _ (limitsLoop_prop _ _ _ _ _ _ hi _ (Or.inl hhi))).2.1
  · intro h
    rw [hsp, KeyMap.get_put_other _ _ _ _ (by decide)]
    exact h
  · intro h
    rw [hsp, KeyMap.get_put_other _ _ _ _ (by decide)]
    exact h

/-- C25, an instance: a Box from (1, 2) to (3, 4) written into empty KeyMaps; the
KeyMap of the space sub-phrase has the ID alone. -/
theorem limits_stored_in_props_witness :
    (positionInterval (fun _ _ => "0") 1 7 ([1, 2].map some) ([3, 4].map some)
        ⟨true, KeyMap.empty, KeyMap.empty, none, 0, [], false⟩).spprops
      = ⟨[("ID", "PositionInterval")]⟩ :=
  (limits_stored_in_props (fun _ _ => "0") 1 7 [1, 2] [3, 4]
    ⟨true, KeyMap.empty, KeyMap.empty, none, 0, [], false⟩
    (List.cons_ne_nil _ _) (List.cons_ne_nil _ _)).1

theorem astAppendString_some (l : List Char) (t : String) :
    astAppendString (some l, l.length) (some t) = (some (l ++ t.data), (l ++ t.data).length) := by
  unfold astAppendString
  have h : (some l = none) = False := by simp
  simp only [Option.getD_some, h, if_false, List.take_length, List.length_append]

theorem astAppendString_none (l : List Char) :
    astAppendString (some l, l.length) none = (some l, l.length) := by
  unfold astAppendString
  have h : (some l = none) = False := by simp
  simp only [h, if_false]

theorem AddItem_full (km : KeyMap) (it : String × Option String) (l : List Char) :
    AddItem km it.1 it.2 (some l, l.length)
      = (some (l ++ fieldText km it), (l ++ fieldText km it).length) := by
  unfold AddItem fieldText
  cases hg : km.get it.1 with
  | none => simp
  | some v =>
    have hs : (" " : String).data = [' '] := rfl
    cases hp : it.2 with
    | none =>
      simp only [astAppendString_none, astAppendString_some, hs, List.nil_append,
        List.append_assoc]
    | some pfx =>
      simp only [astAppendString_some, hs, List.append_assoc]

theorem addItems_full (km : KeyMap) (items : List (String × Option String)) (l : List Char) :
    addItems km items (some l, l.length)
      = (some (l ++ (items.map (fieldText km)).flatten),
         (l ++ (items.map (fieldText km)).flatten).length) := by
  induction items generalizing l with
  | nil => simp [addItems]
  | cons it rest ih =>
    have h := ih (l ++ fieldText km it)
    simp only [addItems, List.foldl_cons] at h ⊢
    rw [AddItem_full, h]
    simp [List.append_assoc]

theorem AddItem_id (km : KeyMap) (id : String) (b : Option (List Char) × Nat)
    (hid : km.get "ID" = some id) (hb : b.1 = none ∨ b.2 = 0) :
    AddItem km "ID" none b = (some (id.data ++ [' ']), (id.data ++ [' ']).length) := by
  obtain ⟨b1, b2⟩ := b
  unfold AddItem
  rw [hid]
  cases b1 with
  | none => simp [astAppendString]
  | some x =>
    have h0 : b2 = 0 := by simpa using hb
    subst h0
    simp [astAppendString]

theorem id_line_eq (id label : String) :
    (String.mk (id.data ++ [' ']) = label ++ " ") ↔ id = label := by
  constructor
  · intro h
    have h2 := congrArg String.data h
    simp only [String.data_append] at h2
    exact String.ext (List.append_cancel_right h2)
  · rintro rfl
    rfl

theorem writeSubPhrase_line (km : KeyMap) (label valueKey : String)
    (before after : List (String × Option String)) (st : WriteState)
    (hf : st.fault = false) (hb : st.first = true → st.buf = (none, 0))
    (hid : idFits km = true) :
    writeSubPhrase km label valueKey before after st
      = { buf := (some (subPhraseLine km label valueKey before after).data,
                  (subPhraseLine km label valueKey before after).data.length),
          first := false,
          sink := st.sink ++ [subPhraseLine km label valueKey before after],
          fault := false } := by
  obtain ⟨id, hid, hlen⟩ : ∃ id, km.get "ID" = some id ∧ id.data.length < 29 := by
    unfold idFits at hid
    cases hg : km.get "ID" with
    | none => simp [hg] at hid
    | some id => exact ⟨id, rfl, by simpa [hg] using hid⟩
  have hb0 : (if st.first = true then st.buf else ((astAppendString st.buf (some "\n")).1, 0)).1
        = none
      ∨ (if st.first = true then st.buf else ((astAppendString st.buf (some "\n")).1, 0)).2
        = 0 := by
    by_cases h1 : st.first = true
    · simp [h1, hb h1]
    · simp [h1]
  have h1 := AddItem_id km id _ hid hb0
  have hl : ¬ 30 ≤ (id.data ++ [' ']).length := by
    rw [List.length_append, List.length_singleton]; omega
  have hpfx : (if String.mk (id.data ++ [' ']) ≠ label ++ " " then some (label ++ " ") else none)
      = (if km.get "ID" = some label then none else some (label ++ " ")) := by
    by_cases h : id = label
    · subst h
      have h2 : String.mk (id.data ++ [' ']) = id ++ " " := (id_line_eq id id).2 rfl
      simp [hid, h2]
    · have h2 : ¬ (String.mk (id.data ++ [' ']) = label ++ " ") := fun h3 =>
        h ((id_line_eq id label).1 h3)
      simp [h2, hid, h]
  have hfid : fieldText km ("ID", none) = id.data ++ [' '] := by
    simp [fieldText, hid]
  unfold writeSubPhrase
  simp only [hf, Bool.false_eq_true, if_false, h1, hl, hpfx]
  rw [addItems_full]
  rw [AddItem_full km (valueKey, if km.get "ID" = some label then none else some (label ++ " "))]
  rw [addItems_full]
  have hline : (subPhraseLine km label valueKey before after).data
      = id.data ++ [' '] ++ (before.map (fieldText km)).flatten
        ++ fieldText km (valueKey, if km.get "ID" = some label then none
            else some (label ++ " "))
        ++ (after.map (fieldText km)).flatten := by
    simp [subPhraseLine, hfid, List.append_assoc]
  simp only [Option.getD_some]
  rw [← hline]

theorem writeStage (o : Option KeyMap) (label valueKey : String)
    (before after : List (String × Option String)) (st : WriteState)
    (hf : st.fault = false) (hb : st.first = true → st.buf = (none, 0))
    (hfit : ∀ km, o = some km → idFits km = true) :
    (match o with
      | some sp => writeSubPhrase sp label valueKey before after st
      | none => st).fault = false
    ∧ ((match o with
      | some sp => writeSubPhrase sp label valueKey before after st
      | none => st).first = true →
        (match o with
          | some sp => writeSubPhrase sp label valueKey before after st
          | none => st).buf = (none, 0))
    ∧ (match o with
      | some sp => writeSubPhrase sp label valueKey before after st
      | none => st).sink
        = st.sink ++ (o.map (fun km => subPhraseLine km label valueKey before after)).toList := by
  cases o with
  | none => exact ⟨hf, hb, by simp⟩
  | some km =>
    simp only [writeSubPhrase_line km label valueKey before after st hf hb (hfit km rfl)]
    simp

/-- C24: for a Property Tree in which each sub-map present has an identifier of fewer
than 29 characters, WriteProps writes exactly one line for each sub-map present, in the
order TIME_PROPS, SPACE_PROPS, SPECTRAL_PROPS, REDSHIFT_PROPS, and each line holds the
fields that its sub-map has in the fixed order of the sub-phrase, each followed by one
space, whatever the order of the entries in the sub-map (the line depends on the values
found under the keys only).  An identifier of 29 characters or more does not fit, with
the space that follows it, in the array `id` of 30 characters into which WriteProps
copies it: for such a sub-map no line is written. -/
theorem writeProps_lines (t : PropTree) (hfit : subMapsFit t = true) :
    (WriteProps t).sink = expectedLines t ∧ (WriteProps t).fault = false
    ∧ (WriteProps ⟨[("TIME_PROPS", ⟨[("ID", "TimeIntervalTimeIntervalTimeI")]⟩)]⟩).fault = true
    ∧ (WriteProps ⟨[("TIME_PROPS", ⟨[("ID", "TimeIntervalTimeIntervalTimeI")]⟩)]⟩).sink = [] := by
  have h : ∀ key ∈ ["TIME_PROPS", "SPACE_PROPS", "SPECTRAL_PROPS", "REDSHIFT_PROPS"],
      ∀ km, t.get key = some km → idFits km = true := by
    intro key hkey km hkm
    unfold subMapsFit at hfit
    have := List.all_eq_true.1 hfit key hkey
    simpa [hkm] using this
  have h1 := writeStage (t.get "TIME_PROPS") "Time" "TIME"
    [("FILLFACTOR", some "fillfactor "), ("TIMESCALE", none), ("REFPOS", none),
     ("START", none), ("STOP", none)] tailItems {} rfl (fun _ => rfl)
    (h "TIME_PROPS" (by simp))
  have h2 := writeStage (t.get "SPACE_PROPS") "Position" "POSITION"
    [("FILLFACTOR", some "fillfactor "), ("FRAME", none), ("REFPOS", none),
     ("FLAVOUR", none), ("LOLIMIT", none), ("HILIMIT", none), ("CENTRE", none),
     ("RADIUS", none), ("RADIUS1", none), ("RADIUS2", none), ("POSANGLE", none),
     ("VERTICES", none)]
    [("UNIT", some "unit "), ("ERROR", some "Error "), ("RESOLUTION", some "Resolution "),
     ("SIZE", some "Size "), ("PIXSIZE", some "PixSize ")] _ h1.1 h1.2.1
    (h "SPACE_PROPS" (by simp))
  have h3 := writeStage (t.get "SPECTRAL_PROPS") "Spectral" "SPECTRAL"
    [("FILLFACTOR", some "fillfactor "), ("REFPOS", none), ("LOLIMIT", none),
     ("HILIMIT", none)] tailItems _ h2.1 h2.2.1 (h "SPECTRAL_PROPS" (by simp))
  have h4 := writeStage (t.get "REDSHIFT_PROPS") "Redshift" "REDSHIFT"
    [("FILLFACTOR", some "fillfactor "), ("REFPOS", none), ("TYPE", none),
     ("DOPPLERDEF", none), ("LOLIMIT", none), ("HILIMIT", none)] tailItems _ h3.1 h3.2.1
    (h "REDSHIFT_PROPS" (by simp))
  refine ⟨?_, h4.1, by decide, by decide⟩
  exact h4.2.2.trans (by
    rw [h3.2.2, h2.2.2, h1.2.2]
    simp [expectedLines, tailItems])

/-- C24, an instance: a time and a space sub-map whose entries are not in the order of
the line. -/
theorem writeProps_lines_witness :
    (WriteProps ⟨[("SPACE_PROPS", ⟨[("RADIUS", "0.5"), ("CENTRE", "10 20"), ("ID", "Circle"),
        ("FRAME", "ICRS")]⟩), ("TIME_PROPS", ⟨[("TIME", "2009-01-01"), ("ID", "Time")]⟩)]⟩).sink
      = ["Time 2009-01-01 ", "Circle ICRS 10 20 0.5 "] :=
  (writeProps_lines ⟨[("SPACE_PROPS", ⟨[("RADIUS", "0.5"), ("CENTRE", "10 20"), ("ID", "Circle"),
        ("FRAME", "ICRS")]⟩), ("TIME_PROPS", ⟨[("TIME", "2009-01-01"), ("ID", "Time")]⟩)]⟩
    (by decide)).1.trans (by decide)

/-! ## The ERROR state -/

theorem wordsAhead_at_end (n : Nat) (this : List String) (con : WordContext)
    (h : endOfInput this con = true) :
    wordsAhead n this con = List.replicate n (if con.done then none else some "") := by
  induction n generalizing this con with
  | zero => rfl
  | succ n ih =>
    have h1 := GetNextWord_at_end this con h
    have h2 := endOfInput_at_end this con con.done h
    have h3 := ih [] { con with line := none } h2
    simp only [wordsAhead, h1, List.replicate_succ]
    rw [h3]

theorem dropWhile_length_le {α : Type} (p : α → Bool) (l : List α) :
    (l.dropWhile p).length ≤ l.length := by
  induction l with
  | nil => simp
  | cons a l ih =>
    rw [List.dropWhile_cons]
    split
    · exact Nat.le_succ_of_le ih
    · exact le_refl _

theorem inputLeft_decreases (this : List String) (con : WordContext)
    (h : endOfInput this con = false) :
    inputLeft (GetNextWord this con).2.1 (GetNextWord this con).2.2 < inputLeft this con := by
  unfold endOfInput at h
  cases he : con.e with
  | none =>
    cases this with
    | nil => simp [he] at h
    | cons l rest =>
      have hsk := dropWhile_length_le isspace l.data
      have hll : l.length = l.data.length := rfl
      cases hl : skipSpace l.data with
      | nil =>
        simp [GetNextWord, he, hl, WordContext.store, inputLeft]
      | cons c cs =>
        have hd := dropWhile_length_le (fun x => !isspace x) cs
        unfold skipSpace at hl
        rw [hl] at hsk
        simp only [List.length_cons] at hsk
        cases hc : cs.dropWhile (fun x => !isspace x) with
        | nil =>
          simp [GetNextWord, he, hl, hc, skipSpace, WordContext.store, inputLeft]
        | cons a t =>
          rw [hc] at hd
          simp only [List.length_cons] at hd
          simp [GetNextWord, he, hl, hc, skipSpace, WordContext.store, inputLeft]
          omega
  | some e0 =>
    have hsk0 := dropWhile_length_le isspace e0
    cases hs : skipSpace e0 with
    | nil =>
      have hs2 : List.dropWhile isspace e0 = [] := hs
      cases this with
      | nil => simp [he, hs] at h
      | cons l rest =>
        have hsk := dropWhile_length_le isspace l.data
        have hll : l.length = l.data.length := rfl
        cases hl : skipSpace l.data with
        | nil =>
          simp [GetNextWord, he, hs, hs2, hl, WordContext.store, inputLeft]
          omega
        | cons c cs =>
          have hd := dropWhile_length_le (fun x => !isspace x) cs
          unfold skipSpace at hl
          rw [hl] at hsk
          simp only [List.length_cons] at hsk
          cases hc : cs.dropWhile (fun x => !isspace x) with
          | nil =>
            simp [GetNextWord, he, hs, hs2, hl, hc, skipSpace, WordContext.store, inputLeft]
            omega
          | cons a t =>
            rw [hc] at hd
            simp only [List.length_cons] at hd
            simp [GetNextWord, he, hs, hs2, hl, hc, skipSpace, WordContext.store, inputLeft]
            omega
    | cons c cs =>
      have hd := dropWhile_length_le (fun x => !isspace x) cs
      unfold skipSpace at hs
      rw [hs] at hsk0
      simp only [List.length_cons] at hsk0
      cases hc : cs.dropWhile (fun x => !isspace x) with
      | nil =>
        simp [GetNextWord, he, hs, hc, skipSpace, WordContext.store, inputLeft]
        omega
      | cons a t =>
        rw [hc] at hd
        simp only [List.length_cons] at hd
        simp [GetNextWord, he, hs, hc, skipSpace, WordContext.store, inputLeft]
        omega

theorem stream_bound (env : Env) (this : List String) (con : WordContext) (ws : List String)
    (x : Option String)
    (h : wordsAhead (ws.length + 1) this con = ws.map some ++ [x])
    (hnum : ∀ w ∈ ws, env.chr2Double w ≠ none) (hx : x.bind env.chr2Double = none) :
    ws.length ≤ inputLeft this con := by
  induction ws generalizing this con with
  | nil => exact Nat.zero_le _
  | cons w ws ih =>
    cases hend : endOfInput this con with
    | true =>
      exfalso
      have h1 := wordsAhead_at_end ((w :: ws).length + 1) this con hend
      rw [h] at h1
      have hw : some w = (if con.done then none else some "") := by
        have := congrArg (fun l => l.head?) h1
        simpa [List.replicate_succ] using this
      have hx2 : x = (if con.done then none else some "") := by
        have h5 := congrArg (fun l => l.getLast?) h1
        have h6 : ((w :: ws).map some ++ [x]).getLast? = some x := by
          rw [List.getLast?_append]
          rfl
        simp only [h6] at h5
        simpa [List.getLast?_replicate] using h5
      have hxw : x = some w := by rw [hx2, hw]
      rw [hxw] at hx
      exact hnum w (by simp) (by simpa using hx)
    | false =>
      have hdec := inputLeft_decreases this con hend
      simp only [List.length_cons, wordsAhead, List.map_cons, List.cons_append,
        List.cons.injEq] at h
      have ih2 := ih _ _ h.2 (fun u hu => hnum u (by simp [hu]))
      simp only [List.length_cons]
      omega

theorem PropIs_start (s : State) : PropIs { s with nc := 0 } [] := by
  unfold PropIs
  simp

theorem PropIs_append (s : State) (P : List Char) (t : String) (hok : s.status = .ok)
    (hP : PropIs s P) : PropIs (s.append (some t)) (P ++ t.data) := by
  obtain ⟨h1, h2⟩ := hP
  unfold PropIs
  simp only [State.append, hok, if_true, h1, h2]
  simp

theorem PropIs_nextWord (s : State) (P : List Char) (hP : PropIs s P) :
    PropIs s.nextWord P := hP

theorem PropIs_some (s : State) (P : List Char) (hP : PropIs s P) (hne : P ≠ []) :
    ∃ p, s.prop = some p ∧ s.nc = P.length ∧ p.take P.length = P := by
  obtain ⟨h1, h2⟩ := hP
  cases hp : s.prop with
  | none =>
    rw [hp] at h2
    simp at h2
    exact absurd h2 hne
  | some p =>
    rw [hp] at h1 h2
    exact ⟨p, rfl, by simpa using h1, by simpa using h2⟩

theorem errorLoop_frame (env : Env) (m : Nat) (s : State) :
    (errorLoop env m s).1.errFrame = s.errFrame := by
  induction m generalizing s with
  | zero => rfl
  | succ m ih =>
    simp only [errorLoop]
    split
    · rfl
    · rw [ih]; rfl

theorem errorLoop_spec (env : Env) (m : Nat) (s : State) (ws : List String)
    (x : Option String) (P : List Char) (hok : s.status = .ok) (hP : PropIs s P)
    (h : wordsAhead (ws.length + 1) s.source s.con = ws.map some ++ [x])
    (hnum : ∀ w ∈ ws, env.chr2Double w ≠ none) (hx : x.bind env.chr2Double = none) :
    (errorLoop env m s).2 = (ws.take m).filterMap env.chr2Double
    ∧ PropIs (errorLoop env m s).1 (P ++ ((ws.take m).map (fun w => w.data ++ [' '])).flatten)
    ∧ (m ≤ ws.length →
        wordsAhead (ws.length - m + 1) (errorLoop env m s).1.source (errorLoop env m s).1.con
          = (ws.drop m).map some ++ [x])
    ∧ (ws.length < m → (errorLoop env m s).1.word = x) := by
  induction m generalizing s ws P with
  | zero => simp [errorLoop, hP, h]
  | succ m ih =>
    cases ws with
    | nil =>
      simp only [List.length_nil, Nat.zero_add, wordsAhead, List.map_nil, List.nil_append,
        List.cons.injEq, and_true] at h
      have hw : s.nextWord.word = x := by simp [hok, h]
      have hc : s.nextWord.chr2Double env = none := by
        simp only [State.chr2Double]
        rw [hw]
        simp [hok, hx]
      simp only [errorLoop, hc]
      refine ⟨by simp, by simpa using hP, by simp, fun _ => hw⟩
    | cons w ws =>
      simp only [List.length_cons, wordsAhead, List.map_cons, List.cons_append,
        List.cons.injEq] at h
      obtain ⟨v, hv⟩ := Option.ne_none_iff_exists'.1 (hnum w (by simp))
      have hw : s.nextWord.word = some w := by simp [hok, h.1]
      have hc : s.nextWord.chr2Double env = some v := by
        simp only [State.chr2Double]
        rw [hw]
        simp [hok, hv]
      have hok2 : ((s.nextWord.append s.nextWord.word).append (some " ")).status = .ok := by
        simp [hok]
      have hP2 : PropIs ((s.nextWord.append s.nextWord.word).append (some " "))
          (P ++ w.data ++ [' ']) := by
        have h1 := PropIs_append s.nextWord P w (by simp [hok]) (PropIs_nextWord s P hP)
        rw [hw]
        exact PropIs_append _ _ " " (by simp [hok]) h1
      have hs2 : wordsAhead (ws.length + 1)
          ((s.nextWord.append s.nextWord.word).append (some " ")).source
          ((s.nextWord.append s.nextWord.word).append (some " ")).con
          = ws.map some ++ [x] := by
        simpa [hok] using h.2
      have ih2 := ih _ ws (P ++ w.data ++ [' ']) hok2 hP2 hs2
        (fun u hu => hnum u (by simp [hu]))
      simp only [errorLoop, hc]
      refine ⟨?_, ?_, ?_, ?_⟩
      · rw [ih2.1, List.take_succ_cons, List.filterMap_cons_some hv]
      · have h3 := ih2.2.1
        rw [List.take_succ_cons, List.map_cons, List.flatten_cons]
        rw [List.append_assoc, List.append_assoc] at h3
        rw [List.append_assoc]
        exact h3
      · intro hm
        have h3 := ih2.2.2.1 (Nat.le_of_succ_le_succ hm)
        rw [List.length_cons, Nat.succ_sub_succ, List.drop_succ_cons]
        exact h3
      · intro hm
        exact ih2.2.2.2 (Nat.lt_of_succ_lt_succ hm)

theorem numberRun_spec (env : Env) (us : List String) (fuel : Nat) (s : State)
    (x : Option String) (P : List Char) (hok : s.status = .ok) (hP : PropIs s P)
    (h : s.word :: wordsAhead us.length s.source s.con = us.map some ++ [x])
    (hnum : ∀ w ∈ us, env.chr2Double w ≠ none) (hx : x.bind env.chr2Double = none)
    (hfuel : us.length ≤ fuel) :
    (numberRun env fuel s).2 = us.length
    ∧ (numberRun env fuel s).1.word = x
    ∧ PropIs (numberRun env fuel s).1 (P ++ (us.map (fun w => w.data ++ [' '])).flatten)
    ∧ (numberRun env fuel s).1.errFrame = s.errFrame := by
  induction us generalizing fuel s P with
  | nil =>
    simp only [List.length_nil, wordsAhead, List.map_nil, List.nil_append, List.cons.injEq,
      and_true] at h
    have hc : s.chr2Double env = none := by
      simp only [State.chr2Double]
      rw [h]
      simp [hok, hx]
    cases fuel with
    | zero =>
      simp only [numberRun, hc]
      exact ⟨rfl, h, by simpa using hP, rfl⟩
    | succ fuel =>
      simp only [numberRun, hc]
      exact ⟨rfl, h, by simpa using hP, rfl⟩
  | cons u us ih =>
    cases fuel with
    | zero => simp at hfuel
    | succ fuel =>
      simp only [List.length_cons, wordsAhead, List.map_cons, List.cons_append,
        List.cons.injEq] at h
      obtain ⟨v, hv⟩ := Option.ne_none_iff_exists'.1 (hnum u (by simp))
      have hc : s.chr2Double env = some v := by
        simp only [State.chr2Double]
        rw [h.1]
        simp [hok, hv]
      have hok2 : ((s.append s.word).append (some " ")).nextWord.status = .ok := hok
      have hP2 : PropIs ((s.append s.word).append (some " ")).nextWord
          (P ++ u.data ++ [' ']) := by
        have h1 := PropIs_append s P u hok hP
        rw [h.1]
        exact PropIs_nextWord _ _ (PropIs_append _ _ " " hok h1)
      have hs2 : ((s.append s.word).append (some " ")).nextWord.word
          :: wordsAhead us.length ((s.append s.word).append (some " ")).nextWord.source
            ((s.append s.word).append (some " ")).nextWord.con = us.map some ++ [x] := by
        simpa [State.nextWord, State.append, hok] using h.2
      have ih2 := ih fuel _ (P ++ u.data ++ [' ']) hok2 hP2 hs2
        (fun w hw => hnum w (by simp [hw])) (Nat.le_of_succ_le_succ hfuel)
      simp only [numberRun, hc, Option.isSome_some, if_true]
      refine ⟨?_, ih2.2.1, ?_, ?_⟩
      · rw [ih2.1, List.length_cons]
      · have h3 := ih2.2.2.1
        rw [List.map_cons, List.flatten_cons]
        rw [List.append_assoc, List.append_assoc] at h3
        rw [List.append_assoc]
        exact h3
      · rw [ih2.2.2.2]
        rfl

theorem filterMap_length_of_ne_none {α β : Type} (f : α → Option β) (l : List α)
    (h : ∀ a ∈ l, f a ≠ none) : (l.filterMap f).length = l.length := by
  induction l with
  | nil => rfl
  | cons a l ih =>
    obtain ⟨v, hv⟩ := Option.ne_none_iff_exists'.1 (h a (by simp))
    rw [List.filterMap_cons_some hv, List.length_cons, List.length_cons,
      ih (fun b hb => h b (by simp [hb]))]

theorem filterMap_take_of_ne_none {α β : Type} (f : α → Option β) (l : List α) (n : Nat)
    (h : ∀ a ∈ l, f a ≠ none) : (l.take n).filterMap f = (l.filterMap f).take n := by
  induction l generalizing n with
  | nil => simp
  | cons a l ih =>
    obtain ⟨v, hv⟩ := Option.ne_none_iff_exists'.1 (h a (by simp))
    cases n with
    | zero => simp
    | succ n =>
      rw [List.take_succ_cons, List.filterMap_cons_some hv, List.filterMap_cons_some hv,
        List.take_succ_cons, ih n (fun b hb => h b (by simp [hb]))]

theorem words_text_ne_nil (ws : List String) (hne : ws ≠ []) :
    ((ws.map (fun w => w.data ++ [' '])).flatten) ≠ [] := by
  cases ws with
  | nil => exact absurd rfl hne
  | cons w ws => simp

theorem chop_of_text (s : State) (hp : s.prop ≠ none) (hnc : s.nc ≠ 0) :
    s.chop = { s with prop := s.prop.map (fun b => b.take (s.nc - 1)) } := by
  unfold State.chop
  rw [if_neg (not_or.2 ⟨hp, hnc⟩)]

theorem text_not_empty (s : State) (ws : List String) (hne : ws ≠ [])
    (hP : PropIs s ((ws.map (fun w => w.data ++ [' '])).flatten)) :
    s.prop ≠ none ∧ s.nc ≠ 0 := by
  obtain ⟨p, hp, hnc, _⟩ := PropIs_some s _ hP (words_text_ne_nil ws hne)
  refine ⟨by rw [hp]; exact Option.some_ne_none p, ?_⟩
  rw [hnc]
  intro h0
  exact words_text_ne_nil ws hne (List.length_eq_zero.1 h0)

theorem chopped_text (s : State) (ws : List String) (hne : ws ≠ [])
    (hP : PropIs s ((ws.map (fun w => w.data ++ [' '])).flatten)) :
    s.chop.prop.map String.mk = some (String.intercalate " " ws) := by
  obtain ⟨p, hp, hnc, htake⟩ := PropIs_some s _ hP (words_text_ne_nil ws hne)
  have hpos : ((ws.map (fun w => w.data ++ [' '])).flatten).length ≠ 0 := by
    intro h0
    exact words_text_ne_nil ws hne (List.length_eq_zero.1 h0)
  have hq : p.take (((ws.map (fun w => w.data ++ [' '])).flatten).length - 1)
      = joinTokens (ws.map String.data) := by
    have h1 : p.take (((ws.map (fun w => w.data ++ [' '])).flatten).length - 1)
        = (p.take ((ws.map (fun w => w.data ++ [' '])).flatten).length).take
            (((ws.map (fun w => w.data ++ [' '])).flatten).length - 1) := by
      rw [List.take_take, Nat.min_eq_left (Nat.sub_le _ _)]
    rw [h1, htake, ← List.dropLast_eq_take, dropLast_words ws hne]
  have hne2 := text_not_empty s ws hne hP
  have hc : s.chop.prop = some (joinTokens (ws.map String.data)) := by
    rw [chop_of_text s hne2.1 hne2.2]
    show s.prop.map (fun b => b.take (s.nc - 1)) = _
    rw [hp, Option.map_some', hnc, hq]
  rw [hc, Option.map_some']
  congr 1
  apply String.ext
  rw [intercalate_data]

theorem mapPut_selected (t : State) (sel : PropsSel) (key v : String)
    (hok : t.status = .ok) (hsel : t.props = some sel) :
    (t.mapPut key (some v)).status = .ok
    ∧ ∃ km, (t.mapPut key (some v)).curProps = some km ∧ km.get key = some v := by
  constructor
  · simp [State.mapPut, hok, hsel]
  · cases sel <;>
      simp [State.mapPut, State.curProps, putIf, hok, hsel, KeyMap.get_put_self]

theorem store_error (s : State) (ws : List String) (sel : PropsSel) (hok : s.status = .ok)
    (hne : ws ≠ []) (hP : PropIs s ((ws.map (fun w => w.data ++ [' '])).flatten))
    (hsel : s.props = some sel) :
    (s.chop.mapPutProp "ERROR").status = .ok
    ∧ (s.chop.mapPutProp "ERROR").word = s.word
    ∧ (s.chop.mapPutProp "ERROR").err = s.err
    ∧ (s.chop.mapPutProp "ERROR").warnings = s.warnings
    ∧ ∃ km, (s.chop.mapPutProp "ERROR").curProps = some km
        ∧ km.get "ERROR" = some (String.intercalate " " ws) := by
  have hc := chopped_text s ws hne hP
  have hne2 := text_not_empty s ws hne hP
  have he := chop_of_text s hne2.1 hne2.2
  have h := mapPut_selected s.chop sel "ERROR" (String.intercalate " " ws)
    (by rw [he]; exact hok) (by rw [he]; exact hsel)
  unfold State.mapPutProp
  rw [hc]
  refine ⟨h.1, ?_, ?_, ?_, h.2⟩
  · show s.chop.word = s.word
    rw [he]
  · show s.chop.err = s.err
    rw [he]
  · show s.chop.warnings = s.warnings
    rw [he]

theorem errorExtra_spec (env : Env) (s : State) (us ws : List String) (x : Option String)
    (P : List Char) (sel : PropsSel) (hok : s.status = .ok) (hsel : s.props = some sel)
    (hP : PropIs s P)
    (h : s.word :: wordsAhead us.length s.source s.con = us.map some ++ [x])
    (hnum : ∀ w ∈ us, env.chr2Double w ≠ none) (hx : x.bind env.chr2Double = none)
    (hne : ws ≠ [])
    (hflat : P ++ (us.map (fun w => w.data ++ [' '])).flatten
      = (ws.map (fun w => w.data ++ [' '])).flatten) :
    (errorExtra env s).status = .ok
    ∧ (errorExtra env s).word = x
    ∧ (errorExtra env s).err = s.err
    ∧ (us = [] → (errorExtra env s).warnings = s.warnings)
    ∧ (us ≠ [] → ∃ w, (errorExtra env s).warnings = s.warnings ++ [w] ∧ w.level = 1)
    ∧ ∃ km, (errorExtra env s).curProps = some km
        ∧ km.get "ERROR" = some (String.intercalate " " ws) := by
  have hfuel : us.length ≤ s.inputSize + 1 := by
    cases us with
    | nil => exact Nat.zero_le _
    | cons u us =>
      simp only [List.length_cons, wordsAhead, List.map_cons, List.cons_append,
        List.cons.injEq] at h
      have hb := stream_bound env s.source s.con us x
        (by
          cases us with
          | nil => simpa [wordsAhead] using h.2
          | cons u2 us2 => simpa [wordsAhead] using h.2)
        (fun w hw => hnum w (by simp [hw])) hx
      exact Nat.succ_le_succ hb
  have N := numberRun_spec env us (s.inputSize + 1) s x P hok hP h hnum hx hfuel
  have fr := N.2.2.2
  have hok1 : (numberRun env (s.inputSize + 1) s).1.status = .ok :=
    (congrArg ErrFrame.status fr).trans hok
  have hsel1 : (numberRun env (s.inputSize + 1) s).1.props = some sel :=
    (congrArg ErrFrame.props fr).trans hsel
  have herr1 : (numberRun env (s.inputSize + 1) s).1.err = s.err := congrArg ErrFrame.err fr
  have hwarn1 : (numberRun env (s.inputSize + 1) s).1.warnings = s.warnings :=
    congrArg ErrFrame.warnings fr
  have hP1 : PropIs (numberRun env (s.inputSize + 1) s).1
      ((ws.map (fun w => w.data ++ [' '])).flatten) := hflat ▸ N.2.2.1
  by_cases hus : us = []
  · have h0 : (numberRun env (s.inputSize + 1) s).2 = 0 := by rw [N.1, hus]; rfl
    have S := store_error _ ws sel hok1 hne hP1 hsel1
    unfold errorExtra
    simp only [h0, ne_eq, not_true_eq_false, if_false]
    exact ⟨S.1, S.2.1.trans N.2.1, S.2.2.1.trans herr1, fun _ => S.2.2.2.1.trans hwarn1,
      fun hc => absurd hus hc, S.2.2.2.2⟩
  · have h0 : (numberRun env (s.inputSize + 1) s).2 ≠ 0 := by
      rw [N.1]
      intro hc
      exact hus (List.length_eq_zero.1 hc)
    have S := store_error
      ((numberRun env (s.inputSize + 1) s).1.warn 1
        "Ignoring extra 'Error' parameters found in an STC-S %s sub-phrase: '%s'."
        [(numberRun env (s.inputSize + 1) s).1.subphrase.getD "(null)",
          (numberRun env (s.inputSize + 1) s).1.fragment])
      ws sel hok1 hne hP1 hsel1
    unfold errorExtra
    simp only [h0, ne_eq, not_false_eq_true, if_true]
    refine ⟨S.1, S.2.1.trans N.2.1, S.2.2.1.trans herr1, fun hc => absurd hc hus,
      fun _ => ⟨⟨1, "Ignoring extra 'Error' parameters found in an STC-S %s sub-phrase: '%s'.",
        [(numberRun env (s.inputSize + 1) s).1.subphrase.getD "(null)",
          (numberRun env (s.inputSize + 1) s).1.fragment]⟩, S.2.2.2.1.trans ?_, rfl⟩,
      S.2.2.2.2⟩
    show (if (numberRun env (s.inputSize + 1) s).1.status = .ok then _ else _) = _
    rw [if_pos hok1, hwarn1]

theorem errorExtra_fault (env : Env) (s : State) (h : s.status ≠ .ok)
    (hz : s.prop = none ∨ s.nc = 0) : (errorExtra env s).status = .fault := by
  have hc : s.chr2Double env = none := by simp [State.chr2Double, h]
  have hr : numberRun env (s.inputSize + 1) s = (s, 0) := by
    simp only [numberRun, hc, Option.isSome_none, Bool.false_eq_true, if_false]
  unfold errorExtra
  simp only [hr, ne_eq, not_true_eq_false, if_false]
  have h1 : s.chop.status = .fault := by
    unfold State.chop
    rw [if_pos hz]
  show (if s.chop.status = Status.ok ∧ _ then Status.fault else s.chop.status) = _
  rw [h1]
  simp

theorem PropIs_nil (s : State) (h : PropIs s []) : s.prop = none ∨ s.nc = 0 := by
  unfold PropIs at h
  by_cases hp : s.prop = none
  · exact Or.inl hp
  · right
    simpa [hp] using h.1

theorem stepError_eq (env : Env) (s : State) :
    stepError env s "Error"
      = { errorExtra env
            (errorValues
              (errorLoop env (if s.spaceid ≠ NULL_ID then s.naxes else 1) { s with nc := 0 }).1
              (if s.spaceid ≠ NULL_ID then s.naxes else 1)
              (errorLoop env (if s.spaceid ≠ NULL_ID then s.naxes else 1)
                { s with nc := 0 }).2) with
          new_word := false, look_for := .RESOLUTION } := by
  unfold stepError
  rw [if_pos rfl]

/-- C30: the ERROR state of Read when the current word is `Error`, with `n` the number
of space axes in a space sub-phrase and 1 otherwise (at least one axis), `props`
pointing to the KeyMap of the sub-phrase, `ws` the numeric words that follow and `x`
the first word that is not numeric (or the end of the input).  With no numeric word the
loops report AST__BADIN, but the statement `prop[ nc - 1 ] = 0` that follows is then
executed with `nc` equal to 0, so the state ends in a fault; the document
`AllSky ICRS Error abc`, where the buffer is still NULL, is such a run.  With at least
one numeric word the status stays good, every numeric word is consumed (the current word
is `x`), and the ERROR property holds all the numeric words separated by single spaces;
with fewer than `n` words the error array is filled up with the last value and no
warning is added, with exactly `n` words the array holds the values, and with more than
`n` the array holds the first `n` values and one warning of level 1 is added. -/
theorem error_values (env : Env) (s : State) (ws : List String) (x : Option String)
    (sel : PropsSel) (hok : s.status = .ok) (hsel : s.props = some sel)
    (hn : 0 < (if s.spaceid ≠ NULL_ID then s.naxes else 1))
    (hstream : wordsAhead (ws.length + 1) s.source s.con = ws.map some ++ [x])
    (hnum : ∀ w ∈ ws, env.chr2Double w ≠ none) (hx : x.bind env.chr2Double = none) :
    (ws = [] →
        (errorValues
          (errorLoop env (if s.spaceid ≠ NULL_ID then s.naxes else 1) { s with nc := 0 }).1
          (if s.spaceid ≠ NULL_ID then s.naxes else 1)
          (errorLoop env (if s.spaceid ≠ NULL_ID then s.naxes else 1)
            { s with nc := 0 }).2).status = .badin
        ∧ (stepError env s "Error").status = .fault)
    ∧ (Read sampleEnv {} 100 ["AllSky ICRS Error abc"]).map (fun r => r.status)
        = some .fault
    ∧ (ws ≠ [] →
        (stepError env s "Error").status = .ok
        ∧ (stepError env s "Error").word = x
        ∧ (∃ km, (stepError env s "Error").curProps = some km
            ∧ km.get "ERROR" = some (String.intercalate " " ws))
        ∧ (ws.length < (if s.spaceid ≠ NULL_ID then s.naxes else 1) →
            ∃ last, (ws.filterMap env.chr2Double).getLast? = some last
              ∧ (stepError env s "Error").err
                = some (ws.filterMap env.chr2Double
                    ++ List.replicate
                      ((if s.spaceid ≠ NULL_ID then s.naxes else 1) - ws.length) last)
              ∧ (stepError env s "Error").warnings = s.warnings)
        ∧ (ws.length = (if s.spaceid ≠ NULL_ID then s.naxes else 1) →
            (stepError env s "Error").err = some (ws.filterMap env.chr2Double)
              ∧ (stepError env s "Error").warnings = s.warnings)
        ∧ ((if s.spaceid ≠ NULL_ID then s.naxes else 1) < ws.length →
            (stepError env s "Error").err
                = some ((ws.filterMap env.chr2Double).take
                    (if s.spaceid ≠ NULL_ID then s.naxes else 1))
              ∧ ∃ w, (stepError env s "Error").warnings = s.warnings ++ [w]
                  ∧ w.level = 1)) := by
  rw [stepError_eq]
  generalize (if s.spaceid ≠ NULL_ID then s.naxes else 1) = n at hn ⊢
  have E := errorLoop_spec env n { s with nc := 0 } ws x [] hok (PropIs_start s) hstream
    hnum hx
  have F := errorLoop_frame env n { s with nc := 0 }
  have hok1 : (errorLoop env n { s with nc := 0 }).1.status = .ok :=
    (congrArg ErrFrame.status F).trans hok
  have hsel1 : (errorLoop env n { s with nc := 0 }).1.props = some sel :=
    (congrArg ErrFrame.props F).trans hsel
  have hwarn1 : (errorLoop env n { s with nc := 0 }).1.warnings = s.warnings :=
    congrArg ErrFrame.warnings F
  have hlen : (ws.filterMap env.chr2Double).length = ws.length :=
    filterMap_length_of_ne_none _ _ hnum
  refine ⟨?_, by decide!, ?_⟩
  · intro hws
    have h2 : (errorLoop env n { s with nc := 0 }).2 = [] := by rw [E.1, hws]; simp
    have hP0 := E.2.1
    rw [hws, List.take_nil, List.map_nil, List.flatten_nil, List.append_nil] at hP0
    have hz := PropIs_nil _ hP0
    have hbad : (errorValues (errorLoop env n { s with nc := 0 }).1 n
        (errorLoop env n { s with nc := 0 }).2).status = .badin := by
      rw [h2]
      simp only [errorValues, List.getLast?_nil, State.raise]
      split_ifs <;> simp_all
    refine ⟨hbad, ?_⟩
    show (errorExtra env _).status = .fault
    apply errorExtra_fault
    · rw [hbad]
      decide
    · rw [h2]
      simp only [errorValues, List.getLast?_nil, State.raise]
      split_ifs <;> exact hz
  · intro hws
    have hvne : ws.filterMap env.chr2Double ≠ [] := by
      intro hc
      rw [hc] at hlen
      exact hws (List.length_eq_zero.1 hlen.symm)
    rcases Nat.lt_or_ge ws.length n with hlt | hge
    · -- fewer values than axes
      have htake : ws.take n = ws := List.take_of_length_le (Nat.le_of_lt hlt)
      have h2 : (errorLoop env n { s with nc := 0 }).2 = ws.filterMap env.chr2Double := by
        rw [E.1, htake]
      obtain ⟨last, hlast⟩ := Option.ne_none_iff_exists'.1
        (fun hc => hvne (List.getLast?_eq_none_iff.1 hc))
      have hv : errorValues (errorLoop env n { s with nc := 0 }).1 n
          (errorLoop env n { s with nc := 0 }).2
          = { (errorLoop env n { s with nc := 0 }).1 with
              err := some (ws.filterMap env.chr2Double
                ++ List.replicate (n - ws.length) last) } := by
        rw [h2]
        simp only [errorValues, hlast, hlen, hlt, if_true]
      have hP1 := E.2.1
      rw [htake, List.nil_append] at hP1
      have X := errorExtra_spec env _ [] ws x _ sel
        (show ({ (errorLoop env n { s with nc := 0 }).1 with
              err := some (ws.filterMap env.chr2Double
                ++ List.replicate (n - ws.length) last) } : State).status = .ok from hok1)
        hsel1 hP1
        (by
          show (errorLoop env n { s with nc := 0 }).1.word :: _ = _
          rw [E.2.2.2 hlt]
          rfl)
        (fun w hw => absurd hw (List.not_mem_nil w)) hx hws (by simp)
      rw [hv]
      refine ⟨X.1, X.2.1, X.2.2.2.2.2, fun _ => ⟨last, hlast, X.2.2.1,
        (X.2.2.2.1 rfl).trans hwarn1⟩, fun he => absurd he (Nat.ne_of_lt hlt),
        fun hc => absurd hc (Nat.lt_asymm hlt)⟩
    · -- at least as many values as axes
      have htl : (ws.take n).length = n := List.length_take_of_le hge
      have h2len : (errorLoop env n { s with nc := 0 }).2.length = n := by
        rw [E.1, filterMap_length_of_ne_none _ _
          (fun w hw => hnum w (List.mem_of_mem_take hw)), htl]
      have h2ne : (errorLoop env n { s with nc := 0 }).2 ≠ [] := by
        intro hc
        rw [hc] at h2len
        exact Nat.ne_of_gt hn h2len.symm
      obtain ⟨last, hlast⟩ := Option.ne_none_iff_exists'.1
        (fun hc => h2ne (List.getLast?_eq_none_iff.1 hc))
      have hv : errorValues (errorLoop env n { s with nc := 0 }).1 n
          (errorLoop env n { s with nc := 0 }).2
          = ({ (errorLoop env n { s with nc := 0 }).1 with
              err := some (errorLoop env n { s with nc := 0 }).2 }).nextWord := by
        simp only [errorValues, hlast, h2len, Nat.lt_irrefl, if_false]
      have hst := E.2.2.1 hge
      have X := errorExtra_spec env
        ({ (errorLoop env n { s with nc := 0 }).1 with
              err := some (errorLoop env n { s with nc := 0 }).2 }).nextWord
        (ws.drop n) ws x _ sel hok1 hsel1 E.2.1
        (by
          have h5 : (ws.drop n).length + 1 = ws.length - n + 1 := by
            rw [List.length_drop]
          rw [← h5] at hst
          simpa [State.nextWord, wordsAhead, hok1] using hst)
        (fun w hw => hnum w (List.mem_of_mem_drop hw)) hx hws
        (by
          rw [List.nil_append, ← List.flatten_append, ← List.map_append,
            List.take_append_drop])
      rw [hv]
      have herr : (errorExtra env
          ({ (errorLoop env n { s with nc := 0 }).1 with
              err := some (errorLoop env n { s with nc := 0 }).2 }).nextWord).err
          = some ((ws.take n).filterMap env.chr2Double) := by
        rw [X.2.2.1, ← E.1]
        rfl
      refine ⟨X.1, X.2.1, X.2.2.2.2.2, fun hc => absurd hc (Nat.not_lt.2 hge), ?_, ?_⟩
      · intro he
        have hd : ws.drop n = [] := List.drop_of_length_le (Nat.le_of_eq he)
        refine ⟨?_, (X.2.2.2.1 hd).trans hwarn1⟩
        rw [herr, List.take_of_length_le (Nat.le_of_eq he)]
      · intro hgt
        have hd : ws.drop n ≠ [] := by
          intro hc
          have := congrArg List.length hc
          rw [List.length_drop] at this
          simp only [List.length_nil] at this
          omega
        refine ⟨?_, ?_⟩
        · rw [herr, filterMap_take_of_ne_none _ _ _ hnum]
        · obtain ⟨w, hw1, hw2⟩ := X.2.2.2.2.1 hd
          exact ⟨w, hw1.trans (congrArg (fun l => l ++ [w]) hwarn1), hw2⟩

theorem error_values_witness :
    (stepError sampleEnv errorSample "Error").status = .ok
    ∧ (stepError sampleEnv errorSample "Error").word = some "Size"
    ∧ (∃ km, (stepError sampleEnv errorSample "Error").curProps = some km
        ∧ km.get "ERROR" = some "1 2 3")
    ∧ (stepError sampleEnv errorSample "Error").err
        = some ((["1", "2", "3"].filterMap sampleEnv.chr2Double).take 2)
    ∧ ∃ w, (stepError sampleEnv errorSample "Error").warnings = errorSample.warnings ++ [w]
        ∧ w.level = 1 :=
  have h := (error_values sampleEnv errorSample ["1", "2", "3"] (some "Size") .space
    (by decide) (by decide) (by decide) (by decide) (by decide) (by decide)).2.2 (by decide)
  ⟨h.1, h.2.1, h.2.2.1, (h.2.2.2.2.2 (by decide)).1, (h.2.2.2.2.2 (by decide)).2⟩

/-- C31 (the code does not do what the claim states): the ELLIPSE branch fetches the
next word before it stores each of RADIUS1 and RADIUS2, so for the document
`Ellipse ICRS TOPOCENTER SPHER2 10 20 3 4 5` the space properties are CENTRE = `10 20`,
RADIUS1 = `4` (the second radius), RADIUS2 = `5` and POSANGLE = `5` (the position
angle); the first radius `3` is not stored.  The decode itself ends without error. -/
theorem ellipse_radii_one_word_late :
    (decodedProps sampleEnv 100 ["Ellipse ICRS TOPOCENTER SPHER2 10 20 3 4 5"] "SPACE_PROPS").map
        (fun km => (km.get "CENTRE", km.get "RADIUS1", km.get "RADIUS2", km.get "POSANGLE"))
      = some (some "10 20", some "4", some "5", some "5")
    ∧ (Read sampleEnv { stcsarea := 0, stcscoords := 0, stcsprops := 1 } 100
        ["Ellipse ICRS TOPOCENTER SPHER2 10 20 3 4 5"]).map (fun r => r.status)
      = some Status.ok := by
  refine ⟨by decide!, by decide!⟩

/-- C32 (the code does not do what the claim states): the TIME branch appends a space
and the current word to the property text in every case, so for an ISO date, where no
second word is read, the date is stored twice: the document
`TimeInterval TT 2009-01-01 2009-02-01 Time 2009-01-15` gives START = `2009-01-01` and
STOP = `2009-02-01` but TIME = `2009-01-15 2009-01-15`.  The numeric forms are stored as
the claim states (`MJD 54000.5`, `JD 2454001.5`). -/
theorem time_property_repeats_iso_date :
    (decodedProps sampleEnv 100 ["TimeInterval TT 2009-01-01 2009-02-01 Time 2009-01-15"]
        "TIME_PROPS").map (fun km => (km.get "START", km.get "STOP", km.get "TIME"))
      = some (some "2009-01-01", some "2009-02-01", some "2009-01-15 2009-01-15")
    ∧ (decodedProps sampleEnv 100 ["TimeInterval TT 2009-01-01 2009-02-01 Time MJD 54000.5"]
        "TIME_PROPS").map (fun km => km.get "TIME") = some (some "MJD 54000.5")
    ∧ (decodedProps sampleEnv 100 ["StartTime TT JD 2454000.5 Time JD 2454001.5"]
        "TIME_PROPS").map (fun km => (km.get "START", km.get "TIME"))
      = some (some "JD 2454000.5", some "JD 2454001.5") := by
  refine ⟨by decide!, by decide!, by decide!⟩

/-- C39 (the code does not do what the claim states): once the REDSHIFT_IDENTIFIER branch
has set the flag `done`, GetNextWord returns NULL at the end of the input, and the
TYPE_DOPPLER and UNIT branches use the word they fetch without a check.  For
`Redshift TOPOCENTER 1.5 VELOCITY` the word after `VELOCITY` is NULL and is compared
with `OPTICAL`; for `Redshift TOPOCENTER 1.5 unit` the word after `unit` is NULL and its
length is taken.  Both runs end in the state that records the use of a null pointer. -/
theorem null_word_examined :
    (∀ s : State, s.status = .ok → s.word = none → (dopplerDef s).status = .fault)
    ∧ (∀ s : State, s.status = .ok → s.nextWord.word = none →
        (unitWord s "unit").status = .fault)
    ∧ (Read sampleEnv { stcsarea := 0, stcscoords := 0, stcsprops := 1 } 100
        ["Redshift TOPOCENTER 1.5 VELOCITY"]).map (fun r => r.status) = some Status.fault
    ∧ (Read sampleEnv { stcsarea := 0, stcscoords := 0, stcsprops := 1 } 100
        ["Redshift TOPOCENTER 1.5 unit"]).map (fun r => r.status) = some Status.fault := by
  refine ⟨?_, ?_, by decide!, by decide!⟩
  · intro s hok hw
    simp [dopplerDef, hw, State.crash, State.raise, hok]
  · intro s hok hw
    have h2 : s.nextWord.status = .ok := hok
    unfold unitWord
    rw [if_pos rfl]
    simp only [hw]
    simp [State.crash, State.raise, hok]

theorem SetUnc_shape (env : Env) (ok : Bool) (r1 r2 : Option Region) (frm : AstFrame)
    (sky : Bool) (scale : ℚ) (err : Option (List ℚ)) (nax : Nat) (sh : Shape) (f : AstFrame)
    (fl : Option ℚ) (u : Option UncBox) :
    (r1 = some (.basic f sh fl u) →
      ∃ u2, (SetUnc env ok r1 r2 frm sky scale err nax).1 = some (.basic f sh fl u2))
    ∧ (r2 = some (.basic f sh fl u) →
      ∃ u2, (SetUnc env ok r1 r2 frm sky scale err nax).2 = some (.basic f sh fl u2)) := by
  unfold SetUnc
  constructor <;> intro h <;> subst h <;> split <;> simp [Region.setUnc]

theorem spaceEnclosure_position (env : Env) (s : State) (frm : AstFrame) (v : List ℚ)
    (hid : s.spaceid = POSITION_ID) (hpos : s.pos = some v) :
    (spaceEnclosure env s frm).space_enc
        = SinglePointList s.astOK frm (scaleFirst s.naxes s.scale v)
    ∧ (spaceEnclosure env s frm).pos = some (scaleFirst s.naxes s.scale v)
    ∧ (spaceEnclosure env s frm).status = s.status := by
  simp [spaceEnclosure, hid, hpos, POSITION_ID, POSITION_INTERVAL_ID, ALL_SKY_ID, CIRCLE_ID,
    ELLIPSE_ID, BOX_ID, POLYGON_ID]

theorem position_regions (env : Env) (s : State) (frm : AstFrame) (v : List ℚ) :
    (SetUnc env true
        (applyFill (SinglePointList true frm (scaleFirst s.naxes s.scale v)) s.fill).1
        (SinglePointList true frm (scaleFirst s.naxes s.scale (scaleFirst s.naxes s.scale v)))
        frm s.is_skyframe s.scale s.err s.naxes).1.bind Region.shape
      = some (.pointList ((scaleFirst s.naxes s.scale v).take frm.naxes))
    ∧ (SetUnc env true
        (applyFill (SinglePointList true frm (scaleFirst s.naxes s.scale v)) s.fill).1
        (SinglePointList true frm (scaleFirst s.naxes s.scale (scaleFirst s.naxes s.scale v)))
        frm s.is_skyframe s.scale s.err s.naxes).2.bind Region.shape
      = some (.pointList
          ((scaleFirst s.naxes s.scale (scaleFirst s.naxes s.scale v)).take frm.naxes)) := by
  have e1 : ∃ fl, (applyFill (SinglePointList true frm (scaleFirst s.naxes s.scale v))
      s.fill).1 = some (.basic frm (.pointList ((scaleFirst s.naxes s.scale v).take
        frm.naxes)) fl none) := by
    unfold applyFill SinglePointList mkRegion
    cases s.fill <;> simp [Region.setFillFactor]
  obtain ⟨fl, e1⟩ := e1
  have e2 : SinglePointList true frm
      (scaleFirst s.naxes s.scale (scaleFirst s.naxes s.scale v))
      = some (.basic frm (.pointList ((scaleFirst s.naxes s.scale
          (scaleFirst s.naxes s.scale v)).take frm.naxes)) none none) := by
    simp [SinglePointList, mkRegion]
  have U := SetUnc_shape env true
    (applyFill (SinglePointList true frm (scaleFirst s.naxes s.scale v)) s.fill).1
    (SinglePointList true frm (scaleFirst s.naxes s.scale (scaleFirst s.naxes s.scale v)))
    frm s.is_skyframe s.scale s.err s.naxes
  obtain ⟨u1, hu1⟩ := (U _ frm fl none).1 e1
  obtain ⟨u2, hu2⟩ := (U _ frm none none).2 e2
  rw [hu1, hu2]
  exact ⟨rfl, rfl⟩

theorem finishSpace_position (env : Env) (s : State) (f0 : AstFrame) (v : List ℚ)
    (hok : s.status = .ok) (hf : s.spacefrm = some f0) (hid : s.spaceid = POSITION_ID)
    (hpos : s.pos = some v) :
    (finishSpace env s).space_enc.bind Region.shape
      = some (.pointList ((scaleFirst s.naxes s.scale v).take f0.naxes))
    ∧ (finishSpace env s).space_co.bind Region.shape
      = some (.pointList
          ((scaleFirst s.naxes s.scale (scaleFirst s.naxes s.scale v)).take f0.naxes)) := by
  have hokb : s.astOK = true := by simp [State.astOK, hok]
  cases hep : s.epoch with
  | none =>
    obtain ⟨h1, h2, h3⟩ := spaceEnclosure_position env s f0 v hid hpos
    simp only [finishSpace, hf, hep, h1, h2, h3, hokb, hok, Option.map_some', decide_True]
    exact position_regions env s f0 v
  | some ep =>
    obtain ⟨h1, h2, h3⟩ := spaceEnclosure_position env s { f0 with epoch := some ep } v hid hpos
    simp only [finishSpace, hf, hep, h1, h2, h3, hokb, hok, Option.map_some', decide_True]
    exact position_regions env s { f0 with epoch := some ep } v

/-- C33 (the code does not do what the claim states): in the finalisation of a
`Position` space sub-phrase the array `pos` is multiplied by the scale factor before the
enclosure PointList is made, and multiplied again before the Coords PointList is made.
So the enclosure point holds the scaled values, the Coords point holds the values scaled
twice, and for two axes with the values `a`, `b` and the factor `k` the points are
(a k, b k) and (a k k, b k k): they differ unless the doubly scaled values happen to
agree. -/
theorem position_coords_scaled_twice (env : Env) (s : State) (f0 : AstFrame) (v : List ℚ)
    (hok : s.status = .ok) (hf : s.spacefrm = some f0) (hid : s.spaceid = POSITION_ID)
    (hpos : s.pos = some v) :
    (finishSpace env s).space_enc.bind Region.shape
      = some (.pointList ((scaleFirst s.naxes s.scale v).take f0.naxes))
    ∧ (finishSpace env s).space_co.bind Region.shape
      = some (.pointList
          ((scaleFirst s.naxes s.scale (scaleFirst s.naxes s.scale v)).take f0.naxes))
    ∧ (∀ a b : ℚ, v = [a, b] → s.naxes = 2 → f0.naxes = 2 →
        (finishSpace env s).space_enc.bind Region.shape
          = some (.pointList [a * s.scale, b * s.scale])
        ∧ (finishSpace env s).space_co.bind Region.shape
          = some (.pointList [a * s.scale * s.scale, b * s.scale * s.scale])) := by
  have key := finishSpace_position env s f0 v hok hf hid hpos
  refine ⟨key.1, key.2, ?_⟩
  intro a b hv hn hn2
  rw [key.1, key.2, hv, hn, hn2]
  simp [scaleFirst]

theorem position_coords_scaled_twice_witness :
    (finishSpace sampleEnv positionSample).space_enc.bind Region.shape
      = some (.pointList [10 * positionSample.scale, 20 * positionSample.scale])
    ∧ (finishSpace sampleEnv positionSample).space_co.bind Region.shape
      = some (.pointList [10 * positionSample.scale * positionSample.scale,
          20 * positionSample.scale * positionSample.scale]) :=
  (position_coords_scaled_twice sampleEnv positionSample (astFrame 2) [10, 20] rfl rfl rfl
    rfl).2.2 10 20 rfl rfl rfl

theorem plane_box_corners (frm : AstFrame) (cx cy w h : ℚ) (hn : frm.naxes = 2)
    (hcls : frm.cls = .Frame) (hw : w ≠ 0) (hh : h ≠ 0) :
    BoxCorners sampleEnv frm [cx, cy] [w, h]
      = some [cx - w / 2, cx + w / 2, cx + w / 2, cx - w / 2,
              cy - h / 2, cy - h / 2, cy + h / 2, cy + h / 2] := by
  have d1 : -(h / 2 * (w / 2)) ≠ 0 := by
    simp only [ne_eq, neg_eq_zero, mul_eq_zero, div_eq_zero_iff, not_or]
    exact ⟨⟨hh, by norm_num⟩, ⟨hw, by norm_num⟩⟩
  unfold BoxCorners
  rw [if_neg (by simp [hn])]
  simp only [sampleEnv, planeOffset2, hcls]
  norm_num [planeIntersect]
  have e1 : h / 2 * (w / 2) / (h / 2 * (w / 2)) = 1 := div_self (by
    intro hc
    exact d1 (by rw [hc]; norm_num))
  have e2 : -(h / 2 * (w / 2)) / (h / 2 * (w / 2)) = -1 := by
    rw [neg_div, e1]
  rw [if_neg (by decide)]
  simp only [hw, hh, or_self, if_false, e1, e2]
  norm_num
  ring

theorem boxCorners_axes (env : Env) (frm : AstFrame) (c b : List ℚ) (hn : frm.naxes ≠ 2) :
    BoxCorners env frm c b = none := by
  unfold BoxCorners
  rw [if_pos hn]

/-- C35 (amended: the size pair of a Box is its full width and height): for a `Box`
sub-phrase in a basic Frame with two axes, with centre (cx, cy), size pair (w, h) and
scale factor k (the scaled sizes not zero), the finalisation of the space sub-phrase
makes the polygon with the four vertices (cx k - w k / 2, cy k - h k / 2),
(cx k + w k / 2, cy k - h k / 2), (cx k + w k / 2, cy k + h k / 2) and
(cx k - w k / 2, cy k + h k / 2), held axis by axis, the offsets and intersections
being those of plane geometry; each corner lies half the size away from the centre.  In
a Frame that does not have two axes, whatever the number of axis values read and
whatever the geometry, no Region is made and the status becomes AST__BADIN; the
documents `Box UNKNOWNFrame TOPOCENTER CART3 1 2 3 4 5 6` and
`Box UNKNOWNFrame TOPOCENTER CART1 1 2` are read with that status and give no Object. -/
theorem box_full_width (s : State) (frm : AstFrame) (cx cy w h : ℚ)
    (hok : s.status = .ok) (hid : s.spaceid = BOX_ID) :
    (s.naxes = 2 → s.centre = [cx, cy] → s.bsize = [w, h] →
      frm.naxes = 2 → frm.cls = .Frame → w * s.scale ≠ 0 → h * s.scale ≠ 0 →
      (spaceEnclosure sampleEnv s frm).space_enc
        = some (.basic frm (.polygon 4
            [cx * s.scale - w * s.scale / 2, cx * s.scale + w * s.scale / 2,
             cx * s.scale + w * s.scale / 2, cx * s.scale - w * s.scale / 2,
             cy * s.scale - h * s.scale / 2, cy * s.scale - h * s.scale / 2,
             cy * s.scale + h * s.scale / 2, cy * s.scale + h * s.scale / 2]) none none)
      ∧ (spaceEnclosure sampleEnv s frm).status = .ok)
    ∧ (∀ env : Env, frm.naxes ≠ 2 →
      (spaceEnclosure env s frm).space_enc = none
      ∧ (spaceEnclosure env s frm).status = .badin)
    ∧ (Read sampleEnv {} 100 ["Box UNKNOWNFrame TOPOCENTER CART3 1 2 3 4 5 6"]).map
        (fun r => (r.object, r.status)) = some (none, .badin)
    ∧ (Read sampleEnv {} 100 ["Box UNKNOWNFrame TOPOCENTER CART1 1 2"]).map
        (fun r => (r.object, r.status)) = some (none, .badin) := by
  have hids : s.spaceid ≠ POSITION_INTERVAL_ID ∧ s.spaceid ≠ ALL_SKY_ID
      ∧ s.spaceid ≠ CIRCLE_ID ∧ s.spaceid ≠ ELLIPSE_ID := by
    rw [hid]; decide
  refine ⟨?_, ?_, by decide!, by decide!⟩
  · intro hax hc hb hn hcls hw hh
    have hsc : scaleFirst s.naxes s.scale s.centre = [cx * s.scale, cy * s.scale] := by
      rw [hax, hc]; simp [scaleFirst]
    have hsb : scaleFirst s.naxes s.scale s.bsize = [w * s.scale, h * s.scale] := by
      rw [hax, hb]; simp [scaleFirst]
    have hB := plane_box_corners frm (cx * s.scale) (cy * s.scale) (w * s.scale) (h * s.scale)
      hn hcls hw hh
    unfold spaceEnclosure
    simp only [hids.1, hids.2.1, hids.2.2.1, hids.2.2.2, if_false, hid, if_true, hsc, hsb, hB]
    simp [mkRegion, State.astOK, hok, BOX_ID, POSITION_INTERVAL_ID, ALL_SKY_ID, CIRCLE_ID,
      ELLIPSE_ID]
  · intro env hn
    have hB := boxCorners_axes env frm (scaleFirst s.naxes s.scale s.centre)
      (scaleFirst s.naxes s.scale s.bsize) hn
    unfold spaceEnclosure
    simp only [hids.1, hids.2.1, hids.2.2.1, hids.2.2.2, if_false, hid, if_true, hB]
    simp [hok, BOX_ID, POSITION_INTERVAL_ID, ALL_SKY_ID, CIRCLE_ID, ELLIPSE_ID]

theorem box_full_width_witness :
    (spaceEnclosure sampleEnv boxSample (astFrame 2)).space_enc
      = some (.basic (astFrame 2) (.polygon 4
          [1 * boxSample.scale - 4 * boxSample.scale / 2,
           1 * boxSample.scale + 4 * boxSample.scale / 2,
           1 * boxSample.scale + 4 * boxSample.scale / 2,
           1 * boxSample.scale - 4 * boxSample.scale / 2,
           2 * boxSample.scale - 6 * boxSample.scale / 2,
           2 * boxSample.scale - 6 * boxSample.scale / 2,
           2 * boxSample.scale + 6 * boxSample.scale / 2,
           2 * boxSample.scale + 6 * boxSample.scale / 2]) none none)
    ∧ (spaceEnclosure sampleEnv { boxSample with naxes := 3 } (astFrame 3)).status = .badin :=
  ⟨((box_full_width boxSample (astFrame 2) 1 2 4 6 rfl rfl).1 rfl rfl rfl rfl rfl
    (by norm_num [boxSample]) (by norm_num [boxSample])).1,
   ((box_full_width { boxSample with naxes := 3 } (astFrame 3) 1 2 4 6 rfl rfl).2.1 sampleEnv
    (by decide)).2⟩

/-- C35, a counterexample to the claim as stated: for the Box with centre (1, 2) and size
pair (4, 6) in a basic Frame with two axes and the scale factor 1, the first vertex of
the polygon is (-1, -1), the centre minus half the size, and not the centre minus the
size (-3, -4); the vertex array differs from the one the claim describes. -/
theorem box_size_not_half_extent :
    BoxCorners sampleEnv (astFrame 2) [1, 2] [4, 6] = some [-1, 3, 3, -1, -1, -1, 5, 5]
    ∧ BoxCorners sampleEnv (astFrame 2) [1, 2] [4, 6]
      ≠ some [1 - 4, 1 + 4, 1 + 4, 1 - 4, 2 - 6, 2 - 6, 2 + 6, 2 + 6] := by
  have h := plane_box_corners (astFrame 2) 1 2 4 6 rfl rfl (by norm_num) (by norm_num)
  rw [h]
  norm_num

/-- C36 (the code does not do what the claim states): for a spectral sub-phrase being
read without error, the decoder and the encoder agree on every unit other than `A` and
`Angstrom`: both accept Hz, MHz, GHz (frequency), m, mm, um, nm (wavelength), eV, keV,
MeV (energy) and refuse every other unit.  But the decoder accepts `A` as a wavelength
unit and refuses `Angstrom`, while the encoder refuses `A` and accepts `Angstrom`. -/
theorem spectral_units_agree_except_angstrom (s : State) (f : AstFrame) (u : String)
    (hok : s.status = .ok) (hf : s.specfrm = some f) (hu : s.unit = some u) :
    (u ≠ "A" → u ≠ "Angstrom" → decodedSpecSystem s = retainedSpecSystem (some u))
    ∧ (u = "A" → decodedSpecSystem s = some .WAVELEN ∧ retainedSpecSystem (some u) = none)
    ∧ (u = "Angstrom" →
        decodedSpecSystem s = none ∧ retainedSpecSystem (some u) = some .WAVELEN) := by
  refine ⟨fun h1 h2 => ?_, fun h => ?_, fun h => ?_⟩
  · by_cases c1 : u = "Hz" ∨ u = "MHz" ∨ u = "GHz"
    · rcases c1 with rfl | rfl | rfl <;>
        simp [decodedSpecSystem, retainedSpecSystem, unitSpec, State.setSpecFrm, hok, hf, hu]
    · by_cases c2 : u = "m" ∨ u = "mm" ∨ u = "um" ∨ u = "nm"
      · rcases c2 with rfl | rfl | rfl | rfl <;>
          simp [decodedSpecSystem, retainedSpecSystem, unitSpec, State.setSpecFrm, hok, hf, hu]
      · by_cases c3 : u = "eV" ∨ u = "keV" ∨ u = "MeV"
        · rcases c3 with rfl | rfl | rfl <;>
            simp [decodedSpecSystem, retainedSpecSystem, unitSpec, State.setSpecFrm, hok, hf,
              hu]
        · simp only [not_or] at c1 c2 c3
          simp [decodedSpecSystem, retainedSpecSystem, unitSpec, State.setSpecFrm, hok, hf, hu,
            c1, c2, c3, h1, h2, State.raise]
  · subst h
    simp [decodedSpecSystem, retainedSpecSystem, unitSpec, State.setSpecFrm, hok, hf, hu]
  · subst h
    simp [decodedSpecSystem, retainedSpecSystem, unitSpec, State.setSpecFrm, hok, hf, hu,
      State.raise]

theorem spectral_units_agree_except_angstrom_witness :
    decodedSpecSystem
        { initState [] with specfrm := some (astSpecFrame none), unit := some "A" }
      = some .WAVELEN
    ∧ retainedSpecSystem (some "A") = none :=
  (spectral_units_agree_except_angstrom
    { initState [] with specfrm := some (astSpecFrame none), unit := some "A" }
    (astSpecFrame none) "A" rfl rfl rfl).2.1 rfl

/-- C37 (the code does not do what the claim states): in the TYPE_DOPPLER branch a word
that is a Doppler definition but is not preceded by a type word clears `new_word` in the
first part of the branch (it is neither `REDSHIFT` nor `VELOCITY`), so the branch ends
with `new_word` clear: the word is not consumed, and no DOPPLERDEF (or other) property
is stored, whichever KeyMap `props` selects.  For `Redshift TOPOCENTER 1.5 OPTICAL` the
redshift properties have no DOPPLERDEF entry, while for
`Redshift TOPOCENTER 1.5 VELOCITY OPTICAL` they have TYPE and DOPPLERDEF. -/
theorem doppler_definition_without_type (s : State) (w : String)
    (hw : w = "OPTICAL" ∨ w = "RADIO" ∨ w = "RELATIVISTIC") (hword : s.word = some w) :
    (stepTypeDoppler { s with new_word := true } w).new_word = false
    ∧ (stepTypeDoppler { s with new_word := true } w).word = some w
    ∧ (stepTypeDoppler { s with new_word := true } w).red_props = s.red_props
    ∧ (stepTypeDoppler { s with new_word := true } w).time_props = s.time_props
    ∧ (stepTypeDoppler { s with new_word := true } w).space_props = s.space_props
    ∧ (stepTypeDoppler { s with new_word := true } w).spec_props = s.spec_props
    ∧ (decodedProps sampleEnv 100 ["Redshift TOPOCENTER 1.5 OPTICAL"] "REDSHIFT_PROPS").map
        (fun km => (km.get "REDSHIFT", km.get "TYPE", km.get "DOPPLERDEF"))
      = some (some "1.5", none, none)
    ∧ (decodedProps sampleEnv 100 ["Redshift TOPOCENTER 1.5 VELOCITY OPTICAL"]
        "REDSHIFT_PROPS").map (fun km => (km.get "TYPE", km.get "DOPPLERDEF"))
      = some (some "VELOCITY", some "OPTICAL") := by
  refine ⟨?_, ?_, ?_, ?_, ?_, ?_, by decide!, by decide!⟩ <;>
    rcases hw with rfl | rfl | rfl <;>
    simp [stepTypeDoppler, dopplerType, dopplerDef, hword, State.setRedFrm, State.warn]

theorem doppler_definition_without_type_witness :
    (stepTypeDoppler { initState ["OPTICAL 3"] with new_word := true } "OPTICAL").new_word
      = false :=
  (doppler_definition_without_type (initState ["OPTICAL 3"]) "OPTICAL" (Or.inl rfl)
    (by decide)).1

theorem scanSetting_prefix (name setting : String) (v : Int)
    (h : scanSetting name setting = some v) :
    (name.data ++ ['=']) <+: setting.data := by
  unfold scanSetting at h
  split_ifs at h with hp
  exact List.isPrefixOf_iff_prefix.1 hp

theorem scanSetting_other (n1 n2 setting : String) (v : Int)
    (h : scanSetting n1 setting = some v)
    (h1 : ¬ (n1.data ++ ['=']) <+: (n2.data ++ ['=']))
    (h2 : ¬ (n2.data ++ ['=']) <+: (n1.data ++ ['='])) :
    scanSetting n2 setting = none := by
  have hp := scanSetting_prefix n1 setting v h
  have hq : ¬ (n2.data ++ ['=']) <+: setting.data := by
    intro hq
    rcases List.prefix_or_prefix_of_prefix hp hq with h3 | h3
    · exact h1 h3
    · exact h2 h3
  unfold scanSetting
  rw [if_neg (fun hc => hq (List.isPrefixOf_iff_prefix.1 hc))]

theorem set_area (this : AstStcsChan) (setting : String) (v : Int)
    (h : scanSetting "stcsarea" setting = some v) :
    SetAttrib this setting = (astSetStcsArea this v, true) := by
  unfold SetAttrib
  rw [h]

theorem set_coords (this : AstStcsChan) (setting : String) (v : Int)
    (h : scanSetting "stcscoords" setting = some v) :
    SetAttrib this setting = (astSetStcsCoords this v, true) := by
  unfold SetAttrib
  rw [scanSetting_other "stcscoords" "stcsarea" setting v h (by decide) (by decide), h]

theorem set_props (this : AstStcsChan) (setting : String) (v : Int)
    (h : scanSetting "stcsprops" setting = some v) :
    SetAttrib this setting = (astSetStcsProps this v, true) := by
  unfold SetAttrib
  rw [scanSetting_other "stcsprops" "stcsarea" setting v h (by decide) (by decide),
    scanSetting_other "stcsprops" "stcscoords" setting v h (by decide) (by decide), h]

theorem int_text_zero : toString (0 : Int) = "0" := by decide

theorem int_text_one : toString (1 : Int) = "1" := by decide

/-- C40 (the code does not do what the claim states): GetAttrib, SetAttrib and
TestAttrib recognise `stcsarea`, `stcscoords` and `stcsprops`, but ClearAttrib compares
the name with `stcsprop`.  For `stcsarea` and `stcscoords` a set followed by a clear
leaves the attribute unset with its default (1 and 0), and a set with a value that is
not zero is read back as 1; the same set works for `stcsprops`, but the clear of
`stcsprops` is passed on to the parent method and leaves the attribute set. -/
theorem clear_does_not_know_stcsprops (this : AstStcsChan) (setting : String) (v : Int) :
    (scanSetting "stcsarea" setting = some v →
      TestAttrib (SetAttrib this setting).1 "stcsarea" = some 1
      ∧ (v ≠ 0 → GetAttrib (SetAttrib this setting).1 "stcsarea" = some "1")
      ∧ TestAttrib (ClearAttrib (SetAttrib this setting).1 "stcsarea").1 "stcsarea" = some 0
      ∧ GetAttrib (ClearAttrib (SetAttrib this setting).1 "stcsarea").1 "stcsarea"
          = some "1")
    ∧ (scanSetting "stcscoords" setting = some v →
      TestAttrib (SetAttrib this setting).1 "stcscoords" = some 1
      ∧ (v ≠ 0 → GetAttrib (SetAttrib this setting).1 "stcscoords" = some "1")
      ∧ TestAttrib (ClearAttrib (SetAttrib this setting).1 "stcscoords").1 "stcscoords"
          = some 0
      ∧ GetAttrib (ClearAttrib (SetAttrib this setting).1 "stcscoords").1 "stcscoords"
          = some "0")
    ∧ (scanSetting "stcsprops" setting = some v →
      TestAttrib (SetAttrib this setting).1 "stcsprops" = some 1
      ∧ (v ≠ 0 → GetAttrib (SetAttrib this setting).1 "stcsprops" = some "1")
      ∧ ClearAttrib (SetAttrib this setting).1 "stcsprops"
          = ((SetAttrib this setting).1, false)
      ∧ TestAttrib (ClearAttrib (SetAttrib this setting).1 "stcsprops").1 "stcsprops"
          = some 1
      ∧ (v ≠ 0 → GetAttrib (ClearAttrib (SetAttrib this setting).1 "stcsprops").1 "stcsprops"
          = some "1")) := by
  refine ⟨fun h => ?_, fun h => ?_, fun h => ?_⟩
  · rw [set_area this setting v h]
    refine ⟨?_, fun hv => ?_, ?_, ?_⟩
    · by_cases hv : v = 0 <;>
        simp [TestAttrib, astTestStcsArea, astSetStcsArea, hv, INT_MAX]
    · simp [GetAttrib, GetStcsArea, astSetStcsArea, hv, INT_MAX, int_text_one]
    · simp [TestAttrib, ClearAttrib, astClearStcsArea, astTestStcsArea]
    · simp [GetAttrib, ClearAttrib, astClearStcsArea, GetStcsArea, int_text_one]
  · rw [set_coords this setting v h]
    refine ⟨?_, fun hv => ?_, ?_, ?_⟩
    · by_cases hv : v = 0 <;>
        simp [TestAttrib, astTestStcsCoords, astSetStcsCoords, hv, INT_MAX]
    · simp [GetAttrib, GetStcsCoords, astSetStcsCoords, hv, INT_MAX, int_text_one]
    · simp [TestAttrib, ClearAttrib, astClearStcsCoords, astTestStcsCoords]
    · simp [GetAttrib, ClearAttrib, astClearStcsCoords, GetStcsCoords, int_text_zero]
  · rw [set_props this setting v h]
    have ht : TestAttrib (astSetStcsProps this v) "stcsprops" = some 1 := by
      by_cases hv : v = 0 <;>
        simp [TestAttrib, astTestStcsProps, astSetStcsProps, hv, INT_MAX]
    have hg : v ≠ 0 → GetAttrib (astSetStcsProps this v) "stcsprops" = some "1" := by
      intro hv
      simp [GetAttrib, GetStcsProps, astSetStcsProps, hv, INT_MAX, int_text_one]
    have hc : ClearAttrib (astSetStcsProps this v) "stcsprops"
        = (astSetStcsProps this v, false) := by
      simp [ClearAttrib]
    refine ⟨ht, hg, hc, ?_, ?_⟩
    · rw [hc]; exact ht
    · rw [hc]; exact hg

theorem clear_does_not_know_stcsprops_witness :
    TestAttrib (ClearAttrib (SetAttrib {} "stcsprops= 5 ").1 "stcsprops").1 "stcsprops"
      = some 1 :=
  ((clear_does_not_know_stcsprops {} "stcsprops= 5 " 5).2.2 (by decide)).2.2.2.1

theorem axisLoop_bad (env : Env) (n : Nat) (s : State) (h : s.status = .badin) :
    (axisLoop env n s).1.status = .badin := by
  induction n generalizing s with
  | zero => exact h
  | succ n ih =>
    simp only [axisLoop]
    apply ih
    have hc : s.chr2Double env = none := by simp [State.chr2Double, h]
    simp [hc, State.raise, h]

theorem axisLoop_props (env : Env) (n : Nat) (s : State) :
    (axisLoop env n s).1.props = s.props ∧ (axisLoop env n s).1.naxes = s.naxes := by
  induction n generalizing s with
  | zero => exact ⟨rfl, rfl⟩
  | succ n ih =>
    simp only [axisLoop]
    refine ⟨(ih _).1.trans ?_, (ih _).2.trans ?_⟩
    · split_ifs <;> rfl
    · split_ifs <;> rfl

theorem axisLoop_spec (env : Env) (n : Nat) (s : State) (us : List String)
    (x : Option String) (P : List Char) (hok : s.status = .ok) (hP : PropIs s P)
    (h : s.word :: wordsAhead us.length s.source s.con = us.map some ++ [x])
    (hnum : ∀ w ∈ us, env.chr2Double w ≠ none) (hx : x.bind env.chr2Double = none) :
    (n ≤ us.length →
      (axisLoop env n s).2 = (us.take n).filterMap env.chr2Double
      ∧ (axisLoop env n s).1.status = .ok
      ∧ PropIs (axisLoop env n s).1 (P ++ ((us.take n).map (fun w => w.data ++ [' '])).flatten)
      ∧ (axisLoop env n s).1.word
          :: wordsAhead (us.length - n) (axisLoop env n s).1.source (axisLoop env n s).1.con
        = (us.drop n).map some ++ [x])
    ∧ (us.length < n → (axisLoop env n s).1.status = .badin) := by
  induction n generalizing s us P with
  | zero =>
    refine ⟨fun _ => ⟨rfl, hok, by simpa using hP, by simpa using h⟩, fun hc => ?_⟩
    exact absurd hc (Nat.not_lt_zero _)
  | succ n ih =>
    cases us with
    | nil =>
      simp only [List.length_nil, wordsAhead, List.map_nil, List.nil_append, List.cons.injEq,
        and_true] at h
      have hc : s.chr2Double env = none := by
        simp only [State.chr2Double]
        rw [h]
        simp [hok, hx]
      refine ⟨fun hc2 => absurd hc2 (by simp), fun _ => ?_⟩
      simp only [axisLoop]
      apply axisLoop_bad
      simp [hc, State.raise, hok]
    | cons u us =>
      simp only [List.length_cons, wordsAhead, List.map_cons, List.cons_append,
        List.cons.injEq] at h
      obtain ⟨v, hv⟩ := Option.ne_none_iff_exists'.1 (hnum u (by simp))
      have hc : s.chr2Double env = some v := by
        simp only [State.chr2Double]
        rw [h.1]
        simp [hok, hv]
      have hs1 : (if s.chr2Double env = none then s.raise .badin else s) = s := by
        rw [hc]; simp
      have hok2 : ((s.append s.word).append (some " ")).nextWord.status = .ok := hok
      have hP2 : PropIs ((s.append s.word).append (some " ")).nextWord
          (P ++ u.data ++ [' ']) := by
        have h1 := PropIs_append s P u hok hP
        rw [h.1]
        exact PropIs_nextWord _ _ (PropIs_append _ _ " " hok h1)
      have hs2 : ((s.append s.word).append (some " ")).nextWord.word
          :: wordsAhead us.length ((s.append s.word).append (some " ")).nextWord.source
            ((s.append s.word).append (some " ")).nextWord.con = us.map some ++ [x] := by
        simpa [State.nextWord, State.append, hok] using h.2
      have ih2 := ih _ us (P ++ u.data ++ [' ']) hok2 hP2 hs2
        (fun w hw => hnum w (by simp [hw]))
      simp only [axisLoop, hc, if_neg (Option.some_ne_none v)]
      refine ⟨fun hn => ?_, fun hn => ?_⟩
      · have ih3 := ih2.1 (Nat.le_of_succ_le_succ hn)
        refine ⟨?_, ih3.2.1, ?_, ?_⟩
        · rw [ih3.1, List.take_succ_cons, List.filterMap_cons_some hv]
          rfl
        · have h3 := ih3.2.2.1
          rw [List.take_succ_cons, List.map_cons, List.flatten_cons]
          rw [List.append_assoc, List.append_assoc] at h3
          rw [List.append_assoc]
          exact h3
        · have h3 := ih3.2.2.2
          rw [List.length_cons, Nat.succ_sub_succ, List.drop_succ_cons]
          exact h3
      · exact ih2.2 (Nat.lt_of_succ_lt_succ hn)

theorem polygonRest_bad (env : Env) (naxes fuel : Nat) (s : State) (temp : List ℚ)
    (nvert : Nat) (h : s.status = .badin) :
    (polygonRest env naxes fuel s temp nvert).1.status = .badin := by
  have hc : s.chr2Double env = none := by simp [State.chr2Double, h]
  cases fuel with
  | zero => simp [polygonRest, hc, h]
  | succ fuel => simp [polygonRest, hc, h]

theorem polygonRest_props (env : Env) (naxes fuel : Nat) (s : State) (temp : List ℚ)
    (nvert : Nat) :
    (polygonRest env naxes fuel s temp nvert).1.props = s.props
    ∧ (polygonRest env naxes fuel s temp nvert).1.naxes = s.naxes := by
  induction fuel generalizing s temp nvert with
  | zero =>
    simp only [polygonRest]
    split_ifs <;> exact ⟨rfl, rfl⟩
  | succ fuel ih =>
    simp only [polygonRest]
    split_ifs
    · exact ⟨(ih _ _ _).1.trans (axisLoop_props env naxes s).1,
        (ih _ _ _).2.trans (axisLoop_props env naxes s).2⟩
    · exact ⟨rfl, rfl⟩

theorem polygonRest_spec (env : Env) (naxes fuel : Nat) (s : State) (temp : List ℚ)
    (nvert : Nat) (us : List String) (x : Option String) (P : List Char)
    (hax : 0 < naxes) (hok : s.status = .ok) (hP : PropIs s P)
    (h : s.word :: wordsAhead us.length s.source s.con = us.map some ++ [x])
    (hnum : ∀ w ∈ us, env.chr2Double w ≠ none) (hx : x.bind env.chr2Double = none)
    (hfuel : us.length ≤ fuel) :
    (naxes ∣ us.length →
      (polygonRest env naxes fuel s temp nvert).1.status = .ok
      ∧ (polygonRest env naxes fuel s temp nvert).2.1 = temp ++ us.filterMap env.chr2Double
      ∧ (polygonRest env naxes fuel s temp nvert).2.2 = nvert + us.length / naxes
      ∧ PropIs (polygonRest env naxes fuel s temp nvert).1
          (P ++ (us.map (fun w => w.data ++ [' '])).flatten)
      ∧ (polygonRest env naxes fuel s temp nvert).1.word = x)
    ∧ (¬ naxes ∣ us.length →
      (polygonRest env naxes fuel s temp nvert).1.status = .badin) := by
  induction fuel generalizing s temp nvert us P with
  | zero =>
    have hnil : us = [] := List.length_eq_zero.1 (Nat.le_zero.1 hfuel)
    subst hnil
    simp only [List.length_nil, wordsAhead, List.map_nil, List.nil_append, List.cons.injEq,
      and_true] at h
    have hc : s.chr2Double env = none := by
      simp only [State.chr2Double]
      rw [h]
      simp [hok, hx]
    simp only [polygonRest, hc]
    refine ⟨fun _ => ⟨hok, by simp, by simp, by simpa using hP, h⟩, fun hd => ?_⟩
    exact absurd (Nat.dvd_zero naxes) hd
  | succ fuel ih =>
    cases us with
    | nil =>
      simp only [List.length_nil, wordsAhead, List.map_nil, List.nil_append, List.cons.injEq,
        and_true] at h
      have hc : s.chr2Double env = none := by
        simp only [State.chr2Double]
        rw [h]
        simp [hok, hx]
      simp only [polygonRest, hc]
      refine ⟨fun _ => ⟨hok, by simp, by simp, by simpa using hP, h⟩, fun hd => ?_⟩
      exact absurd (Nat.dvd_zero naxes) hd
    | cons u us =>
      obtain ⟨v, hv⟩ := Option.ne_none_iff_exists'.1 (hnum u (by simp))
      have hw : s.word = some u := by
        simp only [List.length_cons, wordsAhead, List.map_cons, List.cons_append,
          List.cons.injEq] at h
        exact h.1
      have hc : s.chr2Double env = some v := by
        simp only [State.chr2Double]
        rw [hw]
        simp [hok, hv]
      have A := axisLoop_spec env naxes s (u :: us) x P hok hP h hnum hx
      simp only [polygonRest, hc, Option.isSome_some, if_true]
      rcases Nat.lt_or_ge (u :: us).length naxes with hlt | hge
      · have hb := A.2 hlt
        have hnd : ¬ naxes ∣ (u :: us).length :=
          Nat.not_dvd_of_pos_of_lt (by simp) hlt
        exact ⟨fun hd => absurd hd hnd, fun _ => polygonRest_bad env naxes fuel _ _ _ hb⟩
      · obtain ⟨a1, a2, a3, a4⟩ := A.1 hge
        have hlen : ((u :: us).drop naxes).length = (u :: us).length - naxes :=
          List.length_drop _ _
        have hfuel2 : ((u :: us).drop naxes).length ≤ fuel := by
          rw [hlen]
          omega
        rw [← hlen] at a4
        have I := ih (axisLoop env naxes s).1 (temp ++ (axisLoop env naxes s).2) (nvert + 1)
          ((u :: us).drop naxes) (P ++ (((u :: us).take naxes).map
            (fun w => w.data ++ [' '])).flatten) a2 a3 a4
          (fun w hw => hnum w (List.mem_of_mem_drop hw)) hfuel2
        have hdvd : naxes ∣ ((u :: us).drop naxes).length ↔ naxes ∣ (u :: us).length := by
          rw [hlen]
          constructor
          · intro hd
            have := Nat.dvd_add hd (Nat.dvd_refl naxes)
            rwa [Nat.sub_add_cancel hge] at this
          · intro hd
            exact Nat.dvd_sub' hd (Nat.dvd_refl naxes)
        refine ⟨fun hd => ?_, fun hd => I.2 (fun hc2 => hd (hdvd.1 hc2))⟩
        obtain ⟨i1, i2, i3, i4, i5⟩ := I.1 (hdvd.2 hd)
        refine ⟨i1, ?_, ?_, ?_, i5⟩
        · rw [i2, a1, List.append_assoc, ← List.filterMap_append, List.take_append_drop]
        · rw [i3, hlen]
          have hdiv : (u :: us).length / naxes = ((u :: us).length - naxes) / naxes + 1 := by
            rw [Nat.div_eq (u :: us).length naxes, if_pos ⟨hax, hge⟩]
          omega
        · rw [List.append_assoc, ← List.flatten_append, ← List.map_append,
            List.take_append_drop] at i4
          exact i4

theorem stream_fuel (env : Env) (s : State) (us : List String) (x : Option String)
    (h : s.word :: wordsAhead us.length s.source s.con = us.map some ++ [x])
    (hnum : ∀ w ∈ us, env.chr2Double w ≠ none) (hx : x.bind env.chr2Double = none) :
    us.length ≤ s.inputSize + 1 := by
  cases us with
  | nil => exact Nat.zero_le _
  | cons u us =>
    simp only [List.length_cons, wordsAhead, List.map_cons, List.cons_append,
      List.cons.injEq] at h
    have hb := stream_bound env s.source s.con us x
      (by
        cases us with
        | nil => simpa [wordsAhead] using h.2
        | cons u2 us2 => simpa [wordsAhead] using h.2)
      (fun w hw => hnum w (by simp [hw])) hx
    exact Nat.succ_le_succ hb

theorem transposeVertices_length (naxes nvert : Nat) (temp : List ℚ) :
    (transposeVertices naxes nvert temp).length = naxes * nvert := by
  simp [transposeVertices]

theorem transposeVertices_get (naxes nvert : Nat) (temp : List ℚ) (a v : Nat)
    (ha : a < naxes) (hv : v < nvert) (hlen : temp.length = naxes * nvert) :
    (transposeVertices naxes nvert temp)[a * nvert + v]? = temp[v * naxes + a]? := by
  have hk : a * nvert + v < naxes * nvert := by
    calc a * nvert + v < a * nvert + nvert := Nat.add_lt_add_left hv _
      _ = (a + 1) * nvert := by ring
      _ ≤ naxes * nvert := Nat.mul_le_mul_right _ ha
  have hj : v * naxes + a < temp.length := by
    rw [hlen]
    calc v * naxes + a < v * naxes + naxes := Nat.add_lt_add_left ha _
      _ = naxes * (v + 1) := by ring
      _ ≤ naxes * nvert := Nat.mul_le_mul_left _ hv
  have h1 : (a * nvert + v) % nvert = v := by
    rw [Nat.add_comm, Nat.add_mul_mod_self_right, Nat.mod_eq_of_lt hv]
  have h2 : (a * nvert + v) / nvert = a := by
    rw [Nat.add_comm, Nat.add_mul_div_right _ _ (Nat.lt_of_le_of_lt (Nat.zero_le _) hv),
      Nat.div_eq_of_lt hv, Nat.zero_add]
  unfold transposeVertices
  rw [List.getElem?_map, List.getElem?_range hk]
  simp only [Option.map_some', h1, h2]
  rw [List.getD_eq_getElem?_getD, List.getElem?_eq_getElem hj]
  rfl

theorem append_text (s : State) (v : Option String) (h : s.prop ≠ none ∧ s.nc ≠ 0) :
    (s.append v).prop ≠ none ∧ (s.append v).nc ≠ 0 := by
  obtain ⟨hp, hn⟩ := h
  unfold State.append
  cases v with
  | none => simp [hp, hn]
  | some t =>
    by_cases hok : s.status = .ok
    · simp [hp, hn, hok]
    · simp [hp, hn, hok]

theorem append_space_text (s : State) (hok : s.status = .ok) :
    (s.append (some " ")).prop ≠ none ∧ (s.append (some " ")).nc ≠ 0 := by
  unfold State.append
  simp [hok]

theorem append_no_text (s : State) (v : Option String) (hb : s.status ≠ .ok)
    (h : s.prop = none ∨ s.nc = 0) :
    (s.append v).prop = none ∨ (s.append v).nc = 0 := by
  unfold State.append
  cases v with
  | none =>
    rcases h with h | h
    · exact Or.inl h
    · right
      simp [h]
  | some t =>
    rcases h with h | h
    · left
      simp [hb, h]
    · right
      simp [hb, h]

theorem axisLoop_text (env : Env) (n : Nat) (s : State) (h : s.prop ≠ none ∧ s.nc ≠ 0) :
    (axisLoop env n s).1.prop ≠ none ∧ (axisLoop env n s).1.nc ≠ 0 := by
  induction n generalizing s with
  | zero => exact h
  | succ n ih =>
    rw [axisLoop]
    simp only []
    apply ih
    show ((_ : State).append (some " ")).prop ≠ none ∧ ((_ : State).append (some " ")).nc ≠ 0
    apply append_text
    apply append_text
    split <;> exact h

theorem axisLoop_first_text (env : Env) (n : Nat) (s : State) (hn : n ≠ 0)
    (hok : s.status = .ok) (hv : s.chr2Double env ≠ none) :
    (axisLoop env n s).1.prop ≠ none ∧ (axisLoop env n s).1.nc ≠ 0 := by
  cases n with
  | zero => exact absurd rfl hn
  | succ n =>
    rw [axisLoop]
    simp only [if_neg hv]
    apply axisLoop_text
    show ((_ : State).append (some " ")).prop ≠ none ∧ ((_ : State).append (some " ")).nc ≠ 0
    exact append_space_text _ hok

theorem axisLoop_bad_no_text (env : Env) (n : Nat) (s : State) (hb : s.status ≠ .ok)
    (h : s.prop = none ∨ s.nc = 0) :
    (axisLoop env n s).1.status ≠ .ok
    ∧ ((axisLoop env n s).1.prop = none ∨ (axisLoop env n s).1.nc = 0) := by
  induction n generalizing s with
  | zero => exact ⟨hb, h⟩
  | succ n ih =>
    have hc : s.chr2Double env = none := by simp [State.chr2Double, hb]
    rw [axisLoop]
    simp only [hc, if_true]
    have hr : (s.raise .badin).status ≠ .ok := by simp [State.raise, hb]
    apply ih
    · exact hr
    · show ((_ : State).append (some " ")).prop = none ∨ ((_ : State).append (some " ")).nc = 0
      exact append_no_text _ _ (show ((s.raise .badin).append _).status ≠ .ok from hr)
        (append_no_text _ _ hr h)

theorem axisLoop_no_text (env : Env) (n : Nat) (s : State) (hn : n ≠ 0)
    (hv : s.chr2Double env = none) (h : s.prop = none ∨ s.nc = 0) :
    (axisLoop env n s).1.status ≠ .ok
    ∧ ((axisLoop env n s).1.prop = none ∨ (axisLoop env n s).1.nc = 0) := by
  cases n with
  | zero => exact absurd rfl hn
  | succ n =>
    rw [axisLoop]
    simp only [hv, if_true]
    have hr : (s.raise .badin).status ≠ .ok := by
      unfold State.raise
      simp only []
      split
      · decide
      · assumption
    apply axisLoop_bad_no_text
    · exact hr
    · show ((_ : State).append (some " ")).prop = none ∨ ((_ : State).append (some " ")).nc = 0
      exact append_no_text _ _ (show ((s.raise .badin).append _).status ≠ .ok from hr)
        (append_no_text _ _ hr h)

theorem polygonRest_text (env : Env) (naxes fuel : Nat) (s : State) (temp : List ℚ)
    (nvert : Nat) (h : s.prop ≠ none ∧ s.nc ≠ 0) :
    (polygonRest env naxes fuel s temp nvert).1.prop ≠ none
    ∧ (polygonRest env naxes fuel s temp nvert).1.nc ≠ 0 := by
  induction fuel generalizing s temp nvert with
  | zero =>
    rw [polygonRest]
    simp only []
    split <;> exact h
  | succ fuel ih =>
    rw [polygonRest]
    split
    · exact ih _ _ _ (axisLoop_text env naxes s h)
    · exact h

theorem polygonRest_of_bad (env : Env) (naxes fuel : Nat) (s : State) (temp : List ℚ)
    (nvert : Nat) (hb : s.status ≠ .ok) :
    (polygonRest env naxes fuel s temp nvert).1 = s := by
  have hc : (s.chr2Double env).isSome = false := by simp [State.chr2Double, hb]
  cases fuel with
  | zero =>
    rw [polygonRest]
    simp only [hc, Bool.false_eq_true, if_false]
  | succ fuel =>
    rw [polygonRest]
    simp only [hc, Bool.false_eq_true, if_false]

theorem put_of_bad (s : State) (key : String) (h : s.status = .badin)
    (ht : s.prop ≠ none ∧ s.nc ≠ 0) : (s.chop.mapPutProp key).status = .badin := by
  rw [chop_of_text s ht.1 ht.2]
  simp [State.mapPutProp, State.mapPut, h]

theorem put_of_no_text (s : State) (key : String) (h : s.prop = none ∨ s.nc = 0) :
    (s.chop.mapPutProp key).status = .fault := by
  have h1 : s.chop.status = .fault := by
    unfold State.chop
    rw [if_pos h]
  show (if s.chop.status = Status.ok ∧ _ then Status.fault else s.chop.status) = _
  rw [h1]
  simp

theorem stepPolygon_of (env : Env) (s : State) (w : String) (hax : 0 < s.naxes)
    (r1 : State × List ℚ) (r2 : State × List ℚ × Nat) (s2 : State)
    (h1 : r1 = axisLoop env s.naxes { s with nc := 0 })
    (h2 : r2 = polygonRest env s.naxes (r1.1.inputSize + 1) r1.1 r1.2 1)
    (h3 : s2 = ({ r2.1 with nvert := r2.2.2 }.chop).mapPutProp "VERTICES") :
    (stepPolygon env s w).status = s2.status
    ∧ (stepPolygon env s w).nvert = r2.2.2
    ∧ (stepPolygon env s w).vertices
        = if s2.status = .ok then transposeVertices s.naxes r2.2.2 r2.2.1 else [] := by
  have hn : s.naxes ≠ 0 := Nat.pos_iff_ne_zero.1 hax
  have hch : ∀ t : State, t.chop.naxes = t.naxes ∧ t.chop.nvert = t.nvert := by
    intro t
    unfold State.chop
    split <;> exact ⟨rfl, rfl⟩
  have hnx : s2.naxes = s.naxes := by
    subst h3 h2 h1
    exact (hch _).1.trans
      ((polygonRest_props env s.naxes _ _ _ _).2.trans (axisLoop_props env s.naxes _).2)
  have hnv : s2.nvert = r2.2.2 := by
    subst h3
    exact (hch _).2
  unfold stepPolygon
  simp only [if_neg hn, ← h1, ← h2, ← h3]
  refine ⟨?_, ?_, ?_⟩
  · split_ifs <;> rfl
  · split_ifs <;> exact hnv
  · split_ifs
    · show transposeVertices s2.naxes s2.nvert r2.2.1 = _
      rw [hnx, hnv]
    · rfl

theorem polygon_core (env : Env) (s : State) (us : List String)
    (x : Option String) (sel : PropsSel) (hok : s.status = .ok) (hsel : s.props = some sel)
    (hax : 0 < s.naxes)
    (hstream : s.word :: wordsAhead us.length s.source s.con = us.map some ++ [x])
    (hnum : ∀ u ∈ us, env.chr2Double u ≠ none) (hx : x.bind env.chr2Double = none)
    (r1 : State × List ℚ) (r2 : State × List ℚ × Nat) (s2 : State)
    (h1 : r1 = axisLoop env s.naxes { s with nc := 0 })
    (h2 : r2 = polygonRest env s.naxes (r1.1.inputSize + 1) r1.1 r1.2 1)
    (h3 : s2 = ({ r2.1 with nvert := r2.2.2 }.chop).mapPutProp "VERTICES") :
    (0 < us.length → s.naxes ∣ us.length →
      s2.status = .ok ∧ r2.2.2 = us.length / s.naxes
      ∧ r2.2.1 = us.filterMap env.chr2Double)
    ∧ (0 < us.length → ¬ s.naxes ∣ us.length → s2.status = .badin)
    ∧ (us = [] → r1.1.status = .badin ∧ s2.status = .fault) := by
  have A := axisLoop_spec env s.naxes { s with nc := 0 } us x [] hok (PropIs_start s) hstream
    hnum hx
  rw [← h1] at A
  have hn0 : s.naxes ≠ 0 := Nat.pos_iff_ne_zero.1 hax
  have htext : 0 < us.length → r2.1.prop ≠ none ∧ r2.1.nc ≠ 0 := by
    intro hpos
    rw [h2]
    apply polygonRest_text
    rw [h1]
    refine axisLoop_first_text env s.naxes { s with nc := 0 } hn0 hok ?_
    cases us with
    | nil => exact absurd hpos (Nat.lt_irrefl 0)
    | cons u us =>
      have hw : s.word = some u := by
        simp only [List.map_cons, List.cons_append, List.cons.injEq] at hstream
        exact hstream.1
      have hu := hnum u (List.mem_cons_self _ _)
      show (if s.status = .ok then s.word.bind env.chr2Double else none) ≠ none
      rw [if_pos hok, hw]
      exact hu
  have hput : 0 < us.length → r2.1.status = .badin → s2.status = .badin := by
    intro hpos hb
    rw [h3]
    exact put_of_bad { r2.1 with nvert := r2.2.2 } "VERTICES" hb (htext hpos)
  have hnil : us = [] → r1.1.status = .badin ∧ s2.status = .fault := by
    intro hus
    have hb : r1.1.status = .badin := A.2 (by rw [hus]; exact hax)
    have hv : ({ s with nc := 0 } : State).chr2Double env = none := by
      rw [hus] at hstream
      simp only [List.length_nil, wordsAhead, List.map_nil, List.nil_append, List.cons.injEq,
        and_true] at hstream
      simp only [State.chr2Double]
      rw [hstream]
      simp [hx]
    have hnt := axisLoop_no_text env s.naxes { s with nc := 0 } hn0 hv (Or.inr rfl)
    rw [← h1] at hnt
    have hr2 : r2.1 = r1.1 := by
      rw [h2]
      exact polygonRest_of_bad env s.naxes _ _ _ _ hnt.1
    refine ⟨hb, ?_⟩
    rw [h3]
    apply put_of_no_text
    show r2.1.prop = none ∨ r2.1.nc = 0
    rw [hr2]
    exact hnt.2
  rcases Nat.lt_or_ge us.length s.naxes with hlt | hge
  · have hb := A.2 hlt
    have hb2 : r2.1.status = .badin := by
      rw [h2]
      exact polygonRest_bad env s.naxes _ _ _ _ hb
    refine ⟨fun hpos hd => ?_, fun hpos _ => hput hpos hb2, hnil⟩
    exact absurd hd (Nat.not_dvd_of_pos_of_lt hpos hlt)
  · obtain ⟨a1, a2, a3, a4⟩ := A.1 hge
    have hlen : (us.drop s.naxes).length = us.length - s.naxes := List.length_drop _ _
    rw [← hlen] at a4
    have hnum2 : ∀ u ∈ us.drop s.naxes, env.chr2Double u ≠ none :=
      fun u hu => hnum u (List.mem_of_mem_drop hu)
    have hfuel := stream_fuel env r1.1 (us.drop s.naxes) x a4 hnum2 hx
    have R := polygonRest_spec env s.naxes (r1.1.inputSize + 1) r1.1 r1.2 1
      (us.drop s.naxes) x _ hax a2 a3 a4 hnum2 hx hfuel
    rw [← h2] at R
    have hdvd : s.naxes ∣ (us.drop s.naxes).length ↔ s.naxes ∣ us.length := by
      rw [hlen]
      constructor
      · intro hd
        have := Nat.dvd_add hd (Nat.dvd_refl s.naxes)
        rwa [Nat.sub_add_cancel hge] at this
      · intro hd
        exact Nat.dvd_sub' hd (Nat.dvd_refl s.naxes)
    have hpos : 0 < us.length := Nat.lt_of_lt_of_le hax hge
    refine ⟨fun _ hd => ?_, fun _ hnd => ?_, hnil⟩
    · obtain ⟨q1, q2, q3, q4, q5⟩ := R.1 (hdvd.2 hd)
      have hne : us ≠ [] := by
        intro hc
        rw [hc] at hpos
        exact Nat.lt_irrefl _ hpos
      have hP : PropIs { r2.1 with nvert := r2.2.2 }
          ((us.map (fun w => w.data ++ [' '])).flatten) := by
        rw [List.nil_append, ← List.flatten_append, ← List.map_append,
          List.take_append_drop] at q4
        exact q4
      have hC := chopped_text _ us hne hP
      have hselR : r2.1.props = some sel := by
        rw [h2]
        refine ((polygonRest_props env s.naxes _ _ _ _).1.trans ?_).trans hsel
        rw [h1]
        exact (axisLoop_props env s.naxes _).1
      have hne2 := text_not_empty _ us hne hP
      have he := chop_of_text ({ r2.1 with nvert := r2.2.2 } : State) hne2.1 hne2.2
      have hM := mapPut_selected ({ r2.1 with nvert := r2.2.2 }).chop sel "VERTICES"
          (String.intercalate " " us) (by rw [he]; exact q1) (by rw [he]; exact hselR)
      have hst : s2.status = .ok := by
        rw [h3]
        unfold State.mapPutProp
        rw [hC]
        exact hM.1
      refine ⟨hst, ?_, ?_⟩
      · rw [q3, hlen]
        have hdiv : us.length / s.naxes = (us.length - s.naxes) / s.naxes + 1 := by
          rw [Nat.div_eq us.length s.naxes, if_pos ⟨hax, hge⟩]
        omega
      · rw [q2, a1, ← List.filterMap_append, List.take_append_drop]
    · exact hput hpos (R.2 (fun hc => hnd (hdvd.1 hc)))

/-- C34: the POLYGON state of Read, with `naxes` at least 1, `props` pointing to the
KeyMap of the sub-phrase, `us` the numeric words of the payload (the current word is the
first of them) and `x` the first word that is not numeric (or the end of the input).
When the number m of numeric words is a positive multiple of `naxes`, the status stays
good, `nvert` is m / naxes, and the array `vertices` has m entries with
`vertices[ a*nvert + v ]` equal to the value of word `v*naxes + a` for every axis `a`
and vertex `v`.  When m is positive and not a multiple of `naxes` the status becomes
AST__BADIN.  When m is 0 the loop reports AST__BADIN, but the statement
`prop[ nc - 1 ] = 0` that follows is then executed with `nc` equal to 0, so the state
ends in a fault; the document `Polygon ICRS TOPOCENTER SPHER2 abc`, where the buffer is
still NULL, is such a run. -/
theorem polygon_vertices (env : Env) (s : State) (w : String) (us : List String)
    (x : Option String) (sel : PropsSel) (hok : s.status = .ok) (hsel : s.props = some sel)
    (hax : 0 < s.naxes)
    (hstream : s.word :: wordsAhead us.length s.source s.con = us.map some ++ [x])
    (hnum : ∀ u ∈ us, env.chr2Double u ≠ none) (hx : x.bind env.chr2Double = none) :
    (0 < us.length → s.naxes ∣ us.length →
      (stepPolygon env s w).status = .ok
      ∧ (stepPolygon env s w).nvert = us.length / s.naxes
      ∧ (stepPolygon env s w).vertices.length = us.length
      ∧ (us.filterMap env.chr2Double).length = us.length
      ∧ ∀ a v, a < s.naxes → v < us.length / s.naxes →
          (stepPolygon env s w).vertices[a * (us.length / s.naxes) + v]?
            = (us.filterMap env.chr2Double)[v * s.naxes + a]?)
    ∧ (0 < us.length → ¬ s.naxes ∣ us.length → (stepPolygon env s w).status = .badin)
    ∧ (us = [] →
        (axisLoop env s.naxes { s with nc := 0 }).1.status = .badin
        ∧ (stepPolygon env s w).status = .fault)
    ∧ (Read sampleEnv {} 100 ["Polygon ICRS TOPOCENTER SPHER2 abc"]).map (fun r => r.status)
        = some .fault := by
  have S := stepPolygon_of env s w hax _ _ _ rfl rfl rfl
  have C := polygon_core env s us x sel hok hsel hax hstream hnum hx _ _ _ rfl rfl rfl
  have hvl : (us.filterMap env.chr2Double).length = us.length :=
    filterMap_length_of_ne_none _ _ hnum
  refine ⟨fun hpos hd => ?_, fun hpos hnd => S.1.trans (C.2.1 hpos hnd),
    fun hus => ⟨(C.2.2 hus).1, S.1.trans (C.2.2 hus).2⟩, by decide!⟩
  obtain ⟨c1, c2, c3⟩ := C.1 hpos hd
  have hmul : s.naxes * (us.length / s.naxes) = us.length := Nat.mul_div_cancel' hd
  have hV : (stepPolygon env s w).vertices
      = transposeVertices s.naxes (us.length / s.naxes) (us.filterMap env.chr2Double) := by
    rw [S.2.2, if_pos c1, c2, c3]
  refine ⟨S.1.trans c1, S.2.1.trans c2, ?_, hvl, fun a v ha hv => ?_⟩
  · rw [hV, transposeVertices_length, hmul]
  · rw [hV]
    exact transposeVertices_get _ _ _ a v ha hv (hvl.trans hmul.symm)

theorem polygon_vertices_witness :
    (stepPolygon sampleEnv polygonSample "1").status = .ok
    ∧ (stepPolygon sampleEnv polygonSample "1").nvert
        = ["1", "2", "3", "4", "5", "6"].length / polygonSample.naxes
    ∧ (stepPolygon sampleEnv polygonSample "1").vertices.length
        = ["1", "2", "3", "4", "5", "6"].length :=
  have h := (polygon_vertices sampleEnv polygonSample "1" ["1", "2", "3", "4", "5", "6"]
    (some "Position") .space (by decide) (by decide) (by decide) (by decide) (by decide)
    (by decide)).1 (by decide) (by decide)
  ⟨h.1, h.2.1, h.2.2.1⟩

set_option linter.unreachableTactic false
set_option linter.unusedTactic false

theorem rank_le (s : State) : rank s ≤ 94 := by
  unfold rank phaseBase
  cases s.look_for <;> simp only [] <;> (try split_ifs) <;> (try omega)

theorem rank_phase (s : State) : rank s = s.phase.rank := by
  unfold rank Phase.rank phaseBase Phase.base State.phase
  simp only []
  try (generalize s.look_for = l; cases l <;> rfl)

theorem progress_ALLSKY (ti sp ve sc rd : Nat) (w : String)
    (hc : (Phase.mk .ALLSKY ti sp ve sc rd false).Consistent) :
    ((Phase.mk .ALLSKY ti sp ve sc rd false).next w).Consistent
    ∧ (((Phase.mk .ALLSKY ti sp ve sc rd false).next w).broke = true
      ∨ (Phase.mk .ALLSKY ti sp ve sc rd false).rank
          < ((Phase.mk .ALLSKY ti sp ve sc rd false).next w).rank
      ∨ (LookFor.ALLSKY = .CONVEX
          ∧ ((Phase.mk .ALLSKY ti sp ve sc rd false).next w).look_for = .CONVEX)
      ∨ (LookFor.ALLSKY = .REDSHIFT_IDENTIFIER
          ∧ ((Phase.mk .ALLSKY ti sp ve sc rd false).next w).look_for = .REDSHIFT_IDENTIFIER
          ∧ w ≠ "RedshiftInterval" ∧ w ≠ "Redshift")) := by
  by_cases k0 : ti = NULL_ID <;> by_cases k1 : sp = NULL_ID <;> by_cases k2 : ve = NULL_ID <;> by_cases k3 : sc = NULL_ID <;>
    simp only [Phase.Consistent, Phase.next, Phase.rank, Phase.base, k0, k1, k2, k3, ne_eq, not_true_eq_false, not_false_eq_true, if_true, if_false] at hc ⊢ <;>
    (try split_ifs) <;>
    (try simp_all [Phase.rank, Phase.base, NULL_ID, TIME_INTERVAL_ID, START_TIME_ID, STOP_TIME_ID, POSITION_INTERVAL_ID, ALL_SKY_ID, CIRCLE_ID, ELLIPSE_ID, BOX_ID, POLYGON_ID, CONVEX_ID, POSITION_ID, SPECTRAL_INTERVAL_ID, SPECTRAL_ID, REDSHIFT_INTERVAL_ID, REDSHIFT_ID, VELOCITY_INTERVAL_ID]) <;>
    (try omega)

theorem progress_BOX (ti sp ve sc rd : Nat) (w : String)
    (hc : (Phase.mk .BOX ti sp ve sc rd false).Consistent) :
    ((Phase.mk .BOX ti sp ve sc rd false).next w).Consistent
    ∧ (((Phase.mk .BOX ti sp ve sc rd false).next w).broke = true
      ∨ (Phase.mk .BOX ti sp ve sc rd false).rank
          < ((Phase.mk .BOX ti sp ve sc rd false).next w).rank
      ∨ (LookFor.BOX = .CONVEX
          ∧ ((Phase.mk .BOX ti sp ve sc rd false).next w).look_for = .CONVEX)
      ∨ (LookFor.BOX = .REDSHIFT_IDENTIFIER
          ∧ ((Phase.mk .BOX ti sp ve sc rd false).next w).look_for = .REDSHIFT_IDENTIFIER
          ∧ w ≠ "RedshiftInterval" ∧ w ≠ "Redshift")) := by
  by_cases k0 : ti = NULL_ID <;> by_cases k1 : sp = NULL_ID <;> by_cases k2 : ve = NULL_ID <;> by_cases k3 : sc = NULL_ID <;>
    simp only [Phase.Consistent, Phase.next, Phase.rank, Phase.base, k0, k1, k2, k3, ne_eq, not_true_eq_false, not_false_eq_true, if_true, if_false] at hc ⊢ <;>
    (try split_ifs) <;>
    (try simp_all [Phase.rank, Phase.base, NULL_ID, TIME_INTERVAL_ID, START_TIME_ID, STOP_TIME_ID, POSITION_INTERVAL_ID, ALL_SKY_ID, CIRCLE_ID, ELLIPSE_ID, BOX_ID, POLYGON_ID, CONVEX_ID, POSITION_ID, SPECTRAL_INTERVAL_ID, SPECTRAL_ID, REDSHIFT_INTERVAL_ID, REDSHIFT_ID, VELOCITY_INTERVAL_ID]) <;>
    (try omega)

theorem progress_CIRCLE (ti sp ve sc rd : Nat) (w : String)
    (hc : (Phase.mk .CIRCLE ti sp ve sc rd false).Consistent) :
    ((Phase.mk .CIRCLE ti sp ve sc rd false).next w).Consistent
    ∧ (((Phase.mk .CIRCLE ti sp ve sc rd false).next w).broke = true
      ∨ (Phase.mk .CIRCLE ti sp ve sc rd false).rank
          < ((Phase.mk .CIRCLE ti sp ve sc rd false).next w).rank
      ∨ (LookFor.CIRCLE = .CONVEX
          ∧ ((Phase.mk .CIRCLE ti sp ve sc rd false).next w).look_for = .CONVEX)
      ∨ (LookFor.CIRCLE = .REDSHIFT_IDENTIFIER
          ∧ ((Phase.mk .CIRCLE ti sp ve sc rd false).next w).look_for = .REDSHIFT_IDENTIFIER
          ∧ w ≠ "RedshiftInterval" ∧ w ≠ "Redshift")) := by
  by_cases k0 : ti = NULL_ID <;> by_cases k1 : sp = NULL_ID <;> by_cases k2 : ve = NULL_ID <;> by_cases k3 : sc = NULL_ID <;>
    simp only [Phase.Consistent, Phase.next, Phase.rank, Phase.base, k0, k1, k2, k3, ne_eq, not_true_eq_false, not_false_eq_true, if_true, if_false] at hc ⊢ <;>
    (try split_ifs) <;>
    (try simp_all [Phase.rank, Phase.base, NULL_ID, TIME_INTERVAL_ID, START_TIME_ID, STOP_TIME_ID, POSITION_INTERVAL_ID, ALL_SKY_ID, CIRCLE_ID, ELLIPSE_ID, BOX_ID, POLYGON_ID, CONVEX_ID, POSITION_ID, SPECTRAL_INTERVAL_ID, SPECTRAL_ID, REDSHIFT_INTERVAL_ID, REDSHIFT_ID, VELOCITY_INTERVAL_ID]) <;>
    (try omega)

theorem progress_CONVEX (ti sp ve sc rd : Nat) (w : String)
    (hc : (Phase.mk .CONVEX ti sp ve sc rd false).Consistent) :
    ((Phase.mk .CONVEX ti sp ve sc rd false).next w).Consistent
    ∧ (((Phase.mk .CONVEX ti sp ve sc rd false).next w).broke = true
      ∨ (Phase.mk .CONVEX ti sp ve sc rd false).rank
          < ((Phase.mk .CONVEX ti sp ve sc rd false).next w).rank
      ∨ (LookFor.CONVEX = .CONVEX
          ∧ ((Phase.mk .CONVEX ti sp ve sc rd false).next w).look_for = .CONVEX)
      ∨ (LookFor.CONVEX = .REDSHIFT_IDENTIFIER
          ∧ ((Phase.mk .CONVEX ti sp ve sc rd false).next w).look_for = .REDSHIFT_IDENTIFIER
          ∧ w ≠ "RedshiftInterval" ∧ w ≠ "Redshift")) := by
  by_cases k0 : ti = NULL_ID <;> by_cases k1 : sp = NULL_ID <;> by_cases k2 : ve = NULL_ID <;> by_cases k3 : sc = NULL_ID <;>
    simp only [Phase.Consistent, Phase.next, Phase.rank, Phase.base, k0, k1, k2, k3, ne_eq, not_true_eq_false, not_false_eq_true, if_true, if_false] at hc ⊢ <;>
    (try split_ifs) <;>
    (try simp_all [Phase.rank, Phase.base, NULL_ID, TIME_INTERVAL_ID, START_TIME_ID, STOP_TIME_ID, POSITION_INTERVAL_ID, ALL_SKY_ID, CIRCLE_ID, ELLIPSE_ID, BOX_ID, POLYGON_ID, CONVEX_ID, POSITION_ID, SPECTRAL_INTERVAL_ID, SPECTRAL_ID, REDSHIFT_INTERVAL_ID, REDSHIFT_ID, VELOCITY_INTERVAL_ID]) <;>
    (try omega)

theorem progress_ELLIPSE (ti sp ve sc rd : Nat) (w : String)
    (hc : (Phase.mk .ELLIPSE ti sp ve sc rd false).Consistent) :
    ((Phase.mk .ELLIPSE ti sp ve sc rd false).next w).Consistent
    ∧ (((Phase.mk .ELLIPSE ti sp ve sc rd false).next w).broke = true
      ∨ (Phase.mk .ELLIPSE ti sp ve sc rd false).rank
          < ((Phase.mk .ELLIPSE ti sp ve sc rd false).next w).rank
      ∨ (LookFor.ELLIPSE = .CONVEX
          ∧ ((Phase.mk .ELLIPSE ti sp ve sc rd false).next w).look_for = .CONVEX)
      ∨ (LookFor.ELLIPSE = .REDSHIFT_IDENTIFIER
          ∧ ((Phase.mk .ELLIPSE ti sp ve sc rd false).next w).look_for = .REDSHIFT_IDENTIFIER
          ∧ w ≠ "RedshiftInterval" ∧ w ≠ "Redshift")) := by
  by_cases k0 : ti = NULL_ID <;> by_cases k1 : sp = NULL_ID <;> by_cases k2 : ve = NULL_ID <;> by_cases k3 : sc = NULL_ID <;>
    simp only [Phase.Consistent, Phase.next, Phase.rank, Phase.base, k0, k1, k2, k3, ne_eq, not_true_eq_false, not_false_eq_true, if_true, if_false] at hc ⊢ <;>
    (try split_ifs) <;>
    (try simp_all [Phase.rank, Phase.base, NULL_ID, TIME_INTERVAL_ID, START_TIME_ID, STOP_TIME_ID, POSITION_INTERVAL_ID, ALL_SKY_ID, CIRCLE_ID, ELLIPSE_ID, BOX_ID, POLYGON_ID, CONVEX_ID, POSITION_ID, SPECTRAL_INTERVAL_ID, SPECTRAL_ID, REDSHIFT_INTERVAL_ID, REDSHIFT_ID, VELOCITY_INTERVAL_ID]) <;>
    (try omega)

theorem progress_ERROR (ti sp ve sc rd : Nat) (w : String)
    (hc : (Phase.mk .ERROR ti sp ve sc rd false).Consistent) :
    ((Phase.mk .ERROR ti sp ve sc rd false).next w).Consistent
    ∧ (((Phase.mk .ERROR ti sp ve sc rd false).next w).broke = true
      ∨ (Phase.mk .ERROR ti sp ve sc rd false).rank
          < ((Phase.mk .ERROR ti sp ve sc rd false).next w).rank
      ∨ (LookFor.ERROR = .CONVEX
          ∧ ((Phase.mk .ERROR ti sp ve sc rd false).next w).look_for = .CONVEX)
      ∨ (LookFor.ERROR = .REDSHIFT_IDENTIFIER
          ∧ ((Phase.mk .ERROR ti sp ve sc rd false).next w).look_for = .REDSHIFT_IDENTIFIER
          ∧ w ≠ "RedshiftInterval" ∧ w ≠ "Redshift")) := by
  by_cases k0 : ti = NULL_ID <;> by_cases k1 : sp = NULL_ID <;> by_cases k2 : ve = NULL_ID <;> by_cases k3 : sc = NULL_ID <;>
    simp only [Phase.Consistent, Phase.next, Phase.rank, Phase.base, k0, k1, k2, k3, ne_eq, not_true_eq_false, not_false_eq_true, if_true, if_false] at hc ⊢ <;>
    (try split_ifs) <;>
    (try simp_all [Phase.rank, Phase.base, NULL_ID, TIME_INTERVAL_ID, START_TIME_ID, STOP_TIME_ID, POSITION_INTERVAL_ID, ALL_SKY_ID, CIRCLE_ID, ELLIPSE_ID, BOX_ID, POLYGON_ID, CONVEX_ID, POSITION_ID, SPECTRAL_INTERVAL_ID, SPECTRAL_ID, REDSHIFT_INTERVAL_ID, REDSHIFT_ID, VELOCITY_INTERVAL_ID]) <;>
    (try omega)

theorem progress_FILL_FACTOR (ti sp ve sc rd : Nat) (w : String)
    (hc : (Phase.mk .FILL_FACTOR ti sp ve sc rd false).Consistent) :
    ((Phase.mk .FILL_FACTOR ti sp ve sc rd false).next w).Consistent
    ∧ (((Phase.mk .FILL_FACTOR ti sp ve sc rd false).next w).broke = true
      ∨ (Phase.mk .FILL_FACTOR ti sp ve sc rd false).rank
          < ((Phase.mk .FILL_FACTOR ti sp ve sc rd false).next w).rank
      ∨ (LookFor.FILL_FACTOR = .CONVEX
          ∧ ((Phase.mk .FILL_FACTOR ti sp ve sc rd false).next w).look_for = .CONVEX)
      ∨ (LookFor.FILL_FACTOR = .REDSHIFT_IDENTIFIER
          ∧ ((Phase.mk .FILL_FACTOR ti sp ve sc rd false).next w).look_for = .REDSHIFT_IDENTIFIER
          ∧ w ≠ "RedshiftInterval" ∧ w ≠ "Redshift")) := by
  by_cases k0 : ti = NULL_ID <;> by_cases k1 : sp = NULL_ID <;> by_cases k2 : ve = NULL_ID <;> by_cases k3 : sc = NULL_ID <;>
    simp only [Phase.Consistent, Phase.next, Phase.rank, Phase.base, k0, k1, k2, k3, ne_eq, not_true_eq_false, not_false_eq_true, if_true, if_false] at hc ⊢ <;>
    (try split_ifs) <;>
    (try simp_all [Phase.rank, Phase.base, NULL_ID, TIME_INTERVAL_ID, START_TIME_ID, STOP_TIME_ID, POSITION_INTERVAL_ID, ALL_SKY_ID, CIRCLE_ID, ELLIPSE_ID, BOX_ID, POLYGON_ID, CONVEX_ID, POSITION_ID, SPECTRAL_INTERVAL_ID, SPECTRAL_ID, REDSHIFT_INTERVAL_ID, REDSHIFT_ID, VELOCITY_INTERVAL_ID]) <;>
    (try omega)

theorem progress_FLAVOUR (ti sp ve sc rd : Nat) (w : String)
    (hc : (Phase.mk .FLAVOUR ti sp ve sc rd false).Consistent) :
    ((Phase.mk .FLAVOUR ti sp ve sc rd false).next w).Consistent
    ∧ (((Phase.mk .FLAVOUR ti sp ve sc rd false).next w).broke = true
      ∨ (Phase.mk .FLAVOUR ti sp ve sc rd false).rank
          < ((Phase.mk .FLAVOUR ti sp ve sc rd false).next w).rank
      ∨ (LookFor.FLAVOUR = .CONVEX
          ∧ ((Phase.mk .FLAVOUR ti sp ve sc rd false).next w).look_for = .CONVEX)
      ∨ (LookFor.FLAVOUR = .REDSHIFT_IDENTIFIER
          ∧ ((Phase.mk .FLAVOUR ti sp ve sc rd false).next w).look_for = .REDSHIFT_IDENTIFIER
          ∧ w ≠ "RedshiftInterval" ∧ w ≠ "Redshift")) := by
  have h1 := hc.1
  simp only [Phase.Consistent, Phase.next, Phase.rank, Phase.base] at h1 ⊢
  generalize (if ti ≠ NULL_ID then 0 else if sp ≠ NULL_ID then 20 else if ve ≠ NULL_ID then 40
    else if sc ≠ NULL_ID then 60 else 80) = b
  split_ifs <;> simp <;> exact h1

theorem progress_FRAME (ti sp ve sc rd : Nat) (w : String)
    (hc : (Phase.mk .FRAME ti sp ve sc rd false).Consistent) :
    ((Phase.mk .FRAME ti sp ve sc rd false).next w).Consistent
    ∧ (((Phase.mk .FRAME ti sp ve sc rd false).next w).broke = true
      ∨ (Phase.mk .FRAME ti sp ve sc rd false).rank
          < ((Phase.mk .FRAME ti sp ve sc rd false).next w).rank
      ∨ (LookFor.FRAME = .CONVEX
          ∧ ((Phase.mk .FRAME ti sp ve sc rd false).next w).look_for = .CONVEX)
      ∨ (LookFor.FRAME = .REDSHIFT_IDENTIFIER
          ∧ ((Phase.mk .FRAME ti sp ve sc rd false).next w).look_for = .REDSHIFT_IDENTIFIER
          ∧ w ≠ "RedshiftInterval" ∧ w ≠ "Redshift")) := by
  by_cases k0 : ti = NULL_ID <;> by_cases k1 : sp = NULL_ID <;> by_cases k2 : ve = NULL_ID <;> by_cases k3 : sc = NULL_ID <;>
    simp only [Phase.Consistent, Phase.next, Phase.rank, Phase.base, k0, k1, k2, k3, ne_eq, not_true_eq_false, not_false_eq_true, if_true, if_false] at hc ⊢ <;>
    (try split_ifs) <;>
    (try simp_all [Phase.rank, Phase.base, NULL_ID, TIME_INTERVAL_ID, START_TIME_ID, STOP_TIME_ID, POSITION_INTERVAL_ID, ALL_SKY_ID, CIRCLE_ID, ELLIPSE_ID, BOX_ID, POLYGON_ID, CONVEX_ID, POSITION_ID, SPECTRAL_INTERVAL_ID, SPECTRAL_ID, REDSHIFT_INTERVAL_ID, REDSHIFT_ID, VELOCITY_INTERVAL_ID]) <;>
    (try omega)

theorem progress_LIMITS (ti sp ve sc rd : Nat) (w : String)
    (hc : (Phase.mk .LIMITS ti sp ve sc rd false).Consistent) :
    ((Phase.mk .LIMITS ti sp ve sc rd false).next w).Consistent
    ∧ (((Phase.mk .LIMITS ti sp ve sc rd false).next w).broke = true
      ∨ (Phase.mk .LIMITS ti sp ve sc rd false).rank
          < ((Phase.mk .LIMITS ti sp ve sc rd false).next w).rank
      ∨ (LookFor.LIMITS = .CONVEX
          ∧ ((Phase.mk .LIMITS ti sp ve sc rd false).next w).look_for = .CONVEX)
      ∨ (LookFor.LIMITS = .REDSHIFT_IDENTIFIER
          ∧ ((Phase.mk .LIMITS ti sp ve sc rd false).next w).look_for = .REDSHIFT_IDENTIFIER
          ∧ w ≠ "RedshiftInterval" ∧ w ≠ "Redshift")) := by
  by_cases k0 : ti = NULL_ID <;> by_cases k1 : sp = NULL_ID <;> by_cases k2 : ve = NULL_ID <;> by_cases k3 : sc = NULL_ID <;>
    simp only [Phase.Consistent, Phase.next, Phase.rank, Phase.base, k0, k1, k2, k3, ne_eq, not_true_eq_false, not_false_eq_true, if_true, if_false] at hc ⊢ <;>
    (try split_ifs) <;>
    (try simp_all [Phase.rank, Phase.base, NULL_ID, TIME_INTERVAL_ID, START_TIME_ID, STOP_TIME_ID, POSITION_INTERVAL_ID, ALL_SKY_ID, CIRCLE_ID, ELLIPSE_ID, BOX_ID, POLYGON_ID, CONVEX_ID, POSITION_ID, SPECTRAL_INTERVAL_ID, SPECTRAL_ID, REDSHIFT_INTERVAL_ID, REDSHIFT_ID, VELOCITY_INTERVAL_ID]) <;>
    (try omega)

theorem progress_PIX_SIZE (ti sp ve sc rd : Nat) (w : String)
    (hc : (Phase.mk .PIX_SIZE ti sp ve sc rd false).Consistent) :
    ((Phase.mk .PIX_SIZE ti sp ve sc rd false).next w).Consistent
    ∧ (((Phase.mk .PIX_SIZE ti sp ve sc rd false).next w).broke = true
      ∨ (Phase.mk .PIX_SIZE ti sp ve sc rd false).rank
          < ((Phase.mk .PIX_SIZE ti sp ve sc rd false).next w).rank
      ∨ (LookFor.PIX_SIZE = .CONVEX
          ∧ ((Phase.mk .PIX_SIZE ti sp ve sc rd false).next w).look_for = .CONVEX)
      ∨ (LookFor.PIX_SIZE = .REDSHIFT_IDENTIFIER
          ∧ ((Phase.mk .PIX_SIZE ti sp ve sc rd false).next w).look_for = .REDSHIFT_IDENTIFIER
          ∧ w ≠ "RedshiftInterval" ∧ w ≠ "Redshift")) := by
  by_cases k0 : ti = NULL_ID <;> by_cases k1 : sp = NULL_ID <;> by_cases k2 : ve = NULL_ID <;> by_cases k3 : sc = NULL_ID <;>
    simp only [Phase.Consistent, Phase.next, Phase.rank, Phase.base, k0, k1, k2, k3, ne_eq, not_true_eq_false, not_false_eq_true, if_true, if_false] at hc ⊢ <;>
    (try split_ifs) <;>
    (try simp_all [Phase.rank, Phase.base, NULL_ID, TIME_INTERVAL_ID, START_TIME_ID, STOP_TIME_ID, POSITION_INTERVAL_ID, ALL_SKY_ID, CIRCLE_ID, ELLIPSE_ID, BOX_ID, POLYGON_ID, CONVEX_ID, POSITION_ID, SPECTRAL_INTERVAL_ID, SPECTRAL_ID, REDSHIFT_INTERVAL_ID, REDSHIFT_ID, VELOCITY_INTERVAL_ID]) <;>
    (try omega)

theorem progress_POLYGON (ti sp ve sc rd : Nat) (w : String)
    (hc : (Phase.mk .POLYGON ti sp ve sc rd false).Consistent) :
    ((Phase.mk .POLYGON ti sp ve sc rd false).next w).Consistent
    ∧ (((Phase.mk .POLYGON ti sp ve sc rd false).next w).broke = true
      ∨ (Phase.mk .POLYGON ti sp ve sc rd false).rank
          < ((Phase.mk .POLYGON ti sp ve sc rd false).next w).rank
      ∨ (LookFor.POLYGON = .CONVEX
          ∧ ((Phase.mk .POLYGON ti sp ve sc rd false).next w).look_for = .CONVEX)
      ∨ (LookFor.POLYGON = .REDSHIFT_IDENTIFIER
          ∧ ((Phase.mk .POLYGON ti sp ve sc rd false).next w).look_for = .REDSHIFT_IDENTIFIER
          ∧ w ≠ "RedshiftInterval" ∧ w ≠ "Redshift")) := by
  by_cases k0 : ti = NULL_ID <;> by_cases k1 : sp = NULL_ID <;> by_cases k2 : ve = NULL_ID <;> by_cases k3 : sc = NULL_ID <;>
    simp only [Phase.Consistent, Phase.next, Phase.rank, Phase.base, k0, k1, k2, k3, ne_eq, not_true_eq_false, not_false_eq_true, if_true, if_false] at hc ⊢ <;>
    (try split_ifs) <;>
    (try simp_all [Phase.rank, Phase.base, NULL_ID, TIME_INTERVAL_ID, START_TIME_ID, STOP_TIME_ID, POSITION_INTERVAL_ID, ALL_SKY_ID, CIRCLE_ID, ELLIPSE_ID, BOX_ID, POLYGON_ID, CONVEX_ID, POSITION_ID, SPECTRAL_INTERVAL_ID, SPECTRAL_ID, REDSHIFT_INTERVAL_ID, REDSHIFT_ID, VELOCITY_INTERVAL_ID]) <;>
    (try omega)

theorem progress_POSITION (ti sp ve sc rd : Nat) (w : String)
    (hc : (Phase.mk .POSITION ti sp ve sc rd false).Consistent) :
    ((Phase.mk .POSITION ti sp ve sc rd false).next w).Consistent
    ∧ (((Phase.mk .POSITION ti sp ve sc rd false).next w).broke = true
      ∨ (Phase.mk .POSITION ti sp ve sc rd false).rank
          < ((Phase.mk .POSITION ti sp ve sc rd false).next w).rank
      ∨ (LookFor.POSITION = .CONVEX
          ∧ ((Phase.mk .POSITION ti sp ve sc rd false).next w).look_for = .CONVEX)
      ∨ (LookFor.POSITION = .REDSHIFT_IDENTIFIER
          ∧ ((Phase.mk .POSITION ti sp ve sc rd false).next w).look_for = .REDSHIFT_IDENTIFIER
          ∧ w ≠ "RedshiftInterval" ∧ w ≠ "Redshift")) := by
  by_cases k0 : ti = NULL_ID <;> by_cases k1 : sp = NULL_ID <;> by_cases k2 : ve = NULL_ID <;> by_cases k3 : sc = NULL_ID <;>
    simp only [Phase.Consistent, Phase.next, Phase.rank, Phase.base, k0, k1, k2, k3, ne_eq, not_true_eq_false, not_false_eq_true, if_true, if_false] at hc ⊢ <;>
    (try split_ifs) <;>
    (try simp_all [Phase.rank, Phase.base, NULL_ID, TIME_INTERVAL_ID, START_TIME_ID, STOP_TIME_ID, POSITION_INTERVAL_ID, ALL_SKY_ID, CIRCLE_ID, ELLIPSE_ID, BOX_ID, POLYGON_ID, CONVEX_ID, POSITION_ID, SPECTRAL_INTERVAL_ID, SPECTRAL_ID, REDSHIFT_INTERVAL_ID, REDSHIFT_ID, VELOCITY_INTERVAL_ID]) <;>
    (try omega)

theorem progress_POSITION_INTERVAL (ti sp ve sc rd : Nat) (w : String)
    (hc : (Phase.mk .POSITION_INTERVAL ti sp ve sc rd false).Consistent) :
    ((Phase.mk .POSITION_INTERVAL ti sp ve sc rd false).next w).Consistent
    ∧ (((Phase.mk .POSITION_INTERVAL ti sp ve sc rd false).next w).broke = true
      ∨ (Phase.mk .POSITION_INTERVAL ti sp ve sc rd false).rank
          < ((Phase.mk .POSITION_INTERVAL ti sp ve sc rd false).next w).rank
      ∨ (LookFor.POSITION_INTERVAL = .CONVEX
          ∧ ((Phase.mk .POSITION_INTERVAL ti sp ve sc rd false).next w).look_for = .CONVEX)
      ∨ (LookFor.POSITION_INTERVAL = .REDSHIFT_IDENTIFIER
          ∧ ((Phase.mk .POSITION_INTERVAL ti sp ve sc rd false).next w).look_for = .REDSHIFT_IDENTIFIER
          ∧ w ≠ "RedshiftInterval" ∧ w ≠ "Redshift")) := by
  by_cases k0 : ti = NULL_ID <;> by_cases k1 : sp = NULL_ID <;> by_cases k2 : ve = NULL_ID <;> by_cases k3 : sc = NULL_ID <;>
    simp only [Phase.Consistent, Phase.next, Phase.rank, Phase.base, k0, k1, k2, k3, ne_eq, not_true_eq_false, not_false_eq_true, if_true, if_false] at hc ⊢ <;>
    (try split_ifs) <;>
    (try simp_all [Phase.rank, Phase.base, NULL_ID, TIME_INTERVAL_ID, START_TIME_ID, STOP_TIME_ID, POSITION_INTERVAL_ID, ALL_SKY_ID, CIRCLE_ID, ELLIPSE_ID, BOX_ID, POLYGON_ID, CONVEX_ID, POSITION_ID, SPECTRAL_INTERVAL_ID, SPECTRAL_ID, REDSHIFT_INTERVAL_ID, REDSHIFT_ID, VELOCITY_INTERVAL_ID]) <;>
    (try omega)

theorem progress_POSITION_LABEL (ti sp ve sc rd : Nat) (w : String)
    (hc : (Phase.mk .POSITION_LABEL ti sp ve sc rd false).Consistent) :
    ((Phase.mk .POSITION_LABEL ti sp ve sc rd false).next w).Consistent
    ∧ (((Phase.mk .POSITION_LABEL ti sp ve sc rd false).next w).broke = true
      ∨ (Phase.mk .POSITION_LABEL ti sp ve sc rd false).rank
          < ((Phase.mk .POSITION_LABEL ti sp ve sc rd false).next w).rank
      ∨ (LookFor.POSITION_LABEL = .CONVEX
          ∧ ((Phase.mk .POSITION_LABEL ti sp ve sc rd false).next w).look_for = .CONVEX)
      ∨ (LookFor.POSITION_LABEL = .REDSHIFT_IDENTIFIER
          ∧ ((Phase.mk .POSITION_LABEL ti sp ve sc rd false).next w).look_for = .REDSHIFT_IDENTIFIER
          ∧ w ≠ "RedshiftInterval" ∧ w ≠ "Redshift")) := by
  by_cases k0 : ti = NULL_ID <;> by_cases k1 : sp = NULL_ID <;> by_cases k2 : ve = NULL_ID <;> by_cases k3 : sc = NULL_ID <;>
    simp only [Phase.Consistent, Phase.next, Phase.rank, Phase.base, k0, k1, k2, k3, ne_eq, not_true_eq_false, not_false_eq_true, if_true, if_false] at hc ⊢ <;>
    (try split_ifs) <;>
    (try simp_all [Phase.rank, Phase.base, NULL_ID, TIME_INTERVAL_ID, START_TIME_ID, STOP_TIME_ID, POSITION_INTERVAL_ID, ALL_SKY_ID, CIRCLE_ID, ELLIPSE_ID, BOX_ID, POLYGON_ID, CONVEX_ID, POSITION_ID, SPECTRAL_INTERVAL_ID, SPECTRAL_ID, REDSHIFT_INTERVAL_ID, REDSHIFT_ID, VELOCITY_INTERVAL_ID]) <;>
    (try omega)

theorem progress_REDSHIFT_IDENTIFIER (ti sp ve sc rd : Nat) (w : String)
    (hc : (Phase.mk .REDSHIFT_IDENTIFIER ti sp ve sc rd false).Consistent) :
    ((Phase.mk .REDSHIFT_IDENTIFIER ti sp ve sc rd false).next w).Consistent
    ∧ (((Phase.mk .REDSHIFT_IDENTIFIER ti sp ve sc rd false).next w).broke = true
      ∨ (Phase.mk .REDSHIFT_IDENTIFIER ti sp ve sc rd false).rank
          < ((Phase.mk .REDSHIFT_IDENTIFIER ti sp ve sc rd false).next w).rank
      ∨ (LookFor.REDSHIFT_IDENTIFIER = .CONVEX
          ∧ ((Phase.mk .REDSHIFT_IDENTIFIER ti sp ve sc rd false).next w).look_for = .CONVEX)
      ∨ (LookFor.REDSHIFT_IDENTIFIER = .REDSHIFT_IDENTIFIER
          ∧ ((Phase.mk .REDSHIFT_IDENTIFIER ti sp ve sc rd false).next w).look_for = .REDSHIFT_IDENTIFIER
          ∧ w ≠ "RedshiftInterval" ∧ w ≠ "Redshift")) := by
  obtain ⟨hti, hsp, hve⟩ := hc.2.2.2.2.2.1 rfl
  simp only at hti hsp hve
  subst hti hsp hve
  simp only [Phase.next]
  split_ifs <;>
    simp_all [Phase.Consistent, Phase.rank, Phase.base, NULL_ID, TIME_INTERVAL_ID, START_TIME_ID, STOP_TIME_ID, POSITION_INTERVAL_ID, ALL_SKY_ID, CIRCLE_ID, ELLIPSE_ID, BOX_ID, POLYGON_ID, CONVEX_ID, POSITION_ID, SPECTRAL_INTERVAL_ID, SPECTRAL_ID, REDSHIFT_INTERVAL_ID, REDSHIFT_ID, VELOCITY_INTERVAL_ID]

theorem progress_RED_SPEC_LABEL (ti sp ve sc rd : Nat) (w : String)
    (hc : (Phase.mk .RED_SPEC_LABEL ti sp ve sc rd false).Consistent) :
    ((Phase.mk .RED_SPEC_LABEL ti sp ve sc rd false).next w).Consistent
    ∧ (((Phase.mk .RED_SPEC_LABEL ti sp ve sc rd false).next w).broke = true
      ∨ (Phase.mk .RED_SPEC_LABEL ti sp ve sc rd false).rank
          < ((Phase.mk .RED_SPEC_LABEL ti sp ve sc rd false).next w).rank
      ∨ (LookFor.RED_SPEC_LABEL = .CONVEX
          ∧ ((Phase.mk .RED_SPEC_LABEL ti sp ve sc rd false).next w).look_for = .CONVEX)
      ∨ (LookFor.RED_SPEC_LABEL = .REDSHIFT_IDENTIFIER
          ∧ ((Phase.mk .RED_SPEC_LABEL ti sp ve sc rd false).next w).look_for = .REDSHIFT_IDENTIFIER
          ∧ w ≠ "RedshiftInterval" ∧ w ≠ "Redshift")) := by
  by_cases k0 : ti = NULL_ID <;> by_cases k1 : sp = NULL_ID <;> by_cases k2 : ve = NULL_ID <;> by_cases k3 : sc = NULL_ID <;>
    simp only [Phase.Consistent, Phase.next, Phase.rank, Phase.base, k0, k1, k2, k3, ne_eq, not_true_eq_false, not_false_eq_true, if_true, if_false] at hc ⊢ <;>
    (try split_ifs) <;>
    (try simp_all [Phase.rank, Phase.base, NULL_ID, TIME_INTERVAL_ID, START_TIME_ID, STOP_TIME_ID, POSITION_INTERVAL_ID, ALL_SKY_ID, CIRCLE_ID, ELLIPSE_ID, BOX_ID, POLYGON_ID, CONVEX_ID, POSITION_ID, SPECTRAL_INTERVAL_ID, SPECTRAL_ID, REDSHIFT_INTERVAL_ID, REDSHIFT_ID, VELOCITY_INTERVAL_ID]) <;>
    (try omega)

theorem progress_RED_SPEC_VALUE (ti sp ve sc rd : Nat) (w : String)
    (hc : (Phase.mk .RED_SPEC_VALUE ti sp ve sc rd false).Consistent) :
    ((Phase.mk .RED_SPEC_VALUE ti sp ve sc rd false).next w).Consistent
    ∧ (((Phase.mk .RED_SPEC_VALUE ti sp ve sc rd false).next w).broke = true
      ∨ (Phase.mk .RED_SPEC_VALUE ti sp ve sc rd false).rank
          < ((Phase.mk .RED_SPEC_VALUE ti sp ve sc rd false).next w).rank
      ∨ (LookFor.RED_SPEC_VALUE = .CONVEX
          ∧ ((Phase.mk .RED_SPEC_VALUE ti sp ve sc rd false).next w).look_for = .CONVEX)
      ∨ (LookFor.RED_SPEC_VALUE = .REDSHIFT_IDENTIFIER
          ∧ ((Phase.mk .RED_SPEC_VALUE ti sp ve sc rd false).next w).look_for = .REDSHIFT_IDENTIFIER
          ∧ w ≠ "RedshiftInterval" ∧ w ≠ "Redshift")) := by
  by_cases k0 : ti = NULL_ID <;> by_cases k1 : sp = NULL_ID <;> by_cases k2 : ve = NULL_ID <;> by_cases k3 : sc = NULL_ID <;>
    simp only [Phase.Consistent, Phase.next, Phase.rank, Phase.base, k0, k1, k2, k3, ne_eq, not_true_eq_false, not_false_eq_true, if_true, if_false] at hc ⊢ <;>
    (try split_ifs) <;>
    (try simp_all [Phase.rank, Phase.base, NULL_ID, TIME_INTERVAL_ID, START_TIME_ID, STOP_TIME_ID, POSITION_INTERVAL_ID, ALL_SKY_ID, CIRCLE_ID, ELLIPSE_ID, BOX_ID, POLYGON_ID, CONVEX_ID, POSITION_ID, SPECTRAL_INTERVAL_ID, SPECTRAL_ID, REDSHIFT_INTERVAL_ID, REDSHIFT_ID, VELOCITY_INTERVAL_ID]) <;>
    (try omega)

theorem progress_REFPOS (ti sp ve sc rd : Nat) (w : String)
    (hc : (Phase.mk .REFPOS ti sp ve sc rd false).Consistent) :
    ((Phase.mk .REFPOS ti sp ve sc rd false).next w).Consistent
    ∧ (((Phase.mk .REFPOS ti sp ve sc rd false).next w).broke = true
      ∨ (Phase.mk .REFPOS ti sp ve sc rd false).rank
          < ((Phase.mk .REFPOS ti sp ve sc rd false).next w).rank
      ∨ (LookFor.REFPOS = .CONVEX
          ∧ ((Phase.mk .REFPOS ti sp ve sc rd false).next w).look_for = .CONVEX)
      ∨ (LookFor.REFPOS = .REDSHIFT_IDENTIFIER
          ∧ ((Phase.mk .REFPOS ti sp ve sc rd false).next w).look_for = .REDSHIFT_IDENTIFIER
          ∧ w ≠ "RedshiftInterval" ∧ w ≠ "Redshift")) := by
  by_cases k0 : ti = NULL_ID <;> by_cases k1 : sp = NULL_ID <;> by_cases k2 : ve = NULL_ID <;> by_cases k3 : sc = NULL_ID <;>
    simp only [Phase.Consistent, Phase.next, Phase.rank, Phase.base, k0, k1, k2, k3, ne_eq, not_true_eq_false, not_false_eq_true, if_true, if_false] at hc ⊢ <;>
    (try split_ifs) <;>
    (try simp_all [Phase.rank, Phase.base, NULL_ID, TIME_INTERVAL_ID, START_TIME_ID, STOP_TIME_ID, POSITION_INTERVAL_ID, ALL_SKY_ID, CIRCLE_ID, ELLIPSE_ID, BOX_ID, POLYGON_ID, CONVEX_ID, POSITION_ID, SPECTRAL_INTERVAL_ID, SPECTRAL_ID, REDSHIFT_INTERVAL_ID, REDSHIFT_ID, VELOCITY_INTERVAL_ID]) <;>
    (try omega)

theorem progress_RESOLUTION (ti sp ve sc rd : Nat) (w : String)
    (hc : (Phase.mk .RESOLUTION ti sp ve sc rd false).Consistent) :
    ((Phase.mk .RESOLUTION ti sp ve sc rd false).next w).Consistent
    ∧ (((Phase.mk .RESOLUTION ti sp ve sc rd false).next w).broke = true
      ∨ (Phase.mk .RESOLUTION ti sp ve sc rd false).rank
          < ((Phase.mk .RESOLUTION ti sp ve sc rd false).next w).rank
      ∨ (LookFor.RESOLUTION = .CONVEX
          ∧ ((Phase.mk .RESOLUTION ti sp ve sc rd false).next w).look_for = .CONVEX)
      ∨ (LookFor.RESOLUTION = .REDSHIFT_IDENTIFIER
          ∧ ((Phase.mk .RESOLUTION ti sp ve sc rd false).next w).look_for = .REDSHIFT_IDENTIFIER
          ∧ w ≠ "RedshiftInterval" ∧ w ≠ "Redshift")) := by
  by_cases k0 : ti = NULL_ID <;> by_cases k1 : sp = NULL_ID <;> by_cases k2 : ve = NULL_ID <;> by_cases k3 : sc = NULL_ID <;>
    simp only [Phase.Consistent, Phase.next, Phase.rank, Phase.base, k0, k1, k2, k3, ne_eq, not_true_eq_false, not_false_eq_true, if_true, if_false] at hc ⊢ <;>
    (try split_ifs) <;>
    (try simp_all [Phase.rank, Phase.base, NULL_ID, TIME_INTERVAL_ID, START_TIME_ID, STOP_TIME_ID, POSITION_INTERVAL_ID, ALL_SKY_ID, CIRCLE_ID, ELLIPSE_ID, BOX_ID, POLYGON_ID, CONVEX_ID, POSITION_ID, SPECTRAL_INTERVAL_ID, SPECTRAL_ID, REDSHIFT_INTERVAL_ID, REDSHIFT_ID, VELOCITY_INTERVAL_ID]) <;>
    (try omega)

theorem progress_SIZE (ti sp ve sc rd : Nat) (w : String)
    (hc : (Phase.mk .SIZE ti sp ve sc rd false).Consistent) :
    ((Phase.mk .SIZE ti sp ve sc rd false).next w).Consistent
    ∧ (((Phase.mk .SIZE ti sp ve sc rd false).next w).broke = true
      ∨ (Phase.mk .SIZE ti sp ve sc rd false).rank
          < ((Phase.mk .SIZE ti sp ve sc rd false).next w).rank
      ∨ (LookFor.SIZE = .CONVEX
          ∧ ((Phase.mk .SIZE ti sp ve sc rd false).next w).look_for = .CONVEX)
      ∨ (LookFor.SIZE = .REDSHIFT_IDENTIFIER
          ∧ ((Phase.mk .SIZE ti sp ve sc rd false).next w).look_for = .REDSHIFT_IDENTIFIER
          ∧ w ≠ "RedshiftInterval" ∧ w ≠ "Redshift")) := by
  by_cases k0 : ti = NULL_ID <;> by_cases k1 : sp = NULL_ID <;> by_cases k2 : ve = NULL_ID <;> by_cases k3 : sc = NULL_ID <;>
    simp only [Phase.Consistent, Phase.next, Phase.rank, Phase.base, k0, k1, k2, k3, ne_eq, not_true_eq_false, not_false_eq_true, if_true, if_false] at hc ⊢ <;>
    (try split_ifs) <;>
    (try simp_all [Phase.rank, Phase.base, NULL_ID, TIME_INTERVAL_ID, START_TIME_ID, STOP_TIME_ID, POSITION_INTERVAL_ID, ALL_SKY_ID, CIRCLE_ID, ELLIPSE_ID, BOX_ID, POLYGON_ID, CONVEX_ID, POSITION_ID, SPECTRAL_INTERVAL_ID, SPECTRAL_ID, REDSHIFT_INTERVAL_ID, REDSHIFT_ID, VELOCITY_INTERVAL_ID]) <;>
    (try omega)

theorem progress_SPACE_IDENTIFIER (ti sp ve sc rd : Nat) (w : String)
    (hc : (Phase.mk .SPACE_IDENTIFIER ti sp ve sc rd false).Consistent) :
    ((Phase.mk .SPACE_IDENTIFIER ti sp ve sc rd false).next w).Consistent
    ∧ (((Phase.mk .SPACE_IDENTIFIER ti sp ve sc rd false).next w).broke = true
      ∨ (Phase.mk .SPACE_IDENTIFIER ti sp ve sc rd false).rank
          < ((Phase.mk .SPACE_IDENTIFIER ti sp ve sc rd false).next w).rank
      ∨ (LookFor.SPACE_IDENTIFIER = .CONVEX
          ∧ ((Phase.mk .SPACE_IDENTIFIER ti sp ve sc rd false).next w).look_for = .CONVEX)
      ∨ (LookFor.SPACE_IDENTIFIER = .REDSHIFT_IDENTIFIER
          ∧ ((Phase.mk .SPACE_IDENTIFIER ti sp ve sc rd false).next w).look_for = .REDSHIFT_IDENTIFIER
          ∧ w ≠ "RedshiftInterval" ∧ w ≠ "Redshift")) := by
  have hsp : sp = NULL_ID := hc.2.2.1 rfl
  subst hsp
  simp only [Phase.next]
  split_ifs <;>
    simp [Phase.Consistent, Phase.rank, Phase.base, NULL_ID, TIME_INTERVAL_ID, START_TIME_ID, STOP_TIME_ID, POSITION_INTERVAL_ID, ALL_SKY_ID, CIRCLE_ID, ELLIPSE_ID, BOX_ID, POLYGON_ID, CONVEX_ID, POSITION_ID, SPECTRAL_INTERVAL_ID, SPECTRAL_ID, REDSHIFT_INTERVAL_ID, REDSHIFT_ID, VELOCITY_INTERVAL_ID]

theorem progress_SPECTRAL_IDENTIFIER (ti sp ve sc rd : Nat) (w : String)
    (hc : (Phase.mk .SPECTRAL_IDENTIFIER ti sp ve sc rd false).Consistent) :
    ((Phase.mk .SPECTRAL_IDENTIFIER ti sp ve sc rd false).next w).Consistent
    ∧ (((Phase.mk .SPECTRAL_IDENTIFIER ti sp ve sc rd false).next w).broke = true
      ∨ (Phase.mk .SPECTRAL_IDENTIFIER ti sp ve sc rd false).rank
          < ((Phase.mk .SPECTRAL_IDENTIFIER ti sp ve sc rd false).next w).rank
      ∨ (LookFor.SPECTRAL_IDENTIFIER = .CONVEX
          ∧ ((Phase.mk .SPECTRAL_IDENTIFIER ti sp ve sc rd false).next w).look_for = .CONVEX)
      ∨ (LookFor.SPECTRAL_IDENTIFIER = .REDSHIFT_IDENTIFIER
          ∧ ((Phase.mk .SPECTRAL_IDENTIFIER ti sp ve sc rd false).next w).look_for = .REDSHIFT_IDENTIFIER
          ∧ w ≠ "RedshiftInterval" ∧ w ≠ "Redshift")) := by
  obtain ⟨hti, hsp⟩ := hc.2.2.2.2.1 rfl
  simp only at hti hsp
  subst hti hsp
  simp only [Phase.next]
  split_ifs <;>
    simp [Phase.Consistent, Phase.rank, Phase.base, NULL_ID, TIME_INTERVAL_ID, START_TIME_ID, STOP_TIME_ID, POSITION_INTERVAL_ID, ALL_SKY_ID, CIRCLE_ID, ELLIPSE_ID, BOX_ID, POLYGON_ID, CONVEX_ID, POSITION_ID, SPECTRAL_INTERVAL_ID, SPECTRAL_ID, REDSHIFT_INTERVAL_ID, REDSHIFT_ID, VELOCITY_INTERVAL_ID]

theorem progress_START (ti sp ve sc rd : Nat) (w : String)
    (hc : (Phase.mk .START ti sp ve sc rd false).Consistent) :
    ((Phase.mk .START ti sp ve sc rd false).next w).Consistent
    ∧ (((Phase.mk .START ti sp ve sc rd false).next w).broke = true
      ∨ (Phase.mk .START ti sp ve sc rd false).rank
          < ((Phase.mk .START ti sp ve sc rd false).next w).rank
      ∨ (LookFor.START = .CONVEX
          ∧ ((Phase.mk .START ti sp ve sc rd false).next w).look_for = .CONVEX)
      ∨ (LookFor.START = .REDSHIFT_IDENTIFIER
          ∧ ((Phase.mk .START ti sp ve sc rd false).next w).look_for = .REDSHIFT_IDENTIFIER
          ∧ w ≠ "RedshiftInterval" ∧ w ≠ "Redshift")) := by
  have h1 := hc.1
  have h7 := hc.2.2.2.2.2.2 rfl
  simp only at h1 h7
  rcases h7 with rfl | rfl
  · have hsp : sp = NULL_ID := h1 (by decide)
    subst hsp
    simp [Phase.next, Phase.Consistent, Phase.rank, Phase.base, NULL_ID, TIME_INTERVAL_ID, START_TIME_ID, STOP_TIME_ID, POSITION_INTERVAL_ID, ALL_SKY_ID, CIRCLE_ID, ELLIPSE_ID, BOX_ID, POLYGON_ID, CONVEX_ID, POSITION_ID, SPECTRAL_INTERVAL_ID, SPECTRAL_ID, REDSHIFT_INTERVAL_ID, REDSHIFT_ID, VELOCITY_INTERVAL_ID]
  · have hsp : sp = NULL_ID := h1 (by decide)
    subst hsp
    simp [Phase.next, Phase.Consistent, Phase.rank, Phase.base, NULL_ID, TIME_INTERVAL_ID, START_TIME_ID, STOP_TIME_ID, POSITION_INTERVAL_ID, ALL_SKY_ID, CIRCLE_ID, ELLIPSE_ID, BOX_ID, POLYGON_ID, CONVEX_ID, POSITION_ID, SPECTRAL_INTERVAL_ID, SPECTRAL_ID, REDSHIFT_INTERVAL_ID, REDSHIFT_ID, VELOCITY_INTERVAL_ID]

theorem progress_STOP (ti sp ve sc rd : Nat) (w : String)
    (hc : (Phase.mk .STOP ti sp ve sc rd false).Consistent) :
    ((Phase.mk .STOP ti sp ve sc rd false).next w).Consistent
    ∧ (((Phase.mk .STOP ti sp ve sc rd false).next w).broke = true
      ∨ (Phase.mk .STOP ti sp ve sc rd false).rank
          < ((Phase.mk .STOP ti sp ve sc rd false).next w).rank
      ∨ (LookFor.STOP = .CONVEX
          ∧ ((Phase.mk .STOP ti sp ve sc rd false).next w).look_for = .CONVEX)
      ∨ (LookFor.STOP = .REDSHIFT_IDENTIFIER
          ∧ ((Phase.mk .STOP ti sp ve sc rd false).next w).look_for = .REDSHIFT_IDENTIFIER
          ∧ w ≠ "RedshiftInterval" ∧ w ≠ "Redshift")) := by
  by_cases k0 : ti = NULL_ID <;> by_cases k1 : sp = NULL_ID <;> by_cases k2 : ve = NULL_ID <;> by_cases k3 : sc = NULL_ID <;>
    simp only [Phase.Consistent, Phase.next, Phase.rank, Phase.base, k0, k1, k2, k3, ne_eq, not_true_eq_false, not_false_eq_true, if_true, if_false] at hc ⊢ <;>
    (try split_ifs) <;>
    (try simp_all [Phase.rank, Phase.base, NULL_ID, TIME_INTERVAL_ID, START_TIME_ID, STOP_TIME_ID, POSITION_INTERVAL_ID, ALL_SKY_ID, CIRCLE_ID, ELLIPSE_ID, BOX_ID, POLYGON_ID, CONVEX_ID, POSITION_ID, SPECTRAL_INTERVAL_ID, SPECTRAL_ID, REDSHIFT_INTERVAL_ID, REDSHIFT_ID, VELOCITY_INTERVAL_ID]) <;>
    (try omega)

theorem progress_TIME (ti sp ve sc rd : Nat) (w : String)
    (hc : (Phase.mk .TIME ti sp ve sc rd false).Consistent) :
    ((Phase.mk .TIME ti sp ve sc rd false).next w).Consistent
    ∧ (((Phase.mk .TIME ti sp ve sc rd false).next w).broke = true
      ∨ (Phase.mk .TIME ti sp ve sc rd false).rank
          < ((Phase.mk .TIME ti sp ve sc rd false).next w).rank
      ∨ (LookFor.TIME = .CONVEX
          ∧ ((Phase.mk .TIME ti sp ve sc rd false).next w).look_for = .CONVEX)
      ∨ (LookFor.TIME = .REDSHIFT_IDENTIFIER
          ∧ ((Phase.mk .TIME ti sp ve sc rd false).next w).look_for = .REDSHIFT_IDENTIFIER
          ∧ w ≠ "RedshiftInterval" ∧ w ≠ "Redshift")) := by
  by_cases k0 : ti = NULL_ID <;> by_cases k1 : sp = NULL_ID <;> by_cases k2 : ve = NULL_ID <;> by_cases k3 : sc = NULL_ID <;>
    simp only [Phase.Consistent, Phase.next, Phase.rank, Phase.base, k0, k1, k2, k3, ne_eq, not_true_eq_false, not_false_eq_true, if_true, if_false] at hc ⊢ <;>
    (try split_ifs) <;>
    (try simp_all [Phase.rank, Phase.base, NULL_ID, TIME_INTERVAL_ID, START_TIME_ID, STOP_TIME_ID, POSITION_INTERVAL_ID, ALL_SKY_ID, CIRCLE_ID, ELLIPSE_ID, BOX_ID, POLYGON_ID, CONVEX_ID, POSITION_ID, SPECTRAL_INTERVAL_ID, SPECTRAL_ID, REDSHIFT_INTERVAL_ID, REDSHIFT_ID, VELOCITY_INTERVAL_ID]) <;>
    (try omega)

theorem progress_TIME_IDENTIFIER (ti sp ve sc rd : Nat) (w : String)
    (hc : (Phase.mk .TIME_IDENTIFIER ti sp ve sc rd false).Consistent) :
    ((Phase.mk .TIME_IDENTIFIER ti sp ve sc rd false).next w).Consistent
    ∧ (((Phase.mk .TIME_IDENTIFIER ti sp ve sc rd false).next w).broke = true
      ∨ (Phase.mk .TIME_IDENTIFIER ti sp ve sc rd false).rank
          < ((Phase.mk .TIME_IDENTIFIER ti sp ve sc rd false).next w).rank
      ∨ (LookFor.TIME_IDENTIFIER = .CONVEX
          ∧ ((Phase.mk .TIME_IDENTIFIER ti sp ve sc rd false).next w).look_for = .CONVEX)
      ∨ (LookFor.TIME_IDENTIFIER = .REDSHIFT_IDENTIFIER
          ∧ ((Phase.mk .TIME_IDENTIFIER ti sp ve sc rd false).next w).look_for = .REDSHIFT_IDENTIFIER
          ∧ w ≠ "RedshiftInterval" ∧ w ≠ "Redshift")) := by
  have hsp : sp = NULL_ID := hc.2.1 rfl
  subst hsp
  simp only [Phase.next]
  split_ifs <;>
    simp [Phase.Consistent, Phase.rank, Phase.base, NULL_ID, TIME_INTERVAL_ID, START_TIME_ID, STOP_TIME_ID, POSITION_INTERVAL_ID, ALL_SKY_ID, CIRCLE_ID, ELLIPSE_ID, BOX_ID, POLYGON_ID, CONVEX_ID, POSITION_ID, SPECTRAL_INTERVAL_ID, SPECTRAL_ID, REDSHIFT_INTERVAL_ID, REDSHIFT_ID, VELOCITY_INTERVAL_ID]

theorem progress_TIME_LABEL (ti sp ve sc rd : Nat) (w : String)
    (hc : (Phase.mk .TIME_LABEL ti sp ve sc rd false).Consistent) :
    ((Phase.mk .TIME_LABEL ti sp ve sc rd false).next w).Consistent
    ∧ (((Phase.mk .TIME_LABEL ti sp ve sc rd false).next w).broke = true
      ∨ (Phase.mk .TIME_LABEL ti sp ve sc rd false).rank
          < ((Phase.mk .TIME_LABEL ti sp ve sc rd false).next w).rank
      ∨ (LookFor.TIME_LABEL = .CONVEX
          ∧ ((Phase.mk .TIME_LABEL ti sp ve sc rd false).next w).look_for = .CONVEX)
      ∨ (LookFor.TIME_LABEL = .REDSHIFT_IDENTIFIER
          ∧ ((Phase.mk .TIME_LABEL ti sp ve sc rd false).next w).look_for = .REDSHIFT_IDENTIFIER
          ∧ w ≠ "RedshiftInterval" ∧ w ≠ "Redshift")) := by
  by_cases k0 : ti = NULL_ID <;> by_cases k1 : sp = NULL_ID <;> by_cases k2 : ve = NULL_ID <;> by_cases k3 : sc = NULL_ID <;>
    simp only [Phase.Consistent, Phase.next, Phase.rank, Phase.base, k0, k1, k2, k3, ne_eq, not_true_eq_false, not_false_eq_true, if_true, if_false] at hc ⊢ <;>
    (try split_ifs) <;>
    (try simp_all [Phase.rank, Phase.base, NULL_ID, TIME_INTERVAL_ID, START_TIME_ID, STOP_TIME_ID, POSITION_INTERVAL_ID, ALL_SKY_ID, CIRCLE_ID, ELLIPSE_ID, BOX_ID, POLYGON_ID, CONVEX_ID, POSITION_ID, SPECTRAL_INTERVAL_ID, SPECTRAL_ID, REDSHIFT_INTERVAL_ID, REDSHIFT_ID, VELOCITY_INTERVAL_ID]) <;>
    (try omega)

theorem progress_TIME_SCALE (ti sp ve sc rd : Nat) (w : String)
    (hc : (Phase.mk .TIME_SCALE ti sp ve sc rd false).Consistent) :
    ((Phase.mk .TIME_SCALE ti sp ve sc rd false).next w).Consistent
    ∧ (((Phase.mk .TIME_SCALE ti sp ve sc rd false).next w).broke = true
      ∨ (Phase.mk .TIME_SCALE ti sp ve sc rd false).rank
          < ((Phase.mk .TIME_SCALE ti sp ve sc rd false).next w).rank
      ∨ (LookFor.TIME_SCALE = .CONVEX
          ∧ ((Phase.mk .TIME_SCALE ti sp ve sc rd false).next w).look_for = .CONVEX)
      ∨ (LookFor.TIME_SCALE = .REDSHIFT_IDENTIFIER
          ∧ ((Phase.mk .TIME_SCALE ti sp ve sc rd false).next w).look_for = .REDSHIFT_IDENTIFIER
          ∧ w ≠ "RedshiftInterval" ∧ w ≠ "Redshift")) := by
  by_cases k0 : ti = NULL_ID <;> by_cases k1 : sp = NULL_ID <;> by_cases k2 : ve = NULL_ID <;> by_cases k3 : sc = NULL_ID <;>
    simp only [Phase.Consistent, Phase.next, Phase.rank, Phase.base, k0, k1, k2, k3, ne_eq, not_true_eq_false, not_false_eq_true, if_true, if_false] at hc ⊢ <;>
    (try split_ifs) <;>
    (try simp_all [Phase.rank, Phase.base, NULL_ID, TIME_INTERVAL_ID, START_TIME_ID, STOP_TIME_ID, POSITION_INTERVAL_ID, ALL_SKY_ID, CIRCLE_ID, ELLIPSE_ID, BOX_ID, POLYGON_ID, CONVEX_ID, POSITION_ID, SPECTRAL_INTERVAL_ID, SPECTRAL_ID, REDSHIFT_INTERVAL_ID, REDSHIFT_ID, VELOCITY_INTERVAL_ID]) <;>
    (try omega)

theorem progress_TYPE_DOPPLER (ti sp ve sc rd : Nat) (w : String)
    (hc : (Phase.mk .TYPE_DOPPLER ti sp ve sc rd false).Consistent) :
    ((Phase.mk .TYPE_DOPPLER ti sp ve sc rd false).next w).Consistent
    ∧ (((Phase.mk .TYPE_DOPPLER ti sp ve sc rd false).next w).broke = true
      ∨ (Phase.mk .TYPE_DOPPLER ti sp ve sc rd false).rank
          < ((Phase.mk .TYPE_DOPPLER ti sp ve sc rd false).next w).rank
      ∨ (LookFor.TYPE_DOPPLER = .CONVEX
          ∧ ((Phase.mk .TYPE_DOPPLER ti sp ve sc rd false).next w).look_for = .CONVEX)
      ∨ (LookFor.TYPE_DOPPLER = .REDSHIFT_IDENTIFIER
          ∧ ((Phase.mk .TYPE_DOPPLER ti sp ve sc rd false).next w).look_for = .REDSHIFT_IDENTIFIER
          ∧ w ≠ "RedshiftInterval" ∧ w ≠ "Redshift")) := by
  by_cases k0 : ti = NULL_ID <;> by_cases k1 : sp = NULL_ID <;> by_cases k2 : ve = NULL_ID <;> by_cases k3 : sc = NULL_ID <;>
    simp only [Phase.Consistent, Phase.next, Phase.rank, Phase.base, k0, k1, k2, k3, ne_eq, not_true_eq_false, not_false_eq_true, if_true, if_false] at hc ⊢ <;>
    (try split_ifs) <;>
    (try simp_all [Phase.rank, Phase.base, NULL_ID, TIME_INTERVAL_ID, START_TIME_ID, STOP_TIME_ID, POSITION_INTERVAL_ID, ALL_SKY_ID, CIRCLE_ID, ELLIPSE_ID, BOX_ID, POLYGON_ID, CONVEX_ID, POSITION_ID, SPECTRAL_INTERVAL_ID, SPECTRAL_ID, REDSHIFT_INTERVAL_ID, REDSHIFT_ID, VELOCITY_INTERVAL_ID]) <;>
    (try omega)

theorem progress_UNIT (ti sp ve sc rd : Nat) (w : String)
    (hc : (Phase.mk .UNIT ti sp ve sc rd false).Consistent) :
    ((Phase.mk .UNIT ti sp ve sc rd false).next w).Consistent
    ∧ (((Phase.mk .UNIT ti sp ve sc rd false).next w).broke = true
      ∨ (Phase.mk .UNIT ti sp ve sc rd false).rank
          < ((Phase.mk .UNIT ti sp ve sc rd false).next w).rank
      ∨ (LookFor.UNIT = .CONVEX
          ∧ ((Phase.mk .UNIT ti sp ve sc rd false).next w).look_for = .CONVEX)
      ∨ (LookFor.UNIT = .REDSHIFT_IDENTIFIER
          ∧ ((Phase.mk .UNIT ti sp ve sc rd false).next w).look_for = .REDSHIFT_IDENTIFIER
          ∧ w ≠ "RedshiftInterval" ∧ w ≠ "Redshift")) := by
  by_cases k0 : ti = NULL_ID <;> by_cases k1 : sp = NULL_ID <;> by_cases k2 : ve = NULL_ID <;> by_cases k3 : sc = NULL_ID <;>
    simp only [Phase.Consistent, Phase.next, Phase.rank, Phase.base, k0, k1, k2, k3, ne_eq, not_true_eq_false, not_false_eq_true, if_true, if_false] at hc ⊢ <;>
    (try split_ifs) <;>
    (try simp_all [Phase.rank, Phase.base, NULL_ID, TIME_INTERVAL_ID, START_TIME_ID, STOP_TIME_ID, POSITION_INTERVAL_ID, ALL_SKY_ID, CIRCLE_ID, ELLIPSE_ID, BOX_ID, POLYGON_ID, CONVEX_ID, POSITION_ID, SPECTRAL_INTERVAL_ID, SPECTRAL_ID, REDSHIFT_INTERVAL_ID, REDSHIFT_ID, VELOCITY_INTERVAL_ID]) <;>
    (try omega)

theorem progress_VELOCITY_IDENTIFIER (ti sp ve sc rd : Nat) (w : String)
    (hc : (Phase.mk .VELOCITY_IDENTIFIER ti sp ve sc rd false).Consistent) :
    ((Phase.mk .VELOCITY_IDENTIFIER ti sp ve sc rd false).next w).Consistent
    ∧ (((Phase.mk .VELOCITY_IDENTIFIER ti sp ve sc rd false).next w).broke = true
      ∨ (Phase.mk .VELOCITY_IDENTIFIER ti sp ve sc rd false).rank
          < ((Phase.mk .VELOCITY_IDENTIFIER ti sp ve sc rd false).next w).rank
      ∨ (LookFor.VELOCITY_IDENTIFIER = .CONVEX
          ∧ ((Phase.mk .VELOCITY_IDENTIFIER ti sp ve sc rd false).next w).look_for = .CONVEX)
      ∨ (LookFor.VELOCITY_IDENTIFIER = .REDSHIFT_IDENTIFIER
          ∧ ((Phase.mk .VELOCITY_IDENTIFIER ti sp ve sc rd false).next w).look_for = .REDSHIFT_IDENTIFIER
          ∧ w ≠ "RedshiftInterval" ∧ w ≠ "Redshift")) := by
  have hti : ti = NULL_ID := hc.2.2.2.1 rfl
  subst hti
  simp only [Phase.next]
  split_ifs <;>
    simp [Phase.Consistent, Phase.rank, Phase.base, NULL_ID, TIME_INTERVAL_ID, START_TIME_ID, STOP_TIME_ID, POSITION_INTERVAL_ID, ALL_SKY_ID, CIRCLE_ID, ELLIPSE_ID, BOX_ID, POLYGON_ID, CONVEX_ID, POSITION_ID, SPECTRAL_INTERVAL_ID, SPECTRAL_ID, REDSHIFT_INTERVAL_ID, REDSHIFT_ID, VELOCITY_INTERVAL_ID]

theorem progress_VELOCITY_VALUE (ti sp ve sc rd : Nat) (w : String)
    (hc : (Phase.mk .VELOCITY_VALUE ti sp ve sc rd false).Consistent) :
    ((Phase.mk .VELOCITY_VALUE ti sp ve sc rd false).next w).Consistent
    ∧ (((Phase.mk .VELOCITY_VALUE ti sp ve sc rd false).next w).broke = true
      ∨ (Phase.mk .VELOCITY_VALUE ti sp ve sc rd false).rank
          < ((Phase.mk .VELOCITY_VALUE ti sp ve sc rd false).next w).rank
      ∨ (LookFor.VELOCITY_VALUE = .CONVEX
          ∧ ((Phase.mk .VELOCITY_VALUE ti sp ve sc rd false).next w).look_for = .CONVEX)
      ∨ (LookFor.VELOCITY_VALUE = .REDSHIFT_IDENTIFIER
          ∧ ((Phase.mk .VELOCITY_VALUE ti sp ve sc rd false).next w).look_for = .REDSHIFT_IDENTIFIER
          ∧ w ≠ "RedshiftInterval" ∧ w ≠ "Redshift")) := by
  by_cases k0 : ti = NULL_ID <;> by_cases k1 : sp = NULL_ID <;> by_cases k2 : ve = NULL_ID <;> by_cases k3 : sc = NULL_ID <;>
    simp only [Phase.Consistent, Phase.next, Phase.rank, Phase.base, k0, k1, k2, k3, ne_eq, not_true_eq_false, not_false_eq_true, if_true, if_false] at hc ⊢ <;>
    (try split_ifs) <;>
    (try simp_all [Phase.rank, Phase.base, NULL_ID, TIME_INTERVAL_ID, START_TIME_ID, STOP_TIME_ID, POSITION_INTERVAL_ID, ALL_SKY_ID, CIRCLE_ID, ELLIPSE_ID, BOX_ID, POLYGON_ID, CONVEX_ID, POSITION_ID, SPECTRAL_INTERVAL_ID, SPECTRAL_ID, REDSHIFT_INTERVAL_ID, REDSHIFT_ID, VELOCITY_INTERVAL_ID]) <;>
    (try omega)

theorem phase_progress (c : Phase) (w : String) (hc : c.Consistent) (hb : c.broke = false) :
    (c.next w).Consistent
    ∧ ((c.next w).broke = true ∨ c.rank < (c.next w).rank
      ∨ (c.look_for = .CONVEX ∧ (c.next w).look_for = .CONVEX)
      ∨ (c.look_for = .REDSHIFT_IDENTIFIER ∧ (c.next w).look_for = .REDSHIFT_IDENTIFIER
          ∧ w ≠ "RedshiftInterval" ∧ w ≠ "Redshift")) := by
  obtain ⟨lf, ti, sp, ve, sc, rd, br⟩ := c
  simp only at hb
  subst hb
  cases lf with
  | ALLSKY => exact progress_ALLSKY ti sp ve sc rd w hc
  | BOX => exact progress_BOX ti sp ve sc rd w hc
  | CIRCLE => exact progress_CIRCLE ti sp ve sc rd w hc
  | CONVEX => exact progress_CONVEX ti sp ve sc rd w hc
  | ELLIPSE => exact progress_ELLIPSE ti sp ve sc rd w hc
  | ERROR => exact progress_ERROR ti sp ve sc rd w hc
  | FILL_FACTOR => exact progress_FILL_FACTOR ti sp ve sc rd w hc
  | FLAVOUR => exact progress_FLAVOUR ti sp ve sc rd w hc
  | FRAME => exact progress_FRAME ti sp ve sc rd w hc
  | LIMITS => exact progress_LIMITS ti sp ve sc rd w hc
  | PIX_SIZE => exact progress_PIX_SIZE ti sp ve sc rd w hc
  | POLYGON => exact progress_POLYGON ti sp ve sc rd w hc
  | POSITION => exact progress_POSITION ti sp ve sc rd w hc
  | POSITION_INTERVAL => exact progress_POSITION_INTERVAL ti sp ve sc rd w hc
  | POSITION_LABEL => exact progress_POSITION_LABEL ti sp ve sc rd w hc
  | REDSHIFT_IDENTIFIER => exact progress_REDSHIFT_IDENTIFIER ti sp ve sc rd w hc
  | RED_SPEC_LABEL => exact progress_RED_SPEC_LABEL ti sp ve sc rd w hc
  | RED_SPEC_VALUE => exact progress_RED_SPEC_VALUE ti sp ve sc rd w hc
  | REFPOS => exact progress_REFPOS ti sp ve sc rd w hc
  | RESOLUTION => exact progress_RESOLUTION ti sp ve sc rd w hc
  | SIZE => exact progress_SIZE ti sp ve sc rd w hc
  | SPACE_IDENTIFIER => exact progress_SPACE_IDENTIFIER ti sp ve sc rd w hc
  | SPECTRAL_IDENTIFIER => exact progress_SPECTRAL_IDENTIFIER ti sp ve sc rd w hc
  | START => exact progress_START ti sp ve sc rd w hc
  | STOP => exact progress_STOP ti sp ve sc rd w hc
  | TIME => exact progress_TIME ti sp ve sc rd w hc
  | TIME_IDENTIFIER => exact progress_TIME_IDENTIFIER ti sp ve sc rd w hc
  | TIME_LABEL => exact progress_TIME_LABEL ti sp ve sc rd w hc
  | TIME_SCALE => exact progress_TIME_SCALE ti sp ve sc rd w hc
  | TYPE_DOPPLER => exact progress_TYPE_DOPPLER ti sp ve sc rd w hc
  | UNIT => exact progress_UNIT ti sp ve sc rd w hc
  | VELOCITY_IDENTIFIER => exact progress_VELOCITY_IDENTIFIER ti sp ve sc rd w hc
  | VELOCITY_VALUE => exact progress_VELOCITY_VALUE ti sp ve sc rd w hc

set_option linter.unreachableTactic false
set_option linter.unusedTactic false
set_option linter.unusedVariables false
/-! ## The control part of the state after a pass of the main loop -/

theorem phase_mk (a_source : List String) (a_con : WordContext) (a_word : Option String) (a_status
    : Status) (a_warnings : List Warning) (a_look_for : LookFor) (a_new_word : Bool) (a_broke :
    Bool) (a_time_props : KeyMap) (a_space_props : KeyMap) (a_spec_props : KeyMap) (a_red_props :
    KeyMap) (a_props : Option PropsSel) (a_prop : Option (List Char)) (a_nc : Nat) (a_timeid :
    Nat) (a_spaceid : Nat) (a_velid : Nat) (a_specid : Nat) (a_redid : Nat) (a_timefrm : Option
    AstFrame) (a_spacefrm : Option AstFrame) (a_specfrm : Option AstFrame) (a_redfrm : Option
    AstFrame) (a_time_enc : Option Region) (a_time_co : Option Region) (a_space_enc : Option
    Region) (a_space_co : Option Region) (a_spec_enc : Option Region) (a_spec_co : Option Region)
    (a_red_enc : Option Region) (a_red_co : Option Region) (a_epoch : Option ℚ) (a_fill : Option
    ℚ) (a_start : Option ℚ) (a_stop : Option ℚ) (a_time : Option ℚ) (a_time_origin : Option ℚ)
    (a_value : Option ℚ) (a_lolim : Option ℚ) (a_hilim : Option ℚ) (a_scale : ℚ) (a_err : Option
    (List ℚ)) (a_pos : Option (List ℚ)) (a_centre : List ℚ) (a_bsize : List ℚ) (a_slolim : List ℚ)
    (a_shilim : List ℚ) (a_radius : ℚ) (a_radius2 : ℚ) (a_pa : ℚ) (a_vertices : List ℚ) (a_nvert :
    Nat) (a_naxes : Nat) (a_is_skyframe : Bool) (a_isvel : Bool) (a_sys : System) (a_ts :
    TimeScale) (a_sor : StdOfRest) (a_frame : Option String) (a_unit : Option String) (a_subphrase
    : Option String) (a_use_co : Bool) (a_use_enc : Bool) :
    (State.mk a_source a_con a_word a_status a_warnings a_look_for a_new_word a_broke a_time_props
    a_space_props a_spec_props a_red_props a_props a_prop a_nc a_timeid a_spaceid a_velid a_specid
    a_redid a_timefrm a_spacefrm a_specfrm a_redfrm a_time_enc a_time_co a_space_enc a_space_co
    a_spec_enc a_spec_co a_red_enc a_red_co a_epoch a_fill a_start a_stop a_time a_time_origin
    a_value a_lolim a_hilim a_scale a_err a_pos a_centre a_bsize a_slolim a_shilim a_radius
    a_radius2 a_pa a_vertices a_nvert a_naxes a_is_skyframe a_isvel a_sys a_ts a_sor a_frame
    a_unit a_subphrase a_use_co a_use_enc).phase = Phase.mk a_look_for a_timeid a_spaceid a_velid
    a_specid a_redid a_broke := rfl

theorem fld_look_for (s : State) : s.look_for = s.phase.look_for := rfl

theorem fld_timeid (s : State) : s.timeid = s.phase.timeid := rfl

theorem fld_spaceid (s : State) : s.spaceid = s.phase.spaceid := rfl

theorem fld_velid (s : State) : s.velid = s.phase.velid := rfl

theorem fld_specid (s : State) : s.specid = s.phase.specid := rfl

theorem fld_redid (s : State) : s.redid = s.phase.redid := rfl

theorem fld_broke (s : State) : s.broke = s.phase.broke := rfl


theorem phase_ite (c : Prop) [Decidable c] (a b : State) :
    (if c then a else b).phase = if c then a.phase else b.phase := by
  split <;> rfl

theorem phase_raise (s : State) (c : Status) : (s.raise c).phase = s.phase := rfl

theorem phase_crash (s : State) : s.crash.phase = s.phase := rfl

theorem phase_warn (s : State) (l : Nat) (t : String) (a : List String) :
    (s.warn l t a).phase = s.phase := rfl

theorem phase_nextWord (s : State) : s.nextWord.phase = s.phase := rfl

theorem phase_mapPut (s : State) (k : String) (v : Option String) :
    (s.mapPut k v).phase = s.phase := rfl

theorem phase_append (s : State) (v : Option String) : (s.append v).phase = s.phase := rfl

theorem phase_chop (s : State) : s.chop.phase = s.phase := by
  unfold State.chop
  split <;> rfl

theorem phase_mapPutProp (s : State) (k : String) : (s.mapPutProp k).phase = s.phase := rfl

theorem phase_setTimeScale (s : State) (t : TimeScale) : (s.setTimeScale t).phase = s.phase := rfl

theorem phase_setSpaceFrm (s : State) (g : AstFrame → AstFrame) :
    (s.setSpaceFrm g).phase = s.phase := rfl

theorem phase_setRedFrm (s : State) (g : AstFrame → AstFrame) :
    (s.setRedFrm g).phase = s.phase := rfl

theorem phase_setSpecFrm (s : State) (g : AstFrame → AstFrame) :
    (s.setSpecFrm g).phase = s.phase := rfl

theorem phase_needNumber (env : Env) (s : State) : (s.needNumber env).phase = s.phase := rfl

theorem phase_finishTime (env : Env) (s : State) : (finishTime env s).phase = s.phase := by
  unfold finishTime
  split <;> rfl

theorem phase_finishSpace (env : Env) (s : State) : (finishSpace env s).phase = s.phase := by
  unfold finishSpace
  split <;> rfl

theorem phase_finishSpec (env : Env) (s : State) : (finishSpec env s).phase = s.phase := by
  unfold finishSpec
  split <;> rfl

theorem phase_axisLoop (env : Env) (n : Nat) (s : State) :
    (axisLoop env n s).1.phase = s.phase := by
  induction n generalizing s with
  | zero => rfl
  | succ n ih =>
    rw [axisLoop]
    simp only []
    rw [ih]
    split <;> rfl

theorem phase_numberRun (env : Env) (n : Nat) (s : State) :
    (numberRun env n s).1.phase = s.phase := by
  induction n generalizing s with
  | zero =>
    rw [numberRun]
    simp only []
    split <;> rfl
  | succ n ih =>
    rw [numberRun]
    split
    · simp only []
      rw [ih]
      rfl
    · rfl

theorem phase_errorLoop (env : Env) (n : Nat) (s : State) :
    (errorLoop env n s).1.phase = s.phase := by
  induction n generalizing s with
  | zero => rfl
  | succ n ih =>
    rw [errorLoop]
    simp only []
    split
    · rfl
    · simp only []
      rw [ih]
      rfl

theorem phase_polygonRest (env : Env) (k n : Nat) (s : State) (t : List ℚ) (v : Nat) :
    (polygonRest env k n s t v).1.phase = s.phase := by
  induction n generalizing s t v with
  | zero =>
    rw [polygonRest]
    simp only []
    split <;> rfl
  | succ n ih =>
    rw [polygonRest]
    split
    · simp only []
      rw [ih, phase_axisLoop]
    · rfl

theorem phase_readTime (env : Env) (s : State) (w : String) (old : Option ℚ) (b : Bool) :
    (readTime env s w old b).1.phase = s.phase := by
  unfold readTime
  simp only []
  split_ifs <;> first | rfl | (split <;> first | rfl | (split <;> rfl))

theorem phase_errorValues (s : State) (n : Nat) (vals : List ℚ) :
    (errorValues s n vals).phase = s.phase := by
  unfold errorValues
  split
  · split <;> rfl
  · split <;> rfl

theorem phase_errorExtra (env : Env) (s : State) : (errorExtra env s).phase = s.phase := by
  unfold errorExtra
  simp only [phase_mapPutProp, phase_chop, phase_ite, phase_warn, phase_numberRun, ite_self]

theorem phase_ignoredValues (env : Env) (s : State) (k t : String) :
    (ignoredValues env s k t).phase = s.phase := by
  unfold ignoredValues
  simp only [↓phase_mk, phase_ite, phase_raise, phase_crash, phase_warn, phase_nextWord,
    phase_mapPut, phase_append, phase_chop, phase_mapPutProp, phase_numberRun,
    fld_look_for, fld_timeid, fld_spaceid, fld_velid, fld_specid, fld_redid, fld_broke]

theorem phase_dopplerDef (s : State) : (dopplerDef s).phase = s.phase := by
  unfold dopplerDef
  split
  · rfl
  · split_ifs <;> rfl

theorem phase_unitWord (s : State) (w : String) : (unitWord s w).phase = s.phase := by
  unfold unitWord
  split
  · simp only []
    split <;> rfl
  · rfl

theorem phase_stepTimeIdentifier (env : Env) (s : State) (w : String) (h : s.look_for = .TIME_IDENTIFIER) :
    (stepTimeIdentifier s w).phase = s.phase.next w := by
  rw [fld_look_for] at h
  unfold stepTimeIdentifier
  simp only [↓phase_mk, phase_ite, phase_raise, phase_crash, phase_warn, phase_nextWord,
    phase_mapPut, phase_append, phase_chop, phase_mapPutProp, phase_setTimeScale,
    phase_setSpaceFrm, phase_setRedFrm, phase_setSpecFrm, phase_needNumber, phase_finishTime,
    phase_finishSpace, phase_finishSpec, phase_axisLoop, phase_numberRun, phase_errorLoop,
    phase_polygonRest, phase_readTime, phase_errorValues, phase_errorExtra,
    phase_ignoredValues, ite_self,
    fld_look_for, fld_timeid, fld_spaceid, fld_velid, fld_specid, fld_redid, fld_broke]
  simp only [Phase.next, h]
  try (split_ifs <;> first | rfl | (rw [← h]) | simp_all [NULL_ID, TIME_INTERVAL_ID, START_TIME_ID, STOP_TIME_ID, POSITION_INTERVAL_ID, ALL_SKY_ID, CIRCLE_ID, ELLIPSE_ID, BOX_ID, POLYGON_ID, CONVEX_ID, POSITION_ID, SPECTRAL_INTERVAL_ID, SPECTRAL_ID, REDSHIFT_INTERVAL_ID, REDSHIFT_ID, VELOCITY_INTERVAL_ID])

theorem phase_stepSpaceIdentifier (env : Env) (s : State) (w : String) (h : s.look_for = .SPACE_IDENTIFIER) :
    (stepSpaceIdentifier env s w).phase = s.phase.next w := by
  rw [fld_look_for] at h
  unfold stepSpaceIdentifier
  simp only [↓phase_mk, phase_ite, phase_raise, phase_crash, phase_warn, phase_nextWord,
    phase_mapPut, phase_append, phase_chop, phase_mapPutProp, phase_setTimeScale,
    phase_setSpaceFrm, phase_setRedFrm, phase_setSpecFrm, phase_needNumber, phase_finishTime,
    phase_finishSpace, phase_finishSpec, phase_axisLoop, phase_numberRun, phase_errorLoop,
    phase_polygonRest, phase_readTime, phase_errorValues, phase_errorExtra,
    phase_ignoredValues, ite_self,
    fld_look_for, fld_timeid, fld_spaceid, fld_velid, fld_specid, fld_redid, fld_broke]
  simp only [Phase.next, h]
  try (split_ifs <;> first | rfl | (rw [← h]) | simp_all [NULL_ID, TIME_INTERVAL_ID, START_TIME_ID, STOP_TIME_ID, POSITION_INTERVAL_ID, ALL_SKY_ID, CIRCLE_ID, ELLIPSE_ID, BOX_ID, POLYGON_ID, CONVEX_ID, POSITION_ID, SPECTRAL_INTERVAL_ID, SPECTRAL_ID, REDSHIFT_INTERVAL_ID, REDSHIFT_ID, VELOCITY_INTERVAL_ID])

theorem phase_stepVelocityIdentifier (env : Env) (s : State) (w : String) (h : s.look_for = .VELOCITY_IDENTIFIER) :
    (stepVelocityIdentifier env s w).phase = s.phase.next w := by
  rw [fld_look_for] at h
  unfold stepVelocityIdentifier
  simp only [↓phase_mk, phase_ite, phase_raise, phase_crash, phase_warn, phase_nextWord,
    phase_mapPut, phase_append, phase_chop, phase_mapPutProp, phase_setTimeScale,
    phase_setSpaceFrm, phase_setRedFrm, phase_setSpecFrm, phase_needNumber, phase_finishTime,
    phase_finishSpace, phase_finishSpec, phase_axisLoop, phase_numberRun, phase_errorLoop,
    phase_polygonRest, phase_readTime, phase_errorValues, phase_errorExtra,
    phase_ignoredValues, ite_self,
    fld_look_for, fld_timeid, fld_spaceid, fld_velid, fld_specid, fld_redid, fld_broke]
  simp only [Phase.next, h]
  try (split_ifs <;> first | rfl | (rw [← h]) | simp_all [NULL_ID, TIME_INTERVAL_ID, START_TIME_ID, STOP_TIME_ID, POSITION_INTERVAL_ID, ALL_SKY_ID, CIRCLE_ID, ELLIPSE_ID, BOX_ID, POLYGON_ID, CONVEX_ID, POSITION_ID, SPECTRAL_INTERVAL_ID, SPECTRAL_ID, REDSHIFT_INTERVAL_ID, REDSHIFT_ID, VELOCITY_INTERVAL_ID])

theorem phase_stepSpectralIdentifier (env : Env) (s : State) (w : String) (h : s.look_for = .SPECTRAL_IDENTIFIER) :
    (stepSpectralIdentifier s w).phase = s.phase.next w := by
  rw [fld_look_for] at h
  unfold stepSpectralIdentifier
  simp only [↓phase_mk, phase_ite, phase_raise, phase_crash, phase_warn, phase_nextWord,
    phase_mapPut, phase_append, phase_chop, phase_mapPutProp, phase_setTimeScale,
    phase_setSpaceFrm, phase_setRedFrm, phase_setSpecFrm, phase_needNumber, phase_finishTime,
    phase_finishSpace, phase_finishSpec, phase_axisLoop, phase_numberRun, phase_errorLoop,
    phase_polygonRest, phase_readTime, phase_errorValues, phase_errorExtra,
    phase_ignoredValues, ite_self,
    fld_look_for, fld_timeid, fld_spaceid, fld_velid, fld_specid, fld_redid, fld_broke]
  simp only [Phase.next, h]
  try (split_ifs <;> first | rfl | (rw [← h]) | simp_all [NULL_ID, TIME_INTERVAL_ID, START_TIME_ID, STOP_TIME_ID, POSITION_INTERVAL_ID, ALL_SKY_ID, CIRCLE_ID, ELLIPSE_ID, BOX_ID, POLYGON_ID, CONVEX_ID, POSITION_ID, SPECTRAL_INTERVAL_ID, SPECTRAL_ID, REDSHIFT_INTERVAL_ID, REDSHIFT_ID, VELOCITY_INTERVAL_ID])

theorem phase_stepRedshiftIdentifier (env : Env) (s : State) (w : String) (h : s.look_for = .REDSHIFT_IDENTIFIER) :
    (stepRedshiftIdentifier env s w).phase = s.phase.next w := by
  rw [fld_look_for] at h
  unfold stepRedshiftIdentifier
  simp only [↓phase_mk, phase_ite, phase_raise, phase_crash, phase_warn, phase_nextWord,
    phase_mapPut, phase_append, phase_chop, phase_mapPutProp, phase_setTimeScale,
    phase_setSpaceFrm, phase_setRedFrm, phase_setSpecFrm, phase_needNumber, phase_finishTime,
    phase_finishSpace, phase_finishSpec, phase_axisLoop, phase_numberRun, phase_errorLoop,
    phase_polygonRest, phase_readTime, phase_errorValues, phase_errorExtra,
    phase_ignoredValues, ite_self,
    fld_look_for, fld_timeid, fld_spaceid, fld_velid, fld_specid, fld_redid, fld_broke]
  simp only [Phase.next, h]
  try (split_ifs <;> first | rfl | (rw [← h]) | simp_all [NULL_ID, TIME_INTERVAL_ID, START_TIME_ID, STOP_TIME_ID, POSITION_INTERVAL_ID, ALL_SKY_ID, CIRCLE_ID, ELLIPSE_ID, BOX_ID, POLYGON_ID, CONVEX_ID, POSITION_ID, SPECTRAL_INTERVAL_ID, SPECTRAL_ID, REDSHIFT_INTERVAL_ID, REDSHIFT_ID, VELOCITY_INTERVAL_ID])

theorem phase_stepFillFactor (env : Env) (s : State) (w : String) (h : s.look_for = .FILL_FACTOR) :
    (stepFillFactor env s w).phase = s.phase.next w := by
  rw [fld_look_for] at h
  unfold stepFillFactor
  simp only [↓phase_mk, phase_ite, phase_raise, phase_crash, phase_warn, phase_nextWord,
    phase_mapPut, phase_append, phase_chop, phase_mapPutProp, phase_setTimeScale,
    phase_setSpaceFrm, phase_setRedFrm, phase_setSpecFrm, phase_needNumber, phase_finishTime,
    phase_finishSpace, phase_finishSpec, phase_axisLoop, phase_numberRun, phase_errorLoop,
    phase_polygonRest, phase_readTime, phase_errorValues, phase_errorExtra,
    phase_ignoredValues, ite_self,
    fld_look_for, fld_timeid, fld_spaceid, fld_velid, fld_specid, fld_redid, fld_broke]
  simp only [Phase.next, h]
  try (split_ifs <;> first | rfl | (rw [← h]) | simp_all [NULL_ID, TIME_INTERVAL_ID, START_TIME_ID, STOP_TIME_ID, POSITION_INTERVAL_ID, ALL_SKY_ID, CIRCLE_ID, ELLIPSE_ID, BOX_ID, POLYGON_ID, CONVEX_ID, POSITION_ID, SPECTRAL_INTERVAL_ID, SPECTRAL_ID, REDSHIFT_INTERVAL_ID, REDSHIFT_ID, VELOCITY_INTERVAL_ID])

theorem phase_stepTimeScale (env : Env) (s : State) (w : String) (h : s.look_for = .TIME_SCALE) :
    (stepTimeScale s w).phase = s.phase.next w := by
  rw [fld_look_for] at h
  by_cases hw : w ∈ timeScaleWords
  · simp only [timeScaleWords, List.mem_cons, List.mem_singleton, List.not_mem_nil,
      or_false] at hw
    rcases hw with rfl | rfl | rfl | rfl | rfl | rfl | rfl | rfl | rfl | rfl | rfl | rfl <;>
      simp only [stepTimeScale, String.reduceEq, if_true, if_false] <;>
      simp only [↓phase_mk, phase_ite, phase_raise, phase_crash, phase_warn, phase_nextWord,
    phase_mapPut, phase_append, phase_chop, phase_mapPutProp, phase_setTimeScale,
    phase_setSpaceFrm, phase_setRedFrm, phase_setSpecFrm, phase_needNumber, phase_finishTime,
    phase_finishSpace, phase_finishSpec, phase_axisLoop, phase_numberRun, phase_errorLoop,
    phase_polygonRest, phase_readTime, phase_errorValues, phase_errorExtra,
    phase_ignoredValues, ite_self,
        fld_look_for, fld_timeid, fld_spaceid, fld_velid, fld_specid, fld_redid, fld_broke] <;>
      simp only [Phase.next, h]
  · simp only [timeScaleWords, List.mem_cons, List.mem_singleton, List.not_mem_nil,
      or_false, not_or] at hw
    simp only [stepTimeScale, hw, if_true, if_false]
    simp only [↓phase_mk, phase_ite, phase_raise, phase_crash, phase_warn, phase_nextWord,
    phase_mapPut, phase_append, phase_chop, phase_mapPutProp, phase_setTimeScale,
    phase_setSpaceFrm, phase_setRedFrm, phase_setSpecFrm, phase_needNumber, phase_finishTime,
    phase_finishSpace, phase_finishSpec, phase_axisLoop, phase_numberRun, phase_errorLoop,
    phase_polygonRest, phase_readTime, phase_errorValues, phase_errorExtra,
    phase_ignoredValues, ite_self,
      fld_look_for, fld_timeid, fld_spaceid, fld_velid, fld_specid, fld_redid, fld_broke]
    simp only [Phase.next, h]

theorem phase_stepFrame (env : Env) (s : State) (w : String) (h : s.look_for = .FRAME) :
    (stepFrame s w).phase = s.phase.next w := by
  rw [fld_look_for] at h
  unfold stepFrame
  simp only [↓phase_mk, phase_ite, phase_raise, phase_crash, phase_warn, phase_nextWord,
    phase_mapPut, phase_append, phase_chop, phase_mapPutProp, phase_setTimeScale,
    phase_setSpaceFrm, phase_setRedFrm, phase_setSpecFrm, phase_needNumber, phase_finishTime,
    phase_finishSpace, phase_finishSpec, phase_axisLoop, phase_numberRun, phase_errorLoop,
    phase_polygonRest, phase_readTime, phase_errorValues, phase_errorExtra,
    phase_ignoredValues, ite_self,
    fld_look_for, fld_timeid, fld_spaceid, fld_velid, fld_specid, fld_redid, fld_broke]
  simp only [Phase.next, h]
  try (split_ifs <;> first | rfl | (rw [← h]) | simp_all [NULL_ID, TIME_INTERVAL_ID, START_TIME_ID, STOP_TIME_ID, POSITION_INTERVAL_ID, ALL_SKY_ID, CIRCLE_ID, ELLIPSE_ID, BOX_ID, POLYGON_ID, CONVEX_ID, POSITION_ID, SPECTRAL_INTERVAL_ID, SPECTRAL_ID, REDSHIFT_INTERVAL_ID, REDSHIFT_ID, VELOCITY_INTERVAL_ID])

theorem phase_stepRefPos (env : Env) (s : State) (w : String) (h : s.look_for = .REFPOS) :
    (stepRefPos s w).phase = s.phase.next w := by
  rw [fld_look_for] at h
  unfold stepRefPos
  simp only [stepRefPosTime, stepRefPosSpace, stepRefPosSpec, ↓phase_mk, phase_ite, phase_raise, phase_crash, phase_warn, phase_nextWord,
    phase_mapPut, phase_append, phase_chop, phase_mapPutProp, phase_setTimeScale,
    phase_setSpaceFrm, phase_setRedFrm, phase_setSpecFrm, phase_needNumber, phase_finishTime,
    phase_finishSpace, phase_finishSpec, phase_axisLoop, phase_numberRun, phase_errorLoop,
    phase_polygonRest, phase_readTime, phase_errorValues, phase_errorExtra,
    phase_ignoredValues, ite_self,
    fld_look_for, fld_timeid, fld_spaceid, fld_velid, fld_specid, fld_redid, fld_broke]
  simp only [Phase.next, h]
  try (split_ifs <;> first | rfl | (rw [← h]) | simp_all [NULL_ID, TIME_INTERVAL_ID, START_TIME_ID, STOP_TIME_ID, POSITION_INTERVAL_ID, ALL_SKY_ID, CIRCLE_ID, ELLIPSE_ID, BOX_ID, POLYGON_ID, CONVEX_ID, POSITION_ID, SPECTRAL_INTERVAL_ID, SPECTRAL_ID, REDSHIFT_INTERVAL_ID, REDSHIFT_ID, VELOCITY_INTERVAL_ID])

theorem phase_stepStart (env : Env) (s : State) (w : String) (h : s.look_for = .START) :
    (stepStart env s w).phase = s.phase.next w := by
  rw [fld_look_for] at h
  unfold stepStart
  simp only [↓phase_mk, phase_ite, phase_raise, phase_crash, phase_warn, phase_nextWord,
    phase_mapPut, phase_append, phase_chop, phase_mapPutProp, phase_setTimeScale,
    phase_setSpaceFrm, phase_setRedFrm, phase_setSpecFrm, phase_needNumber, phase_finishTime,
    phase_finishSpace, phase_finishSpec, phase_axisLoop, phase_numberRun, phase_errorLoop,
    phase_polygonRest, phase_readTime, phase_errorValues, phase_errorExtra,
    phase_ignoredValues, ite_self,
    fld_look_for, fld_timeid, fld_spaceid, fld_velid, fld_specid, fld_redid, fld_broke]
  simp only [Phase.next, h]
  try (split_ifs <;> first | rfl | (rw [← h]) | simp_all [NULL_ID, TIME_INTERVAL_ID, START_TIME_ID, STOP_TIME_ID, POSITION_INTERVAL_ID, ALL_SKY_ID, CIRCLE_ID, ELLIPSE_ID, BOX_ID, POLYGON_ID, CONVEX_ID, POSITION_ID, SPECTRAL_INTERVAL_ID, SPECTRAL_ID, REDSHIFT_INTERVAL_ID, REDSHIFT_ID, VELOCITY_INTERVAL_ID])

theorem phase_stepStop (env : Env) (s : State) (w : String) (h : s.look_for = .STOP) :
    (stepStop env s w).phase = s.phase.next w := by
  rw [fld_look_for] at h
  unfold stepStop
  simp only [↓phase_mk, phase_ite, phase_raise, phase_crash, phase_warn, phase_nextWord,
    phase_mapPut, phase_append, phase_chop, phase_mapPutProp, phase_setTimeScale,
    phase_setSpaceFrm, phase_setRedFrm, phase_setSpecFrm, phase_needNumber, phase_finishTime,
    phase_finishSpace, phase_finishSpec, phase_axisLoop, phase_numberRun, phase_errorLoop,
    phase_polygonRest, phase_readTime, phase_errorValues, phase_errorExtra,
    phase_ignoredValues, ite_self,
    fld_look_for, fld_timeid, fld_spaceid, fld_velid, fld_specid, fld_redid, fld_broke]
  simp only [Phase.next, h]
  try (split_ifs <;> first | rfl | (rw [← h]) | simp_all [NULL_ID, TIME_INTERVAL_ID, START_TIME_ID, STOP_TIME_ID, POSITION_INTERVAL_ID, ALL_SKY_ID, CIRCLE_ID, ELLIPSE_ID, BOX_ID, POLYGON_ID, CONVEX_ID, POSITION_ID, SPECTRAL_INTERVAL_ID, SPECTRAL_ID, REDSHIFT_INTERVAL_ID, REDSHIFT_ID, VELOCITY_INTERVAL_ID])

theorem phase_stepTimeLabel (env : Env) (s : State) (w : String) (h : s.look_for = .TIME_LABEL) :
    (stepTimeLabel s w).phase = s.phase.next w := by
  rw [fld_look_for] at h
  unfold stepTimeLabel
  simp only [↓phase_mk, phase_ite, phase_raise, phase_crash, phase_warn, phase_nextWord,
    phase_mapPut, phase_append, phase_chop, phase_mapPutProp, phase_setTimeScale,
    phase_setSpaceFrm, phase_setRedFrm, phase_setSpecFrm, phase_needNumber, phase_finishTime,
    phase_finishSpace, phase_finishSpec, phase_axisLoop, phase_numberRun, phase_errorLoop,
    phase_polygonRest, phase_readTime, phase_errorValues, phase_errorExtra,
    phase_ignoredValues, ite_self,
    fld_look_for, fld_timeid, fld_spaceid, fld_velid, fld_specid, fld_redid, fld_broke]
  simp only [Phase.next, h]
  try (split_ifs <;> first | rfl | (rw [← h]) | simp_all [NULL_ID, TIME_INTERVAL_ID, START_TIME_ID, STOP_TIME_ID, POSITION_INTERVAL_ID, ALL_SKY_ID, CIRCLE_ID, ELLIPSE_ID, BOX_ID, POLYGON_ID, CONVEX_ID, POSITION_ID, SPECTRAL_INTERVAL_ID, SPECTRAL_ID, REDSHIFT_INTERVAL_ID, REDSHIFT_ID, VELOCITY_INTERVAL_ID])

theorem phase_stepTime (env : Env) (s : State) (w : String) (h : s.look_for = .TIME) :
    (stepTime env s w).phase = s.phase.next w := by
  rw [fld_look_for] at h
  unfold stepTime
  simp only [↓phase_mk, phase_ite, phase_raise, phase_crash, phase_warn, phase_nextWord,
    phase_mapPut, phase_append, phase_chop, phase_mapPutProp, phase_setTimeScale,
    phase_setSpaceFrm, phase_setRedFrm, phase_setSpecFrm, phase_needNumber, phase_finishTime,
    phase_finishSpace, phase_finishSpec, phase_axisLoop, phase_numberRun, phase_errorLoop,
    phase_polygonRest, phase_readTime, phase_errorValues, phase_errorExtra,
    phase_ignoredValues, ite_self,
    fld_look_for, fld_timeid, fld_spaceid, fld_velid, fld_specid, fld_redid, fld_broke]
  simp only [Phase.next, h]
  try (split_ifs <;> first | rfl | (rw [← h]) | simp_all [NULL_ID, TIME_INTERVAL_ID, START_TIME_ID, STOP_TIME_ID, POSITION_INTERVAL_ID, ALL_SKY_ID, CIRCLE_ID, ELLIPSE_ID, BOX_ID, POLYGON_ID, CONVEX_ID, POSITION_ID, SPECTRAL_INTERVAL_ID, SPECTRAL_ID, REDSHIFT_INTERVAL_ID, REDSHIFT_ID, VELOCITY_INTERVAL_ID])

theorem phase_stepFlavour (env : Env) (s : State) (w : String) (h : s.look_for = .FLAVOUR) :
    (stepFlavour s w).phase = s.phase.next w := by
  rw [fld_look_for] at h
  unfold stepFlavour
  simp only [flavourNext, flavourDomain, flavourSystem, flavourCheck, flavourFrame, ↓phase_mk, phase_ite, phase_raise, phase_crash, phase_warn, phase_nextWord,
    phase_mapPut, phase_append, phase_chop, phase_mapPutProp, phase_setTimeScale,
    phase_setSpaceFrm, phase_setRedFrm, phase_setSpecFrm, phase_needNumber, phase_finishTime,
    phase_finishSpace, phase_finishSpec, phase_axisLoop, phase_numberRun, phase_errorLoop,
    phase_polygonRest, phase_readTime, phase_errorValues, phase_errorExtra,
    phase_ignoredValues, ite_self,
    fld_look_for, fld_timeid, fld_spaceid, fld_velid, fld_specid, fld_redid, fld_broke]
  simp only [Phase.next, h]
  try (split_ifs <;> first | rfl | (rw [← h]) | simp_all [NULL_ID, TIME_INTERVAL_ID, START_TIME_ID, STOP_TIME_ID, POSITION_INTERVAL_ID, ALL_SKY_ID, CIRCLE_ID, ELLIPSE_ID, BOX_ID, POLYGON_ID, CONVEX_ID, POSITION_ID, SPECTRAL_INTERVAL_ID, SPECTRAL_ID, REDSHIFT_INTERVAL_ID, REDSHIFT_ID, VELOCITY_INTERVAL_ID])

theorem phase_stepLimits (env : Env) (s : State) (w : String) (h : s.look_for = .LIMITS) :
    (stepLimits env s w).phase = s.phase.next w := by
  rw [fld_look_for] at h
  unfold stepLimits
  simp only [limitsLow, limitsHigh, ↓phase_mk, phase_ite, phase_raise, phase_crash, phase_warn, phase_nextWord,
    phase_mapPut, phase_append, phase_chop, phase_mapPutProp, phase_setTimeScale,
    phase_setSpaceFrm, phase_setRedFrm, phase_setSpecFrm, phase_needNumber, phase_finishTime,
    phase_finishSpace, phase_finishSpec, phase_axisLoop, phase_numberRun, phase_errorLoop,
    phase_polygonRest, phase_readTime, phase_errorValues, phase_errorExtra,
    phase_ignoredValues, ite_self,
    fld_look_for, fld_timeid, fld_spaceid, fld_velid, fld_specid, fld_redid, fld_broke]
  simp only [Phase.next, h]
  try (split_ifs <;> first | rfl | (rw [← h]) | simp_all [NULL_ID, TIME_INTERVAL_ID, START_TIME_ID, STOP_TIME_ID, POSITION_INTERVAL_ID, ALL_SKY_ID, CIRCLE_ID, ELLIPSE_ID, BOX_ID, POLYGON_ID, CONVEX_ID, POSITION_ID, SPECTRAL_INTERVAL_ID, SPECTRAL_ID, REDSHIFT_INTERVAL_ID, REDSHIFT_ID, VELOCITY_INTERVAL_ID])

theorem phase_stepRedSpecLabel (env : Env) (s : State) (w : String) (h : s.look_for = .RED_SPEC_LABEL) :
    (stepRedSpecLabel s w).phase = s.phase.next w := by
  rw [fld_look_for] at h
  unfold stepRedSpecLabel
  simp only [↓phase_mk, phase_ite, phase_raise, phase_crash, phase_warn, phase_nextWord,
    phase_mapPut, phase_append, phase_chop, phase_mapPutProp, phase_setTimeScale,
    phase_setSpaceFrm, phase_setRedFrm, phase_setSpecFrm, phase_needNumber, phase_finishTime,
    phase_finishSpace, phase_finishSpec, phase_axisLoop, phase_numberRun, phase_errorLoop,
    phase_polygonRest, phase_readTime, phase_errorValues, phase_errorExtra,
    phase_ignoredValues, ite_self,
    fld_look_for, fld_timeid, fld_spaceid, fld_velid, fld_specid, fld_redid, fld_broke]
  simp only [Phase.next, h]
  try (split_ifs <;> first | rfl | (rw [← h]) | simp_all [NULL_ID, TIME_INTERVAL_ID, START_TIME_ID, STOP_TIME_ID, POSITION_INTERVAL_ID, ALL_SKY_ID, CIRCLE_ID, ELLIPSE_ID, BOX_ID, POLYGON_ID, CONVEX_ID, POSITION_ID, SPECTRAL_INTERVAL_ID, SPECTRAL_ID, REDSHIFT_INTERVAL_ID, REDSHIFT_ID, VELOCITY_INTERVAL_ID])

theorem phase_stepRedSpecValue (env : Env) (s : State) (w : String) (h : s.look_for = .RED_SPEC_VALUE) :
    (stepRedSpecValue env s w).phase = s.phase.next w := by
  rw [fld_look_for] at h
  unfold stepRedSpecValue
  simp only [↓phase_mk, phase_ite, phase_raise, phase_crash, phase_warn, phase_nextWord,
    phase_mapPut, phase_append, phase_chop, phase_mapPutProp, phase_setTimeScale,
    phase_setSpaceFrm, phase_setRedFrm, phase_setSpecFrm, phase_needNumber, phase_finishTime,
    phase_finishSpace, phase_finishSpec, phase_axisLoop, phase_numberRun, phase_errorLoop,
    phase_polygonRest, phase_readTime, phase_errorValues, phase_errorExtra,
    phase_ignoredValues, ite_self,
    fld_look_for, fld_timeid, fld_spaceid, fld_velid, fld_specid, fld_redid, fld_broke]
  simp only [Phase.next, h]
  try (split_ifs <;> first | rfl | (rw [← h]) | simp_all [NULL_ID, TIME_INTERVAL_ID, START_TIME_ID, STOP_TIME_ID, POSITION_INTERVAL_ID, ALL_SKY_ID, CIRCLE_ID, ELLIPSE_ID, BOX_ID, POLYGON_ID, CONVEX_ID, POSITION_ID, SPECTRAL_INTERVAL_ID, SPECTRAL_ID, REDSHIFT_INTERVAL_ID, REDSHIFT_ID, VELOCITY_INTERVAL_ID])

theorem phase_stepPositionInterval (env : Env) (s : State) (w : String) (h : s.look_for = .POSITION_INTERVAL) :
    (stepPositionInterval env s w).phase = s.phase.next w := by
  rw [fld_look_for] at h
  unfold stepPositionInterval
  simp only [↓phase_mk, phase_ite, phase_raise, phase_crash, phase_warn, phase_nextWord,
    phase_mapPut, phase_append, phase_chop, phase_mapPutProp, phase_setTimeScale,
    phase_setSpaceFrm, phase_setRedFrm, phase_setSpecFrm, phase_needNumber, phase_finishTime,
    phase_finishSpace, phase_finishSpec, phase_axisLoop, phase_numberRun, phase_errorLoop,
    phase_polygonRest, phase_readTime, phase_errorValues, phase_errorExtra,
    phase_ignoredValues, ite_self,
    fld_look_for, fld_timeid, fld_spaceid, fld_velid, fld_specid, fld_redid, fld_broke]
  simp only [Phase.next, h]
  try (split_ifs <;> first | rfl | (rw [← h]) | simp_all [NULL_ID, TIME_INTERVAL_ID, START_TIME_ID, STOP_TIME_ID, POSITION_INTERVAL_ID, ALL_SKY_ID, CIRCLE_ID, ELLIPSE_ID, BOX_ID, POLYGON_ID, CONVEX_ID, POSITION_ID, SPECTRAL_INTERVAL_ID, SPECTRAL_ID, REDSHIFT_INTERVAL_ID, REDSHIFT_ID, VELOCITY_INTERVAL_ID])

theorem phase_stepAllSky (env : Env) (s : State) (w : String) (h : s.look_for = .ALLSKY) :
    (stepAllSky s w).phase = s.phase.next w := by
  rw [fld_look_for] at h
  unfold stepAllSky
  simp only [↓phase_mk, phase_ite, phase_raise, phase_crash, phase_warn, phase_nextWord,
    phase_mapPut, phase_append, phase_chop, phase_mapPutProp, phase_setTimeScale,
    phase_setSpaceFrm, phase_setRedFrm, phase_setSpecFrm, phase_needNumber, phase_finishTime,
    phase_finishSpace, phase_finishSpec, phase_axisLoop, phase_numberRun, phase_errorLoop,
    phase_polygonRest, phase_readTime, phase_errorValues, phase_errorExtra,
    phase_ignoredValues, ite_self,
    fld_look_for, fld_timeid, fld_spaceid, fld_velid, fld_specid, fld_redid, fld_broke]
  simp only [Phase.next, h]
  try (split_ifs <;> first | rfl | (rw [← h]) | simp_all [NULL_ID, TIME_INTERVAL_ID, START_TIME_ID, STOP_TIME_ID, POSITION_INTERVAL_ID, ALL_SKY_ID, CIRCLE_ID, ELLIPSE_ID, BOX_ID, POLYGON_ID, CONVEX_ID, POSITION_ID, SPECTRAL_INTERVAL_ID, SPECTRAL_ID, REDSHIFT_INTERVAL_ID, REDSHIFT_ID, VELOCITY_INTERVAL_ID])

theorem phase_stepCircle (env : Env) (s : State) (w : String) (h : s.look_for = .CIRCLE) :
    (stepCircle env s w).phase = s.phase.next w := by
  rw [fld_look_for] at h
  unfold stepCircle
  simp only [↓phase_mk, phase_ite, phase_raise, phase_crash, phase_warn, phase_nextWord,
    phase_mapPut, phase_append, phase_chop, phase_mapPutProp, phase_setTimeScale,
    phase_setSpaceFrm, phase_setRedFrm, phase_setSpecFrm, phase_needNumber, phase_finishTime,
    phase_finishSpace, phase_finishSpec, phase_axisLoop, phase_numberRun, phase_errorLoop,
    phase_polygonRest, phase_readTime, phase_errorValues, phase_errorExtra,
    phase_ignoredValues, ite_self,
    fld_look_for, fld_timeid, fld_spaceid, fld_velid, fld_specid, fld_redid, fld_broke]
  simp only [Phase.next, h]
  try (split_ifs <;> first | rfl | (rw [← h]) | simp_all [NULL_ID, TIME_INTERVAL_ID, START_TIME_ID, STOP_TIME_ID, POSITION_INTERVAL_ID, ALL_SKY_ID, CIRCLE_ID, ELLIPSE_ID, BOX_ID, POLYGON_ID, CONVEX_ID, POSITION_ID, SPECTRAL_INTERVAL_ID, SPECTRAL_ID, REDSHIFT_INTERVAL_ID, REDSHIFT_ID, VELOCITY_INTERVAL_ID])

theorem phase_stepEllipse (env : Env) (s : State) (w : String) (h : s.look_for = .ELLIPSE) :
    (stepEllipse env s w).phase = s.phase.next w := by
  rw [fld_look_for] at h
  unfold stepEllipse
  simp only [↓phase_mk, phase_ite, phase_raise, phase_crash, phase_warn, phase_nextWord,
    phase_mapPut, phase_append, phase_chop, phase_mapPutProp, phase_setTimeScale,
    phase_setSpaceFrm, phase_setRedFrm, phase_setSpecFrm, phase_needNumber, phase_finishTime,
    phase_finishSpace, phase_finishSpec, phase_axisLoop, phase_numberRun, phase_errorLoop,
    phase_polygonRest, phase_readTime, phase_errorValues, phase_errorExtra,
    phase_ignoredValues, ite_self,
    fld_look_for, fld_timeid, fld_spaceid, fld_velid, fld_specid, fld_redid, fld_broke]
  simp only [Phase.next, h]
  try (split_ifs <;> first | rfl | (rw [← h]) | simp_all [NULL_ID, TIME_INTERVAL_ID, START_TIME_ID, STOP_TIME_ID, POSITION_INTERVAL_ID, ALL_SKY_ID, CIRCLE_ID, ELLIPSE_ID, BOX_ID, POLYGON_ID, CONVEX_ID, POSITION_ID, SPECTRAL_INTERVAL_ID, SPECTRAL_ID, REDSHIFT_INTERVAL_ID, REDSHIFT_ID, VELOCITY_INTERVAL_ID])

theorem phase_stepBox (env : Env) (s : State) (w : String) (h : s.look_for = .BOX) :
    (stepBox env s w).phase = s.phase.next w := by
  rw [fld_look_for] at h
  unfold stepBox
  simp only [↓phase_mk, phase_ite, phase_raise, phase_crash, phase_warn, phase_nextWord,
    phase_mapPut, phase_append, phase_chop, phase_mapPutProp, phase_setTimeScale,
    phase_setSpaceFrm, phase_setRedFrm, phase_setSpecFrm, phase_needNumber, phase_finishTime,
    phase_finishSpace, phase_finishSpec, phase_axisLoop, phase_numberRun, phase_errorLoop,
    phase_polygonRest, phase_readTime, phase_errorValues, phase_errorExtra,
    phase_ignoredValues, ite_self,
    fld_look_for, fld_timeid, fld_spaceid, fld_velid, fld_specid, fld_redid, fld_broke]
  simp only [Phase.next, h]
  try (split_ifs <;> first | rfl | (rw [← h]) | simp_all [NULL_ID, TIME_INTERVAL_ID, START_TIME_ID, STOP_TIME_ID, POSITION_INTERVAL_ID, ALL_SKY_ID, CIRCLE_ID, ELLIPSE_ID, BOX_ID, POLYGON_ID, CONVEX_ID, POSITION_ID, SPECTRAL_INTERVAL_ID, SPECTRAL_ID, REDSHIFT_INTERVAL_ID, REDSHIFT_ID, VELOCITY_INTERVAL_ID])

theorem phase_stepPolygon (env : Env) (s : State) (w : String) (h : s.look_for = .POLYGON) :
    (stepPolygon env s w).phase = s.phase.next w := by
  rw [fld_look_for] at h
  unfold stepPolygon
  simp only [↓phase_mk, phase_ite, phase_raise, phase_crash, phase_warn, phase_nextWord,
    phase_mapPut, phase_append, phase_chop, phase_mapPutProp, phase_setTimeScale,
    phase_setSpaceFrm, phase_setRedFrm, phase_setSpecFrm, phase_needNumber, phase_finishTime,
    phase_finishSpace, phase_finishSpec, phase_axisLoop, phase_numberRun, phase_errorLoop,
    phase_polygonRest, phase_readTime, phase_errorValues, phase_errorExtra,
    phase_ignoredValues, ite_self,
    fld_look_for, fld_timeid, fld_spaceid, fld_velid, fld_specid, fld_redid, fld_broke]
  simp only [Phase.next, h]
  try (split_ifs <;> first | rfl | (rw [← h]) | simp_all [NULL_ID, TIME_INTERVAL_ID, START_TIME_ID, STOP_TIME_ID, POSITION_INTERVAL_ID, ALL_SKY_ID, CIRCLE_ID, ELLIPSE_ID, BOX_ID, POLYGON_ID, CONVEX_ID, POSITION_ID, SPECTRAL_INTERVAL_ID, SPECTRAL_ID, REDSHIFT_INTERVAL_ID, REDSHIFT_ID, VELOCITY_INTERVAL_ID])

theorem phase_stepConvex (env : Env) (s : State) (w : String) (h : s.look_for = .CONVEX) :
    (stepConvex s w).phase = s.phase.next w := by
  rw [fld_look_for] at h
  unfold stepConvex
  simp only [↓phase_mk, phase_ite, phase_raise, phase_crash, phase_warn, phase_nextWord,
    phase_mapPut, phase_append, phase_chop, phase_mapPutProp, phase_setTimeScale,
    phase_setSpaceFrm, phase_setRedFrm, phase_setSpecFrm, phase_needNumber, phase_finishTime,
    phase_finishSpace, phase_finishSpec, phase_axisLoop, phase_numberRun, phase_errorLoop,
    phase_polygonRest, phase_readTime, phase_errorValues, phase_errorExtra,
    phase_ignoredValues, ite_self,
    fld_look_for, fld_timeid, fld_spaceid, fld_velid, fld_specid, fld_redid, fld_broke]
  simp only [Phase.next, h]
  try (split_ifs <;> first | rfl | (rw [← h]) | simp_all [NULL_ID, TIME_INTERVAL_ID, START_TIME_ID, STOP_TIME_ID, POSITION_INTERVAL_ID, ALL_SKY_ID, CIRCLE_ID, ELLIPSE_ID, BOX_ID, POLYGON_ID, CONVEX_ID, POSITION_ID, SPECTRAL_INTERVAL_ID, SPECTRAL_ID, REDSHIFT_INTERVAL_ID, REDSHIFT_ID, VELOCITY_INTERVAL_ID])

theorem phase_stepPosition (env : Env) (s : State) (w : String) (h : s.look_for = .POSITION) :
    (stepPosition env s w).phase = s.phase.next w := by
  rw [fld_look_for] at h
  unfold stepPosition
  simp only [↓phase_mk, phase_ite, phase_raise, phase_crash, phase_warn, phase_nextWord,
    phase_mapPut, phase_append, phase_chop, phase_mapPutProp, phase_setTimeScale,
    phase_setSpaceFrm, phase_setRedFrm, phase_setSpecFrm, phase_needNumber, phase_finishTime,
    phase_finishSpace, phase_finishSpec, phase_axisLoop, phase_numberRun, phase_errorLoop,
    phase_polygonRest, phase_readTime, phase_errorValues, phase_errorExtra,
    phase_ignoredValues, ite_self,
    fld_look_for, fld_timeid, fld_spaceid, fld_velid, fld_specid, fld_redid, fld_broke]
  simp only [Phase.next, h]
  try (split_ifs <;> first | rfl | (rw [← h]) | simp_all [NULL_ID, TIME_INTERVAL_ID, START_TIME_ID, STOP_TIME_ID, POSITION_INTERVAL_ID, ALL_SKY_ID, CIRCLE_ID, ELLIPSE_ID, BOX_ID, POLYGON_ID, CONVEX_ID, POSITION_ID, SPECTRAL_INTERVAL_ID, SPECTRAL_ID, REDSHIFT_INTERVAL_ID, REDSHIFT_ID, VELOCITY_INTERVAL_ID])

theorem phase_stepPositionLabel (env : Env) (s : State) (w : String) (h : s.look_for = .POSITION_LABEL) :
    (stepPositionLabel s w).phase = s.phase.next w := by
  rw [fld_look_for] at h
  unfold stepPositionLabel
  simp only [↓phase_mk, phase_ite, phase_raise, phase_crash, phase_warn, phase_nextWord,
    phase_mapPut, phase_append, phase_chop, phase_mapPutProp, phase_setTimeScale,
    phase_setSpaceFrm, phase_setRedFrm, phase_setSpecFrm, phase_needNumber, phase_finishTime,
    phase_finishSpace, phase_finishSpec, phase_axisLoop, phase_numberRun, phase_errorLoop,
    phase_polygonRest, phase_readTime, phase_errorValues, phase_errorExtra,
    phase_ignoredValues, ite_self,
    fld_look_for, fld_timeid, fld_spaceid, fld_velid, fld_specid, fld_redid, fld_broke]
  simp only [Phase.next, h]
  try (split_ifs <;> first | rfl | (rw [← h]) | simp_all [NULL_ID, TIME_INTERVAL_ID, START_TIME_ID, STOP_TIME_ID, POSITION_INTERVAL_ID, ALL_SKY_ID, CIRCLE_ID, ELLIPSE_ID, BOX_ID, POLYGON_ID, CONVEX_ID, POSITION_ID, SPECTRAL_INTERVAL_ID, SPECTRAL_ID, REDSHIFT_INTERVAL_ID, REDSHIFT_ID, VELOCITY_INTERVAL_ID])

theorem phase_stepTypeDoppler (env : Env) (s : State) (w : String) (h : s.look_for = .TYPE_DOPPLER) :
    (stepTypeDoppler s w).phase = s.phase.next w := by
  rw [fld_look_for] at h
  unfold stepTypeDoppler
  simp only [phase_dopplerDef, dopplerType, ↓phase_mk, phase_ite, phase_raise, phase_crash, phase_warn, phase_nextWord,
    phase_mapPut, phase_append, phase_chop, phase_mapPutProp, phase_setTimeScale,
    phase_setSpaceFrm, phase_setRedFrm, phase_setSpecFrm, phase_needNumber, phase_finishTime,
    phase_finishSpace, phase_finishSpec, phase_axisLoop, phase_numberRun, phase_errorLoop,
    phase_polygonRest, phase_readTime, phase_errorValues, phase_errorExtra,
    phase_ignoredValues, ite_self,
    fld_look_for, fld_timeid, fld_spaceid, fld_velid, fld_specid, fld_redid, fld_broke]
  simp only [Phase.next, h]
  try (split_ifs <;> first | rfl | (rw [← h]) | simp_all [NULL_ID, TIME_INTERVAL_ID, START_TIME_ID, STOP_TIME_ID, POSITION_INTERVAL_ID, ALL_SKY_ID, CIRCLE_ID, ELLIPSE_ID, BOX_ID, POLYGON_ID, CONVEX_ID, POSITION_ID, SPECTRAL_INTERVAL_ID, SPECTRAL_ID, REDSHIFT_INTERVAL_ID, REDSHIFT_ID, VELOCITY_INTERVAL_ID])

theorem phase_stepVelocityValue (env : Env) (s : State) (w : String) (h : s.look_for = .VELOCITY_VALUE) :
    (stepVelocityValue env s w).phase = s.phase.next w := by
  rw [fld_look_for] at h
  unfold stepVelocityValue
  simp only [↓phase_mk, phase_ite, phase_raise, phase_crash, phase_warn, phase_nextWord,
    phase_mapPut, phase_append, phase_chop, phase_mapPutProp, phase_setTimeScale,
    phase_setSpaceFrm, phase_setRedFrm, phase_setSpecFrm, phase_needNumber, phase_finishTime,
    phase_finishSpace, phase_finishSpec, phase_axisLoop, phase_numberRun, phase_errorLoop,
    phase_polygonRest, phase_readTime, phase_errorValues, phase_errorExtra,
    phase_ignoredValues, ite_self,
    fld_look_for, fld_timeid, fld_spaceid, fld_velid, fld_specid, fld_redid, fld_broke]
  simp only [Phase.next, h]
  try (split_ifs <;> first | rfl | (rw [← h]) | simp_all [NULL_ID, TIME_INTERVAL_ID, START_TIME_ID, STOP_TIME_ID, POSITION_INTERVAL_ID, ALL_SKY_ID, CIRCLE_ID, ELLIPSE_ID, BOX_ID, POLYGON_ID, CONVEX_ID, POSITION_ID, SPECTRAL_INTERVAL_ID, SPECTRAL_ID, REDSHIFT_INTERVAL_ID, REDSHIFT_ID, VELOCITY_INTERVAL_ID])

theorem phase_stepError (env : Env) (s : State) (w : String) (h : s.look_for = .ERROR) :
    (stepError env s w).phase = s.phase.next w := by
  rw [fld_look_for] at h
  unfold stepError
  simp only [↓phase_mk, phase_ite, phase_raise, phase_crash, phase_warn, phase_nextWord,
    phase_mapPut, phase_append, phase_chop, phase_mapPutProp, phase_setTimeScale,
    phase_setSpaceFrm, phase_setRedFrm, phase_setSpecFrm, phase_needNumber, phase_finishTime,
    phase_finishSpace, phase_finishSpec, phase_axisLoop, phase_numberRun, phase_errorLoop,
    phase_polygonRest, phase_readTime, phase_errorValues, phase_errorExtra,
    phase_ignoredValues, ite_self,
    fld_look_for, fld_timeid, fld_spaceid, fld_velid, fld_specid, fld_redid, fld_broke]
  simp only [Phase.next, h]
  try (split_ifs <;> first | rfl | (rw [← h]) | simp_all [NULL_ID, TIME_INTERVAL_ID, START_TIME_ID, STOP_TIME_ID, POSITION_INTERVAL_ID, ALL_SKY_ID, CIRCLE_ID, ELLIPSE_ID, BOX_ID, POLYGON_ID, CONVEX_ID, POSITION_ID, SPECTRAL_INTERVAL_ID, SPECTRAL_ID, REDSHIFT_INTERVAL_ID, REDSHIFT_ID, VELOCITY_INTERVAL_ID])

theorem phase_stepResolution (env : Env) (s : State) (w : String) (h : s.look_for = .RESOLUTION) :
    (stepResolution env s w).phase = s.phase.next w := by
  rw [fld_look_for] at h
  unfold stepResolution
  simp only [↓phase_mk, phase_ite, phase_raise, phase_crash, phase_warn, phase_nextWord,
    phase_mapPut, phase_append, phase_chop, phase_mapPutProp, phase_setTimeScale,
    phase_setSpaceFrm, phase_setRedFrm, phase_setSpecFrm, phase_needNumber, phase_finishTime,
    phase_finishSpace, phase_finishSpec, phase_axisLoop, phase_numberRun, phase_errorLoop,
    phase_polygonRest, phase_readTime, phase_errorValues, phase_errorExtra,
    phase_ignoredValues, ite_self,
    fld_look_for, fld_timeid, fld_spaceid, fld_velid, fld_specid, fld_redid, fld_broke]
  simp only [Phase.next, h]
  try (split_ifs <;> first | rfl | (rw [← h]) | simp_all [NULL_ID, TIME_INTERVAL_ID, START_TIME_ID, STOP_TIME_ID, POSITION_INTERVAL_ID, ALL_SKY_ID, CIRCLE_ID, ELLIPSE_ID, BOX_ID, POLYGON_ID, CONVEX_ID, POSITION_ID, SPECTRAL_INTERVAL_ID, SPECTRAL_ID, REDSHIFT_INTERVAL_ID, REDSHIFT_ID, VELOCITY_INTERVAL_ID])

theorem phase_stepSize (env : Env) (s : State) (w : String) (h : s.look_for = .SIZE) :
    (stepSize env s w).phase = s.phase.next w := by
  rw [fld_look_for] at h
  unfold stepSize
  simp only [↓phase_mk, phase_ite, phase_raise, phase_crash, phase_warn, phase_nextWord,
    phase_mapPut, phase_append, phase_chop, phase_mapPutProp, phase_setTimeScale,
    phase_setSpaceFrm, phase_setRedFrm, phase_setSpecFrm, phase_needNumber, phase_finishTime,
    phase_finishSpace, phase_finishSpec, phase_axisLoop, phase_numberRun, phase_errorLoop,
    phase_polygonRest, phase_readTime, phase_errorValues, phase_errorExtra,
    phase_ignoredValues, ite_self,
    fld_look_for, fld_timeid, fld_spaceid, fld_velid, fld_specid, fld_redid, fld_broke]
  simp only [Phase.next, h]
  try (split_ifs <;> first | rfl | (rw [← h]) | simp_all [NULL_ID, TIME_INTERVAL_ID, START_TIME_ID, STOP_TIME_ID, POSITION_INTERVAL_ID, ALL_SKY_ID, CIRCLE_ID, ELLIPSE_ID, BOX_ID, POLYGON_ID, CONVEX_ID, POSITION_ID, SPECTRAL_INTERVAL_ID, SPECTRAL_ID, REDSHIFT_INTERVAL_ID, REDSHIFT_ID, VELOCITY_INTERVAL_ID])

theorem phase_stepPixSize (env : Env) (s : State) (w : String) (h : s.look_for = .PIX_SIZE) :
    (stepPixSize env s w).phase = s.phase.next w := by
  rw [fld_look_for] at h
  unfold stepPixSize
  simp only [↓phase_mk, phase_ite, phase_raise, phase_crash, phase_warn, phase_nextWord,
    phase_mapPut, phase_append, phase_chop, phase_mapPutProp, phase_setTimeScale,
    phase_setSpaceFrm, phase_setRedFrm, phase_setSpecFrm, phase_needNumber, phase_finishTime,
    phase_finishSpace, phase_finishSpec, phase_axisLoop, phase_numberRun, phase_errorLoop,
    phase_polygonRest, phase_readTime, phase_errorValues, phase_errorExtra,
    phase_ignoredValues, ite_self,
    fld_look_for, fld_timeid, fld_spaceid, fld_velid, fld_specid, fld_redid, fld_broke]
  simp only [Phase.next, h]
  try (split_ifs <;> first | rfl | (rw [← h]) | simp_all [NULL_ID, TIME_INTERVAL_ID, START_TIME_ID, STOP_TIME_ID, POSITION_INTERVAL_ID, ALL_SKY_ID, CIRCLE_ID, ELLIPSE_ID, BOX_ID, POLYGON_ID, CONVEX_ID, POSITION_ID, SPECTRAL_INTERVAL_ID, SPECTRAL_ID, REDSHIFT_INTERVAL_ID, REDSHIFT_ID, VELOCITY_INTERVAL_ID])

theorem phase_stepUnit (env : Env) (s : State) (w : String) (h : s.look_for = .UNIT) :
    (stepUnit env s w).phase = s.phase.next w := by
  rw [fld_look_for] at h
  unfold stepUnit
  simp only [phase_unitWord, unitTime, unitSpace, unitSpec, unitRed, ↓phase_mk, phase_ite, phase_raise, phase_crash, phase_warn, phase_nextWord,
    phase_mapPut, phase_append, phase_chop, phase_mapPutProp, phase_setTimeScale,
    phase_setSpaceFrm, phase_setRedFrm, phase_setSpecFrm, phase_needNumber, phase_finishTime,
    phase_finishSpace, phase_finishSpec, phase_axisLoop, phase_numberRun, phase_errorLoop,
    phase_polygonRest, phase_readTime, phase_errorValues, phase_errorExtra,
    phase_ignoredValues, ite_self,
    fld_look_for, fld_timeid, fld_spaceid, fld_velid, fld_specid, fld_redid, fld_broke]
  simp only [Phase.next, h]
  try (split_ifs <;> first | rfl | (rw [← h]) | simp_all [NULL_ID, TIME_INTERVAL_ID, START_TIME_ID, STOP_TIME_ID, POSITION_INTERVAL_ID, ALL_SKY_ID, CIRCLE_ID, ELLIPSE_ID, BOX_ID, POLYGON_ID, CONVEX_ID, POSITION_ID, SPECTRAL_INTERVAL_ID, SPECTRAL_ID, REDSHIFT_INTERVAL_ID, REDSHIFT_ID, VELOCITY_INTERVAL_ID])

theorem phase_branch (env : Env) (s : State) (w : String) :
    (branch env s.look_for s w).phase = s.phase.next w := by
  cases h : s.look_for with
  | TIME_IDENTIFIER => exact phase_stepTimeIdentifier env s w h
  | SPACE_IDENTIFIER => exact phase_stepSpaceIdentifier env s w h
  | VELOCITY_IDENTIFIER => exact phase_stepVelocityIdentifier env s w h
  | SPECTRAL_IDENTIFIER => exact phase_stepSpectralIdentifier env s w h
  | REDSHIFT_IDENTIFIER => exact phase_stepRedshiftIdentifier env s w h
  | FILL_FACTOR => exact phase_stepFillFactor env s w h
  | TIME_SCALE => exact phase_stepTimeScale env s w h
  | FRAME => exact phase_stepFrame env s w h
  | REFPOS => exact phase_stepRefPos env s w h
  | START => exact phase_stepStart env s w h
  | STOP => exact phase_stepStop env s w h
  | TIME_LABEL => exact phase_stepTimeLabel env s w h
  | TIME => exact phase_stepTime env s w h
  | FLAVOUR => exact phase_stepFlavour env s w h
  | LIMITS => exact phase_stepLimits env s w h
  | RED_SPEC_LABEL => exact phase_stepRedSpecLabel env s w h
  | RED_SPEC_VALUE => exact phase_stepRedSpecValue env s w h
  | POSITION_INTERVAL => exact phase_stepPositionInterval env s w h
  | ALLSKY => exact phase_stepAllSky env s w h
  | CIRCLE => exact phase_stepCircle env s w h
  | ELLIPSE => exact phase_stepEllipse env s w h
  | BOX => exact phase_stepBox env s w h
  | POLYGON => exact phase_stepPolygon env s w h
  | CONVEX => exact phase_stepConvex env s w h
  | POSITION => exact phase_stepPosition env s w h
  | POSITION_LABEL => exact phase_stepPositionLabel env s w h
  | TYPE_DOPPLER => exact phase_stepTypeDoppler env s w h
  | VELOCITY_VALUE => exact phase_stepVelocityValue env s w h
  | ERROR => exact phase_stepError env s w h
  | RESOLUTION => exact phase_stepResolution env s w h
  | SIZE => exact phase_stepSize env s w h
  | PIX_SIZE => exact phase_stepPixSize env s w h
  | UNIT => exact phase_stepUnit env s w h

theorem phase_stepBody (env : Env) (s : State) (w : String) :
    (stepBody env s w).phase = s.phase.next w :=
  phase_branch env { s with new_word := true } w

theorem phase_step (env : Env) (s : State) (w : String) :
    (step env s w).phase = s.phase.next w := by
  unfold step
  simp only []
  split
  · exact phase_stepBody env s w
  · split
    · rw [phase_nextWord]; exact phase_stepBody env s w
    · exact phase_stepBody env s w

/-! ## Every pass of the main loop makes progress -/

theorem status_step (env : Env) (s : State) (w : String) :
    (step env s w).status = (stepBody env s w).status := by
  unfold step
  simp only []
  split
  · rfl
  · split <;> rfl

theorem broke_step (env : Env) (s : State) (w : String) :
    (step env s w).broke = (stepBody env s w).broke := by
  unfold step
  simp only []
  split
  · rfl
  · split <;> rfl

theorem convex_pass (env : Env) (s : State) (w : String) (h : s.look_for = .CONVEX)
    (hok : s.status = .ok) : (step env s w).status ≠ .ok := by
  rw [status_step]
  simp [stepBody, branch, h, stepConvex, State.raise, hok]

theorem finishSpec_keeps_new_word (env : Env) (s : State) :
    (finishSpec env s).new_word = s.new_word := by
  unfold finishSpec
  split <;> rfl

theorem finishSpec_keeps_source (env : Env) (s : State) : (finishSpec env s).source = s.source := by
  unfold finishSpec
  split <;> rfl

theorem finishSpec_keeps_con (env : Env) (s : State) : (finishSpec env s).con = s.con := by
  unfold finishSpec
  split <;> rfl

theorem redshift_word_status (env : Env) (s : State) (w : String)
    (h : s.look_for = .REDSHIFT_IDENTIFIER) (hw1 : w ≠ "RedshiftInterval")
    (hw2 : w ≠ "Redshift") (hw : w ≠ "") (hok : s.status = .ok) :
    (stepBody env s w).status ≠ .ok := by
  simp only [stepBody, branch, h, stepRedshiftIdentifier, hw1, hw2, hw, if_false, ne_eq,
    not_false_eq_true, if_true, State.raise, finishSpec_status, hok]
  split
  · simp [State.mapPut]
  · simp

theorem redshift_empty_word (env : Env) (s : State)
    (h : s.look_for = .REDSHIFT_IDENTIFIER) :
    (stepBody env s "").new_word = true ∧ (stepBody env s "").source = s.source
    ∧ (stepBody env s "").con = { s.con with done := true } := by
  simp only [stepBody, branch, h, stepRedshiftIdentifier, String.reduceEq, if_false, ne_eq,
    not_true_eq_false, if_true]
  split <;> simp [State.mapPut, finishSpec_keeps_new_word, finishSpec_keeps_source, finishSpec_keeps_con]

theorem redshift_pass (env : Env) (s : State) (w : String)
    (h : s.look_for = .REDSHIFT_IDENTIFIER) (hw1 : w ≠ "RedshiftInterval")
    (hw2 : w ≠ "Redshift") (hok : s.status = .ok)
    (hb : (stepBody env s w).broke = false) :
    (step env s w).running = false
    ∨ inputLeft (step env s w).source (step env s w).con < inputLeft s.source s.con := by
  by_cases hw : w = ""
  · subst hw
    obtain ⟨h1, h2, h3⟩ := redshift_empty_word env s h
    have hst : step env s "" = (stepBody env s "").nextWord := by
      unfold step
      simp only [hb, h1, if_true]
      rfl
    rw [hst]
    by_cases hs : (stepBody env s "").status = .ok
    · cases hend : endOfInput s.source { s.con with done := true } with
      | true =>
        left
        have hg := GetNextWord_at_end _ _ hend
        simp [State.running, State.nextWord, hs, h2, h3, hg]
      | false =>
        right
        have hd := inputLeft_decreases _ _ hend
        simp only [State.nextWord, hs, if_true, h2, h3]
        exact hd
    · left
      simp [State.running, State.astOK, State.nextWord, hs]
  · left
    have h1 := redshift_word_status env s w h hw1 hw2 hw hok
    rw [← status_step] at h1
    simp [State.running, State.astOK, h1]

theorem step_consistent (env : Env) (s : State) (w : String) (hc : Consistent s)
    (hb : s.broke = false) : Consistent (step env s w) := by
  unfold Consistent
  rw [phase_step]
  exact (phase_progress s.phase w hc hb).1

theorem initState_consistent (source : List String) : Consistent (initState source) := by
  simp [Consistent, Phase.Consistent, State.phase, initState]

theorem not_running_of_broke (s : State) (h : s.broke = true) : s.running = false := by
  simp [State.running, h]

theorem not_running_of_status (s : State) (h : s.status ≠ .ok) : s.running = false := by
  simp [State.running, State.astOK, h]

theorem step_progress (env : Env) (s : State) (w : String) (hc : Consistent s)
    (hok : s.status = .ok) (hb : s.broke = false) :
    (step env s w).running = false
    ∨ rank s < rank (step env s w)
    ∨ (s.look_for = .REDSHIFT_IDENTIFIER ∧ (step env s w).look_for = .REDSHIFT_IDENTIFIER
        ∧ inputLeft (step env s w).source (step env s w).con < inputLeft s.source s.con) := by
  have hp := (phase_progress s.phase w hc hb).2
  rw [← phase_step env s w] at hp
  by_cases hbr : (step env s w).broke = true
  · exact Or.inl (not_running_of_broke _ hbr)
  rcases hp with h1 | h2 | h3 | h4
  · exact absurd h1 hbr
  · right; left
    rw [rank_phase s, rank_phase (step env s w)]
    exact h2
  · exact Or.inl (not_running_of_status _ (convex_pass env s w h3.1 hok))
  · obtain ⟨ha, hb2, hw1, hw2⟩ := h4
    have hbb : (stepBody env s w).broke = false := by
      rw [← broke_step]
      simpa using hbr
    rcases redshift_pass env s w ha hw1 hw2 hok hbb with h5 | h5
    · exact Or.inl h5
    · exact Or.inr (Or.inr ⟨ha, hb2, h5⟩)

theorem rank_redshift (s : State) (h : s.look_for = .REDSHIFT_IDENTIFIER) : rank s = 80 := by
  simp [rank, h]

theorem running_cases (s : State) (h : s.running = true) :
    ∃ w, s.word = some w ∧ s.status = .ok ∧ s.broke = false := by
  cases hw : s.word with
  | none => simp [State.running, hw] at h
  | some w =>
    simp only [State.running, State.astOK, hw, Option.isSome_some, Bool.true_and,
      Bool.and_eq_true, decide_eq_true_eq, Bool.not_eq_true'] at h
    exact ⟨w, rfl, h.1, h.2⟩

theorem readLoop_halts (env : Env) (s : State) (hc : Consistent s) :
    ∃ n, (readLoop env n s).running = false := by
  have key : ∀ a b : Nat, ∀ s : State, Consistent s → 94 - rank s = a →
      inputLeft s.source s.con = b → ∃ n, (readLoop env n s).running = false := by
    intro a
    induction a using Nat.strong_induction_on with
    | _ a iha =>
      intro b
      induction b using Nat.strong_induction_on with
      | _ b ihb =>
        intro s hc ha hb
        by_cases hr : s.running = false
        · exact ⟨0, hr⟩
        · have hr2 : s.running = true := by simpa using hr
          obtain ⟨w, hw, hok, hbk⟩ := running_cases s hr2
          have hct := step_consistent env s w hc hbk
          rcases step_progress env s w hc hok hbk with h1 | h2 | h3
          · refine ⟨1, ?_⟩
            rw [readLoop_succ env 0 s w hw hok hbk]
            exact h1
          · have hle := rank_le (step env s w)
            obtain ⟨n, hn⟩ := iha (94 - rank (step env s w)) (by omega) _ (step env s w) hct
              rfl rfl
            refine ⟨n + 1, ?_⟩
            rw [readLoop_succ env n s w hw hok hbk]
            exact hn
          · obtain ⟨h3a, h3b, h3c⟩ := h3
            have hrk : 94 - rank (step env s w) = a := by
              rw [rank_redshift _ h3b, ← ha, rank_redshift _ h3a]
            obtain ⟨n, hn⟩ := ihb (inputLeft (step env s w).source (step env s w).con)
              (by omega) (step env s w) hct hrk rfl
            refine ⟨n + 1, ?_⟩
            rw [readLoop_succ env n s w hw hok hbk]
            exact hn
  exact key _ _ s hc rfl rfl

theorem readLoop_stays (env : Env) (n m : Nat) (s : State) (hn : n ≤ m)
    (h : (readLoop env n s).running = false) : readLoop env m s = readLoop env n s := by
  obtain ⟨k, rfl⟩ := Nat.exists_eq_add_of_le hn
  rw [readLoop_add, readLoop_stopped env k _ h]

/-! ## The inner loops that read numbers -/

theorem nextWord_input_le (s : State) :
    inputLeft s.nextWord.source s.nextWord.con ≤ inputLeft s.source s.con := by
  by_cases hs : s.status = .ok
  · simp only [State.nextWord, hs, if_true]
    cases hend : endOfInput s.source s.con with
    | true =>
      have hg := GetNextWord_at_end _ _ hend
      rw [hg]
      unfold endOfInput at hend
      simp only [Bool.and_eq_true, List.isEmpty_iff] at hend
      simp [inputLeft, hend.1]
    | false => exact Nat.le_of_lt (inputLeft_decreases _ _ hend)
  · simp only [State.nextWord, hs, if_false]
    exact le_refl _

theorem nextWord_numeric (env : Env) (hempty : env.chr2Double "" = none) (s : State)
    (h : (s.nextWord.chr2Double env).isSome = true) :
    inputLeft s.nextWord.source s.nextWord.con < inputLeft s.source s.con := by
  by_cases hs : s.status = .ok
  · cases hend : endOfInput s.source s.con with
    | true =>
      exfalso
      have hg := GetNextWord_at_end _ _ hend
      simp only [State.chr2Double, State.nextWord, hs, if_true, hg] at h
      split_ifs at h <;> simp [hempty] at h
    | false =>
      simp only [State.nextWord, hs, if_true]
      exact inputLeft_decreases _ _ hend
  · exfalso
    simp [State.chr2Double, State.nextWord, hs] at h

theorem numberRun_stops (env : Env) (hempty : env.chr2Double "" = none) (fuel : Nat)
    (s : State)
    (hf : (s.chr2Double env).isSome = true → inputLeft s.source s.con < fuel) :
    (numberRun env fuel s).1.status = s.status
    ∧ (numberRun env fuel s).1.chr2Double env = none := by
  induction fuel generalizing s with
  | zero =>
    have h0 : (s.chr2Double env).isSome = false := by
      cases h : (s.chr2Double env).isSome with
      | false => rfl
      | true => exact absurd (hf h) (Nat.not_lt_zero _)
    rw [numberRun]
    simp only [h0, Bool.false_eq_true, if_false]
    exact ⟨trivial, by simpa using h0⟩
  | succ fuel ih =>
    rw [numberRun]
    cases h : (s.chr2Double env).isSome with
    | false =>
      simp only [Bool.false_eq_true, if_false]
      exact ⟨trivial, by simpa using h⟩
    | true =>
      simp only [if_true]
      have h1 := hf h
      have ih2 := ih ((s.append s.word).append (some " ")).nextWord (fun hn => by
        have := nextWord_numeric env hempty _ hn
        have e : inputLeft ((s.append s.word).append (some " ")).source
            ((s.append s.word).append (some " ")).con = inputLeft s.source s.con := rfl
        omega)
      exact ⟨ih2.1.trans rfl, ih2.2⟩

theorem axisLoop_pass_input (env : Env) (s : State) :
    inputLeft
        (((if s.chr2Double env = none then s.raise .badin else s).append
          (if s.chr2Double env = none then s.raise .badin else s).word).append (some " ")).source
        (((if s.chr2Double env = none then s.raise .badin else s).append
          (if s.chr2Double env = none then s.raise .badin else s).word).append (some " ")).con
      = inputLeft s.source s.con := by
  split <;> rfl

theorem axisLoop_pass_status (env : Env) (s : State) (h : NoHang s.status) :
    NoHang (((if s.chr2Double env = none then s.raise .badin else s).append
      (if s.chr2Double env = none then s.raise .badin else s).word).append
        (some " ")).nextWord.status := by
  split
  · show NoHang (if s.status = .ok then Status.badin else s.status)
    split
    · simp [NoHang]
    · exact h
  · exact h

theorem axisLoop_status (env : Env) (n : Nat) (s : State) (h : NoHang s.status) :
    NoHang (axisLoop env n s).1.status := by
  induction n generalizing s with
  | zero => exact h
  | succ n ih =>
    rw [axisLoop]
    simp only []
    exact ih _ (axisLoop_pass_status env s h)

theorem axisLoop_input_le (env : Env) (n : Nat) (s : State) :
    inputLeft (axisLoop env n s).1.source (axisLoop env n s).1.con
      ≤ inputLeft s.source s.con := by
  induction n generalizing s with
  | zero => exact le_refl _
  | succ n ih =>
    rw [axisLoop]
    simp only []
    refine le_trans (ih _) ?_
    refine le_trans (nextWord_input_le _) ?_
    exact le_of_eq (axisLoop_pass_input env s)

theorem axisLoop_numeric (env : Env) (hempty : env.chr2Double "" = none) (n : Nat)
    (s : State) (hn : n ≠ 0) (h : ((axisLoop env n s).1.chr2Double env).isSome = true) :
    inputLeft (axisLoop env n s).1.source (axisLoop env n s).1.con
      < inputLeft s.source s.con := by
  induction n generalizing s with
  | zero => exact absurd rfl hn
  | succ n ih =>
    rw [axisLoop] at h ⊢
    simp only [] at h ⊢
    cases n with
    | zero =>
      rw [axisLoop] at h ⊢
      simp only [] at h ⊢
      have h1 := nextWord_numeric env hempty _ h
      rw [axisLoop_pass_input env s] at h1
      exact h1
    | succ n =>
      have h1 := ih _ (Nat.succ_ne_zero n) h
      refine lt_of_lt_of_le h1 ?_
      refine le_trans (nextWord_input_le _) ?_
      exact le_of_eq (axisLoop_pass_input env s)

theorem polygonRest_stops (env : Env) (hempty : env.chr2Double "" = none) (naxes : Nat)
    (hn : naxes ≠ 0) (fuel : Nat) (s : State) (temp : List ℚ) (nvert : Nat)
    (hf : (s.chr2Double env).isSome = true → inputLeft s.source s.con < fuel)
    (h : NoHang s.status) :
    NoHang (polygonRest env naxes fuel s temp nvert).1.status
    ∧ (polygonRest env naxes fuel s temp nvert).1.chr2Double env = none := by
  induction fuel generalizing s temp nvert with
  | zero =>
    have h0 : (s.chr2Double env).isSome = false := by
      cases h : (s.chr2Double env).isSome with
      | false => rfl
      | true => exact absurd (hf h) (Nat.not_lt_zero _)
    rw [polygonRest]
    simp only [h0, Bool.false_eq_true, if_false]
    exact ⟨h, by simpa using h0⟩
  | succ fuel ih =>
    rw [polygonRest]
    cases hc : (s.chr2Double env).isSome with
    | false =>
      simp only [Bool.false_eq_true, if_false]
      exact ⟨h, by simpa using hc⟩
    | true =>
      simp only [if_true]
      have h1 := hf hc
      exact ih (axisLoop env naxes s).1 _ _ (fun hx => by
        have := axisLoop_numeric env hempty naxes s hn hx
        omega) (axisLoop_status env naxes s h)

set_option linter.unreachableTactic false
set_option linter.unusedTactic false

/-! ## No inner loop runs out of input -/

theorem nh_ite {c : Prop} [Decidable c] {a b : State} (ha : NoHang a.status)
    (hb : NoHang b.status) : NoHang (if c then a else b).status := by
  split_ifs <;> assumption

theorem nh_code {c : Prop} [Decidable c] {st : Status} (h : NoHang st) :
    NoHang (if c then Status.badin else st) := by
  split_ifs
  · simp [NoHang]
  · exact h

theorem nh_fault {c : Prop} [Decidable c] {st : Status} (h : NoHang st) :
    NoHang (if c then Status.fault else st) := by
  split_ifs
  · simp [NoHang]
  · exact h

theorem nh_warn {s : State} {l : Nat} {t : String} {a : List String} (h : NoHang s.status) :
    NoHang (s.warn l t a).status := h

theorem nh_nextWord {s : State} (h : NoHang s.status) : NoHang s.nextWord.status := h

theorem nh_append {s : State} {v : Option String} (h : NoHang s.status) :
    NoHang (s.append v).status := h

theorem nh_chop {s : State} (h : NoHang s.status) : NoHang s.chop.status := by
  unfold State.chop
  split
  · simp [NoHang]
  · exact h

theorem nh_raise {s : State} (h : NoHang s.status) : NoHang (s.raise .badin).status :=
  nh_code h

theorem nh_crash {s : State} (h : NoHang s.status) : NoHang s.crash.status := nh_fault h

theorem nh_mapPut {s : State} {k : String} {v : Option String} (h : NoHang s.status) :
    NoHang (s.mapPut k v).status := nh_fault h

theorem nh_mapPutProp {s : State} {k : String} (h : NoHang s.status) :
    NoHang (s.mapPutProp k).status := nh_fault h

theorem nh_setTimeScale {s : State} {t : TimeScale} (h : NoHang s.status) :
    NoHang (s.setTimeScale t).status := nh_fault h

theorem nh_setSpaceFrm {s : State} {g : AstFrame → AstFrame} (h : NoHang s.status) :
    NoHang (s.setSpaceFrm g).status := nh_fault h

theorem nh_setRedFrm {s : State} {g : AstFrame → AstFrame} (h : NoHang s.status) :
    NoHang (s.setRedFrm g).status := nh_fault h

theorem nh_setSpecFrm {s : State} {g : AstFrame → AstFrame} (h : NoHang s.status) :
    NoHang (s.setSpecFrm g).status := nh_fault h

theorem nh_needNumber {env : Env} {s : State} (h : NoHang s.status) :
    NoHang (s.needNumber env).status := nh_code h

theorem nh_finishTime {env : Env} {s : State} (h : NoHang s.status) :
    NoHang (finishTime env s).status := by
  unfold finishTime
  split
  · exact nh_fault h
  · exact h

theorem nh_spaceEnclosure {env : Env} {s : State} {frm : AstFrame} (h : NoHang s.status) :
    NoHang (spaceEnclosure env s frm).status := by
  unfold spaceEnclosure
  simp only []
  split_ifs
  all_goals try split
  all_goals first
    | exact h
    | simp [NoHang]

theorem nh_finishSpace {env : Env} {s : State} (h : NoHang s.status) :
    NoHang (finishSpace env s).status := by
  unfold finishSpace
  split
  · exact h
  · exact nh_spaceEnclosure h

theorem nh_finishSpec {env : Env} {s : State} (h : NoHang s.status) :
    NoHang (finishSpec env s).status := by
  rw [finishSpec_status]
  exact h

theorem nh_axisLoop {env : Env} {n : Nat} {s : State} (h : NoHang s.status) :
    NoHang (axisLoop env n s).1.status := axisLoop_status env n s h

theorem nh_errorLoop {env : Env} {n : Nat} {s : State} (h : NoHang s.status) :
    NoHang (errorLoop env n s).1.status := by
  induction n generalizing s with
  | zero => exact h
  | succ n ih =>
    rw [errorLoop]
    simp only []
    split
    · exact h
    · exact ih h

theorem nh_numberRun {env : Env} (hempty : env.chr2Double "" = none) {s : State}
    (h : NoHang s.status) : NoHang (numberRun env (s.inputSize + 1) s).1.status := by
  rw [(numberRun_stops env hempty (s.inputSize + 1) s (fun _ => Nat.lt_succ_self _)).1]
  exact h

theorem nh_readTime {env : Env} {s : State} {w : String} {old : Option ℚ} {b : Bool}
    (h : NoHang s.status) : NoHang (readTime env s w old b).1.status := by
  unfold readTime
  simp only []
  split_ifs
  all_goals first
    | exact nh_code h
    | exact h
    | (split
       · exact nh_fault h
       · split
         · exact h
         · exact nh_code h)

theorem nh_unitWord {s : State} {w : String} (h : NoHang s.status) :
    NoHang (unitWord s w).status := by
  unfold unitWord
  split
  · simp only []
    split
    · exact nh_fault h
    · exact nh_fault h
  · exact h

theorem nh_dopplerDef {s : State} (h : NoHang s.status) : NoHang (dopplerDef s).status := by
  unfold dopplerDef
  split
  · exact nh_fault h
  · split_ifs
    all_goals first
      | exact h
      | exact nh_fault h

theorem nh_stepPolygon {env : Env} (hempty : env.chr2Double "" = none) {s : State}
    {w : String} (h : NoHang s.status) : NoHang (stepPolygon env s w).status := by
  unfold stepPolygon
  simp only []
  split
  · exact h
  · rename_i hn
    have h1 : NoHang (axisLoop env s.naxes { s with nc := 0 }).1.status :=
      axisLoop_status env _ _ h
    have h2 := (polygonRest_stops env hempty s.naxes hn
      ((axisLoop env s.naxes { s with nc := 0 }).1.inputSize + 1)
      (axisLoop env s.naxes { s with nc := 0 }).1
      (axisLoop env s.naxes { s with nc := 0 }).2 1 (fun _ => Nat.lt_succ_self _) h1).1
    split
    · exact nh_fault (nh_chop h2)
    · exact nh_fault (nh_chop h2)

theorem nh_stepTimeIdentifier {s : State} {w : String} (h : NoHang s.status) :
    NoHang (stepTimeIdentifier s w).status := by
  unfold stepTimeIdentifier
  repeat' first
    | with_reducible exact h
    | with_reducible apply nh_ite
    | with_reducible apply nh_code
    | with_reducible apply nh_fault
    | with_reducible apply nh_warn
    | with_reducible apply nh_nextWord
    | with_reducible apply nh_append
    | with_reducible apply nh_chop
    | with_reducible apply nh_raise
    | with_reducible apply nh_crash
    | with_reducible apply nh_mapPut
    | with_reducible apply nh_mapPutProp
    | with_reducible apply nh_setTimeScale
    | with_reducible apply nh_setSpaceFrm
    | with_reducible apply nh_setRedFrm
    | with_reducible apply nh_setSpecFrm
    | with_reducible apply nh_needNumber
    | with_reducible apply nh_finishTime
    | with_reducible apply nh_finishSpace
    | with_reducible apply nh_finishSpec
    | with_reducible apply nh_axisLoop
    | with_reducible apply nh_errorLoop
    | with_reducible apply nh_readTime
    | with_reducible apply nh_unitWord
    | with_reducible apply nh_dopplerDef
    | split

theorem nh_stepSpaceIdentifier {env : Env} {s : State} {w : String} (h : NoHang s.status) :
    NoHang (stepSpaceIdentifier env s w).status := by
  unfold stepSpaceIdentifier
  repeat' first
    | with_reducible exact h
    | with_reducible apply nh_ite
    | with_reducible apply nh_code
    | with_reducible apply nh_fault
    | with_reducible apply nh_warn
    | with_reducible apply nh_nextWord
    | with_reducible apply nh_append
    | with_reducible apply nh_chop
    | with_reducible apply nh_raise
    | with_reducible apply nh_crash
    | with_reducible apply nh_mapPut
    | with_reducible apply nh_mapPutProp
    | with_reducible apply nh_setTimeScale
    | with_reducible apply nh_setSpaceFrm
    | with_reducible apply nh_setRedFrm
    | with_reducible apply nh_setSpecFrm
    | with_reducible apply nh_needNumber
    | with_reducible apply nh_finishTime
    | with_reducible apply nh_finishSpace
    | with_reducible apply nh_finishSpec
    | with_reducible apply nh_axisLoop
    | with_reducible apply nh_errorLoop
    | with_reducible apply nh_readTime
    | with_reducible apply nh_unitWord
    | with_reducible apply nh_dopplerDef
    | split

theorem nh_stepVelocityIdentifier {env : Env} {s : State} {w : String} (h : NoHang s.status) :
    NoHang (stepVelocityIdentifier env s w).status := by
  unfold stepVelocityIdentifier
  repeat' first
    | with_reducible exact h
    | with_reducible apply nh_ite
    | with_reducible apply nh_code
    | with_reducible apply nh_fault
    | with_reducible apply nh_warn
    | with_reducible apply nh_nextWord
    | with_reducible apply nh_append
    | with_reducible apply nh_chop
    | with_reducible apply nh_raise
    | with_reducible apply nh_crash
    | with_reducible apply nh_mapPut
    | with_reducible apply nh_mapPutProp
    | with_reducible apply nh_setTimeScale
    | with_reducible apply nh_setSpaceFrm
    | with_reducible apply nh_setRedFrm
    | with_reducible apply nh_setSpecFrm
    | with_reducible apply nh_needNumber
    | with_reducible apply nh_finishTime
    | with_reducible apply nh_finishSpace
    | with_reducible apply nh_finishSpec
    | with_reducible apply nh_axisLoop
    | with_reducible apply nh_errorLoop
    | with_reducible apply nh_readTime
    | with_reducible apply nh_unitWord
    | with_reducible apply nh_dopplerDef
    | split

theorem nh_stepSpectralIdentifier {s : State} {w : String} (h : NoHang s.status) :
    NoHang (stepSpectralIdentifier s w).status := by
  unfold stepSpectralIdentifier
  repeat' first
    | with_reducible exact h
    | with_reducible apply nh_ite
    | with_reducible apply nh_code
    | with_reducible apply nh_fault
    | with_reducible apply nh_warn
    | with_reducible apply nh_nextWord
    | with_reducible apply nh_append
    | with_reducible apply nh_chop
    | with_reducible apply nh_raise
    | with_reducible apply nh_crash
    | with_reducible apply nh_mapPut
    | with_reducible apply nh_mapPutProp
    | with_reducible apply nh_setTimeScale
    | with_reducible apply nh_setSpaceFrm
    | with_reducible apply nh_setRedFrm
    | with_reducible apply nh_setSpecFrm
    | with_reducible apply nh_needNumber
    | with_reducible apply nh_finishTime
    | with_reducible apply nh_finishSpace
    | with_reducible apply nh_finishSpec
    | with_reducible apply nh_axisLoop
    | with_reducible apply nh_errorLoop
    | with_reducible apply nh_readTime
    | with_reducible apply nh_unitWord
    | with_reducible apply nh_dopplerDef
    | split

theorem nh_stepRedshiftIdentifier {env : Env} {s : State} {w : String} (h : NoHang s.status) :
    NoHang (stepRedshiftIdentifier env s w).status := by
  unfold stepRedshiftIdentifier
  repeat' first
    | with_reducible exact h
    | with_reducible apply nh_ite
    | with_reducible apply nh_code
    | with_reducible apply nh_fault
    | with_reducible apply nh_warn
    | with_reducible apply nh_nextWord
    | with_reducible apply nh_append
    | with_reducible apply nh_chop
    | with_reducible apply nh_raise
    | with_reducible apply nh_crash
    | with_reducible apply nh_mapPut
    | with_reducible apply nh_mapPutProp
    | with_reducible apply nh_setTimeScale
    | with_reducible apply nh_setSpaceFrm
    | with_reducible apply nh_setRedFrm
    | with_reducible apply nh_setSpecFrm
    | with_reducible apply nh_needNumber
    | with_reducible apply nh_finishTime
    | with_reducible apply nh_finishSpace
    | with_reducible apply nh_finishSpec
    | with_reducible apply nh_axisLoop
    | with_reducible apply nh_errorLoop
    | with_reducible apply nh_readTime
    | with_reducible apply nh_unitWord
    | with_reducible apply nh_dopplerDef
    | split

theorem nh_stepFillFactor {env : Env} {s : State} {w : String} (h : NoHang s.status) :
    NoHang (stepFillFactor env s w).status := by
  unfold stepFillFactor
  repeat' first
    | with_reducible exact h
    | with_reducible apply nh_ite
    | with_reducible apply nh_code
    | with_reducible apply nh_fault
    | with_reducible apply nh_warn
    | with_reducible apply nh_nextWord
    | with_reducible apply nh_append
    | with_reducible apply nh_chop
    | with_reducible apply nh_raise
    | with_reducible apply nh_crash
    | with_reducible apply nh_mapPut
    | with_reducible apply nh_mapPutProp
    | with_reducible apply nh_setTimeScale
    | with_reducible apply nh_setSpaceFrm
    | with_reducible apply nh_setRedFrm
    | with_reducible apply nh_setSpecFrm
    | with_reducible apply nh_needNumber
    | with_reducible apply nh_finishTime
    | with_reducible apply nh_finishSpace
    | with_reducible apply nh_finishSpec
    | with_reducible apply nh_axisLoop
    | with_reducible apply nh_errorLoop
    | with_reducible apply nh_readTime
    | with_reducible apply nh_unitWord
    | with_reducible apply nh_dopplerDef
    | split

theorem nh_stepTimeScale {s : State} {w : String} (h : NoHang s.status) :
    NoHang (stepTimeScale s w).status := by
  by_cases hw : w ∈ timeScaleWords
  · simp only [timeScaleWords, List.mem_cons, List.mem_singleton, List.not_mem_nil,
      or_false] at hw
    rcases hw with rfl | rfl | rfl | rfl | rfl | rfl | rfl | rfl | rfl | rfl | rfl | rfl <;>
      simp only [stepTimeScale, String.reduceEq, if_true, if_false] <;>
      repeat' first
        | with_reducible exact h
        | with_reducible apply nh_ite
        | with_reducible apply nh_warn
        | with_reducible apply nh_mapPut
        | with_reducible apply nh_setTimeScale
        | split
  · simp only [timeScaleWords, List.mem_cons, List.mem_singleton, List.not_mem_nil,
      or_false, not_or] at hw
    simp only [stepTimeScale, hw, if_true, if_false]
    repeat' first
      | with_reducible exact h
      | with_reducible apply nh_ite
      | with_reducible apply nh_warn
      | with_reducible apply nh_mapPut
      | with_reducible apply nh_setTimeScale
      | split

theorem nh_stepFrame {s : State} {w : String} (h : NoHang s.status) :
    NoHang (stepFrame s w).status := by
  unfold stepFrame
  repeat' first
    | with_reducible exact h
    | with_reducible apply nh_ite
    | with_reducible apply nh_code
    | with_reducible apply nh_fault
    | with_reducible apply nh_warn
    | with_reducible apply nh_nextWord
    | with_reducible apply nh_append
    | with_reducible apply nh_chop
    | with_reducible apply nh_raise
    | with_reducible apply nh_crash
    | with_reducible apply nh_mapPut
    | with_reducible apply nh_mapPutProp
    | with_reducible apply nh_setTimeScale
    | with_reducible apply nh_setSpaceFrm
    | with_reducible apply nh_setRedFrm
    | with_reducible apply nh_setSpecFrm
    | with_reducible apply nh_needNumber
    | with_reducible apply nh_finishTime
    | with_reducible apply nh_finishSpace
    | with_reducible apply nh_finishSpec
    | with_reducible apply nh_axisLoop
    | with_reducible apply nh_errorLoop
    | with_reducible apply nh_readTime
    | with_reducible apply nh_unitWord
    | with_reducible apply nh_dopplerDef
    | split

theorem nh_stepRefPosTime {s : State} {w : String} (h : NoHang s.status) :
    NoHang (stepRefPosTime s w).status := by
  unfold stepRefPosTime
  repeat' first
    | with_reducible exact h
    | with_reducible apply nh_ite
    | with_reducible apply nh_code
    | with_reducible apply nh_fault
    | with_reducible apply nh_warn
    | with_reducible apply nh_nextWord
    | with_reducible apply nh_append
    | with_reducible apply nh_chop
    | with_reducible apply nh_raise
    | with_reducible apply nh_crash
    | with_reducible apply nh_mapPut
    | with_reducible apply nh_mapPutProp
    | with_reducible apply nh_setTimeScale
    | with_reducible apply nh_setSpaceFrm
    | with_reducible apply nh_setRedFrm
    | with_reducible apply nh_setSpecFrm
    | with_reducible apply nh_needNumber
    | with_reducible apply nh_finishTime
    | with_reducible apply nh_finishSpace
    | with_reducible apply nh_finishSpec
    | with_reducible apply nh_axisLoop
    | with_reducible apply nh_errorLoop
    | with_reducible apply nh_readTime
    | with_reducible apply nh_unitWord
    | with_reducible apply nh_dopplerDef
    | split

theorem nh_stepRefPosSpace {s : State} {w : String} (h : NoHang s.status) :
    NoHang (stepRefPosSpace s w).status := by
  unfold stepRefPosSpace
  repeat' first
    | with_reducible exact h
    | with_reducible apply nh_ite
    | with_reducible apply nh_code
    | with_reducible apply nh_fault
    | with_reducible apply nh_warn
    | with_reducible apply nh_nextWord
    | with_reducible apply nh_append
    | with_reducible apply nh_chop
    | with_reducible apply nh_raise
    | with_reducible apply nh_crash
    | with_reducible apply nh_mapPut
    | with_reducible apply nh_mapPutProp
    | with_reducible apply nh_setTimeScale
    | with_reducible apply nh_setSpaceFrm
    | with_reducible apply nh_setRedFrm
    | with_reducible apply nh_setSpecFrm
    | with_reducible apply nh_needNumber
    | with_reducible apply nh_finishTime
    | with_reducible apply nh_finishSpace
    | with_reducible apply nh_finishSpec
    | with_reducible apply nh_axisLoop
    | with_reducible apply nh_errorLoop
    | with_reducible apply nh_readTime
    | with_reducible apply nh_unitWord
    | with_reducible apply nh_dopplerDef
    | with_reducible apply nh_stepRefPosTime
    | split

theorem nh_stepRefPosSpec {s : State} {w : String} (h : NoHang s.status) :
    NoHang (stepRefPosSpec s w).status := by
  unfold stepRefPosSpec
  repeat' first
    | with_reducible exact h
    | with_reducible apply nh_ite
    | with_reducible apply nh_code
    | with_reducible apply nh_fault
    | with_reducible apply nh_warn
    | with_reducible apply nh_nextWord
    | with_reducible apply nh_append
    | with_reducible apply nh_chop
    | with_reducible apply nh_raise
    | with_reducible apply nh_crash
    | with_reducible apply nh_mapPut
    | with_reducible apply nh_mapPutProp
    | with_reducible apply nh_setTimeScale
    | with_reducible apply nh_setSpaceFrm
    | with_reducible apply nh_setRedFrm
    | with_reducible apply nh_setSpecFrm
    | with_reducible apply nh_needNumber
    | with_reducible apply nh_finishTime
    | with_reducible apply nh_finishSpace
    | with_reducible apply nh_finishSpec
    | with_reducible apply nh_axisLoop
    | with_reducible apply nh_errorLoop
    | with_reducible apply nh_readTime
    | with_reducible apply nh_unitWord
    | with_reducible apply nh_dopplerDef
    | with_reducible apply nh_stepRefPosTime
    | with_reducible apply nh_stepRefPosSpace
    | split

theorem nh_stepRefPos {s : State} {w : String} (h : NoHang s.status) :
    NoHang (stepRefPos s w).status := by
  unfold stepRefPos
  repeat' first
    | with_reducible exact h
    | with_reducible apply nh_ite
    | with_reducible apply nh_code
    | with_reducible apply nh_fault
    | with_reducible apply nh_warn
    | with_reducible apply nh_nextWord
    | with_reducible apply nh_append
    | with_reducible apply nh_chop
    | with_reducible apply nh_raise
    | with_reducible apply nh_crash
    | with_reducible apply nh_mapPut
    | with_reducible apply nh_mapPutProp
    | with_reducible apply nh_setTimeScale
    | with_reducible apply nh_setSpaceFrm
    | with_reducible apply nh_setRedFrm
    | with_reducible apply nh_setSpecFrm
    | with_reducible apply nh_needNumber
    | with_reducible apply nh_finishTime
    | with_reducible apply nh_finishSpace
    | with_reducible apply nh_finishSpec
    | with_reducible apply nh_axisLoop
    | with_reducible apply nh_errorLoop
    | with_reducible apply nh_readTime
    | with_reducible apply nh_unitWord
    | with_reducible apply nh_dopplerDef
    | with_reducible apply nh_stepRefPosTime
    | with_reducible apply nh_stepRefPosSpace
    | with_reducible apply nh_stepRefPosSpec
    | split

theorem nh_stepStart {env : Env} {s : State} {w : String} (h : NoHang s.status) :
    NoHang (stepStart env s w).status := by
  unfold stepStart
  repeat' first
    | with_reducible exact h
    | with_reducible apply nh_ite
    | with_reducible apply nh_code
    | with_reducible apply nh_fault
    | with_reducible apply nh_warn
    | with_reducible apply nh_nextWord
    | with_reducible apply nh_append
    | with_reducible apply nh_chop
    | with_reducible apply nh_raise
    | with_reducible apply nh_crash
    | with_reducible apply nh_mapPut
    | with_reducible apply nh_mapPutProp
    | with_reducible apply nh_setTimeScale
    | with_reducible apply nh_setSpaceFrm
    | with_reducible apply nh_setRedFrm
    | with_reducible apply nh_setSpecFrm
    | with_reducible apply nh_needNumber
    | with_reducible apply nh_finishTime
    | with_reducible apply nh_finishSpace
    | with_reducible apply nh_finishSpec
    | with_reducible apply nh_axisLoop
    | with_reducible apply nh_errorLoop
    | with_reducible apply nh_readTime
    | with_reducible apply nh_unitWord
    | with_reducible apply nh_dopplerDef
    | with_reducible apply nh_stepRefPosTime
    | with_reducible apply nh_stepRefPosSpace
    | with_reducible apply nh_stepRefPosSpec
    | split

theorem nh_stepStop {env : Env} {s : State} {w : String} (h : NoHang s.status) :
    NoHang (stepStop env s w).status := by
  unfold stepStop
  repeat' first
    | with_reducible exact h
    | with_reducible apply nh_ite
    | with_reducible apply nh_code
    | with_reducible apply nh_fault
    | with_reducible apply nh_warn
    | with_reducible apply nh_nextWord
    | with_reducible apply nh_append
    | with_reducible apply nh_chop
    | with_reducible apply nh_raise
    | with_reducible apply nh_crash
    | with_reducible apply nh_mapPut
    | with_reducible apply nh_mapPutProp
    | with_reducible apply nh_setTimeScale
    | with_reducible apply nh_setSpaceFrm
    | with_reducible apply nh_setRedFrm
    | with_reducible apply nh_setSpecFrm
    | with_reducible apply nh_needNumber
    | with_reducible apply nh_finishTime
    | with_reducible apply nh_finishSpace
    | with_reducible apply nh_finishSpec
    | with_reducible apply nh_axisLoop
    | with_reducible apply nh_errorLoop
    | with_reducible apply nh_readTime
    | with_reducible apply nh_unitWord
    | with_reducible apply nh_dopplerDef
    | with_reducible apply nh_stepRefPosTime
    | with_reducible apply nh_stepRefPosSpace
    | with_reducible apply nh_stepRefPosSpec
    | split

theorem nh_stepTimeLabel {s : State} {w : String} (h : NoHang s.status) :
    NoHang (stepTimeLabel s w).status := by
  unfold stepTimeLabel
  repeat' first
    | with_reducible exact h
    | with_reducible apply nh_ite
    | with_reducible apply nh_code
    | with_reducible apply nh_fault
    | with_reducible apply nh_warn
    | with_reducible apply nh_nextWord
    | with_reducible apply nh_append
    | with_reducible apply nh_chop
    | with_reducible apply nh_raise
    | with_reducible apply nh_crash
    | with_reducible apply nh_mapPut
    | with_reducible apply nh_mapPutProp
    | with_reducible apply nh_setTimeScale
    | with_reducible apply nh_setSpaceFrm
    | with_reducible apply nh_setRedFrm
    | with_reducible apply nh_setSpecFrm
    | with_reducible apply nh_needNumber
    | with_reducible apply nh_finishTime
    | with_reducible apply nh_finishSpace
    | with_reducible apply nh_finishSpec
    | with_reducible apply nh_axisLoop
    | with_reducible apply nh_errorLoop
    | with_reducible apply nh_readTime
    | with_reducible apply nh_unitWord
    | with_reducible apply nh_dopplerDef
    | with_reducible apply nh_stepRefPosTime
    | with_reducible apply nh_stepRefPosSpace
    | with_reducible apply nh_stepRefPosSpec
    | split

theorem nh_stepTime {env : Env} {s : State} {w : String} (h : NoHang s.status) :
    NoHang (stepTime env s w).status := by
  unfold stepTime
  repeat' first
    | with_reducible exact h
    | with_reducible apply nh_ite
    | with_reducible apply nh_code
    | with_reducible apply nh_fault
    | with_reducible apply nh_warn
    | with_reducible apply nh_nextWord
    | with_reducible apply nh_append
    | with_reducible apply nh_chop
    | with_reducible apply nh_raise
    | with_reducible apply nh_crash
    | with_reducible apply nh_mapPut
    | with_reducible apply nh_mapPutProp
    | with_reducible apply nh_setTimeScale
    | with_reducible apply nh_setSpaceFrm
    | with_reducible apply nh_setRedFrm
    | with_reducible apply nh_setSpecFrm
    | with_reducible apply nh_needNumber
    | with_reducible apply nh_finishTime
    | with_reducible apply nh_finishSpace
    | with_reducible apply nh_finishSpec
    | with_reducible apply nh_axisLoop
    | with_reducible apply nh_errorLoop
    | with_reducible apply nh_readTime
    | with_reducible apply nh_unitWord
    | with_reducible apply nh_dopplerDef
    | with_reducible apply nh_stepRefPosTime
    | with_reducible apply nh_stepRefPosSpace
    | with_reducible apply nh_stepRefPosSpec
    | split

theorem nh_flavourFrame {s : State} {w : String} (h : NoHang s.status) :
    NoHang (flavourFrame s w).status := by
  unfold flavourFrame
  repeat' first
    | with_reducible exact h
    | with_reducible apply nh_ite
    | with_reducible apply nh_code
    | with_reducible apply nh_fault
    | with_reducible apply nh_warn
    | with_reducible apply nh_nextWord
    | with_reducible apply nh_append
    | with_reducible apply nh_chop
    | with_reducible apply nh_raise
    | with_reducible apply nh_crash
    | with_reducible apply nh_mapPut
    | with_reducible apply nh_mapPutProp
    | with_reducible apply nh_setTimeScale
    | with_reducible apply nh_setSpaceFrm
    | with_reducible apply nh_setRedFrm
    | with_reducible apply nh_setSpecFrm
    | with_reducible apply nh_needNumber
    | with_reducible apply nh_finishTime
    | with_reducible apply nh_finishSpace
    | with_reducible apply nh_finishSpec
    | with_reducible apply nh_axisLoop
    | with_reducible apply nh_errorLoop
    | with_reducible apply nh_readTime
    | with_reducible apply nh_unitWord
    | with_reducible apply nh_dopplerDef
    | with_reducible apply nh_stepRefPosTime
    | with_reducible apply nh_stepRefPosSpace
    | with_reducible apply nh_stepRefPosSpec
    | split

theorem nh_flavourCheck {s : State} (h : NoHang s.status) :
    NoHang (flavourCheck s).status := by
  unfold flavourCheck
  repeat' first
    | with_reducible exact h
    | with_reducible apply nh_ite
    | with_reducible apply nh_code
    | with_reducible apply nh_fault
    | with_reducible apply nh_warn
    | with_reducible apply nh_nextWord
    | with_reducible apply nh_append
    | with_reducible apply nh_chop
    | with_reducible apply nh_raise
    | with_reducible apply nh_crash
    | with_reducible apply nh_mapPut
    | with_reducible apply nh_mapPutProp
    | with_reducible apply nh_setTimeScale
    | with_reducible apply nh_setSpaceFrm
    | with_reducible apply nh_setRedFrm
    | with_reducible apply nh_setSpecFrm
    | with_reducible apply nh_needNumber
    | with_reducible apply nh_finishTime
    | with_reducible apply nh_finishSpace
    | with_reducible apply nh_finishSpec
    | with_reducible apply nh_axisLoop
    | with_reducible apply nh_errorLoop
    | with_reducible apply nh_readTime
    | with_reducible apply nh_unitWord
    | with_reducible apply nh_dopplerDef
    | with_reducible apply nh_stepRefPosTime
    | with_reducible apply nh_stepRefPosSpace
    | with_reducible apply nh_stepRefPosSpec
    | with_reducible apply nh_flavourFrame
    | split

theorem nh_flavourSystem {s : State} (h : NoHang s.status) :
    NoHang (flavourSystem s).status := by
  unfold flavourSystem
  repeat' first
    | with_reducible exact h
    | with_reducible apply nh_ite
    | with_reducible apply nh_code
    | with_reducible apply nh_fault
    | with_reducible apply nh_warn
    | with_reducible apply nh_nextWord
    | with_reducible apply nh_append
    | with_reducible apply nh_chop
    | with_reducible apply nh_raise
    | with_reducible apply nh_crash
    | with_reducible apply nh_mapPut
    | with_reducible apply nh_mapPutProp
    | with_reducible apply nh_setTimeScale
    | with_reducible apply nh_setSpaceFrm
    | with_reducible apply nh_setRedFrm
    | with_reducible apply nh_setSpecFrm
    | with_reducible apply nh_needNumber
    | with_reducible apply nh_finishTime
    | with_reducible apply nh_finishSpace
    | with_reducible apply nh_finishSpec
    | with_reducible apply nh_axisLoop
    | with_reducible apply nh_errorLoop
    | with_reducible apply nh_readTime
    | with_reducible apply nh_unitWord
    | with_reducible apply nh_dopplerDef
    | with_reducible apply nh_stepRefPosTime
    | with_reducible apply nh_stepRefPosSpace
    | with_reducible apply nh_stepRefPosSpec
    | with_reducible apply nh_flavourFrame
    | with_reducible apply nh_flavourCheck
    | split

theorem nh_flavourDomain {s : State} (h : NoHang s.status) :
    NoHang (flavourDomain s).status := by
  unfold flavourDomain
  repeat' first
    | with_reducible exact h
    | with_reducible apply nh_ite
    | with_reducible apply nh_code
    | with_reducible apply nh_fault
    | with_reducible apply nh_warn
    | with_reducible apply nh_nextWord
    | with_reducible apply nh_append
    | with_reducible apply nh_chop
    | with_reducible apply nh_raise
    | with_reducible apply nh_crash
    | with_reducible apply nh_mapPut
    | with_reducible apply nh_mapPutProp
    | with_reducible apply nh_setTimeScale
    | with_reducible apply nh_setSpaceFrm
    | with_reducible apply nh_setRedFrm
    | with_reducible apply nh_setSpecFrm
    | with_reducible apply nh_needNumber
    | with_reducible apply nh_finishTime
    | with_reducible apply nh_finishSpace
    | with_reducible apply nh_finishSpec
    | with_reducible apply nh_axisLoop
    | with_reducible apply nh_errorLoop
    | with_reducible apply nh_readTime
    | with_reducible apply nh_unitWord
    | with_reducible apply nh_dopplerDef
    | with_reducible apply nh_stepRefPosTime
    | with_reducible apply nh_stepRefPosSpace
    | with_reducible apply nh_stepRefPosSpec
    | with_reducible apply nh_flavourFrame
    | with_reducible apply nh_flavourCheck
    | with_reducible apply nh_flavourSystem
    | split

theorem nh_flavourNext {s : State} (h : NoHang s.status) :
    NoHang (flavourNext s).status := by
  unfold flavourNext
  repeat' first
    | with_reducible exact h
    | with_reducible apply nh_ite
    | with_reducible apply nh_code
    | with_reducible apply nh_fault
    | with_reducible apply nh_warn
    | with_reducible apply nh_nextWord
    | with_reducible apply nh_append
    | with_reducible apply nh_chop
    | with_reducible apply nh_raise
    | with_reducible apply nh_crash
    | with_reducible apply nh_mapPut
    | with_reducible apply nh_mapPutProp
    | with_reducible apply nh_setTimeScale
    | with_reducible apply nh_setSpaceFrm
    | with_reducible apply nh_setRedFrm
    | with_reducible apply nh_setSpecFrm
    | with_reducible apply nh_needNumber
    | with_reducible apply nh_finishTime
    | with_reducible apply nh_finishSpace
    | with_reducible apply nh_finishSpec
    | with_reducible apply nh_axisLoop
    | with_reducible apply nh_errorLoop
    | with_reducible apply nh_readTime
    | with_reducible apply nh_unitWord
    | with_reducible apply nh_dopplerDef
    | with_reducible apply nh_stepRefPosTime
    | with_reducible apply nh_stepRefPosSpace
    | with_reducible apply nh_stepRefPosSpec
    | with_reducible apply nh_flavourFrame
    | with_reducible apply nh_flavourCheck
    | with_reducible apply nh_flavourSystem
    | with_reducible apply nh_flavourDomain
    | split

theorem nh_stepFlavour {s : State} {w : String} (h : NoHang s.status) :
    NoHang (stepFlavour s w).status := by
  unfold stepFlavour
  repeat' first
    | with_reducible exact h
    | with_reducible apply nh_ite
    | with_reducible apply nh_code
    | with_reducible apply nh_fault
    | with_reducible apply nh_warn
    | with_reducible apply nh_nextWord
    | with_reducible apply nh_append
    | with_reducible apply nh_chop
    | with_reducible apply nh_raise
    | with_reducible apply nh_crash
    | with_reducible apply nh_mapPut
    | with_reducible apply nh_mapPutProp
    | with_reducible apply nh_setTimeScale
    | with_reducible apply nh_setSpaceFrm
    | with_reducible apply nh_setRedFrm
    | with_reducible apply nh_setSpecFrm
    | with_reducible apply nh_needNumber
    | with_reducible apply nh_finishTime
    | with_reducible apply nh_finishSpace
    | with_reducible apply nh_finishSpec
    | with_reducible apply nh_axisLoop
    | with_reducible apply nh_errorLoop
    | with_reducible apply nh_readTime
    | with_reducible apply nh_unitWord
    | with_reducible apply nh_dopplerDef
    | with_reducible apply nh_stepRefPosTime
    | with_reducible apply nh_stepRefPosSpace
    | with_reducible apply nh_stepRefPosSpec
    | with_reducible apply nh_flavourFrame
    | with_reducible apply nh_flavourCheck
    | with_reducible apply nh_flavourSystem
    | with_reducible apply nh_flavourDomain
    | with_reducible apply nh_flavourNext
    | split

theorem nh_limitsLow {env : Env} {s : State} (h : NoHang s.status) :
    NoHang (limitsLow env s).status := by
  unfold limitsLow
  repeat' first
    | with_reducible exact h
    | with_reducible apply nh_ite
    | with_reducible apply nh_code
    | with_reducible apply nh_fault
    | with_reducible apply nh_warn
    | with_reducible apply nh_nextWord
    | with_reducible apply nh_append
    | with_reducible apply nh_chop
    | with_reducible apply nh_raise
    | with_reducible apply nh_crash
    | with_reducible apply nh_mapPut
    | with_reducible apply nh_mapPutProp
    | with_reducible apply nh_setTimeScale
    | with_reducible apply nh_setSpaceFrm
    | with_reducible apply nh_setRedFrm
    | with_reducible apply nh_setSpecFrm
    | with_reducible apply nh_needNumber
    | with_reducible apply nh_finishTime
    | with_reducible apply nh_finishSpace
    | with_reducible apply nh_finishSpec
    | with_reducible apply nh_axisLoop
    | with_reducible apply nh_errorLoop
    | with_reducible apply nh_readTime
    | with_reducible apply nh_unitWord
    | with_reducible apply nh_dopplerDef
    | with_reducible apply nh_stepRefPosTime
    | with_reducible apply nh_stepRefPosSpace
    | with_reducible apply nh_stepRefPosSpec
    | with_reducible apply nh_flavourFrame
    | with_reducible apply nh_flavourCheck
    | with_reducible apply nh_flavourSystem
    | with_reducible apply nh_flavourDomain
    | with_reducible apply nh_flavourNext
    | split

theorem nh_limitsHigh {env : Env} {s : State} (h : NoHang s.status) :
    NoHang (limitsHigh env s).status := by
  unfold limitsHigh
  repeat' first
    | with_reducible exact h
    | with_reducible apply nh_ite
    | with_reducible apply nh_code
    | with_reducible apply nh_fault
    | with_reducible apply nh_warn
    | with_reducible apply nh_nextWord
    | with_reducible apply nh_append
    | with_reducible apply nh_chop
    | with_reducible apply nh_raise
    | with_reducible apply nh_crash
    | with_reducible apply nh_mapPut
    | with_reducible apply nh_mapPutProp
    | with_reducible apply nh_setTimeScale
    | with_reducible apply nh_setSpaceFrm
    | with_reducible apply nh_setRedFrm
    | with_reducible apply nh_setSpecFrm
    | with_reducible apply nh_needNumber
    | with_reducible apply nh_finishTime
    | with_reducible apply nh_finishSpace
    | with_reducible apply nh_finishSpec
    | with_reducible apply nh_axisLoop
    | with_reducible apply nh_errorLoop
    | with_reducible apply nh_readTime
    | with_reducible apply nh_unitWord
    | with_reducible apply nh_dopplerDef
    | with_reducible apply nh_stepRefPosTime
    | with_reducible apply nh_stepRefPosSpace
    | with_reducible apply nh_stepRefPosSpec
    | with_reducible apply nh_flavourFrame
    | with_reducible apply nh_flavourCheck
    | with_reducible apply nh_flavourSystem
    | with_reducible apply nh_flavourDomain
    | with_reducible apply nh_flavourNext
    | with_reducible apply nh_limitsLow
    | split

theorem nh_stepLimits {env : Env} {s : State} {w : String} (h : NoHang s.status) :
    NoHang (stepLimits env s w).status := by
  unfold stepLimits
  repeat' first
    | with_reducible exact h
    | with_reducible apply nh_ite
    | with_reducible apply nh_code
    | with_reducible apply nh_fault
    | with_reducible apply nh_warn
    | with_reducible apply nh_nextWord
    | with_reducible apply nh_append
    | with_reducible apply nh_chop
    | with_reducible apply nh_raise
    | with_reducible apply nh_crash
    | with_reducible apply nh_mapPut
    | with_reducible apply nh_mapPutProp
    | with_reducible apply nh_setTimeScale
    | with_reducible apply nh_setSpaceFrm
    | with_reducible apply nh_setRedFrm
    | with_reducible apply nh_setSpecFrm
    | with_reducible apply nh_needNumber
    | with_reducible apply nh_finishTime
    | with_reducible apply nh_finishSpace
    | with_reducible apply nh_finishSpec
    | with_reducible apply nh_axisLoop
    | with_reducible apply nh_errorLoop
    | with_reducible apply nh_readTime
    | with_reducible apply nh_unitWord
    | with_reducible apply nh_dopplerDef
    | with_reducible apply nh_stepRefPosTime
    | with_reducible apply nh_stepRefPosSpace
    | with_reducible apply nh_stepRefPosSpec
    | with_reducible apply nh_flavourFrame
    | with_reducible apply nh_flavourCheck
    | with_reducible apply nh_flavourSystem
    | with_reducible apply nh_flavourDomain
    | with_reducible apply nh_flavourNext
    | with_reducible apply nh_limitsLow
    | with_reducible apply nh_limitsHigh
    | split

theorem nh_stepRedSpecLabel {s : State} {w : String} (h : NoHang s.status) :
    NoHang (stepRedSpecLabel s w).status := by
  unfold stepRedSpecLabel
  repeat' first
    | with_reducible exact h
    | with_reducible apply nh_ite
    | with_reducible apply nh_code
    | with_reducible apply nh_fault
    | with_reducible apply nh_warn
    | with_reducible apply nh_nextWord
    | with_reducible apply nh_append
    | with_reducible apply nh_chop
    | with_reducible apply nh_raise
    | with_reducible apply nh_crash
    | with_reducible apply nh_mapPut
    | with_reducible apply nh_mapPutProp
    | with_reducible apply nh_setTimeScale
    | with_reducible apply nh_setSpaceFrm
    | with_reducible apply nh_setRedFrm
    | with_reducible apply nh_setSpecFrm
    | with_reducible apply nh_needNumber
    | with_reducible apply nh_finishTime
    | with_reducible apply nh_finishSpace
    | with_reducible apply nh_finishSpec
    | with_reducible apply nh_axisLoop
    | with_reducible apply nh_errorLoop
    | with_reducible apply nh_readTime
    | with_reducible apply nh_unitWord
    | with_reducible apply nh_dopplerDef
    | with_reducible apply nh_stepRefPosTime
    | with_reducible apply nh_stepRefPosSpace
    | with_reducible apply nh_stepRefPosSpec
    | with_reducible apply nh_flavourFrame
    | with_reducible apply nh_flavourCheck
    | with_reducible apply nh_flavourSystem
    | with_reducible apply nh_flavourDomain
    | with_reducible apply nh_flavourNext
    | with_reducible apply nh_limitsLow
    | with_reducible apply nh_limitsHigh
    | split

theorem nh_stepRedSpecValue {env : Env} {s : State} {w : String} (h : NoHang s.status) :
    NoHang (stepRedSpecValue env s w).status := by
  unfold stepRedSpecValue
  repeat' first
    | with_reducible exact h
    | with_reducible apply nh_ite
    | with_reducible apply nh_code
    | with_reducible apply nh_fault
    | with_reducible apply nh_warn
    | with_reducible apply nh_nextWord
    | with_reducible apply nh_append
    | with_reducible apply nh_chop
    | with_reducible apply nh_raise
    | with_reducible apply nh_crash
    | with_reducible apply nh_mapPut
    | with_reducible apply nh_mapPutProp
    | with_reducible apply nh_setTimeScale
    | with_reducible apply nh_setSpaceFrm
    | with_reducible apply nh_setRedFrm
    | with_reducible apply nh_setSpecFrm
    | with_reducible apply nh_needNumber
    | with_reducible apply nh_finishTime
    | with_reducible apply nh_finishSpace
    | with_reducible apply nh_finishSpec
    | with_reducible apply nh_axisLoop
    | with_reducible apply nh_errorLoop
    | with_reducible apply nh_readTime
    | with_reducible apply nh_unitWord
    | with_reducible apply nh_dopplerDef
    | with_reducible apply nh_stepRefPosTime
    | with_reducible apply nh_stepRefPosSpace
    | with_reducible apply nh_stepRefPosSpec
    | with_reducible apply nh_flavourFrame
    | with_reducible apply nh_flavourCheck
    | with_reducible apply nh_flavourSystem
    | with_reducible apply nh_flavourDomain
    | with_reducible apply nh_flavourNext
    | with_reducible apply nh_limitsLow
    | with_reducible apply nh_limitsHigh
    | split

theorem nh_stepPositionInterval {env : Env} {s : State} {w : String} (h : NoHang s.status) :
    NoHang (stepPositionInterval env s w).status := by
  unfold stepPositionInterval
  repeat' first
    | with_reducible exact h
    | with_reducible apply nh_ite
    | with_reducible apply nh_code
    | with_reducible apply nh_fault
    | with_reducible apply nh_warn
    | with_reducible apply nh_nextWord
    | with_reducible apply nh_append
    | with_reducible apply nh_chop
    | with_reducible apply nh_raise
    | with_reducible apply nh_crash
    | with_reducible apply nh_mapPut
    | with_reducible apply nh_mapPutProp
    | with_reducible apply nh_setTimeScale
    | with_reducible apply nh_setSpaceFrm
    | with_reducible apply nh_setRedFrm
    | with_reducible apply nh_setSpecFrm
    | with_reducible apply nh_needNumber
    | with_reducible apply nh_finishTime
    | with_reducible apply nh_finishSpace
    | with_reducible apply nh_finishSpec
    | with_reducible apply nh_axisLoop
    | with_reducible apply nh_errorLoop
    | with_reducible apply nh_readTime
    | with_reducible apply nh_unitWord
    | with_reducible apply nh_dopplerDef
    | with_reducible apply nh_stepRefPosTime
    | with_reducible apply nh_stepRefPosSpace
    | with_reducible apply nh_stepRefPosSpec
    | with_reducible apply nh_flavourFrame
    | with_reducible apply nh_flavourCheck
    | with_reducible apply nh_flavourSystem
    | with_reducible apply nh_flavourDomain
    | with_reducible apply nh_flavourNext
    | with_reducible apply nh_limitsLow
    | with_reducible apply nh_limitsHigh
    | split

theorem nh_stepAllSky {s : State} {w : String} (h : NoHang s.status) :
    NoHang (stepAllSky s w).status := by
  unfold stepAllSky
  repeat' first
    | with_reducible exact h
    | with_reducible apply nh_ite
    | with_reducible apply nh_code
    | with_reducible apply nh_fault
    | with_reducible apply nh_warn
    | with_reducible apply nh_nextWord
    | with_reducible apply nh_append
    | with_reducible apply nh_chop
    | with_reducible apply nh_raise
    | with_reducible apply nh_crash
    | with_reducible apply nh_mapPut
    | with_reducible apply nh_mapPutProp
    | with_reducible apply nh_setTimeScale
    | with_reducible apply nh_setSpaceFrm
    | with_reducible apply nh_setRedFrm
    | with_reducible apply nh_setSpecFrm
    | with_reducible apply nh_needNumber
    | with_reducible apply nh_finishTime
    | with_reducible apply nh_finishSpace
    | with_reducible apply nh_finishSpec
    | with_reducible apply nh_axisLoop
    | with_reducible apply nh_errorLoop
    | with_reducible apply nh_readTime
    | with_reducible apply nh_unitWord
    | with_reducible apply nh_dopplerDef
    | with_reducible apply nh_stepRefPosTime
    | with_reducible apply nh_stepRefPosSpace
    | with_reducible apply nh_stepRefPosSpec
    | with_reducible apply nh_flavourFrame
    | with_reducible apply nh_flavourCheck
    | with_reducible apply nh_flavourSystem
    | with_reducible apply nh_flavourDomain
    | with_reducible apply nh_flavourNext
    | with_reducible apply nh_limitsLow
    | with_reducible apply nh_limitsHigh
    | split

theorem nh_stepCircle {env : Env} {s : State} {w : String} (h : NoHang s.status) :
    NoHang (stepCircle env s w).status := by
  unfold stepCircle
  repeat' first
    | with_reducible exact h
    | with_reducible apply nh_ite
    | with_reducible apply nh_code
    | with_reducible apply nh_fault
    | with_reducible apply nh_warn
    | with_reducible apply nh_nextWord
    | with_reducible apply nh_append
    | with_reducible apply nh_chop
    | with_reducible apply nh_raise
    | with_reducible apply nh_crash
    | with_reducible apply nh_mapPut
    | with_reducible apply nh_mapPutProp
    | with_reducible apply nh_setTimeScale
    | with_reducible apply nh_setSpaceFrm
    | with_reducible apply nh_setRedFrm
    | with_reducible apply nh_setSpecFrm
    | with_reducible apply nh_needNumber
    | with_reducible apply nh_finishTime
    | with_reducible apply nh_finishSpace
    | with_reducible apply nh_finishSpec
    | with_reducible apply nh_axisLoop
    | with_reducible apply nh_errorLoop
    | with_reducible apply nh_readTime
    | with_reducible apply nh_unitWord
    | with_reducible apply nh_dopplerDef
    | with_reducible apply nh_stepRefPosTime
    | with_reducible apply nh_stepRefPosSpace
    | with_reducible apply nh_stepRefPosSpec
    | with_reducible apply nh_flavourFrame
    | with_reducible apply nh_flavourCheck
    | with_reducible apply nh_flavourSystem
    | with_reducible apply nh_flavourDomain
    | with_reducible apply nh_flavourNext
    | with_reducible apply nh_limitsLow
    | with_reducible apply nh_limitsHigh
    | split

theorem nh_stepEllipse {env : Env} {s : State} {w : String} (h : NoHang s.status) :
    NoHang (stepEllipse env s w).status := by
  unfold stepEllipse
  repeat' first
    | with_reducible exact h
    | with_reducible apply nh_ite
    | with_reducible apply nh_code
    | with_reducible apply nh_fault
    | with_reducible apply nh_warn
    | with_reducible apply nh_nextWord
    | with_reducible apply nh_append
    | with_reducible apply nh_chop
    | with_reducible apply nh_raise
    | with_reducible apply nh_crash
    | with_reducible apply nh_mapPut
    | with_reducible apply nh_mapPutProp
    | with_reducible apply nh_setTimeScale
    | with_reducible apply nh_setSpaceFrm
    | with_reducible apply nh_setRedFrm
    | with_reducible apply nh_setSpecFrm
    | with_reducible apply nh_needNumber
    | with_reducible apply nh_finishTime
    | with_reducible apply nh_finishSpace
    | with_reducible apply nh_finishSpec
    | with_reducible apply nh_axisLoop
    | with_reducible apply nh_errorLoop
    | with_reducible apply nh_readTime
    | with_reducible apply nh_unitWord
    | with_reducible apply nh_dopplerDef
    | with_reducible apply nh_stepRefPosTime
    | with_reducible apply nh_stepRefPosSpace
    | with_reducible apply nh_stepRefPosSpec
    | with_reducible apply nh_flavourFrame
    | with_reducible apply nh_flavourCheck
    | with_reducible apply nh_flavourSystem
    | with_reducible apply nh_flavourDomain
    | with_reducible apply nh_flavourNext
    | with_reducible apply nh_limitsLow
    | with_reducible apply nh_limitsHigh
    | split

theorem nh_stepBox {env : Env} {s : State} {w : String} (h : NoHang s.status) :
    NoHang (stepBox env s w).status := by
  unfold stepBox
  repeat' first
    | with_reducible exact h
    | with_reducible apply nh_ite
    | with_reducible apply nh_code
    | with_reducible apply nh_fault
    | with_reducible apply nh_warn
    | with_reducible apply nh_nextWord
    | with_reducible apply nh_append
    | with_reducible apply nh_chop
    | with_reducible apply nh_raise
    | with_reducible apply nh_crash
    | with_reducible apply nh_mapPut
    | with_reducible apply nh_mapPutProp
    | with_reducible apply nh_setTimeScale
    | with_reducible apply nh_setSpaceFrm
    | with_reducible apply nh_setRedFrm
    | with_reducible apply nh_setSpecFrm
    | with_reducible apply nh_needNumber
    | with_reducible apply nh_finishTime
    | with_reducible apply nh_finishSpace
    | with_reducible apply nh_finishSpec
    | with_reducible apply nh_axisLoop
    | with_reducible apply nh_errorLoop
    | with_reducible apply nh_readTime
    | with_reducible apply nh_unitWord
    | with_reducible apply nh_dopplerDef
    | with_reducible apply nh_stepRefPosTime
    | with_reducible apply nh_stepRefPosSpace
    | with_reducible apply nh_stepRefPosSpec
    | with_reducible apply nh_flavourFrame
    | with_reducible apply nh_flavourCheck
    | with_reducible apply nh_flavourSystem
    | with_reducible apply nh_flavourDomain
    | with_reducible apply nh_flavourNext
    | with_reducible apply nh_limitsLow
    | with_reducible apply nh_limitsHigh
    | split

theorem nh_stepConvex {s : State} {w : String} (h : NoHang s.status) :
    NoHang (stepConvex s w).status := by
  unfold stepConvex
  repeat' first
    | with_reducible exact h
    | with_reducible apply nh_ite
    | with_reducible apply nh_code
    | with_reducible apply nh_fault
    | with_reducible apply nh_warn
    | with_reducible apply nh_nextWord
    | with_reducible apply nh_append
    | with_reducible apply nh_chop
    | with_reducible apply nh_raise
    | with_reducible apply nh_crash
    | with_reducible apply nh_mapPut
    | with_reducible apply nh_mapPutProp
    | with_reducible apply nh_setTimeScale
    | with_reducible apply nh_setSpaceFrm
    | with_reducible apply nh_setRedFrm
    | with_reducible apply nh_setSpecFrm
    | with_reducible apply nh_needNumber
    | with_reducible apply nh_finishTime
    | with_reducible apply nh_finishSpace
    | with_reducible apply nh_finishSpec
    | with_reducible apply nh_axisLoop
    | with_reducible apply nh_errorLoop
    | with_reducible apply nh_readTime
    | with_reducible apply nh_unitWord
    | with_reducible apply nh_dopplerDef
    | with_reducible apply nh_stepRefPosTime
    | with_reducible apply nh_stepRefPosSpace
    | with_reducible apply nh_stepRefPosSpec
    | with_reducible apply nh_flavourFrame
    | with_reducible apply nh_flavourCheck
    | with_reducible apply nh_flavourSystem
    | with_reducible apply nh_flavourDomain
    | with_reducible apply nh_flavourNext
    | with_reducible apply nh_limitsLow
    | with_reducible apply nh_limitsHigh
    | split

theorem nh_stepPosition {env : Env} {s : State} {w : String} (h : NoHang s.status) :
    NoHang (stepPosition env s w).status := by
  unfold stepPosition
  repeat' first
    | with_reducible exact h
    | with_reducible apply nh_ite
    | with_reducible apply nh_code
    | with_reducible apply nh_fault
    | with_reducible apply nh_warn
    | with_reducible apply nh_nextWord
    | with_reducible apply nh_append
    | with_reducible apply nh_chop
    | with_reducible apply nh_raise
    | with_reducible apply nh_crash
    | with_reducible apply nh_mapPut
    | with_reducible apply nh_mapPutProp
    | with_reducible apply nh_setTimeScale
    | with_reducible apply nh_setSpaceFrm
    | with_reducible apply nh_setRedFrm
    | with_reducible apply nh_setSpecFrm
    | with_reducible apply nh_needNumber
    | with_reducible apply nh_finishTime
    | with_reducible apply nh_finishSpace
    | with_reducible apply nh_finishSpec
    | with_reducible apply nh_axisLoop
    | with_reducible apply nh_errorLoop
    | with_reducible apply nh_readTime
    | with_reducible apply nh_unitWord
    | with_reducible apply nh_dopplerDef
    | with_reducible apply nh_stepRefPosTime
    | with_reducible apply nh_stepRefPosSpace
    | with_reducible apply nh_stepRefPosSpec
    | with_reducible apply nh_flavourFrame
    | with_reducible apply nh_flavourCheck
    | with_reducible apply nh_flavourSystem
    | with_reducible apply nh_flavourDomain
    | with_reducible apply nh_flavourNext
    | with_reducible apply nh_limitsLow
    | with_reducible apply nh_limitsHigh
    | split

theorem nh_stepPositionLabel {s : State} {w : String} (h : NoHang s.status) :
    NoHang (stepPositionLabel s w).status := by
  unfold stepPositionLabel
  repeat' first
    | with_reducible exact h
    | with_reducible apply nh_ite
    | with_reducible apply nh_code
    | with_reducible apply nh_fault
    | with_reducible apply nh_warn
    | with_reducible apply nh_nextWord
    | with_reducible apply nh_append
    | with_reducible apply nh_chop
    | with_reducible apply nh_raise
    | with_reducible apply nh_crash
    | with_reducible apply nh_mapPut
    | with_reducible apply nh_mapPutProp
    | with_reducible apply nh_setTimeScale
    | with_reducible apply nh_setSpaceFrm
    | with_reducible apply nh_setRedFrm
    | with_reducible apply nh_setSpecFrm
    | with_reducible apply nh_needNumber
    | with_reducible apply nh_finishTime
    | with_reducible apply nh_finishSpace
    | with_reducible apply nh_finishSpec
    | with_reducible apply nh_axisLoop
    | with_reducible apply nh_errorLoop
    | with_reducible apply nh_readTime
    | with_reducible apply nh_unitWord
    | with_reducible apply nh_dopplerDef
    | with_reducible apply nh_stepRefPosTime
    | with_reducible apply nh_stepRefPosSpace
    | with_reducible apply nh_stepRefPosSpec
    | with_reducible apply nh_flavourFrame
    | with_reducible apply nh_flavourCheck
    | with_reducible apply nh_flavourSystem
    | with_reducible apply nh_flavourDomain
    | with_reducible apply nh_flavourNext
    | with_reducible apply nh_limitsLow
    | with_reducible apply nh_limitsHigh
    | split

theorem nh_dopplerType {s : State} {w : String} (h : NoHang s.status) :
    NoHang (dopplerType s w).status := by
  unfold dopplerType
  repeat' first
    | with_reducible exact h
    | with_reducible apply nh_ite
    | with_reducible apply nh_code
    | with_reducible apply nh_fault
    | with_reducible apply nh_warn
    | with_reducible apply nh_nextWord
    | with_reducible apply nh_append
    | with_reducible apply nh_chop
    | with_reducible apply nh_raise
    | with_reducible apply nh_crash
    | with_reducible apply nh_mapPut
    | with_reducible apply nh_mapPutProp
    | with_reducible apply nh_setTimeScale
    | with_reducible apply nh_setSpaceFrm
    | with_reducible apply nh_setRedFrm
    | with_reducible apply nh_setSpecFrm
    | with_reducible apply nh_needNumber
    | with_reducible apply nh_finishTime
    | with_reducible apply nh_finishSpace
    | with_reducible apply nh_finishSpec
    | with_reducible apply nh_axisLoop
    | with_reducible apply nh_errorLoop
    | with_reducible apply nh_readTime
    | with_reducible apply nh_unitWord
    | with_reducible apply nh_dopplerDef
    | with_reducible apply nh_stepRefPosTime
    | with_reducible apply nh_stepRefPosSpace
    | with_reducible apply nh_stepRefPosSpec
    | with_reducible apply nh_flavourFrame
    | with_reducible apply nh_flavourCheck
    | with_reducible apply nh_flavourSystem
    | with_reducible apply nh_flavourDomain
    | with_reducible apply nh_flavourNext
    | with_reducible apply nh_limitsLow
    | with_reducible apply nh_limitsHigh
    | split

theorem nh_stepTypeDoppler {s : State} {w : String} (h : NoHang s.status) :
    NoHang (stepTypeDoppler s w).status := by
  unfold stepTypeDoppler
  repeat' first
    | with_reducible exact h
    | with_reducible apply nh_ite
    | with_reducible apply nh_code
    | with_reducible apply nh_fault
    | with_reducible apply nh_warn
    | with_reducible apply nh_nextWord
    | with_reducible apply nh_append
    | with_reducible apply nh_chop
    | with_reducible apply nh_raise
    | with_reducible apply nh_crash
    | with_reducible apply nh_mapPut
    | with_reducible apply nh_mapPutProp
    | with_reducible apply nh_setTimeScale
    | with_reducible apply nh_setSpaceFrm
    | with_reducible apply nh_setRedFrm
    | with_reducible apply nh_setSpecFrm
    | with_reducible apply nh_needNumber
    | with_reducible apply nh_finishTime
    | with_reducible apply nh_finishSpace
    | with_reducible apply nh_finishSpec
    | with_reducible apply nh_axisLoop
    | with_reducible apply nh_errorLoop
    | with_reducible apply nh_readTime
    | with_reducible apply nh_unitWord
    | with_reducible apply nh_dopplerDef
    | with_reducible apply nh_stepRefPosTime
    | with_reducible apply nh_stepRefPosSpace
    | with_reducible apply nh_stepRefPosSpec
    | with_reducible apply nh_flavourFrame
    | with_reducible apply nh_flavourCheck
    | with_reducible apply nh_flavourSystem
    | with_reducible apply nh_flavourDomain
    | with_reducible apply nh_flavourNext
    | with_reducible apply nh_limitsLow
    | with_reducible apply nh_limitsHigh
    | with_reducible apply nh_dopplerType
    | split

theorem nh_stepVelocityValue {env : Env} {s : State} {w : String} (h : NoHang s.status) :
    NoHang (stepVelocityValue env s w).status := by
  unfold stepVelocityValue
  repeat' first
    | with_reducible exact h
    | with_reducible apply nh_ite
    | with_reducible apply nh_code
    | with_reducible apply nh_fault
    | with_reducible apply nh_warn
    | with_reducible apply nh_nextWord
    | with_reducible apply nh_append
    | with_reducible apply nh_chop
    | with_reducible apply nh_raise
    | with_reducible apply nh_crash
    | with_reducible apply nh_mapPut
    | with_reducible apply nh_mapPutProp
    | with_reducible apply nh_setTimeScale
    | with_reducible apply nh_setSpaceFrm
    | with_reducible apply nh_setRedFrm
    | with_reducible apply nh_setSpecFrm
    | with_reducible apply nh_needNumber
    | with_reducible apply nh_finishTime
    | with_reducible apply nh_finishSpace
    | with_reducible apply nh_finishSpec
    | with_reducible apply nh_axisLoop
    | with_reducible apply nh_errorLoop
    | with_reducible apply nh_readTime
    | with_reducible apply nh_unitWord
    | with_reducible apply nh_dopplerDef
    | with_reducible apply nh_stepRefPosTime
    | with_reducible apply nh_stepRefPosSpace
    | with_reducible apply nh_stepRefPosSpec
    | with_reducible apply nh_flavourFrame
    | with_reducible apply nh_flavourCheck
    | with_reducible apply nh_flavourSystem
    | with_reducible apply nh_flavourDomain
    | with_reducible apply nh_flavourNext
    | with_reducible apply nh_limitsLow
    | with_reducible apply nh_limitsHigh
    | with_reducible apply nh_dopplerType
    | split

theorem nh_errorValues {s : State} {n : Nat} {vals : List ℚ} (h : NoHang s.status) :
    NoHang (errorValues s n vals).status := by
  unfold errorValues
  repeat' first
    | with_reducible exact h
    | with_reducible apply nh_ite
    | with_reducible apply nh_code
    | with_reducible apply nh_fault
    | with_reducible apply nh_warn
    | with_reducible apply nh_nextWord
    | with_reducible apply nh_append
    | with_reducible apply nh_chop
    | with_reducible apply nh_raise
    | with_reducible apply nh_crash
    | with_reducible apply nh_mapPut
    | with_reducible apply nh_mapPutProp
    | with_reducible apply nh_setTimeScale
    | with_reducible apply nh_setSpaceFrm
    | with_reducible apply nh_setRedFrm
    | with_reducible apply nh_setSpecFrm
    | with_reducible apply nh_needNumber
    | with_reducible apply nh_finishTime
    | with_reducible apply nh_finishSpace
    | with_reducible apply nh_finishSpec
    | with_reducible apply nh_axisLoop
    | with_reducible apply nh_errorLoop
    | with_reducible apply nh_readTime
    | with_reducible apply nh_unitWord
    | with_reducible apply nh_dopplerDef
    | with_reducible apply nh_stepRefPosTime
    | with_reducible apply nh_stepRefPosSpace
    | with_reducible apply nh_stepRefPosSpec
    | with_reducible apply nh_flavourFrame
    | with_reducible apply nh_flavourCheck
    | with_reducible apply nh_flavourSystem
    | with_reducible apply nh_flavourDomain
    | with_reducible apply nh_flavourNext
    | with_reducible apply nh_limitsLow
    | with_reducible apply nh_limitsHigh
    | with_reducible apply nh_dopplerType
    | split

theorem nh_errorExtra {env : Env} {s : State} (hempty : env.chr2Double "" = none) (h : NoHang s.status) :
    NoHang (errorExtra env s).status := by
  unfold errorExtra
  repeat' first
    | with_reducible exact h
    | with_reducible apply nh_ite
    | with_reducible apply nh_code
    | with_reducible apply nh_fault
    | with_reducible apply nh_warn
    | with_reducible apply nh_nextWord
    | with_reducible apply nh_append
    | with_reducible apply nh_chop
    | with_reducible apply nh_raise
    | with_reducible apply nh_crash
    | with_reducible apply nh_mapPut
    | with_reducible apply nh_mapPutProp
    | with_reducible apply nh_setTimeScale
    | with_reducible apply nh_setSpaceFrm
    | with_reducible apply nh_setRedFrm
    | with_reducible apply nh_setSpecFrm
    | with_reducible apply nh_needNumber
    | with_reducible apply nh_finishTime
    | with_reducible apply nh_finishSpace
    | with_reducible apply nh_finishSpec
    | with_reducible apply nh_axisLoop
    | with_reducible apply nh_errorLoop
    | with_reducible apply nh_readTime
    | with_reducible apply nh_unitWord
    | with_reducible apply nh_dopplerDef
    | with_reducible apply nh_stepRefPosTime
    | with_reducible apply nh_stepRefPosSpace
    | with_reducible apply nh_stepRefPosSpec
    | with_reducible apply nh_flavourFrame
    | with_reducible apply nh_flavourCheck
    | with_reducible apply nh_flavourSystem
    | with_reducible apply nh_flavourDomain
    | with_reducible apply nh_flavourNext
    | with_reducible apply nh_limitsLow
    | with_reducible apply nh_limitsHigh
    | with_reducible apply nh_dopplerType
    | with_reducible apply nh_errorValues
    | with_reducible apply nh_numberRun hempty
    | split

theorem nh_stepError {env : Env} {s : State} {w : String} (hempty : env.chr2Double "" = none) (h : NoHang s.status) :
    NoHang (stepError env s w).status := by
  unfold stepError
  repeat' first
    | with_reducible exact h
    | with_reducible apply nh_ite
    | with_reducible apply nh_code
    | with_reducible apply nh_fault
    | with_reducible apply nh_warn
    | with_reducible apply nh_nextWord
    | with_reducible apply nh_append
    | with_reducible apply nh_chop
    | with_reducible apply nh_raise
    | with_reducible apply nh_crash
    | with_reducible apply nh_mapPut
    | with_reducible apply nh_mapPutProp
    | with_reducible apply nh_setTimeScale
    | with_reducible apply nh_setSpaceFrm
    | with_reducible apply nh_setRedFrm
    | with_reducible apply nh_setSpecFrm
    | with_reducible apply nh_needNumber
    | with_reducible apply nh_finishTime
    | with_reducible apply nh_finishSpace
    | with_reducible apply nh_finishSpec
    | with_reducible apply nh_axisLoop
    | with_reducible apply nh_errorLoop
    | with_reducible apply nh_readTime
    | with_reducible apply nh_unitWord
    | with_reducible apply nh_dopplerDef
    | with_reducible apply nh_stepRefPosTime
    | with_reducible apply nh_stepRefPosSpace
    | with_reducible apply nh_stepRefPosSpec
    | with_reducible apply nh_flavourFrame
    | with_reducible apply nh_flavourCheck
    | with_reducible apply nh_flavourSystem
    | with_reducible apply nh_flavourDomain
    | with_reducible apply nh_flavourNext
    | with_reducible apply nh_limitsLow
    | with_reducible apply nh_limitsHigh
    | with_reducible apply nh_dopplerType
    | with_reducible apply nh_errorValues
    | with_reducible apply nh_numberRun hempty
    | with_reducible apply nh_errorExtra hempty
    | split

theorem nh_ignoredValues {env : Env} {s : State} {key text : String} (hempty : env.chr2Double "" = none) (h : NoHang s.status) :
    NoHang (ignoredValues env s key text).status := by
  unfold ignoredValues
  repeat' first
    | with_reducible exact h
    | with_reducible apply nh_ite
    | with_reducible apply nh_code
    | with_reducible apply nh_fault
    | with_reducible apply nh_warn
    | with_reducible apply nh_nextWord
    | with_reducible apply nh_append
    | with_reducible apply nh_chop
    | with_reducible apply nh_raise
    | with_reducible apply nh_crash
    | with_reducible apply nh_mapPut
    | with_reducible apply nh_mapPutProp
    | with_reducible apply nh_setTimeScale
    | with_reducible apply nh_setSpaceFrm
    | with_reducible apply nh_setRedFrm
    | with_reducible apply nh_setSpecFrm
    | with_reducible apply nh_needNumber
    | with_reducible apply nh_finishTime
    | with_reducible apply nh_finishSpace
    | with_reducible apply nh_finishSpec
    | with_reducible apply nh_axisLoop
    | with_reducible apply nh_errorLoop
    | with_reducible apply nh_readTime
    | with_reducible apply nh_unitWord
    | with_reducible apply nh_dopplerDef
    | with_reducible apply nh_stepRefPosTime
    | with_reducible apply nh_stepRefPosSpace
    | with_reducible apply nh_stepRefPosSpec
    | with_reducible apply nh_flavourFrame
    | with_reducible apply nh_flavourCheck
    | with_reducible apply nh_flavourSystem
    | with_reducible apply nh_flavourDomain
    | with_reducible apply nh_flavourNext
    | with_reducible apply nh_limitsLow
    | with_reducible apply nh_limitsHigh
    | with_reducible apply nh_dopplerType
    | with_reducible apply nh_errorValues
    | with_reducible apply nh_numberRun hempty
    | with_reducible apply nh_errorExtra hempty
    | split

theorem nh_stepResolution {env : Env} {s : State} {w : String} (hempty : env.chr2Double "" = none) (h : NoHang s.status) :
    NoHang (stepResolution env s w).status := by
  unfold stepResolution
  repeat' first
    | with_reducible exact h
    | with_reducible apply nh_ite
    | with_reducible apply nh_code
    | with_reducible apply nh_fault
    | with_reducible apply nh_warn
    | with_reducible apply nh_nextWord
    | with_reducible apply nh_append
    | with_reducible apply nh_chop
    | with_reducible apply nh_raise
    | with_reducible apply nh_crash
    | with_reducible apply nh_mapPut
    | with_reducible apply nh_mapPutProp
    | with_reducible apply nh_setTimeScale
    | with_reducible apply nh_setSpaceFrm
    | with_reducible apply nh_setRedFrm
    | with_reducible apply nh_setSpecFrm
    | with_reducible apply nh_needNumber
    | with_reducible apply nh_finishTime
    | with_reducible apply nh_finishSpace
    | with_reducible apply nh_finishSpec
    | with_reducible apply nh_axisLoop
    | with_reducible apply nh_errorLoop
    | with_reducible apply nh_readTime
    | with_reducible apply nh_unitWord
    | with_reducible apply nh_dopplerDef
    | with_reducible apply nh_stepRefPosTime
    | with_reducible apply nh_stepRefPosSpace
    | with_reducible apply nh_stepRefPosSpec
    | with_reducible apply nh_flavourFrame
    | with_reducible apply nh_flavourCheck
    | with_reducible apply nh_flavourSystem
    | with_reducible apply nh_flavourDomain
    | with_reducible apply nh_flavourNext
    | with_reducible apply nh_limitsLow
    | with_reducible apply nh_limitsHigh
    | with_reducible apply nh_dopplerType
    | with_reducible apply nh_errorValues
    | with_reducible apply nh_numberRun hempty
    | with_reducible apply nh_errorExtra hempty
    | with_reducible apply nh_ignoredValues hempty
    | split

theorem nh_stepSize {env : Env} {s : State} {w : String} (hempty : env.chr2Double "" = none) (h : NoHang s.status) :
    NoHang (stepSize env s w).status := by
  unfold stepSize
  repeat' first
    | with_reducible exact h
    | with_reducible apply nh_ite
    | with_reducible apply nh_code
    | with_reducible apply nh_fault
    | with_reducible apply nh_warn
    | with_reducible apply nh_nextWord
    | with_reducible apply nh_append
    | with_reducible apply nh_chop
    | with_reducible apply nh_raise
    | with_reducible apply nh_crash
    | with_reducible apply nh_mapPut
    | with_reducible apply nh_mapPutProp
    | with_reducible apply nh_setTimeScale
    | with_reducible apply nh_setSpaceFrm
    | with_reducible apply nh_setRedFrm
    | with_reducible apply nh_setSpecFrm
    | with_reducible apply nh_needNumber
    | with_reducible apply nh_finishTime
    | with_reducible apply nh_finishSpace
    | with_reducible apply nh_finishSpec
    | with_reducible apply nh_axisLoop
    | with_reducible apply nh_errorLoop
    | with_reducible apply nh_readTime
    | with_reducible apply nh_unitWord
    | with_reducible apply nh_dopplerDef
    | with_reducible apply nh_stepRefPosTime
    | with_reducible apply nh_stepRefPosSpace
    | with_reducible apply nh_stepRefPosSpec
    | with_reducible apply nh_flavourFrame
    | with_reducible apply nh_flavourCheck
    | with_reducible apply nh_flavourSystem
    | with_reducible apply nh_flavourDomain
    | with_reducible apply nh_flavourNext
    | with_reducible apply nh_limitsLow
    | with_reducible apply nh_limitsHigh
    | with_reducible apply nh_dopplerType
    | with_reducible apply nh_errorValues
    | with_reducible apply nh_numberRun hempty
    | with_reducible apply nh_errorExtra hempty
    | with_reducible apply nh_ignoredValues hempty
    | split

theorem nh_stepPixSize {env : Env} {s : State} {w : String} (hempty : env.chr2Double "" = none) (h : NoHang s.status) :
    NoHang (stepPixSize env s w).status := by
  unfold stepPixSize
  repeat' first
    | with_reducible exact h
    | with_reducible apply nh_ite
    | with_reducible apply nh_code
    | with_reducible apply nh_fault
    | with_reducible apply nh_warn
    | with_reducible apply nh_nextWord
    | with_reducible apply nh_append
    | with_reducible apply nh_chop
    | with_reducible apply nh_raise
    | with_reducible apply nh_crash
    | with_reducible apply nh_mapPut
    | with_reducible apply nh_mapPutProp
    | with_reducible apply nh_setTimeScale
    | with_reducible apply nh_setSpaceFrm
    | with_reducible apply nh_setRedFrm
    | with_reducible apply nh_setSpecFrm
    | with_reducible apply nh_needNumber
    | with_reducible apply nh_finishTime
    | with_reducible apply nh_finishSpace
    | with_reducible apply nh_finishSpec
    | with_reducible apply nh_axisLoop
    | with_reducible apply nh_errorLoop
    | with_reducible apply nh_readTime
    | with_reducible apply nh_unitWord
    | with_reducible apply nh_dopplerDef
    | with_reducible apply nh_stepRefPosTime
    | with_reducible apply nh_stepRefPosSpace
    | with_reducible apply nh_stepRefPosSpec
    | with_reducible apply nh_flavourFrame
    | with_reducible apply nh_flavourCheck
    | with_reducible apply nh_flavourSystem
    | with_reducible apply nh_flavourDomain
    | with_reducible apply nh_flavourNext
    | with_reducible apply nh_limitsLow
    | with_reducible apply nh_limitsHigh
    | with_reducible apply nh_dopplerType
    | with_reducible apply nh_errorValues
    | with_reducible apply nh_numberRun hempty
    | with_reducible apply nh_errorExtra hempty
    | with_reducible apply nh_ignoredValues hempty
    | split

theorem nh_unitTime {s : State} (h : NoHang s.status) :
    NoHang (unitTime s).status := by
  unfold unitTime
  repeat' first
    | with_reducible exact h
    | with_reducible apply nh_ite
    | with_reducible apply nh_code
    | with_reducible apply nh_fault
    | with_reducible apply nh_warn
    | with_reducible apply nh_nextWord
    | with_reducible apply nh_append
    | with_reducible apply nh_chop
    | with_reducible apply nh_raise
    | with_reducible apply nh_crash
    | with_reducible apply nh_mapPut
    | with_reducible apply nh_mapPutProp
    | with_reducible apply nh_setTimeScale
    | with_reducible apply nh_setSpaceFrm
    | with_reducible apply nh_setRedFrm
    | with_reducible apply nh_setSpecFrm
    | with_reducible apply nh_needNumber
    | with_reducible apply nh_finishTime
    | with_reducible apply nh_finishSpace
    | with_reducible apply nh_finishSpec
    | with_reducible apply nh_axisLoop
    | with_reducible apply nh_errorLoop
    | with_reducible apply nh_readTime
    | with_reducible apply nh_unitWord
    | with_reducible apply nh_dopplerDef
    | with_reducible apply nh_stepRefPosTime
    | with_reducible apply nh_stepRefPosSpace
    | with_reducible apply nh_stepRefPosSpec
    | with_reducible apply nh_flavourFrame
    | with_reducible apply nh_flavourCheck
    | with_reducible apply nh_flavourSystem
    | with_reducible apply nh_flavourDomain
    | with_reducible apply nh_flavourNext
    | with_reducible apply nh_limitsLow
    | with_reducible apply nh_limitsHigh
    | with_reducible apply nh_dopplerType
    | with_reducible apply nh_errorValues
    | split

theorem nh_unitSpace {env : Env} {s : State} (h : NoHang s.status) :
    NoHang (unitSpace env s).status := by
  unfold unitSpace
  repeat' first
    | with_reducible exact h
    | with_reducible apply nh_ite
    | with_reducible apply nh_code
    | with_reducible apply nh_fault
    | with_reducible apply nh_warn
    | with_reducible apply nh_nextWord
    | with_reducible apply nh_append
    | with_reducible apply nh_chop
    | with_reducible apply nh_raise
    | with_reducible apply nh_crash
    | with_reducible apply nh_mapPut
    | with_reducible apply nh_mapPutProp
    | with_reducible apply nh_setTimeScale
    | with_reducible apply nh_setSpaceFrm
    | with_reducible apply nh_setRedFrm
    | with_reducible apply nh_setSpecFrm
    | with_reducible apply nh_needNumber
    | with_reducible apply nh_finishTime
    | with_reducible apply nh_finishSpace
    | with_reducible apply nh_finishSpec
    | with_reducible apply nh_axisLoop
    | with_reducible apply nh_errorLoop
    | with_reducible apply nh_readTime
    | with_reducible apply nh_unitWord
    | with_reducible apply nh_dopplerDef
    | with_reducible apply nh_stepRefPosTime
    | with_reducible apply nh_stepRefPosSpace
    | with_reducible apply nh_stepRefPosSpec
    | with_reducible apply nh_flavourFrame
    | with_reducible apply nh_flavourCheck
    | with_reducible apply nh_flavourSystem
    | with_reducible apply nh_flavourDomain
    | with_reducible apply nh_flavourNext
    | with_reducible apply nh_limitsLow
    | with_reducible apply nh_limitsHigh
    | with_reducible apply nh_dopplerType
    | with_reducible apply nh_errorValues
    | with_reducible apply nh_unitTime
    | split

theorem nh_unitSpec {s : State} (h : NoHang s.status) :
    NoHang (unitSpec s).status := by
  unfold unitSpec
  repeat' first
    | with_reducible exact h
    | with_reducible apply nh_ite
    | with_reducible apply nh_code
    | with_reducible apply nh_fault
    | with_reducible apply nh_warn
    | with_reducible apply nh_nextWord
    | with_reducible apply nh_append
    | with_reducible apply nh_chop
    | with_reducible apply nh_raise
    | with_reducible apply nh_crash
    | with_reducible apply nh_mapPut
    | with_reducible apply nh_mapPutProp
    | with_reducible apply nh_setTimeScale
    | with_reducible apply nh_setSpaceFrm
    | with_reducible apply nh_setRedFrm
    | with_reducible apply nh_setSpecFrm
    | with_reducible apply nh_needNumber
    | with_reducible apply nh_finishTime
    | with_reducible apply nh_finishSpace
    | with_reducible apply nh_finishSpec
    | with_reducible apply nh_axisLoop
    | with_reducible apply nh_errorLoop
    | with_reducible apply nh_readTime
    | with_reducible apply nh_unitWord
    | with_reducible apply nh_dopplerDef
    | with_reducible apply nh_stepRefPosTime
    | with_reducible apply nh_stepRefPosSpace
    | with_reducible apply nh_stepRefPosSpec
    | with_reducible apply nh_flavourFrame
    | with_reducible apply nh_flavourCheck
    | with_reducible apply nh_flavourSystem
    | with_reducible apply nh_flavourDomain
    | with_reducible apply nh_flavourNext
    | with_reducible apply nh_limitsLow
    | with_reducible apply nh_limitsHigh
    | with_reducible apply nh_dopplerType
    | with_reducible apply nh_errorValues
    | with_reducible apply nh_unitTime
    | with_reducible apply nh_unitSpace
    | split

theorem nh_unitRed {s : State} (h : NoHang s.status) :
    NoHang (unitRed s).status := by
  unfold unitRed
  repeat' first
    | with_reducible exact h
    | with_reducible apply nh_ite
    | with_reducible apply nh_code
    | with_reducible apply nh_fault
    | with_reducible apply nh_warn
    | with_reducible apply nh_nextWord
    | with_reducible apply nh_append
    | with_reducible apply nh_chop
    | with_reducible apply nh_raise
    | with_reducible apply nh_crash
    | with_reducible apply nh_mapPut
    | with_reducible apply nh_mapPutProp
    | with_reducible apply nh_setTimeScale
    | with_reducible apply nh_setSpaceFrm
    | with_reducible apply nh_setRedFrm
    | with_reducible apply nh_setSpecFrm
    | with_reducible apply nh_needNumber
    | with_reducible apply nh_finishTime
    | with_reducible apply nh_finishSpace
    | with_reducible apply nh_finishSpec
    | with_reducible apply nh_axisLoop
    | with_reducible apply nh_errorLoop
    | with_reducible apply nh_readTime
    | with_reducible apply nh_unitWord
    | with_reducible apply nh_dopplerDef
    | with_reducible apply nh_stepRefPosTime
    | with_reducible apply nh_stepRefPosSpace
    | with_reducible apply nh_stepRefPosSpec
    | with_reducible apply nh_flavourFrame
    | with_reducible apply nh_flavourCheck
    | with_reducible apply nh_flavourSystem
    | with_reducible apply nh_flavourDomain
    | with_reducible apply nh_flavourNext
    | with_reducible apply nh_limitsLow
    | with_reducible apply nh_limitsHigh
    | with_reducible apply nh_dopplerType
    | with_reducible apply nh_errorValues
    | with_reducible apply nh_unitTime
    | with_reducible apply nh_unitSpace
    | with_reducible apply nh_unitSpec
    | split

theorem nh_stepUnit {env : Env} {s : State} {w : String} (h : NoHang s.status) :
    NoHang (stepUnit env s w).status := by
  unfold stepUnit
  repeat' first
    | with_reducible exact h
    | with_reducible apply nh_ite
    | with_reducible apply nh_code
    | with_reducible apply nh_fault
    | with_reducible apply nh_warn
    | with_reducible apply nh_nextWord
    | with_reducible apply nh_append
    | with_reducible apply nh_chop
    | with_reducible apply nh_raise
    | with_reducible apply nh_crash
    | with_reducible apply nh_mapPut
    | with_reducible apply nh_mapPutProp
    | with_reducible apply nh_setTimeScale
    | with_reducible apply nh_setSpaceFrm
    | with_reducible apply nh_setRedFrm
    | with_reducible apply nh_setSpecFrm
    | with_reducible apply nh_needNumber
    | with_reducible apply nh_finishTime
    | with_reducible apply nh_finishSpace
    | with_reducible apply nh_finishSpec
    | with_reducible apply nh_axisLoop
    | with_reducible apply nh_errorLoop
    | with_reducible apply nh_readTime
    | with_reducible apply nh_unitWord
    | with_reducible apply nh_dopplerDef
    | with_reducible apply nh_stepRefPosTime
    | with_reducible apply nh_stepRefPosSpace
    | with_reducible apply nh_stepRefPosSpec
    | with_reducible apply nh_flavourFrame
    | with_reducible apply nh_flavourCheck
    | with_reducible apply nh_flavourSystem
    | with_reducible apply nh_flavourDomain
    | with_reducible apply nh_flavourNext
    | with_reducible apply nh_limitsLow
    | with_reducible apply nh_limitsHigh
    | with_reducible apply nh_dopplerType
    | with_reducible apply nh_errorValues
    | with_reducible apply nh_unitTime
    | with_reducible apply nh_unitSpace
    | with_reducible apply nh_unitSpec
    | with_reducible apply nh_unitRed
    | split

theorem nh_branch {env : Env} (hempty : env.chr2Double "" = none) (lf : LookFor) {s : State}
    {w : String} (h : NoHang s.status) : NoHang (branch env lf s w).status := by
  cases lf with
  | TIME_IDENTIFIER => exact nh_stepTimeIdentifier (w := w) h
  | SPACE_IDENTIFIER => exact nh_stepSpaceIdentifier (w := w) h
  | VELOCITY_IDENTIFIER => exact nh_stepVelocityIdentifier (w := w) h
  | SPECTRAL_IDENTIFIER => exact nh_stepSpectralIdentifier (w := w) h
  | REDSHIFT_IDENTIFIER => exact nh_stepRedshiftIdentifier (w := w) h
  | FILL_FACTOR => exact nh_stepFillFactor (w := w) h
  | TIME_SCALE => exact nh_stepTimeScale (w := w) h
  | FRAME => exact nh_stepFrame (w := w) h
  | REFPOS => exact nh_stepRefPos (w := w) h
  | START => exact nh_stepStart (w := w) h
  | STOP => exact nh_stepStop (w := w) h
  | TIME_LABEL => exact nh_stepTimeLabel (w := w) h
  | TIME => exact nh_stepTime (w := w) h
  | FLAVOUR => exact nh_stepFlavour (w := w) h
  | LIMITS => exact nh_stepLimits (w := w) h
  | RED_SPEC_LABEL => exact nh_stepRedSpecLabel (w := w) h
  | RED_SPEC_VALUE => exact nh_stepRedSpecValue (w := w) h
  | POSITION_INTERVAL => exact nh_stepPositionInterval (w := w) h
  | ALLSKY => exact nh_stepAllSky (w := w) h
  | CIRCLE => exact nh_stepCircle (w := w) h
  | ELLIPSE => exact nh_stepEllipse (w := w) h
  | BOX => exact nh_stepBox (w := w) h
  | POLYGON => exact nh_stepPolygon hempty (w := w) h
  | CONVEX => exact nh_stepConvex (w := w) h
  | POSITION => exact nh_stepPosition (w := w) h
  | POSITION_LABEL => exact nh_stepPositionLabel (w := w) h
  | TYPE_DOPPLER => exact nh_stepTypeDoppler (w := w) h
  | VELOCITY_VALUE => exact nh_stepVelocityValue (w := w) h
  | ERROR => exact nh_stepError hempty (w := w) h
  | RESOLUTION => exact nh_stepResolution hempty (w := w) h
  | SIZE => exact nh_stepSize hempty (w := w) h
  | PIX_SIZE => exact nh_stepPixSize hempty (w := w) h
  | UNIT => exact nh_stepUnit (w := w) h

theorem nh_step {env : Env} (hempty : env.chr2Double "" = none) {s : State} {w : String}
    (h : NoHang s.status) : NoHang (step env s w).status := by
  rw [status_step]
  exact nh_branch hempty s.look_for (s := { s with new_word := true }) h

theorem nh_readLoop {env : Env} (hempty : env.chr2Double "" = none) (n : Nat) {s : State}
    (h : NoHang s.status) : NoHang (readLoop env n s).status := by
  induction n generalizing s with
  | zero => exact h
  | succ n ih =>
    unfold readLoop
    split
    · split
      · exact ih (nh_step hempty h)
      · exact h
    · exact h

/-! ## Read terminates -/

theorem readLoop_consistent (env : Env) (n : Nat) (s : State) (hc : Consistent s) :
    Consistent (readLoop env n s) := by
  induction n generalizing s with
  | zero => exact hc
  | succ n ih =>
    by_cases hr : s.running = true
    · obtain ⟨w, hw, hok, hb⟩ := running_cases s hr
      rw [readLoop_succ env n s w hw hok hb]
      exact ih _ (step_consistent env s w hc hb)
    · rw [readLoop_stopped env _ s (by simpa using hr)]
      exact hc

theorem Read_returns (env : Env) (this : AstStcsChan) (n m : Nat) (source : List String)
    (hn : n ≤ m) (h : (readLoop env n (initState source)).running = false) :
    Read env this m source = Read env this n source
    ∧ (Read env this m source).isSome = true := by
  have e := readLoop_stays env n m (initState source) hn h
  unfold Read
  simp only [e, h, Bool.false_eq_true, if_false, Option.isSome_some, and_self]

end StcsChan
